import Mathlib

set_option maxHeartbeats 1600000

/-!
Shallow embedding of the MESI cache-coherence simulator (directory `CACHE`
plus its headers): `CacheLine.h`/`CacheLine.cpp`, `CacheSet.h`/`CacheSet.cpp`,
`Cache.h`/`Cache.cpp`, `Bus.h`/`Bus.cpp`, `Statistics.cpp`, `Processor.h`/
`Processor.cpp`, `Simulator.h`/`Simulator.cpp`.

Conventions of the embedding:
* C++ `unsigned int` / `uint32_t` addresses and tags are `Nat` (callers pass
  values `< 2^32`; the shifts and masks below never overflow 32 bits for such
  inputs, so no explicit wrap-around is needed).
* C++ `int` cycle counters are `Int`; `uint64_t` statistics are `Nat`.
* The C++ sentinel `-1` of `findLine` / `lastSharedCacheId` is `Option Nat`.
* Reference (`int&`, `bool&`) out-parameters become extra inputs and outputs.
* Objects mutated in place become explicit state threading; methods of
  `Cache` that reach into peer caches (`evictLine`, and the snoop pass of
  `Bus`) are modelled on the list of all caches, indexed by core id exactly
  as `Bus::connectCaches` sets the roster up.
-/

namespace CacheSim

/-- MESI states, from `CacheLine.h` (`enum class CacheState`). -/
inductive CacheState where
  | MODIFIED
  | EXCLUSIVE
  | SHARED
  | INVALID
deriving DecidableEq, Repr

/-- One cache line's metadata: tag and MESI state, from `CacheLine.h`
(the data payload bytes are irrelevant to the claims and omitted). -/
structure CacheLine where
  tag : Nat
  state : CacheState
deriving DecidableEq, Repr

instance : Inhabited CacheLine := ⟨⟨0, CacheState.INVALID⟩⟩

/-- `CacheLine::isValid`: state different from INVALID. -/
def CacheLine.isValid (l : CacheLine) : Bool :=
  l.state ≠ CacheState.INVALID

/-- `CacheLine::setState`. -/
def CacheLine.setState (l : CacheLine) (s : CacheState) : CacheLine :=
  { l with state := s }

/-- `CacheLine::setTag`. -/
def CacheLine.setTag (l : CacheLine) (t : Nat) : CacheLine :=
  { l with tag := t }

/-- A cache set: lines plus per-line LRU counters, from `CacheSet.h`.
The counters are `int` in C++ but only ever 0 or incremented, hence `Nat`. -/
structure CacheSet where
  lines : List CacheLine
  lruCounter : List Nat
deriving DecidableEq, Repr

instance : Inhabited CacheSet := ⟨⟨[], []⟩⟩

/-- `CacheSet` constructor: `associativity` invalid lines, counters all 0. -/
def CacheSet.init (associativity : Nat) : CacheSet :=
  { lines := List.replicate associativity default
    lruCounter := List.replicate associativity 0 }

/-- `CacheSet::getLine` (bounds-checked in C++; in-range wherever called). -/
def CacheSet.getLine (s : CacheSet) (index : Nat) : CacheLine :=
  s.lines.getD index default

/-- The scan of `CacheSet::findLine`: first index whose line is valid and
has the given tag, counting from `i`. -/
def findLineAux (tag : Nat) : List CacheLine → Nat → Option Nat
  | [], _ => none
  | l :: rest, i =>
      if l.isValid && l.tag == tag then some i else findLineAux tag rest (i + 1)

/-- `CacheSet::findLine`: `-1` becomes `none`. -/
def CacheSet.findLine (s : CacheSet) (tag : Nat) : Option Nat :=
  findLineAux tag s.lines 0

/-- `CacheSet::updateLRU`: increment every counter, reset the accessed one. -/
def CacheSet.updateLRU (s : CacheSet) (lineIndex : Nat) : CacheSet :=
  { s with lruCounter := (s.lruCounter.map (· + 1)).set lineIndex 0 }

/-- The loop of `CacheSet::getLRUIndex`: running maximum (`maxCounter`,
starting at `-1`) and its first index. -/
def getLRUIndexAux : List Nat → Nat → Int → Nat → Nat
  | [], _, _, best => best
  | x :: xs, i, maxC, best =>
      if (x : Int) > maxC then getLRUIndexAux xs (i + 1) (x : Int) i
      else getLRUIndexAux xs (i + 1) maxC best

/-- `CacheSet::getLRUIndex`: index of the maximum LRU counter, first one on
ties (strict `>` against the running maximum keeps the earliest). -/
def CacheSet.getLRUIndex (s : CacheSet) : Nat :=
  getLRUIndexAux s.lruCounter 0 (-1) 0

/-- First invalid slot, the initial loop of `CacheSet::allocateLine`. -/
def findInvalidAux : List CacheLine → Nat → Option Nat
  | [], _ => none
  | l :: rest, i =>
      if !l.isValid then some i else findInvalidAux rest (i + 1)

/-- `CacheSet::allocateLine`: pick the first invalid slot, else the LRU
victim; set its tag and mark it most recently used. Returns the chosen
index together with the updated set. -/
def CacheSet.allocateLine (s : CacheSet) (tag : Nat) : Nat × CacheSet :=
  match findInvalidAux s.lines 0 with
  | some i =>
      (i, CacheSet.updateLRU { s with lines := s.lines.set i ((s.getLine i).setTag tag) } i)
  | none =>
      let lruIndex := s.getLRUIndex
      (lruIndex,
        CacheSet.updateLRU
          { s with lines := s.lines.set lruIndex ((s.getLine lruIndex).setTag tag) } lruIndex)

/-- `CacheSet::isFull`: every line valid. -/
def CacheSet.isFull (s : CacheSet) : Bool :=
  s.lines.all (·.isValid)

/-- Overwrite the state of line `index` (the `line.setState(...)` mutations
performed through `CacheSet::getLine` references in `Cache.cpp`). -/
def CacheSet.setLineState (s : CacheSet) (index : Nat) (st : CacheState) : CacheSet :=
  { s with lines := s.lines.set index ((s.getLine index).setState st) }

/-- The counters of `Statistics.cpp` (all `uint64_t`). -/
structure Statistics where
  accesses : Nat := 0
  misses : Nat := 0
  readMisses : Nat := 0
  writeMisses : Nat := 0
  evictions : Nat := 0
  writebacks : Nat := 0
  totalInstructions : Nat := 0
  readInstructions : Nat := 0
  writeInstructions : Nat := 0
  busReads : Nat := 0
  busReadXs : Nat := 0
  busUpgrades : Nat := 0
  busFlushes : Nat := 0
  invalidations : Nat := 0
  busTraffic : Nat := 0
deriving DecidableEq, Repr

instance : Inhabited Statistics := ⟨{}⟩

/-- `Statistics::incrementAccesses` (default count 1). -/
def Statistics.incrementAccesses (s : Statistics) : Statistics :=
  { s with accesses := s.accesses + 1 }

/-- `Statistics::incrementReadMisses`: also bumps `misses`. -/
def Statistics.incrementReadMisses (s : Statistics) : Statistics :=
  { s with readMisses := s.readMisses + 1, misses := s.misses + 1 }

/-- `Statistics::incrementWriteMisses`: also bumps `misses`. -/
def Statistics.incrementWriteMisses (s : Statistics) : Statistics :=
  { s with writeMisses := s.writeMisses + 1, misses := s.misses + 1 }

/-- `Statistics::incrementEvictions`. -/
def Statistics.incrementEvictions (s : Statistics) : Statistics :=
  { s with evictions := s.evictions + 1 }

/-- `Statistics::incrementWritebacks`. -/
def Statistics.incrementWritebacks (s : Statistics) : Statistics :=
  { s with writebacks := s.writebacks + 1 }

/-- `Statistics::incrementReads` forwards to `incrementReadInstructions`,
which bumps `readInstructions` and `totalInstructions`. -/
def Statistics.incrementReads (s : Statistics) : Statistics :=
  { s with readInstructions := s.readInstructions + 1
           totalInstructions := s.totalInstructions + 1 }

/-- `Statistics::incrementWrites` forwards to `incrementWriteInstructions`. -/
def Statistics.incrementWrites (s : Statistics) : Statistics :=
  { s with writeInstructions := s.writeInstructions + 1
           totalInstructions := s.totalInstructions + 1 }

/-- `Statistics::incrementBusReads`. -/
def Statistics.incrementBusReads (s : Statistics) : Statistics :=
  { s with busReads := s.busReads + 1 }

/-- `Statistics::incrementBusReadXs`. -/
def Statistics.incrementBusReadXs (s : Statistics) : Statistics :=
  { s with busReadXs := s.busReadXs + 1 }

/-- `Statistics::incrementBusUpgrades`. -/
def Statistics.incrementBusUpgrades (s : Statistics) : Statistics :=
  { s with busUpgrades := s.busUpgrades + 1 }

/-- `Statistics::incrementBusFlushes`. -/
def Statistics.incrementBusFlushes (s : Statistics) : Statistics :=
  { s with busFlushes := s.busFlushes + 1 }

/-- `Statistics::incrementInvalidations`. -/
def Statistics.incrementInvalidations (s : Statistics) : Statistics :=
  { s with invalidations := s.invalidations + 1 }

/-- `Statistics::incrementBusTraffic` (by a byte count). -/
def Statistics.incrementBusTraffic (s : Statistics) (bytes : Nat) : Statistics :=
  { s with busTraffic := s.busTraffic + bytes }

/-- Bus operations, from `Bus.h` (`enum class BusOperation`). -/
inductive BusOperation where
  | BusRd
  | BusRdX
  | BusUpgr
  | Flush
  | FlushOpt
deriving DecidableEq, Repr

/-- `struct BusTransaction` of `Bus.h`; the constructor initialises
`dataProvided = false` and `cycles = 0`. -/
structure BusTransaction where
  operation : BusOperation
  address : Nat
  sourceId : Nat
  dataProvided : Bool := false
  cycles : Int := 0
deriving DecidableEq, Repr

/-- The `Bus` object state (`Bus.h`): busy flag, remaining cycles of the
in-flight transaction, FIFO of pending transactions, statistics.  The cache
roster lives in `Sys` below. -/
structure Bus where
  busy : Bool := false
  currentCycles : Int := 0
  pendingTransactions : List BusTransaction := []
  stats : Statistics := {}
deriving DecidableEq, Repr

instance : Inhabited Bus := ⟨{}⟩

/-- One L1 cache (`Cache.h`): configuration, its sets, the blocked flag and
counter, per-core statistics. -/
structure Cache where
  coreId : Nat
  setIndexBits : Nat
  blockOffsetBits : Nat
  associativity : Nat
  sets : List CacheSet
  isBlocked : Bool
  blockedCycles : Int
  stats : Statistics
deriving DecidableEq, Repr

instance : Inhabited Cache :=
  ⟨⟨0, 0, 0, 0, [], false, 0, {}⟩⟩

/-- Derived `numSets = 1 << setIndexBits` (`Cache::Cache`). -/
def Cache.numSets (c : Cache) : Nat := 2 ^ c.setIndexBits

/-- Derived `blockSize = 1 << blockOffsetBits` (`Cache::Cache`). -/
def Cache.blockSize (c : Cache) : Nat := 2 ^ c.blockOffsetBits

/-- `Cache::Cache`: all sets start with invalid lines and zero counters. -/
def Cache.init (coreId setIndexBits associativity blockOffsetBits : Nat) : Cache :=
  { coreId := coreId
    setIndexBits := setIndexBits
    blockOffsetBits := blockOffsetBits
    associativity := associativity
    sets := List.replicate (2 ^ setIndexBits) (CacheSet.init associativity)
    isBlocked := false
    blockedCycles := 0
    stats := {} }

/-- `Cache::getTag`: `address >> (setIndexBits + blockOffsetBits)`. -/
def Cache.getTag (c : Cache) (address : Nat) : Nat :=
  address >>> (c.setIndexBits + c.blockOffsetBits)

/-- `Cache::getSetIndex`: `(address >> blockOffsetBits) & ((1 << s) - 1)`;
masking with `2^s - 1` is reduction mod `2^s`. -/
def Cache.getSetIndex (c : Cache) (address : Nat) : Nat :=
  (address >>> c.blockOffsetBits) % 2 ^ c.setIndexBits

/-- `Cache::getLineIndex`: find the line for `address` in its set. -/
def Cache.getLineIndex (c : Cache) (address : Nat) : Option Nat :=
  (c.sets.getD (c.getSetIndex address) default).findLine (c.getTag address)

/-- Replace set `setIndex` of a cache (a mutation through `sets[setIndex]`). -/
def Cache.putSet (c : Cache) (setIndex : Nat) (s : CacheSet) : Cache :=
  { c with sets := c.sets.set setIndex s }

/-- `Cache::isBlocking`. -/
def Cache.isBlocking (c : Cache) : Bool := c.isBlocked

/-- The MESI state a set holds for a tag: the state of the first valid
matching line, INVALID when there is none (the observation
`Cache::getCacheLineState` makes). -/
def CacheSet.stateOf (s : CacheSet) (tagv : Nat) : CacheState :=
  match s.findLine tagv with
  | none => CacheState.INVALID
  | some i => (s.getLine i).state

/-- The observation of `Cache::getCacheLineState` addressed by raw set
index and tag value. -/
def Cache.stateAt (c : Cache) (setIdx tagv : Nat) : CacheState :=
  (c.sets.getD setIdx default).stateOf tagv

/-- `Cache::getCacheLineState`, as the plain MESI state ("INVALID" when the
line is absent).  This is the per-address observation the invariant claims
quantify over. -/
def Cache.lineState (c : Cache) (address : Nat) : CacheState :=
  c.stateAt (c.getSetIndex address) (c.getTag address)

/-- Result of `Cache::snoop`: the updated cache, the two reference
out-parameters (`providedData`, `cycles`) and the returned `bool`. -/
structure SnoopResult where
  cache : Cache
  providedData : Bool
  cycles : Int
  ok : Bool
deriving DecidableEq, Repr

/-- `Cache::snoop` (`Cache.cpp`).  Self-snoops return immediately; a miss
returns immediately; otherwise the transition table of the `switch`:

* `BusRd`: M provides, `+2·words + 100` cycles, writeback counted, traffic
  charged twice, state → S; E provides, `+2·words`, traffic once, → S;
  S provides, `+2·words`, traffic once, stays S.
* `BusRdX`: M provides, `+200`, writeback, traffic twice, → I, invalidation;
  E provides, `+100`, traffic once, → I, invalidation; S provides, `+100`,
  traffic once, → I, invalidation.
* `BusUpgr`: S → I with an invalidation (no data, no cycles); E and M
  provide, `+2·words`, traffic once, → I, invalidation.
* `Flush`/`FlushOpt` fall to the empty `default:` branch. -/
def Cache.snoop (c : Cache) (op : BusOperation) (address sourceId : Nat)
    (providedData : Bool) (cycles : Int) : SnoopResult :=
  if sourceId = c.coreId then
    ⟨c, providedData, cycles, true⟩
  else
    let tag := c.getTag address
    let setIndex := c.getSetIndex address
    let set := c.sets.getD setIndex default
    match set.findLine tag with
    | none => ⟨c, providedData, cycles, true⟩
    | some lineIndex =>
      let line := set.getLine lineIndex
      let wordsInBlock : Int := (c.blockSize / 4 : Nat)
      match op, line.state with
      | BusOperation.BusRd, CacheState.MODIFIED =>
          ⟨{ (c.putSet setIndex (set.setLineState lineIndex CacheState.SHARED)) with
              stats := ((c.stats.incrementWritebacks.incrementBusTraffic
                  c.blockSize).incrementBusTraffic c.blockSize) },
            true, cycles + 2 * wordsInBlock + 100, true⟩
      | BusOperation.BusRd, CacheState.EXCLUSIVE =>
          ⟨{ (c.putSet setIndex (set.setLineState lineIndex CacheState.SHARED)) with
              stats := c.stats.incrementBusTraffic c.blockSize },
            true, cycles + 2 * wordsInBlock, true⟩
      | BusOperation.BusRd, CacheState.SHARED =>
          ⟨{ c with stats := c.stats.incrementBusTraffic c.blockSize },
            true, cycles + 2 * wordsInBlock, true⟩
      | BusOperation.BusRdX, CacheState.MODIFIED =>
          ⟨{ (c.putSet setIndex (set.setLineState lineIndex CacheState.INVALID)) with
              stats := (((c.stats.incrementWritebacks.incrementBusTraffic
                  c.blockSize).incrementBusTraffic c.blockSize).incrementInvalidations) },
            true, cycles + 200, true⟩
      | BusOperation.BusRdX, CacheState.EXCLUSIVE =>
          ⟨{ (c.putSet setIndex (set.setLineState lineIndex CacheState.INVALID)) with
              stats := (c.stats.incrementBusTraffic c.blockSize).incrementInvalidations },
            true, cycles + 100, true⟩
      | BusOperation.BusRdX, CacheState.SHARED =>
          ⟨{ (c.putSet setIndex (set.setLineState lineIndex CacheState.INVALID)) with
              stats := (c.stats.incrementBusTraffic c.blockSize).incrementInvalidations },
            true, cycles + 100, true⟩
      | BusOperation.BusUpgr, CacheState.SHARED =>
          ⟨{ (c.putSet setIndex (set.setLineState lineIndex CacheState.INVALID)) with
              stats := c.stats.incrementInvalidations },
            providedData, cycles, true⟩
      | BusOperation.BusUpgr, CacheState.EXCLUSIVE =>
          ⟨{ (c.putSet setIndex (set.setLineState lineIndex CacheState.INVALID)) with
              stats := (c.stats.incrementBusTraffic c.blockSize).incrementInvalidations },
            true, cycles + 2 * wordsInBlock, true⟩
      | BusOperation.BusUpgr, CacheState.MODIFIED =>
          ⟨{ (c.putSet setIndex (set.setLineState lineIndex CacheState.INVALID)) with
              stats := (c.stats.incrementBusTraffic c.blockSize).incrementInvalidations },
            true, cycles + 2 * wordsInBlock, true⟩
      | _, _ => ⟨c, providedData, cycles, true⟩

/-- The scan of `Cache::evictLine`'s SHARED branch: over the cache roster,
count peers (`coreId ≠ selfCoreId`) whose line for `address` is valid and
SHARED, remembering the last such core id (`-1` sentinel becomes `none`).
`setIdx` is the evictor's `getSetIndex(address)`, used for the inner
`sets[getSetIndex(address)]` lookup exactly as in the source. -/
def scanSharedAux (selfCoreId setIdx address : Nat) :
    List Cache → Nat × Option Nat → Nat × Option Nat
  | [], acc => acc
  | c :: rest, (cnt, last) =>
      if c.coreId ≠ selfCoreId then
        match c.getLineIndex address with
        | some lineIndex =>
            let otherLine := (c.sets.getD setIdx default).getLine lineIndex
            if otherLine.isValid ∧ otherLine.state = CacheState.SHARED then
              scanSharedAux selfCoreId setIdx address rest (cnt + 1, some c.coreId)
            else
              scanSharedAux selfCoreId setIdx address rest (cnt, last)
        | none => scanSharedAux selfCoreId setIdx address rest (cnt, last)
      else scanSharedAux selfCoreId setIdx address rest (cnt, last)

/-- `Cache::evictLine` on the victim at (`setIndex`, `lineIndex`) of the
cache at `selfIdx`, with `address` the reconstructed victim address:

* MODIFIED victim: `cycles += 100`, writeback counted, then invalidate;
* SHARED victim: scan peers; if exactly one other cache still holds the
  block SHARED, promote that peer's copy to EXCLUSIVE (the silent S→E
  promotion), then invalidate;
* otherwise just invalidate. -/
def evictLine (caches : List Cache) (selfIdx setIndex lineIndex address : Nat)
    (cycles : Int) : List Cache × Int :=
  let self := caches.getD selfIdx default
  let set := self.sets.getD setIndex default
  let line := set.getLine lineIndex
  match line.state with
  | CacheState.MODIFIED =>
      let self' :=
        { (self.putSet setIndex (set.setLineState lineIndex CacheState.INVALID)) with
            stats := self.stats.incrementWritebacks }
      (caches.set selfIdx self', cycles + 100)
  | CacheState.SHARED =>
      let scanned := scanSharedAux self.coreId (self.getSetIndex address) address caches (0, none)
      let caches1 :=
        match scanned with
        | (1, some lastSharedCacheId) =>
            let lastCache := caches.getD lastSharedCacheId default
            match lastCache.getLineIndex address with
            | some li =>
                let peerSet := lastCache.sets.getD (self.getSetIndex address) default
                caches.set lastSharedCacheId
                  (lastCache.putSet (self.getSetIndex address)
                    (peerSet.setLineState li CacheState.EXCLUSIVE))
            | none => caches
        | _ => caches
      let self1 := caches1.getD selfIdx default
      let set1 := self1.sets.getD setIndex default
      (caches1.set selfIdx
        (self1.putSet setIndex (set1.setLineState lineIndex CacheState.INVALID)), cycles)
  | _ =>
      (caches.set selfIdx
        (self.putSet setIndex (set.setLineState lineIndex CacheState.INVALID)), cycles)

/-- `Cache::allocateLine` of the cache at `selfIdx` (`Cache.cpp`): evict the
LRU victim when the set is full (charging its writeback into `cycles` and
counting an eviction), allocate a slot for the tag, set the new line's
state (`MODIFIED` on writes, else `SHARED` iff `busresponse`), and clear
the blocked flag. -/
def allocateLine (caches : List Cache) (selfIdx address : Nat) (isWrite : Bool)
    (cycles : Int) (busresponse : Bool) : List Cache × Int :=
  let self := caches.getD selfIdx default
  let tag := self.getTag address
  let setIndex := self.getSetIndex address
  let set := self.sets.getD setIndex default
  let evicted :=
    if set.isFull then
      let victimIndex := set.getLRUIndex
      let victimLine := set.getLine victimIndex
      if victimLine.isValid then
        let victimAddress :=
          victimLine.tag <<< (self.setIndexBits + self.blockOffsetBits) |||
            setIndex <<< self.blockOffsetBits
        let ec := evictLine caches selfIdx setIndex victimIndex victimAddress cycles
        let self' := ec.1.getD selfIdx default
        (ec.1.set selfIdx { self' with stats := self'.stats.incrementEvictions }, ec.2)
      else (caches, cycles)
    else (caches, cycles)
  let self1 := evicted.1.getD selfIdx default
  let set1 := self1.sets.getD setIndex default
  let alloc := set1.allocateLine tag
  let newState :=
    if isWrite then CacheState.MODIFIED
    else if busresponse then CacheState.SHARED
    else CacheState.EXCLUSIVE
  let set2 := alloc.2.setLineState alloc.1 newState
  let self2 := { (self1.putSet setIndex set2) with isBlocked := false }
  (evicted.1.set selfIdx self2, evicted.2)

/-- The whole simulated machine: the cache roster (indexed by core id, as
`Bus::registerCache`/`Bus::connectCaches` lay it out) plus the bus. -/
structure Sys where
  caches : List Cache
  bus : Bus
deriving DecidableEq, Repr

/-- The loop body of `Bus::processSnooping`, iterated over cache indices:
skip the source, snoop each other cache with a fresh `snoopCycles = 0`,
fold the `providedData` flag through the transaction, and add the snoop's
cycles when it took cycles and the transaction now has data. -/
def snoopPass : List Nat → List Cache × BusTransaction → List Cache × BusTransaction
  | [], acc => acc
  | i :: rest, (cs, tr) =>
      if i = tr.sourceId then snoopPass rest (cs, tr)
      else
        let c := cs.getD i default
        let r := c.snoop tr.operation tr.address tr.sourceId tr.dataProvided 0
        let tr' :=
          { tr with dataProvided := r.providedData
                    cycles := if r.cycles > 0 ∧ r.providedData then tr.cycles + r.cycles
                              else tr.cycles }
        snoopPass rest (cs.set i r.cache, tr')

/-- `Bus::processSnooping`: snoop every registered cache in index order. -/
def processSnooping (caches : List Cache) (tr : BusTransaction) :
    List Cache × BusTransaction :=
  snoopPass (List.range caches.length) (caches, tr)

/-- Result of `Bus::busOperation`: updated system, the returned `bool`
(`accepted`) and the two reference out-parameters. -/
structure BusOpResult where
  sys : Sys
  accepted : Bool
  dataProvided : Bool
  cycles : Int
deriving DecidableEq, Repr

/-- `Bus::busOperation` (`Bus.cpp`).  A busy bus enqueues the transaction
and returns `false` leaving the out-parameters untouched.  Otherwise:
snoop pass, operation counter, latency = the transaction's accumulated
snoop cycles when data was provided (plus 32 bytes of bus traffic, the
hard-coded `blockSize`) or a flat 100 memory access; `currentCycles` is
set and `busy` is reset to `false` before returning (the assignment the
comment above it says to remove is still present in the source). -/
def busOperation (sys : Sys) (operation : BusOperation) (address sourceId : Nat)
    (dataProvided : Bool) (cycles : Int) : BusOpResult :=
  let t : BusTransaction := { operation := operation, address := address, sourceId := sourceId }
  if sys.bus.busy then
    { sys := { sys with bus :=
        { sys.bus with pendingTransactions := sys.bus.pendingTransactions ++ [t] } }
      accepted := false, dataProvided := dataProvided, cycles := cycles }
  else
    let snooped := processSnooping sys.caches t
    let t' := snooped.2
    let stats1 :=
      match operation with
      | BusOperation.BusRd => sys.bus.stats.incrementBusReads
      | BusOperation.BusRdX => sys.bus.stats.incrementBusReadXs
      | BusOperation.BusUpgr => sys.bus.stats.incrementBusUpgrades
      | BusOperation.Flush => sys.bus.stats.incrementBusFlushes
      | BusOperation.FlushOpt => sys.bus.stats.incrementBusFlushes
    let stats2 := if t'.dataProvided then stats1.incrementBusTraffic 32 else stats1
    let cyclesOut : Int := if t'.dataProvided then t'.cycles else 100
    { sys :=
        { caches := snooped.1
          bus :=
            { busy := false
              currentCycles := cyclesOut
              pendingTransactions := sys.bus.pendingTransactions
              stats := stats2 } }
      accepted := true, dataProvided := t'.dataProvided, cycles := cyclesOut }

/-- `Bus::processNextPendingTransaction`: pop the front transaction and
re-issue it; when the re-issue is refused it is pushed once more (on top
of the copy `busOperation` itself enqueued). -/
def processNextPendingTransaction (sys : Sys) : Sys :=
  match sys.bus.pendingTransactions with
  | [] => sys
  | t :: rest =>
      let sys1 : Sys := { sys with bus := { sys.bus with pendingTransactions := rest } }
      let r := busOperation sys1 t.operation t.address t.sourceId false 0
      if r.accepted then r.sys
      else
        { r.sys with bus :=
            { r.sys.bus with pendingTransactions := r.sys.bus.pendingTransactions ++ [t] } }

/-- `Bus::processCycle`: while busy, count the in-flight transaction down,
clearing `busy` and starting the next pending transaction at zero; when
idle with pending transactions, start the next one. -/
def busProcessCycle (sys : Sys) : Sys :=
  if sys.bus.busy ∧ sys.bus.currentCycles > 0 then
    let cc := sys.bus.currentCycles - 1
    if cc = 0 then
      processNextPendingTransaction
        { sys with bus := { sys.bus with currentCycles := cc, busy := false } }
    else { sys with bus := { sys.bus with currentCycles := cc } }
  else if ¬sys.bus.busy ∧ sys.bus.pendingTransactions ≠ [] then
    processNextPendingTransaction sys
  else sys

/-- `Bus::reset` (from `Bus.h`), used by the Simulator's deadlock breaker. -/
def busReset (sys : Sys) : Sys :=
  { sys with bus := { sys.bus with busy := false, currentCycles := 0, pendingTransactions := [] } }

/-- `Cache::unblock`, used by `Simulator::resolveDeadlock`. -/
def sysUnblock (sys : Sys) (i : Nat) : Sys :=
  let c := sys.caches.getD i default
  { sys with caches := sys.caches.set i { c with isBlocked := false } }

/-- `Cache::lookupAndUpdate`: probe the set; on a hit refresh the LRU
position (the `cycles` reference is untouched). -/
def Cache.lookupAndUpdate (c : Cache) (address : Nat) : Cache × Bool :=
  let tag := c.getTag address
  let setIndex := c.getSetIndex address
  let set := c.sets.getD setIndex default
  match set.findLine tag with
  | some lineIndex => (c.putSet setIndex (set.updateLRU lineIndex), true)
  | none => (c, false)

/-- Result of `Cache::read` / `Cache::write`: updated system, the returned
`bool` and the `cycles` reference out-parameter. -/
structure AccessResult where
  sys : Sys
  accepted : Bool
  cycles : Int
deriving DecidableEq, Repr

/-- `Cache::read` of the cache at index `i` (`Cache.cpp`).  A blocked cache
refuses.  A hit returns `cycles = 1`.  A miss counts, blocks, issues
`BusRd`, allocates (SHARED iff the bus reported data provided), then adds
the final `busCycles` into `cycles` and `busCycles - 1` into
`blockedCycles`. -/
def cacheRead (sys : Sys) (i address : Nat) (cycles : Int) : AccessResult :=
  let c := sys.caches.getD i default
  if c.isBlocked then ⟨sys, false, cycles⟩
  else
    let c := { c with stats := c.stats.incrementAccesses.incrementReads }
    let looked := c.lookupAndUpdate address
    if looked.2 then
      ⟨{ sys with caches := sys.caches.set i looked.1 }, true, 1⟩
    else
      let c := { looked.1 with stats := looked.1.stats.incrementReadMisses, isBlocked := true }
      let sys1 : Sys := { sys with caches := sys.caches.set i c }
      let r := busOperation sys1 BusOperation.BusRd address c.coreId false 0
      let busresponse := r.accepted && r.dataProvided
      let alloc := allocateLine r.sys.caches i address false r.cycles busresponse
      let self2 := alloc.1.getD i default
      let caches3 :=
        alloc.1.set i { self2 with blockedCycles := self2.blockedCycles + (alloc.2 - 1) }
      ⟨{ caches := caches3, bus := r.sys.bus }, true, cycles + alloc.2⟩

/-- `Cache::write` of the cache at index `i` (`Cache.cpp`).  A blocked
cache refuses.  On a hit: a SHARED line issues `BusUpgr` (adding its
cycles) and upgrades to MODIFIED; an EXCLUSIVE line silently upgrades to
MODIFIED; a MODIFIED line is left alone; the `cycles` out-parameter is
never set to 1 on hits.  On a miss: count, block, issue `BusRdX`,
allocate MODIFIED, add the final `busCycles`, and overwrite
`blockedCycles` with `max (busCycles - 1) 0`. -/
def cacheWrite (sys : Sys) (i address : Nat) (cycles : Int) : AccessResult :=
  let c := sys.caches.getD i default
  if c.isBlocked then ⟨sys, false, cycles⟩
  else
    let c := { c with stats := c.stats.incrementAccesses.incrementWrites }
    let looked := c.lookupAndUpdate address
    let c := looked.1
    if looked.2 then
      let tag := c.getTag address
      let setIndex := c.getSetIndex address
      let set := c.sets.getD setIndex default
      match set.findLine tag with
      | none => ⟨{ sys with caches := sys.caches.set i c }, true, cycles⟩
      | some lineIndex =>
        let line := set.getLine lineIndex
        if line.state = CacheState.SHARED ∨ line.state = CacheState.EXCLUSIVE then
          if line.state = CacheState.SHARED then
            let sys1 : Sys := { sys with caches := sys.caches.set i c }
            let r := busOperation sys1 BusOperation.BusUpgr address c.coreId false 0
            let c2 := r.sys.caches.getD i default
            let set2 := c2.sets.getD setIndex default
            let c3 := c2.putSet setIndex (set2.setLineState lineIndex CacheState.MODIFIED)
            ⟨{ r.sys with caches := r.sys.caches.set i c3 }, true, cycles + r.cycles⟩
          else
            let c3 := c.putSet setIndex (set.setLineState lineIndex CacheState.MODIFIED)
            ⟨{ sys with caches := sys.caches.set i c3 }, true, cycles⟩
        else ⟨{ sys with caches := sys.caches.set i c }, true, cycles⟩
    else
      let c := { c with stats := c.stats.incrementWriteMisses, isBlocked := true }
      let sys1 : Sys := { sys with caches := sys.caches.set i c }
      let r := busOperation sys1 BusOperation.BusRdX address c.coreId false 0
      let busresponse := r.accepted && r.dataProvided
      let alloc := allocateLine r.sys.caches i address true r.cycles busresponse
      let self2 := alloc.1.getD i default
      let caches3 :=
        alloc.1.set i
          { self2 with blockedCycles := if alloc.2 > 0 then alloc.2 - 1 else 0 }
      ⟨{ caches := caches3, bus := r.sys.bus }, true, cycles + alloc.2⟩

/-- The initial machine built by `Simulator::Simulator`: `numCores` caches
with shared parameters, registered on the bus by core id, all empty. -/
def initSys (numCores setIndexBits associativity blockOffsetBits : Nat) : Sys :=
  { caches := (List.range numCores).map
      (fun i => Cache.init i setIndexBits associativity blockOffsetBits)
    bus := {} }

/-- `enum class MemoryOperation` of `Processor.h`. -/
inductive MemoryOperation where
  | READ
  | WRITE
deriving DecidableEq, Repr

/-- `struct MemoryReference` of `Processor.h`. -/
structure MemoryReference where
  operation : MemoryOperation
  address : Nat
deriving DecidableEq, Repr

/-- One line of a trace file, abstracted to the three outcomes of
`Processor::loadNextReference`'s parsing (`iss >> opType >> addressStr`
followed by the R/W letter check): a well-formed reference, a line whose
operation letter is unknown, or a line whose two fields do not extract. -/
inductive TraceLine where
  | good : MemoryOperation → Nat → TraceLine
  | badOp
  | badFields
deriving DecidableEq, Repr

/-- Whether a trace line would parse into a reference. -/
def TraceLine.isGood : TraceLine → Bool
  | TraceLine.good _ _ => true
  | _ => false

/-- The `Processor` state (`Processor.h`): its trace stream position
(`remaining` plus the stream's EOF flag), the prefetched reference queue,
and the counters.  The file is assumed open (the claims concern parse
errors, not open failures). -/
structure Processor where
  coreId : Nat
  remaining : List TraceLine
  eofFlag : Bool := false
  pendingReferences : List MemoryReference := []
  totalInstructions : Int := 0
  readInstructions : Int := 0
  writeInstructions : Int := 0
  totalCycles : Int := 0
  idleCycles : Int := 0
  traceComplete : Bool := false
  blocked : Bool := false
deriving DecidableEq, Repr

/-- `Processor::loadNextReference`: at EOF return `false`; otherwise read
one line.  A good line is queued (`true`).  An unknown operation letter
warns and returns `false`; fields that fail to extract fall through to the
EOF check and return `false`.  When `getline` itself fails, the EOF flag
is set and, if the queue is empty, the trace is marked complete. -/
def loadNextReference (p : Processor) : Processor × Bool :=
  if p.eofFlag then (p, false)
  else
    match p.remaining with
    | [] =>
        let p1 := { p with eofFlag := true }
        ({ p1 with traceComplete := p1.traceComplete || p1.pendingReferences.isEmpty }, false)
    | line :: rest =>
        match line with
        | TraceLine.good op addr =>
            ({ p with remaining := rest
                      pendingReferences := p.pendingReferences ++ [⟨op, addr⟩] }, true)
        | TraceLine.badOp => ({ p with remaining := rest }, false)
        | TraceLine.badFields => ({ p with remaining := rest }, false)

/-- The preload loops: `for (int i = 0; i < n && loadNextReference(); i++)`
(n = 10 in the constructor, 5 in the refill at the end of
`executeCycle`). -/
def preload : Nat → Processor → Processor
  | 0, p => p
  | n + 1, p =>
      let l := loadNextReference p
      if l.2 then preload n l.1 else l.1

/-- `Processor::Processor`: open the trace and preload up to 10
references. -/
def Processor.init (coreId : Nat) (trace : List TraceLine) : Processor :=
  preload 10 { coreId := coreId, remaining := trace }

/-- Result of `Processor::executeCycle`: processor, system, returned bool. -/
structure ExecResult where
  proc : Processor
  sys : Sys
  ok : Bool
deriving DecidableEq, Repr

/-- The body of `Processor::executeCycle` after the blocked check and the
queue emptiness check: pop one reference, offer it to the cache, account,
and opportunistically refill the queue to 5. -/
def executeRef (p : Processor) (sys : Sys) : ExecResult :=
  match p.pendingReferences with
  | [] => ⟨p, sys, false⟩
  | ref :: rest =>
      let p := { p with pendingReferences := rest }
      let res :=
        match ref.operation with
        | MemoryOperation.READ => cacheRead sys p.coreId ref.address 0
        | MemoryOperation.WRITE => cacheWrite sys p.coreId ref.address 0
      let p :=
        if res.accepted then
          match ref.operation with
          | MemoryOperation.READ =>
              { p with readInstructions := p.readInstructions + 1
                       totalInstructions := p.totalInstructions + 1 }
          | MemoryOperation.WRITE =>
              { p with writeInstructions := p.writeInstructions + 1
                       totalInstructions := p.totalInstructions + 1 }
        else p
      let p :=
        if res.accepted ∧ res.cycles > (1 : Int) then
          { p with blocked := true, idleCycles := p.idleCycles + res.cycles }
        else p
      let p := if p.pendingReferences.length < 5 then preload 5 p else p
      ⟨p, res.sys, res.accepted⟩

/-- `Processor::executeCycle` (`Processor.cpp`): bump `totalCycles`; while
blocked and the cache still blocking, idle; with an empty queue, a failed
`loadNextReference` marks the trace complete (undoing the cycle) — note
this fires on a malformed line exactly as on EOF. -/
def executeCycle (p : Processor) (sys : Sys) : ExecResult :=
  let p := { p with totalCycles := p.totalCycles + 1 }
  if p.blocked ∧ (sys.caches.getD p.coreId default).isBlocking then
    ⟨{ p with idleCycles := p.idleCycles + 1 }, sys, false⟩
  else
    let p := if p.blocked then { p with blocked := false } else p
    if p.pendingReferences.isEmpty then
      let l := loadNextReference p
      if l.2 then executeRef l.1 sys
      else
        ⟨{ l.1 with traceComplete := true, totalCycles := l.1.totalCycles - 1 }, sys, false⟩
    else executeRef p sys

/-- One transition of the machine's coherence-relevant state, as driven by
`Simulator::runCycles`: a tick advances the bus (`Bus::processCycle`) and
then lets each processor issue at most one `Cache::read`/`Cache::write`;
the deadlock breaker may call `Cache::unblock` and `Bus::reset`.  Addresses
are 32-bit (`unsigned int`). -/
inductive Step (numCores : Nat) : Sys → Sys → Prop where
  | read (s : Sys) (i address : Nat) (hi : i < numCores) (h : address < 2 ^ 32) :
      Step numCores s (cacheRead s i address 0).sys
  | write (s : Sys) (i address : Nat) (hi : i < numCores) (h : address < 2 ^ 32) :
      Step numCores s (cacheWrite s i address 0).sys
  | busTick (s : Sys) : Step numCores s (busProcessCycle s)
  | unblockStep (s : Sys) (i : Nat) (hi : i < numCores) : Step numCores s (sysUnblock s i)
  | busResetStep (s : Sys) : Step numCores s (busReset s)

/-- States reachable from the freshly constructed simulator.  Every state
the Simulator's tick loop produces (after any number of completed ticks,
for any trace contents) is of this form. -/
inductive Reachable (numCores setIndexBits associativity blockOffsetBits : Nat) :
    Sys → Prop where
  | init : Reachable numCores setIndexBits associativity blockOffsetBits
      (initSys numCores setIndexBits associativity blockOffsetBits)
  | step {x y : Sys} :
      Reachable numCores setIndexBits associativity blockOffsetBits x →
      Step numCores x y → Reachable numCores setIndexBits associativity blockOffsetBits y

/-- Tag uniqueness among the valid lines of a set (property P3 of the spec,
maintained by the code and needed to reason about `findLine`). -/
def CacheSet.tagUnique (s : CacheSet) : Prop :=
  ∀ i j, i < s.lines.length → j < s.lines.length → i ≠ j →
    (s.lines.getD i default).isValid = true → (s.lines.getD j default).isValid = true →
    (s.lines.getD i default).tag ≠ (s.lines.getD j default).tag

/-- The MESI transition `Cache::snoop` applies to the snooped copy, as a
pure table (read off the `switch` in `Cache.cpp`). -/
def snoopNext (op : BusOperation) (st : CacheState) : CacheState :=
  match op, st with
  | BusOperation.BusRd, CacheState.MODIFIED => CacheState.SHARED
  | BusOperation.BusRd, CacheState.EXCLUSIVE => CacheState.SHARED
  | BusOperation.BusRd, CacheState.SHARED => CacheState.SHARED
  | BusOperation.BusRdX, CacheState.MODIFIED => CacheState.INVALID
  | BusOperation.BusRdX, CacheState.EXCLUSIVE => CacheState.INVALID
  | BusOperation.BusRdX, CacheState.SHARED => CacheState.INVALID
  | BusOperation.BusUpgr, CacheState.MODIFIED => CacheState.INVALID
  | BusOperation.BusUpgr, CacheState.EXCLUSIVE => CacheState.INVALID
  | BusOperation.BusUpgr, CacheState.SHARED => CacheState.INVALID
  | _, st => st

/-- Whether `Cache::snoop` sets `providedData` for a given operation and
snooped state. -/
def providesB (op : BusOperation) (st : CacheState) : Bool :=
  match op, st with
  | BusOperation.BusRd, CacheState.MODIFIED => true
  | BusOperation.BusRd, CacheState.EXCLUSIVE => true
  | BusOperation.BusRd, CacheState.SHARED => true
  | BusOperation.BusRdX, CacheState.MODIFIED => true
  | BusOperation.BusRdX, CacheState.EXCLUSIVE => true
  | BusOperation.BusRdX, CacheState.SHARED => true
  | BusOperation.BusUpgr, CacheState.MODIFIED => true
  | BusOperation.BusUpgr, CacheState.EXCLUSIVE => true
  | _, _ => false

/-- The cycles `Cache::snoop` actually adds, per operation and snooped
state (`blockSize` in bytes, words of 4 bytes). -/
def snoopCost (op : BusOperation) (st : CacheState) (blockSize : Nat) : Int :=
  match op, st with
  | BusOperation.BusRd, CacheState.MODIFIED => 2 * ((blockSize / 4 : Nat) : Int) + 100
  | BusOperation.BusRd, CacheState.EXCLUSIVE => 2 * ((blockSize / 4 : Nat) : Int)
  | BusOperation.BusRd, CacheState.SHARED => 2 * ((blockSize / 4 : Nat) : Int)
  | BusOperation.BusRdX, CacheState.MODIFIED => 200
  | BusOperation.BusRdX, CacheState.EXCLUSIVE => 100
  | BusOperation.BusRdX, CacheState.SHARED => 100
  | BusOperation.BusUpgr, CacheState.MODIFIED => 2 * ((blockSize / 4 : Nat) : Int)
  | BusOperation.BusUpgr, CacheState.EXCLUSIVE => 2 * ((blockSize / 4 : Nat) : Int)
  | _, _ => 0

/-- The per-cache test of the SHARED-victim scan in `Cache::evictLine`,
as a boolean predicate (used to count how many peers hold the block
SHARED). -/
def scanPred (selfCoreId setIdx address : Nat) (c : Cache) : Bool :=
  decide (c.coreId ≠ selfCoreId) &&
    (match c.getLineIndex address with
     | some li =>
        (((c.sets.getD setIdx default).getLine li).isValid &&
          decide (((c.sets.getD setIdx default).getLine li).state = CacheState.SHARED))
     | none => false)

/-- Structural well-formedness of one cache as built by `Cache::Cache` and
registered at roster slot `i`: core id equals its slot, shared geometry,
`2^s` sets of `associativity` lines and counters, and tag uniqueness in
every set. -/
def CacheWF (setIndexBits blockOffsetBits associativity i : Nat) (c : Cache) : Prop :=
  c.coreId = i ∧ c.setIndexBits = setIndexBits ∧ c.blockOffsetBits = blockOffsetBits ∧
  c.associativity = associativity ∧ c.sets.length = 2 ^ setIndexBits ∧
  ∀ k, k < 2 ^ setIndexBits →
    (c.sets.getD k default).lines.length = associativity ∧
    (c.sets.getD k default).lruCounter.length = associativity ∧
    (c.sets.getD k default).tagUnique

/-- Well-formedness of the whole machine: the roster layout of
`Simulator::Simulator` plus the bus-idleness facts that hold between
completed operations (`busOperation` always leaves `busy = false` and
never enqueues while the bus is free). -/
def SysWF (numCores setIndexBits associativity blockOffsetBits : Nat) (sys : Sys) : Prop :=
  sys.caches.length = numCores ∧
  (∀ i, i < numCores →
    CacheWF setIndexBits blockOffsetBits associativity i (sys.caches.getD i default)) ∧
  sys.bus.busy = false ∧ sys.bus.pendingTransactions = []

/-- MESI exclusivity over the roster: a MODIFIED or EXCLUSIVE holder of a
(set index, tag) block excludes every other cache from holding it in any
valid state. -/
def MesiOK (numCores : Nat) (caches : List Cache) : Prop :=
  ∀ setIdx tagv i j, i < numCores → j < numCores → i ≠ j →
    ((caches.getD i default).stateAt setIdx tagv = CacheState.MODIFIED ∨
      (caches.getD i default).stateAt setIdx tagv = CacheState.EXCLUSIVE) →
    (caches.getD j default).stateAt setIdx tagv = CacheState.INVALID

/-- The inductive invariant: well-formedness plus MESI exclusivity. -/
def Inv (numCores setIndexBits associativity blockOffsetBits : Nat) (sys : Sys) : Prop :=
  SysWF numCores setIndexBits associativity blockOffsetBits sys ∧
  MesiOK numCores sys.caches

/-- The matching test of `CacheSet::findLine` as a proposition. -/
def lineMatches (tagv : Nat) (x : CacheLine) : Prop :=
  x.isValid = true ∧ x.tag = tagv

instance (tagv : Nat) (x : CacheLine) : Decidable (lineMatches tagv x) := by
  unfold lineMatches; infer_instance

/-- Shape preservation between two caches: identity of configuration and
of everything except line states (used for snoops and the silent
promotion, which never touch LRU counters, lengths or ids). -/
def CacheShapeEq (c c' : Cache) : Prop :=
  c'.coreId = c.coreId ∧ c'.setIndexBits = c.setIndexBits ∧
  c'.blockOffsetBits = c.blockOffsetBits ∧ c'.associativity = c.associativity ∧
  c'.sets.length = c.sets.length ∧ c'.isBlocked = c.isBlocked ∧
  ∀ k, (c'.sets.getD k default).lines.length = (c.sets.getD k default).lines.length ∧
    (c'.sets.getD k default).lruCounter = (c.sets.getD k default).lruCounter ∧
    ((c.sets.getD k default).tagUnique → (c'.sets.getD k default).tagUnique)

/-- Whether a snoop of this cache would report data provided (the
`providedData` out-parameter starting from `false`). -/
def snoopProvides (op : BusOperation) (address sourceId : Nat) (c : Cache) : Bool :=
  (c.snoop op address sourceId false 0).providedData

/-- The set index every cache of the shared configuration computes for an
address. -/
def addrSetIdx (setIndexBits blockOffsetBits address : Nat) : Nat :=
  (address >>> blockOffsetBits) % 2 ^ setIndexBits

/-- The tag every cache of the shared configuration computes for an
address. -/
def addrTag (setIndexBits blockOffsetBits address : Nat) : Nat :=
  address >>> (setIndexBits + blockOffsetBits)

/-! ### List access helpers -/

theorem getD_set_self {α : Type} (l : List α) (v d : α) :
    ∀ i, i < l.length → (l.set i v).getD i d = v := by
  induction l with
  | nil => intro i h; simp at h
  | cons x xs ih =>
    intro i h
    cases i with
    | zero => rfl
    | succ n =>
      simp only [List.set, List.getD, List.getElem?_cons_succ]
      have := ih n (by simpa using Nat.lt_of_succ_lt_succ h)
      simpa [List.getD] using this

theorem getD_set_ne {α : Type} (l : List α) (v d : α) :
    ∀ i j, i ≠ j → (l.set i v).getD j d = l.getD j d := by
  induction l with
  | nil => intro i j _; simp [List.set]
  | cons x xs ih =>
    intro i j hne
    cases i with
    | zero =>
      cases j with
      | zero => exact absurd rfl hne
      | succ m => rfl
    | succ n =>
      cases j with
      | zero => rfl
      | succ m =>
        simp only [List.set, List.getD, List.getElem?_cons_succ]
        have := ih n m (fun h => hne (by rw [h]))
        simpa [List.getD] using this

theorem getD_lt_length_mem {α : Type} (l : List α) (d : α) :
    ∀ j, j < l.length → l.getD j d ∈ l := by
  induction l with
  | nil => intro j h; simp at h
  | cons x xs ih =>
    intro j h
    cases j with
    | zero => simp [List.getD]
    | succ m =>
      have := ih m (by simpa using Nat.lt_of_succ_lt_succ h)
      simp only [List.getD, List.getElem?_cons_succ]
      right
      simpa [List.getD] using this

theorem getD_cons_zero {α : Type} (x : α) (xs : List α) (d : α) :
    (x :: xs).getD 0 d = x := rfl

theorem getD_cons_succ {α : Type} (x : α) (xs : List α) (n : Nat) (d : α) :
    (x :: xs).getD (n + 1) d = xs.getD n d := rfl

/-! ### `findLine` characterization -/

theorem findLineAux_shift (tagv : Nat) (l : List CacheLine) :
    ∀ i, findLineAux tagv l i = (findLineAux tagv l 0).map (· + i) := by
  induction l with
  | nil => intro i; rfl
  | cons x xs ih =>
    intro i
    by_cases h : (x.isValid && x.tag == tagv) = true
    · simp [findLineAux, h]
    · simp only [findLineAux, h, if_false, Bool.false_eq_true]
      rw [ih (i + 1), ih 1, Option.map_map]
      congr 1
      funext k
      simp [Function.comp]
      omega

theorem findLineAux_eq_some_iff (tagv : Nat) (l : List CacheLine) (k : Nat) :
    findLineAux tagv l 0 = some k ↔
      k < l.length ∧ lineMatches tagv (l.getD k default) ∧
        ∀ m, m < k → ¬ lineMatches tagv (l.getD m default) := by
  induction l generalizing k with
  | nil => simp [findLineAux]
  | cons x xs ih =>
    by_cases h : (x.isValid && x.tag == tagv) = true
    · have hm : lineMatches tagv x := by
        unfold lineMatches
        simp only [Bool.and_eq_true, beq_iff_eq] at h
        exact h
      simp only [findLineAux, h, if_true]
      constructor
      · rintro hk
        cases hk
        refine ⟨by simp, by simpa [List.getD] using hm, ?_⟩
        intro m hm'; omega
      · rintro ⟨hk, hmk, hnone⟩
        cases k with
        | zero => rfl
        | succ n =>
          exact absurd (by simpa [List.getD] using hm) (hnone 0 (Nat.succ_pos n))
    · have hnm : ¬ lineMatches tagv x := by
        unfold lineMatches
        intro ⟨h1, h2⟩
        exact h (by simp [h1, h2])
      simp only [findLineAux, h, if_false, Bool.false_eq_true]
      rw [findLineAux_shift tagv xs 1]
      constructor
      · intro hk
        rcases Option.map_eq_some'.mp hk with ⟨k', hk', rfl⟩
        rcases (ih k').mp hk' with ⟨h1, h2, h3⟩
        refine ⟨by simpa using Nat.succ_lt_succ h1, by simpa [List.getD] using h2, ?_⟩
        intro m hm
        cases m with
        | zero => simpa [List.getD] using hnm
        | succ n =>
          have := h3 n (by omega)
          simpa [List.getD] using this
      · rintro ⟨hk, hmk, hnone⟩
        cases k with
        | zero => exact absurd (by simpa [List.getD] using hmk) hnm
        | succ n =>
          have : findLineAux tagv xs 0 = some n := by
            rw [ih n]
            refine ⟨by simpa using Nat.lt_of_succ_lt_succ hk, by simpa [List.getD] using hmk, ?_⟩
            intro m hm
            have := hnone (m + 1) (by omega)
            simpa [List.getD] using this
          simp [this]

theorem findLineAux_eq_none_iff (tagv : Nat) (l : List CacheLine) :
    findLineAux tagv l 0 = none ↔
      ∀ m, m < l.length → ¬ lineMatches tagv (l.getD m default) := by
  induction l with
  | nil => simp [findLineAux]
  | cons x xs ih =>
    by_cases h : (x.isValid && x.tag == tagv) = true
    · have hm : lineMatches tagv x := by
        unfold lineMatches
        simp only [Bool.and_eq_true, beq_iff_eq] at h
        exact h
      simp only [findLineAux, h, if_true]
      constructor
      · intro hk; cases hk
      · intro hall
        exact absurd (by simpa [List.getD] using hm) (hall 0 (by simp))
    · have hnm : ¬ lineMatches tagv x := by
        unfold lineMatches
        intro ⟨h1, h2⟩
        exact h (by simp [h1, h2])
      simp only [findLineAux, h, if_false, Bool.false_eq_true]
      rw [findLineAux_shift tagv xs 1]
      constructor
      · intro hk m hm
        cases m with
        | zero => simpa [List.getD] using hnm
        | succ n =>
          have : findLineAux tagv xs 0 = none := by
            cases hx : findLineAux tagv xs 0 with
            | none => rfl
            | some v => rw [hx] at hk; simp at hk
          have := (ih.mp this) n (by simpa using Nat.lt_of_succ_lt_succ hm)
          simpa [List.getD] using this
      · intro hall
        have : findLineAux tagv xs 0 = none := by
          rw [ih]
          intro m hm
          have := hall (m + 1) (by simp only [List.length_cons]; omega)
          simpa [List.getD] using this
        simp [this]

theorem findLine_eq_some_iff (s : CacheSet) (tagv k : Nat) :
    s.findLine tagv = some k ↔
      k < s.lines.length ∧ lineMatches tagv (s.lines.getD k default) ∧
        ∀ m, m < k → ¬ lineMatches tagv (s.lines.getD m default) :=
  findLineAux_eq_some_iff tagv s.lines k

theorem findLine_eq_none_iff (s : CacheSet) (tagv : Nat) :
    s.findLine tagv = none ↔
      ∀ m, m < s.lines.length → ¬ lineMatches tagv (s.lines.getD m default) :=
  findLineAux_eq_none_iff tagv s.lines

/-! ### `stateOf`, `setLineState`, `updateLRU` lemmas -/

theorem getLine_eq_getD (s : CacheSet) (k : Nat) :
    s.getLine k = s.lines.getD k default := rfl

theorem isValid_iff_state_ne (l : CacheLine) :
    l.isValid = true ↔ l.state ≠ CacheState.INVALID := by
  unfold CacheLine.isValid
  simp

theorem stateOf_eq_INVALID_iff (s : CacheSet) (tagv : Nat) :
    s.stateOf tagv = CacheState.INVALID ↔ s.findLine tagv = none := by
  unfold CacheSet.stateOf
  cases h : s.findLine tagv with
  | none => simp
  | some k =>
    simp only
    constructor
    · intro hst
      rcases (findLine_eq_some_iff s tagv k).mp h with ⟨_, ⟨hv, _⟩, _⟩
      rw [getLine_eq_getD] at hst
      exact absurd hst ((isValid_iff_state_ne _).mp hv)
    · intro hc; cases hc

theorem stateOf_of_findLine_some (s : CacheSet) (tagv k : Nat)
    (h : s.findLine tagv = some k) : s.stateOf tagv = (s.getLine k).state := by
  unfold CacheSet.stateOf
  rw [h]

theorem setLineState_lines_length (s : CacheSet) (k : Nat) (st : CacheState) :
    (s.setLineState k st).lines.length = s.lines.length := by
  unfold CacheSet.setLineState
  simp

theorem setLineState_lru (s : CacheSet) (k : Nat) (st : CacheState) :
    (s.setLineState k st).lruCounter = s.lruCounter := rfl

theorem setLineState_tag (s : CacheSet) (k : Nat) (st : CacheState) (m : Nat) :
    ((s.setLineState k st).lines.getD m default).tag = (s.lines.getD m default).tag := by
  unfold CacheSet.setLineState
  by_cases h : k = m
  · subst h
    by_cases hk : k < s.lines.length
    · rw [getD_set_self _ _ _ _ hk]
      rfl
    · rw [List.set_eq_of_length_le (by omega)]
  · rw [getD_set_ne _ _ _ _ _ h]

theorem setLineState_getD_self (s : CacheSet) (k : Nat) (st : CacheState)
    (hk : k < s.lines.length) :
    (s.setLineState k st).lines.getD k default = ((s.lines.getD k default).setState st) := by
  unfold CacheSet.setLineState
  rw [getD_set_self _ _ _ _ hk]
  rfl

theorem setLineState_getD_other (s : CacheSet) (k : Nat) (st : CacheState)
    (m : Nat) (h : k ≠ m) :
    (s.setLineState k st).lines.getD m default = s.lines.getD m default := by
  unfold CacheSet.setLineState
  exact getD_set_ne _ _ _ _ _ h

theorem stateOf_setLineState_self (s : CacheSet) (tagv k : Nat) (st : CacheState)
    (hu : s.tagUnique) (hk : s.findLine tagv = some k) :
    (s.setLineState k st).stateOf tagv = st := by
  rcases (findLine_eq_some_iff s tagv k).mp hk with ⟨hlen, ⟨hv, htag⟩, hfirst⟩
  by_cases hst : st = CacheState.INVALID
  · subst hst
    rw [stateOf_eq_INVALID_iff]
    rw [findLine_eq_none_iff]
    intro m hm
    rw [setLineState_lines_length] at hm
    by_cases hmk : m = k
    · subst hmk
      rw [setLineState_getD_self s m _ hm]
      intro ⟨hv', _⟩
      rw [isValid_iff_state_ne] at hv'
      exact hv' rfl
    · rw [setLineState_getD_other s k _ m (fun h => hmk h.symm)]
      intro ⟨hv', htag'⟩
      exact hu m k hm hlen hmk hv' hv (htag'.trans htag.symm)
  · have hfind : (s.setLineState k st).findLine tagv = some k := by
      rw [findLine_eq_some_iff]
      refine ⟨by rw [setLineState_lines_length]; exact hlen, ?_, ?_⟩
      · rw [setLineState_getD_self s k st hlen]
        constructor
        · rw [isValid_iff_state_ne]
          exact hst
        · exact htag
      · intro m hm
        rw [setLineState_getD_other s k st m (by omega)]
        exact hfirst m hm
    rw [stateOf_of_findLine_some _ _ _ hfind, getLine_eq_getD,
      setLineState_getD_self s k st hlen]
    rfl

theorem stateOf_setLineState_other (s : CacheSet) (tagv' k : Nat) (st : CacheState)
    (htag : (s.lines.getD k default).tag ≠ tagv') :
    (s.setLineState k st).stateOf tagv' = s.stateOf tagv' := by
  have hmatch : ∀ m, lineMatches tagv' ((s.setLineState k st).lines.getD m default) ↔
      lineMatches tagv' (s.lines.getD m default) := by
    intro m
    by_cases hmk : m = k
    · subst hmk
      by_cases hm : m < s.lines.length
      · rw [setLineState_getD_self s m st hm]
        unfold lineMatches
        constructor
        · intro ⟨_, ht⟩
          exact absurd ht htag
        · intro ⟨_, ht⟩
          exact absurd ht htag
      · unfold CacheSet.setLineState
        rw [List.set_eq_of_length_le (by omega)]
    · rw [setLineState_getD_other s k st m (fun h => hmk h.symm)]
  have hfind : (s.setLineState k st).findLine tagv' = s.findLine tagv' := by
    cases h : s.findLine tagv' with
    | none =>
      rw [findLine_eq_none_iff]
      intro m hm
      rw [setLineState_lines_length] at hm
      rw [hmatch m]
      exact (findLine_eq_none_iff s tagv').mp h m hm
    | some m =>
      rcases (findLine_eq_some_iff s tagv' m).mp h with ⟨hlen, hm, hfirst⟩
      rw [findLine_eq_some_iff]
      refine ⟨by rw [setLineState_lines_length]; exact hlen, (hmatch m).mpr hm, ?_⟩
      intro m' hm'
      rw [hmatch m']
      exact hfirst m' hm'
  unfold CacheSet.stateOf
  rw [hfind]
  cases h : s.findLine tagv' with
  | none => rfl
  | some m =>
    simp only
    rcases (findLine_eq_some_iff s tagv' m).mp h with ⟨hlen, ⟨_, htagm⟩, _⟩
    have hmk : k ≠ m := by
      intro he
      subst he
      exact htag htagm
    rw [getLine_eq_getD, getLine_eq_getD, setLineState_getD_other s k st m hmk]

theorem tagUnique_setLineState (s : CacheSet) (k : Nat) (st : CacheState)
    (hok : (s.lines.getD k default).isValid = true ∨ st = CacheState.INVALID)
    (hu : s.tagUnique) : (s.setLineState k st).tagUnique := by
  intro i j hi hj hij hvi hvj
  rw [setLineState_lines_length] at hi hj
  rw [setLineState_tag, setLineState_tag]
  have hval : ∀ m, m < s.lines.length →
      ((s.setLineState k st).lines.getD m default).isValid = true →
      (s.lines.getD m default).isValid = true := by
    intro m hm hv
    by_cases hmk : m = k
    · subst hmk
      rcases hok with h | h
      · exact h
      · subst h
        rw [setLineState_getD_self s m _ hm] at hv
        rw [isValid_iff_state_ne] at hv
        exact absurd rfl hv
    · rw [setLineState_getD_other s k st m (fun h => hmk h.symm)] at hv
      exact hv
  exact hu i j hi hj hij (hval i hi hvi) (hval j hj hvj)

theorem updateLRU_lines (s : CacheSet) (k : Nat) : (s.updateLRU k).lines = s.lines := rfl

theorem updateLRU_lru_length (s : CacheSet) (k : Nat) :
    (s.updateLRU k).lruCounter.length = s.lruCounter.length := by
  unfold CacheSet.updateLRU
  simp

theorem stateOf_updateLRU (s : CacheSet) (k tagv : Nat) :
    (s.updateLRU k).stateOf tagv = s.stateOf tagv := rfl

theorem tagUnique_updateLRU (s : CacheSet) (k : Nat) (hu : s.tagUnique) :
    (s.updateLRU k).tagUnique := hu

theorem findLine_updateLRU (s : CacheSet) (k tagv : Nat) :
    (s.updateLRU k).findLine tagv = s.findLine tagv := rfl

/-! ### Cache-level observation lemmas -/

theorem stateAt_putSet_self (c : Cache) (setIdx : Nat) (s' : CacheSet) (tagv : Nat)
    (h : setIdx < c.sets.length) :
    (c.putSet setIdx s').stateAt setIdx tagv = s'.stateOf tagv := by
  unfold Cache.stateAt Cache.putSet
  simp only
  rw [getD_set_self _ _ _ _ h]

theorem stateAt_putSet_other (c : Cache) (setIdx : Nat) (s' : CacheSet)
    (setIdx' tagv : Nat) (h : setIdx ≠ setIdx') :
    (c.putSet setIdx s').stateAt setIdx' tagv = c.stateAt setIdx' tagv := by
  unfold Cache.stateAt Cache.putSet
  simp only
  rw [getD_set_ne _ _ _ _ _ h]

theorem getSetIndex_lt (c : Cache) (address : Nat) :
    c.getSetIndex address < 2 ^ c.setIndexBits := by
  unfold Cache.getSetIndex
  exact Nat.mod_lt _ (Nat.pos_pow_of_pos _ (by omega))

/-! ### Snoop characterization -/

theorem cacheShapeEq_refl (c : Cache) : CacheShapeEq c c := by
  refine ⟨rfl, rfl, rfl, rfl, rfl, rfl, ?_⟩
  intro k
  exact ⟨rfl, rfl, fun h => h⟩

theorem cacheShapeEq_stats (c : Cache) (S : Statistics) :
    CacheShapeEq c { c with stats := S } := cacheShapeEq_refl c

/-- The shape facts for a cache whose set `setIdx` had line `k` restated. -/
theorem cacheShapeEq_setLineState (c : Cache) (setIdx k : Nat) (stNew : CacheState)
    (S : Statistics)
    (hok : ((c.sets.getD setIdx default).lines.getD k default).isValid = true ∨
      stNew = CacheState.INVALID) :
    CacheShapeEq c
      { (c.putSet setIdx ((c.sets.getD setIdx default).setLineState k stNew)) with
          stats := S } := by
  refine ⟨rfl, rfl, rfl, rfl, ?_, rfl, ?_⟩
  · unfold Cache.putSet
    simp
  · intro m
    unfold Cache.putSet
    simp only
    by_cases hm : setIdx = m
    · subst hm
      by_cases hlt : setIdx < c.sets.length
      · rw [getD_set_self _ _ _ _ hlt]
        exact ⟨setLineState_lines_length _ _ _, setLineState_lru _ _ _,
          tagUnique_setLineState _ _ _ hok⟩
      · rw [List.set_eq_of_length_le (by omega)]
        exact ⟨rfl, rfl, fun h => h⟩
    · rw [getD_set_ne _ _ _ _ _ hm]
      exact ⟨rfl, rfl, fun h => h⟩

theorem snoop_eq_of_findLine_none (c : Cache) (op : BusOperation)
    (address sourceId : Nat) (pd : Bool) (cy : Int)
    (hsrc : sourceId ≠ c.coreId)
    (hf : (c.sets.getD (c.getSetIndex address) default).findLine (c.getTag address) = none) :
    c.snoop op address sourceId pd cy = ⟨c, pd, cy, true⟩ := by
  simp only [Cache.snoop, if_neg hsrc, hf]

/-- Two caches with the same sets observe the same states. -/
theorem stateAt_congr (c c' : Cache) (h : c'.sets = c.sets) (si tv : Nat) :
    c'.stateAt si tv = c.stateAt si tv := by
  unfold Cache.stateAt
  rw [h]

/-- `CacheShapeEq` from field equations (identity shape). -/
theorem cacheShapeEq_of_eq (c c' : Cache)
    (h1 : c'.coreId = c.coreId) (h2 : c'.setIndexBits = c.setIndexBits)
    (h3 : c'.blockOffsetBits = c.blockOffsetBits) (h4 : c'.associativity = c.associativity)
    (h5 : c'.isBlocked = c.isBlocked) (h6 : c'.sets = c.sets) : CacheShapeEq c c' := by
  refine ⟨h1, h2, h3, h4, by rw [h6], h5, ?_⟩
  intro k
  rw [h6]
  exact ⟨rfl, rfl, fun h => h⟩

/-- `CacheShapeEq` from field equations, sets being one restated line. -/
theorem cacheShapeEq_of_setLineState (c c' : Cache) (setIdx k : Nat) (stNew : CacheState)
    (hok : ((c.sets.getD setIdx default).lines.getD k default).isValid = true ∨
      stNew = CacheState.INVALID)
    (h1 : c'.coreId = c.coreId) (h2 : c'.setIndexBits = c.setIndexBits)
    (h3 : c'.blockOffsetBits = c.blockOffsetBits) (h4 : c'.associativity = c.associativity)
    (h5 : c'.isBlocked = c.isBlocked)
    (h6 : c'.sets = (c.putSet setIdx ((c.sets.getD setIdx default).setLineState k stNew)).sets) :
    CacheShapeEq c c' := by
  refine ⟨h1, h2, h3, h4, ?_, h5, ?_⟩
  · rw [h6]
    unfold Cache.putSet
    simp
  · intro m
    rw [h6]
    unfold Cache.putSet
    simp only
    by_cases hm : setIdx = m
    · subst hm
      by_cases hlt : setIdx < c.sets.length
      · rw [getD_set_self _ _ _ _ hlt]
        exact ⟨setLineState_lines_length _ _ _, setLineState_lru _ _ _,
          tagUnique_setLineState _ _ _ hok⟩
      · rw [List.set_eq_of_length_le (by omega)]
        exact ⟨rfl, rfl, fun h => h⟩
    · rw [getD_set_ne _ _ _ _ _ hm]
      exact ⟨rfl, rfl, fun h => h⟩

/-- Full characterization of `Cache::snoop` for a peer (`sourceId` not the
cache's own id): the snooped block's observed state moves by `snoopNext`,
every other block is untouched, the shape is preserved, `providedData` is
OR-ed with the table `providesB`, the cycles grow by `snoopCost`, and the
call returns true. -/
theorem snoop_spec (c : Cache) (op : BusOperation) (address sourceId : Nat)
    (pd : Bool) (cy : Int)
    (hsrc : sourceId ≠ c.coreId)
    (hlen : c.sets.length = 2 ^ c.setIndexBits)
    (hu : (c.sets.getD (c.getSetIndex address) default).tagUnique) :
    CacheShapeEq c (c.snoop op address sourceId pd cy).cache ∧
    (c.snoop op address sourceId pd cy).cache.stateAt (c.getSetIndex address) (c.getTag address)
      = snoopNext op (c.stateAt (c.getSetIndex address) (c.getTag address)) ∧
    (∀ setIdx' tagv', setIdx' ≠ c.getSetIndex address ∨ tagv' ≠ c.getTag address →
      (c.snoop op address sourceId pd cy).cache.stateAt setIdx' tagv'
        = c.stateAt setIdx' tagv') ∧
    (c.snoop op address sourceId pd cy).providedData
      = (pd || providesB op (c.stateAt (c.getSetIndex address) (c.getTag address))) ∧
    (c.snoop op address sourceId pd cy).cycles
      = cy + snoopCost op (c.stateAt (c.getSetIndex address) (c.getTag address)) c.blockSize ∧
    (c.snoop op address sourceId pd cy).ok = true := by
  have hsetlt : c.getSetIndex address < c.sets.length := by
    rw [hlen]
    exact getSetIndex_lt c address
  cases hf : (c.sets.getD (c.getSetIndex address) default).findLine (c.getTag address) with
  | none =>
    have hstI : c.stateAt (c.getSetIndex address) (c.getTag address) = CacheState.INVALID := by
      unfold Cache.stateAt
      rw [stateOf_eq_INVALID_iff]
      exact hf
    rw [snoop_eq_of_findLine_none c op address sourceId pd cy hsrc hf]
    refine ⟨cacheShapeEq_refl c, ?_, fun _ _ _ => rfl, ?_, ?_, rfl⟩
    · rw [hstI]
      cases op <;> rfl
    · rw [hstI]
      cases op <;> simp [providesB]
    · rw [hstI]
      cases op <;> simp [snoopCost]
  | some lineIndex =>
    have hstEq : c.stateAt (c.getSetIndex address) (c.getTag address)
        = ((c.sets.getD (c.getSetIndex address) default).getLine lineIndex).state := by
      unfold Cache.stateAt
      exact stateOf_of_findLine_some _ _ _ hf
    have hvalid : ((c.sets.getD (c.getSetIndex address) default).lines.getD lineIndex
        default).isValid = true := by
      rcases (findLine_eq_some_iff _ _ _).mp hf with ⟨_, ⟨hv, _⟩, _⟩
      exact hv
    have htagk : ((c.sets.getD (c.getSetIndex address) default).lines.getD lineIndex
        default).tag = c.getTag address := by
      rcases (findLine_eq_some_iff _ _ _).mp hf with ⟨_, ⟨_, ht⟩, _⟩
      exact ht
    have hselfGen : ∀ (c' : Cache) (stNew : CacheState),
        c'.sets = (c.putSet (c.getSetIndex address)
          ((c.sets.getD (c.getSetIndex address) default).setLineState lineIndex stNew)).sets →
        c'.stateAt (c.getSetIndex address) (c.getTag address) = stNew := by
      intro c' stNew h
      have hc : c'.stateAt (c.getSetIndex address) (c.getTag address)
          = (c.putSet (c.getSetIndex address)
            ((c.sets.getD (c.getSetIndex address) default).setLineState lineIndex stNew)).stateAt
              (c.getSetIndex address) (c.getTag address) := by
        unfold Cache.stateAt
        rw [h]
      rw [hc, stateAt_putSet_self _ _ _ _ hsetlt]
      exact stateOf_setLineState_self _ _ _ _ hu hf
    have hotherGen : ∀ (c' : Cache) (stNew : CacheState),
        c'.sets = (c.putSet (c.getSetIndex address)
          ((c.sets.getD (c.getSetIndex address) default).setLineState lineIndex stNew)).sets →
        ∀ setIdx' tagv', setIdx' ≠ c.getSetIndex address ∨ tagv' ≠ c.getTag address →
        c'.stateAt setIdx' tagv' = c.stateAt setIdx' tagv' := by
      intro c' stNew h setIdx' tagv' hne
      have hc : c'.stateAt setIdx' tagv'
          = (c.putSet (c.getSetIndex address)
            ((c.sets.getD (c.getSetIndex address) default).setLineState lineIndex stNew)).stateAt
              setIdx' tagv' := by
        unfold Cache.stateAt
        rw [h]
      rw [hc]
      by_cases hsi : setIdx' = c.getSetIndex address
      · subst hsi
        have hne' : tagv' ≠ c.getTag address := by
          rcases hne with h' | h'
          · exact absurd rfl h'
          · exact h'
        rw [stateAt_putSet_self _ _ _ _ hsetlt]
        unfold Cache.stateAt
        exact stateOf_setLineState_other _ _ _ _ (by rw [htagk]; exact fun h' => hne' h'.symm)
      · rw [stateAt_putSet_other _ _ _ _ _ (fun h' => hsi h'.symm)]
    have hstatsSelf : ∀ (c' : Cache), c'.sets = c.sets →
        c'.stateAt (c.getSetIndex address) (c.getTag address)
          = ((c.sets.getD (c.getSetIndex address) default).getLine lineIndex).state := by
      intro c' h
      rw [stateAt_congr c c' h]
      exact hstEq
    have hframe : ∀ (c' : Cache), c'.sets = c.sets →
        ∀ setIdx' tagv', c'.stateAt setIdx' tagv' = c.stateAt setIdx' tagv' :=
      fun c' h setIdx' tagv' => stateAt_congr c c' h setIdx' tagv'
    simp only [Cache.snoop, if_neg hsrc, hf]
    cases op <;>
      cases hst : ((c.sets.getD (c.getSetIndex address) default).getLine lineIndex).state <;>
      simp only [hstEq, hst, snoopNext, providesB, snoopCost] <;>
      refine ⟨?_, ?_, ?_, ?_, ?_, ?_⟩ <;>
      first
        | exact cacheShapeEq_of_setLineState c _ _ lineIndex _ (Or.inl hvalid)
            rfl rfl rfl rfl rfl rfl
        | exact cacheShapeEq_of_eq c _ rfl rfl rfl rfl rfl rfl
        | exact hselfGen _ _ rfl
        | exact (hstatsSelf _ rfl).trans hst
        | exact fun si' tv' hne => hotherGen _ _ rfl si' tv' hne
        | exact fun si' tv' _ => hframe _ rfl si' tv'
        | trivial
        | (push_cast ; ring1)
        | (simp ; done)

/-! ### Snoop pass (`Bus::processSnooping`) characterization -/

theorem snoop_cache_indep (c : Cache) (op : BusOperation) (address sourceId : Nat)
    (pd : Bool) (cy : Int) :
    (c.snoop op address sourceId pd cy).cache = (c.snoop op address sourceId false 0).cache := by
  by_cases h : sourceId = c.coreId
  · simp [Cache.snoop, h]
  · cases hf : (c.sets.getD (c.getSetIndex address) default).findLine (c.getTag address) with
    | none =>
      rw [snoop_eq_of_findLine_none c op address sourceId pd cy h hf,
        snoop_eq_of_findLine_none c op address sourceId false 0 h hf]
    | some k =>
      simp only [Cache.snoop, if_neg h, hf]
      cases op <;>
        cases hst : ((c.sets.getD (c.getSetIndex address) default).getLine k).state <;>
        simp [hst]

theorem snoop_pd_or (c : Cache) (op : BusOperation) (address sourceId : Nat)
    (pd : Bool) (cy : Int) :
    (c.snoop op address sourceId pd cy).providedData
      = (pd || (c.snoop op address sourceId false 0).providedData) := by
  by_cases h : sourceId = c.coreId
  · simp [Cache.snoop, h]
  · cases hf : (c.sets.getD (c.getSetIndex address) default).findLine (c.getTag address) with
    | none =>
      rw [snoop_eq_of_findLine_none c op address sourceId pd cy h hf,
        snoop_eq_of_findLine_none c op address sourceId false 0 h hf]
      simp
    | some k =>
      simp only [Cache.snoop, if_neg h, hf]
      cases op <;>
        cases hst : ((c.sets.getD (c.getSetIndex address) default).getLine k).state <;>
        simp [hst]

theorem snoop_cycles_shift (c : Cache) (op : BusOperation) (address sourceId : Nat)
    (pd : Bool) (cy : Int) :
    (c.snoop op address sourceId pd cy).cycles
      = cy + (c.snoop op address sourceId false 0).cycles := by
  by_cases h : sourceId = c.coreId
  · simp [Cache.snoop, h]
  · cases hf : (c.sets.getD (c.getSetIndex address) default).findLine (c.getTag address) with
    | none =>
      rw [snoop_eq_of_findLine_none c op address sourceId pd cy h hf,
        snoop_eq_of_findLine_none c op address sourceId false 0 h hf]
      simp
    | some k =>
      simp only [Cache.snoop, if_neg h, hf]
      cases op <;>
        cases hst : ((c.sets.getD (c.getSetIndex address) default).getLine k).state <;>
        simp [hst] <;> ring1

theorem snoopPass_length (l : List Nat) (cs : List Cache) (tr : BusTransaction) :
    (snoopPass l (cs, tr)).1.length = cs.length := by
  induction l generalizing cs tr with
  | nil => rfl
  | cons i rest ih =>
    unfold snoopPass
    by_cases h : i = tr.sourceId
    · rw [if_pos h]
      exact ih cs tr
    · rw [if_neg h]
      simp only
      rw [ih]
      simp

theorem snoopPass_tr_fields (l : List Nat) (cs : List Cache) (tr : BusTransaction) :
    (snoopPass l (cs, tr)).2.operation = tr.operation ∧
    (snoopPass l (cs, tr)).2.address = tr.address ∧
    (snoopPass l (cs, tr)).2.sourceId = tr.sourceId := by
  induction l generalizing cs tr with
  | nil => exact ⟨rfl, rfl, rfl⟩
  | cons i rest ih =>
    unfold snoopPass
    by_cases h : i = tr.sourceId
    · rw [if_pos h]
      exact ih cs tr
    · rw [if_neg h]
      simp only
      exact ih _ _

theorem snoopPass_getD_not_mem (l : List Nat) (cs : List Cache) (tr : BusTransaction)
    (j : Nat) (hj : j ∉ l) :
    (snoopPass l (cs, tr)).1.getD j default = cs.getD j default := by
  induction l generalizing cs tr with
  | nil => rfl
  | cons i rest ih =>
    have hji : j ≠ i := fun h => hj (h ▸ List.mem_cons_self i rest)
    have hjr : j ∉ rest := fun h => hj (List.mem_cons_of_mem i h)
    unfold snoopPass
    by_cases h : i = tr.sourceId
    · rw [if_pos h]
      exact ih cs tr hjr
    · rw [if_neg h]
      simp only
      rw [ih _ _ hjr]
      exact getD_set_ne _ _ _ _ _ (fun h' => hji h'.symm)

theorem snoopPass_getD_src (l : List Nat) (cs : List Cache) (tr : BusTransaction) :
    (snoopPass l (cs, tr)).1.getD tr.sourceId default = cs.getD tr.sourceId default := by
  induction l generalizing cs tr with
  | nil => rfl
  | cons i rest ih =>
    unfold snoopPass
    by_cases h : i = tr.sourceId
    · rw [if_pos h]
      exact ih cs tr
    · rw [if_neg h]
      simp only
      rw [ih]
      simp only
      exact getD_set_ne _ _ _ _ _ h

theorem snoopPass_getD_mem (l : List Nat) (cs : List Cache) (tr : BusTransaction)
    (hmem : ∀ i ∈ l, i < cs.length) (hnd : l.Nodup) (j : Nat) (hj : j ∈ l)
    (hjs : j ≠ tr.sourceId) :
    (snoopPass l (cs, tr)).1.getD j default
      = ((cs.getD j default).snoop tr.operation tr.address tr.sourceId false 0).cache := by
  induction l generalizing cs tr with
  | nil => cases hj
  | cons i rest ih =>
    unfold snoopPass
    by_cases h : i = tr.sourceId
    · rw [if_pos h]
      have hjr : j ∈ rest := by
        rcases List.mem_cons.mp hj with h' | h'
        · exact absurd (h' ▸ h) hjs
        · exact h'
      exact ih cs tr (fun m hm => hmem m (List.mem_cons_of_mem i hm)) hnd.of_cons hjr hjs
    · rw [if_neg h]
      simp only
      rcases List.mem_cons.mp hj with hji | hjr
      · subst hji
        have hnotin : j ∉ rest := (List.nodup_cons.mp hnd).1
        rw [snoopPass_getD_not_mem rest _ _ j hnotin]
        rw [getD_set_self _ _ _ _ (hmem j (List.mem_cons_self j rest))]
        exact snoop_cache_indep _ _ _ _ _ _
      · have hji : i ≠ j := by
          intro h'
          subst h'
          exact (List.nodup_cons.mp hnd).1 hjr
        have := ih (cs.set i ((cs.getD i default).snoop tr.operation tr.address tr.sourceId
            tr.dataProvided 0).cache)
          { tr with
              dataProvided := ((cs.getD i default).snoop tr.operation tr.address tr.sourceId
                tr.dataProvided 0).providedData
              cycles := if ((cs.getD i default).snoop tr.operation tr.address tr.sourceId
                    tr.dataProvided 0).cycles > 0 ∧
                  ((cs.getD i default).snoop tr.operation tr.address tr.sourceId
                    tr.dataProvided 0).providedData then
                  tr.cycles + ((cs.getD i default).snoop tr.operation tr.address tr.sourceId
                    tr.dataProvided 0).cycles
                else tr.cycles }
          (by
            intro m hm
            rw [List.length_set]
            exact hmem m (List.mem_cons_of_mem i hm))
          hnd.of_cons hjr hjs
        rw [this, getD_set_ne _ _ _ _ _ hji]

theorem list_any_congr {α : Type} (l : List α) (f g : α → Bool)
    (h : ∀ a ∈ l, f a = g a) : l.any f = l.any g := by
  induction l with
  | nil => rfl
  | cons x xs ih =>
    simp only [List.any_cons]
    rw [h x (List.mem_cons_self x xs), ih (fun a ha => h a (List.mem_cons_of_mem x ha))]

theorem snoopPass_dataProvided (l : List Nat) (cs : List Cache) (tr : BusTransaction)
    (hnd : l.Nodup) :
    (snoopPass l (cs, tr)).2.dataProvided
      = (tr.dataProvided ||
          l.any (fun j => decide (j ≠ tr.sourceId) &&
            snoopProvides tr.operation tr.address tr.sourceId (cs.getD j default))) := by
  induction l generalizing cs tr with
  | nil => simp [snoopPass]
  | cons i rest ih =>
    unfold snoopPass
    by_cases h : i = tr.sourceId
    · rw [if_pos h]
      rw [ih cs tr hnd.of_cons]
      subst h
      simp
    · rw [if_neg h]
      simp only
      rw [ih _ _ hnd.of_cons]
      have hpd : ((cs.getD i default).snoop tr.operation tr.address tr.sourceId
          tr.dataProvided 0).providedData
          = (tr.dataProvided ||
            snoopProvides tr.operation tr.address tr.sourceId (cs.getD i default)) := by
        unfold snoopProvides
        exact snoop_pd_or _ _ _ _ _ _
      have hrest : (rest.any (fun j => decide (j ≠ tr.sourceId) &&
            snoopProvides tr.operation tr.address tr.sourceId
              ((cs.set i ((cs.getD i default).snoop tr.operation tr.address tr.sourceId
                tr.dataProvided 0).cache).getD j default)))
          = (rest.any (fun j => decide (j ≠ tr.sourceId) &&
            snoopProvides tr.operation tr.address tr.sourceId (cs.getD j default))) := by
        apply list_any_congr
        intro j hj
        have hji : i ≠ j := by
          intro h'
          subst h'
          exact (List.nodup_cons.mp hnd).1 hj
        rw [getD_set_ne _ _ _ _ _ hji]
      rw [hrest, hpd]
      simp only [List.any_cons, decide_eq_true_eq, h, decide_eq_true_eq]
      rw [Bool.or_assoc]
      congr 1
      simp [h]

/-! ### `Bus::busOperation` characterization on a well-formed machine -/

theorem cacheWF_getSetIndex (sb bob assoc i : Nat) (c : Cache)
    (h : CacheWF sb bob assoc i c) (address : Nat) :
    c.getSetIndex address = addrSetIdx sb bob address := by
  rcases h with ⟨_, h2, h3, _⟩
  unfold Cache.getSetIndex addrSetIdx
  rw [h2, h3]

theorem cacheWF_getTag (sb bob assoc i : Nat) (c : Cache)
    (h : CacheWF sb bob assoc i c) (address : Nat) :
    c.getTag address = addrTag sb bob address := by
  rcases h with ⟨_, h2, h3, _⟩
  unfold Cache.getTag addrTag
  rw [h2, h3]

theorem cacheWF_of_shapeEq (sb bob assoc i : Nat) (c c' : Cache)
    (h : CacheWF sb bob assoc i c) (hs : CacheShapeEq c c') :
    CacheWF sb bob assoc i c' := by
  rcases h with ⟨h1, h2, h3, h4, h5, h6⟩
  rcases hs with ⟨s1, s2, s3, s4, s5, _, s7⟩
  refine ⟨s1.trans h1, s2.trans h2, s3.trans h3, s4.trans h4, s5.trans h5, ?_⟩
  intro k hk
  rcases s7 k with ⟨t1, t2, t3⟩
  rcases h6 k hk with ⟨u1, u2, u3⟩
  exact ⟨t1.trans u1, by rw [t2]; exact u2, t3 u3⟩

theorem busOperation_spec (n sb assoc bob : Nat) (sys : Sys)
    (hwf : SysWF n sb assoc bob sys) (op : BusOperation) (address i : Nat) :
    (busOperation sys op address i false 0).accepted = true ∧
    (busOperation sys op address i false 0).sys.bus.busy = false ∧
    (busOperation sys op address i false 0).sys.bus.pendingTransactions = [] ∧
    (busOperation sys op address i false 0).sys.caches.length = n ∧
    (busOperation sys op address i false 0).sys.caches.getD i default
      = sys.caches.getD i default ∧
    (∀ j, j < n → j ≠ i →
      (busOperation sys op address i false 0).sys.caches.getD j default
        = ((sys.caches.getD j default).snoop op address i false 0).cache) ∧
    (busOperation sys op address i false 0).dataProvided
      = (List.range n).any (fun j => decide (j ≠ i) &&
          snoopProvides op address i (sys.caches.getD j default)) := by
  rcases hwf with ⟨hlen, _, hbusy, hpend⟩
  simp only [busOperation, hbusy, Bool.false_eq_true, if_false, processSnooping]
  refine ⟨by trivial, by trivial, hpend, ?_, ?_, ?_, ?_⟩
  · rw [snoopPass_length, hlen]
  · exact snoopPass_getD_src _ _ _
  · intro j hj hji
    rw [snoopPass_getD_mem _ _ _ (fun m hm => List.mem_range.mp hm) (List.nodup_range _)
      j (List.mem_range.mpr (by rw [hlen]; exact hj)) hji]
  · rw [snoopPass_dataProvided _ _ _ (List.nodup_range _), hlen]
    simp

theorem busOperation_WF (n sb assoc bob : Nat) (sys : Sys)
    (hwf : SysWF n sb assoc bob sys) (op : BusOperation) (address i : Nat) (hi : i < n) :
    SysWF n sb assoc bob (busOperation sys op address i false 0).sys := by
  obtain ⟨_, hbusy, hpend, hlen, hgetI, hgetJ, _⟩ :=
    busOperation_spec n sb assoc bob sys hwf op address i
  refine ⟨hlen, ?_, hbusy, hpend⟩
  intro j hj
  by_cases hji : j = i
  · subst hji
    rw [hgetI]
    exact hwf.2.1 j hj
  · rw [hgetJ j hj hji]
    have hcwf := hwf.2.1 j hj
    have hcore : (sys.caches.getD j default).coreId = j := hcwf.1
    have hshape := (snoop_spec (sys.caches.getD j default) op address i false 0
      (by rw [hcore]; exact fun h => hji h.symm)
      (by rw [hcwf.2.2.2.2.1, hcwf.2.1])
      ((hcwf.2.2.2.2.2 _ (by rw [← hcwf.2.1]; exact getSetIndex_lt _ address)).2.2)).1
    exact cacheWF_of_shapeEq sb bob assoc j _ _ hcwf hshape

theorem busOperation_stateAt (n sb assoc bob : Nat) (sys : Sys)
    (hwf : SysWF n sb assoc bob sys) (op : BusOperation) (address i : Nat) (hi : i < n) :
    (∀ j, j < n → j ≠ i →
      ((busOperation sys op address i false 0).sys.caches.getD j default).stateAt
          (addrSetIdx sb bob address) (addrTag sb bob address)
        = snoopNext op ((sys.caches.getD j default).stateAt
            (addrSetIdx sb bob address) (addrTag sb bob address)) ∧
      (∀ si tv, si ≠ addrSetIdx sb bob address ∨ tv ≠ addrTag sb bob address →
        ((busOperation sys op address i false 0).sys.caches.getD j default).stateAt si tv
          = (sys.caches.getD j default).stateAt si tv)) ∧
    ((busOperation sys op address i false 0).dataProvided = false →
      ∀ j, j < n → j ≠ i →
        providesB op ((sys.caches.getD j default).stateAt
          (addrSetIdx sb bob address) (addrTag sb bob address)) = false) := by
  obtain ⟨_, _, _, _, _, hgetJ, hdp⟩ :=
    busOperation_spec n sb assoc bob sys hwf op address i
  have hper : ∀ j, j < n → j ≠ i →
      ((busOperation sys op address i false 0).sys.caches.getD j default).stateAt
          (addrSetIdx sb bob address) (addrTag sb bob address)
        = snoopNext op ((sys.caches.getD j default).stateAt
            (addrSetIdx sb bob address) (addrTag sb bob address)) ∧
      (∀ si tv, si ≠ addrSetIdx sb bob address ∨ tv ≠ addrTag sb bob address →
        ((busOperation sys op address i false 0).sys.caches.getD j default).stateAt si tv
          = (sys.caches.getD j default).stateAt si tv) ∧
      snoopProvides op address i (sys.caches.getD j default)
        = providesB op ((sys.caches.getD j default).stateAt
            (addrSetIdx sb bob address) (addrTag sb bob address)) := by
    intro j hj hji
    have hcwf := hwf.2.1 j hj
    have hcore : (sys.caches.getD j default).coreId = j := hcwf.1
    have hsi := cacheWF_getSetIndex sb bob assoc j _ hcwf address
    have hta := cacheWF_getTag sb bob assoc j _ hcwf address
    obtain ⟨_, hst, hoth, hpd, _, _⟩ := snoop_spec (sys.caches.getD j default) op address i
      false 0 (by rw [hcore]; exact fun h => hji h.symm)
      (by rw [hcwf.2.2.2.2.1, hcwf.2.1])
      ((hcwf.2.2.2.2.2 _ (by rw [← hcwf.2.1]; exact getSetIndex_lt _ address)).2.2)
    rw [hsi, hta] at hst hoth
    refine ⟨?_, ?_, ?_⟩
    · rw [hgetJ j hj hji]
      exact hst
    · intro si tv hne
      rw [hgetJ j hj hji]
      exact hoth si tv hne
    · unfold snoopProvides
      rw [hpd, hsi, hta]
      simp
  refine ⟨fun j hj hji => ⟨(hper j hj hji).1, (hper j hj hji).2.1⟩, ?_⟩
  intro hfalse j hj hji
  rw [hdp] at hfalse
  rw [← (hper j hj hji).2.2]
  cases hsp : snoopProvides op address i (sys.caches.getD j default)
  · rfl
  · exfalso
    have hany : (List.range n).any (fun j => decide (j ≠ i) &&
        snoopProvides op address i (sys.caches.getD j default)) = true :=
      List.any_eq_true.mpr ⟨j, List.mem_range.mpr hj,
        by rw [Bool.and_eq_true]; exact ⟨by simp [hji], hsp⟩⟩
    rw [hany] at hfalse
    cases hfalse

/-! ### Victim address reconstruction arithmetic -/

theorem lor_shiftLeft_add (x y b : Nat) (hy : y < 2 ^ b) :
    (x <<< b) ||| y = x <<< b + y := by
  rw [Nat.shiftLeft_eq, Nat.mul_comm x (2 ^ b), ← Nat.mul_add_lt_is_or hy x]

theorem victimAddr_eq (sb bob vtag setIdx : Nat) (h : setIdx < 2 ^ sb) :
    vtag <<< (sb + bob) ||| setIdx <<< bob
      = vtag * 2 ^ (sb + bob) + setIdx * 2 ^ bob := by
  have hlt : setIdx <<< bob < 2 ^ (sb + bob) := by
    rw [Nat.shiftLeft_eq, Nat.pow_add]
    exact Nat.mul_lt_mul_of_lt_of_le h (Nat.le_refl _) (Nat.two_pow_pos bob)
  rw [lor_shiftLeft_add _ _ _ hlt, Nat.shiftLeft_eq, Nat.shiftLeft_eq]

theorem victimAddr_tag (sb bob vtag setIdx : Nat) (h : setIdx < 2 ^ sb) :
    addrTag sb bob (vtag <<< (sb + bob) ||| setIdx <<< bob) = vtag := by
  rw [victimAddr_eq sb bob vtag setIdx h]
  unfold addrTag
  rw [Nat.shiftRight_eq_div_pow]
  have hr : setIdx * 2 ^ bob < 2 ^ (sb + bob) := by
    rw [Nat.pow_add]
    exact Nat.mul_lt_mul_of_lt_of_le h (Nat.le_refl _) (Nat.two_pow_pos bob)
  rw [Nat.mul_comm vtag (2 ^ (sb + bob)), Nat.mul_add_div (Nat.two_pow_pos _),
    Nat.div_eq_of_lt hr]
  omega

theorem victimAddr_setIdx (sb bob vtag setIdx : Nat) (h : setIdx < 2 ^ sb) :
    addrSetIdx sb bob (vtag <<< (sb + bob) ||| setIdx <<< bob) = setIdx := by
  rw [victimAddr_eq sb bob vtag setIdx h]
  unfold addrSetIdx
  rw [Nat.shiftRight_eq_div_pow]
  have he : vtag * 2 ^ (sb + bob) + setIdx * 2 ^ bob
      = 2 ^ bob * (vtag * 2 ^ sb + setIdx) := by
    rw [Nat.pow_add]
    ring
  rw [he, Nat.mul_div_cancel_left _ (Nat.two_pow_pos bob)]
  rw [Nat.mul_comm vtag (2 ^ sb), Nat.mul_add_mod, Nat.mod_eq_of_lt h]

/-! ### The SHARED-victim scan -/

theorem scanSharedAux_step_pred (sc si a : Nat) (c : Cache) (rest : List Cache)
    (acc : Nat × Option Nat) (hp : scanPred sc si a c = true) :
    scanSharedAux sc si a (c :: rest) acc
      = scanSharedAux sc si a rest (acc.1 + 1, some c.coreId) := by
  obtain ⟨cnt, last⟩ := acc
  unfold scanPred at hp
  rw [Bool.and_eq_true, decide_eq_true_eq] at hp
  obtain ⟨h1, h2⟩ := hp
  cases hli : c.getLineIndex a with
  | none => rw [hli] at h2; cases h2
  | some li =>
    simp only [hli] at h2
    rw [Bool.and_eq_true, decide_eq_true_eq] at h2
    simp only [scanSharedAux]
    rw [if_pos h1]
    simp only [hli]
    rw [if_pos h2]

theorem scanSharedAux_step_not_pred (sc si a : Nat) (c : Cache) (rest : List Cache)
    (acc : Nat × Option Nat) (hp : scanPred sc si a c = false) :
    scanSharedAux sc si a (c :: rest) acc = scanSharedAux sc si a rest acc := by
  obtain ⟨cnt, last⟩ := acc
  unfold scanPred at hp
  by_cases h1 : c.coreId ≠ sc
  · rw [decide_eq_true h1, Bool.true_and] at hp
    cases hli : c.getLineIndex a with
    | none =>
      simp only [scanSharedAux]
      rw [if_pos h1]
      simp only [hli]
    | some li =>
      simp only [hli] at hp
      have hcond : ¬(((c.sets.getD si default).getLine li).isValid = true ∧
          ((c.sets.getD si default).getLine li).state = CacheState.SHARED) := by
        intro hc
        rw [hc.1, Bool.true_and, decide_eq_false_iff_not] at hp
        exact hp hc.2
      simp only [scanSharedAux]
      rw [if_pos h1]
      simp only [hli]
      rw [if_neg hcond]
  · simp only [scanSharedAux]
    rw [if_neg h1]

theorem scanSharedAux_count (sc si a : Nat) (l : List Cache) :
    ∀ acc, (scanSharedAux sc si a l acc).1 = acc.1 + l.countP (scanPred sc si a) := by
  induction l with
  | nil =>
    intro acc
    simp [scanSharedAux, List.countP_nil]
  | cons c rest ih =>
    intro acc
    rw [List.countP_cons]
    cases hp : scanPred sc si a c with
    | false =>
      rw [scanSharedAux_step_not_pred sc si a c rest acc hp, ih acc]
      simp [hp]
    | true =>
      rw [scanSharedAux_step_pred sc si a c rest acc hp, ih _]
      simp only [hp, if_true]
      omega

theorem scanSharedAux_of_countP_zero (sc si a : Nat) (l : List Cache)
    (h : l.countP (scanPred sc si a) = 0) :
    ∀ acc, scanSharedAux sc si a l acc = acc := by
  induction l with
  | nil => intro acc; rfl
  | cons c rest ih =>
    intro acc
    rw [List.countP_cons] at h
    cases hp : scanPred sc si a c with
    | false =>
      rw [scanSharedAux_step_not_pred sc si a c rest acc hp]
      exact ih (by omega) acc
    | true => rw [hp] at h; simp at h

theorem scanSharedAux_last_of_one (sc si a : Nat) (l : List Cache)
    (h : l.countP (scanPred sc si a) = 1) :
    ∀ acc, ∃ c ∈ l, scanPred sc si a c = true ∧
      (scanSharedAux sc si a l acc).2 = some c.coreId := by
  induction l with
  | nil => intro acc; simp [List.countP_nil] at h
  | cons c rest ih =>
    intro acc
    rw [List.countP_cons] at h
    cases hp : scanPred sc si a c with
    | false =>
      rw [hp, if_neg Bool.false_ne_true] at h
      obtain ⟨c', hc', hpc', hlast⟩ := ih (by omega) acc
      exact ⟨c', List.mem_cons_of_mem c hc',
        hpc', by rw [scanSharedAux_step_not_pred sc si a c rest acc hp]; exact hlast⟩
    | true =>
      rw [hp, if_pos rfl] at h
      have hzero : rest.countP (scanPred sc si a) = 0 := by omega
      refine ⟨c, List.mem_cons_self c rest, hp, ?_⟩
      rw [scanSharedAux_step_pred sc si a c rest acc hp,
        scanSharedAux_of_countP_zero sc si a rest hzero _]

theorem countP_pair {α : Type} (l : List α) (p : α → Bool) (d : α) :
    ∀ i j, i < l.length → j < l.length → i ≠ j →
      p (l.getD i d) = true → p (l.getD j d) = true → 2 ≤ l.countP p := by
  induction l with
  | nil => intro i j hi; simp at hi
  | cons x xs ih =>
    intro i j hi hj hij hpi hpj
    rw [List.countP_cons]
    cases i with
    | zero =>
      cases j with
      | zero => exact absurd rfl hij
      | succ m =>
        rw [getD_cons_zero] at hpi
        rw [getD_cons_succ] at hpj
        rw [hpi, if_pos rfl]
        have hpos : 0 < xs.countP p := by
          rw [List.countP_pos]
          exact ⟨xs.getD m d, getD_lt_length_mem xs d m (by simpa using Nat.lt_of_succ_lt_succ hj),
            hpj⟩
        omega
    | succ nI =>
      cases j with
      | zero =>
        rw [getD_cons_zero] at hpj
        rw [getD_cons_succ] at hpi
        rw [hpj, if_pos rfl]
        have hpos : 0 < xs.countP p := by
          rw [List.countP_pos]
          exact ⟨xs.getD nI d, getD_lt_length_mem xs d nI
            (by simpa using Nat.lt_of_succ_lt_succ hi), hpi⟩
        omega
      | succ m =>
        rw [getD_cons_succ] at hpi hpj
        have := ih nI m (by simpa using Nat.lt_of_succ_lt_succ hi)
          (by simpa using Nat.lt_of_succ_lt_succ hj)
          (by omega) hpi hpj
        omega

/-! ### Generic one-line mutation helpers and the scan predicate -/

theorem findLine_of_valid_unique (s : CacheSet) (hu : s.tagUnique) (v : Nat)
    (hv : v < s.lines.length) (hval : (s.lines.getD v default).isValid = true) :
    s.findLine (s.lines.getD v default).tag = some v := by
  rw [findLine_eq_some_iff]
  refine ⟨hv, ⟨hval, rfl⟩, ?_⟩
  intro m hm hmm
  exact hu m v (Nat.lt_trans hm hv) hv (by omega) hmm.1 hval hmm.2

theorem stateAt_mutLine_self (c : Cache) (setIdx k : Nat) (st : CacheState) (tagv : Nat)
    (hset : setIdx < c.sets.length)
    (hu : (c.sets.getD setIdx default).tagUnique)
    (hk : (c.sets.getD setIdx default).findLine tagv = some k)
    (c' : Cache)
    (hsets : c'.sets = (c.putSet setIdx ((c.sets.getD setIdx default).setLineState k st)).sets) :
    c'.stateAt setIdx tagv = st := by
  have hstep : c'.stateAt setIdx tagv
      = (c.putSet setIdx ((c.sets.getD setIdx default).setLineState k st)).stateAt setIdx tagv := by
    unfold Cache.stateAt
    rw [hsets]
  rw [hstep, stateAt_putSet_self _ _ _ _ hset]
  exact stateOf_setLineState_self _ _ _ _ hu hk

theorem stateAt_mutLine_other (c : Cache) (setIdx k : Nat) (st : CacheState) (tagv : Nat)
    (hset : setIdx < c.sets.length)
    (htag : ((c.sets.getD setIdx default).lines.getD k default).tag = tagv)
    (c' : Cache)
    (hsets : c'.sets = (c.putSet setIdx ((c.sets.getD setIdx default).setLineState k st)).sets)
    (si tv : Nat) (hne : si ≠ setIdx ∨ tv ≠ tagv) :
    c'.stateAt si tv = c.stateAt si tv := by
  have hstep : c'.stateAt si tv
      = (c.putSet setIdx ((c.sets.getD setIdx default).setLineState k st)).stateAt si tv := by
    unfold Cache.stateAt
    rw [hsets]
  rw [hstep]
  by_cases hsi : si = setIdx
  · subst hsi
    have hne' : tv ≠ tagv := by
      rcases hne with h' | h'
      · exact absurd rfl h'
      · exact h'
    rw [stateAt_putSet_self _ _ _ _ hset]
    unfold Cache.stateAt
    exact stateOf_setLineState_other _ _ _ _ (by rw [htag]; exact fun h' => hne' h'.symm)
  · rw [stateAt_putSet_other _ _ _ _ _ (fun h' => hsi h'.symm)]

theorem scanPred_iff (sb bob assoc j sc address : Nat) (c : Cache)
    (hcwf : CacheWF sb bob assoc j c) :
    scanPred sc (addrSetIdx sb bob address) address c = true
      ↔ (c.coreId ≠ sc ∧
          c.stateAt (addrSetIdx sb bob address) (addrTag sb bob address)
            = CacheState.SHARED) := by
  have hsi := cacheWF_getSetIndex sb bob assoc j c hcwf address
  have hta := cacheWF_getTag sb bob assoc j c hcwf address
  unfold scanPred
  have hgl : c.getLineIndex address
      = (c.sets.getD (addrSetIdx sb bob address) default).findLine (addrTag sb bob address) := by
    unfold Cache.getLineIndex
    rw [hsi, hta]
  rw [Bool.and_eq_true, decide_eq_true_eq]
  cases hf : (c.sets.getD (addrSetIdx sb bob address) default).findLine
      (addrTag sb bob address) with
  | none =>
    have hstI : c.stateAt (addrSetIdx sb bob address) (addrTag sb bob address)
        = CacheState.INVALID := by
      unfold Cache.stateAt
      rw [stateOf_eq_INVALID_iff]
      exact hf
    rw [hgl, hf]
    simp [hstI]
  | some li =>
    have hstEq : c.stateAt (addrSetIdx sb bob address) (addrTag sb bob address)
        = ((c.sets.getD (addrSetIdx sb bob address) default).getLine li).state := by
      unfold Cache.stateAt
      exact stateOf_of_findLine_some _ _ _ hf
    have hvalid : ((c.sets.getD (addrSetIdx sb bob address) default).getLine li).isValid
        = true := by
      rcases (findLine_eq_some_iff _ _ _).mp hf with ⟨_, ⟨hv, _⟩, _⟩
      exact hv
    rw [hgl, hf]
    simp only [hvalid, Bool.true_and, Bool.and_eq_true, decide_eq_true_eq, hstEq]

theorem mem_exists_getD {α : Type} (l : List α) (d c : α) (h : c ∈ l) :
    ∃ idx, idx < l.length ∧ l.getD idx d = c := by
  induction l with
  | nil => cases h
  | cons x xs ih =>
    rcases List.mem_cons.mp h with h' | h'
    · exact ⟨0, by simp, by rw [getD_cons_zero, h']⟩
    · obtain ⟨idx, hlt, hg⟩ := ih h'
      exact ⟨idx + 1, by simpa using Nat.succ_lt_succ hlt, by rw [getD_cons_succ]; exact hg⟩

/-! ### `Cache::evictLine` characterization -/

theorem evictLine_spec (n sb assoc bob : Nat) (caches : List Cache)
    (hlen : caches.length = n)
    (hwf : ∀ j, j < n → CacheWF sb bob assoc j (caches.getD j default))
    (i : Nat) (hi : i < n) (setIdx v : Nat)
    (hsetIdx : setIdx < 2 ^ sb)
    (hvlt : v < ((caches.getD i default).sets.getD setIdx default).lines.length)
    (hval : (((caches.getD i default).sets.getD setIdx default).lines.getD v default).isValid
      = true)
    (address vtag : Nat)
    (hvt : (((caches.getD i default).sets.getD setIdx default).lines.getD v default).tag = vtag)
    (hA1 : addrSetIdx sb bob address = setIdx)
    (hA2 : addrTag sb bob address = vtag)
    (cycles : Int) :
    (evictLine caches i setIdx v address cycles).1.length = n ∧
    (∀ j, j < n → CacheWF sb bob assoc j
      ((evictLine caches i setIdx v address cycles).1.getD j default)) ∧
    ((evictLine caches i setIdx v address cycles).1.getD i default).stateAt setIdx vtag
      = CacheState.INVALID ∧
    (∀ si tv, si ≠ setIdx ∨ tv ≠ vtag →
      ((evictLine caches i setIdx v address cycles).1.getD i default).stateAt si tv
        = (caches.getD i default).stateAt si tv) ∧
    ((evictLine caches i setIdx v address cycles).1.getD i default).isBlocked
      = (caches.getD i default).isBlocked ∧
    ((evictLine caches i setIdx v address cycles).1.getD i default).sets.getD setIdx default
      = ((caches.getD i default).sets.getD setIdx default).setLineState v CacheState.INVALID ∧
    (∀ k, k ≠ setIdx →
      ((evictLine caches i setIdx v address cycles).1.getD i default).sets.getD k default
        = (caches.getD i default).sets.getD k default) ∧
    ((∀ j, j ≠ i → (evictLine caches i setIdx v address cycles).1.getD j default
        = caches.getD j default) ∨
      (∃ p, p < n ∧ p ≠ i ∧
        (caches.getD p default).stateAt setIdx vtag = CacheState.SHARED ∧
        ((evictLine caches i setIdx v address cycles).1.getD p default).stateAt setIdx vtag
          = CacheState.EXCLUSIVE ∧
        (∀ si tv, si ≠ setIdx ∨ tv ≠ vtag →
          ((evictLine caches i setIdx v address cycles).1.getD p default).stateAt si tv
            = (caches.getD p default).stateAt si tv) ∧
        (∀ q, q < n → q ≠ i → q ≠ p →
          (caches.getD q default).stateAt setIdx vtag ≠ CacheState.SHARED) ∧
        (∀ q, q ≠ p → q ≠ i →
          (evictLine caches i setIdx v address cycles).1.getD q default
            = caches.getD q default) ∧
        (caches.getD i default).stateAt setIdx vtag = CacheState.SHARED)) ∧
    (evictLine caches i setIdx v address cycles).2
      = cycles + (if (((caches.getD i default).sets.getD setIdx default).lines.getD v
          default).state = CacheState.MODIFIED then 100 else 0) := by
  have hilen : i < caches.length := by rw [hlen]; exact hi
  have hcwfI := hwf i hi
  have hsetlen : (caches.getD i default).sets.length = 2 ^ sb :=
    hcwfI.2.2.2.2.1
  have hsetlt : setIdx < (caches.getD i default).sets.length := by
    rw [hsetlen]; exact hsetIdx
  have huI : ((caches.getD i default).sets.getD setIdx default).tagUnique := by
    have := hcwfI.2.2.2.2.2 setIdx hsetIdx
    exact this.2.2
  have hfindV : ((caches.getD i default).sets.getD setIdx default).findLine vtag = some v := by
    rw [← hvt]
    exact findLine_of_valid_unique _ huI v hvlt hval
  have hselfState : (caches.getD i default).stateAt setIdx vtag
      = (((caches.getD i default).sets.getD setIdx default).lines.getD v default).state := by
    unfold Cache.stateAt
    rw [stateOf_of_findLine_some _ _ _ hfindV]
    rfl
  -- general facts about any cache restating line v of set setIdx to INVALID
  have hmut : ∀ (c2 : Cache),
      c2.coreId = (caches.getD i default).coreId →
      c2.setIndexBits = (caches.getD i default).setIndexBits →
      c2.blockOffsetBits = (caches.getD i default).blockOffsetBits →
      c2.associativity = (caches.getD i default).associativity →
      c2.isBlocked = (caches.getD i default).isBlocked →
      c2.sets = ((caches.getD i default).putSet setIdx
        (((caches.getD i default).sets.getD setIdx default).setLineState v
          CacheState.INVALID)).sets →
      CacheWF sb bob assoc i c2 ∧
      c2.stateAt setIdx vtag = CacheState.INVALID ∧
      (∀ si tv, si ≠ setIdx ∨ tv ≠ vtag →
        c2.stateAt si tv = (caches.getD i default).stateAt si tv) ∧
      c2.isBlocked = (caches.getD i default).isBlocked ∧
      c2.sets.getD setIdx default
        = ((caches.getD i default).sets.getD setIdx default).setLineState v
            CacheState.INVALID ∧
      (∀ k, k ≠ setIdx → c2.sets.getD k default
        = (caches.getD i default).sets.getD k default) := by
    intro c2 h1 h2 h3 h4 h5 h6
    have hshape : CacheShapeEq (caches.getD i default) c2 :=
      cacheShapeEq_of_setLineState (caches.getD i default) c2 setIdx v CacheState.INVALID
        (Or.inl hval) h1 h2 h3 h4 h5 h6
    refine ⟨cacheWF_of_shapeEq sb bob assoc i _ _ hcwfI hshape, ?_, ?_, h5, ?_, ?_⟩
    · exact stateAt_mutLine_self _ _ _ _ _ hsetlt huI hfindV _ h6
    · exact fun si tv hne => stateAt_mutLine_other _ _ _ _ _ hsetlt hvt _ h6 si tv hne
    · rw [h6]
      unfold Cache.putSet
      simp only
      rw [getD_set_self _ _ _ _ hsetlt]
    · intro k hk
      rw [h6]
      unfold Cache.putSet
      simp only
      rw [getD_set_ne _ _ _ _ _ (fun h => hk h.symm)]
  unfold evictLine
  simp only [← List.getD_eq_getElem?_getD]
  cases hst : (((caches.getD i default).sets.getD setIdx default).getLine v).state with
  | MODIFIED =>
    simp only
    obtain ⟨hwf2, hs1, hs2, hb, hc1, hc2⟩ :=
      hmut { ((caches.getD i default).putSet setIdx
          (((caches.getD i default).sets.getD setIdx default).setLineState v
            CacheState.INVALID)) with
          stats := (caches.getD i default).stats.incrementWritebacks }
        rfl rfl rfl rfl rfl rfl
    rw [getLine_eq_getD] at hst
    refine ⟨by simp [hlen], ?_, ?_, ?_, ?_, ?_, ?_, Or.inl ?_, ?_⟩
    · intro j hj
      by_cases hji : j = i
      · subst hji
        rw [getD_set_self _ _ _ _ hilen]
        exact hwf2
      · rw [getD_set_ne _ _ _ _ _ (fun h => hji h.symm)]
        exact hwf j hj
    · rw [getD_set_self _ _ _ _ hilen]
      exact hs1
    · intro si tv hne
      rw [getD_set_self _ _ _ _ hilen]
      exact hs2 si tv hne
    · rw [getD_set_self _ _ _ _ hilen]
      exact hb
    · rw [getD_set_self _ _ _ _ hilen]
      exact hc1
    · intro k hk
      rw [getD_set_self _ _ _ _ hilen]
      exact hc2 k hk
    · intro j hji
      exact getD_set_ne _ _ _ _ _ (fun h => hji h.symm)
    · rw [hst, if_pos rfl]
  | EXCLUSIVE =>
    simp only
    obtain ⟨hwf2, hs1, hs2, hb, hc1, hc2⟩ :=
      hmut ((caches.getD i default).putSet setIdx
          (((caches.getD i default).sets.getD setIdx default).setLineState v
            CacheState.INVALID))
        rfl rfl rfl rfl rfl rfl
    rw [getLine_eq_getD] at hst
    refine ⟨by simp [hlen], ?_, ?_, ?_, ?_, ?_, ?_, Or.inl ?_, ?_⟩
    · intro j hj
      by_cases hji : j = i
      · subst hji
        rw [getD_set_self _ _ _ _ hilen]
        exact hwf2
      · rw [getD_set_ne _ _ _ _ _ (fun h => hji h.symm)]
        exact hwf j hj
    · rw [getD_set_self _ _ _ _ hilen]
      exact hs1
    · intro si tv hne
      rw [getD_set_self _ _ _ _ hilen]
      exact hs2 si tv hne
    · rw [getD_set_self _ _ _ _ hilen]
      exact hb
    · rw [getD_set_self _ _ _ _ hilen]
      exact hc1
    · intro k hk
      rw [getD_set_self _ _ _ _ hilen]
      exact hc2 k hk
    · intro j hji
      exact getD_set_ne _ _ _ _ _ (fun h => hji h.symm)
    · rw [hst]
      simp
  | INVALID =>
    exfalso
    rw [isValid_iff_state_ne] at hval
    rw [getLine_eq_getD] at hst
    exact hval hst
  | SHARED =>
    simp only
    have hcoreI : (caches.getD i default).coreId = i := hcwfI.1
    have hsiSelf : (caches.getD i default).getSetIndex address = setIdx := by
      rw [cacheWF_getSetIndex sb bob assoc i _ hcwfI address, hA1]
    rw [hcoreI, hsiSelf]
    rw [getLine_eq_getD] at hst
    have hselfS : (caches.getD i default).stateAt setIdx vtag = CacheState.SHARED := by
      rw [hselfState, hst]
    rcases hscan : scanSharedAux i setIdx address caches (0, none) with ⟨cnt, lastO⟩
    have hcount : caches.countP (scanPred i setIdx address) = cnt := by
      have h0 := scanSharedAux_count i setIdx address caches (0, none)
      rw [hscan] at h0
      simpa using h0.symm
    -- the general tail after `caches1` is fixed
    have htail : ∀ (caches1 : List Cache),
        caches1.length = n →
        caches1.getD i default = caches.getD i default →
        (∀ j, j < n → CacheWF sb bob assoc j (caches1.getD j default)) →
        let cs2 := caches1.set i ((caches1.getD i default).putSet setIdx
          (((caches1.getD i default).sets.getD setIdx default).setLineState v
            CacheState.INVALID))
        cs2.length = n ∧
        (∀ j, j < n → CacheWF sb bob assoc j (cs2.getD j default)) ∧
        (cs2.getD i default).stateAt setIdx vtag = CacheState.INVALID ∧
        (∀ si tv, si ≠ setIdx ∨ tv ≠ vtag →
          (cs2.getD i default).stateAt si tv = (caches.getD i default).stateAt si tv) ∧
        (cs2.getD i default).isBlocked = (caches.getD i default).isBlocked ∧
        (cs2.getD i default).sets.getD setIdx default
          = ((caches.getD i default).sets.getD setIdx default).setLineState v
              CacheState.INVALID ∧
        (∀ k, k ≠ setIdx → (cs2.getD i default).sets.getD k default
          = (caches.getD i default).sets.getD k default) ∧
        (∀ j, j ≠ i → cs2.getD j default = caches1.getD j default) := by
      intro caches1 hlen1 hsame hwf1
      intro cs2
      have hilen1 : i < caches1.length := by rw [hlen1]; exact hi
      obtain ⟨hwf2, hs1, hs2, hb, hc1, hc2⟩ :=
        hmut ((caches1.getD i default).putSet setIdx
            (((caches1.getD i default).sets.getD setIdx default).setLineState v
              CacheState.INVALID))
          (by rw [hsame]; rfl) (by rw [hsame]; rfl) (by rw [hsame]; rfl)
          (by rw [hsame]; rfl) (by rw [hsame]; rfl) (by rw [hsame])
      refine ⟨by simp [cs2, hlen1], ?_, ?_, ?_, ?_, ?_, ?_, ?_⟩
      · intro j hj
        by_cases hji : j = i
        · subst hji
          show CacheWF sb bob assoc j ((caches1.set j _).getD j default)
          rw [getD_set_self _ _ _ _ hilen1]
          exact hwf2
        · show CacheWF sb bob assoc j ((caches1.set i _).getD j default)
          rw [getD_set_ne _ _ _ _ _ (fun h => hji h.symm)]
          exact hwf1 j hj
      · show ((caches1.set i _).getD i default).stateAt setIdx vtag = _
        rw [getD_set_self _ _ _ _ hilen1]
        exact hs1
      · intro si tv hne
        show ((caches1.set i _).getD i default).stateAt si tv = _
        rw [getD_set_self _ _ _ _ hilen1]
        exact hs2 si tv hne
      · show ((caches1.set i _).getD i default).isBlocked = _
        rw [getD_set_self _ _ _ _ hilen1]
        exact hb
      · show ((caches1.set i _).getD i default).sets.getD setIdx default = _
        rw [getD_set_self _ _ _ _ hilen1]
        exact hc1
      · intro k hk
        show ((caches1.set i _).getD i default).sets.getD k default = _
        rw [getD_set_self _ _ _ _ hilen1]
        exact hc2 k hk
      · intro j hji
        show (caches1.set i _).getD j default = _
        exact getD_set_ne _ _ _ _ _ (fun h => hji h.symm)
    -- case split on the scan outcome
    have hcycles : ∀ (z : Int), z = z +
        (if (((caches.getD i default).sets.getD setIdx default).lines.getD v default).state
          = CacheState.MODIFIED then 100 else 0) := by
      intro z
      rw [hst]
      simp
    cases cnt with
    | zero =>
      simp only
      obtain ⟨l1, l2, l3, l4, l5, l6, l7, l8⟩ := htail caches hlen rfl hwf
      exact ⟨l1, l2, l3, l4, l5, l6, l7, Or.inl l8, hcycles cycles⟩
    | succ cnt1 =>
      cases cnt1 with
      | succ cnt2 =>
        simp only
        obtain ⟨l1, l2, l3, l4, l5, l6, l7, l8⟩ := htail caches hlen rfl hwf
        exact ⟨l1, l2, l3, l4, l5, l6, l7, Or.inl l8, hcycles cycles⟩
      | zero =>
        cases lastO with
        | none =>
          simp only
          obtain ⟨l1, l2, l3, l4, l5, l6, l7, l8⟩ := htail caches hlen rfl hwf
          exact ⟨l1, l2, l3, l4, l5, l6, l7, Or.inl l8, hcycles cycles⟩
        | some p0 =>
          simp only
          -- identify the unique SHARED peer
          obtain ⟨cPeer, hcmem, hcpred, hlast⟩ :=
            scanSharedAux_last_of_one i setIdx address caches hcount (0, none)
          rw [hscan] at hlast
          obtain ⟨pidx, hpidxlt, hpidxeq⟩ := mem_exists_getD caches default cPeer hcmem
          have hpidxn : pidx < n := by rw [← hlen]; exact hpidxlt
          have hcwfP := hwf pidx hpidxn
          have hpcore : cPeer.coreId = pidx := by rw [← hpidxeq]; exact (hwf pidx hpidxn).1
          have hp0idx : p0 = pidx := by
            have h2 : p0 = cPeer.coreId := Option.some.inj hlast
            rw [h2, hpcore]
          subst hp0idx
          have hcpredP : scanPred i (addrSetIdx sb bob address) address
              (caches.getD p0 default) = true := by
            rw [hA1, hpidxeq]
            exact hcpred
          have hpred := (scanPred_iff sb bob assoc p0 i address _ hcwfP).mp hcpredP
          have hpne : p0 ≠ i := by
            intro h'
            apply hpred.1
            rw [hcwfP.1, h']
          have hpS : (caches.getD p0 default).stateAt setIdx vtag = CacheState.SHARED := by
            have hx := hpred.2
            rw [hA1, hA2] at hx
            exact hx
          -- the peer's matched line
          have hpfind : ((caches.getD p0 default).sets.getD setIdx default).findLine vtag
              ≠ none := by
            intro hc
            rw [← stateOf_eq_INVALID_iff] at hc
            unfold Cache.stateAt at hpS
            rw [hpS] at hc
            cases hc
          cases hli : ((caches.getD p0 default).sets.getD setIdx default).findLine vtag with
          | none => exact absurd hli hpfind
          | some li =>
          have hgl : (caches.getD p0 default).getLineIndex address = some li := by
            unfold Cache.getLineIndex
            rw [cacheWF_getSetIndex sb bob assoc p0 _ hcwfP address,
              cacheWF_getTag sb bob assoc p0 _ hcwfP address, hA1, hA2]
            exact hli
          rw [hgl]
          simp only
          -- facts about the promoted peer
          have hplen : p0 < caches.length := by rw [hlen]; exact hpidxn
          have hpsetlt : setIdx < (caches.getD p0 default).sets.length := by
            rw [hcwfP.2.2.2.2.1]
            exact hsetIdx
          have hpu : ((caches.getD p0 default).sets.getD setIdx default).tagUnique :=
            (hcwfP.2.2.2.2.2 setIdx hsetIdx).2.2
          have hptag : (((caches.getD p0 default).sets.getD setIdx default).lines.getD li
              default).tag = vtag := by
            rcases (findLine_eq_some_iff _ _ _).mp hli with ⟨_, ⟨_, ht⟩, _⟩
            exact ht
          have hpvalid : (((caches.getD p0 default).sets.getD setIdx default).lines.getD li
              default).isValid = true := by
            rcases (findLine_eq_some_iff _ _ _).mp hli with ⟨_, ⟨hv', _⟩, _⟩
            exact hv'
          have hpromShape : CacheShapeEq (caches.getD p0 default)
              ((caches.getD p0 default).putSet setIdx
                (((caches.getD p0 default).sets.getD setIdx default).setLineState li
                  CacheState.EXCLUSIVE)) :=
            cacheShapeEq_of_setLineState _ _ setIdx li CacheState.EXCLUSIVE (Or.inl hpvalid)
              rfl rfl rfl rfl rfl rfl
          -- the roster after promotion
          have hpromPostLen : (caches.set p0 ((caches.getD p0 default).putSet setIdx
              (((caches.getD p0 default).sets.getD setIdx default).setLineState li
                CacheState.EXCLUSIVE))).length = n := by
            rw [List.length_set, hlen]
          have hpromI : (caches.set p0 ((caches.getD p0 default).putSet setIdx
              (((caches.getD p0 default).sets.getD setIdx default).setLineState li
                CacheState.EXCLUSIVE))).getD i default = caches.getD i default :=
            getD_set_ne _ _ _ _ _ hpne
          have hpromWF : ∀ j, j < n → CacheWF sb bob assoc j
              ((caches.set p0 ((caches.getD p0 default).putSet setIdx
                (((caches.getD p0 default).sets.getD setIdx default).setLineState li
                  CacheState.EXCLUSIVE))).getD j default) := by
            intro j hj
            by_cases hjp : j = p0
            · subst hjp
              rw [getD_set_self _ _ _ _ hplen]
              exact cacheWF_of_shapeEq sb bob assoc j _ _ hcwfP hpromShape
            · rw [getD_set_ne _ _ _ _ _ (fun h => hjp h.symm)]
              exact hwf j hj
          obtain ⟨l1, l2, l3, l4, l5, l6, l7, l8⟩ :=
            htail _ hpromPostLen hpromI hpromWF
          refine ⟨l1, l2, l3, l4, l5, l6, l7, Or.inr ?_, hcycles cycles⟩
          refine ⟨p0, hpidxn, hpne, hpS, ?_, ?_, ?_, ?_, hselfS⟩
          · rw [l8 p0 hpne, getD_set_self _ _ _ _ hplen]
            exact stateAt_mutLine_self _ _ _ _ _ hpsetlt hpu hli _ rfl
          · intro si tv hne
            rw [l8 p0 hpne, getD_set_self _ _ _ _ hplen]
            exact stateAt_mutLine_other _ _ _ _ _ hpsetlt hptag _ rfl si tv hne
          · intro q hq hqi hqp
            intro hqS
            have hqpred : scanPred i setIdx address (caches.getD q default) = true := by
              rw [← hA1]
              rw [scanPred_iff sb bob assoc q i address _ (hwf q hq)]
              refine ⟨?_, ?_⟩
              · rw [(hwf q hq).1]
                exact hqi
              · rw [hA1, hA2]
                exact hqS
            have hppred : scanPred i setIdx address (caches.getD p0 default) = true := by
              rw [hpidxeq]
              exact hcpred
            have h2le := countP_pair caches (scanPred i setIdx address) default q p0
              (by rw [hlen]; exact hq) hplen hqp
              (by rw [← hA1] at hqpred; rw [← hA1]; exact hqpred)
              (by rw [← hA1] at hppred; rw [← hA1]; exact hppred)
            rw [hcount] at h2le
            omega
          · intro q hqp hqi
            rw [l8 q hqi, getD_set_ne _ _ _ _ _ (fun h => hqp h.symm)]

/-! ### `CacheSet::allocateLine` characterization -/

theorem findInvalidAux_shift (l : List CacheLine) :
    ∀ i, findInvalidAux l i = (findInvalidAux l 0).map (· + i) := by
  induction l with
  | nil => intro i; rfl
  | cons x xs ih =>
    intro i
    by_cases h : (!x.isValid) = true
    · simp [findInvalidAux, h]
    · simp only [findInvalidAux, h, if_false, Bool.false_eq_true]
      rw [ih (i + 1), ih 1, Option.map_map]
      congr 1
      funext k
      simp [Function.comp]
      omega

theorem findInvalidAux_eq_some_iff (l : List CacheLine) (k : Nat) :
    findInvalidAux l 0 = some k ↔
      k < l.length ∧ (l.getD k default).isValid = false ∧
        ∀ m, m < k → (l.getD m default).isValid = true := by
  induction l generalizing k with
  | nil => simp [findInvalidAux]
  | cons x xs ih =>
    by_cases h : (!x.isValid) = true
    · have hx : x.isValid = false := by
        cases hb : x.isValid
        · rfl
        · rw [hb] at h; cases h
      simp only [findInvalidAux, h, if_true]
      constructor
      · rintro hk
        cases hk
        refine ⟨by simp, by rw [getD_cons_zero]; exact hx, ?_⟩
        intro m hm; omega
      · rintro ⟨hk, hmk, hnone⟩
        cases k with
        | zero => rfl
        | succ n =>
          have := hnone 0 (Nat.succ_pos n)
          rw [getD_cons_zero] at this
          rw [this] at hx
          cases hx
    · have hx : x.isValid = true := by
        cases hb : x.isValid
        · rw [hb] at h; simp at h
        · rfl
      simp only [findInvalidAux, h, if_false, Bool.false_eq_true]
      rw [findInvalidAux_shift xs 1]
      constructor
      · intro hk
        rcases Option.map_eq_some'.mp hk with ⟨k', hk', rfl⟩
        rcases (ih k').mp hk' with ⟨h1, h2, h3⟩
        refine ⟨by simpa using Nat.succ_lt_succ h1, by rw [getD_cons_succ]; exact h2, ?_⟩
        intro m hm
        cases m with
        | zero => rw [getD_cons_zero]; exact hx
        | succ mn =>
          rw [getD_cons_succ]
          exact h3 mn (by omega)
      · rintro ⟨hk, hmk, hall⟩
        cases k with
        | zero =>
          rw [getD_cons_zero] at hmk
          rw [hmk] at hx
          cases hx
        | succ kn =>
          have : findInvalidAux xs 0 = some kn := by
            rw [ih kn]
            refine ⟨by simpa using Nat.lt_of_succ_lt_succ hk,
              by rw [getD_cons_succ] at hmk; exact hmk, ?_⟩
            intro m hm
            have := hall (m + 1) (by omega)
            rw [getD_cons_succ] at this
            exact this
          simp [this]

theorem allocateLine_set_spec (s : CacheSet) (tagv : Nat)
    (k : Nat) (hk : k < s.lines.length)
    (hkinv : (s.lines.getD k default).isValid = false)
    (hfirst : ∀ m, m < k → (s.lines.getD m default).isValid = true) :
    (s.allocateLine tagv).1 = k ∧
    (s.allocateLine tagv).2.lines = s.lines.set k ((s.lines.getD k default).setTag tagv) ∧
    (s.allocateLine tagv).2.lruCounter.length = s.lruCounter.length := by
  have hfind : findInvalidAux s.lines 0 = some k := by
    rw [findInvalidAux_eq_some_iff]
    exact ⟨hk, hkinv, hfirst⟩
  unfold CacheSet.allocateLine
  rw [hfind]
  refine ⟨rfl, rfl, ?_⟩
  unfold CacheSet.updateLRU
  simp

/-- The combined effect of `CacheSet::allocateLine` into an invalid slot
followed by setting the fresh line's state. -/
theorem alloc_then_state_spec (s : CacheSet) (tagv : Nat) (st : CacheState)
    (k : Nat) (hk : k < s.lines.length)
    (hkinv : (s.lines.getD k default).isValid = false)
    (hfirst : ∀ m, m < k → (s.lines.getD m default).isValid = true)
    (hmiss : s.findLine tagv = none)
    (hu : s.tagUnique)
    (hst : st ≠ CacheState.INVALID) :
    ((s.allocateLine tagv).2.setLineState (s.allocateLine tagv).1 st).stateOf tagv = st ∧
    (∀ tv, tv ≠ tagv →
      ((s.allocateLine tagv).2.setLineState (s.allocateLine tagv).1 st).stateOf tv
        = s.stateOf tv) ∧
    ((s.allocateLine tagv).2.setLineState (s.allocateLine tagv).1 st).tagUnique ∧
    ((s.allocateLine tagv).2.setLineState (s.allocateLine tagv).1 st).lines.length
      = s.lines.length ∧
    ((s.allocateLine tagv).2.setLineState (s.allocateLine tagv).1 st).lruCounter.length
      = s.lruCounter.length := by
  obtain ⟨hidx, hlines, hlru⟩ := allocateLine_set_spec s tagv k hk hkinv hfirst
  -- the final lines: slot k holds ⟨tagv, st⟩, everything else as in s
  have hfin : ((s.allocateLine tagv).2.setLineState (s.allocateLine tagv).1 st).lines
      = s.lines.set k ⟨tagv, st⟩ := by
    rw [hidx]
    unfold CacheSet.setLineState CacheSet.getLine
    rw [hlines]
    rw [getD_set_self _ _ _ _ hk]
    rw [List.set_set]
    rfl
  have hlen2 : ((s.allocateLine tagv).2.setLineState (s.allocateLine tagv).1 st).lines.length
      = s.lines.length := by
    rw [hfin]
    simp
  have hgetk : ((s.allocateLine tagv).2.setLineState (s.allocateLine tagv).1 st).lines.getD k
      default = ⟨tagv, st⟩ := by
    rw [hfin]
    exact getD_set_self _ _ _ _ hk
  have hgetm : ∀ m, m ≠ k →
      ((s.allocateLine tagv).2.setLineState (s.allocateLine tagv).1 st).lines.getD m default
        = s.lines.getD m default := by
    intro m hm
    rw [hfin]
    exact getD_set_ne _ _ _ _ _ (fun h => hm h.symm)
  have hmiss' := (findLine_eq_none_iff s tagv).mp hmiss
  refine ⟨?_, ?_, ?_, hlen2, by rw [hidx]; rw [setLineState_lru]; exact hlru⟩
  · have hfd : ((s.allocateLine tagv).2.setLineState (s.allocateLine tagv).1 st).findLine tagv
        = some k := by
      rw [findLine_eq_some_iff]
      refine ⟨by rw [hlen2]; exact hk, ?_, ?_⟩
      · rw [hgetk]
        constructor
        · rw [isValid_iff_state_ne]
          exact hst
        · rfl
      · intro m hm
        rw [hgetm m (by omega)]
        exact hmiss' m (by omega)
    rw [stateOf_of_findLine_some _ _ _ hfd, getLine_eq_getD, hgetk]
  · intro tv htv
    have hmatches : ∀ m,
        lineMatches tv (((s.allocateLine tagv).2.setLineState (s.allocateLine tagv).1
          st).lines.getD m default) ↔ lineMatches tv (s.lines.getD m default) := by
      intro m
      by_cases hm : m = k
      · subst hm
        rw [hgetk]
        unfold lineMatches
        constructor
        · intro ⟨_, ht⟩
          exact absurd ht.symm htv
        · intro ⟨hv, _⟩
          rw [hkinv] at hv
          cases hv
      · rw [hgetm m hm]
    have hfd : ((s.allocateLine tagv).2.setLineState (s.allocateLine tagv).1 st).findLine tv
        = s.findLine tv := by
      cases hcase : s.findLine tv with
      | none =>
        rw [findLine_eq_none_iff]
        intro m hm
        rw [hlen2] at hm
        rw [hmatches m]
        exact (findLine_eq_none_iff s tv).mp hcase m hm
      | some m =>
        rcases (findLine_eq_some_iff s tv m).mp hcase with ⟨h1, h2, h3⟩
        rw [findLine_eq_some_iff]
        refine ⟨by rw [hlen2]; exact h1, (hmatches m).mpr h2, ?_⟩
        intro m' hm'
        rw [hmatches m']
        exact h3 m' hm'
    unfold CacheSet.stateOf
    rw [hfd]
    cases hcase : s.findLine tv with
    | none => rfl
    | some m =>
      simp only
      rcases (findLine_eq_some_iff s tv m).mp hcase with ⟨h1, ⟨_, htm⟩, _⟩
      have hmk : m ≠ k := by
        intro he
        subst he
        rw [(findLine_eq_some_iff s tv m).mp hcase |>.2.1.1] at hkinv
        cases hkinv
      rw [getLine_eq_getD, getLine_eq_getD, hgetm m hmk]
  · intro a b ha hb hab hva hvb
    rw [hlen2] at ha hb
    by_cases hak : a = k
    · subst hak
      rw [hgetk] at hva ⊢
      rw [hgetm b (by omega)] at hvb ⊢
      intro he
      exact (hmiss' b hb) ⟨hvb, by rw [← he]⟩
    · by_cases hbk : b = k
      · subst hbk
        rw [hgetk] at hvb ⊢
        rw [hgetm a hak] at hva ⊢
        intro he
        exact (hmiss' a ha) ⟨hva, by rw [he]⟩
      · rw [hgetm a hak] at hva ⊢
        rw [hgetm b hbk] at hvb ⊢
        exact hu a b ha hb hab hva hvb

/-! ### `Cache::allocateLine` (system level) -/

theorem getLRUIndexAux_bound (l : List Nat) :
    ∀ i maxC best, getLRUIndexAux l i maxC best = best ∨
      (i ≤ getLRUIndexAux l i maxC best ∧ getLRUIndexAux l i maxC best < i + l.length) := by
  induction l with
  | nil => intro i maxC best; left; rfl
  | cons x xs ih =>
    intro i maxC best
    unfold getLRUIndexAux
    by_cases h : (x : Int) > maxC
    · rw [if_pos h]
      rcases ih (i + 1) (x : Int) i with h' | h'
      · right
        rw [h']
        simp only [List.length_cons]
        omega
      · right
        simp only [List.length_cons]
        omega
    · rw [if_neg h]
      rcases ih (i + 1) maxC best with h' | h'
      · left; exact h'
      · right
        simp only [List.length_cons]
        omega

theorem getLRUIndex_lt (s : CacheSet) (h : 0 < s.lruCounter.length) :
    s.getLRUIndex < s.lruCounter.length := by
  unfold CacheSet.getLRUIndex
  rcases getLRUIndexAux_bound s.lruCounter 0 (-1) 0 with h' | h'
  · rw [h']; exact h
  · omega

theorem all_isValid_iff (l : List CacheLine) :
    l.all (fun x => x.isValid) = true ↔
      ∀ m, m < l.length → (l.getD m default).isValid = true := by
  induction l with
  | nil => simp
  | cons x xs ih =>
    simp only [List.all_cons, Bool.and_eq_true, List.length_cons]
    constructor
    · rintro ⟨hx, hxs⟩ m hm
      cases m with
      | zero => rw [getD_cons_zero]; exact hx
      | succ k =>
        rw [getD_cons_succ]
        exact ih.mp hxs k (by omega)
    · intro hall
      refine ⟨?_, ih.mpr ?_⟩
      · have := hall 0 (by omega)
        rw [getD_cons_zero] at this; exact this
      · intro m hm
        have := hall (m + 1) (by omega)
        rw [getD_cons_succ] at this; exact this

theorem isFull_true_iff (s : CacheSet) :
    s.isFull = true ↔ ∀ m, m < s.lines.length → (s.lines.getD m default).isValid = true :=
  all_isValid_iff s.lines

theorem exists_invalid_of_not_full (s : CacheSet) (h : s.isFull = false) :
    ∃ m, m < s.lines.length ∧ (s.lines.getD m default).isValid = false := by
  by_contra hc
  push_neg at hc
  have : s.isFull = true := (isFull_true_iff s).mpr (by
    intro m hm
    have := hc m hm
    cases hb : (s.lines.getD m default).isValid
    · exact absurd hb this
    · rfl)
  rw [this] at h
  cases h

theorem exists_first_invalid (l : List CacheLine)
    (h : ∃ m, m < l.length ∧ (l.getD m default).isValid = false) :
    ∃ k, k < l.length ∧ (l.getD k default).isValid = false ∧
      ∀ m, m < k → (l.getD m default).isValid = true := by
  induction l with
  | nil =>
    obtain ⟨m, hm, _⟩ := h
    simp at hm
  | cons x xs ih =>
    cases hx : x.isValid
    · refine ⟨0, by simp, by rw [getD_cons_zero]; exact hx, ?_⟩
      intro m hm
      exact absurd hm (by omega)
    · obtain ⟨m, hm, hmv⟩ := h
      cases m with
      | zero =>
        rw [getD_cons_zero] at hmv
        rw [hmv] at hx
        cases hx
      | succ mk =>
        rw [getD_cons_succ] at hmv
        obtain ⟨k, hk, hkv, hfirst⟩ :=
          ih ⟨mk, by simp only [List.length_cons] at hm; omega, hmv⟩
        refine ⟨k + 1, by simp only [List.length_cons]; omega,
          by rw [getD_cons_succ]; exact hkv, ?_⟩
        intro m hm2
        cases m with
        | zero => rw [getD_cons_zero]; exact hx
        | succ j =>
          rw [getD_cons_succ]
          exact hfirst j (by omega)

theorem findLine_none_setLineState_INVALID (s : CacheSet) (tagv v : Nat)
    (hmiss : s.findLine tagv = none) :
    (s.setLineState v CacheState.INVALID).findLine tagv = none := by
  rw [findLine_eq_none_iff]
  intro m hm
  rw [setLineState_lines_length] at hm
  unfold CacheSet.setLineState
  by_cases hmv : m = v
  · subst hmv
    rw [getD_set_self _ _ _ _ hm]
    intro hmat
    have h1 := hmat.1
    rw [isValid_iff_state_ne] at h1
    exact h1 rfl
  · rw [getD_set_ne _ _ _ _ _ (fun h2 => hmv h2.symm)]
    exact (findLine_eq_none_iff s tagv).mp hmiss m hm

theorem allocateLine_eq_of_notFull (caches : List Cache) (i address : Nat) (isWrite : Bool)
    (cycles : Int) (busresponse : Bool)
    (hful : ((caches.getD i default).sets.getD ((caches.getD i default).getSetIndex address) default).isFull = false) :
    allocateLine caches i address isWrite cycles busresponse = (caches.set i { ((caches.getD i default).putSet ((caches.getD i default).getSetIndex address) ((((caches.getD i default).sets.getD ((caches.getD i default).getSetIndex address) default).allocateLine ((caches.getD i default).getTag address)).2.setLineState (((caches.getD i default).sets.getD ((caches.getD i default).getSetIndex address) default).allocateLine ((caches.getD i default).getTag address)).1 (if isWrite then CacheState.MODIFIED else if busresponse then CacheState.SHARED else CacheState.EXCLUSIVE))) with isBlocked := false }, cycles) := by
  simp only [allocateLine]
  rw [hful]
  rfl

theorem allocateLine_eq_of_full (caches : List Cache) (i address : Nat) (isWrite : Bool)
    (cycles : Int) (busresponse : Bool)
    (hful : ((caches.getD i default).sets.getD ((caches.getD i default).getSetIndex address) default).isFull = true)
    (hvval : (((caches.getD i default).sets.getD ((caches.getD i default).getSetIndex address) default).getLine ((caches.getD i default).sets.getD ((caches.getD i default).getSetIndex address) default).getLRUIndex).isValid = true) :
    allocateLine caches i address isWrite cycles busresponse = (((evictLine caches i ((caches.getD i default).getSetIndex address) ((caches.getD i default).sets.getD ((caches.getD i default).getSetIndex address) default).getLRUIndex ((((caches.getD i default).sets.getD ((caches.getD i default).getSetIndex address) default).getLine ((caches.getD i default).sets.getD ((caches.getD i default).getSetIndex address) default).getLRUIndex).tag <<< ((caches.getD i default).setIndexBits + (caches.getD i default).blockOffsetBits) ||| ((caches.getD i default).getSetIndex address) <<< (caches.getD i default).blockOffsetBits) cycles).1.set i { ((evictLine caches i ((caches.getD i default).getSetIndex address) ((caches.getD i default).sets.getD ((caches.getD i default).getSetIndex address) default).getLRUIndex ((((caches.getD i default).sets.getD ((caches.getD i default).getSetIndex address) default).getLine ((caches.getD i default).sets.getD ((caches.getD i default).getSetIndex address) default).getLRUIndex).tag <<< ((caches.getD i default).setIndexBits + (caches.getD i default).blockOffsetBits) ||| ((caches.getD i default).getSetIndex address) <<< (caches.getD i default).blockOffsetBits) cycles).1.getD i default) with stats := ((evictLine caches i ((caches.getD i default).getSetIndex address) ((caches.getD i default).sets.getD ((caches.getD i default).getSetIndex address) default).getLRUIndex ((((caches.getD i default).sets.getD ((caches.getD i default).getSetIndex address) default).getLine ((caches.getD i default).sets.getD ((caches.getD i default).getSetIndex address) default).getLRUIndex).tag <<< ((caches.getD i default).setIndexBits + (caches.getD i default).blockOffsetBits) ||| ((caches.getD i default).getSetIndex address) <<< (caches.getD i default).blockOffsetBits) cycles).1.getD i default).stats.incrementEvictions }).set i { ((((evictLine caches i ((caches.getD i default).getSetIndex address) ((caches.getD i default).sets.getD ((caches.getD i default).getSetIndex address) default).getLRUIndex ((((caches.getD i default).sets.getD ((caches.getD i default).getSetIndex address) default).getLine ((caches.getD i default).sets.getD ((caches.getD i default).getSetIndex address) default).getLRUIndex).tag <<< ((caches.getD i default).setIndexBits + (caches.getD i default).blockOffsetBits) ||| ((caches.getD i default).getSetIndex address) <<< (caches.getD i default).blockOffsetBits) cycles).1.set i { ((evictLine caches i ((caches.getD i default).getSetIndex address) ((caches.getD i default).sets.getD ((caches.getD i default).getSetIndex address) default).getLRUIndex ((((caches.getD i default).sets.getD ((caches.getD i default).getSetIndex address) default).getLine ((caches.getD i default).sets.getD ((caches.getD i default).getSetIndex address) default).getLRUIndex).tag <<< ((caches.getD i default).setIndexBits + (caches.getD i default).blockOffsetBits) ||| ((caches.getD i default).getSetIndex address) <<< (caches.getD i default).blockOffsetBits) cycles).1.getD i default) with stats := ((evictLine caches i ((caches.getD i default).getSetIndex address) ((caches.getD i default).sets.getD ((caches.getD i default).getSetIndex address) default).getLRUIndex ((((caches.getD i default).sets.getD ((caches.getD i default).getSetIndex address) default).getLine ((caches.getD i default).sets.getD ((caches.getD i default).getSetIndex address) default).getLRUIndex).tag <<< ((caches.getD i default).setIndexBits + (caches.getD i default).blockOffsetBits) ||| ((caches.getD i default).getSetIndex address) <<< (caches.getD i default).blockOffsetBits) cycles).1.getD i default).stats.incrementEvictions }).getD i default).putSet ((caches.getD i default).getSetIndex address) ((((((evictLine caches i ((caches.getD i default).getSetIndex address) ((caches.getD i default).sets.getD ((caches.getD i default).getSetIndex address) default).getLRUIndex ((((caches.getD i default).sets.getD ((caches.getD i default).getSetIndex address) default).getLine ((caches.getD i default).sets.getD ((caches.getD i default).getSetIndex address) default).getLRUIndex).tag <<< ((caches.getD i default).setIndexBits + (caches.getD i default).blockOffsetBits) ||| ((caches.getD i default).getSetIndex address) <<< (caches.getD i default).blockOffsetBits) cycles).1.set i { ((evictLine caches i ((caches.getD i default).getSetIndex address) ((caches.getD i default).sets.getD ((caches.getD i default).getSetIndex address) default).getLRUIndex ((((caches.getD i default).sets.getD ((caches.getD i default).getSetIndex address) default).getLine ((caches.getD i default).sets.getD ((caches.getD i default).getSetIndex address) default).getLRUIndex).tag <<< ((caches.getD i default).setIndexBits + (caches.getD i default).blockOffsetBits) ||| ((caches.getD i default).getSetIndex address) <<< (caches.getD i default).blockOffsetBits) cycles).1.getD i default) with stats := ((evictLine caches i ((caches.getD i default).getSetIndex address) ((caches.getD i default).sets.getD ((caches.getD i default).getSetIndex address) default).getLRUIndex ((((caches.getD i default).sets.getD ((caches.getD i default).getSetIndex address) default).getLine ((caches.getD i default).sets.getD ((caches.getD i default).getSetIndex address) default).getLRUIndex).tag <<< ((caches.getD i default).setIndexBits + (caches.getD i default).blockOffsetBits) ||| ((caches.getD i default).getSetIndex address) <<< (caches.getD i default).blockOffsetBits) cycles).1.getD i default).stats.incrementEvictions }).getD i default).sets.getD ((caches.getD i default).getSetIndex address) default).allocateLine ((caches.getD i default).getTag address)).2.setLineState (((((evictLine caches i ((caches.getD i default).getSetIndex address) ((caches.getD i default).sets.getD ((caches.getD i default).getSetIndex address) default).getLRUIndex ((((caches.getD i default).sets.getD ((caches.getD i default).getSetIndex address) default).getLine ((caches.getD i default).sets.getD ((caches.getD i default).getSetIndex address) default).getLRUIndex).tag <<< ((caches.getD i default).setIndexBits + (caches.getD i default).blockOffsetBits) ||| ((caches.getD i default).getSetIndex address) <<< (caches.getD i default).blockOffsetBits) cycles).1.set i { ((evictLine caches i ((caches.getD i default).getSetIndex address) ((caches.getD i default).sets.getD ((caches.getD i default).getSetIndex address) default).getLRUIndex ((((caches.getD i default).sets.getD ((caches.getD i default).getSetIndex address) default).getLine ((caches.getD i default).sets.getD ((caches.getD i default).getSetIndex address) default).getLRUIndex).tag <<< ((caches.getD i default).setIndexBits + (caches.getD i default).blockOffsetBits) ||| ((caches.getD i default).getSetIndex address) <<< (caches.getD i default).blockOffsetBits) cycles).1.getD i default) with stats := ((evictLine caches i ((caches.getD i default).getSetIndex address) ((caches.getD i default).sets.getD ((caches.getD i default).getSetIndex address) default).getLRUIndex ((((caches.getD i default).sets.getD ((caches.getD i default).getSetIndex address) default).getLine ((caches.getD i default).sets.getD ((caches.getD i default).getSetIndex address) default).getLRUIndex).tag <<< ((caches.getD i default).setIndexBits + (caches.getD i default).blockOffsetBits) ||| ((caches.getD i default).getSetIndex address) <<< (caches.getD i default).blockOffsetBits) cycles).1.getD i default).stats.incrementEvictions }).getD i default).sets.getD ((caches.getD i default).getSetIndex address) default).allocateLine ((caches.getD i default).getTag address)).1 (if isWrite then CacheState.MODIFIED else if busresponse then CacheState.SHARED else CacheState.EXCLUSIVE))) with isBlocked := false }, (evictLine caches i ((caches.getD i default).getSetIndex address) ((caches.getD i default).sets.getD ((caches.getD i default).getSetIndex address) default).getLRUIndex ((((caches.getD i default).sets.getD ((caches.getD i default).getSetIndex address) default).getLine ((caches.getD i default).sets.getD ((caches.getD i default).getSetIndex address) default).getLRUIndex).tag <<< ((caches.getD i default).setIndexBits + (caches.getD i default).blockOffsetBits) ||| ((caches.getD i default).getSetIndex address) <<< (caches.getD i default).blockOffsetBits) cycles).2) := by
  simp only [allocateLine]
  rw [hful, hvval]
  rfl

theorem allocateLine_spec (n sb assoc bob : Nat) (caches : List Cache)
    (hlen : caches.length = n)
    (hwf : ∀ j, j < n → CacheWF sb bob assoc j (caches.getD j default))
    (hassoc : 0 < assoc)
    (i : Nat) (hi : i < n) (address : Nat)
    (hmiss : (caches.getD i default).stateAt (addrSetIdx sb bob address) (addrTag sb bob address) = CacheState.INVALID)
    (isWrite : Bool) (cycles : Int) (busresponse : Bool) :
    (allocateLine caches i address isWrite cycles busresponse).1.length = n ∧
    (∀ j, j < n → CacheWF sb bob assoc j ((allocateLine caches i address isWrite cycles busresponse).1.getD j default)) ∧
    ((allocateLine caches i address isWrite cycles busresponse).1.getD i default).stateAt (addrSetIdx sb bob address) (addrTag sb bob address) = (if isWrite then CacheState.MODIFIED else if busresponse then CacheState.SHARED else CacheState.EXCLUSIVE) ∧
    ((allocateLine caches i address isWrite cycles busresponse).1.getD i default).isBlocked = false ∧
    (((∀ si tv, si ≠ (addrSetIdx sb bob address) ∨ tv ≠ (addrTag sb bob address) →
        ((allocateLine caches i address isWrite cycles busresponse).1.getD i default).stateAt si tv = (caches.getD i default).stateAt si tv) ∧
      (∀ j, j ≠ i → (allocateLine caches i address isWrite cycles busresponse).1.getD j default = caches.getD j default)) ∨
     (∃ vt, vt ≠ (addrTag sb bob address) ∧
       ((allocateLine caches i address isWrite cycles busresponse).1.getD i default).stateAt (addrSetIdx sb bob address) vt = CacheState.INVALID ∧
       (∀ si tv, (si ≠ (addrSetIdx sb bob address) ∨ tv ≠ (addrTag sb bob address)) → (si ≠ (addrSetIdx sb bob address) ∨ tv ≠ vt) →
         ((allocateLine caches i address isWrite cycles busresponse).1.getD i default).stateAt si tv = (caches.getD i default).stateAt si tv) ∧
       ((∀ j, j ≠ i → (allocateLine caches i address isWrite cycles busresponse).1.getD j default = caches.getD j default) ∨
        (∃ p, p < n ∧ p ≠ i ∧
          (caches.getD p default).stateAt (addrSetIdx sb bob address) vt = CacheState.SHARED ∧
          ((allocateLine caches i address isWrite cycles busresponse).1.getD p default).stateAt (addrSetIdx sb bob address) vt = CacheState.EXCLUSIVE ∧
          (∀ si tv2, si ≠ (addrSetIdx sb bob address) ∨ tv2 ≠ vt →
            ((allocateLine caches i address isWrite cycles busresponse).1.getD p default).stateAt si tv2
              = (caches.getD p default).stateAt si tv2) ∧
          (∀ q, q < n → q ≠ i → q ≠ p →
            (caches.getD q default).stateAt (addrSetIdx sb bob address) vt ≠ CacheState.SHARED) ∧
          (∀ q, q ≠ p → q ≠ i → (allocateLine caches i address isWrite cycles busresponse).1.getD q default = caches.getD q default) ∧
          (caches.getD i default).stateAt (addrSetIdx sb bob address) vt = CacheState.SHARED)))) ∧
    (allocateLine caches i address isWrite cycles busresponse).2 = cycles +
      (if ((caches.getD i default).sets.getD (addrSetIdx sb bob address) default).isFull = true ∧
          (((caches.getD i default).sets.getD (addrSetIdx sb bob address) default).lines.getD ((caches.getD i default).sets.getD (addrSetIdx sb bob address) default).getLRUIndex default).state = CacheState.MODIFIED
       then 100 else 0) := by
  obtain ⟨hcid, hsb, hbob, hasc, hslen, hsets⟩ := hwf i hi
  have hSI := cacheWF_getSetIndex sb bob assoc i _ (hwf i hi) address
  have hTA := cacheWF_getTag sb bob assoc i _ (hwf i hi) address
  have haddrSI : (addrSetIdx sb bob address) < 2 ^ sb := by
    unfold addrSetIdx
    exact Nat.mod_lt _ (Nat.pos_pow_of_pos _ (by omega))
  have hS0wf := hsets (addrSetIdx sb bob address) haddrSI
  have hmissF : ((caches.getD i default).sets.getD (addrSetIdx sb bob address) default).findLine (addrTag sb bob address) = none := (stateOf_eq_INVALID_iff _ _).mp hmiss
  have hnsI : (if isWrite then CacheState.MODIFIED else if busresponse then CacheState.SHARED else CacheState.EXCLUSIVE) ≠ CacheState.INVALID := by
    cases isWrite <;> cases busresponse <;> simp
  cases hful : ((caches.getD i default).sets.getD (addrSetIdx sb bob address) default).isFull with
  | false =>
    have hEq := allocateLine_eq_of_notFull caches i address isWrite cycles busresponse
      (by rw [hSI]; exact hful)
    rw [hSI, hTA] at hEq
    obtain ⟨m0, hm0, hm0v⟩ := exists_invalid_of_not_full _ hful
    obtain ⟨k, hk, hkinv, hkfirst⟩ := exists_first_invalid _ ⟨m0, hm0, hm0v⟩
    obtain ⟨a1, a2, a3, a4, a5⟩ :=
      alloc_then_state_spec ((caches.getD i default).sets.getD (addrSetIdx sb bob address) default) (addrTag sb bob address) (if isWrite then CacheState.MODIFIED else if busresponse then CacheState.SHARED else CacheState.EXCLUSIVE) k hk hkinv hkfirst hmissF hS0wf.2.2 hnsI
    have hgetI : (allocateLine caches i address isWrite cycles busresponse).1.getD i default = { ((caches.getD i default).putSet (addrSetIdx sb bob address) ((((caches.getD i default).sets.getD (addrSetIdx sb bob address) default).allocateLine (addrTag sb bob address)).2.setLineState (((caches.getD i default).sets.getD (addrSetIdx sb bob address) default).allocateLine (addrTag sb bob address)).1 (if isWrite then CacheState.MODIFIED else if busresponse then CacheState.SHARED else CacheState.EXCLUSIVE))) with isBlocked := false } := by
      rw [hEq]
      exact getD_set_self caches _ default i (by rw [hlen]; exact hi)
    have hgetJ : ∀ j, j ≠ i → (allocateLine caches i address isWrite cycles busresponse).1.getD j default = caches.getD j default := by
      intro j hj
      rw [hEq]
      exact getD_set_ne caches _ default i j (fun h => hj h.symm)
    have hg1 : (allocateLine caches i address isWrite cycles busresponse).1.length = n := by
      rw [hEq]
      simpa using hlen
    have hsnd : (allocateLine caches i address isWrite cycles busresponse).2 = cycles := by rw [hEq]
    have hC2sets : ({ ((caches.getD i default).putSet (addrSetIdx sb bob address) ((((caches.getD i default).sets.getD (addrSetIdx sb bob address) default).allocateLine (addrTag sb bob address)).2.setLineState (((caches.getD i default).sets.getD (addrSetIdx sb bob address) default).allocateLine (addrTag sb bob address)).1 (if isWrite then CacheState.MODIFIED else if busresponse then CacheState.SHARED else CacheState.EXCLUSIVE))) with isBlocked := false } : Cache).sets = (caches.getD i default).sets.set (addrSetIdx sb bob address) ((((caches.getD i default).sets.getD (addrSetIdx sb bob address) default).allocateLine (addrTag sb bob address)).2.setLineState (((caches.getD i default).sets.getD (addrSetIdx sb bob address) default).allocateLine (addrTag sb bob address)).1 (if isWrite then CacheState.MODIFIED else if busresponse then CacheState.SHARED else CacheState.EXCLUSIVE)) := rfl
    have hsetsAt : ({ ((caches.getD i default).putSet (addrSetIdx sb bob address) ((((caches.getD i default).sets.getD (addrSetIdx sb bob address) default).allocateLine (addrTag sb bob address)).2.setLineState (((caches.getD i default).sets.getD (addrSetIdx sb bob address) default).allocateLine (addrTag sb bob address)).1 (if isWrite then CacheState.MODIFIED else if busresponse then CacheState.SHARED else CacheState.EXCLUSIVE))) with isBlocked := false } : Cache).sets.getD (addrSetIdx sb bob address) default = ((((caches.getD i default).sets.getD (addrSetIdx sb bob address) default).allocateLine (addrTag sb bob address)).2.setLineState (((caches.getD i default).sets.getD (addrSetIdx sb bob address) default).allocateLine (addrTag sb bob address)).1 (if isWrite then CacheState.MODIFIED else if busresponse then CacheState.SHARED else CacheState.EXCLUSIVE)) := by
      rw [hC2sets]
      exact getD_set_self _ _ _ _ (by rw [hslen]; exact haddrSI)
    have hsetsAtNe : ∀ m, m ≠ (addrSetIdx sb bob address) →
        ({ ((caches.getD i default).putSet (addrSetIdx sb bob address) ((((caches.getD i default).sets.getD (addrSetIdx sb bob address) default).allocateLine (addrTag sb bob address)).2.setLineState (((caches.getD i default).sets.getD (addrSetIdx sb bob address) default).allocateLine (addrTag sb bob address)).1 (if isWrite then CacheState.MODIFIED else if busresponse then CacheState.SHARED else CacheState.EXCLUSIVE))) with isBlocked := false } : Cache).sets.getD m default = (caches.getD i default).sets.getD m default := by
      intro m hm
      rw [hC2sets]
      exact getD_set_ne _ _ _ _ _ (fun h => hm h.symm)
    have hstTA : ({ ((caches.getD i default).putSet (addrSetIdx sb bob address) ((((caches.getD i default).sets.getD (addrSetIdx sb bob address) default).allocateLine (addrTag sb bob address)).2.setLineState (((caches.getD i default).sets.getD (addrSetIdx sb bob address) default).allocateLine (addrTag sb bob address)).1 (if isWrite then CacheState.MODIFIED else if busresponse then CacheState.SHARED else CacheState.EXCLUSIVE))) with isBlocked := false } : Cache).stateAt (addrSetIdx sb bob address) (addrTag sb bob address) = (if isWrite then CacheState.MODIFIED else if busresponse then CacheState.SHARED else CacheState.EXCLUSIVE) := by
      unfold Cache.stateAt
      rw [hsetsAt]
      exact a1
    have hstOther : ∀ si tv, si ≠ (addrSetIdx sb bob address) ∨ tv ≠ (addrTag sb bob address) →
        ({ ((caches.getD i default).putSet (addrSetIdx sb bob address) ((((caches.getD i default).sets.getD (addrSetIdx sb bob address) default).allocateLine (addrTag sb bob address)).2.setLineState (((caches.getD i default).sets.getD (addrSetIdx sb bob address) default).allocateLine (addrTag sb bob address)).1 (if isWrite then CacheState.MODIFIED else if busresponse then CacheState.SHARED else CacheState.EXCLUSIVE))) with isBlocked := false } : Cache).stateAt si tv = (caches.getD i default).stateAt si tv := by
      intro si tv hne
      unfold Cache.stateAt
      by_cases hsi : si = (addrSetIdx sb bob address)
      · subst hsi
        rw [hsetsAt]
        have htv : tv ≠ (addrTag sb bob address) := by
          rcases hne with h | h
          · exact absurd rfl h
          · exact h
        exact a2 tv htv
      · rw [hsetsAtNe si hsi]
    have hwfC2 : CacheWF sb bob assoc i { ((caches.getD i default).putSet (addrSetIdx sb bob address) ((((caches.getD i default).sets.getD (addrSetIdx sb bob address) default).allocateLine (addrTag sb bob address)).2.setLineState (((caches.getD i default).sets.getD (addrSetIdx sb bob address) default).allocateLine (addrTag sb bob address)).1 (if isWrite then CacheState.MODIFIED else if busresponse then CacheState.SHARED else CacheState.EXCLUSIVE))) with isBlocked := false } := by
      refine ⟨hcid, hsb, hbob, hasc, ?_, ?_⟩
      · rw [hC2sets, List.length_set]
        exact hslen
      · intro m hm
        by_cases hmi : m = (addrSetIdx sb bob address)
        · subst hmi
          rw [hsetsAt]
          exact ⟨a4.trans hS0wf.1, a5.trans hS0wf.2.1, a3⟩
        · rw [hsetsAtNe m hmi]
          exact hsets m hm
    refine ⟨hg1, ?_, ?_, ?_, ?_, ?_⟩
    · intro j hj
      by_cases hji : j = i
      · subst hji
        rw [hgetI]
        exact hwfC2
      · rw [hgetJ j hji]
        exact hwf j hj
    · rw [hgetI]
      exact hstTA
    · rw [hgetI]
    · left
      refine ⟨?_, hgetJ⟩
      intro si tv hne
      rw [hgetI]
      exact hstOther si tv hne
    · rw [hsnd, if_neg]
      · omega
      · rintro ⟨h1, _⟩
        cases h1
  | true =>
    have hlru0 : 0 < ((caches.getD i default).sets.getD (addrSetIdx sb bob address) default).lruCounter.length := by
      rw [hS0wf.2.1]
      exact hassoc
    have hvlt : ((caches.getD i default).sets.getD (addrSetIdx sb bob address) default).getLRUIndex < ((caches.getD i default).sets.getD (addrSetIdx sb bob address) default).lines.length := by
      have h1 := getLRUIndex_lt ((caches.getD i default).sets.getD (addrSetIdx sb bob address) default) hlru0
      rw [hS0wf.2.1] at h1
      rw [hS0wf.1]
      exact h1
    have hval : (((caches.getD i default).sets.getD (addrSetIdx sb bob address) default).lines.getD ((caches.getD i default).sets.getD (addrSetIdx sb bob address) default).getLRUIndex default).isValid = true :=
      (isFull_true_iff _).mp hful _ hvlt
    have hvval : (((caches.getD i default).sets.getD (addrSetIdx sb bob address) default).getLine ((caches.getD i default).sets.getD (addrSetIdx sb bob address) default).getLRUIndex).isValid = true := by
      rw [getLine_eq_getD]
      exact hval
    have hvtne : (((caches.getD i default).sets.getD (addrSetIdx sb bob address) default).getLine ((caches.getD i default).sets.getD (addrSetIdx sb bob address) default).getLRUIndex).tag ≠ (addrTag sb bob address) := by
      intro he
      exact (findLine_eq_none_iff _ _).mp hmissF _ hvlt ⟨hval, he⟩
    have hEq := allocateLine_eq_of_full caches i address isWrite cycles busresponse
      (by rw [hSI]; exact hful) (by rw [hSI]; exact hvval)
    rw [hSI, hTA, hsb, hbob] at hEq
    obtain ⟨e1, e2, e3, e4, e5, e6, e7, e8, e9⟩ :=
      evictLine_spec n sb assoc bob caches hlen hwf i hi (addrSetIdx sb bob address) (((caches.getD i default).sets.getD (addrSetIdx sb bob address) default).getLRUIndex) haddrSI hvlt hval
        ((((caches.getD i default).sets.getD (addrSetIdx sb bob address) default).getLine ((caches.getD i default).sets.getD (addrSetIdx sb bob address) default).getLRUIndex).tag <<< (sb + bob) ||| (addrSetIdx sb bob address) <<< bob) ((((caches.getD i default).sets.getD (addrSetIdx sb bob address) default).getLine ((caches.getD i default).sets.getD (addrSetIdx sb bob address) default).getLRUIndex).tag) rfl
        (victimAddr_setIdx sb bob (((caches.getD i default).sets.getD (addrSetIdx sb bob address) default).getLine ((caches.getD i default).sets.getD (addrSetIdx sb bob address) default).getLRUIndex).tag (addrSetIdx sb bob address) haddrSI)
        (victimAddr_tag sb bob (((caches.getD i default).sets.getD (addrSetIdx sb bob address) default).getLine ((caches.getD i default).sets.getD (addrSetIdx sb bob address) default).getLRUIndex).tag (addrSetIdx sb bob address) haddrSI) cycles
    have hEq1 : (allocateLine caches i address isWrite cycles busresponse).1 = ((evictLine caches i (addrSetIdx sb bob address) ((caches.getD i default).sets.getD (addrSetIdx sb bob address) default).getLRUIndex ((((caches.getD i default).sets.getD (addrSetIdx sb bob address) default).getLine ((caches.getD i default).sets.getD (addrSetIdx sb bob address) default).getLRUIndex).tag <<< (sb + bob) ||| (addrSetIdx sb bob address) <<< bob) cycles).1.set i { ((evictLine caches i (addrSetIdx sb bob address) ((caches.getD i default).sets.getD (addrSetIdx sb bob address) default).getLRUIndex ((((caches.getD i default).sets.getD (addrSetIdx sb bob address) default).getLine ((caches.getD i default).sets.getD (addrSetIdx sb bob address) default).getLRUIndex).tag <<< (sb + bob) ||| (addrSetIdx sb bob address) <<< bob) cycles).1.getD i default) with stats := ((evictLine caches i (addrSetIdx sb bob address) ((caches.getD i default).sets.getD (addrSetIdx sb bob address) default).getLRUIndex ((((caches.getD i default).sets.getD (addrSetIdx sb bob address) default).getLine ((caches.getD i default).sets.getD (addrSetIdx sb bob address) default).getLRUIndex).tag <<< (sb + bob) ||| (addrSetIdx sb bob address) <<< bob) cycles).1.getD i default).stats.incrementEvictions }).set i { ((((evictLine caches i (addrSetIdx sb bob address) ((caches.getD i default).sets.getD (addrSetIdx sb bob address) default).getLRUIndex ((((caches.getD i default).sets.getD (addrSetIdx sb bob address) default).getLine ((caches.getD i default).sets.getD (addrSetIdx sb bob address) default).getLRUIndex).tag <<< (sb + bob) ||| (addrSetIdx sb bob address) <<< bob) cycles).1.set i { ((evictLine caches i (addrSetIdx sb bob address) ((caches.getD i default).sets.getD (addrSetIdx sb bob address) default).getLRUIndex ((((caches.getD i default).sets.getD (addrSetIdx sb bob address) default).getLine ((caches.getD i default).sets.getD (addrSetIdx sb bob address) default).getLRUIndex).tag <<< (sb + bob) ||| (addrSetIdx sb bob address) <<< bob) cycles).1.getD i default) with stats := ((evictLine caches i (addrSetIdx sb bob address) ((caches.getD i default).sets.getD (addrSetIdx sb bob address) default).getLRUIndex ((((caches.getD i default).sets.getD (addrSetIdx sb bob address) default).getLine ((caches.getD i default).sets.getD (addrSetIdx sb bob address) default).getLRUIndex).tag <<< (sb + bob) ||| (addrSetIdx sb bob address) <<< bob) cycles).1.getD i default).stats.incrementEvictions }).getD i default).putSet (addrSetIdx sb bob address) ((((((evictLine caches i (addrSetIdx sb bob address) ((caches.getD i default).sets.getD (addrSetIdx sb bob address) default).getLRUIndex ((((caches.getD i default).sets.getD (addrSetIdx sb bob address) default).getLine ((caches.getD i default).sets.getD (addrSetIdx sb bob address) default).getLRUIndex).tag <<< (sb + bob) ||| (addrSetIdx sb bob address) <<< bob) cycles).1.set i { ((evictLine caches i (addrSetIdx sb bob address) ((caches.getD i default).sets.getD (addrSetIdx sb bob address) default).getLRUIndex ((((caches.getD i default).sets.getD (addrSetIdx sb bob address) default).getLine ((caches.getD i default).sets.getD (addrSetIdx sb bob address) default).getLRUIndex).tag <<< (sb + bob) ||| (addrSetIdx sb bob address) <<< bob) cycles).1.getD i default) with stats := ((evictLine caches i (addrSetIdx sb bob address) ((caches.getD i default).sets.getD (addrSetIdx sb bob address) default).getLRUIndex ((((caches.getD i default).sets.getD (addrSetIdx sb bob address) default).getLine ((caches.getD i default).sets.getD (addrSetIdx sb bob address) default).getLRUIndex).tag <<< (sb + bob) ||| (addrSetIdx sb bob address) <<< bob) cycles).1.getD i default).stats.incrementEvictions }).getD i default).sets.getD (addrSetIdx sb bob address) default).allocateLine (addrTag sb bob address)).2.setLineState (((((evictLine caches i (addrSetIdx sb bob address) ((caches.getD i default).sets.getD (addrSetIdx sb bob address) default).getLRUIndex ((((caches.getD i default).sets.getD (addrSetIdx sb bob address) default).getLine ((caches.getD i default).sets.getD (addrSetIdx sb bob address) default).getLRUIndex).tag <<< (sb + bob) ||| (addrSetIdx sb bob address) <<< bob) cycles).1.set i { ((evictLine caches i (addrSetIdx sb bob address) ((caches.getD i default).sets.getD (addrSetIdx sb bob address) default).getLRUIndex ((((caches.getD i default).sets.getD (addrSetIdx sb bob address) default).getLine ((caches.getD i default).sets.getD (addrSetIdx sb bob address) default).getLRUIndex).tag <<< (sb + bob) ||| (addrSetIdx sb bob address) <<< bob) cycles).1.getD i default) with stats := ((evictLine caches i (addrSetIdx sb bob address) ((caches.getD i default).sets.getD (addrSetIdx sb bob address) default).getLRUIndex ((((caches.getD i default).sets.getD (addrSetIdx sb bob address) default).getLine ((caches.getD i default).sets.getD (addrSetIdx sb bob address) default).getLRUIndex).tag <<< (sb + bob) ||| (addrSetIdx sb bob address) <<< bob) cycles).1.getD i default).stats.incrementEvictions }).getD i default).sets.getD (addrSetIdx sb bob address) default).allocateLine (addrTag sb bob address)).1 (if isWrite then CacheState.MODIFIED else if busresponse then CacheState.SHARED else CacheState.EXCLUSIVE))) with isBlocked := false } := by rw [hEq]
    have hEq2 : (allocateLine caches i address isWrite cycles busresponse).2 = (evictLine caches i (addrSetIdx sb bob address) ((caches.getD i default).sets.getD (addrSetIdx sb bob address) default).getLRUIndex ((((caches.getD i default).sets.getD (addrSetIdx sb bob address) default).getLine ((caches.getD i default).sets.getD (addrSetIdx sb bob address) default).getLRUIndex).tag <<< (sb + bob) ||| (addrSetIdx sb bob address) <<< bob) cycles).2 := by rw [hEq]
    have hilen2 : i < (evictLine caches i (addrSetIdx sb bob address) ((caches.getD i default).sets.getD (addrSetIdx sb bob address) default).getLRUIndex ((((caches.getD i default).sets.getD (addrSetIdx sb bob address) default).getLine ((caches.getD i default).sets.getD (addrSetIdx sb bob address) default).getLRUIndex).tag <<< (sb + bob) ||| (addrSetIdx sb bob address) <<< bob) cycles).1.length := by
      rw [e1]
      exact hi
    have hEV1getI : (((evictLine caches i (addrSetIdx sb bob address) ((caches.getD i default).sets.getD (addrSetIdx sb bob address) default).getLRUIndex ((((caches.getD i default).sets.getD (addrSetIdx sb bob address) default).getLine ((caches.getD i default).sets.getD (addrSetIdx sb bob address) default).getLRUIndex).tag <<< (sb + bob) ||| (addrSetIdx sb bob address) <<< bob) cycles).1.set i { ((evictLine caches i (addrSetIdx sb bob address) ((caches.getD i default).sets.getD (addrSetIdx sb bob address) default).getLRUIndex ((((caches.getD i default).sets.getD (addrSetIdx sb bob address) default).getLine ((caches.getD i default).sets.getD (addrSetIdx sb bob address) default).getLRUIndex).tag <<< (sb + bob) ||| (addrSetIdx sb bob address) <<< bob) cycles).1.getD i default) with stats := ((evictLine caches i (addrSetIdx sb bob address) ((caches.getD i default).sets.getD (addrSetIdx sb bob address) default).getLRUIndex ((((caches.getD i default).sets.getD (addrSetIdx sb bob address) default).getLine ((caches.getD i default).sets.getD (addrSetIdx sb bob address) default).getLRUIndex).tag <<< (sb + bob) ||| (addrSetIdx sb bob address) <<< bob) cycles).1.getD i default).stats.incrementEvictions }).getD i default) = { ((evictLine caches i (addrSetIdx sb bob address) ((caches.getD i default).sets.getD (addrSetIdx sb bob address) default).getLRUIndex ((((caches.getD i default).sets.getD (addrSetIdx sb bob address) default).getLine ((caches.getD i default).sets.getD (addrSetIdx sb bob address) default).getLRUIndex).tag <<< (sb + bob) ||| (addrSetIdx sb bob address) <<< bob) cycles).1.getD i default) with stats := ((evictLine caches i (addrSetIdx sb bob address) ((caches.getD i default).sets.getD (addrSetIdx sb bob address) default).getLRUIndex ((((caches.getD i default).sets.getD (addrSetIdx sb bob address) default).getLine ((caches.getD i default).sets.getD (addrSetIdx sb bob address) default).getLRUIndex).tag <<< (sb + bob) ||| (addrSetIdx sb bob address) <<< bob) cycles).1.getD i default).stats.incrementEvictions } := getD_set_self _ _ _ _ hilen2
    have hEV1getJ : ∀ j, j ≠ i → ((evictLine caches i (addrSetIdx sb bob address) ((caches.getD i default).sets.getD (addrSetIdx sb bob address) default).getLRUIndex ((((caches.getD i default).sets.getD (addrSetIdx sb bob address) default).getLine ((caches.getD i default).sets.getD (addrSetIdx sb bob address) default).getLRUIndex).tag <<< (sb + bob) ||| (addrSetIdx sb bob address) <<< bob) cycles).1.set i { ((evictLine caches i (addrSetIdx sb bob address) ((caches.getD i default).sets.getD (addrSetIdx sb bob address) default).getLRUIndex ((((caches.getD i default).sets.getD (addrSetIdx sb bob address) default).getLine ((caches.getD i default).sets.getD (addrSetIdx sb bob address) default).getLRUIndex).tag <<< (sb + bob) ||| (addrSetIdx sb bob address) <<< bob) cycles).1.getD i default) with stats := ((evictLine caches i (addrSetIdx sb bob address) ((caches.getD i default).sets.getD (addrSetIdx sb bob address) default).getLRUIndex ((((caches.getD i default).sets.getD (addrSetIdx sb bob address) default).getLine ((caches.getD i default).sets.getD (addrSetIdx sb bob address) default).getLRUIndex).tag <<< (sb + bob) ||| (addrSetIdx sb bob address) <<< bob) cycles).1.getD i default).stats.incrementEvictions }).getD j default = (evictLine caches i (addrSetIdx sb bob address) ((caches.getD i default).sets.getD (addrSetIdx sb bob address) default).getLRUIndex ((((caches.getD i default).sets.getD (addrSetIdx sb bob address) default).getLine ((caches.getD i default).sets.getD (addrSetIdx sb bob address) default).getLRUIndex).tag <<< (sb + bob) ||| (addrSetIdx sb bob address) <<< bob) cycles).1.getD j default := by
      intro j hj
      exact getD_set_ne _ _ _ _ _ (fun h => hj h.symm)
    have hgetI : (allocateLine caches i address isWrite cycles busresponse).1.getD i default = { ((((evictLine caches i (addrSetIdx sb bob address) ((caches.getD i default).sets.getD (addrSetIdx sb bob address) default).getLRUIndex ((((caches.getD i default).sets.getD (addrSetIdx sb bob address) default).getLine ((caches.getD i default).sets.getD (addrSetIdx sb bob address) default).getLRUIndex).tag <<< (sb + bob) ||| (addrSetIdx sb bob address) <<< bob) cycles).1.set i { ((evictLine caches i (addrSetIdx sb bob address) ((caches.getD i default).sets.getD (addrSetIdx sb bob address) default).getLRUIndex ((((caches.getD i default).sets.getD (addrSetIdx sb bob address) default).getLine ((caches.getD i default).sets.getD (addrSetIdx sb bob address) default).getLRUIndex).tag <<< (sb + bob) ||| (addrSetIdx sb bob address) <<< bob) cycles).1.getD i default) with stats := ((evictLine caches i (addrSetIdx sb bob address) ((caches.getD i default).sets.getD (addrSetIdx sb bob address) default).getLRUIndex ((((caches.getD i default).sets.getD (addrSetIdx sb bob address) default).getLine ((caches.getD i default).sets.getD (addrSetIdx sb bob address) default).getLRUIndex).tag <<< (sb + bob) ||| (addrSetIdx sb bob address) <<< bob) cycles).1.getD i default).stats.incrementEvictions }).getD i default).putSet (addrSetIdx sb bob address) ((((((evictLine caches i (addrSetIdx sb bob address) ((caches.getD i default).sets.getD (addrSetIdx sb bob address) default).getLRUIndex ((((caches.getD i default).sets.getD (addrSetIdx sb bob address) default).getLine ((caches.getD i default).sets.getD (addrSetIdx sb bob address) default).getLRUIndex).tag <<< (sb + bob) ||| (addrSetIdx sb bob address) <<< bob) cycles).1.set i { ((evictLine caches i (addrSetIdx sb bob address) ((caches.getD i default).sets.getD (addrSetIdx sb bob address) default).getLRUIndex ((((caches.getD i default).sets.getD (addrSetIdx sb bob address) default).getLine ((caches.getD i default).sets.getD (addrSetIdx sb bob address) default).getLRUIndex).tag <<< (sb + bob) ||| (addrSetIdx sb bob address) <<< bob) cycles).1.getD i default) with stats := ((evictLine caches i (addrSetIdx sb bob address) ((caches.getD i default).sets.getD (addrSetIdx sb bob address) default).getLRUIndex ((((caches.getD i default).sets.getD (addrSetIdx sb bob address) default).getLine ((caches.getD i default).sets.getD (addrSetIdx sb bob address) default).getLRUIndex).tag <<< (sb + bob) ||| (addrSetIdx sb bob address) <<< bob) cycles).1.getD i default).stats.incrementEvictions }).getD i default).sets.getD (addrSetIdx sb bob address) default).allocateLine (addrTag sb bob address)).2.setLineState (((((evictLine caches i (addrSetIdx sb bob address) ((caches.getD i default).sets.getD (addrSetIdx sb bob address) default).getLRUIndex ((((caches.getD i default).sets.getD (addrSetIdx sb bob address) default).getLine ((caches.getD i default).sets.getD (addrSetIdx sb bob address) default).getLRUIndex).tag <<< (sb + bob) ||| (addrSetIdx sb bob address) <<< bob) cycles).1.set i { ((evictLine caches i (addrSetIdx sb bob address) ((caches.getD i default).sets.getD (addrSetIdx sb bob address) default).getLRUIndex ((((caches.getD i default).sets.getD (addrSetIdx sb bob address) default).getLine ((caches.getD i default).sets.getD (addrSetIdx sb bob address) default).getLRUIndex).tag <<< (sb + bob) ||| (addrSetIdx sb bob address) <<< bob) cycles).1.getD i default) with stats := ((evictLine caches i (addrSetIdx sb bob address) ((caches.getD i default).sets.getD (addrSetIdx sb bob address) default).getLRUIndex ((((caches.getD i default).sets.getD (addrSetIdx sb bob address) default).getLine ((caches.getD i default).sets.getD (addrSetIdx sb bob address) default).getLRUIndex).tag <<< (sb + bob) ||| (addrSetIdx sb bob address) <<< bob) cycles).1.getD i default).stats.incrementEvictions }).getD i default).sets.getD (addrSetIdx sb bob address) default).allocateLine (addrTag sb bob address)).1 (if isWrite then CacheState.MODIFIED else if busresponse then CacheState.SHARED else CacheState.EXCLUSIVE))) with isBlocked := false } := by
      rw [hEq1]
      exact getD_set_self _ _ _ i (by rw [List.length_set, e1]; exact hi)
    have hgetJ : ∀ j, j ≠ i → (allocateLine caches i address isWrite cycles busresponse).1.getD j default = (evictLine caches i (addrSetIdx sb bob address) ((caches.getD i default).sets.getD (addrSetIdx sb bob address) default).getLRUIndex ((((caches.getD i default).sets.getD (addrSetIdx sb bob address) default).getLine ((caches.getD i default).sets.getD (addrSetIdx sb bob address) default).getLRUIndex).tag <<< (sb + bob) ||| (addrSetIdx sb bob address) <<< bob) cycles).1.getD j default := by
      intro j hj
      rw [hEq1]
      rw [getD_set_ne _ _ _ _ _ (fun h => hj h.symm)]
      exact hEV1getJ j hj
    have hg1 : (allocateLine caches i address isWrite cycles busresponse).1.length = n := by
      rw [hEq1, List.length_set, List.length_set, e1]
    have hSET1 : ((((evictLine caches i (addrSetIdx sb bob address) ((caches.getD i default).sets.getD (addrSetIdx sb bob address) default).getLRUIndex ((((caches.getD i default).sets.getD (addrSetIdx sb bob address) default).getLine ((caches.getD i default).sets.getD (addrSetIdx sb bob address) default).getLRUIndex).tag <<< (sb + bob) ||| (addrSetIdx sb bob address) <<< bob) cycles).1.set i { ((evictLine caches i (addrSetIdx sb bob address) ((caches.getD i default).sets.getD (addrSetIdx sb bob address) default).getLRUIndex ((((caches.getD i default).sets.getD (addrSetIdx sb bob address) default).getLine ((caches.getD i default).sets.getD (addrSetIdx sb bob address) default).getLRUIndex).tag <<< (sb + bob) ||| (addrSetIdx sb bob address) <<< bob) cycles).1.getD i default) with stats := ((evictLine caches i (addrSetIdx sb bob address) ((caches.getD i default).sets.getD (addrSetIdx sb bob address) default).getLRUIndex ((((caches.getD i default).sets.getD (addrSetIdx sb bob address) default).getLine ((caches.getD i default).sets.getD (addrSetIdx sb bob address) default).getLRUIndex).tag <<< (sb + bob) ||| (addrSetIdx sb bob address) <<< bob) cycles).1.getD i default).stats.incrementEvictions }).getD i default).sets.getD (addrSetIdx sb bob address) default) = ((caches.getD i default).sets.getD (addrSetIdx sb bob address) default).setLineState (((caches.getD i default).sets.getD (addrSetIdx sb bob address) default).getLRUIndex) CacheState.INVALID := by
      rw [hEV1getI]
      exact e6
    have hk1 : ((caches.getD i default).sets.getD (addrSetIdx sb bob address) default).getLRUIndex < ((((evictLine caches i (addrSetIdx sb bob address) ((caches.getD i default).sets.getD (addrSetIdx sb bob address) default).getLRUIndex ((((caches.getD i default).sets.getD (addrSetIdx sb bob address) default).getLine ((caches.getD i default).sets.getD (addrSetIdx sb bob address) default).getLRUIndex).tag <<< (sb + bob) ||| (addrSetIdx sb bob address) <<< bob) cycles).1.set i { ((evictLine caches i (addrSetIdx sb bob address) ((caches.getD i default).sets.getD (addrSetIdx sb bob address) default).getLRUIndex ((((caches.getD i default).sets.getD (addrSetIdx sb bob address) default).getLine ((caches.getD i default).sets.getD (addrSetIdx sb bob address) default).getLRUIndex).tag <<< (sb + bob) ||| (addrSetIdx sb bob address) <<< bob) cycles).1.getD i default) with stats := ((evictLine caches i (addrSetIdx sb bob address) ((caches.getD i default).sets.getD (addrSetIdx sb bob address) default).getLRUIndex ((((caches.getD i default).sets.getD (addrSetIdx sb bob address) default).getLine ((caches.getD i default).sets.getD (addrSetIdx sb bob address) default).getLRUIndex).tag <<< (sb + bob) ||| (addrSetIdx sb bob address) <<< bob) cycles).1.getD i default).stats.incrementEvictions }).getD i default).sets.getD (addrSetIdx sb bob address) default).lines.length := by
      rw [hSET1, setLineState_lines_length]
      exact hvlt
    have hkinv1 : (((((evictLine caches i (addrSetIdx sb bob address) ((caches.getD i default).sets.getD (addrSetIdx sb bob address) default).getLRUIndex ((((caches.getD i default).sets.getD (addrSetIdx sb bob address) default).getLine ((caches.getD i default).sets.getD (addrSetIdx sb bob address) default).getLRUIndex).tag <<< (sb + bob) ||| (addrSetIdx sb bob address) <<< bob) cycles).1.set i { ((evictLine caches i (addrSetIdx sb bob address) ((caches.getD i default).sets.getD (addrSetIdx sb bob address) default).getLRUIndex ((((caches.getD i default).sets.getD (addrSetIdx sb bob address) default).getLine ((caches.getD i default).sets.getD (addrSetIdx sb bob address) default).getLRUIndex).tag <<< (sb + bob) ||| (addrSetIdx sb bob address) <<< bob) cycles).1.getD i default) with stats := ((evictLine caches i (addrSetIdx sb bob address) ((caches.getD i default).sets.getD (addrSetIdx sb bob address) default).getLRUIndex ((((caches.getD i default).sets.getD (addrSetIdx sb bob address) default).getLine ((caches.getD i default).sets.getD (addrSetIdx sb bob address) default).getLRUIndex).tag <<< (sb + bob) ||| (addrSetIdx sb bob address) <<< bob) cycles).1.getD i default).stats.incrementEvictions }).getD i default).sets.getD (addrSetIdx sb bob address) default).lines.getD (((caches.getD i default).sets.getD (addrSetIdx sb bob address) default).getLRUIndex) default).isValid = false := by
      rw [hSET1]
      unfold CacheSet.setLineState
      rw [getD_set_self _ _ _ _ hvlt]
      rfl
    have hkfirst1 : ∀ m, m < ((caches.getD i default).sets.getD (addrSetIdx sb bob address) default).getLRUIndex → (((((evictLine caches i (addrSetIdx sb bob address) ((caches.getD i default).sets.getD (addrSetIdx sb bob address) default).getLRUIndex ((((caches.getD i default).sets.getD (addrSetIdx sb bob address) default).getLine ((caches.getD i default).sets.getD (addrSetIdx sb bob address) default).getLRUIndex).tag <<< (sb + bob) ||| (addrSetIdx sb bob address) <<< bob) cycles).1.set i { ((evictLine caches i (addrSetIdx sb bob address) ((caches.getD i default).sets.getD (addrSetIdx sb bob address) default).getLRUIndex ((((caches.getD i default).sets.getD (addrSetIdx sb bob address) default).getLine ((caches.getD i default).sets.getD (addrSetIdx sb bob address) default).getLRUIndex).tag <<< (sb + bob) ||| (addrSetIdx sb bob address) <<< bob) cycles).1.getD i default) with stats := ((evictLine caches i (addrSetIdx sb bob address) ((caches.getD i default).sets.getD (addrSetIdx sb bob address) default).getLRUIndex ((((caches.getD i default).sets.getD (addrSetIdx sb bob address) default).getLine ((caches.getD i default).sets.getD (addrSetIdx sb bob address) default).getLRUIndex).tag <<< (sb + bob) ||| (addrSetIdx sb bob address) <<< bob) cycles).1.getD i default).stats.incrementEvictions }).getD i default).sets.getD (addrSetIdx sb bob address) default).lines.getD m default).isValid = true := by
      intro m hm
      rw [hSET1]
      unfold CacheSet.setLineState
      rw [getD_set_ne _ _ _ _ _ (by omega)]
      exact (isFull_true_iff _).mp hful m (by omega)
    have hmiss1 : ((((evictLine caches i (addrSetIdx sb bob address) ((caches.getD i default).sets.getD (addrSetIdx sb bob address) default).getLRUIndex ((((caches.getD i default).sets.getD (addrSetIdx sb bob address) default).getLine ((caches.getD i default).sets.getD (addrSetIdx sb bob address) default).getLRUIndex).tag <<< (sb + bob) ||| (addrSetIdx sb bob address) <<< bob) cycles).1.set i { ((evictLine caches i (addrSetIdx sb bob address) ((caches.getD i default).sets.getD (addrSetIdx sb bob address) default).getLRUIndex ((((caches.getD i default).sets.getD (addrSetIdx sb bob address) default).getLine ((caches.getD i default).sets.getD (addrSetIdx sb bob address) default).getLRUIndex).tag <<< (sb + bob) ||| (addrSetIdx sb bob address) <<< bob) cycles).1.getD i default) with stats := ((evictLine caches i (addrSetIdx sb bob address) ((caches.getD i default).sets.getD (addrSetIdx sb bob address) default).getLRUIndex ((((caches.getD i default).sets.getD (addrSetIdx sb bob address) default).getLine ((caches.getD i default).sets.getD (addrSetIdx sb bob address) default).getLRUIndex).tag <<< (sb + bob) ||| (addrSetIdx sb bob address) <<< bob) cycles).1.getD i default).stats.incrementEvictions }).getD i default).sets.getD (addrSetIdx sb bob address) default).findLine (addrTag sb bob address) = none := by
      rw [hSET1]
      exact findLine_none_setLineState_INVALID _ _ _ hmissF
    have hu1 : ((((evictLine caches i (addrSetIdx sb bob address) ((caches.getD i default).sets.getD (addrSetIdx sb bob address) default).getLRUIndex ((((caches.getD i default).sets.getD (addrSetIdx sb bob address) default).getLine ((caches.getD i default).sets.getD (addrSetIdx sb bob address) default).getLRUIndex).tag <<< (sb + bob) ||| (addrSetIdx sb bob address) <<< bob) cycles).1.set i { ((evictLine caches i (addrSetIdx sb bob address) ((caches.getD i default).sets.getD (addrSetIdx sb bob address) default).getLRUIndex ((((caches.getD i default).sets.getD (addrSetIdx sb bob address) default).getLine ((caches.getD i default).sets.getD (addrSetIdx sb bob address) default).getLRUIndex).tag <<< (sb + bob) ||| (addrSetIdx sb bob address) <<< bob) cycles).1.getD i default) with stats := ((evictLine caches i (addrSetIdx sb bob address) ((caches.getD i default).sets.getD (addrSetIdx sb bob address) default).getLRUIndex ((((caches.getD i default).sets.getD (addrSetIdx sb bob address) default).getLine ((caches.getD i default).sets.getD (addrSetIdx sb bob address) default).getLRUIndex).tag <<< (sb + bob) ||| (addrSetIdx sb bob address) <<< bob) cycles).1.getD i default).stats.incrementEvictions }).getD i default).sets.getD (addrSetIdx sb bob address) default).tagUnique := by
      rw [hSET1, ← e6]
      exact ((e2 i hi).2.2.2.2.2 (addrSetIdx sb bob address) haddrSI).2.2
    obtain ⟨a1, a2, a3, a4, a5⟩ :=
      alloc_then_state_spec ((((evictLine caches i (addrSetIdx sb bob address) ((caches.getD i default).sets.getD (addrSetIdx sb bob address) default).getLRUIndex ((((caches.getD i default).sets.getD (addrSetIdx sb bob address) default).getLine ((caches.getD i default).sets.getD (addrSetIdx sb bob address) default).getLRUIndex).tag <<< (sb + bob) ||| (addrSetIdx sb bob address) <<< bob) cycles).1.set i { ((evictLine caches i (addrSetIdx sb bob address) ((caches.getD i default).sets.getD (addrSetIdx sb bob address) default).getLRUIndex ((((caches.getD i default).sets.getD (addrSetIdx sb bob address) default).getLine ((caches.getD i default).sets.getD (addrSetIdx sb bob address) default).getLRUIndex).tag <<< (sb + bob) ||| (addrSetIdx sb bob address) <<< bob) cycles).1.getD i default) with stats := ((evictLine caches i (addrSetIdx sb bob address) ((caches.getD i default).sets.getD (addrSetIdx sb bob address) default).getLRUIndex ((((caches.getD i default).sets.getD (addrSetIdx sb bob address) default).getLine ((caches.getD i default).sets.getD (addrSetIdx sb bob address) default).getLRUIndex).tag <<< (sb + bob) ||| (addrSetIdx sb bob address) <<< bob) cycles).1.getD i default).stats.incrementEvictions }).getD i default).sets.getD (addrSetIdx sb bob address) default) (addrTag sb bob address) (if isWrite then CacheState.MODIFIED else if busresponse then CacheState.SHARED else CacheState.EXCLUSIVE) (((caches.getD i default).sets.getD (addrSetIdx sb bob address) default).getLRUIndex) hk1 hkinv1 hkfirst1 hmiss1 hu1 hnsI
    have hSELF1setsLen : (((evictLine caches i (addrSetIdx sb bob address) ((caches.getD i default).sets.getD (addrSetIdx sb bob address) default).getLRUIndex ((((caches.getD i default).sets.getD (addrSetIdx sb bob address) default).getLine ((caches.getD i default).sets.getD (addrSetIdx sb bob address) default).getLRUIndex).tag <<< (sb + bob) ||| (addrSetIdx sb bob address) <<< bob) cycles).1.set i { ((evictLine caches i (addrSetIdx sb bob address) ((caches.getD i default).sets.getD (addrSetIdx sb bob address) default).getLRUIndex ((((caches.getD i default).sets.getD (addrSetIdx sb bob address) default).getLine ((caches.getD i default).sets.getD (addrSetIdx sb bob address) default).getLRUIndex).tag <<< (sb + bob) ||| (addrSetIdx sb bob address) <<< bob) cycles).1.getD i default) with stats := ((evictLine caches i (addrSetIdx sb bob address) ((caches.getD i default).sets.getD (addrSetIdx sb bob address) default).getLRUIndex ((((caches.getD i default).sets.getD (addrSetIdx sb bob address) default).getLine ((caches.getD i default).sets.getD (addrSetIdx sb bob address) default).getLRUIndex).tag <<< (sb + bob) ||| (addrSetIdx sb bob address) <<< bob) cycles).1.getD i default).stats.incrementEvictions }).getD i default).sets.length = 2 ^ sb := by
      rw [hEV1getI]
      exact (e2 i hi).2.2.2.2.1
    have hC2bsets : ({ ((((evictLine caches i (addrSetIdx sb bob address) ((caches.getD i default).sets.getD (addrSetIdx sb bob address) default).getLRUIndex ((((caches.getD i default).sets.getD (addrSetIdx sb bob address) default).getLine ((caches.getD i default).sets.getD (addrSetIdx sb bob address) default).getLRUIndex).tag <<< (sb + bob) ||| (addrSetIdx sb bob address) <<< bob) cycles).1.set i { ((evictLine caches i (addrSetIdx sb bob address) ((caches.getD i default).sets.getD (addrSetIdx sb bob address) default).getLRUIndex ((((caches.getD i default).sets.getD (addrSetIdx sb bob address) default).getLine ((caches.getD i default).sets.getD (addrSetIdx sb bob address) default).getLRUIndex).tag <<< (sb + bob) ||| (addrSetIdx sb bob address) <<< bob) cycles).1.getD i default) with stats := ((evictLine caches i (addrSetIdx sb bob address) ((caches.getD i default).sets.getD (addrSetIdx sb bob address) default).getLRUIndex ((((caches.getD i default).sets.getD (addrSetIdx sb bob address) default).getLine ((caches.getD i default).sets.getD (addrSetIdx sb bob address) default).getLRUIndex).tag <<< (sb + bob) ||| (addrSetIdx sb bob address) <<< bob) cycles).1.getD i default).stats.incrementEvictions }).getD i default).putSet (addrSetIdx sb bob address) ((((((evictLine caches i (addrSetIdx sb bob address) ((caches.getD i default).sets.getD (addrSetIdx sb bob address) default).getLRUIndex ((((caches.getD i default).sets.getD (addrSetIdx sb bob address) default).getLine ((caches.getD i default).sets.getD (addrSetIdx sb bob address) default).getLRUIndex).tag <<< (sb + bob) ||| (addrSetIdx sb bob address) <<< bob) cycles).1.set i { ((evictLine caches i (addrSetIdx sb bob address) ((caches.getD i default).sets.getD (addrSetIdx sb bob address) default).getLRUIndex ((((caches.getD i default).sets.getD (addrSetIdx sb bob address) default).getLine ((caches.getD i default).sets.getD (addrSetIdx sb bob address) default).getLRUIndex).tag <<< (sb + bob) ||| (addrSetIdx sb bob address) <<< bob) cycles).1.getD i default) with stats := ((evictLine caches i (addrSetIdx sb bob address) ((caches.getD i default).sets.getD (addrSetIdx sb bob address) default).getLRUIndex ((((caches.getD i default).sets.getD (addrSetIdx sb bob address) default).getLine ((caches.getD i default).sets.getD (addrSetIdx sb bob address) default).getLRUIndex).tag <<< (sb + bob) ||| (addrSetIdx sb bob address) <<< bob) cycles).1.getD i default).stats.incrementEvictions }).getD i default).sets.getD (addrSetIdx sb bob address) default).allocateLine (addrTag sb bob address)).2.setLineState (((((evictLine caches i (addrSetIdx sb bob address) ((caches.getD i default).sets.getD (addrSetIdx sb bob address) default).getLRUIndex ((((caches.getD i default).sets.getD (addrSetIdx sb bob address) default).getLine ((caches.getD i default).sets.getD (addrSetIdx sb bob address) default).getLRUIndex).tag <<< (sb + bob) ||| (addrSetIdx sb bob address) <<< bob) cycles).1.set i { ((evictLine caches i (addrSetIdx sb bob address) ((caches.getD i default).sets.getD (addrSetIdx sb bob address) default).getLRUIndex ((((caches.getD i default).sets.getD (addrSetIdx sb bob address) default).getLine ((caches.getD i default).sets.getD (addrSetIdx sb bob address) default).getLRUIndex).tag <<< (sb + bob) ||| (addrSetIdx sb bob address) <<< bob) cycles).1.getD i default) with stats := ((evictLine caches i (addrSetIdx sb bob address) ((caches.getD i default).sets.getD (addrSetIdx sb bob address) default).getLRUIndex ((((caches.getD i default).sets.getD (addrSetIdx sb bob address) default).getLine ((caches.getD i default).sets.getD (addrSetIdx sb bob address) default).getLRUIndex).tag <<< (sb + bob) ||| (addrSetIdx sb bob address) <<< bob) cycles).1.getD i default).stats.incrementEvictions }).getD i default).sets.getD (addrSetIdx sb bob address) default).allocateLine (addrTag sb bob address)).1 (if isWrite then CacheState.MODIFIED else if busresponse then CacheState.SHARED else CacheState.EXCLUSIVE))) with isBlocked := false } : Cache).sets = (((evictLine caches i (addrSetIdx sb bob address) ((caches.getD i default).sets.getD (addrSetIdx sb bob address) default).getLRUIndex ((((caches.getD i default).sets.getD (addrSetIdx sb bob address) default).getLine ((caches.getD i default).sets.getD (addrSetIdx sb bob address) default).getLRUIndex).tag <<< (sb + bob) ||| (addrSetIdx sb bob address) <<< bob) cycles).1.set i { ((evictLine caches i (addrSetIdx sb bob address) ((caches.getD i default).sets.getD (addrSetIdx sb bob address) default).getLRUIndex ((((caches.getD i default).sets.getD (addrSetIdx sb bob address) default).getLine ((caches.getD i default).sets.getD (addrSetIdx sb bob address) default).getLRUIndex).tag <<< (sb + bob) ||| (addrSetIdx sb bob address) <<< bob) cycles).1.getD i default) with stats := ((evictLine caches i (addrSetIdx sb bob address) ((caches.getD i default).sets.getD (addrSetIdx sb bob address) default).getLRUIndex ((((caches.getD i default).sets.getD (addrSetIdx sb bob address) default).getLine ((caches.getD i default).sets.getD (addrSetIdx sb bob address) default).getLRUIndex).tag <<< (sb + bob) ||| (addrSetIdx sb bob address) <<< bob) cycles).1.getD i default).stats.incrementEvictions }).getD i default).sets.set (addrSetIdx sb bob address) ((((((evictLine caches i (addrSetIdx sb bob address) ((caches.getD i default).sets.getD (addrSetIdx sb bob address) default).getLRUIndex ((((caches.getD i default).sets.getD (addrSetIdx sb bob address) default).getLine ((caches.getD i default).sets.getD (addrSetIdx sb bob address) default).getLRUIndex).tag <<< (sb + bob) ||| (addrSetIdx sb bob address) <<< bob) cycles).1.set i { ((evictLine caches i (addrSetIdx sb bob address) ((caches.getD i default).sets.getD (addrSetIdx sb bob address) default).getLRUIndex ((((caches.getD i default).sets.getD (addrSetIdx sb bob address) default).getLine ((caches.getD i default).sets.getD (addrSetIdx sb bob address) default).getLRUIndex).tag <<< (sb + bob) ||| (addrSetIdx sb bob address) <<< bob) cycles).1.getD i default) with stats := ((evictLine caches i (addrSetIdx sb bob address) ((caches.getD i default).sets.getD (addrSetIdx sb bob address) default).getLRUIndex ((((caches.getD i default).sets.getD (addrSetIdx sb bob address) default).getLine ((caches.getD i default).sets.getD (addrSetIdx sb bob address) default).getLRUIndex).tag <<< (sb + bob) ||| (addrSetIdx sb bob address) <<< bob) cycles).1.getD i default).stats.incrementEvictions }).getD i default).sets.getD (addrSetIdx sb bob address) default).allocateLine (addrTag sb bob address)).2.setLineState (((((evictLine caches i (addrSetIdx sb bob address) ((caches.getD i default).sets.getD (addrSetIdx sb bob address) default).getLRUIndex ((((caches.getD i default).sets.getD (addrSetIdx sb bob address) default).getLine ((caches.getD i default).sets.getD (addrSetIdx sb bob address) default).getLRUIndex).tag <<< (sb + bob) ||| (addrSetIdx sb bob address) <<< bob) cycles).1.set i { ((evictLine caches i (addrSetIdx sb bob address) ((caches.getD i default).sets.getD (addrSetIdx sb bob address) default).getLRUIndex ((((caches.getD i default).sets.getD (addrSetIdx sb bob address) default).getLine ((caches.getD i default).sets.getD (addrSetIdx sb bob address) default).getLRUIndex).tag <<< (sb + bob) ||| (addrSetIdx sb bob address) <<< bob) cycles).1.getD i default) with stats := ((evictLine caches i (addrSetIdx sb bob address) ((caches.getD i default).sets.getD (addrSetIdx sb bob address) default).getLRUIndex ((((caches.getD i default).sets.getD (addrSetIdx sb bob address) default).getLine ((caches.getD i default).sets.getD (addrSetIdx sb bob address) default).getLRUIndex).tag <<< (sb + bob) ||| (addrSetIdx sb bob address) <<< bob) cycles).1.getD i default).stats.incrementEvictions }).getD i default).sets.getD (addrSetIdx sb bob address) default).allocateLine (addrTag sb bob address)).1 (if isWrite then CacheState.MODIFIED else if busresponse then CacheState.SHARED else CacheState.EXCLUSIVE)) := rfl
    have hsetsAt : ({ ((((evictLine caches i (addrSetIdx sb bob address) ((caches.getD i default).sets.getD (addrSetIdx sb bob address) default).getLRUIndex ((((caches.getD i default).sets.getD (addrSetIdx sb bob address) default).getLine ((caches.getD i default).sets.getD (addrSetIdx sb bob address) default).getLRUIndex).tag <<< (sb + bob) ||| (addrSetIdx sb bob address) <<< bob) cycles).1.set i { ((evictLine caches i (addrSetIdx sb bob address) ((caches.getD i default).sets.getD (addrSetIdx sb bob address) default).getLRUIndex ((((caches.getD i default).sets.getD (addrSetIdx sb bob address) default).getLine ((caches.getD i default).sets.getD (addrSetIdx sb bob address) default).getLRUIndex).tag <<< (sb + bob) ||| (addrSetIdx sb bob address) <<< bob) cycles).1.getD i default) with stats := ((evictLine caches i (addrSetIdx sb bob address) ((caches.getD i default).sets.getD (addrSetIdx sb bob address) default).getLRUIndex ((((caches.getD i default).sets.getD (addrSetIdx sb bob address) default).getLine ((caches.getD i default).sets.getD (addrSetIdx sb bob address) default).getLRUIndex).tag <<< (sb + bob) ||| (addrSetIdx sb bob address) <<< bob) cycles).1.getD i default).stats.incrementEvictions }).getD i default).putSet (addrSetIdx sb bob address) ((((((evictLine caches i (addrSetIdx sb bob address) ((caches.getD i default).sets.getD (addrSetIdx sb bob address) default).getLRUIndex ((((caches.getD i default).sets.getD (addrSetIdx sb bob address) default).getLine ((caches.getD i default).sets.getD (addrSetIdx sb bob address) default).getLRUIndex).tag <<< (sb + bob) ||| (addrSetIdx sb bob address) <<< bob) cycles).1.set i { ((evictLine caches i (addrSetIdx sb bob address) ((caches.getD i default).sets.getD (addrSetIdx sb bob address) default).getLRUIndex ((((caches.getD i default).sets.getD (addrSetIdx sb bob address) default).getLine ((caches.getD i default).sets.getD (addrSetIdx sb bob address) default).getLRUIndex).tag <<< (sb + bob) ||| (addrSetIdx sb bob address) <<< bob) cycles).1.getD i default) with stats := ((evictLine caches i (addrSetIdx sb bob address) ((caches.getD i default).sets.getD (addrSetIdx sb bob address) default).getLRUIndex ((((caches.getD i default).sets.getD (addrSetIdx sb bob address) default).getLine ((caches.getD i default).sets.getD (addrSetIdx sb bob address) default).getLRUIndex).tag <<< (sb + bob) ||| (addrSetIdx sb bob address) <<< bob) cycles).1.getD i default).stats.incrementEvictions }).getD i default).sets.getD (addrSetIdx sb bob address) default).allocateLine (addrTag sb bob address)).2.setLineState (((((evictLine caches i (addrSetIdx sb bob address) ((caches.getD i default).sets.getD (addrSetIdx sb bob address) default).getLRUIndex ((((caches.getD i default).sets.getD (addrSetIdx sb bob address) default).getLine ((caches.getD i default).sets.getD (addrSetIdx sb bob address) default).getLRUIndex).tag <<< (sb + bob) ||| (addrSetIdx sb bob address) <<< bob) cycles).1.set i { ((evictLine caches i (addrSetIdx sb bob address) ((caches.getD i default).sets.getD (addrSetIdx sb bob address) default).getLRUIndex ((((caches.getD i default).sets.getD (addrSetIdx sb bob address) default).getLine ((caches.getD i default).sets.getD (addrSetIdx sb bob address) default).getLRUIndex).tag <<< (sb + bob) ||| (addrSetIdx sb bob address) <<< bob) cycles).1.getD i default) with stats := ((evictLine caches i (addrSetIdx sb bob address) ((caches.getD i default).sets.getD (addrSetIdx sb bob address) default).getLRUIndex ((((caches.getD i default).sets.getD (addrSetIdx sb bob address) default).getLine ((caches.getD i default).sets.getD (addrSetIdx sb bob address) default).getLRUIndex).tag <<< (sb + bob) ||| (addrSetIdx sb bob address) <<< bob) cycles).1.getD i default).stats.incrementEvictions }).getD i default).sets.getD (addrSetIdx sb bob address) default).allocateLine (addrTag sb bob address)).1 (if isWrite then CacheState.MODIFIED else if busresponse then CacheState.SHARED else CacheState.EXCLUSIVE))) with isBlocked := false } : Cache).sets.getD (addrSetIdx sb bob address) default = ((((((evictLine caches i (addrSetIdx sb bob address) ((caches.getD i default).sets.getD (addrSetIdx sb bob address) default).getLRUIndex ((((caches.getD i default).sets.getD (addrSetIdx sb bob address) default).getLine ((caches.getD i default).sets.getD (addrSetIdx sb bob address) default).getLRUIndex).tag <<< (sb + bob) ||| (addrSetIdx sb bob address) <<< bob) cycles).1.set i { ((evictLine caches i (addrSetIdx sb bob address) ((caches.getD i default).sets.getD (addrSetIdx sb bob address) default).getLRUIndex ((((caches.getD i default).sets.getD (addrSetIdx sb bob address) default).getLine ((caches.getD i default).sets.getD (addrSetIdx sb bob address) default).getLRUIndex).tag <<< (sb + bob) ||| (addrSetIdx sb bob address) <<< bob) cycles).1.getD i default) with stats := ((evictLine caches i (addrSetIdx sb bob address) ((caches.getD i default).sets.getD (addrSetIdx sb bob address) default).getLRUIndex ((((caches.getD i default).sets.getD (addrSetIdx sb bob address) default).getLine ((caches.getD i default).sets.getD (addrSetIdx sb bob address) default).getLRUIndex).tag <<< (sb + bob) ||| (addrSetIdx sb bob address) <<< bob) cycles).1.getD i default).stats.incrementEvictions }).getD i default).sets.getD (addrSetIdx sb bob address) default).allocateLine (addrTag sb bob address)).2.setLineState (((((evictLine caches i (addrSetIdx sb bob address) ((caches.getD i default).sets.getD (addrSetIdx sb bob address) default).getLRUIndex ((((caches.getD i default).sets.getD (addrSetIdx sb bob address) default).getLine ((caches.getD i default).sets.getD (addrSetIdx sb bob address) default).getLRUIndex).tag <<< (sb + bob) ||| (addrSetIdx sb bob address) <<< bob) cycles).1.set i { ((evictLine caches i (addrSetIdx sb bob address) ((caches.getD i default).sets.getD (addrSetIdx sb bob address) default).getLRUIndex ((((caches.getD i default).sets.getD (addrSetIdx sb bob address) default).getLine ((caches.getD i default).sets.getD (addrSetIdx sb bob address) default).getLRUIndex).tag <<< (sb + bob) ||| (addrSetIdx sb bob address) <<< bob) cycles).1.getD i default) with stats := ((evictLine caches i (addrSetIdx sb bob address) ((caches.getD i default).sets.getD (addrSetIdx sb bob address) default).getLRUIndex ((((caches.getD i default).sets.getD (addrSetIdx sb bob address) default).getLine ((caches.getD i default).sets.getD (addrSetIdx sb bob address) default).getLRUIndex).tag <<< (sb + bob) ||| (addrSetIdx sb bob address) <<< bob) cycles).1.getD i default).stats.incrementEvictions }).getD i default).sets.getD (addrSetIdx sb bob address) default).allocateLine (addrTag sb bob address)).1 (if isWrite then CacheState.MODIFIED else if busresponse then CacheState.SHARED else CacheState.EXCLUSIVE)) := by
      rw [hC2bsets]
      exact getD_set_self _ _ _ _ (by rw [hSELF1setsLen]; exact haddrSI)
    have hsetsAtNe : ∀ m, m ≠ (addrSetIdx sb bob address) →
        ({ ((((evictLine caches i (addrSetIdx sb bob address) ((caches.getD i default).sets.getD (addrSetIdx sb bob address) default).getLRUIndex ((((caches.getD i default).sets.getD (addrSetIdx sb bob address) default).getLine ((caches.getD i default).sets.getD (addrSetIdx sb bob address) default).getLRUIndex).tag <<< (sb + bob) ||| (addrSetIdx sb bob address) <<< bob) cycles).1.set i { ((evictLine caches i (addrSetIdx sb bob address) ((caches.getD i default).sets.getD (addrSetIdx sb bob address) default).getLRUIndex ((((caches.getD i default).sets.getD (addrSetIdx sb bob address) default).getLine ((caches.getD i default).sets.getD (addrSetIdx sb bob address) default).getLRUIndex).tag <<< (sb + bob) ||| (addrSetIdx sb bob address) <<< bob) cycles).1.getD i default) with stats := ((evictLine caches i (addrSetIdx sb bob address) ((caches.getD i default).sets.getD (addrSetIdx sb bob address) default).getLRUIndex ((((caches.getD i default).sets.getD (addrSetIdx sb bob address) default).getLine ((caches.getD i default).sets.getD (addrSetIdx sb bob address) default).getLRUIndex).tag <<< (sb + bob) ||| (addrSetIdx sb bob address) <<< bob) cycles).1.getD i default).stats.incrementEvictions }).getD i default).putSet (addrSetIdx sb bob address) ((((((evictLine caches i (addrSetIdx sb bob address) ((caches.getD i default).sets.getD (addrSetIdx sb bob address) default).getLRUIndex ((((caches.getD i default).sets.getD (addrSetIdx sb bob address) default).getLine ((caches.getD i default).sets.getD (addrSetIdx sb bob address) default).getLRUIndex).tag <<< (sb + bob) ||| (addrSetIdx sb bob address) <<< bob) cycles).1.set i { ((evictLine caches i (addrSetIdx sb bob address) ((caches.getD i default).sets.getD (addrSetIdx sb bob address) default).getLRUIndex ((((caches.getD i default).sets.getD (addrSetIdx sb bob address) default).getLine ((caches.getD i default).sets.getD (addrSetIdx sb bob address) default).getLRUIndex).tag <<< (sb + bob) ||| (addrSetIdx sb bob address) <<< bob) cycles).1.getD i default) with stats := ((evictLine caches i (addrSetIdx sb bob address) ((caches.getD i default).sets.getD (addrSetIdx sb bob address) default).getLRUIndex ((((caches.getD i default).sets.getD (addrSetIdx sb bob address) default).getLine ((caches.getD i default).sets.getD (addrSetIdx sb bob address) default).getLRUIndex).tag <<< (sb + bob) ||| (addrSetIdx sb bob address) <<< bob) cycles).1.getD i default).stats.incrementEvictions }).getD i default).sets.getD (addrSetIdx sb bob address) default).allocateLine (addrTag sb bob address)).2.setLineState (((((evictLine caches i (addrSetIdx sb bob address) ((caches.getD i default).sets.getD (addrSetIdx sb bob address) default).getLRUIndex ((((caches.getD i default).sets.getD (addrSetIdx sb bob address) default).getLine ((caches.getD i default).sets.getD (addrSetIdx sb bob address) default).getLRUIndex).tag <<< (sb + bob) ||| (addrSetIdx sb bob address) <<< bob) cycles).1.set i { ((evictLine caches i (addrSetIdx sb bob address) ((caches.getD i default).sets.getD (addrSetIdx sb bob address) default).getLRUIndex ((((caches.getD i default).sets.getD (addrSetIdx sb bob address) default).getLine ((caches.getD i default).sets.getD (addrSetIdx sb bob address) default).getLRUIndex).tag <<< (sb + bob) ||| (addrSetIdx sb bob address) <<< bob) cycles).1.getD i default) with stats := ((evictLine caches i (addrSetIdx sb bob address) ((caches.getD i default).sets.getD (addrSetIdx sb bob address) default).getLRUIndex ((((caches.getD i default).sets.getD (addrSetIdx sb bob address) default).getLine ((caches.getD i default).sets.getD (addrSetIdx sb bob address) default).getLRUIndex).tag <<< (sb + bob) ||| (addrSetIdx sb bob address) <<< bob) cycles).1.getD i default).stats.incrementEvictions }).getD i default).sets.getD (addrSetIdx sb bob address) default).allocateLine (addrTag sb bob address)).1 (if isWrite then CacheState.MODIFIED else if busresponse then CacheState.SHARED else CacheState.EXCLUSIVE))) with isBlocked := false } : Cache).sets.getD m default = (((evictLine caches i (addrSetIdx sb bob address) ((caches.getD i default).sets.getD (addrSetIdx sb bob address) default).getLRUIndex ((((caches.getD i default).sets.getD (addrSetIdx sb bob address) default).getLine ((caches.getD i default).sets.getD (addrSetIdx sb bob address) default).getLRUIndex).tag <<< (sb + bob) ||| (addrSetIdx sb bob address) <<< bob) cycles).1.set i { ((evictLine caches i (addrSetIdx sb bob address) ((caches.getD i default).sets.getD (addrSetIdx sb bob address) default).getLRUIndex ((((caches.getD i default).sets.getD (addrSetIdx sb bob address) default).getLine ((caches.getD i default).sets.getD (addrSetIdx sb bob address) default).getLRUIndex).tag <<< (sb + bob) ||| (addrSetIdx sb bob address) <<< bob) cycles).1.getD i default) with stats := ((evictLine caches i (addrSetIdx sb bob address) ((caches.getD i default).sets.getD (addrSetIdx sb bob address) default).getLRUIndex ((((caches.getD i default).sets.getD (addrSetIdx sb bob address) default).getLine ((caches.getD i default).sets.getD (addrSetIdx sb bob address) default).getLRUIndex).tag <<< (sb + bob) ||| (addrSetIdx sb bob address) <<< bob) cycles).1.getD i default).stats.incrementEvictions }).getD i default).sets.getD m default := by
      intro m hm
      rw [hC2bsets]
      exact getD_set_ne _ _ _ _ _ (fun h => hm h.symm)
    have hstTA : ({ ((((evictLine caches i (addrSetIdx sb bob address) ((caches.getD i default).sets.getD (addrSetIdx sb bob address) default).getLRUIndex ((((caches.getD i default).sets.getD (addrSetIdx sb bob address) default).getLine ((caches.getD i default).sets.getD (addrSetIdx sb bob address) default).getLRUIndex).tag <<< (sb + bob) ||| (addrSetIdx sb bob address) <<< bob) cycles).1.set i { ((evictLine caches i (addrSetIdx sb bob address) ((caches.getD i default).sets.getD (addrSetIdx sb bob address) default).getLRUIndex ((((caches.getD i default).sets.getD (addrSetIdx sb bob address) default).getLine ((caches.getD i default).sets.getD (addrSetIdx sb bob address) default).getLRUIndex).tag <<< (sb + bob) ||| (addrSetIdx sb bob address) <<< bob) cycles).1.getD i default) with stats := ((evictLine caches i (addrSetIdx sb bob address) ((caches.getD i default).sets.getD (addrSetIdx sb bob address) default).getLRUIndex ((((caches.getD i default).sets.getD (addrSetIdx sb bob address) default).getLine ((caches.getD i default).sets.getD (addrSetIdx sb bob address) default).getLRUIndex).tag <<< (sb + bob) ||| (addrSetIdx sb bob address) <<< bob) cycles).1.getD i default).stats.incrementEvictions }).getD i default).putSet (addrSetIdx sb bob address) ((((((evictLine caches i (addrSetIdx sb bob address) ((caches.getD i default).sets.getD (addrSetIdx sb bob address) default).getLRUIndex ((((caches.getD i default).sets.getD (addrSetIdx sb bob address) default).getLine ((caches.getD i default).sets.getD (addrSetIdx sb bob address) default).getLRUIndex).tag <<< (sb + bob) ||| (addrSetIdx sb bob address) <<< bob) cycles).1.set i { ((evictLine caches i (addrSetIdx sb bob address) ((caches.getD i default).sets.getD (addrSetIdx sb bob address) default).getLRUIndex ((((caches.getD i default).sets.getD (addrSetIdx sb bob address) default).getLine ((caches.getD i default).sets.getD (addrSetIdx sb bob address) default).getLRUIndex).tag <<< (sb + bob) ||| (addrSetIdx sb bob address) <<< bob) cycles).1.getD i default) with stats := ((evictLine caches i (addrSetIdx sb bob address) ((caches.getD i default).sets.getD (addrSetIdx sb bob address) default).getLRUIndex ((((caches.getD i default).sets.getD (addrSetIdx sb bob address) default).getLine ((caches.getD i default).sets.getD (addrSetIdx sb bob address) default).getLRUIndex).tag <<< (sb + bob) ||| (addrSetIdx sb bob address) <<< bob) cycles).1.getD i default).stats.incrementEvictions }).getD i default).sets.getD (addrSetIdx sb bob address) default).allocateLine (addrTag sb bob address)).2.setLineState (((((evictLine caches i (addrSetIdx sb bob address) ((caches.getD i default).sets.getD (addrSetIdx sb bob address) default).getLRUIndex ((((caches.getD i default).sets.getD (addrSetIdx sb bob address) default).getLine ((caches.getD i default).sets.getD (addrSetIdx sb bob address) default).getLRUIndex).tag <<< (sb + bob) ||| (addrSetIdx sb bob address) <<< bob) cycles).1.set i { ((evictLine caches i (addrSetIdx sb bob address) ((caches.getD i default).sets.getD (addrSetIdx sb bob address) default).getLRUIndex ((((caches.getD i default).sets.getD (addrSetIdx sb bob address) default).getLine ((caches.getD i default).sets.getD (addrSetIdx sb bob address) default).getLRUIndex).tag <<< (sb + bob) ||| (addrSetIdx sb bob address) <<< bob) cycles).1.getD i default) with stats := ((evictLine caches i (addrSetIdx sb bob address) ((caches.getD i default).sets.getD (addrSetIdx sb bob address) default).getLRUIndex ((((caches.getD i default).sets.getD (addrSetIdx sb bob address) default).getLine ((caches.getD i default).sets.getD (addrSetIdx sb bob address) default).getLRUIndex).tag <<< (sb + bob) ||| (addrSetIdx sb bob address) <<< bob) cycles).1.getD i default).stats.incrementEvictions }).getD i default).sets.getD (addrSetIdx sb bob address) default).allocateLine (addrTag sb bob address)).1 (if isWrite then CacheState.MODIFIED else if busresponse then CacheState.SHARED else CacheState.EXCLUSIVE))) with isBlocked := false } : Cache).stateAt (addrSetIdx sb bob address) (addrTag sb bob address) = (if isWrite then CacheState.MODIFIED else if busresponse then CacheState.SHARED else CacheState.EXCLUSIVE) := by
      unfold Cache.stateAt
      rw [hsetsAt]
      exact a1
    have hstVt : ({ ((((evictLine caches i (addrSetIdx sb bob address) ((caches.getD i default).sets.getD (addrSetIdx sb bob address) default).getLRUIndex ((((caches.getD i default).sets.getD (addrSetIdx sb bob address) default).getLine ((caches.getD i default).sets.getD (addrSetIdx sb bob address) default).getLRUIndex).tag <<< (sb + bob) ||| (addrSetIdx sb bob address) <<< bob) cycles).1.set i { ((evictLine caches i (addrSetIdx sb bob address) ((caches.getD i default).sets.getD (addrSetIdx sb bob address) default).getLRUIndex ((((caches.getD i default).sets.getD (addrSetIdx sb bob address) default).getLine ((caches.getD i default).sets.getD (addrSetIdx sb bob address) default).getLRUIndex).tag <<< (sb + bob) ||| (addrSetIdx sb bob address) <<< bob) cycles).1.getD i default) with stats := ((evictLine caches i (addrSetIdx sb bob address) ((caches.getD i default).sets.getD (addrSetIdx sb bob address) default).getLRUIndex ((((caches.getD i default).sets.getD (addrSetIdx sb bob address) default).getLine ((caches.getD i default).sets.getD (addrSetIdx sb bob address) default).getLRUIndex).tag <<< (sb + bob) ||| (addrSetIdx sb bob address) <<< bob) cycles).1.getD i default).stats.incrementEvictions }).getD i default).putSet (addrSetIdx sb bob address) ((((((evictLine caches i (addrSetIdx sb bob address) ((caches.getD i default).sets.getD (addrSetIdx sb bob address) default).getLRUIndex ((((caches.getD i default).sets.getD (addrSetIdx sb bob address) default).getLine ((caches.getD i default).sets.getD (addrSetIdx sb bob address) default).getLRUIndex).tag <<< (sb + bob) ||| (addrSetIdx sb bob address) <<< bob) cycles).1.set i { ((evictLine caches i (addrSetIdx sb bob address) ((caches.getD i default).sets.getD (addrSetIdx sb bob address) default).getLRUIndex ((((caches.getD i default).sets.getD (addrSetIdx sb bob address) default).getLine ((caches.getD i default).sets.getD (addrSetIdx sb bob address) default).getLRUIndex).tag <<< (sb + bob) ||| (addrSetIdx sb bob address) <<< bob) cycles).1.getD i default) with stats := ((evictLine caches i (addrSetIdx sb bob address) ((caches.getD i default).sets.getD (addrSetIdx sb bob address) default).getLRUIndex ((((caches.getD i default).sets.getD (addrSetIdx sb bob address) default).getLine ((caches.getD i default).sets.getD (addrSetIdx sb bob address) default).getLRUIndex).tag <<< (sb + bob) ||| (addrSetIdx sb bob address) <<< bob) cycles).1.getD i default).stats.incrementEvictions }).getD i default).sets.getD (addrSetIdx sb bob address) default).allocateLine (addrTag sb bob address)).2.setLineState (((((evictLine caches i (addrSetIdx sb bob address) ((caches.getD i default).sets.getD (addrSetIdx sb bob address) default).getLRUIndex ((((caches.getD i default).sets.getD (addrSetIdx sb bob address) default).getLine ((caches.getD i default).sets.getD (addrSetIdx sb bob address) default).getLRUIndex).tag <<< (sb + bob) ||| (addrSetIdx sb bob address) <<< bob) cycles).1.set i { ((evictLine caches i (addrSetIdx sb bob address) ((caches.getD i default).sets.getD (addrSetIdx sb bob address) default).getLRUIndex ((((caches.getD i default).sets.getD (addrSetIdx sb bob address) default).getLine ((caches.getD i default).sets.getD (addrSetIdx sb bob address) default).getLRUIndex).tag <<< (sb + bob) ||| (addrSetIdx sb bob address) <<< bob) cycles).1.getD i default) with stats := ((evictLine caches i (addrSetIdx sb bob address) ((caches.getD i default).sets.getD (addrSetIdx sb bob address) default).getLRUIndex ((((caches.getD i default).sets.getD (addrSetIdx sb bob address) default).getLine ((caches.getD i default).sets.getD (addrSetIdx sb bob address) default).getLRUIndex).tag <<< (sb + bob) ||| (addrSetIdx sb bob address) <<< bob) cycles).1.getD i default).stats.incrementEvictions }).getD i default).sets.getD (addrSetIdx sb bob address) default).allocateLine (addrTag sb bob address)).1 (if isWrite then CacheState.MODIFIED else if busresponse then CacheState.SHARED else CacheState.EXCLUSIVE))) with isBlocked := false } : Cache).stateAt (addrSetIdx sb bob address) ((((caches.getD i default).sets.getD (addrSetIdx sb bob address) default).getLine ((caches.getD i default).sets.getD (addrSetIdx sb bob address) default).getLRUIndex).tag) = CacheState.INVALID := by
      unfold Cache.stateAt
      rw [hsetsAt, a2 _ hvtne, hSET1, ← e6]
      exact e3
    have hstOther : ∀ si tv, (si ≠ (addrSetIdx sb bob address) ∨ tv ≠ (addrTag sb bob address)) → (si ≠ (addrSetIdx sb bob address) ∨ tv ≠ (((caches.getD i default).sets.getD (addrSetIdx sb bob address) default).getLine ((caches.getD i default).sets.getD (addrSetIdx sb bob address) default).getLRUIndex).tag) →
        ({ ((((evictLine caches i (addrSetIdx sb bob address) ((caches.getD i default).sets.getD (addrSetIdx sb bob address) default).getLRUIndex ((((caches.getD i default).sets.getD (addrSetIdx sb bob address) default).getLine ((caches.getD i default).sets.getD (addrSetIdx sb bob address) default).getLRUIndex).tag <<< (sb + bob) ||| (addrSetIdx sb bob address) <<< bob) cycles).1.set i { ((evictLine caches i (addrSetIdx sb bob address) ((caches.getD i default).sets.getD (addrSetIdx sb bob address) default).getLRUIndex ((((caches.getD i default).sets.getD (addrSetIdx sb bob address) default).getLine ((caches.getD i default).sets.getD (addrSetIdx sb bob address) default).getLRUIndex).tag <<< (sb + bob) ||| (addrSetIdx sb bob address) <<< bob) cycles).1.getD i default) with stats := ((evictLine caches i (addrSetIdx sb bob address) ((caches.getD i default).sets.getD (addrSetIdx sb bob address) default).getLRUIndex ((((caches.getD i default).sets.getD (addrSetIdx sb bob address) default).getLine ((caches.getD i default).sets.getD (addrSetIdx sb bob address) default).getLRUIndex).tag <<< (sb + bob) ||| (addrSetIdx sb bob address) <<< bob) cycles).1.getD i default).stats.incrementEvictions }).getD i default).putSet (addrSetIdx sb bob address) ((((((evictLine caches i (addrSetIdx sb bob address) ((caches.getD i default).sets.getD (addrSetIdx sb bob address) default).getLRUIndex ((((caches.getD i default).sets.getD (addrSetIdx sb bob address) default).getLine ((caches.getD i default).sets.getD (addrSetIdx sb bob address) default).getLRUIndex).tag <<< (sb + bob) ||| (addrSetIdx sb bob address) <<< bob) cycles).1.set i { ((evictLine caches i (addrSetIdx sb bob address) ((caches.getD i default).sets.getD (addrSetIdx sb bob address) default).getLRUIndex ((((caches.getD i default).sets.getD (addrSetIdx sb bob address) default).getLine ((caches.getD i default).sets.getD (addrSetIdx sb bob address) default).getLRUIndex).tag <<< (sb + bob) ||| (addrSetIdx sb bob address) <<< bob) cycles).1.getD i default) with stats := ((evictLine caches i (addrSetIdx sb bob address) ((caches.getD i default).sets.getD (addrSetIdx sb bob address) default).getLRUIndex ((((caches.getD i default).sets.getD (addrSetIdx sb bob address) default).getLine ((caches.getD i default).sets.getD (addrSetIdx sb bob address) default).getLRUIndex).tag <<< (sb + bob) ||| (addrSetIdx sb bob address) <<< bob) cycles).1.getD i default).stats.incrementEvictions }).getD i default).sets.getD (addrSetIdx sb bob address) default).allocateLine (addrTag sb bob address)).2.setLineState (((((evictLine caches i (addrSetIdx sb bob address) ((caches.getD i default).sets.getD (addrSetIdx sb bob address) default).getLRUIndex ((((caches.getD i default).sets.getD (addrSetIdx sb bob address) default).getLine ((caches.getD i default).sets.getD (addrSetIdx sb bob address) default).getLRUIndex).tag <<< (sb + bob) ||| (addrSetIdx sb bob address) <<< bob) cycles).1.set i { ((evictLine caches i (addrSetIdx sb bob address) ((caches.getD i default).sets.getD (addrSetIdx sb bob address) default).getLRUIndex ((((caches.getD i default).sets.getD (addrSetIdx sb bob address) default).getLine ((caches.getD i default).sets.getD (addrSetIdx sb bob address) default).getLRUIndex).tag <<< (sb + bob) ||| (addrSetIdx sb bob address) <<< bob) cycles).1.getD i default) with stats := ((evictLine caches i (addrSetIdx sb bob address) ((caches.getD i default).sets.getD (addrSetIdx sb bob address) default).getLRUIndex ((((caches.getD i default).sets.getD (addrSetIdx sb bob address) default).getLine ((caches.getD i default).sets.getD (addrSetIdx sb bob address) default).getLRUIndex).tag <<< (sb + bob) ||| (addrSetIdx sb bob address) <<< bob) cycles).1.getD i default).stats.incrementEvictions }).getD i default).sets.getD (addrSetIdx sb bob address) default).allocateLine (addrTag sb bob address)).1 (if isWrite then CacheState.MODIFIED else if busresponse then CacheState.SHARED else CacheState.EXCLUSIVE))) with isBlocked := false } : Cache).stateAt si tv = (caches.getD i default).stateAt si tv := by
      intro si tv hne1 hne2
      unfold Cache.stateAt
      by_cases hsi : si = (addrSetIdx sb bob address)
      · subst hsi
        have htv1 : tv ≠ (addrTag sb bob address) := by
          rcases hne1 with h | h
          · exact absurd rfl h
          · exact h
        have htv2 : tv ≠ (((caches.getD i default).sets.getD (addrSetIdx sb bob address) default).getLine ((caches.getD i default).sets.getD (addrSetIdx sb bob address) default).getLRUIndex).tag := by
          rcases hne2 with h | h
          · exact absurd rfl h
          · exact h
        rw [hsetsAt, a2 tv htv1, hSET1, ← e6]
        exact e4 (addrSetIdx sb bob address) tv (Or.inr htv2)
      · rw [hsetsAtNe si hsi, hEV1getI]
        exact congrArg (fun s => CacheSet.stateOf s tv) (e7 si hsi)
    have hwfC2b : CacheWF sb bob assoc i ({ ((((evictLine caches i (addrSetIdx sb bob address) ((caches.getD i default).sets.getD (addrSetIdx sb bob address) default).getLRUIndex ((((caches.getD i default).sets.getD (addrSetIdx sb bob address) default).getLine ((caches.getD i default).sets.getD (addrSetIdx sb bob address) default).getLRUIndex).tag <<< (sb + bob) ||| (addrSetIdx sb bob address) <<< bob) cycles).1.set i { ((evictLine caches i (addrSetIdx sb bob address) ((caches.getD i default).sets.getD (addrSetIdx sb bob address) default).getLRUIndex ((((caches.getD i default).sets.getD (addrSetIdx sb bob address) default).getLine ((caches.getD i default).sets.getD (addrSetIdx sb bob address) default).getLRUIndex).tag <<< (sb + bob) ||| (addrSetIdx sb bob address) <<< bob) cycles).1.getD i default) with stats := ((evictLine caches i (addrSetIdx sb bob address) ((caches.getD i default).sets.getD (addrSetIdx sb bob address) default).getLRUIndex ((((caches.getD i default).sets.getD (addrSetIdx sb bob address) default).getLine ((caches.getD i default).sets.getD (addrSetIdx sb bob address) default).getLRUIndex).tag <<< (sb + bob) ||| (addrSetIdx sb bob address) <<< bob) cycles).1.getD i default).stats.incrementEvictions }).getD i default).putSet (addrSetIdx sb bob address) ((((((evictLine caches i (addrSetIdx sb bob address) ((caches.getD i default).sets.getD (addrSetIdx sb bob address) default).getLRUIndex ((((caches.getD i default).sets.getD (addrSetIdx sb bob address) default).getLine ((caches.getD i default).sets.getD (addrSetIdx sb bob address) default).getLRUIndex).tag <<< (sb + bob) ||| (addrSetIdx sb bob address) <<< bob) cycles).1.set i { ((evictLine caches i (addrSetIdx sb bob address) ((caches.getD i default).sets.getD (addrSetIdx sb bob address) default).getLRUIndex ((((caches.getD i default).sets.getD (addrSetIdx sb bob address) default).getLine ((caches.getD i default).sets.getD (addrSetIdx sb bob address) default).getLRUIndex).tag <<< (sb + bob) ||| (addrSetIdx sb bob address) <<< bob) cycles).1.getD i default) with stats := ((evictLine caches i (addrSetIdx sb bob address) ((caches.getD i default).sets.getD (addrSetIdx sb bob address) default).getLRUIndex ((((caches.getD i default).sets.getD (addrSetIdx sb bob address) default).getLine ((caches.getD i default).sets.getD (addrSetIdx sb bob address) default).getLRUIndex).tag <<< (sb + bob) ||| (addrSetIdx sb bob address) <<< bob) cycles).1.getD i default).stats.incrementEvictions }).getD i default).sets.getD (addrSetIdx sb bob address) default).allocateLine (addrTag sb bob address)).2.setLineState (((((evictLine caches i (addrSetIdx sb bob address) ((caches.getD i default).sets.getD (addrSetIdx sb bob address) default).getLRUIndex ((((caches.getD i default).sets.getD (addrSetIdx sb bob address) default).getLine ((caches.getD i default).sets.getD (addrSetIdx sb bob address) default).getLRUIndex).tag <<< (sb + bob) ||| (addrSetIdx sb bob address) <<< bob) cycles).1.set i { ((evictLine caches i (addrSetIdx sb bob address) ((caches.getD i default).sets.getD (addrSetIdx sb bob address) default).getLRUIndex ((((caches.getD i default).sets.getD (addrSetIdx sb bob address) default).getLine ((caches.getD i default).sets.getD (addrSetIdx sb bob address) default).getLRUIndex).tag <<< (sb + bob) ||| (addrSetIdx sb bob address) <<< bob) cycles).1.getD i default) with stats := ((evictLine caches i (addrSetIdx sb bob address) ((caches.getD i default).sets.getD (addrSetIdx sb bob address) default).getLRUIndex ((((caches.getD i default).sets.getD (addrSetIdx sb bob address) default).getLine ((caches.getD i default).sets.getD (addrSetIdx sb bob address) default).getLRUIndex).tag <<< (sb + bob) ||| (addrSetIdx sb bob address) <<< bob) cycles).1.getD i default).stats.incrementEvictions }).getD i default).sets.getD (addrSetIdx sb bob address) default).allocateLine (addrTag sb bob address)).1 (if isWrite then CacheState.MODIFIED else if busresponse then CacheState.SHARED else CacheState.EXCLUSIVE))) with isBlocked := false } : Cache) := by
      obtain ⟨d1, d2, d3, d4, d5, d6⟩ := e2 i hi
      refine ⟨?_, ?_, ?_, ?_, ?_, ?_⟩
      · rw [show ({ ((((evictLine caches i (addrSetIdx sb bob address) ((caches.getD i default).sets.getD (addrSetIdx sb bob address) default).getLRUIndex ((((caches.getD i default).sets.getD (addrSetIdx sb bob address) default).getLine ((caches.getD i default).sets.getD (addrSetIdx sb bob address) default).getLRUIndex).tag <<< (sb + bob) ||| (addrSetIdx sb bob address) <<< bob) cycles).1.set i { ((evictLine caches i (addrSetIdx sb bob address) ((caches.getD i default).sets.getD (addrSetIdx sb bob address) default).getLRUIndex ((((caches.getD i default).sets.getD (addrSetIdx sb bob address) default).getLine ((caches.getD i default).sets.getD (addrSetIdx sb bob address) default).getLRUIndex).tag <<< (sb + bob) ||| (addrSetIdx sb bob address) <<< bob) cycles).1.getD i default) with stats := ((evictLine caches i (addrSetIdx sb bob address) ((caches.getD i default).sets.getD (addrSetIdx sb bob address) default).getLRUIndex ((((caches.getD i default).sets.getD (addrSetIdx sb bob address) default).getLine ((caches.getD i default).sets.getD (addrSetIdx sb bob address) default).getLRUIndex).tag <<< (sb + bob) ||| (addrSetIdx sb bob address) <<< bob) cycles).1.getD i default).stats.incrementEvictions }).getD i default).putSet (addrSetIdx sb bob address) ((((((evictLine caches i (addrSetIdx sb bob address) ((caches.getD i default).sets.getD (addrSetIdx sb bob address) default).getLRUIndex ((((caches.getD i default).sets.getD (addrSetIdx sb bob address) default).getLine ((caches.getD i default).sets.getD (addrSetIdx sb bob address) default).getLRUIndex).tag <<< (sb + bob) ||| (addrSetIdx sb bob address) <<< bob) cycles).1.set i { ((evictLine caches i (addrSetIdx sb bob address) ((caches.getD i default).sets.getD (addrSetIdx sb bob address) default).getLRUIndex ((((caches.getD i default).sets.getD (addrSetIdx sb bob address) default).getLine ((caches.getD i default).sets.getD (addrSetIdx sb bob address) default).getLRUIndex).tag <<< (sb + bob) ||| (addrSetIdx sb bob address) <<< bob) cycles).1.getD i default) with stats := ((evictLine caches i (addrSetIdx sb bob address) ((caches.getD i default).sets.getD (addrSetIdx sb bob address) default).getLRUIndex ((((caches.getD i default).sets.getD (addrSetIdx sb bob address) default).getLine ((caches.getD i default).sets.getD (addrSetIdx sb bob address) default).getLRUIndex).tag <<< (sb + bob) ||| (addrSetIdx sb bob address) <<< bob) cycles).1.getD i default).stats.incrementEvictions }).getD i default).sets.getD (addrSetIdx sb bob address) default).allocateLine (addrTag sb bob address)).2.setLineState (((((evictLine caches i (addrSetIdx sb bob address) ((caches.getD i default).sets.getD (addrSetIdx sb bob address) default).getLRUIndex ((((caches.getD i default).sets.getD (addrSetIdx sb bob address) default).getLine ((caches.getD i default).sets.getD (addrSetIdx sb bob address) default).getLRUIndex).tag <<< (sb + bob) ||| (addrSetIdx sb bob address) <<< bob) cycles).1.set i { ((evictLine caches i (addrSetIdx sb bob address) ((caches.getD i default).sets.getD (addrSetIdx sb bob address) default).getLRUIndex ((((caches.getD i default).sets.getD (addrSetIdx sb bob address) default).getLine ((caches.getD i default).sets.getD (addrSetIdx sb bob address) default).getLRUIndex).tag <<< (sb + bob) ||| (addrSetIdx sb bob address) <<< bob) cycles).1.getD i default) with stats := ((evictLine caches i (addrSetIdx sb bob address) ((caches.getD i default).sets.getD (addrSetIdx sb bob address) default).getLRUIndex ((((caches.getD i default).sets.getD (addrSetIdx sb bob address) default).getLine ((caches.getD i default).sets.getD (addrSetIdx sb bob address) default).getLRUIndex).tag <<< (sb + bob) ||| (addrSetIdx sb bob address) <<< bob) cycles).1.getD i default).stats.incrementEvictions }).getD i default).sets.getD (addrSetIdx sb bob address) default).allocateLine (addrTag sb bob address)).1 (if isWrite then CacheState.MODIFIED else if busresponse then CacheState.SHARED else CacheState.EXCLUSIVE))) with isBlocked := false } : Cache).coreId = (((evictLine caches i (addrSetIdx sb bob address) ((caches.getD i default).sets.getD (addrSetIdx sb bob address) default).getLRUIndex ((((caches.getD i default).sets.getD (addrSetIdx sb bob address) default).getLine ((caches.getD i default).sets.getD (addrSetIdx sb bob address) default).getLRUIndex).tag <<< (sb + bob) ||| (addrSetIdx sb bob address) <<< bob) cycles).1.set i { ((evictLine caches i (addrSetIdx sb bob address) ((caches.getD i default).sets.getD (addrSetIdx sb bob address) default).getLRUIndex ((((caches.getD i default).sets.getD (addrSetIdx sb bob address) default).getLine ((caches.getD i default).sets.getD (addrSetIdx sb bob address) default).getLRUIndex).tag <<< (sb + bob) ||| (addrSetIdx sb bob address) <<< bob) cycles).1.getD i default) with stats := ((evictLine caches i (addrSetIdx sb bob address) ((caches.getD i default).sets.getD (addrSetIdx sb bob address) default).getLRUIndex ((((caches.getD i default).sets.getD (addrSetIdx sb bob address) default).getLine ((caches.getD i default).sets.getD (addrSetIdx sb bob address) default).getLRUIndex).tag <<< (sb + bob) ||| (addrSetIdx sb bob address) <<< bob) cycles).1.getD i default).stats.incrementEvictions }).getD i default).coreId from rfl, hEV1getI]
        exact d1
      · rw [show ({ ((((evictLine caches i (addrSetIdx sb bob address) ((caches.getD i default).sets.getD (addrSetIdx sb bob address) default).getLRUIndex ((((caches.getD i default).sets.getD (addrSetIdx sb bob address) default).getLine ((caches.getD i default).sets.getD (addrSetIdx sb bob address) default).getLRUIndex).tag <<< (sb + bob) ||| (addrSetIdx sb bob address) <<< bob) cycles).1.set i { ((evictLine caches i (addrSetIdx sb bob address) ((caches.getD i default).sets.getD (addrSetIdx sb bob address) default).getLRUIndex ((((caches.getD i default).sets.getD (addrSetIdx sb bob address) default).getLine ((caches.getD i default).sets.getD (addrSetIdx sb bob address) default).getLRUIndex).tag <<< (sb + bob) ||| (addrSetIdx sb bob address) <<< bob) cycles).1.getD i default) with stats := ((evictLine caches i (addrSetIdx sb bob address) ((caches.getD i default).sets.getD (addrSetIdx sb bob address) default).getLRUIndex ((((caches.getD i default).sets.getD (addrSetIdx sb bob address) default).getLine ((caches.getD i default).sets.getD (addrSetIdx sb bob address) default).getLRUIndex).tag <<< (sb + bob) ||| (addrSetIdx sb bob address) <<< bob) cycles).1.getD i default).stats.incrementEvictions }).getD i default).putSet (addrSetIdx sb bob address) ((((((evictLine caches i (addrSetIdx sb bob address) ((caches.getD i default).sets.getD (addrSetIdx sb bob address) default).getLRUIndex ((((caches.getD i default).sets.getD (addrSetIdx sb bob address) default).getLine ((caches.getD i default).sets.getD (addrSetIdx sb bob address) default).getLRUIndex).tag <<< (sb + bob) ||| (addrSetIdx sb bob address) <<< bob) cycles).1.set i { ((evictLine caches i (addrSetIdx sb bob address) ((caches.getD i default).sets.getD (addrSetIdx sb bob address) default).getLRUIndex ((((caches.getD i default).sets.getD (addrSetIdx sb bob address) default).getLine ((caches.getD i default).sets.getD (addrSetIdx sb bob address) default).getLRUIndex).tag <<< (sb + bob) ||| (addrSetIdx sb bob address) <<< bob) cycles).1.getD i default) with stats := ((evictLine caches i (addrSetIdx sb bob address) ((caches.getD i default).sets.getD (addrSetIdx sb bob address) default).getLRUIndex ((((caches.getD i default).sets.getD (addrSetIdx sb bob address) default).getLine ((caches.getD i default).sets.getD (addrSetIdx sb bob address) default).getLRUIndex).tag <<< (sb + bob) ||| (addrSetIdx sb bob address) <<< bob) cycles).1.getD i default).stats.incrementEvictions }).getD i default).sets.getD (addrSetIdx sb bob address) default).allocateLine (addrTag sb bob address)).2.setLineState (((((evictLine caches i (addrSetIdx sb bob address) ((caches.getD i default).sets.getD (addrSetIdx sb bob address) default).getLRUIndex ((((caches.getD i default).sets.getD (addrSetIdx sb bob address) default).getLine ((caches.getD i default).sets.getD (addrSetIdx sb bob address) default).getLRUIndex).tag <<< (sb + bob) ||| (addrSetIdx sb bob address) <<< bob) cycles).1.set i { ((evictLine caches i (addrSetIdx sb bob address) ((caches.getD i default).sets.getD (addrSetIdx sb bob address) default).getLRUIndex ((((caches.getD i default).sets.getD (addrSetIdx sb bob address) default).getLine ((caches.getD i default).sets.getD (addrSetIdx sb bob address) default).getLRUIndex).tag <<< (sb + bob) ||| (addrSetIdx sb bob address) <<< bob) cycles).1.getD i default) with stats := ((evictLine caches i (addrSetIdx sb bob address) ((caches.getD i default).sets.getD (addrSetIdx sb bob address) default).getLRUIndex ((((caches.getD i default).sets.getD (addrSetIdx sb bob address) default).getLine ((caches.getD i default).sets.getD (addrSetIdx sb bob address) default).getLRUIndex).tag <<< (sb + bob) ||| (addrSetIdx sb bob address) <<< bob) cycles).1.getD i default).stats.incrementEvictions }).getD i default).sets.getD (addrSetIdx sb bob address) default).allocateLine (addrTag sb bob address)).1 (if isWrite then CacheState.MODIFIED else if busresponse then CacheState.SHARED else CacheState.EXCLUSIVE))) with isBlocked := false } : Cache).setIndexBits = (((evictLine caches i (addrSetIdx sb bob address) ((caches.getD i default).sets.getD (addrSetIdx sb bob address) default).getLRUIndex ((((caches.getD i default).sets.getD (addrSetIdx sb bob address) default).getLine ((caches.getD i default).sets.getD (addrSetIdx sb bob address) default).getLRUIndex).tag <<< (sb + bob) ||| (addrSetIdx sb bob address) <<< bob) cycles).1.set i { ((evictLine caches i (addrSetIdx sb bob address) ((caches.getD i default).sets.getD (addrSetIdx sb bob address) default).getLRUIndex ((((caches.getD i default).sets.getD (addrSetIdx sb bob address) default).getLine ((caches.getD i default).sets.getD (addrSetIdx sb bob address) default).getLRUIndex).tag <<< (sb + bob) ||| (addrSetIdx sb bob address) <<< bob) cycles).1.getD i default) with stats := ((evictLine caches i (addrSetIdx sb bob address) ((caches.getD i default).sets.getD (addrSetIdx sb bob address) default).getLRUIndex ((((caches.getD i default).sets.getD (addrSetIdx sb bob address) default).getLine ((caches.getD i default).sets.getD (addrSetIdx sb bob address) default).getLRUIndex).tag <<< (sb + bob) ||| (addrSetIdx sb bob address) <<< bob) cycles).1.getD i default).stats.incrementEvictions }).getD i default).setIndexBits from rfl, hEV1getI]
        exact d2
      · rw [show ({ ((((evictLine caches i (addrSetIdx sb bob address) ((caches.getD i default).sets.getD (addrSetIdx sb bob address) default).getLRUIndex ((((caches.getD i default).sets.getD (addrSetIdx sb bob address) default).getLine ((caches.getD i default).sets.getD (addrSetIdx sb bob address) default).getLRUIndex).tag <<< (sb + bob) ||| (addrSetIdx sb bob address) <<< bob) cycles).1.set i { ((evictLine caches i (addrSetIdx sb bob address) ((caches.getD i default).sets.getD (addrSetIdx sb bob address) default).getLRUIndex ((((caches.getD i default).sets.getD (addrSetIdx sb bob address) default).getLine ((caches.getD i default).sets.getD (addrSetIdx sb bob address) default).getLRUIndex).tag <<< (sb + bob) ||| (addrSetIdx sb bob address) <<< bob) cycles).1.getD i default) with stats := ((evictLine caches i (addrSetIdx sb bob address) ((caches.getD i default).sets.getD (addrSetIdx sb bob address) default).getLRUIndex ((((caches.getD i default).sets.getD (addrSetIdx sb bob address) default).getLine ((caches.getD i default).sets.getD (addrSetIdx sb bob address) default).getLRUIndex).tag <<< (sb + bob) ||| (addrSetIdx sb bob address) <<< bob) cycles).1.getD i default).stats.incrementEvictions }).getD i default).putSet (addrSetIdx sb bob address) ((((((evictLine caches i (addrSetIdx sb bob address) ((caches.getD i default).sets.getD (addrSetIdx sb bob address) default).getLRUIndex ((((caches.getD i default).sets.getD (addrSetIdx sb bob address) default).getLine ((caches.getD i default).sets.getD (addrSetIdx sb bob address) default).getLRUIndex).tag <<< (sb + bob) ||| (addrSetIdx sb bob address) <<< bob) cycles).1.set i { ((evictLine caches i (addrSetIdx sb bob address) ((caches.getD i default).sets.getD (addrSetIdx sb bob address) default).getLRUIndex ((((caches.getD i default).sets.getD (addrSetIdx sb bob address) default).getLine ((caches.getD i default).sets.getD (addrSetIdx sb bob address) default).getLRUIndex).tag <<< (sb + bob) ||| (addrSetIdx sb bob address) <<< bob) cycles).1.getD i default) with stats := ((evictLine caches i (addrSetIdx sb bob address) ((caches.getD i default).sets.getD (addrSetIdx sb bob address) default).getLRUIndex ((((caches.getD i default).sets.getD (addrSetIdx sb bob address) default).getLine ((caches.getD i default).sets.getD (addrSetIdx sb bob address) default).getLRUIndex).tag <<< (sb + bob) ||| (addrSetIdx sb bob address) <<< bob) cycles).1.getD i default).stats.incrementEvictions }).getD i default).sets.getD (addrSetIdx sb bob address) default).allocateLine (addrTag sb bob address)).2.setLineState (((((evictLine caches i (addrSetIdx sb bob address) ((caches.getD i default).sets.getD (addrSetIdx sb bob address) default).getLRUIndex ((((caches.getD i default).sets.getD (addrSetIdx sb bob address) default).getLine ((caches.getD i default).sets.getD (addrSetIdx sb bob address) default).getLRUIndex).tag <<< (sb + bob) ||| (addrSetIdx sb bob address) <<< bob) cycles).1.set i { ((evictLine caches i (addrSetIdx sb bob address) ((caches.getD i default).sets.getD (addrSetIdx sb bob address) default).getLRUIndex ((((caches.getD i default).sets.getD (addrSetIdx sb bob address) default).getLine ((caches.getD i default).sets.getD (addrSetIdx sb bob address) default).getLRUIndex).tag <<< (sb + bob) ||| (addrSetIdx sb bob address) <<< bob) cycles).1.getD i default) with stats := ((evictLine caches i (addrSetIdx sb bob address) ((caches.getD i default).sets.getD (addrSetIdx sb bob address) default).getLRUIndex ((((caches.getD i default).sets.getD (addrSetIdx sb bob address) default).getLine ((caches.getD i default).sets.getD (addrSetIdx sb bob address) default).getLRUIndex).tag <<< (sb + bob) ||| (addrSetIdx sb bob address) <<< bob) cycles).1.getD i default).stats.incrementEvictions }).getD i default).sets.getD (addrSetIdx sb bob address) default).allocateLine (addrTag sb bob address)).1 (if isWrite then CacheState.MODIFIED else if busresponse then CacheState.SHARED else CacheState.EXCLUSIVE))) with isBlocked := false } : Cache).blockOffsetBits = (((evictLine caches i (addrSetIdx sb bob address) ((caches.getD i default).sets.getD (addrSetIdx sb bob address) default).getLRUIndex ((((caches.getD i default).sets.getD (addrSetIdx sb bob address) default).getLine ((caches.getD i default).sets.getD (addrSetIdx sb bob address) default).getLRUIndex).tag <<< (sb + bob) ||| (addrSetIdx sb bob address) <<< bob) cycles).1.set i { ((evictLine caches i (addrSetIdx sb bob address) ((caches.getD i default).sets.getD (addrSetIdx sb bob address) default).getLRUIndex ((((caches.getD i default).sets.getD (addrSetIdx sb bob address) default).getLine ((caches.getD i default).sets.getD (addrSetIdx sb bob address) default).getLRUIndex).tag <<< (sb + bob) ||| (addrSetIdx sb bob address) <<< bob) cycles).1.getD i default) with stats := ((evictLine caches i (addrSetIdx sb bob address) ((caches.getD i default).sets.getD (addrSetIdx sb bob address) default).getLRUIndex ((((caches.getD i default).sets.getD (addrSetIdx sb bob address) default).getLine ((caches.getD i default).sets.getD (addrSetIdx sb bob address) default).getLRUIndex).tag <<< (sb + bob) ||| (addrSetIdx sb bob address) <<< bob) cycles).1.getD i default).stats.incrementEvictions }).getD i default).blockOffsetBits from rfl, hEV1getI]
        exact d3
      · rw [show ({ ((((evictLine caches i (addrSetIdx sb bob address) ((caches.getD i default).sets.getD (addrSetIdx sb bob address) default).getLRUIndex ((((caches.getD i default).sets.getD (addrSetIdx sb bob address) default).getLine ((caches.getD i default).sets.getD (addrSetIdx sb bob address) default).getLRUIndex).tag <<< (sb + bob) ||| (addrSetIdx sb bob address) <<< bob) cycles).1.set i { ((evictLine caches i (addrSetIdx sb bob address) ((caches.getD i default).sets.getD (addrSetIdx sb bob address) default).getLRUIndex ((((caches.getD i default).sets.getD (addrSetIdx sb bob address) default).getLine ((caches.getD i default).sets.getD (addrSetIdx sb bob address) default).getLRUIndex).tag <<< (sb + bob) ||| (addrSetIdx sb bob address) <<< bob) cycles).1.getD i default) with stats := ((evictLine caches i (addrSetIdx sb bob address) ((caches.getD i default).sets.getD (addrSetIdx sb bob address) default).getLRUIndex ((((caches.getD i default).sets.getD (addrSetIdx sb bob address) default).getLine ((caches.getD i default).sets.getD (addrSetIdx sb bob address) default).getLRUIndex).tag <<< (sb + bob) ||| (addrSetIdx sb bob address) <<< bob) cycles).1.getD i default).stats.incrementEvictions }).getD i default).putSet (addrSetIdx sb bob address) ((((((evictLine caches i (addrSetIdx sb bob address) ((caches.getD i default).sets.getD (addrSetIdx sb bob address) default).getLRUIndex ((((caches.getD i default).sets.getD (addrSetIdx sb bob address) default).getLine ((caches.getD i default).sets.getD (addrSetIdx sb bob address) default).getLRUIndex).tag <<< (sb + bob) ||| (addrSetIdx sb bob address) <<< bob) cycles).1.set i { ((evictLine caches i (addrSetIdx sb bob address) ((caches.getD i default).sets.getD (addrSetIdx sb bob address) default).getLRUIndex ((((caches.getD i default).sets.getD (addrSetIdx sb bob address) default).getLine ((caches.getD i default).sets.getD (addrSetIdx sb bob address) default).getLRUIndex).tag <<< (sb + bob) ||| (addrSetIdx sb bob address) <<< bob) cycles).1.getD i default) with stats := ((evictLine caches i (addrSetIdx sb bob address) ((caches.getD i default).sets.getD (addrSetIdx sb bob address) default).getLRUIndex ((((caches.getD i default).sets.getD (addrSetIdx sb bob address) default).getLine ((caches.getD i default).sets.getD (addrSetIdx sb bob address) default).getLRUIndex).tag <<< (sb + bob) ||| (addrSetIdx sb bob address) <<< bob) cycles).1.getD i default).stats.incrementEvictions }).getD i default).sets.getD (addrSetIdx sb bob address) default).allocateLine (addrTag sb bob address)).2.setLineState (((((evictLine caches i (addrSetIdx sb bob address) ((caches.getD i default).sets.getD (addrSetIdx sb bob address) default).getLRUIndex ((((caches.getD i default).sets.getD (addrSetIdx sb bob address) default).getLine ((caches.getD i default).sets.getD (addrSetIdx sb bob address) default).getLRUIndex).tag <<< (sb + bob) ||| (addrSetIdx sb bob address) <<< bob) cycles).1.set i { ((evictLine caches i (addrSetIdx sb bob address) ((caches.getD i default).sets.getD (addrSetIdx sb bob address) default).getLRUIndex ((((caches.getD i default).sets.getD (addrSetIdx sb bob address) default).getLine ((caches.getD i default).sets.getD (addrSetIdx sb bob address) default).getLRUIndex).tag <<< (sb + bob) ||| (addrSetIdx sb bob address) <<< bob) cycles).1.getD i default) with stats := ((evictLine caches i (addrSetIdx sb bob address) ((caches.getD i default).sets.getD (addrSetIdx sb bob address) default).getLRUIndex ((((caches.getD i default).sets.getD (addrSetIdx sb bob address) default).getLine ((caches.getD i default).sets.getD (addrSetIdx sb bob address) default).getLRUIndex).tag <<< (sb + bob) ||| (addrSetIdx sb bob address) <<< bob) cycles).1.getD i default).stats.incrementEvictions }).getD i default).sets.getD (addrSetIdx sb bob address) default).allocateLine (addrTag sb bob address)).1 (if isWrite then CacheState.MODIFIED else if busresponse then CacheState.SHARED else CacheState.EXCLUSIVE))) with isBlocked := false } : Cache).associativity = (((evictLine caches i (addrSetIdx sb bob address) ((caches.getD i default).sets.getD (addrSetIdx sb bob address) default).getLRUIndex ((((caches.getD i default).sets.getD (addrSetIdx sb bob address) default).getLine ((caches.getD i default).sets.getD (addrSetIdx sb bob address) default).getLRUIndex).tag <<< (sb + bob) ||| (addrSetIdx sb bob address) <<< bob) cycles).1.set i { ((evictLine caches i (addrSetIdx sb bob address) ((caches.getD i default).sets.getD (addrSetIdx sb bob address) default).getLRUIndex ((((caches.getD i default).sets.getD (addrSetIdx sb bob address) default).getLine ((caches.getD i default).sets.getD (addrSetIdx sb bob address) default).getLRUIndex).tag <<< (sb + bob) ||| (addrSetIdx sb bob address) <<< bob) cycles).1.getD i default) with stats := ((evictLine caches i (addrSetIdx sb bob address) ((caches.getD i default).sets.getD (addrSetIdx sb bob address) default).getLRUIndex ((((caches.getD i default).sets.getD (addrSetIdx sb bob address) default).getLine ((caches.getD i default).sets.getD (addrSetIdx sb bob address) default).getLRUIndex).tag <<< (sb + bob) ||| (addrSetIdx sb bob address) <<< bob) cycles).1.getD i default).stats.incrementEvictions }).getD i default).associativity from rfl, hEV1getI]
        exact d4
      · rw [hC2bsets, List.length_set]
        exact hSELF1setsLen
      · intro m hm
        by_cases hmi : m = (addrSetIdx sb bob address)
        · subst hmi
          rw [hsetsAt]
          refine ⟨?_, ?_, a3⟩
          · rw [a4, hSET1, setLineState_lines_length]
            exact hS0wf.1
          · rw [a5, hSET1, setLineState_lru]
            exact hS0wf.2.1
        · rw [hsetsAtNe m hmi, hEV1getI]
          exact d6 m hm
    refine ⟨hg1, ?_, ?_, ?_, ?_, ?_⟩
    · intro j hj
      by_cases hji : j = i
      · subst hji
        rw [hgetI]
        exact hwfC2b
      · rw [hgetJ j hji]
        exact e2 j hj
    · rw [hgetI]
      exact hstTA
    · rw [hgetI]
    · right
      refine ⟨(((caches.getD i default).sets.getD (addrSetIdx sb bob address) default).getLine ((caches.getD i default).sets.getD (addrSetIdx sb bob address) default).getLRUIndex).tag, hvtne, ?_, ?_, ?_⟩
      · rw [hgetI]
        exact hstVt
      · intro si tv hne1 hne2
        rw [hgetI]
        exact hstOther si tv hne1 hne2
      · rcases e8 with hsame | ⟨p, hp, hpi, e81, e82, e83, e84, e85, e86⟩
        · left
          intro j hj
          rw [hgetJ j hj]
          exact hsame j hj
        · right
          refine ⟨p, hp, hpi, e81, ?_, ?_, e84, ?_, e86⟩
          · rw [hgetJ p hpi]
            exact e82
          · intro si tv2 hne
            rw [hgetJ p hpi]
            exact e83 si tv2 hne
          · intro q hqp hqi
            rw [hgetJ q hqi]
            exact e85 q hqp hqi
    · rw [hEq2, e9]
      by_cases hP : (((caches.getD i default).sets.getD (addrSetIdx sb bob address) default).lines.getD (((caches.getD i default).sets.getD (addrSetIdx sb bob address) default).getLRUIndex) default).state = CacheState.MODIFIED
      · rw [if_pos hP, if_pos ⟨rfl, hP⟩]
      · rw [if_neg hP, if_neg (fun hc => hP hc.2)]

/-! ### Path equations for `Cache::read` and `Cache::write` -/

theorem updateLRU_stateOf (s : CacheSet) (k tv : Nat) :
    (s.updateLRU k).stateOf tv = s.stateOf tv := rfl

theorem snoopNext_BusRd_not_M (st : CacheState) :
    snoopNext BusOperation.BusRd st ≠ CacheState.MODIFIED := by
  cases st <;> simp [snoopNext]

theorem snoopNext_BusRd_not_E (st : CacheState) :
    snoopNext BusOperation.BusRd st ≠ CacheState.EXCLUSIVE := by
  cases st <;> simp [snoopNext]

theorem snoopNext_BusRdX_eq_INVALID (st : CacheState) :
    snoopNext BusOperation.BusRdX st = CacheState.INVALID := by
  cases st <;> rfl

theorem snoopNext_BusUpgr_eq_INVALID (st : CacheState) :
    snoopNext BusOperation.BusUpgr st = CacheState.INVALID := by
  cases st <;> rfl

theorem snoopNext_INVALID (op : BusOperation) :
    snoopNext op CacheState.INVALID = CacheState.INVALID := by
  cases op <;> rfl

theorem providesB_BusRd_false_iff (st : CacheState) :
    providesB BusOperation.BusRd st = false ↔ st = CacheState.INVALID := by
  cases st <;> simp [providesB]

theorem lookupAndUpdate_miss (c : Cache) (address : Nat)
    (h : (c.sets.getD (c.getSetIndex address) default).findLine (c.getTag address) = none) :
    c.lookupAndUpdate address = (c, false) := by
  simp only [Cache.lookupAndUpdate, h]

theorem lookupAndUpdate_hit (c : Cache) (address li : Nat)
    (h : (c.sets.getD (c.getSetIndex address) default).findLine (c.getTag address) = some li) :
    c.lookupAndUpdate address
      = (c.putSet (c.getSetIndex address)
          ((c.sets.getD (c.getSetIndex address) default).updateLRU li), true) := by
  simp only [Cache.lookupAndUpdate, h]

theorem cacheRead_eq_blocked (sys : Sys) (i address : Nat) (cycles : Int)
    (hbl : (sys.caches.getD i default).isBlocked = true) :
    cacheRead sys i address cycles = ⟨sys, false, cycles⟩ := by
  simp only [cacheRead, hbl, eq_self_iff_true, if_true]

theorem cacheRead_eq_hit (sys : Sys) (i address : Nat) (cycles : Int) (li : Nat)
    (hbl : (sys.caches.getD i default).isBlocked = false)
    (hf : ((sys.caches.getD i default).sets.getD ((sys.caches.getD i default).getSetIndex address) default).findLine
      ((sys.caches.getD i default).getTag address) = some li) :
    cacheRead sys i address cycles
      = ⟨Sys.mk (sys.caches.set i ((Cache.mk (sys.caches.getD i default).coreId (sys.caches.getD i default).setIndexBits (sys.caches.getD i default).blockOffsetBits (sys.caches.getD i default).associativity (sys.caches.getD i default).sets (sys.caches.getD i default).isBlocked (sys.caches.getD i default).blockedCycles ((sys.caches.getD i default).stats.incrementAccesses.incrementReads)).putSet ((Cache.mk (sys.caches.getD i default).coreId (sys.caches.getD i default).setIndexBits (sys.caches.getD i default).blockOffsetBits (sys.caches.getD i default).associativity (sys.caches.getD i default).sets (sys.caches.getD i default).isBlocked (sys.caches.getD i default).blockedCycles ((sys.caches.getD i default).stats.incrementAccesses.incrementReads)).getSetIndex address) (((sys.caches.getD i default).sets.getD ((Cache.mk (sys.caches.getD i default).coreId (sys.caches.getD i default).setIndexBits (sys.caches.getD i default).blockOffsetBits (sys.caches.getD i default).associativity (sys.caches.getD i default).sets (sys.caches.getD i default).isBlocked (sys.caches.getD i default).blockedCycles ((sys.caches.getD i default).stats.incrementAccesses.incrementReads)).getSetIndex address) default).updateLRU li))) sys.bus, true, 1⟩ := by
  have hl := lookupAndUpdate_hit (Cache.mk (sys.caches.getD i default).coreId (sys.caches.getD i default).setIndexBits (sys.caches.getD i default).blockOffsetBits (sys.caches.getD i default).associativity (sys.caches.getD i default).sets (sys.caches.getD i default).isBlocked (sys.caches.getD i default).blockedCycles ((sys.caches.getD i default).stats.incrementAccesses.incrementReads)) address li hf
  simp only [cacheRead]
  rw [if_neg (show ¬ ((sys.caches.getD i default).isBlocked = true) by rw [hbl]; exact Bool.false_ne_true)]
  simp only [hl, eq_self_iff_true, if_true]
  all_goals rfl

theorem cacheRead_eq_miss (sys : Sys) (i address : Nat) (cycles : Int)
    (hbl : (sys.caches.getD i default).isBlocked = false)
    (hf : ((sys.caches.getD i default).sets.getD ((sys.caches.getD i default).getSetIndex address) default).findLine
      ((sys.caches.getD i default).getTag address) = none)
    (hcore : (sys.caches.getD i default).coreId = i) :
    cacheRead sys i address cycles
      = ⟨Sys.mk ((allocateLine (busOperation (Sys.mk (sys.caches.set i (Cache.mk (sys.caches.getD i default).coreId (sys.caches.getD i default).setIndexBits (sys.caches.getD i default).blockOffsetBits (sys.caches.getD i default).associativity (sys.caches.getD i default).sets true (sys.caches.getD i default).blockedCycles ((sys.caches.getD i default).stats.incrementAccesses.incrementReads.incrementReadMisses))) sys.bus) BusOperation.BusRd address i false 0).sys.caches i address false (busOperation (Sys.mk (sys.caches.set i (Cache.mk (sys.caches.getD i default).coreId (sys.caches.getD i default).setIndexBits (sys.caches.getD i default).blockOffsetBits (sys.caches.getD i default).associativity (sys.caches.getD i default).sets true (sys.caches.getD i default).blockedCycles ((sys.caches.getD i default).stats.incrementAccesses.incrementReads.incrementReadMisses))) sys.bus) BusOperation.BusRd address i false 0).cycles ((busOperation (Sys.mk (sys.caches.set i (Cache.mk (sys.caches.getD i default).coreId (sys.caches.getD i default).setIndexBits (sys.caches.getD i default).blockOffsetBits (sys.caches.getD i default).associativity (sys.caches.getD i default).sets true (sys.caches.getD i default).blockedCycles ((sys.caches.getD i default).stats.incrementAccesses.incrementReads.incrementReadMisses))) sys.bus) BusOperation.BusRd address i false 0).accepted && (busOperation (Sys.mk (sys.caches.set i (Cache.mk (sys.caches.getD i default).coreId (sys.caches.getD i default).setIndexBits (sys.caches.getD i default).blockOffsetBits (sys.caches.getD i default).associativity (sys.caches.getD i default).sets true (sys.caches.getD i default).blockedCycles ((sys.caches.getD i default).stats.incrementAccesses.incrementReads.incrementReadMisses))) sys.bus) BusOperation.BusRd address i false 0).dataProvided)).1.set i { ((allocateLine (busOperation (Sys.mk (sys.caches.set i (Cache.mk (sys.caches.getD i default).coreId (sys.caches.getD i default).setIndexBits (sys.caches.getD i default).blockOffsetBits (sys.caches.getD i default).associativity (sys.caches.getD i default).sets true (sys.caches.getD i default).blockedCycles ((sys.caches.getD i default).stats.incrementAccesses.incrementReads.incrementReadMisses))) sys.bus) BusOperation.BusRd address i false 0).sys.caches i address false (busOperation (Sys.mk (sys.caches.set i (Cache.mk (sys.caches.getD i default).coreId (sys.caches.getD i default).setIndexBits (sys.caches.getD i default).blockOffsetBits (sys.caches.getD i default).associativity (sys.caches.getD i default).sets true (sys.caches.getD i default).blockedCycles ((sys.caches.getD i default).stats.incrementAccesses.incrementReads.incrementReadMisses))) sys.bus) BusOperation.BusRd address i false 0).cycles ((busOperation (Sys.mk (sys.caches.set i (Cache.mk (sys.caches.getD i default).coreId (sys.caches.getD i default).setIndexBits (sys.caches.getD i default).blockOffsetBits (sys.caches.getD i default).associativity (sys.caches.getD i default).sets true (sys.caches.getD i default).blockedCycles ((sys.caches.getD i default).stats.incrementAccesses.incrementReads.incrementReadMisses))) sys.bus) BusOperation.BusRd address i false 0).accepted && (busOperation (Sys.mk (sys.caches.set i (Cache.mk (sys.caches.getD i default).coreId (sys.caches.getD i default).setIndexBits (sys.caches.getD i default).blockOffsetBits (sys.caches.getD i default).associativity (sys.caches.getD i default).sets true (sys.caches.getD i default).blockedCycles ((sys.caches.getD i default).stats.incrementAccesses.incrementReads.incrementReadMisses))) sys.bus) BusOperation.BusRd address i false 0).dataProvided)).1.getD i default) with blockedCycles := ((allocateLine (busOperation (Sys.mk (sys.caches.set i (Cache.mk (sys.caches.getD i default).coreId (sys.caches.getD i default).setIndexBits (sys.caches.getD i default).blockOffsetBits (sys.caches.getD i default).associativity (sys.caches.getD i default).sets true (sys.caches.getD i default).blockedCycles ((sys.caches.getD i default).stats.incrementAccesses.incrementReads.incrementReadMisses))) sys.bus) BusOperation.BusRd address i false 0).sys.caches i address false (busOperation (Sys.mk (sys.caches.set i (Cache.mk (sys.caches.getD i default).coreId (sys.caches.getD i default).setIndexBits (sys.caches.getD i default).blockOffsetBits (sys.caches.getD i default).associativity (sys.caches.getD i default).sets true (sys.caches.getD i default).blockedCycles ((sys.caches.getD i default).stats.incrementAccesses.incrementReads.incrementReadMisses))) sys.bus) BusOperation.BusRd address i false 0).cycles ((busOperation (Sys.mk (sys.caches.set i (Cache.mk (sys.caches.getD i default).coreId (sys.caches.getD i default).setIndexBits (sys.caches.getD i default).blockOffsetBits (sys.caches.getD i default).associativity (sys.caches.getD i default).sets true (sys.caches.getD i default).blockedCycles ((sys.caches.getD i default).stats.incrementAccesses.incrementReads.incrementReadMisses))) sys.bus) BusOperation.BusRd address i false 0).accepted && (busOperation (Sys.mk (sys.caches.set i (Cache.mk (sys.caches.getD i default).coreId (sys.caches.getD i default).setIndexBits (sys.caches.getD i default).blockOffsetBits (sys.caches.getD i default).associativity (sys.caches.getD i default).sets true (sys.caches.getD i default).blockedCycles ((sys.caches.getD i default).stats.incrementAccesses.incrementReads.incrementReadMisses))) sys.bus) BusOperation.BusRd address i false 0).dataProvided)).1.getD i default).blockedCycles + ((allocateLine (busOperation (Sys.mk (sys.caches.set i (Cache.mk (sys.caches.getD i default).coreId (sys.caches.getD i default).setIndexBits (sys.caches.getD i default).blockOffsetBits (sys.caches.getD i default).associativity (sys.caches.getD i default).sets true (sys.caches.getD i default).blockedCycles ((sys.caches.getD i default).stats.incrementAccesses.incrementReads.incrementReadMisses))) sys.bus) BusOperation.BusRd address i false 0).sys.caches i address false (busOperation (Sys.mk (sys.caches.set i (Cache.mk (sys.caches.getD i default).coreId (sys.caches.getD i default).setIndexBits (sys.caches.getD i default).blockOffsetBits (sys.caches.getD i default).associativity (sys.caches.getD i default).sets true (sys.caches.getD i default).blockedCycles ((sys.caches.getD i default).stats.incrementAccesses.incrementReads.incrementReadMisses))) sys.bus) BusOperation.BusRd address i false 0).cycles ((busOperation (Sys.mk (sys.caches.set i (Cache.mk (sys.caches.getD i default).coreId (sys.caches.getD i default).setIndexBits (sys.caches.getD i default).blockOffsetBits (sys.caches.getD i default).associativity (sys.caches.getD i default).sets true (sys.caches.getD i default).blockedCycles ((sys.caches.getD i default).stats.incrementAccesses.incrementReads.incrementReadMisses))) sys.bus) BusOperation.BusRd address i false 0).accepted && (busOperation (Sys.mk (sys.caches.set i (Cache.mk (sys.caches.getD i default).coreId (sys.caches.getD i default).setIndexBits (sys.caches.getD i default).blockOffsetBits (sys.caches.getD i default).associativity (sys.caches.getD i default).sets true (sys.caches.getD i default).blockedCycles ((sys.caches.getD i default).stats.incrementAccesses.incrementReads.incrementReadMisses))) sys.bus) BusOperation.BusRd address i false 0).dataProvided)).2 - 1) }) (busOperation (Sys.mk (sys.caches.set i (Cache.mk (sys.caches.getD i default).coreId (sys.caches.getD i default).setIndexBits (sys.caches.getD i default).blockOffsetBits (sys.caches.getD i default).associativity (sys.caches.getD i default).sets true (sys.caches.getD i default).blockedCycles ((sys.caches.getD i default).stats.incrementAccesses.incrementReads.incrementReadMisses))) sys.bus) BusOperation.BusRd address i false 0).sys.bus, true, cycles + (allocateLine (busOperation (Sys.mk (sys.caches.set i (Cache.mk (sys.caches.getD i default).coreId (sys.caches.getD i default).setIndexBits (sys.caches.getD i default).blockOffsetBits (sys.caches.getD i default).associativity (sys.caches.getD i default).sets true (sys.caches.getD i default).blockedCycles ((sys.caches.getD i default).stats.incrementAccesses.incrementReads.incrementReadMisses))) sys.bus) BusOperation.BusRd address i false 0).sys.caches i address false (busOperation (Sys.mk (sys.caches.set i (Cache.mk (sys.caches.getD i default).coreId (sys.caches.getD i default).setIndexBits (sys.caches.getD i default).blockOffsetBits (sys.caches.getD i default).associativity (sys.caches.getD i default).sets true (sys.caches.getD i default).blockedCycles ((sys.caches.getD i default).stats.incrementAccesses.incrementReads.incrementReadMisses))) sys.bus) BusOperation.BusRd address i false 0).cycles ((busOperation (Sys.mk (sys.caches.set i (Cache.mk (sys.caches.getD i default).coreId (sys.caches.getD i default).setIndexBits (sys.caches.getD i default).blockOffsetBits (sys.caches.getD i default).associativity (sys.caches.getD i default).sets true (sys.caches.getD i default).blockedCycles ((sys.caches.getD i default).stats.incrementAccesses.incrementReads.incrementReadMisses))) sys.bus) BusOperation.BusRd address i false 0).accepted && (busOperation (Sys.mk (sys.caches.set i (Cache.mk (sys.caches.getD i default).coreId (sys.caches.getD i default).setIndexBits (sys.caches.getD i default).blockOffsetBits (sys.caches.getD i default).associativity (sys.caches.getD i default).sets true (sys.caches.getD i default).blockedCycles ((sys.caches.getD i default).stats.incrementAccesses.incrementReads.incrementReadMisses))) sys.bus) BusOperation.BusRd address i false 0).dataProvided)).2⟩ := by
  have hl := lookupAndUpdate_miss (Cache.mk (sys.caches.getD i default).coreId (sys.caches.getD i default).setIndexBits (sys.caches.getD i default).blockOffsetBits (sys.caches.getD i default).associativity (sys.caches.getD i default).sets (sys.caches.getD i default).isBlocked (sys.caches.getD i default).blockedCycles ((sys.caches.getD i default).stats.incrementAccesses.incrementReads)) address hf
  simp only [cacheRead]
  rw [if_neg (show ¬ ((sys.caches.getD i default).isBlocked = true) by rw [hbl]; exact Bool.false_ne_true)]
  simp only [hl, Bool.false_eq_true, if_false]
  rw [hcore]
  all_goals rfl

theorem cacheWrite_eq_blocked (sys : Sys) (i address : Nat) (cycles : Int)
    (hbl : (sys.caches.getD i default).isBlocked = true) :
    cacheWrite sys i address cycles = ⟨sys, false, cycles⟩ := by
  simp only [cacheWrite, hbl, eq_self_iff_true, if_true]

theorem cacheWrite_eq_miss (sys : Sys) (i address : Nat) (cycles : Int)
    (hbl : (sys.caches.getD i default).isBlocked = false)
    (hf : ((sys.caches.getD i default).sets.getD ((sys.caches.getD i default).getSetIndex address) default).findLine
      ((sys.caches.getD i default).getTag address) = none)
    (hcore : (sys.caches.getD i default).coreId = i) :
    cacheWrite sys i address cycles
      = ⟨Sys.mk ((allocateLine (busOperation (Sys.mk (sys.caches.set i (Cache.mk (sys.caches.getD i default).coreId (sys.caches.getD i default).setIndexBits (sys.caches.getD i default).blockOffsetBits (sys.caches.getD i default).associativity (sys.caches.getD i default).sets true (sys.caches.getD i default).blockedCycles ((sys.caches.getD i default).stats.incrementAccesses.incrementWrites.incrementWriteMisses))) sys.bus) BusOperation.BusRdX address i false 0).sys.caches i address true (busOperation (Sys.mk (sys.caches.set i (Cache.mk (sys.caches.getD i default).coreId (sys.caches.getD i default).setIndexBits (sys.caches.getD i default).blockOffsetBits (sys.caches.getD i default).associativity (sys.caches.getD i default).sets true (sys.caches.getD i default).blockedCycles ((sys.caches.getD i default).stats.incrementAccesses.incrementWrites.incrementWriteMisses))) sys.bus) BusOperation.BusRdX address i false 0).cycles ((busOperation (Sys.mk (sys.caches.set i (Cache.mk (sys.caches.getD i default).coreId (sys.caches.getD i default).setIndexBits (sys.caches.getD i default).blockOffsetBits (sys.caches.getD i default).associativity (sys.caches.getD i default).sets true (sys.caches.getD i default).blockedCycles ((sys.caches.getD i default).stats.incrementAccesses.incrementWrites.incrementWriteMisses))) sys.bus) BusOperation.BusRdX address i false 0).accepted && (busOperation (Sys.mk (sys.caches.set i (Cache.mk (sys.caches.getD i default).coreId (sys.caches.getD i default).setIndexBits (sys.caches.getD i default).blockOffsetBits (sys.caches.getD i default).associativity (sys.caches.getD i default).sets true (sys.caches.getD i default).blockedCycles ((sys.caches.getD i default).stats.incrementAccesses.incrementWrites.incrementWriteMisses))) sys.bus) BusOperation.BusRdX address i false 0).dataProvided)).1.set i { ((allocateLine (busOperation (Sys.mk (sys.caches.set i (Cache.mk (sys.caches.getD i default).coreId (sys.caches.getD i default).setIndexBits (sys.caches.getD i default).blockOffsetBits (sys.caches.getD i default).associativity (sys.caches.getD i default).sets true (sys.caches.getD i default).blockedCycles ((sys.caches.getD i default).stats.incrementAccesses.incrementWrites.incrementWriteMisses))) sys.bus) BusOperation.BusRdX address i false 0).sys.caches i address true (busOperation (Sys.mk (sys.caches.set i (Cache.mk (sys.caches.getD i default).coreId (sys.caches.getD i default).setIndexBits (sys.caches.getD i default).blockOffsetBits (sys.caches.getD i default).associativity (sys.caches.getD i default).sets true (sys.caches.getD i default).blockedCycles ((sys.caches.getD i default).stats.incrementAccesses.incrementWrites.incrementWriteMisses))) sys.bus) BusOperation.BusRdX address i false 0).cycles ((busOperation (Sys.mk (sys.caches.set i (Cache.mk (sys.caches.getD i default).coreId (sys.caches.getD i default).setIndexBits (sys.caches.getD i default).blockOffsetBits (sys.caches.getD i default).associativity (sys.caches.getD i default).sets true (sys.caches.getD i default).blockedCycles ((sys.caches.getD i default).stats.incrementAccesses.incrementWrites.incrementWriteMisses))) sys.bus) BusOperation.BusRdX address i false 0).accepted && (busOperation (Sys.mk (sys.caches.set i (Cache.mk (sys.caches.getD i default).coreId (sys.caches.getD i default).setIndexBits (sys.caches.getD i default).blockOffsetBits (sys.caches.getD i default).associativity (sys.caches.getD i default).sets true (sys.caches.getD i default).blockedCycles ((sys.caches.getD i default).stats.incrementAccesses.incrementWrites.incrementWriteMisses))) sys.bus) BusOperation.BusRdX address i false 0).dataProvided)).1.getD i default) with blockedCycles := if (allocateLine (busOperation (Sys.mk (sys.caches.set i (Cache.mk (sys.caches.getD i default).coreId (sys.caches.getD i default).setIndexBits (sys.caches.getD i default).blockOffsetBits (sys.caches.getD i default).associativity (sys.caches.getD i default).sets true (sys.caches.getD i default).blockedCycles ((sys.caches.getD i default).stats.incrementAccesses.incrementWrites.incrementWriteMisses))) sys.bus) BusOperation.BusRdX address i false 0).sys.caches i address true (busOperation (Sys.mk (sys.caches.set i (Cache.mk (sys.caches.getD i default).coreId (sys.caches.getD i default).setIndexBits (sys.caches.getD i default).blockOffsetBits (sys.caches.getD i default).associativity (sys.caches.getD i default).sets true (sys.caches.getD i default).blockedCycles ((sys.caches.getD i default).stats.incrementAccesses.incrementWrites.incrementWriteMisses))) sys.bus) BusOperation.BusRdX address i false 0).cycles ((busOperation (Sys.mk (sys.caches.set i (Cache.mk (sys.caches.getD i default).coreId (sys.caches.getD i default).setIndexBits (sys.caches.getD i default).blockOffsetBits (sys.caches.getD i default).associativity (sys.caches.getD i default).sets true (sys.caches.getD i default).blockedCycles ((sys.caches.getD i default).stats.incrementAccesses.incrementWrites.incrementWriteMisses))) sys.bus) BusOperation.BusRdX address i false 0).accepted && (busOperation (Sys.mk (sys.caches.set i (Cache.mk (sys.caches.getD i default).coreId (sys.caches.getD i default).setIndexBits (sys.caches.getD i default).blockOffsetBits (sys.caches.getD i default).associativity (sys.caches.getD i default).sets true (sys.caches.getD i default).blockedCycles ((sys.caches.getD i default).stats.incrementAccesses.incrementWrites.incrementWriteMisses))) sys.bus) BusOperation.BusRdX address i false 0).dataProvided)).2 > 0 then (allocateLine (busOperation (Sys.mk (sys.caches.set i (Cache.mk (sys.caches.getD i default).coreId (sys.caches.getD i default).setIndexBits (sys.caches.getD i default).blockOffsetBits (sys.caches.getD i default).associativity (sys.caches.getD i default).sets true (sys.caches.getD i default).blockedCycles ((sys.caches.getD i default).stats.incrementAccesses.incrementWrites.incrementWriteMisses))) sys.bus) BusOperation.BusRdX address i false 0).sys.caches i address true (busOperation (Sys.mk (sys.caches.set i (Cache.mk (sys.caches.getD i default).coreId (sys.caches.getD i default).setIndexBits (sys.caches.getD i default).blockOffsetBits (sys.caches.getD i default).associativity (sys.caches.getD i default).sets true (sys.caches.getD i default).blockedCycles ((sys.caches.getD i default).stats.incrementAccesses.incrementWrites.incrementWriteMisses))) sys.bus) BusOperation.BusRdX address i false 0).cycles ((busOperation (Sys.mk (sys.caches.set i (Cache.mk (sys.caches.getD i default).coreId (sys.caches.getD i default).setIndexBits (sys.caches.getD i default).blockOffsetBits (sys.caches.getD i default).associativity (sys.caches.getD i default).sets true (sys.caches.getD i default).blockedCycles ((sys.caches.getD i default).stats.incrementAccesses.incrementWrites.incrementWriteMisses))) sys.bus) BusOperation.BusRdX address i false 0).accepted && (busOperation (Sys.mk (sys.caches.set i (Cache.mk (sys.caches.getD i default).coreId (sys.caches.getD i default).setIndexBits (sys.caches.getD i default).blockOffsetBits (sys.caches.getD i default).associativity (sys.caches.getD i default).sets true (sys.caches.getD i default).blockedCycles ((sys.caches.getD i default).stats.incrementAccesses.incrementWrites.incrementWriteMisses))) sys.bus) BusOperation.BusRdX address i false 0).dataProvided)).2 - 1 else 0 }) (busOperation (Sys.mk (sys.caches.set i (Cache.mk (sys.caches.getD i default).coreId (sys.caches.getD i default).setIndexBits (sys.caches.getD i default).blockOffsetBits (sys.caches.getD i default).associativity (sys.caches.getD i default).sets true (sys.caches.getD i default).blockedCycles ((sys.caches.getD i default).stats.incrementAccesses.incrementWrites.incrementWriteMisses))) sys.bus) BusOperation.BusRdX address i false 0).sys.bus, true, cycles + (allocateLine (busOperation (Sys.mk (sys.caches.set i (Cache.mk (sys.caches.getD i default).coreId (sys.caches.getD i default).setIndexBits (sys.caches.getD i default).blockOffsetBits (sys.caches.getD i default).associativity (sys.caches.getD i default).sets true (sys.caches.getD i default).blockedCycles ((sys.caches.getD i default).stats.incrementAccesses.incrementWrites.incrementWriteMisses))) sys.bus) BusOperation.BusRdX address i false 0).sys.caches i address true (busOperation (Sys.mk (sys.caches.set i (Cache.mk (sys.caches.getD i default).coreId (sys.caches.getD i default).setIndexBits (sys.caches.getD i default).blockOffsetBits (sys.caches.getD i default).associativity (sys.caches.getD i default).sets true (sys.caches.getD i default).blockedCycles ((sys.caches.getD i default).stats.incrementAccesses.incrementWrites.incrementWriteMisses))) sys.bus) BusOperation.BusRdX address i false 0).cycles ((busOperation (Sys.mk (sys.caches.set i (Cache.mk (sys.caches.getD i default).coreId (sys.caches.getD i default).setIndexBits (sys.caches.getD i default).blockOffsetBits (sys.caches.getD i default).associativity (sys.caches.getD i default).sets true (sys.caches.getD i default).blockedCycles ((sys.caches.getD i default).stats.incrementAccesses.incrementWrites.incrementWriteMisses))) sys.bus) BusOperation.BusRdX address i false 0).accepted && (busOperation (Sys.mk (sys.caches.set i (Cache.mk (sys.caches.getD i default).coreId (sys.caches.getD i default).setIndexBits (sys.caches.getD i default).blockOffsetBits (sys.caches.getD i default).associativity (sys.caches.getD i default).sets true (sys.caches.getD i default).blockedCycles ((sys.caches.getD i default).stats.incrementAccesses.incrementWrites.incrementWriteMisses))) sys.bus) BusOperation.BusRdX address i false 0).dataProvided)).2⟩ := by
  have hl := lookupAndUpdate_miss (Cache.mk (sys.caches.getD i default).coreId (sys.caches.getD i default).setIndexBits (sys.caches.getD i default).blockOffsetBits (sys.caches.getD i default).associativity (sys.caches.getD i default).sets (sys.caches.getD i default).isBlocked (sys.caches.getD i default).blockedCycles ((sys.caches.getD i default).stats.incrementAccesses.incrementWrites)) address hf
  simp only [cacheWrite]
  rw [if_neg (show ¬ ((sys.caches.getD i default).isBlocked = true) by rw [hbl]; exact Bool.false_ne_true)]
  simp only [hl, Bool.false_eq_true, if_false]
  rw [hcore]
  all_goals rfl

theorem cacheWrite_eq_hit_S (sys : Sys) (i address : Nat) (cycles : Int) (li : Nat)
    (hbl : (sys.caches.getD i default).isBlocked = false)
    (hf : ((sys.caches.getD i default).sets.getD ((sys.caches.getD i default).getSetIndex address) default).findLine
      ((sys.caches.getD i default).getTag address) = some li)
    (hf2 : (((Cache.mk (sys.caches.getD i default).coreId (sys.caches.getD i default).setIndexBits (sys.caches.getD i default).blockOffsetBits (sys.caches.getD i default).associativity (sys.caches.getD i default).sets (sys.caches.getD i default).isBlocked (sys.caches.getD i default).blockedCycles ((sys.caches.getD i default).stats.incrementAccesses.incrementWrites)).putSet ((Cache.mk (sys.caches.getD i default).coreId (sys.caches.getD i default).setIndexBits (sys.caches.getD i default).blockOffsetBits (sys.caches.getD i default).associativity (sys.caches.getD i default).sets (sys.caches.getD i default).isBlocked (sys.caches.getD i default).blockedCycles ((sys.caches.getD i default).stats.incrementAccesses.incrementWrites)).getSetIndex address) (((sys.caches.getD i default).sets.getD ((Cache.mk (sys.caches.getD i default).coreId (sys.caches.getD i default).setIndexBits (sys.caches.getD i default).blockOffsetBits (sys.caches.getD i default).associativity (sys.caches.getD i default).sets (sys.caches.getD i default).isBlocked (sys.caches.getD i default).blockedCycles ((sys.caches.getD i default).stats.incrementAccesses.incrementWrites)).getSetIndex address) default).updateLRU li)).sets.getD (((Cache.mk (sys.caches.getD i default).coreId (sys.caches.getD i default).setIndexBits (sys.caches.getD i default).blockOffsetBits (sys.caches.getD i default).associativity (sys.caches.getD i default).sets (sys.caches.getD i default).isBlocked (sys.caches.getD i default).blockedCycles ((sys.caches.getD i default).stats.incrementAccesses.incrementWrites)).putSet ((Cache.mk (sys.caches.getD i default).coreId (sys.caches.getD i default).setIndexBits (sys.caches.getD i default).blockOffsetBits (sys.caches.getD i default).associativity (sys.caches.getD i default).sets (sys.caches.getD i default).isBlocked (sys.caches.getD i default).blockedCycles ((sys.caches.getD i default).stats.incrementAccesses.incrementWrites)).getSetIndex address) (((sys.caches.getD i default).sets.getD ((Cache.mk (sys.caches.getD i default).coreId (sys.caches.getD i default).setIndexBits (sys.caches.getD i default).blockOffsetBits (sys.caches.getD i default).associativity (sys.caches.getD i default).sets (sys.caches.getD i default).isBlocked (sys.caches.getD i default).blockedCycles ((sys.caches.getD i default).stats.incrementAccesses.incrementWrites)).getSetIndex address) default).updateLRU li)).getSetIndex address) default).findLine (((Cache.mk (sys.caches.getD i default).coreId (sys.caches.getD i default).setIndexBits (sys.caches.getD i default).blockOffsetBits (sys.caches.getD i default).associativity (sys.caches.getD i default).sets (sys.caches.getD i default).isBlocked (sys.caches.getD i default).blockedCycles ((sys.caches.getD i default).stats.incrementAccesses.incrementWrites)).putSet ((Cache.mk (sys.caches.getD i default).coreId (sys.caches.getD i default).setIndexBits (sys.caches.getD i default).blockOffsetBits (sys.caches.getD i default).associativity (sys.caches.getD i default).sets (sys.caches.getD i default).isBlocked (sys.caches.getD i default).blockedCycles ((sys.caches.getD i default).stats.incrementAccesses.incrementWrites)).getSetIndex address) (((sys.caches.getD i default).sets.getD ((Cache.mk (sys.caches.getD i default).coreId (sys.caches.getD i default).setIndexBits (sys.caches.getD i default).blockOffsetBits (sys.caches.getD i default).associativity (sys.caches.getD i default).sets (sys.caches.getD i default).isBlocked (sys.caches.getD i default).blockedCycles ((sys.caches.getD i default).stats.incrementAccesses.incrementWrites)).getSetIndex address) default).updateLRU li)).getTag address) = some li)
    (hcore : (sys.caches.getD i default).coreId = i)
    (hss : ((((Cache.mk (sys.caches.getD i default).coreId (sys.caches.getD i default).setIndexBits (sys.caches.getD i default).blockOffsetBits (sys.caches.getD i default).associativity (sys.caches.getD i default).sets (sys.caches.getD i default).isBlocked (sys.caches.getD i default).blockedCycles ((sys.caches.getD i default).stats.incrementAccesses.incrementWrites)).putSet ((Cache.mk (sys.caches.getD i default).coreId (sys.caches.getD i default).setIndexBits (sys.caches.getD i default).blockOffsetBits (sys.caches.getD i default).associativity (sys.caches.getD i default).sets (sys.caches.getD i default).isBlocked (sys.caches.getD i default).blockedCycles ((sys.caches.getD i default).stats.incrementAccesses.incrementWrites)).getSetIndex address) (((sys.caches.getD i default).sets.getD ((Cache.mk (sys.caches.getD i default).coreId (sys.caches.getD i default).setIndexBits (sys.caches.getD i default).blockOffsetBits (sys.caches.getD i default).associativity (sys.caches.getD i default).sets (sys.caches.getD i default).isBlocked (sys.caches.getD i default).blockedCycles ((sys.caches.getD i default).stats.incrementAccesses.incrementWrites)).getSetIndex address) default).updateLRU li)).sets.getD (((Cache.mk (sys.caches.getD i default).coreId (sys.caches.getD i default).setIndexBits (sys.caches.getD i default).blockOffsetBits (sys.caches.getD i default).associativity (sys.caches.getD i default).sets (sys.caches.getD i default).isBlocked (sys.caches.getD i default).blockedCycles ((sys.caches.getD i default).stats.incrementAccesses.incrementWrites)).putSet ((Cache.mk (sys.caches.getD i default).coreId (sys.caches.getD i default).setIndexBits (sys.caches.getD i default).blockOffsetBits (sys.caches.getD i default).associativity (sys.caches.getD i default).sets (sys.caches.getD i default).isBlocked (sys.caches.getD i default).blockedCycles ((sys.caches.getD i default).stats.incrementAccesses.incrementWrites)).getSetIndex address) (((sys.caches.getD i default).sets.getD ((Cache.mk (sys.caches.getD i default).coreId (sys.caches.getD i default).setIndexBits (sys.caches.getD i default).blockOffsetBits (sys.caches.getD i default).associativity (sys.caches.getD i default).sets (sys.caches.getD i default).isBlocked (sys.caches.getD i default).blockedCycles ((sys.caches.getD i default).stats.incrementAccesses.incrementWrites)).getSetIndex address) default).updateLRU li)).getSetIndex address) default).getLine li).state = CacheState.SHARED) :
    cacheWrite sys i address cycles
      = ⟨Sys.mk ((busOperation (Sys.mk (sys.caches.set i ((Cache.mk (sys.caches.getD i default).coreId (sys.caches.getD i default).setIndexBits (sys.caches.getD i default).blockOffsetBits (sys.caches.getD i default).associativity (sys.caches.getD i default).sets (sys.caches.getD i default).isBlocked (sys.caches.getD i default).blockedCycles ((sys.caches.getD i default).stats.incrementAccesses.incrementWrites)).putSet ((Cache.mk (sys.caches.getD i default).coreId (sys.caches.getD i default).setIndexBits (sys.caches.getD i default).blockOffsetBits (sys.caches.getD i default).associativity (sys.caches.getD i default).sets (sys.caches.getD i default).isBlocked (sys.caches.getD i default).blockedCycles ((sys.caches.getD i default).stats.incrementAccesses.incrementWrites)).getSetIndex address) (((sys.caches.getD i default).sets.getD ((Cache.mk (sys.caches.getD i default).coreId (sys.caches.getD i default).setIndexBits (sys.caches.getD i default).blockOffsetBits (sys.caches.getD i default).associativity (sys.caches.getD i default).sets (sys.caches.getD i default).isBlocked (sys.caches.getD i default).blockedCycles ((sys.caches.getD i default).stats.incrementAccesses.incrementWrites)).getSetIndex address) default).updateLRU li))) sys.bus) BusOperation.BusUpgr address i false 0).sys.caches.set i (((busOperation (Sys.mk (sys.caches.set i ((Cache.mk (sys.caches.getD i default).coreId (sys.caches.getD i default).setIndexBits (sys.caches.getD i default).blockOffsetBits (sys.caches.getD i default).associativity (sys.caches.getD i default).sets (sys.caches.getD i default).isBlocked (sys.caches.getD i default).blockedCycles ((sys.caches.getD i default).stats.incrementAccesses.incrementWrites)).putSet ((Cache.mk (sys.caches.getD i default).coreId (sys.caches.getD i default).setIndexBits (sys.caches.getD i default).blockOffsetBits (sys.caches.getD i default).associativity (sys.caches.getD i default).sets (sys.caches.getD i default).isBlocked (sys.caches.getD i default).blockedCycles ((sys.caches.getD i default).stats.incrementAccesses.incrementWrites)).getSetIndex address) (((sys.caches.getD i default).sets.getD ((Cache.mk (sys.caches.getD i default).coreId (sys.caches.getD i default).setIndexBits (sys.caches.getD i default).blockOffsetBits (sys.caches.getD i default).associativity (sys.caches.getD i default).sets (sys.caches.getD i default).isBlocked (sys.caches.getD i default).blockedCycles ((sys.caches.getD i default).stats.incrementAccesses.incrementWrites)).getSetIndex address) default).updateLRU li))) sys.bus) BusOperation.BusUpgr address i false 0).sys.caches.getD i default).putSet (((Cache.mk (sys.caches.getD i default).coreId (sys.caches.getD i default).setIndexBits (sys.caches.getD i default).blockOffsetBits (sys.caches.getD i default).associativity (sys.caches.getD i default).sets (sys.caches.getD i default).isBlocked (sys.caches.getD i default).blockedCycles ((sys.caches.getD i default).stats.incrementAccesses.incrementWrites)).putSet ((Cache.mk (sys.caches.getD i default).coreId (sys.caches.getD i default).setIndexBits (sys.caches.getD i default).blockOffsetBits (sys.caches.getD i default).associativity (sys.caches.getD i default).sets (sys.caches.getD i default).isBlocked (sys.caches.getD i default).blockedCycles ((sys.caches.getD i default).stats.incrementAccesses.incrementWrites)).getSetIndex address) (((sys.caches.getD i default).sets.getD ((Cache.mk (sys.caches.getD i default).coreId (sys.caches.getD i default).setIndexBits (sys.caches.getD i default).blockOffsetBits (sys.caches.getD i default).associativity (sys.caches.getD i default).sets (sys.caches.getD i default).isBlocked (sys.caches.getD i default).blockedCycles ((sys.caches.getD i default).stats.incrementAccesses.incrementWrites)).getSetIndex address) default).updateLRU li)).getSetIndex address) ((((busOperation (Sys.mk (sys.caches.set i ((Cache.mk (sys.caches.getD i default).coreId (sys.caches.getD i default).setIndexBits (sys.caches.getD i default).blockOffsetBits (sys.caches.getD i default).associativity (sys.caches.getD i default).sets (sys.caches.getD i default).isBlocked (sys.caches.getD i default).blockedCycles ((sys.caches.getD i default).stats.incrementAccesses.incrementWrites)).putSet ((Cache.mk (sys.caches.getD i default).coreId (sys.caches.getD i default).setIndexBits (sys.caches.getD i default).blockOffsetBits (sys.caches.getD i default).associativity (sys.caches.getD i default).sets (sys.caches.getD i default).isBlocked (sys.caches.getD i default).blockedCycles ((sys.caches.getD i default).stats.incrementAccesses.incrementWrites)).getSetIndex address) (((sys.caches.getD i default).sets.getD ((Cache.mk (sys.caches.getD i default).coreId (sys.caches.getD i default).setIndexBits (sys.caches.getD i default).blockOffsetBits (sys.caches.getD i default).associativity (sys.caches.getD i default).sets (sys.caches.getD i default).isBlocked (sys.caches.getD i default).blockedCycles ((sys.caches.getD i default).stats.incrementAccesses.incrementWrites)).getSetIndex address) default).updateLRU li))) sys.bus) BusOperation.BusUpgr address i false 0).sys.caches.getD i default).sets.getD (((Cache.mk (sys.caches.getD i default).coreId (sys.caches.getD i default).setIndexBits (sys.caches.getD i default).blockOffsetBits (sys.caches.getD i default).associativity (sys.caches.getD i default).sets (sys.caches.getD i default).isBlocked (sys.caches.getD i default).blockedCycles ((sys.caches.getD i default).stats.incrementAccesses.incrementWrites)).putSet ((Cache.mk (sys.caches.getD i default).coreId (sys.caches.getD i default).setIndexBits (sys.caches.getD i default).blockOffsetBits (sys.caches.getD i default).associativity (sys.caches.getD i default).sets (sys.caches.getD i default).isBlocked (sys.caches.getD i default).blockedCycles ((sys.caches.getD i default).stats.incrementAccesses.incrementWrites)).getSetIndex address) (((sys.caches.getD i default).sets.getD ((Cache.mk (sys.caches.getD i default).coreId (sys.caches.getD i default).setIndexBits (sys.caches.getD i default).blockOffsetBits (sys.caches.getD i default).associativity (sys.caches.getD i default).sets (sys.caches.getD i default).isBlocked (sys.caches.getD i default).blockedCycles ((sys.caches.getD i default).stats.incrementAccesses.incrementWrites)).getSetIndex address) default).updateLRU li)).getSetIndex address) default).setLineState li CacheState.MODIFIED))) (busOperation (Sys.mk (sys.caches.set i ((Cache.mk (sys.caches.getD i default).coreId (sys.caches.getD i default).setIndexBits (sys.caches.getD i default).blockOffsetBits (sys.caches.getD i default).associativity (sys.caches.getD i default).sets (sys.caches.getD i default).isBlocked (sys.caches.getD i default).blockedCycles ((sys.caches.getD i default).stats.incrementAccesses.incrementWrites)).putSet ((Cache.mk (sys.caches.getD i default).coreId (sys.caches.getD i default).setIndexBits (sys.caches.getD i default).blockOffsetBits (sys.caches.getD i default).associativity (sys.caches.getD i default).sets (sys.caches.getD i default).isBlocked (sys.caches.getD i default).blockedCycles ((sys.caches.getD i default).stats.incrementAccesses.incrementWrites)).getSetIndex address) (((sys.caches.getD i default).sets.getD ((Cache.mk (sys.caches.getD i default).coreId (sys.caches.getD i default).setIndexBits (sys.caches.getD i default).blockOffsetBits (sys.caches.getD i default).associativity (sys.caches.getD i default).sets (sys.caches.getD i default).isBlocked (sys.caches.getD i default).blockedCycles ((sys.caches.getD i default).stats.incrementAccesses.incrementWrites)).getSetIndex address) default).updateLRU li))) sys.bus) BusOperation.BusUpgr address i false 0).sys.bus, true, cycles + (busOperation (Sys.mk (sys.caches.set i ((Cache.mk (sys.caches.getD i default).coreId (sys.caches.getD i default).setIndexBits (sys.caches.getD i default).blockOffsetBits (sys.caches.getD i default).associativity (sys.caches.getD i default).sets (sys.caches.getD i default).isBlocked (sys.caches.getD i default).blockedCycles ((sys.caches.getD i default).stats.incrementAccesses.incrementWrites)).putSet ((Cache.mk (sys.caches.getD i default).coreId (sys.caches.getD i default).setIndexBits (sys.caches.getD i default).blockOffsetBits (sys.caches.getD i default).associativity (sys.caches.getD i default).sets (sys.caches.getD i default).isBlocked (sys.caches.getD i default).blockedCycles ((sys.caches.getD i default).stats.incrementAccesses.incrementWrites)).getSetIndex address) (((sys.caches.getD i default).sets.getD ((Cache.mk (sys.caches.getD i default).coreId (sys.caches.getD i default).setIndexBits (sys.caches.getD i default).blockOffsetBits (sys.caches.getD i default).associativity (sys.caches.getD i default).sets (sys.caches.getD i default).isBlocked (sys.caches.getD i default).blockedCycles ((sys.caches.getD i default).stats.incrementAccesses.incrementWrites)).getSetIndex address) default).updateLRU li))) sys.bus) BusOperation.BusUpgr address i false 0).cycles⟩ := by
  have hl := lookupAndUpdate_hit (Cache.mk (sys.caches.getD i default).coreId (sys.caches.getD i default).setIndexBits (sys.caches.getD i default).blockOffsetBits (sys.caches.getD i default).associativity (sys.caches.getD i default).sets (sys.caches.getD i default).isBlocked (sys.caches.getD i default).blockedCycles ((sys.caches.getD i default).stats.incrementAccesses.incrementWrites)) address li hf
  simp only [cacheWrite]
  rw [if_neg (show ¬ ((sys.caches.getD i default).isBlocked = true) by rw [hbl]; exact Bool.false_ne_true)]
  simp only [hl, eq_self_iff_true, if_true]
  simp only [hf2]
  rw [if_pos (show ((((Cache.mk (sys.caches.getD i default).coreId (sys.caches.getD i default).setIndexBits (sys.caches.getD i default).blockOffsetBits (sys.caches.getD i default).associativity (sys.caches.getD i default).sets (sys.caches.getD i default).isBlocked (sys.caches.getD i default).blockedCycles ((sys.caches.getD i default).stats.incrementAccesses.incrementWrites)).putSet ((Cache.mk (sys.caches.getD i default).coreId (sys.caches.getD i default).setIndexBits (sys.caches.getD i default).blockOffsetBits (sys.caches.getD i default).associativity (sys.caches.getD i default).sets (sys.caches.getD i default).isBlocked (sys.caches.getD i default).blockedCycles ((sys.caches.getD i default).stats.incrementAccesses.incrementWrites)).getSetIndex address) (((sys.caches.getD i default).sets.getD ((Cache.mk (sys.caches.getD i default).coreId (sys.caches.getD i default).setIndexBits (sys.caches.getD i default).blockOffsetBits (sys.caches.getD i default).associativity (sys.caches.getD i default).sets (sys.caches.getD i default).isBlocked (sys.caches.getD i default).blockedCycles ((sys.caches.getD i default).stats.incrementAccesses.incrementWrites)).getSetIndex address) default).updateLRU li)).sets.getD (((Cache.mk (sys.caches.getD i default).coreId (sys.caches.getD i default).setIndexBits (sys.caches.getD i default).blockOffsetBits (sys.caches.getD i default).associativity (sys.caches.getD i default).sets (sys.caches.getD i default).isBlocked (sys.caches.getD i default).blockedCycles ((sys.caches.getD i default).stats.incrementAccesses.incrementWrites)).putSet ((Cache.mk (sys.caches.getD i default).coreId (sys.caches.getD i default).setIndexBits (sys.caches.getD i default).blockOffsetBits (sys.caches.getD i default).associativity (sys.caches.getD i default).sets (sys.caches.getD i default).isBlocked (sys.caches.getD i default).blockedCycles ((sys.caches.getD i default).stats.incrementAccesses.incrementWrites)).getSetIndex address) (((sys.caches.getD i default).sets.getD ((Cache.mk (sys.caches.getD i default).coreId (sys.caches.getD i default).setIndexBits (sys.caches.getD i default).blockOffsetBits (sys.caches.getD i default).associativity (sys.caches.getD i default).sets (sys.caches.getD i default).isBlocked (sys.caches.getD i default).blockedCycles ((sys.caches.getD i default).stats.incrementAccesses.incrementWrites)).getSetIndex address) default).updateLRU li)).getSetIndex address) default).getLine li).state = CacheState.SHARED ∨ ((((Cache.mk (sys.caches.getD i default).coreId (sys.caches.getD i default).setIndexBits (sys.caches.getD i default).blockOffsetBits (sys.caches.getD i default).associativity (sys.caches.getD i default).sets (sys.caches.getD i default).isBlocked (sys.caches.getD i default).blockedCycles ((sys.caches.getD i default).stats.incrementAccesses.incrementWrites)).putSet ((Cache.mk (sys.caches.getD i default).coreId (sys.caches.getD i default).setIndexBits (sys.caches.getD i default).blockOffsetBits (sys.caches.getD i default).associativity (sys.caches.getD i default).sets (sys.caches.getD i default).isBlocked (sys.caches.getD i default).blockedCycles ((sys.caches.getD i default).stats.incrementAccesses.incrementWrites)).getSetIndex address) (((sys.caches.getD i default).sets.getD ((Cache.mk (sys.caches.getD i default).coreId (sys.caches.getD i default).setIndexBits (sys.caches.getD i default).blockOffsetBits (sys.caches.getD i default).associativity (sys.caches.getD i default).sets (sys.caches.getD i default).isBlocked (sys.caches.getD i default).blockedCycles ((sys.caches.getD i default).stats.incrementAccesses.incrementWrites)).getSetIndex address) default).updateLRU li)).sets.getD (((Cache.mk (sys.caches.getD i default).coreId (sys.caches.getD i default).setIndexBits (sys.caches.getD i default).blockOffsetBits (sys.caches.getD i default).associativity (sys.caches.getD i default).sets (sys.caches.getD i default).isBlocked (sys.caches.getD i default).blockedCycles ((sys.caches.getD i default).stats.incrementAccesses.incrementWrites)).putSet ((Cache.mk (sys.caches.getD i default).coreId (sys.caches.getD i default).setIndexBits (sys.caches.getD i default).blockOffsetBits (sys.caches.getD i default).associativity (sys.caches.getD i default).sets (sys.caches.getD i default).isBlocked (sys.caches.getD i default).blockedCycles ((sys.caches.getD i default).stats.incrementAccesses.incrementWrites)).getSetIndex address) (((sys.caches.getD i default).sets.getD ((Cache.mk (sys.caches.getD i default).coreId (sys.caches.getD i default).setIndexBits (sys.caches.getD i default).blockOffsetBits (sys.caches.getD i default).associativity (sys.caches.getD i default).sets (sys.caches.getD i default).isBlocked (sys.caches.getD i default).blockedCycles ((sys.caches.getD i default).stats.incrementAccesses.incrementWrites)).getSetIndex address) default).updateLRU li)).getSetIndex address) default).getLine li).state = CacheState.EXCLUSIVE
    from Or.inl hss)]
  rw [if_pos hss]
  rw [show (((Cache.mk (sys.caches.getD i default).coreId (sys.caches.getD i default).setIndexBits (sys.caches.getD i default).blockOffsetBits (sys.caches.getD i default).associativity (sys.caches.getD i default).sets (sys.caches.getD i default).isBlocked (sys.caches.getD i default).blockedCycles ((sys.caches.getD i default).stats.incrementAccesses.incrementWrites)).putSet ((Cache.mk (sys.caches.getD i default).coreId (sys.caches.getD i default).setIndexBits (sys.caches.getD i default).blockOffsetBits (sys.caches.getD i default).associativity (sys.caches.getD i default).sets (sys.caches.getD i default).isBlocked (sys.caches.getD i default).blockedCycles ((sys.caches.getD i default).stats.incrementAccesses.incrementWrites)).getSetIndex address) (((sys.caches.getD i default).sets.getD ((Cache.mk (sys.caches.getD i default).coreId (sys.caches.getD i default).setIndexBits (sys.caches.getD i default).blockOffsetBits (sys.caches.getD i default).associativity (sys.caches.getD i default).sets (sys.caches.getD i default).isBlocked (sys.caches.getD i default).blockedCycles ((sys.caches.getD i default).stats.incrementAccesses.incrementWrites)).getSetIndex address) default).updateLRU li)) : Cache).coreId = i from hcore]
  all_goals rfl

theorem cacheWrite_eq_hit_E (sys : Sys) (i address : Nat) (cycles : Int) (li : Nat)
    (hbl : (sys.caches.getD i default).isBlocked = false)
    (hf : ((sys.caches.getD i default).sets.getD ((sys.caches.getD i default).getSetIndex address) default).findLine
      ((sys.caches.getD i default).getTag address) = some li)
    (hf2 : (((Cache.mk (sys.caches.getD i default).coreId (sys.caches.getD i default).setIndexBits (sys.caches.getD i default).blockOffsetBits (sys.caches.getD i default).associativity (sys.caches.getD i default).sets (sys.caches.getD i default).isBlocked (sys.caches.getD i default).blockedCycles ((sys.caches.getD i default).stats.incrementAccesses.incrementWrites)).putSet ((Cache.mk (sys.caches.getD i default).coreId (sys.caches.getD i default).setIndexBits (sys.caches.getD i default).blockOffsetBits (sys.caches.getD i default).associativity (sys.caches.getD i default).sets (sys.caches.getD i default).isBlocked (sys.caches.getD i default).blockedCycles ((sys.caches.getD i default).stats.incrementAccesses.incrementWrites)).getSetIndex address) (((sys.caches.getD i default).sets.getD ((Cache.mk (sys.caches.getD i default).coreId (sys.caches.getD i default).setIndexBits (sys.caches.getD i default).blockOffsetBits (sys.caches.getD i default).associativity (sys.caches.getD i default).sets (sys.caches.getD i default).isBlocked (sys.caches.getD i default).blockedCycles ((sys.caches.getD i default).stats.incrementAccesses.incrementWrites)).getSetIndex address) default).updateLRU li)).sets.getD (((Cache.mk (sys.caches.getD i default).coreId (sys.caches.getD i default).setIndexBits (sys.caches.getD i default).blockOffsetBits (sys.caches.getD i default).associativity (sys.caches.getD i default).sets (sys.caches.getD i default).isBlocked (sys.caches.getD i default).blockedCycles ((sys.caches.getD i default).stats.incrementAccesses.incrementWrites)).putSet ((Cache.mk (sys.caches.getD i default).coreId (sys.caches.getD i default).setIndexBits (sys.caches.getD i default).blockOffsetBits (sys.caches.getD i default).associativity (sys.caches.getD i default).sets (sys.caches.getD i default).isBlocked (sys.caches.getD i default).blockedCycles ((sys.caches.getD i default).stats.incrementAccesses.incrementWrites)).getSetIndex address) (((sys.caches.getD i default).sets.getD ((Cache.mk (sys.caches.getD i default).coreId (sys.caches.getD i default).setIndexBits (sys.caches.getD i default).blockOffsetBits (sys.caches.getD i default).associativity (sys.caches.getD i default).sets (sys.caches.getD i default).isBlocked (sys.caches.getD i default).blockedCycles ((sys.caches.getD i default).stats.incrementAccesses.incrementWrites)).getSetIndex address) default).updateLRU li)).getSetIndex address) default).findLine (((Cache.mk (sys.caches.getD i default).coreId (sys.caches.getD i default).setIndexBits (sys.caches.getD i default).blockOffsetBits (sys.caches.getD i default).associativity (sys.caches.getD i default).sets (sys.caches.getD i default).isBlocked (sys.caches.getD i default).blockedCycles ((sys.caches.getD i default).stats.incrementAccesses.incrementWrites)).putSet ((Cache.mk (sys.caches.getD i default).coreId (sys.caches.getD i default).setIndexBits (sys.caches.getD i default).blockOffsetBits (sys.caches.getD i default).associativity (sys.caches.getD i default).sets (sys.caches.getD i default).isBlocked (sys.caches.getD i default).blockedCycles ((sys.caches.getD i default).stats.incrementAccesses.incrementWrites)).getSetIndex address) (((sys.caches.getD i default).sets.getD ((Cache.mk (sys.caches.getD i default).coreId (sys.caches.getD i default).setIndexBits (sys.caches.getD i default).blockOffsetBits (sys.caches.getD i default).associativity (sys.caches.getD i default).sets (sys.caches.getD i default).isBlocked (sys.caches.getD i default).blockedCycles ((sys.caches.getD i default).stats.incrementAccesses.incrementWrites)).getSetIndex address) default).updateLRU li)).getTag address) = some li)
    (hse : ((((Cache.mk (sys.caches.getD i default).coreId (sys.caches.getD i default).setIndexBits (sys.caches.getD i default).blockOffsetBits (sys.caches.getD i default).associativity (sys.caches.getD i default).sets (sys.caches.getD i default).isBlocked (sys.caches.getD i default).blockedCycles ((sys.caches.getD i default).stats.incrementAccesses.incrementWrites)).putSet ((Cache.mk (sys.caches.getD i default).coreId (sys.caches.getD i default).setIndexBits (sys.caches.getD i default).blockOffsetBits (sys.caches.getD i default).associativity (sys.caches.getD i default).sets (sys.caches.getD i default).isBlocked (sys.caches.getD i default).blockedCycles ((sys.caches.getD i default).stats.incrementAccesses.incrementWrites)).getSetIndex address) (((sys.caches.getD i default).sets.getD ((Cache.mk (sys.caches.getD i default).coreId (sys.caches.getD i default).setIndexBits (sys.caches.getD i default).blockOffsetBits (sys.caches.getD i default).associativity (sys.caches.getD i default).sets (sys.caches.getD i default).isBlocked (sys.caches.getD i default).blockedCycles ((sys.caches.getD i default).stats.incrementAccesses.incrementWrites)).getSetIndex address) default).updateLRU li)).sets.getD (((Cache.mk (sys.caches.getD i default).coreId (sys.caches.getD i default).setIndexBits (sys.caches.getD i default).blockOffsetBits (sys.caches.getD i default).associativity (sys.caches.getD i default).sets (sys.caches.getD i default).isBlocked (sys.caches.getD i default).blockedCycles ((sys.caches.getD i default).stats.incrementAccesses.incrementWrites)).putSet ((Cache.mk (sys.caches.getD i default).coreId (sys.caches.getD i default).setIndexBits (sys.caches.getD i default).blockOffsetBits (sys.caches.getD i default).associativity (sys.caches.getD i default).sets (sys.caches.getD i default).isBlocked (sys.caches.getD i default).blockedCycles ((sys.caches.getD i default).stats.incrementAccesses.incrementWrites)).getSetIndex address) (((sys.caches.getD i default).sets.getD ((Cache.mk (sys.caches.getD i default).coreId (sys.caches.getD i default).setIndexBits (sys.caches.getD i default).blockOffsetBits (sys.caches.getD i default).associativity (sys.caches.getD i default).sets (sys.caches.getD i default).isBlocked (sys.caches.getD i default).blockedCycles ((sys.caches.getD i default).stats.incrementAccesses.incrementWrites)).getSetIndex address) default).updateLRU li)).getSetIndex address) default).getLine li).state = CacheState.EXCLUSIVE) :
    cacheWrite sys i address cycles
      = ⟨Sys.mk (sys.caches.set i (((Cache.mk (sys.caches.getD i default).coreId (sys.caches.getD i default).setIndexBits (sys.caches.getD i default).blockOffsetBits (sys.caches.getD i default).associativity (sys.caches.getD i default).sets (sys.caches.getD i default).isBlocked (sys.caches.getD i default).blockedCycles ((sys.caches.getD i default).stats.incrementAccesses.incrementWrites)).putSet ((Cache.mk (sys.caches.getD i default).coreId (sys.caches.getD i default).setIndexBits (sys.caches.getD i default).blockOffsetBits (sys.caches.getD i default).associativity (sys.caches.getD i default).sets (sys.caches.getD i default).isBlocked (sys.caches.getD i default).blockedCycles ((sys.caches.getD i default).stats.incrementAccesses.incrementWrites)).getSetIndex address) (((sys.caches.getD i default).sets.getD ((Cache.mk (sys.caches.getD i default).coreId (sys.caches.getD i default).setIndexBits (sys.caches.getD i default).blockOffsetBits (sys.caches.getD i default).associativity (sys.caches.getD i default).sets (sys.caches.getD i default).isBlocked (sys.caches.getD i default).blockedCycles ((sys.caches.getD i default).stats.incrementAccesses.incrementWrites)).getSetIndex address) default).updateLRU li)).putSet (((Cache.mk (sys.caches.getD i default).coreId (sys.caches.getD i default).setIndexBits (sys.caches.getD i default).blockOffsetBits (sys.caches.getD i default).associativity (sys.caches.getD i default).sets (sys.caches.getD i default).isBlocked (sys.caches.getD i default).blockedCycles ((sys.caches.getD i default).stats.incrementAccesses.incrementWrites)).putSet ((Cache.mk (sys.caches.getD i default).coreId (sys.caches.getD i default).setIndexBits (sys.caches.getD i default).blockOffsetBits (sys.caches.getD i default).associativity (sys.caches.getD i default).sets (sys.caches.getD i default).isBlocked (sys.caches.getD i default).blockedCycles ((sys.caches.getD i default).stats.incrementAccesses.incrementWrites)).getSetIndex address) (((sys.caches.getD i default).sets.getD ((Cache.mk (sys.caches.getD i default).coreId (sys.caches.getD i default).setIndexBits (sys.caches.getD i default).blockOffsetBits (sys.caches.getD i default).associativity (sys.caches.getD i default).sets (sys.caches.getD i default).isBlocked (sys.caches.getD i default).blockedCycles ((sys.caches.getD i default).stats.incrementAccesses.incrementWrites)).getSetIndex address) default).updateLRU li)).getSetIndex address) ((((Cache.mk (sys.caches.getD i default).coreId (sys.caches.getD i default).setIndexBits (sys.caches.getD i default).blockOffsetBits (sys.caches.getD i default).associativity (sys.caches.getD i default).sets (sys.caches.getD i default).isBlocked (sys.caches.getD i default).blockedCycles ((sys.caches.getD i default).stats.incrementAccesses.incrementWrites)).putSet ((Cache.mk (sys.caches.getD i default).coreId (sys.caches.getD i default).setIndexBits (sys.caches.getD i default).blockOffsetBits (sys.caches.getD i default).associativity (sys.caches.getD i default).sets (sys.caches.getD i default).isBlocked (sys.caches.getD i default).blockedCycles ((sys.caches.getD i default).stats.incrementAccesses.incrementWrites)).getSetIndex address) (((sys.caches.getD i default).sets.getD ((Cache.mk (sys.caches.getD i default).coreId (sys.caches.getD i default).setIndexBits (sys.caches.getD i default).blockOffsetBits (sys.caches.getD i default).associativity (sys.caches.getD i default).sets (sys.caches.getD i default).isBlocked (sys.caches.getD i default).blockedCycles ((sys.caches.getD i default).stats.incrementAccesses.incrementWrites)).getSetIndex address) default).updateLRU li)).sets.getD (((Cache.mk (sys.caches.getD i default).coreId (sys.caches.getD i default).setIndexBits (sys.caches.getD i default).blockOffsetBits (sys.caches.getD i default).associativity (sys.caches.getD i default).sets (sys.caches.getD i default).isBlocked (sys.caches.getD i default).blockedCycles ((sys.caches.getD i default).stats.incrementAccesses.incrementWrites)).putSet ((Cache.mk (sys.caches.getD i default).coreId (sys.caches.getD i default).setIndexBits (sys.caches.getD i default).blockOffsetBits (sys.caches.getD i default).associativity (sys.caches.getD i default).sets (sys.caches.getD i default).isBlocked (sys.caches.getD i default).blockedCycles ((sys.caches.getD i default).stats.incrementAccesses.incrementWrites)).getSetIndex address) (((sys.caches.getD i default).sets.getD ((Cache.mk (sys.caches.getD i default).coreId (sys.caches.getD i default).setIndexBits (sys.caches.getD i default).blockOffsetBits (sys.caches.getD i default).associativity (sys.caches.getD i default).sets (sys.caches.getD i default).isBlocked (sys.caches.getD i default).blockedCycles ((sys.caches.getD i default).stats.incrementAccesses.incrementWrites)).getSetIndex address) default).updateLRU li)).getSetIndex address) default).setLineState li CacheState.MODIFIED))) sys.bus, true, cycles⟩ := by
  have hl := lookupAndUpdate_hit (Cache.mk (sys.caches.getD i default).coreId (sys.caches.getD i default).setIndexBits (sys.caches.getD i default).blockOffsetBits (sys.caches.getD i default).associativity (sys.caches.getD i default).sets (sys.caches.getD i default).isBlocked (sys.caches.getD i default).blockedCycles ((sys.caches.getD i default).stats.incrementAccesses.incrementWrites)) address li hf
  simp only [cacheWrite]
  rw [if_neg (show ¬ ((sys.caches.getD i default).isBlocked = true) by rw [hbl]; exact Bool.false_ne_true)]
  simp only [hl, eq_self_iff_true, if_true]
  simp only [hf2]
  rw [if_pos (show ((((Cache.mk (sys.caches.getD i default).coreId (sys.caches.getD i default).setIndexBits (sys.caches.getD i default).blockOffsetBits (sys.caches.getD i default).associativity (sys.caches.getD i default).sets (sys.caches.getD i default).isBlocked (sys.caches.getD i default).blockedCycles ((sys.caches.getD i default).stats.incrementAccesses.incrementWrites)).putSet ((Cache.mk (sys.caches.getD i default).coreId (sys.caches.getD i default).setIndexBits (sys.caches.getD i default).blockOffsetBits (sys.caches.getD i default).associativity (sys.caches.getD i default).sets (sys.caches.getD i default).isBlocked (sys.caches.getD i default).blockedCycles ((sys.caches.getD i default).stats.incrementAccesses.incrementWrites)).getSetIndex address) (((sys.caches.getD i default).sets.getD ((Cache.mk (sys.caches.getD i default).coreId (sys.caches.getD i default).setIndexBits (sys.caches.getD i default).blockOffsetBits (sys.caches.getD i default).associativity (sys.caches.getD i default).sets (sys.caches.getD i default).isBlocked (sys.caches.getD i default).blockedCycles ((sys.caches.getD i default).stats.incrementAccesses.incrementWrites)).getSetIndex address) default).updateLRU li)).sets.getD (((Cache.mk (sys.caches.getD i default).coreId (sys.caches.getD i default).setIndexBits (sys.caches.getD i default).blockOffsetBits (sys.caches.getD i default).associativity (sys.caches.getD i default).sets (sys.caches.getD i default).isBlocked (sys.caches.getD i default).blockedCycles ((sys.caches.getD i default).stats.incrementAccesses.incrementWrites)).putSet ((Cache.mk (sys.caches.getD i default).coreId (sys.caches.getD i default).setIndexBits (sys.caches.getD i default).blockOffsetBits (sys.caches.getD i default).associativity (sys.caches.getD i default).sets (sys.caches.getD i default).isBlocked (sys.caches.getD i default).blockedCycles ((sys.caches.getD i default).stats.incrementAccesses.incrementWrites)).getSetIndex address) (((sys.caches.getD i default).sets.getD ((Cache.mk (sys.caches.getD i default).coreId (sys.caches.getD i default).setIndexBits (sys.caches.getD i default).blockOffsetBits (sys.caches.getD i default).associativity (sys.caches.getD i default).sets (sys.caches.getD i default).isBlocked (sys.caches.getD i default).blockedCycles ((sys.caches.getD i default).stats.incrementAccesses.incrementWrites)).getSetIndex address) default).updateLRU li)).getSetIndex address) default).getLine li).state = CacheState.SHARED ∨ ((((Cache.mk (sys.caches.getD i default).coreId (sys.caches.getD i default).setIndexBits (sys.caches.getD i default).blockOffsetBits (sys.caches.getD i default).associativity (sys.caches.getD i default).sets (sys.caches.getD i default).isBlocked (sys.caches.getD i default).blockedCycles ((sys.caches.getD i default).stats.incrementAccesses.incrementWrites)).putSet ((Cache.mk (sys.caches.getD i default).coreId (sys.caches.getD i default).setIndexBits (sys.caches.getD i default).blockOffsetBits (sys.caches.getD i default).associativity (sys.caches.getD i default).sets (sys.caches.getD i default).isBlocked (sys.caches.getD i default).blockedCycles ((sys.caches.getD i default).stats.incrementAccesses.incrementWrites)).getSetIndex address) (((sys.caches.getD i default).sets.getD ((Cache.mk (sys.caches.getD i default).coreId (sys.caches.getD i default).setIndexBits (sys.caches.getD i default).blockOffsetBits (sys.caches.getD i default).associativity (sys.caches.getD i default).sets (sys.caches.getD i default).isBlocked (sys.caches.getD i default).blockedCycles ((sys.caches.getD i default).stats.incrementAccesses.incrementWrites)).getSetIndex address) default).updateLRU li)).sets.getD (((Cache.mk (sys.caches.getD i default).coreId (sys.caches.getD i default).setIndexBits (sys.caches.getD i default).blockOffsetBits (sys.caches.getD i default).associativity (sys.caches.getD i default).sets (sys.caches.getD i default).isBlocked (sys.caches.getD i default).blockedCycles ((sys.caches.getD i default).stats.incrementAccesses.incrementWrites)).putSet ((Cache.mk (sys.caches.getD i default).coreId (sys.caches.getD i default).setIndexBits (sys.caches.getD i default).blockOffsetBits (sys.caches.getD i default).associativity (sys.caches.getD i default).sets (sys.caches.getD i default).isBlocked (sys.caches.getD i default).blockedCycles ((sys.caches.getD i default).stats.incrementAccesses.incrementWrites)).getSetIndex address) (((sys.caches.getD i default).sets.getD ((Cache.mk (sys.caches.getD i default).coreId (sys.caches.getD i default).setIndexBits (sys.caches.getD i default).blockOffsetBits (sys.caches.getD i default).associativity (sys.caches.getD i default).sets (sys.caches.getD i default).isBlocked (sys.caches.getD i default).blockedCycles ((sys.caches.getD i default).stats.incrementAccesses.incrementWrites)).getSetIndex address) default).updateLRU li)).getSetIndex address) default).getLine li).state = CacheState.EXCLUSIVE
    from Or.inr hse)]
  rw [if_neg (show ¬ (((((Cache.mk (sys.caches.getD i default).coreId (sys.caches.getD i default).setIndexBits (sys.caches.getD i default).blockOffsetBits (sys.caches.getD i default).associativity (sys.caches.getD i default).sets (sys.caches.getD i default).isBlocked (sys.caches.getD i default).blockedCycles ((sys.caches.getD i default).stats.incrementAccesses.incrementWrites)).putSet ((Cache.mk (sys.caches.getD i default).coreId (sys.caches.getD i default).setIndexBits (sys.caches.getD i default).blockOffsetBits (sys.caches.getD i default).associativity (sys.caches.getD i default).sets (sys.caches.getD i default).isBlocked (sys.caches.getD i default).blockedCycles ((sys.caches.getD i default).stats.incrementAccesses.incrementWrites)).getSetIndex address) (((sys.caches.getD i default).sets.getD ((Cache.mk (sys.caches.getD i default).coreId (sys.caches.getD i default).setIndexBits (sys.caches.getD i default).blockOffsetBits (sys.caches.getD i default).associativity (sys.caches.getD i default).sets (sys.caches.getD i default).isBlocked (sys.caches.getD i default).blockedCycles ((sys.caches.getD i default).stats.incrementAccesses.incrementWrites)).getSetIndex address) default).updateLRU li)).sets.getD (((Cache.mk (sys.caches.getD i default).coreId (sys.caches.getD i default).setIndexBits (sys.caches.getD i default).blockOffsetBits (sys.caches.getD i default).associativity (sys.caches.getD i default).sets (sys.caches.getD i default).isBlocked (sys.caches.getD i default).blockedCycles ((sys.caches.getD i default).stats.incrementAccesses.incrementWrites)).putSet ((Cache.mk (sys.caches.getD i default).coreId (sys.caches.getD i default).setIndexBits (sys.caches.getD i default).blockOffsetBits (sys.caches.getD i default).associativity (sys.caches.getD i default).sets (sys.caches.getD i default).isBlocked (sys.caches.getD i default).blockedCycles ((sys.caches.getD i default).stats.incrementAccesses.incrementWrites)).getSetIndex address) (((sys.caches.getD i default).sets.getD ((Cache.mk (sys.caches.getD i default).coreId (sys.caches.getD i default).setIndexBits (sys.caches.getD i default).blockOffsetBits (sys.caches.getD i default).associativity (sys.caches.getD i default).sets (sys.caches.getD i default).isBlocked (sys.caches.getD i default).blockedCycles ((sys.caches.getD i default).stats.incrementAccesses.incrementWrites)).getSetIndex address) default).updateLRU li)).getSetIndex address) default).getLine li).state = CacheState.SHARED) by rw [hse]; exact fun h => CacheState.noConfusion h)]

theorem cacheWrite_eq_hit_other (sys : Sys) (i address : Nat) (cycles : Int) (li : Nat)
    (hbl : (sys.caches.getD i default).isBlocked = false)
    (hf : ((sys.caches.getD i default).sets.getD ((sys.caches.getD i default).getSetIndex address) default).findLine
      ((sys.caches.getD i default).getTag address) = some li)
    (hf2 : (((Cache.mk (sys.caches.getD i default).coreId (sys.caches.getD i default).setIndexBits (sys.caches.getD i default).blockOffsetBits (sys.caches.getD i default).associativity (sys.caches.getD i default).sets (sys.caches.getD i default).isBlocked (sys.caches.getD i default).blockedCycles ((sys.caches.getD i default).stats.incrementAccesses.incrementWrites)).putSet ((Cache.mk (sys.caches.getD i default).coreId (sys.caches.getD i default).setIndexBits (sys.caches.getD i default).blockOffsetBits (sys.caches.getD i default).associativity (sys.caches.getD i default).sets (sys.caches.getD i default).isBlocked (sys.caches.getD i default).blockedCycles ((sys.caches.getD i default).stats.incrementAccesses.incrementWrites)).getSetIndex address) (((sys.caches.getD i default).sets.getD ((Cache.mk (sys.caches.getD i default).coreId (sys.caches.getD i default).setIndexBits (sys.caches.getD i default).blockOffsetBits (sys.caches.getD i default).associativity (sys.caches.getD i default).sets (sys.caches.getD i default).isBlocked (sys.caches.getD i default).blockedCycles ((sys.caches.getD i default).stats.incrementAccesses.incrementWrites)).getSetIndex address) default).updateLRU li)).sets.getD (((Cache.mk (sys.caches.getD i default).coreId (sys.caches.getD i default).setIndexBits (sys.caches.getD i default).blockOffsetBits (sys.caches.getD i default).associativity (sys.caches.getD i default).sets (sys.caches.getD i default).isBlocked (sys.caches.getD i default).blockedCycles ((sys.caches.getD i default).stats.incrementAccesses.incrementWrites)).putSet ((Cache.mk (sys.caches.getD i default).coreId (sys.caches.getD i default).setIndexBits (sys.caches.getD i default).blockOffsetBits (sys.caches.getD i default).associativity (sys.caches.getD i default).sets (sys.caches.getD i default).isBlocked (sys.caches.getD i default).blockedCycles ((sys.caches.getD i default).stats.incrementAccesses.incrementWrites)).getSetIndex address) (((sys.caches.getD i default).sets.getD ((Cache.mk (sys.caches.getD i default).coreId (sys.caches.getD i default).setIndexBits (sys.caches.getD i default).blockOffsetBits (sys.caches.getD i default).associativity (sys.caches.getD i default).sets (sys.caches.getD i default).isBlocked (sys.caches.getD i default).blockedCycles ((sys.caches.getD i default).stats.incrementAccesses.incrementWrites)).getSetIndex address) default).updateLRU li)).getSetIndex address) default).findLine (((Cache.mk (sys.caches.getD i default).coreId (sys.caches.getD i default).setIndexBits (sys.caches.getD i default).blockOffsetBits (sys.caches.getD i default).associativity (sys.caches.getD i default).sets (sys.caches.getD i default).isBlocked (sys.caches.getD i default).blockedCycles ((sys.caches.getD i default).stats.incrementAccesses.incrementWrites)).putSet ((Cache.mk (sys.caches.getD i default).coreId (sys.caches.getD i default).setIndexBits (sys.caches.getD i default).blockOffsetBits (sys.caches.getD i default).associativity (sys.caches.getD i default).sets (sys.caches.getD i default).isBlocked (sys.caches.getD i default).blockedCycles ((sys.caches.getD i default).stats.incrementAccesses.incrementWrites)).getSetIndex address) (((sys.caches.getD i default).sets.getD ((Cache.mk (sys.caches.getD i default).coreId (sys.caches.getD i default).setIndexBits (sys.caches.getD i default).blockOffsetBits (sys.caches.getD i default).associativity (sys.caches.getD i default).sets (sys.caches.getD i default).isBlocked (sys.caches.getD i default).blockedCycles ((sys.caches.getD i default).stats.incrementAccesses.incrementWrites)).getSetIndex address) default).updateLRU li)).getTag address) = some li)
    (hns : ¬ (((((Cache.mk (sys.caches.getD i default).coreId (sys.caches.getD i default).setIndexBits (sys.caches.getD i default).blockOffsetBits (sys.caches.getD i default).associativity (sys.caches.getD i default).sets (sys.caches.getD i default).isBlocked (sys.caches.getD i default).blockedCycles ((sys.caches.getD i default).stats.incrementAccesses.incrementWrites)).putSet ((Cache.mk (sys.caches.getD i default).coreId (sys.caches.getD i default).setIndexBits (sys.caches.getD i default).blockOffsetBits (sys.caches.getD i default).associativity (sys.caches.getD i default).sets (sys.caches.getD i default).isBlocked (sys.caches.getD i default).blockedCycles ((sys.caches.getD i default).stats.incrementAccesses.incrementWrites)).getSetIndex address) (((sys.caches.getD i default).sets.getD ((Cache.mk (sys.caches.getD i default).coreId (sys.caches.getD i default).setIndexBits (sys.caches.getD i default).blockOffsetBits (sys.caches.getD i default).associativity (sys.caches.getD i default).sets (sys.caches.getD i default).isBlocked (sys.caches.getD i default).blockedCycles ((sys.caches.getD i default).stats.incrementAccesses.incrementWrites)).getSetIndex address) default).updateLRU li)).sets.getD (((Cache.mk (sys.caches.getD i default).coreId (sys.caches.getD i default).setIndexBits (sys.caches.getD i default).blockOffsetBits (sys.caches.getD i default).associativity (sys.caches.getD i default).sets (sys.caches.getD i default).isBlocked (sys.caches.getD i default).blockedCycles ((sys.caches.getD i default).stats.incrementAccesses.incrementWrites)).putSet ((Cache.mk (sys.caches.getD i default).coreId (sys.caches.getD i default).setIndexBits (sys.caches.getD i default).blockOffsetBits (sys.caches.getD i default).associativity (sys.caches.getD i default).sets (sys.caches.getD i default).isBlocked (sys.caches.getD i default).blockedCycles ((sys.caches.getD i default).stats.incrementAccesses.incrementWrites)).getSetIndex address) (((sys.caches.getD i default).sets.getD ((Cache.mk (sys.caches.getD i default).coreId (sys.caches.getD i default).setIndexBits (sys.caches.getD i default).blockOffsetBits (sys.caches.getD i default).associativity (sys.caches.getD i default).sets (sys.caches.getD i default).isBlocked (sys.caches.getD i default).blockedCycles ((sys.caches.getD i default).stats.incrementAccesses.incrementWrites)).getSetIndex address) default).updateLRU li)).getSetIndex address) default).getLine li).state = CacheState.SHARED ∨ ((((Cache.mk (sys.caches.getD i default).coreId (sys.caches.getD i default).setIndexBits (sys.caches.getD i default).blockOffsetBits (sys.caches.getD i default).associativity (sys.caches.getD i default).sets (sys.caches.getD i default).isBlocked (sys.caches.getD i default).blockedCycles ((sys.caches.getD i default).stats.incrementAccesses.incrementWrites)).putSet ((Cache.mk (sys.caches.getD i default).coreId (sys.caches.getD i default).setIndexBits (sys.caches.getD i default).blockOffsetBits (sys.caches.getD i default).associativity (sys.caches.getD i default).sets (sys.caches.getD i default).isBlocked (sys.caches.getD i default).blockedCycles ((sys.caches.getD i default).stats.incrementAccesses.incrementWrites)).getSetIndex address) (((sys.caches.getD i default).sets.getD ((Cache.mk (sys.caches.getD i default).coreId (sys.caches.getD i default).setIndexBits (sys.caches.getD i default).blockOffsetBits (sys.caches.getD i default).associativity (sys.caches.getD i default).sets (sys.caches.getD i default).isBlocked (sys.caches.getD i default).blockedCycles ((sys.caches.getD i default).stats.incrementAccesses.incrementWrites)).getSetIndex address) default).updateLRU li)).sets.getD (((Cache.mk (sys.caches.getD i default).coreId (sys.caches.getD i default).setIndexBits (sys.caches.getD i default).blockOffsetBits (sys.caches.getD i default).associativity (sys.caches.getD i default).sets (sys.caches.getD i default).isBlocked (sys.caches.getD i default).blockedCycles ((sys.caches.getD i default).stats.incrementAccesses.incrementWrites)).putSet ((Cache.mk (sys.caches.getD i default).coreId (sys.caches.getD i default).setIndexBits (sys.caches.getD i default).blockOffsetBits (sys.caches.getD i default).associativity (sys.caches.getD i default).sets (sys.caches.getD i default).isBlocked (sys.caches.getD i default).blockedCycles ((sys.caches.getD i default).stats.incrementAccesses.incrementWrites)).getSetIndex address) (((sys.caches.getD i default).sets.getD ((Cache.mk (sys.caches.getD i default).coreId (sys.caches.getD i default).setIndexBits (sys.caches.getD i default).blockOffsetBits (sys.caches.getD i default).associativity (sys.caches.getD i default).sets (sys.caches.getD i default).isBlocked (sys.caches.getD i default).blockedCycles ((sys.caches.getD i default).stats.incrementAccesses.incrementWrites)).getSetIndex address) default).updateLRU li)).getSetIndex address) default).getLine li).state = CacheState.EXCLUSIVE)) :
    cacheWrite sys i address cycles
      = ⟨Sys.mk (sys.caches.set i ((Cache.mk (sys.caches.getD i default).coreId (sys.caches.getD i default).setIndexBits (sys.caches.getD i default).blockOffsetBits (sys.caches.getD i default).associativity (sys.caches.getD i default).sets (sys.caches.getD i default).isBlocked (sys.caches.getD i default).blockedCycles ((sys.caches.getD i default).stats.incrementAccesses.incrementWrites)).putSet ((Cache.mk (sys.caches.getD i default).coreId (sys.caches.getD i default).setIndexBits (sys.caches.getD i default).blockOffsetBits (sys.caches.getD i default).associativity (sys.caches.getD i default).sets (sys.caches.getD i default).isBlocked (sys.caches.getD i default).blockedCycles ((sys.caches.getD i default).stats.incrementAccesses.incrementWrites)).getSetIndex address) (((sys.caches.getD i default).sets.getD ((Cache.mk (sys.caches.getD i default).coreId (sys.caches.getD i default).setIndexBits (sys.caches.getD i default).blockOffsetBits (sys.caches.getD i default).associativity (sys.caches.getD i default).sets (sys.caches.getD i default).isBlocked (sys.caches.getD i default).blockedCycles ((sys.caches.getD i default).stats.incrementAccesses.incrementWrites)).getSetIndex address) default).updateLRU li))) sys.bus, true, cycles⟩ := by
  have hl := lookupAndUpdate_hit (Cache.mk (sys.caches.getD i default).coreId (sys.caches.getD i default).setIndexBits (sys.caches.getD i default).blockOffsetBits (sys.caches.getD i default).associativity (sys.caches.getD i default).sets (sys.caches.getD i default).isBlocked (sys.caches.getD i default).blockedCycles ((sys.caches.getD i default).stats.incrementAccesses.incrementWrites)) address li hf
  simp only [cacheWrite]
  rw [if_neg (show ¬ ((sys.caches.getD i default).isBlocked = true) by rw [hbl]; exact Bool.false_ne_true)]
  simp only [hl, eq_self_iff_true, if_true]
  simp only [hf2]
  rw [if_neg hns]

theorem cacheRead_preserves_Inv (n sb assoc bob : Nat) (sys : Sys)
    (hinv : Inv n sb assoc bob sys) (hassoc : 0 < assoc)
    (i : Nat) (hi : i < n) (address : Nat) (cycles : Int) :
    Inv n sb assoc bob (cacheRead sys i address cycles).sys := by
  obtain ⟨⟨hlen, hwf, hbusy, hpend⟩, hmesi⟩ := hinv
  have hcwf := hwf i hi
  have hcore : (sys.caches.getD i default).coreId = i := hcwf.1
  have hslen : (sys.caches.getD i default).sets.length = 2 ^ sb := hcwf.2.2.2.2.1
  have hSI := cacheWF_getSetIndex sb bob assoc i _ hcwf address
  have hTA := cacheWF_getTag sb bob assoc i _ hcwf address
  have haddrSI : (addrSetIdx sb bob address) < 2 ^ sb := by
    unfold addrSetIdx
    exact Nat.mod_lt _ (Nat.pos_pow_of_pos _ (by omega))
  cases hbl : (sys.caches.getD i default).isBlocked with
  | true =>
    rw [cacheRead_eq_blocked sys i address cycles hbl]
    exact ⟨⟨hlen, hwf, hbusy, hpend⟩, hmesi⟩
  | false =>
    cases hfl : ((sys.caches.getD i default).sets.getD ((sys.caches.getD i default).getSetIndex address) default).findLine
        ((sys.caches.getD i default).getTag address) with
    | some li =>
      rw [cacheRead_eq_hit sys i address cycles li hbl hfl]
      have hgI : (sys.caches.set i ((Cache.mk (sys.caches.getD i default).coreId (sys.caches.getD i default).setIndexBits (sys.caches.getD i default).blockOffsetBits (sys.caches.getD i default).associativity (sys.caches.getD i default).sets (sys.caches.getD i default).isBlocked (sys.caches.getD i default).blockedCycles ((sys.caches.getD i default).stats.incrementAccesses.incrementReads)).putSet ((Cache.mk (sys.caches.getD i default).coreId (sys.caches.getD i default).setIndexBits (sys.caches.getD i default).blockOffsetBits (sys.caches.getD i default).associativity (sys.caches.getD i default).sets (sys.caches.getD i default).isBlocked (sys.caches.getD i default).blockedCycles ((sys.caches.getD i default).stats.incrementAccesses.incrementReads)).getSetIndex address) (((sys.caches.getD i default).sets.getD ((Cache.mk (sys.caches.getD i default).coreId (sys.caches.getD i default).setIndexBits (sys.caches.getD i default).blockOffsetBits (sys.caches.getD i default).associativity (sys.caches.getD i default).sets (sys.caches.getD i default).isBlocked (sys.caches.getD i default).blockedCycles ((sys.caches.getD i default).stats.incrementAccesses.incrementReads)).getSetIndex address) default).updateLRU li))).getD i default = ((Cache.mk (sys.caches.getD i default).coreId (sys.caches.getD i default).setIndexBits (sys.caches.getD i default).blockOffsetBits (sys.caches.getD i default).associativity (sys.caches.getD i default).sets (sys.caches.getD i default).isBlocked (sys.caches.getD i default).blockedCycles ((sys.caches.getD i default).stats.incrementAccesses.incrementReads)).putSet ((Cache.mk (sys.caches.getD i default).coreId (sys.caches.getD i default).setIndexBits (sys.caches.getD i default).blockOffsetBits (sys.caches.getD i default).associativity (sys.caches.getD i default).sets (sys.caches.getD i default).isBlocked (sys.caches.getD i default).blockedCycles ((sys.caches.getD i default).stats.incrementAccesses.incrementReads)).getSetIndex address) (((sys.caches.getD i default).sets.getD ((Cache.mk (sys.caches.getD i default).coreId (sys.caches.getD i default).setIndexBits (sys.caches.getD i default).blockOffsetBits (sys.caches.getD i default).associativity (sys.caches.getD i default).sets (sys.caches.getD i default).isBlocked (sys.caches.getD i default).blockedCycles ((sys.caches.getD i default).stats.incrementAccesses.incrementReads)).getSetIndex address) default).updateLRU li)) :=
        getD_set_self _ _ _ _ (by rw [hlen]; exact hi)
      have hgJ : ∀ j, j ≠ i →
          (sys.caches.set i ((Cache.mk (sys.caches.getD i default).coreId (sys.caches.getD i default).setIndexBits (sys.caches.getD i default).blockOffsetBits (sys.caches.getD i default).associativity (sys.caches.getD i default).sets (sys.caches.getD i default).isBlocked (sys.caches.getD i default).blockedCycles ((sys.caches.getD i default).stats.incrementAccesses.incrementReads)).putSet ((Cache.mk (sys.caches.getD i default).coreId (sys.caches.getD i default).setIndexBits (sys.caches.getD i default).blockOffsetBits (sys.caches.getD i default).associativity (sys.caches.getD i default).sets (sys.caches.getD i default).isBlocked (sys.caches.getD i default).blockedCycles ((sys.caches.getD i default).stats.incrementAccesses.incrementReads)).getSetIndex address) (((sys.caches.getD i default).sets.getD ((Cache.mk (sys.caches.getD i default).coreId (sys.caches.getD i default).setIndexBits (sys.caches.getD i default).blockOffsetBits (sys.caches.getD i default).associativity (sys.caches.getD i default).sets (sys.caches.getD i default).isBlocked (sys.caches.getD i default).blockedCycles ((sys.caches.getD i default).stats.incrementAccesses.incrementReads)).getSetIndex address) default).updateLRU li))).getD j default = sys.caches.getD j default :=
        fun j hj => getD_set_ne _ _ _ _ _ (fun h => hj h.symm)
      have hSIc : ((Cache.mk (sys.caches.getD i default).coreId (sys.caches.getD i default).setIndexBits (sys.caches.getD i default).blockOffsetBits (sys.caches.getD i default).associativity (sys.caches.getD i default).sets (sys.caches.getD i default).isBlocked (sys.caches.getD i default).blockedCycles ((sys.caches.getD i default).stats.incrementAccesses.incrementReads)) : Cache).getSetIndex address = (addrSetIdx sb bob address) := hSI
      have hSIlt : ((Cache.mk (sys.caches.getD i default).coreId (sys.caches.getD i default).setIndexBits (sys.caches.getD i default).blockOffsetBits (sys.caches.getD i default).associativity (sys.caches.getD i default).sets (sys.caches.getD i default).isBlocked (sys.caches.getD i default).blockedCycles ((sys.caches.getD i default).stats.incrementAccesses.incrementReads)) : Cache).getSetIndex address < (sys.caches.getD i default).sets.length := by
        rw [hSIc, hslen]
        exact haddrSI
      have hst : ∀ si tv, (((Cache.mk (sys.caches.getD i default).coreId (sys.caches.getD i default).setIndexBits (sys.caches.getD i default).blockOffsetBits (sys.caches.getD i default).associativity (sys.caches.getD i default).sets (sys.caches.getD i default).isBlocked (sys.caches.getD i default).blockedCycles ((sys.caches.getD i default).stats.incrementAccesses.incrementReads)).putSet ((Cache.mk (sys.caches.getD i default).coreId (sys.caches.getD i default).setIndexBits (sys.caches.getD i default).blockOffsetBits (sys.caches.getD i default).associativity (sys.caches.getD i default).sets (sys.caches.getD i default).isBlocked (sys.caches.getD i default).blockedCycles ((sys.caches.getD i default).stats.incrementAccesses.incrementReads)).getSetIndex address) (((sys.caches.getD i default).sets.getD ((Cache.mk (sys.caches.getD i default).coreId (sys.caches.getD i default).setIndexBits (sys.caches.getD i default).blockOffsetBits (sys.caches.getD i default).associativity (sys.caches.getD i default).sets (sys.caches.getD i default).isBlocked (sys.caches.getD i default).blockedCycles ((sys.caches.getD i default).stats.incrementAccesses.incrementReads)).getSetIndex address) default).updateLRU li)) : Cache).stateAt si tv = (sys.caches.getD i default).stateAt si tv := by
        intro si tv
        show (((sys.caches.getD i default).sets.set ((Cache.mk (sys.caches.getD i default).coreId (sys.caches.getD i default).setIndexBits (sys.caches.getD i default).blockOffsetBits (sys.caches.getD i default).associativity (sys.caches.getD i default).sets (sys.caches.getD i default).isBlocked (sys.caches.getD i default).blockedCycles ((sys.caches.getD i default).stats.incrementAccesses.incrementReads)).getSetIndex address) (((sys.caches.getD i default).sets.getD ((Cache.mk (sys.caches.getD i default).coreId (sys.caches.getD i default).setIndexBits (sys.caches.getD i default).blockOffsetBits (sys.caches.getD i default).associativity (sys.caches.getD i default).sets (sys.caches.getD i default).isBlocked (sys.caches.getD i default).blockedCycles ((sys.caches.getD i default).stats.incrementAccesses.incrementReads)).getSetIndex address) default).updateLRU li)).getD si default).stateOf tv
          = ((sys.caches.getD i default).sets.getD si default).stateOf tv
        by_cases hsi : si = ((Cache.mk (sys.caches.getD i default).coreId (sys.caches.getD i default).setIndexBits (sys.caches.getD i default).blockOffsetBits (sys.caches.getD i default).associativity (sys.caches.getD i default).sets (sys.caches.getD i default).isBlocked (sys.caches.getD i default).blockedCycles ((sys.caches.getD i default).stats.incrementAccesses.incrementReads)).getSetIndex address)
        · rw [hsi, getD_set_self _ _ _ _ hSIlt]
          exact updateLRU_stateOf _ _ _
        · rw [getD_set_ne _ _ _ _ _ (fun h => hsi h.symm)]
      have hwfC : CacheWF sb bob assoc i (((Cache.mk (sys.caches.getD i default).coreId (sys.caches.getD i default).setIndexBits (sys.caches.getD i default).blockOffsetBits (sys.caches.getD i default).associativity (sys.caches.getD i default).sets (sys.caches.getD i default).isBlocked (sys.caches.getD i default).blockedCycles ((sys.caches.getD i default).stats.incrementAccesses.incrementReads)).putSet ((Cache.mk (sys.caches.getD i default).coreId (sys.caches.getD i default).setIndexBits (sys.caches.getD i default).blockOffsetBits (sys.caches.getD i default).associativity (sys.caches.getD i default).sets (sys.caches.getD i default).isBlocked (sys.caches.getD i default).blockedCycles ((sys.caches.getD i default).stats.incrementAccesses.incrementReads)).getSetIndex address) (((sys.caches.getD i default).sets.getD ((Cache.mk (sys.caches.getD i default).coreId (sys.caches.getD i default).setIndexBits (sys.caches.getD i default).blockOffsetBits (sys.caches.getD i default).associativity (sys.caches.getD i default).sets (sys.caches.getD i default).isBlocked (sys.caches.getD i default).blockedCycles ((sys.caches.getD i default).stats.incrementAccesses.incrementReads)).getSetIndex address) default).updateLRU li)) : Cache) := by
        refine ⟨hcwf.1, hcwf.2.1, hcwf.2.2.1, hcwf.2.2.2.1, ?_, ?_⟩
        · show ((sys.caches.getD i default).sets.set ((Cache.mk (sys.caches.getD i default).coreId (sys.caches.getD i default).setIndexBits (sys.caches.getD i default).blockOffsetBits (sys.caches.getD i default).associativity (sys.caches.getD i default).sets (sys.caches.getD i default).isBlocked (sys.caches.getD i default).blockedCycles ((sys.caches.getD i default).stats.incrementAccesses.incrementReads)).getSetIndex address) (((sys.caches.getD i default).sets.getD ((Cache.mk (sys.caches.getD i default).coreId (sys.caches.getD i default).setIndexBits (sys.caches.getD i default).blockOffsetBits (sys.caches.getD i default).associativity (sys.caches.getD i default).sets (sys.caches.getD i default).isBlocked (sys.caches.getD i default).blockedCycles ((sys.caches.getD i default).stats.incrementAccesses.incrementReads)).getSetIndex address) default).updateLRU li)).length = 2 ^ sb
          rw [List.length_set]
          exact hslen
        · intro k hk
          show (((sys.caches.getD i default).sets.set ((Cache.mk (sys.caches.getD i default).coreId (sys.caches.getD i default).setIndexBits (sys.caches.getD i default).blockOffsetBits (sys.caches.getD i default).associativity (sys.caches.getD i default).sets (sys.caches.getD i default).isBlocked (sys.caches.getD i default).blockedCycles ((sys.caches.getD i default).stats.incrementAccesses.incrementReads)).getSetIndex address) (((sys.caches.getD i default).sets.getD ((Cache.mk (sys.caches.getD i default).coreId (sys.caches.getD i default).setIndexBits (sys.caches.getD i default).blockOffsetBits (sys.caches.getD i default).associativity (sys.caches.getD i default).sets (sys.caches.getD i default).isBlocked (sys.caches.getD i default).blockedCycles ((sys.caches.getD i default).stats.incrementAccesses.incrementReads)).getSetIndex address) default).updateLRU li)).getD k default).lines.length = assoc ∧
            (((sys.caches.getD i default).sets.set ((Cache.mk (sys.caches.getD i default).coreId (sys.caches.getD i default).setIndexBits (sys.caches.getD i default).blockOffsetBits (sys.caches.getD i default).associativity (sys.caches.getD i default).sets (sys.caches.getD i default).isBlocked (sys.caches.getD i default).blockedCycles ((sys.caches.getD i default).stats.incrementAccesses.incrementReads)).getSetIndex address) (((sys.caches.getD i default).sets.getD ((Cache.mk (sys.caches.getD i default).coreId (sys.caches.getD i default).setIndexBits (sys.caches.getD i default).blockOffsetBits (sys.caches.getD i default).associativity (sys.caches.getD i default).sets (sys.caches.getD i default).isBlocked (sys.caches.getD i default).blockedCycles ((sys.caches.getD i default).stats.incrementAccesses.incrementReads)).getSetIndex address) default).updateLRU li)).getD k default).lruCounter.length = assoc ∧
            (((sys.caches.getD i default).sets.set ((Cache.mk (sys.caches.getD i default).coreId (sys.caches.getD i default).setIndexBits (sys.caches.getD i default).blockOffsetBits (sys.caches.getD i default).associativity (sys.caches.getD i default).sets (sys.caches.getD i default).isBlocked (sys.caches.getD i default).blockedCycles ((sys.caches.getD i default).stats.incrementAccesses.incrementReads)).getSetIndex address) (((sys.caches.getD i default).sets.getD ((Cache.mk (sys.caches.getD i default).coreId (sys.caches.getD i default).setIndexBits (sys.caches.getD i default).blockOffsetBits (sys.caches.getD i default).associativity (sys.caches.getD i default).sets (sys.caches.getD i default).isBlocked (sys.caches.getD i default).blockedCycles ((sys.caches.getD i default).stats.incrementAccesses.incrementReads)).getSetIndex address) default).updateLRU li)).getD k default).tagUnique
          by_cases hki : k = ((Cache.mk (sys.caches.getD i default).coreId (sys.caches.getD i default).setIndexBits (sys.caches.getD i default).blockOffsetBits (sys.caches.getD i default).associativity (sys.caches.getD i default).sets (sys.caches.getD i default).isBlocked (sys.caches.getD i default).blockedCycles ((sys.caches.getD i default).stats.incrementAccesses.incrementReads)).getSetIndex address)
          · rw [hki, getD_set_self _ _ _ _ hSIlt]
            have horig := hcwf.2.2.2.2.2 (addrSetIdx sb bob address) haddrSI
            refine ⟨?_, ?_, ?_⟩
            · rw [updateLRU_lines]
              show ((sys.caches.getD i default).sets.getD ((sys.caches.getD i default).getSetIndex address) default).lines.length = assoc
              rw [hSI]
              exact horig.1
            · rw [updateLRU_lru_length]
              show ((sys.caches.getD i default).sets.getD ((sys.caches.getD i default).getSetIndex address) default).lruCounter.length = assoc
              rw [hSI]
              exact horig.2.1
            · show ((sys.caches.getD i default).sets.getD ((sys.caches.getD i default).getSetIndex address) default).tagUnique
              rw [hSI]
              exact horig.2.2
          · rw [getD_set_ne _ _ _ _ _ (fun h => hki h.symm)]
            exact hcwf.2.2.2.2.2 k hk
      refine ⟨⟨?_, ?_, hbusy, hpend⟩, ?_⟩
      · show (sys.caches.set i ((Cache.mk (sys.caches.getD i default).coreId (sys.caches.getD i default).setIndexBits (sys.caches.getD i default).blockOffsetBits (sys.caches.getD i default).associativity (sys.caches.getD i default).sets (sys.caches.getD i default).isBlocked (sys.caches.getD i default).blockedCycles ((sys.caches.getD i default).stats.incrementAccesses.incrementReads)).putSet ((Cache.mk (sys.caches.getD i default).coreId (sys.caches.getD i default).setIndexBits (sys.caches.getD i default).blockOffsetBits (sys.caches.getD i default).associativity (sys.caches.getD i default).sets (sys.caches.getD i default).isBlocked (sys.caches.getD i default).blockedCycles ((sys.caches.getD i default).stats.incrementAccesses.incrementReads)).getSetIndex address) (((sys.caches.getD i default).sets.getD ((Cache.mk (sys.caches.getD i default).coreId (sys.caches.getD i default).setIndexBits (sys.caches.getD i default).blockOffsetBits (sys.caches.getD i default).associativity (sys.caches.getD i default).sets (sys.caches.getD i default).isBlocked (sys.caches.getD i default).blockedCycles ((sys.caches.getD i default).stats.incrementAccesses.incrementReads)).getSetIndex address) default).updateLRU li))).length = n
        rw [List.length_set]
        exact hlen
      · intro j hj
        show CacheWF sb bob assoc j ((sys.caches.set i ((Cache.mk (sys.caches.getD i default).coreId (sys.caches.getD i default).setIndexBits (sys.caches.getD i default).blockOffsetBits (sys.caches.getD i default).associativity (sys.caches.getD i default).sets (sys.caches.getD i default).isBlocked (sys.caches.getD i default).blockedCycles ((sys.caches.getD i default).stats.incrementAccesses.incrementReads)).putSet ((Cache.mk (sys.caches.getD i default).coreId (sys.caches.getD i default).setIndexBits (sys.caches.getD i default).blockOffsetBits (sys.caches.getD i default).associativity (sys.caches.getD i default).sets (sys.caches.getD i default).isBlocked (sys.caches.getD i default).blockedCycles ((sys.caches.getD i default).stats.incrementAccesses.incrementReads)).getSetIndex address) (((sys.caches.getD i default).sets.getD ((Cache.mk (sys.caches.getD i default).coreId (sys.caches.getD i default).setIndexBits (sys.caches.getD i default).blockOffsetBits (sys.caches.getD i default).associativity (sys.caches.getD i default).sets (sys.caches.getD i default).isBlocked (sys.caches.getD i default).blockedCycles ((sys.caches.getD i default).stats.incrementAccesses.incrementReads)).getSetIndex address) default).updateLRU li))).getD j default)
        by_cases hji : j = i
        · subst hji
          rw [hgI]
          exact hwfC
        · rw [hgJ j hji]
          exact hwf j hj
      · show MesiOK n (sys.caches.set i ((Cache.mk (sys.caches.getD i default).coreId (sys.caches.getD i default).setIndexBits (sys.caches.getD i default).blockOffsetBits (sys.caches.getD i default).associativity (sys.caches.getD i default).sets (sys.caches.getD i default).isBlocked (sys.caches.getD i default).blockedCycles ((sys.caches.getD i default).stats.incrementAccesses.incrementReads)).putSet ((Cache.mk (sys.caches.getD i default).coreId (sys.caches.getD i default).setIndexBits (sys.caches.getD i default).blockOffsetBits (sys.caches.getD i default).associativity (sys.caches.getD i default).sets (sys.caches.getD i default).isBlocked (sys.caches.getD i default).blockedCycles ((sys.caches.getD i default).stats.incrementAccesses.incrementReads)).getSetIndex address) (((sys.caches.getD i default).sets.getD ((Cache.mk (sys.caches.getD i default).coreId (sys.caches.getD i default).setIndexBits (sys.caches.getD i default).blockOffsetBits (sys.caches.getD i default).associativity (sys.caches.getD i default).sets (sys.caches.getD i default).isBlocked (sys.caches.getD i default).blockedCycles ((sys.caches.getD i default).stats.incrementAccesses.incrementReads)).getSetIndex address) default).updateLRU li)))
        intro si tv a b ha hb hab hME
        by_cases hbi : b = i
        · subst hbi
          rw [hgI, hst]
          have hai : a ≠ b := hab
          rw [hgJ a hai] at hME
          exact hmesi si tv a b ha hb hab hME
        · rw [hgJ b hbi]
          by_cases hai : a = i
          · subst hai
            rw [hgI, hst si tv] at hME
            exact hmesi si tv a b ha hb hab hME
          · rw [hgJ a hai] at hME
            exact hmesi si tv a b ha hb hab hME
    | none =>
      rw [cacheRead_eq_miss sys i address cycles hbl hfl hcore]
      have hws1 : SysWF n sb assoc bob ((Sys.mk (sys.caches.set i (Cache.mk (sys.caches.getD i default).coreId (sys.caches.getD i default).setIndexBits (sys.caches.getD i default).blockOffsetBits (sys.caches.getD i default).associativity (sys.caches.getD i default).sets true (sys.caches.getD i default).blockedCycles ((sys.caches.getD i default).stats.incrementAccesses.incrementReads.incrementReadMisses))) sys.bus) : Sys) := by
        refine ⟨?_, ?_, hbusy, hpend⟩
        · show (sys.caches.set i (Cache.mk (sys.caches.getD i default).coreId (sys.caches.getD i default).setIndexBits (sys.caches.getD i default).blockOffsetBits (sys.caches.getD i default).associativity (sys.caches.getD i default).sets true (sys.caches.getD i default).blockedCycles ((sys.caches.getD i default).stats.incrementAccesses.incrementReads.incrementReadMisses))).length = n
          rw [List.length_set]
          exact hlen
        · intro j hj
          show CacheWF sb bob assoc j ((sys.caches.set i (Cache.mk (sys.caches.getD i default).coreId (sys.caches.getD i default).setIndexBits (sys.caches.getD i default).blockOffsetBits (sys.caches.getD i default).associativity (sys.caches.getD i default).sets true (sys.caches.getD i default).blockedCycles ((sys.caches.getD i default).stats.incrementAccesses.incrementReads.incrementReadMisses))).getD j default)
          by_cases hji : j = i
          · rw [hji, getD_set_self _ _ _ _ (by rw [hlen]; exact hi)]
            exact hwf i hi
          · rw [getD_set_ne _ _ _ _ _ (fun h => hji h.symm)]
            exact hwf j hj
      have hg1I : ((Sys.mk (sys.caches.set i (Cache.mk (sys.caches.getD i default).coreId (sys.caches.getD i default).setIndexBits (sys.caches.getD i default).blockOffsetBits (sys.caches.getD i default).associativity (sys.caches.getD i default).sets true (sys.caches.getD i default).blockedCycles ((sys.caches.getD i default).stats.incrementAccesses.incrementReads.incrementReadMisses))) sys.bus) : Sys).caches.getD i default = (Cache.mk (sys.caches.getD i default).coreId (sys.caches.getD i default).setIndexBits (sys.caches.getD i default).blockOffsetBits (sys.caches.getD i default).associativity (sys.caches.getD i default).sets true (sys.caches.getD i default).blockedCycles ((sys.caches.getD i default).stats.incrementAccesses.incrementReads.incrementReadMisses)) :=
        getD_set_self _ _ _ _ (by rw [hlen]; exact hi)
      have hg1J : ∀ j, j ≠ i →
          ((Sys.mk (sys.caches.set i (Cache.mk (sys.caches.getD i default).coreId (sys.caches.getD i default).setIndexBits (sys.caches.getD i default).blockOffsetBits (sys.caches.getD i default).associativity (sys.caches.getD i default).sets true (sys.caches.getD i default).blockedCycles ((sys.caches.getD i default).stats.incrementAccesses.incrementReads.incrementReadMisses))) sys.bus) : Sys).caches.getD j default = sys.caches.getD j default :=
        fun j hj => getD_set_ne _ _ _ _ _ (fun h => hj h.symm)
      have hst1 : ∀ j, j < n → ∀ si tv,
          (((Sys.mk (sys.caches.set i (Cache.mk (sys.caches.getD i default).coreId (sys.caches.getD i default).setIndexBits (sys.caches.getD i default).blockOffsetBits (sys.caches.getD i default).associativity (sys.caches.getD i default).sets true (sys.caches.getD i default).blockedCycles ((sys.caches.getD i default).stats.incrementAccesses.incrementReads.incrementReadMisses))) sys.bus) : Sys).caches.getD j default).stateAt si tv
            = (sys.caches.getD j default).stateAt si tv := by
        intro j hj si tv
        by_cases hji : j = i
        · rw [hji, hg1I]
          rfl
        · rw [hg1J j hji]
      obtain ⟨racc, rbusy, rpend, rlen, rgetI, rgetJ, rdp⟩ :=
        busOperation_spec n sb assoc bob (Sys.mk (sys.caches.set i (Cache.mk (sys.caches.getD i default).coreId (sys.caches.getD i default).setIndexBits (sys.caches.getD i default).blockOffsetBits (sys.caches.getD i default).associativity (sys.caches.getD i default).sets true (sys.caches.getD i default).blockedCycles ((sys.caches.getD i default).stats.incrementAccesses.incrementReads.incrementReadMisses))) sys.bus) hws1 BusOperation.BusRd address i
      obtain ⟨rstates, rdpf⟩ :=
        busOperation_stateAt n sb assoc bob (Sys.mk (sys.caches.set i (Cache.mk (sys.caches.getD i default).coreId (sys.caches.getD i default).setIndexBits (sys.caches.getD i default).blockOffsetBits (sys.caches.getD i default).associativity (sys.caches.getD i default).sets true (sys.caches.getD i default).blockedCycles ((sys.caches.getD i default).stats.incrementAccesses.incrementReads.incrementReadMisses))) sys.bus) hws1 BusOperation.BusRd address i hi
      have hwfR := busOperation_WF n sb assoc bob (Sys.mk (sys.caches.set i (Cache.mk (sys.caches.getD i default).coreId (sys.caches.getD i default).setIndexBits (sys.caches.getD i default).blockOffsetBits (sys.caches.getD i default).associativity (sys.caches.getD i default).sets true (sys.caches.getD i default).blockedCycles ((sys.caches.getD i default).stats.incrementAccesses.incrementReads.incrementReadMisses))) sys.bus) hws1 BusOperation.BusRd address i hi
      have hmissR : ((busOperation (Sys.mk (sys.caches.set i (Cache.mk (sys.caches.getD i default).coreId (sys.caches.getD i default).setIndexBits (sys.caches.getD i default).blockOffsetBits (sys.caches.getD i default).associativity (sys.caches.getD i default).sets true (sys.caches.getD i default).blockedCycles ((sys.caches.getD i default).stats.incrementAccesses.incrementReads.incrementReadMisses))) sys.bus) BusOperation.BusRd address i false 0).sys.caches.getD i default).stateAt (addrSetIdx sb bob address) (addrTag sb bob address)
          = CacheState.INVALID := by
        rw [rgetI, hg1I]
        show ((sys.caches.getD i default).sets.getD (addrSetIdx sb bob address) default).stateOf (addrTag sb bob address) = CacheState.INVALID
        rw [stateOf_eq_INVALID_iff, ← hSI, ← hTA]
        exact hfl
      obtain ⟨g1, g2, g3, g4, g5, g6⟩ :=
        allocateLine_spec n sb assoc bob (busOperation (Sys.mk (sys.caches.set i (Cache.mk (sys.caches.getD i default).coreId (sys.caches.getD i default).setIndexBits (sys.caches.getD i default).blockOffsetBits (sys.caches.getD i default).associativity (sys.caches.getD i default).sets true (sys.caches.getD i default).blockedCycles ((sys.caches.getD i default).stats.incrementAccesses.incrementReads.incrementReadMisses))) sys.bus) BusOperation.BusRd address i false 0).sys.caches rlen hwfR.2.1 hassoc i hi address
          hmissR false (busOperation (Sys.mk (sys.caches.set i (Cache.mk (sys.caches.getD i default).coreId (sys.caches.getD i default).setIndexBits (sys.caches.getD i default).blockOffsetBits (sys.caches.getD i default).associativity (sys.caches.getD i default).sets true (sys.caches.getD i default).blockedCycles ((sys.caches.getD i default).stats.incrementAccesses.incrementReads.incrementReadMisses))) sys.bus) BusOperation.BusRd address i false 0).cycles ((busOperation (Sys.mk (sys.caches.set i (Cache.mk (sys.caches.getD i default).coreId (sys.caches.getD i default).setIndexBits (sys.caches.getD i default).blockOffsetBits (sys.caches.getD i default).associativity (sys.caches.getD i default).sets true (sys.caches.getD i default).blockedCycles ((sys.caches.getD i default).stats.incrementAccesses.incrementReads.incrementReadMisses))) sys.bus) BusOperation.BusRd address i false 0).accepted && (busOperation (Sys.mk (sys.caches.set i (Cache.mk (sys.caches.getD i default).coreId (sys.caches.getD i default).setIndexBits (sys.caches.getD i default).blockOffsetBits (sys.caches.getD i default).associativity (sys.caches.getD i default).sets true (sys.caches.getD i default).blockedCycles ((sys.caches.getD i default).stats.incrementAccesses.incrementReads.incrementReadMisses))) sys.bus) BusOperation.BusRd address i false 0).dataProvided)
      have hFgI : (((allocateLine (busOperation (Sys.mk (sys.caches.set i (Cache.mk (sys.caches.getD i default).coreId (sys.caches.getD i default).setIndexBits (sys.caches.getD i default).blockOffsetBits (sys.caches.getD i default).associativity (sys.caches.getD i default).sets true (sys.caches.getD i default).blockedCycles ((sys.caches.getD i default).stats.incrementAccesses.incrementReads.incrementReadMisses))) sys.bus) BusOperation.BusRd address i false 0).sys.caches i address false (busOperation (Sys.mk (sys.caches.set i (Cache.mk (sys.caches.getD i default).coreId (sys.caches.getD i default).setIndexBits (sys.caches.getD i default).blockOffsetBits (sys.caches.getD i default).associativity (sys.caches.getD i default).sets true (sys.caches.getD i default).blockedCycles ((sys.caches.getD i default).stats.incrementAccesses.incrementReads.incrementReadMisses))) sys.bus) BusOperation.BusRd address i false 0).cycles ((busOperation (Sys.mk (sys.caches.set i (Cache.mk (sys.caches.getD i default).coreId (sys.caches.getD i default).setIndexBits (sys.caches.getD i default).blockOffsetBits (sys.caches.getD i default).associativity (sys.caches.getD i default).sets true (sys.caches.getD i default).blockedCycles ((sys.caches.getD i default).stats.incrementAccesses.incrementReads.incrementReadMisses))) sys.bus) BusOperation.BusRd address i false 0).accepted && (busOperation (Sys.mk (sys.caches.set i (Cache.mk (sys.caches.getD i default).coreId (sys.caches.getD i default).setIndexBits (sys.caches.getD i default).blockOffsetBits (sys.caches.getD i default).associativity (sys.caches.getD i default).sets true (sys.caches.getD i default).blockedCycles ((sys.caches.getD i default).stats.incrementAccesses.incrementReads.incrementReadMisses))) sys.bus) BusOperation.BusRd address i false 0).dataProvided)).1.set i { ((allocateLine (busOperation (Sys.mk (sys.caches.set i (Cache.mk (sys.caches.getD i default).coreId (sys.caches.getD i default).setIndexBits (sys.caches.getD i default).blockOffsetBits (sys.caches.getD i default).associativity (sys.caches.getD i default).sets true (sys.caches.getD i default).blockedCycles ((sys.caches.getD i default).stats.incrementAccesses.incrementReads.incrementReadMisses))) sys.bus) BusOperation.BusRd address i false 0).sys.caches i address false (busOperation (Sys.mk (sys.caches.set i (Cache.mk (sys.caches.getD i default).coreId (sys.caches.getD i default).setIndexBits (sys.caches.getD i default).blockOffsetBits (sys.caches.getD i default).associativity (sys.caches.getD i default).sets true (sys.caches.getD i default).blockedCycles ((sys.caches.getD i default).stats.incrementAccesses.incrementReads.incrementReadMisses))) sys.bus) BusOperation.BusRd address i false 0).cycles ((busOperation (Sys.mk (sys.caches.set i (Cache.mk (sys.caches.getD i default).coreId (sys.caches.getD i default).setIndexBits (sys.caches.getD i default).blockOffsetBits (sys.caches.getD i default).associativity (sys.caches.getD i default).sets true (sys.caches.getD i default).blockedCycles ((sys.caches.getD i default).stats.incrementAccesses.incrementReads.incrementReadMisses))) sys.bus) BusOperation.BusRd address i false 0).accepted && (busOperation (Sys.mk (sys.caches.set i (Cache.mk (sys.caches.getD i default).coreId (sys.caches.getD i default).setIndexBits (sys.caches.getD i default).blockOffsetBits (sys.caches.getD i default).associativity (sys.caches.getD i default).sets true (sys.caches.getD i default).blockedCycles ((sys.caches.getD i default).stats.incrementAccesses.incrementReads.incrementReadMisses))) sys.bus) BusOperation.BusRd address i false 0).dataProvided)).1.getD i default) with blockedCycles := ((allocateLine (busOperation (Sys.mk (sys.caches.set i (Cache.mk (sys.caches.getD i default).coreId (sys.caches.getD i default).setIndexBits (sys.caches.getD i default).blockOffsetBits (sys.caches.getD i default).associativity (sys.caches.getD i default).sets true (sys.caches.getD i default).blockedCycles ((sys.caches.getD i default).stats.incrementAccesses.incrementReads.incrementReadMisses))) sys.bus) BusOperation.BusRd address i false 0).sys.caches i address false (busOperation (Sys.mk (sys.caches.set i (Cache.mk (sys.caches.getD i default).coreId (sys.caches.getD i default).setIndexBits (sys.caches.getD i default).blockOffsetBits (sys.caches.getD i default).associativity (sys.caches.getD i default).sets true (sys.caches.getD i default).blockedCycles ((sys.caches.getD i default).stats.incrementAccesses.incrementReads.incrementReadMisses))) sys.bus) BusOperation.BusRd address i false 0).cycles ((busOperation (Sys.mk (sys.caches.set i (Cache.mk (sys.caches.getD i default).coreId (sys.caches.getD i default).setIndexBits (sys.caches.getD i default).blockOffsetBits (sys.caches.getD i default).associativity (sys.caches.getD i default).sets true (sys.caches.getD i default).blockedCycles ((sys.caches.getD i default).stats.incrementAccesses.incrementReads.incrementReadMisses))) sys.bus) BusOperation.BusRd address i false 0).accepted && (busOperation (Sys.mk (sys.caches.set i (Cache.mk (sys.caches.getD i default).coreId (sys.caches.getD i default).setIndexBits (sys.caches.getD i default).blockOffsetBits (sys.caches.getD i default).associativity (sys.caches.getD i default).sets true (sys.caches.getD i default).blockedCycles ((sys.caches.getD i default).stats.incrementAccesses.incrementReads.incrementReadMisses))) sys.bus) BusOperation.BusRd address i false 0).dataProvided)).1.getD i default).blockedCycles + ((allocateLine (busOperation (Sys.mk (sys.caches.set i (Cache.mk (sys.caches.getD i default).coreId (sys.caches.getD i default).setIndexBits (sys.caches.getD i default).blockOffsetBits (sys.caches.getD i default).associativity (sys.caches.getD i default).sets true (sys.caches.getD i default).blockedCycles ((sys.caches.getD i default).stats.incrementAccesses.incrementReads.incrementReadMisses))) sys.bus) BusOperation.BusRd address i false 0).sys.caches i address false (busOperation (Sys.mk (sys.caches.set i (Cache.mk (sys.caches.getD i default).coreId (sys.caches.getD i default).setIndexBits (sys.caches.getD i default).blockOffsetBits (sys.caches.getD i default).associativity (sys.caches.getD i default).sets true (sys.caches.getD i default).blockedCycles ((sys.caches.getD i default).stats.incrementAccesses.incrementReads.incrementReadMisses))) sys.bus) BusOperation.BusRd address i false 0).cycles ((busOperation (Sys.mk (sys.caches.set i (Cache.mk (sys.caches.getD i default).coreId (sys.caches.getD i default).setIndexBits (sys.caches.getD i default).blockOffsetBits (sys.caches.getD i default).associativity (sys.caches.getD i default).sets true (sys.caches.getD i default).blockedCycles ((sys.caches.getD i default).stats.incrementAccesses.incrementReads.incrementReadMisses))) sys.bus) BusOperation.BusRd address i false 0).accepted && (busOperation (Sys.mk (sys.caches.set i (Cache.mk (sys.caches.getD i default).coreId (sys.caches.getD i default).setIndexBits (sys.caches.getD i default).blockOffsetBits (sys.caches.getD i default).associativity (sys.caches.getD i default).sets true (sys.caches.getD i default).blockedCycles ((sys.caches.getD i default).stats.incrementAccesses.incrementReads.incrementReadMisses))) sys.bus) BusOperation.BusRd address i false 0).dataProvided)).2 - 1) }) : List Cache).getD i default = { ((allocateLine (busOperation (Sys.mk (sys.caches.set i (Cache.mk (sys.caches.getD i default).coreId (sys.caches.getD i default).setIndexBits (sys.caches.getD i default).blockOffsetBits (sys.caches.getD i default).associativity (sys.caches.getD i default).sets true (sys.caches.getD i default).blockedCycles ((sys.caches.getD i default).stats.incrementAccesses.incrementReads.incrementReadMisses))) sys.bus) BusOperation.BusRd address i false 0).sys.caches i address false (busOperation (Sys.mk (sys.caches.set i (Cache.mk (sys.caches.getD i default).coreId (sys.caches.getD i default).setIndexBits (sys.caches.getD i default).blockOffsetBits (sys.caches.getD i default).associativity (sys.caches.getD i default).sets true (sys.caches.getD i default).blockedCycles ((sys.caches.getD i default).stats.incrementAccesses.incrementReads.incrementReadMisses))) sys.bus) BusOperation.BusRd address i false 0).cycles ((busOperation (Sys.mk (sys.caches.set i (Cache.mk (sys.caches.getD i default).coreId (sys.caches.getD i default).setIndexBits (sys.caches.getD i default).blockOffsetBits (sys.caches.getD i default).associativity (sys.caches.getD i default).sets true (sys.caches.getD i default).blockedCycles ((sys.caches.getD i default).stats.incrementAccesses.incrementReads.incrementReadMisses))) sys.bus) BusOperation.BusRd address i false 0).accepted && (busOperation (Sys.mk (sys.caches.set i (Cache.mk (sys.caches.getD i default).coreId (sys.caches.getD i default).setIndexBits (sys.caches.getD i default).blockOffsetBits (sys.caches.getD i default).associativity (sys.caches.getD i default).sets true (sys.caches.getD i default).blockedCycles ((sys.caches.getD i default).stats.incrementAccesses.incrementReads.incrementReadMisses))) sys.bus) BusOperation.BusRd address i false 0).dataProvided)).1.getD i default) with blockedCycles := ((allocateLine (busOperation (Sys.mk (sys.caches.set i (Cache.mk (sys.caches.getD i default).coreId (sys.caches.getD i default).setIndexBits (sys.caches.getD i default).blockOffsetBits (sys.caches.getD i default).associativity (sys.caches.getD i default).sets true (sys.caches.getD i default).blockedCycles ((sys.caches.getD i default).stats.incrementAccesses.incrementReads.incrementReadMisses))) sys.bus) BusOperation.BusRd address i false 0).sys.caches i address false (busOperation (Sys.mk (sys.caches.set i (Cache.mk (sys.caches.getD i default).coreId (sys.caches.getD i default).setIndexBits (sys.caches.getD i default).blockOffsetBits (sys.caches.getD i default).associativity (sys.caches.getD i default).sets true (sys.caches.getD i default).blockedCycles ((sys.caches.getD i default).stats.incrementAccesses.incrementReads.incrementReadMisses))) sys.bus) BusOperation.BusRd address i false 0).cycles ((busOperation (Sys.mk (sys.caches.set i (Cache.mk (sys.caches.getD i default).coreId (sys.caches.getD i default).setIndexBits (sys.caches.getD i default).blockOffsetBits (sys.caches.getD i default).associativity (sys.caches.getD i default).sets true (sys.caches.getD i default).blockedCycles ((sys.caches.getD i default).stats.incrementAccesses.incrementReads.incrementReadMisses))) sys.bus) BusOperation.BusRd address i false 0).accepted && (busOperation (Sys.mk (sys.caches.set i (Cache.mk (sys.caches.getD i default).coreId (sys.caches.getD i default).setIndexBits (sys.caches.getD i default).blockOffsetBits (sys.caches.getD i default).associativity (sys.caches.getD i default).sets true (sys.caches.getD i default).blockedCycles ((sys.caches.getD i default).stats.incrementAccesses.incrementReads.incrementReadMisses))) sys.bus) BusOperation.BusRd address i false 0).dataProvided)).1.getD i default).blockedCycles + ((allocateLine (busOperation (Sys.mk (sys.caches.set i (Cache.mk (sys.caches.getD i default).coreId (sys.caches.getD i default).setIndexBits (sys.caches.getD i default).blockOffsetBits (sys.caches.getD i default).associativity (sys.caches.getD i default).sets true (sys.caches.getD i default).blockedCycles ((sys.caches.getD i default).stats.incrementAccesses.incrementReads.incrementReadMisses))) sys.bus) BusOperation.BusRd address i false 0).sys.caches i address false (busOperation (Sys.mk (sys.caches.set i (Cache.mk (sys.caches.getD i default).coreId (sys.caches.getD i default).setIndexBits (sys.caches.getD i default).blockOffsetBits (sys.caches.getD i default).associativity (sys.caches.getD i default).sets true (sys.caches.getD i default).blockedCycles ((sys.caches.getD i default).stats.incrementAccesses.incrementReads.incrementReadMisses))) sys.bus) BusOperation.BusRd address i false 0).cycles ((busOperation (Sys.mk (sys.caches.set i (Cache.mk (sys.caches.getD i default).coreId (sys.caches.getD i default).setIndexBits (sys.caches.getD i default).blockOffsetBits (sys.caches.getD i default).associativity (sys.caches.getD i default).sets true (sys.caches.getD i default).blockedCycles ((sys.caches.getD i default).stats.incrementAccesses.incrementReads.incrementReadMisses))) sys.bus) BusOperation.BusRd address i false 0).accepted && (busOperation (Sys.mk (sys.caches.set i (Cache.mk (sys.caches.getD i default).coreId (sys.caches.getD i default).setIndexBits (sys.caches.getD i default).blockOffsetBits (sys.caches.getD i default).associativity (sys.caches.getD i default).sets true (sys.caches.getD i default).blockedCycles ((sys.caches.getD i default).stats.incrementAccesses.incrementReads.incrementReadMisses))) sys.bus) BusOperation.BusRd address i false 0).dataProvided)).2 - 1) } :=
        getD_set_self _ _ _ _ (by rw [g1]; exact hi)
      have hFgJ : ∀ j, j ≠ i →
          (((allocateLine (busOperation (Sys.mk (sys.caches.set i (Cache.mk (sys.caches.getD i default).coreId (sys.caches.getD i default).setIndexBits (sys.caches.getD i default).blockOffsetBits (sys.caches.getD i default).associativity (sys.caches.getD i default).sets true (sys.caches.getD i default).blockedCycles ((sys.caches.getD i default).stats.incrementAccesses.incrementReads.incrementReadMisses))) sys.bus) BusOperation.BusRd address i false 0).sys.caches i address false (busOperation (Sys.mk (sys.caches.set i (Cache.mk (sys.caches.getD i default).coreId (sys.caches.getD i default).setIndexBits (sys.caches.getD i default).blockOffsetBits (sys.caches.getD i default).associativity (sys.caches.getD i default).sets true (sys.caches.getD i default).blockedCycles ((sys.caches.getD i default).stats.incrementAccesses.incrementReads.incrementReadMisses))) sys.bus) BusOperation.BusRd address i false 0).cycles ((busOperation (Sys.mk (sys.caches.set i (Cache.mk (sys.caches.getD i default).coreId (sys.caches.getD i default).setIndexBits (sys.caches.getD i default).blockOffsetBits (sys.caches.getD i default).associativity (sys.caches.getD i default).sets true (sys.caches.getD i default).blockedCycles ((sys.caches.getD i default).stats.incrementAccesses.incrementReads.incrementReadMisses))) sys.bus) BusOperation.BusRd address i false 0).accepted && (busOperation (Sys.mk (sys.caches.set i (Cache.mk (sys.caches.getD i default).coreId (sys.caches.getD i default).setIndexBits (sys.caches.getD i default).blockOffsetBits (sys.caches.getD i default).associativity (sys.caches.getD i default).sets true (sys.caches.getD i default).blockedCycles ((sys.caches.getD i default).stats.incrementAccesses.incrementReads.incrementReadMisses))) sys.bus) BusOperation.BusRd address i false 0).dataProvided)).1.set i { ((allocateLine (busOperation (Sys.mk (sys.caches.set i (Cache.mk (sys.caches.getD i default).coreId (sys.caches.getD i default).setIndexBits (sys.caches.getD i default).blockOffsetBits (sys.caches.getD i default).associativity (sys.caches.getD i default).sets true (sys.caches.getD i default).blockedCycles ((sys.caches.getD i default).stats.incrementAccesses.incrementReads.incrementReadMisses))) sys.bus) BusOperation.BusRd address i false 0).sys.caches i address false (busOperation (Sys.mk (sys.caches.set i (Cache.mk (sys.caches.getD i default).coreId (sys.caches.getD i default).setIndexBits (sys.caches.getD i default).blockOffsetBits (sys.caches.getD i default).associativity (sys.caches.getD i default).sets true (sys.caches.getD i default).blockedCycles ((sys.caches.getD i default).stats.incrementAccesses.incrementReads.incrementReadMisses))) sys.bus) BusOperation.BusRd address i false 0).cycles ((busOperation (Sys.mk (sys.caches.set i (Cache.mk (sys.caches.getD i default).coreId (sys.caches.getD i default).setIndexBits (sys.caches.getD i default).blockOffsetBits (sys.caches.getD i default).associativity (sys.caches.getD i default).sets true (sys.caches.getD i default).blockedCycles ((sys.caches.getD i default).stats.incrementAccesses.incrementReads.incrementReadMisses))) sys.bus) BusOperation.BusRd address i false 0).accepted && (busOperation (Sys.mk (sys.caches.set i (Cache.mk (sys.caches.getD i default).coreId (sys.caches.getD i default).setIndexBits (sys.caches.getD i default).blockOffsetBits (sys.caches.getD i default).associativity (sys.caches.getD i default).sets true (sys.caches.getD i default).blockedCycles ((sys.caches.getD i default).stats.incrementAccesses.incrementReads.incrementReadMisses))) sys.bus) BusOperation.BusRd address i false 0).dataProvided)).1.getD i default) with blockedCycles := ((allocateLine (busOperation (Sys.mk (sys.caches.set i (Cache.mk (sys.caches.getD i default).coreId (sys.caches.getD i default).setIndexBits (sys.caches.getD i default).blockOffsetBits (sys.caches.getD i default).associativity (sys.caches.getD i default).sets true (sys.caches.getD i default).blockedCycles ((sys.caches.getD i default).stats.incrementAccesses.incrementReads.incrementReadMisses))) sys.bus) BusOperation.BusRd address i false 0).sys.caches i address false (busOperation (Sys.mk (sys.caches.set i (Cache.mk (sys.caches.getD i default).coreId (sys.caches.getD i default).setIndexBits (sys.caches.getD i default).blockOffsetBits (sys.caches.getD i default).associativity (sys.caches.getD i default).sets true (sys.caches.getD i default).blockedCycles ((sys.caches.getD i default).stats.incrementAccesses.incrementReads.incrementReadMisses))) sys.bus) BusOperation.BusRd address i false 0).cycles ((busOperation (Sys.mk (sys.caches.set i (Cache.mk (sys.caches.getD i default).coreId (sys.caches.getD i default).setIndexBits (sys.caches.getD i default).blockOffsetBits (sys.caches.getD i default).associativity (sys.caches.getD i default).sets true (sys.caches.getD i default).blockedCycles ((sys.caches.getD i default).stats.incrementAccesses.incrementReads.incrementReadMisses))) sys.bus) BusOperation.BusRd address i false 0).accepted && (busOperation (Sys.mk (sys.caches.set i (Cache.mk (sys.caches.getD i default).coreId (sys.caches.getD i default).setIndexBits (sys.caches.getD i default).blockOffsetBits (sys.caches.getD i default).associativity (sys.caches.getD i default).sets true (sys.caches.getD i default).blockedCycles ((sys.caches.getD i default).stats.incrementAccesses.incrementReads.incrementReadMisses))) sys.bus) BusOperation.BusRd address i false 0).dataProvided)).1.getD i default).blockedCycles + ((allocateLine (busOperation (Sys.mk (sys.caches.set i (Cache.mk (sys.caches.getD i default).coreId (sys.caches.getD i default).setIndexBits (sys.caches.getD i default).blockOffsetBits (sys.caches.getD i default).associativity (sys.caches.getD i default).sets true (sys.caches.getD i default).blockedCycles ((sys.caches.getD i default).stats.incrementAccesses.incrementReads.incrementReadMisses))) sys.bus) BusOperation.BusRd address i false 0).sys.caches i address false (busOperation (Sys.mk (sys.caches.set i (Cache.mk (sys.caches.getD i default).coreId (sys.caches.getD i default).setIndexBits (sys.caches.getD i default).blockOffsetBits (sys.caches.getD i default).associativity (sys.caches.getD i default).sets true (sys.caches.getD i default).blockedCycles ((sys.caches.getD i default).stats.incrementAccesses.incrementReads.incrementReadMisses))) sys.bus) BusOperation.BusRd address i false 0).cycles ((busOperation (Sys.mk (sys.caches.set i (Cache.mk (sys.caches.getD i default).coreId (sys.caches.getD i default).setIndexBits (sys.caches.getD i default).blockOffsetBits (sys.caches.getD i default).associativity (sys.caches.getD i default).sets true (sys.caches.getD i default).blockedCycles ((sys.caches.getD i default).stats.incrementAccesses.incrementReads.incrementReadMisses))) sys.bus) BusOperation.BusRd address i false 0).accepted && (busOperation (Sys.mk (sys.caches.set i (Cache.mk (sys.caches.getD i default).coreId (sys.caches.getD i default).setIndexBits (sys.caches.getD i default).blockOffsetBits (sys.caches.getD i default).associativity (sys.caches.getD i default).sets true (sys.caches.getD i default).blockedCycles ((sys.caches.getD i default).stats.incrementAccesses.incrementReads.incrementReadMisses))) sys.bus) BusOperation.BusRd address i false 0).dataProvided)).2 - 1) }) : List Cache).getD j default = (allocateLine (busOperation (Sys.mk (sys.caches.set i (Cache.mk (sys.caches.getD i default).coreId (sys.caches.getD i default).setIndexBits (sys.caches.getD i default).blockOffsetBits (sys.caches.getD i default).associativity (sys.caches.getD i default).sets true (sys.caches.getD i default).blockedCycles ((sys.caches.getD i default).stats.incrementAccesses.incrementReads.incrementReadMisses))) sys.bus) BusOperation.BusRd address i false 0).sys.caches i address false (busOperation (Sys.mk (sys.caches.set i (Cache.mk (sys.caches.getD i default).coreId (sys.caches.getD i default).setIndexBits (sys.caches.getD i default).blockOffsetBits (sys.caches.getD i default).associativity (sys.caches.getD i default).sets true (sys.caches.getD i default).blockedCycles ((sys.caches.getD i default).stats.incrementAccesses.incrementReads.incrementReadMisses))) sys.bus) BusOperation.BusRd address i false 0).cycles ((busOperation (Sys.mk (sys.caches.set i (Cache.mk (sys.caches.getD i default).coreId (sys.caches.getD i default).setIndexBits (sys.caches.getD i default).blockOffsetBits (sys.caches.getD i default).associativity (sys.caches.getD i default).sets true (sys.caches.getD i default).blockedCycles ((sys.caches.getD i default).stats.incrementAccesses.incrementReads.incrementReadMisses))) sys.bus) BusOperation.BusRd address i false 0).accepted && (busOperation (Sys.mk (sys.caches.set i (Cache.mk (sys.caches.getD i default).coreId (sys.caches.getD i default).setIndexBits (sys.caches.getD i default).blockOffsetBits (sys.caches.getD i default).associativity (sys.caches.getD i default).sets true (sys.caches.getD i default).blockedCycles ((sys.caches.getD i default).stats.incrementAccesses.incrementReads.incrementReadMisses))) sys.bus) BusOperation.BusRd address i false 0).dataProvided)).1.getD j default :=
        fun j hj => getD_set_ne _ _ _ _ _ (fun h => hj h.symm)
      have hFself : ∀ si tv, ((((allocateLine (busOperation (Sys.mk (sys.caches.set i (Cache.mk (sys.caches.getD i default).coreId (sys.caches.getD i default).setIndexBits (sys.caches.getD i default).blockOffsetBits (sys.caches.getD i default).associativity (sys.caches.getD i default).sets true (sys.caches.getD i default).blockedCycles ((sys.caches.getD i default).stats.incrementAccesses.incrementReads.incrementReadMisses))) sys.bus) BusOperation.BusRd address i false 0).sys.caches i address false (busOperation (Sys.mk (sys.caches.set i (Cache.mk (sys.caches.getD i default).coreId (sys.caches.getD i default).setIndexBits (sys.caches.getD i default).blockOffsetBits (sys.caches.getD i default).associativity (sys.caches.getD i default).sets true (sys.caches.getD i default).blockedCycles ((sys.caches.getD i default).stats.incrementAccesses.incrementReads.incrementReadMisses))) sys.bus) BusOperation.BusRd address i false 0).cycles ((busOperation (Sys.mk (sys.caches.set i (Cache.mk (sys.caches.getD i default).coreId (sys.caches.getD i default).setIndexBits (sys.caches.getD i default).blockOffsetBits (sys.caches.getD i default).associativity (sys.caches.getD i default).sets true (sys.caches.getD i default).blockedCycles ((sys.caches.getD i default).stats.incrementAccesses.incrementReads.incrementReadMisses))) sys.bus) BusOperation.BusRd address i false 0).accepted && (busOperation (Sys.mk (sys.caches.set i (Cache.mk (sys.caches.getD i default).coreId (sys.caches.getD i default).setIndexBits (sys.caches.getD i default).blockOffsetBits (sys.caches.getD i default).associativity (sys.caches.getD i default).sets true (sys.caches.getD i default).blockedCycles ((sys.caches.getD i default).stats.incrementAccesses.incrementReads.incrementReadMisses))) sys.bus) BusOperation.BusRd address i false 0).dataProvided)).1.set i { ((allocateLine (busOperation (Sys.mk (sys.caches.set i (Cache.mk (sys.caches.getD i default).coreId (sys.caches.getD i default).setIndexBits (sys.caches.getD i default).blockOffsetBits (sys.caches.getD i default).associativity (sys.caches.getD i default).sets true (sys.caches.getD i default).blockedCycles ((sys.caches.getD i default).stats.incrementAccesses.incrementReads.incrementReadMisses))) sys.bus) BusOperation.BusRd address i false 0).sys.caches i address false (busOperation (Sys.mk (sys.caches.set i (Cache.mk (sys.caches.getD i default).coreId (sys.caches.getD i default).setIndexBits (sys.caches.getD i default).blockOffsetBits (sys.caches.getD i default).associativity (sys.caches.getD i default).sets true (sys.caches.getD i default).blockedCycles ((sys.caches.getD i default).stats.incrementAccesses.incrementReads.incrementReadMisses))) sys.bus) BusOperation.BusRd address i false 0).cycles ((busOperation (Sys.mk (sys.caches.set i (Cache.mk (sys.caches.getD i default).coreId (sys.caches.getD i default).setIndexBits (sys.caches.getD i default).blockOffsetBits (sys.caches.getD i default).associativity (sys.caches.getD i default).sets true (sys.caches.getD i default).blockedCycles ((sys.caches.getD i default).stats.incrementAccesses.incrementReads.incrementReadMisses))) sys.bus) BusOperation.BusRd address i false 0).accepted && (busOperation (Sys.mk (sys.caches.set i (Cache.mk (sys.caches.getD i default).coreId (sys.caches.getD i default).setIndexBits (sys.caches.getD i default).blockOffsetBits (sys.caches.getD i default).associativity (sys.caches.getD i default).sets true (sys.caches.getD i default).blockedCycles ((sys.caches.getD i default).stats.incrementAccesses.incrementReads.incrementReadMisses))) sys.bus) BusOperation.BusRd address i false 0).dataProvided)).1.getD i default) with blockedCycles := ((allocateLine (busOperation (Sys.mk (sys.caches.set i (Cache.mk (sys.caches.getD i default).coreId (sys.caches.getD i default).setIndexBits (sys.caches.getD i default).blockOffsetBits (sys.caches.getD i default).associativity (sys.caches.getD i default).sets true (sys.caches.getD i default).blockedCycles ((sys.caches.getD i default).stats.incrementAccesses.incrementReads.incrementReadMisses))) sys.bus) BusOperation.BusRd address i false 0).sys.caches i address false (busOperation (Sys.mk (sys.caches.set i (Cache.mk (sys.caches.getD i default).coreId (sys.caches.getD i default).setIndexBits (sys.caches.getD i default).blockOffsetBits (sys.caches.getD i default).associativity (sys.caches.getD i default).sets true (sys.caches.getD i default).blockedCycles ((sys.caches.getD i default).stats.incrementAccesses.incrementReads.incrementReadMisses))) sys.bus) BusOperation.BusRd address i false 0).cycles ((busOperation (Sys.mk (sys.caches.set i (Cache.mk (sys.caches.getD i default).coreId (sys.caches.getD i default).setIndexBits (sys.caches.getD i default).blockOffsetBits (sys.caches.getD i default).associativity (sys.caches.getD i default).sets true (sys.caches.getD i default).blockedCycles ((sys.caches.getD i default).stats.incrementAccesses.incrementReads.incrementReadMisses))) sys.bus) BusOperation.BusRd address i false 0).accepted && (busOperation (Sys.mk (sys.caches.set i (Cache.mk (sys.caches.getD i default).coreId (sys.caches.getD i default).setIndexBits (sys.caches.getD i default).blockOffsetBits (sys.caches.getD i default).associativity (sys.caches.getD i default).sets true (sys.caches.getD i default).blockedCycles ((sys.caches.getD i default).stats.incrementAccesses.incrementReads.incrementReadMisses))) sys.bus) BusOperation.BusRd address i false 0).dataProvided)).1.getD i default).blockedCycles + ((allocateLine (busOperation (Sys.mk (sys.caches.set i (Cache.mk (sys.caches.getD i default).coreId (sys.caches.getD i default).setIndexBits (sys.caches.getD i default).blockOffsetBits (sys.caches.getD i default).associativity (sys.caches.getD i default).sets true (sys.caches.getD i default).blockedCycles ((sys.caches.getD i default).stats.incrementAccesses.incrementReads.incrementReadMisses))) sys.bus) BusOperation.BusRd address i false 0).sys.caches i address false (busOperation (Sys.mk (sys.caches.set i (Cache.mk (sys.caches.getD i default).coreId (sys.caches.getD i default).setIndexBits (sys.caches.getD i default).blockOffsetBits (sys.caches.getD i default).associativity (sys.caches.getD i default).sets true (sys.caches.getD i default).blockedCycles ((sys.caches.getD i default).stats.incrementAccesses.incrementReads.incrementReadMisses))) sys.bus) BusOperation.BusRd address i false 0).cycles ((busOperation (Sys.mk (sys.caches.set i (Cache.mk (sys.caches.getD i default).coreId (sys.caches.getD i default).setIndexBits (sys.caches.getD i default).blockOffsetBits (sys.caches.getD i default).associativity (sys.caches.getD i default).sets true (sys.caches.getD i default).blockedCycles ((sys.caches.getD i default).stats.incrementAccesses.incrementReads.incrementReadMisses))) sys.bus) BusOperation.BusRd address i false 0).accepted && (busOperation (Sys.mk (sys.caches.set i (Cache.mk (sys.caches.getD i default).coreId (sys.caches.getD i default).setIndexBits (sys.caches.getD i default).blockOffsetBits (sys.caches.getD i default).associativity (sys.caches.getD i default).sets true (sys.caches.getD i default).blockedCycles ((sys.caches.getD i default).stats.incrementAccesses.incrementReads.incrementReadMisses))) sys.bus) BusOperation.BusRd address i false 0).dataProvided)).2 - 1) }) : List Cache).getD i default).stateAt si tv
          = ((allocateLine (busOperation (Sys.mk (sys.caches.set i (Cache.mk (sys.caches.getD i default).coreId (sys.caches.getD i default).setIndexBits (sys.caches.getD i default).blockOffsetBits (sys.caches.getD i default).associativity (sys.caches.getD i default).sets true (sys.caches.getD i default).blockedCycles ((sys.caches.getD i default).stats.incrementAccesses.incrementReads.incrementReadMisses))) sys.bus) BusOperation.BusRd address i false 0).sys.caches i address false (busOperation (Sys.mk (sys.caches.set i (Cache.mk (sys.caches.getD i default).coreId (sys.caches.getD i default).setIndexBits (sys.caches.getD i default).blockOffsetBits (sys.caches.getD i default).associativity (sys.caches.getD i default).sets true (sys.caches.getD i default).blockedCycles ((sys.caches.getD i default).stats.incrementAccesses.incrementReads.incrementReadMisses))) sys.bus) BusOperation.BusRd address i false 0).cycles ((busOperation (Sys.mk (sys.caches.set i (Cache.mk (sys.caches.getD i default).coreId (sys.caches.getD i default).setIndexBits (sys.caches.getD i default).blockOffsetBits (sys.caches.getD i default).associativity (sys.caches.getD i default).sets true (sys.caches.getD i default).blockedCycles ((sys.caches.getD i default).stats.incrementAccesses.incrementReads.incrementReadMisses))) sys.bus) BusOperation.BusRd address i false 0).accepted && (busOperation (Sys.mk (sys.caches.set i (Cache.mk (sys.caches.getD i default).coreId (sys.caches.getD i default).setIndexBits (sys.caches.getD i default).blockOffsetBits (sys.caches.getD i default).associativity (sys.caches.getD i default).sets true (sys.caches.getD i default).blockedCycles ((sys.caches.getD i default).stats.incrementAccesses.incrementReads.incrementReadMisses))) sys.bus) BusOperation.BusRd address i false 0).dataProvided)).1.getD i default).stateAt si tv := by
        intro si tv
        rw [hFgI]
        rfl
      have hbrEq : (((busOperation (Sys.mk (sys.caches.set i (Cache.mk (sys.caches.getD i default).coreId (sys.caches.getD i default).setIndexBits (sys.caches.getD i default).blockOffsetBits (sys.caches.getD i default).associativity (sys.caches.getD i default).sets true (sys.caches.getD i default).blockedCycles ((sys.caches.getD i default).stats.incrementAccesses.incrementReads.incrementReadMisses))) sys.bus) BusOperation.BusRd address i false 0).accepted && (busOperation (Sys.mk (sys.caches.set i (Cache.mk (sys.caches.getD i default).coreId (sys.caches.getD i default).setIndexBits (sys.caches.getD i default).blockOffsetBits (sys.caches.getD i default).associativity (sys.caches.getD i default).sets true (sys.caches.getD i default).blockedCycles ((sys.caches.getD i default).stats.incrementAccesses.incrementReads.incrementReadMisses))) sys.bus) BusOperation.BusRd address i false 0).dataProvided) : Bool) = (busOperation (Sys.mk (sys.caches.set i (Cache.mk (sys.caches.getD i default).coreId (sys.caches.getD i default).setIndexBits (sys.caches.getD i default).blockOffsetBits (sys.caches.getD i default).associativity (sys.caches.getD i default).sets true (sys.caches.getD i default).blockedCycles ((sys.caches.getD i default).stats.incrementAccesses.incrementReads.incrementReadMisses))) sys.bus) BusOperation.BusRd address i false 0).dataProvided := by
        rw [racc, Bool.true_and]
      have hPreTA : ∀ j, j < n → j ≠ i →
          ((busOperation (Sys.mk (sys.caches.set i (Cache.mk (sys.caches.getD i default).coreId (sys.caches.getD i default).setIndexBits (sys.caches.getD i default).blockOffsetBits (sys.caches.getD i default).associativity (sys.caches.getD i default).sets true (sys.caches.getD i default).blockedCycles ((sys.caches.getD i default).stats.incrementAccesses.incrementReads.incrementReadMisses))) sys.bus) BusOperation.BusRd address i false 0).sys.caches.getD j default).stateAt (addrSetIdx sb bob address) (addrTag sb bob address)
            = snoopNext BusOperation.BusRd
                ((sys.caches.getD j default).stateAt (addrSetIdx sb bob address) (addrTag sb bob address)) := by
        intro j hj hji
        rw [(rstates j hj hji).1, hst1 j hj]
      have hPreOther : ∀ j, j < n → j ≠ i → ∀ si tv, (si ≠ (addrSetIdx sb bob address) ∨ tv ≠ (addrTag sb bob address)) →
          ((busOperation (Sys.mk (sys.caches.set i (Cache.mk (sys.caches.getD i default).coreId (sys.caches.getD i default).setIndexBits (sys.caches.getD i default).blockOffsetBits (sys.caches.getD i default).associativity (sys.caches.getD i default).sets true (sys.caches.getD i default).blockedCycles ((sys.caches.getD i default).stats.incrementAccesses.incrementReads.incrementReadMisses))) sys.bus) BusOperation.BusRd address i false 0).sys.caches.getD j default).stateAt si tv
            = (sys.caches.getD j default).stateAt si tv := by
        intro j hj hji si tv hne
        rw [(rstates j hj hji).2 si tv hne, hst1 j hj]
      have hPreSelf : ∀ si tv, ((busOperation (Sys.mk (sys.caches.set i (Cache.mk (sys.caches.getD i default).coreId (sys.caches.getD i default).setIndexBits (sys.caches.getD i default).blockOffsetBits (sys.caches.getD i default).associativity (sys.caches.getD i default).sets true (sys.caches.getD i default).blockedCycles ((sys.caches.getD i default).stats.incrementAccesses.incrementReads.incrementReadMisses))) sys.bus) BusOperation.BusRd address i false 0).sys.caches.getD i default).stateAt si tv
          = (sys.caches.getD i default).stateAt si tv := by
        intro si tv
        rw [rgetI, hg1I]
        rfl
      have hPeerInvTA : (busOperation (Sys.mk (sys.caches.set i (Cache.mk (sys.caches.getD i default).coreId (sys.caches.getD i default).setIndexBits (sys.caches.getD i default).blockOffsetBits (sys.caches.getD i default).associativity (sys.caches.getD i default).sets true (sys.caches.getD i default).blockedCycles ((sys.caches.getD i default).stats.incrementAccesses.incrementReads.incrementReadMisses))) sys.bus) BusOperation.BusRd address i false 0).dataProvided = false → ∀ j, j < n → j ≠ i →
          (sys.caches.getD j default).stateAt (addrSetIdx sb bob address) (addrTag sb bob address) = CacheState.INVALID := by
        intro h0 j hj hji
        have hpb := rdpf h0 j hj hji
        rw [hst1 j hj] at hpb
        exact (providesB_BusRd_false_iff _).mp hpb
      have hSelfTAeq : ((((allocateLine (busOperation (Sys.mk (sys.caches.set i (Cache.mk (sys.caches.getD i default).coreId (sys.caches.getD i default).setIndexBits (sys.caches.getD i default).blockOffsetBits (sys.caches.getD i default).associativity (sys.caches.getD i default).sets true (sys.caches.getD i default).blockedCycles ((sys.caches.getD i default).stats.incrementAccesses.incrementReads.incrementReadMisses))) sys.bus) BusOperation.BusRd address i false 0).sys.caches i address false (busOperation (Sys.mk (sys.caches.set i (Cache.mk (sys.caches.getD i default).coreId (sys.caches.getD i default).setIndexBits (sys.caches.getD i default).blockOffsetBits (sys.caches.getD i default).associativity (sys.caches.getD i default).sets true (sys.caches.getD i default).blockedCycles ((sys.caches.getD i default).stats.incrementAccesses.incrementReads.incrementReadMisses))) sys.bus) BusOperation.BusRd address i false 0).cycles ((busOperation (Sys.mk (sys.caches.set i (Cache.mk (sys.caches.getD i default).coreId (sys.caches.getD i default).setIndexBits (sys.caches.getD i default).blockOffsetBits (sys.caches.getD i default).associativity (sys.caches.getD i default).sets true (sys.caches.getD i default).blockedCycles ((sys.caches.getD i default).stats.incrementAccesses.incrementReads.incrementReadMisses))) sys.bus) BusOperation.BusRd address i false 0).accepted && (busOperation (Sys.mk (sys.caches.set i (Cache.mk (sys.caches.getD i default).coreId (sys.caches.getD i default).setIndexBits (sys.caches.getD i default).blockOffsetBits (sys.caches.getD i default).associativity (sys.caches.getD i default).sets true (sys.caches.getD i default).blockedCycles ((sys.caches.getD i default).stats.incrementAccesses.incrementReads.incrementReadMisses))) sys.bus) BusOperation.BusRd address i false 0).dataProvided)).1.set i { ((allocateLine (busOperation (Sys.mk (sys.caches.set i (Cache.mk (sys.caches.getD i default).coreId (sys.caches.getD i default).setIndexBits (sys.caches.getD i default).blockOffsetBits (sys.caches.getD i default).associativity (sys.caches.getD i default).sets true (sys.caches.getD i default).blockedCycles ((sys.caches.getD i default).stats.incrementAccesses.incrementReads.incrementReadMisses))) sys.bus) BusOperation.BusRd address i false 0).sys.caches i address false (busOperation (Sys.mk (sys.caches.set i (Cache.mk (sys.caches.getD i default).coreId (sys.caches.getD i default).setIndexBits (sys.caches.getD i default).blockOffsetBits (sys.caches.getD i default).associativity (sys.caches.getD i default).sets true (sys.caches.getD i default).blockedCycles ((sys.caches.getD i default).stats.incrementAccesses.incrementReads.incrementReadMisses))) sys.bus) BusOperation.BusRd address i false 0).cycles ((busOperation (Sys.mk (sys.caches.set i (Cache.mk (sys.caches.getD i default).coreId (sys.caches.getD i default).setIndexBits (sys.caches.getD i default).blockOffsetBits (sys.caches.getD i default).associativity (sys.caches.getD i default).sets true (sys.caches.getD i default).blockedCycles ((sys.caches.getD i default).stats.incrementAccesses.incrementReads.incrementReadMisses))) sys.bus) BusOperation.BusRd address i false 0).accepted && (busOperation (Sys.mk (sys.caches.set i (Cache.mk (sys.caches.getD i default).coreId (sys.caches.getD i default).setIndexBits (sys.caches.getD i default).blockOffsetBits (sys.caches.getD i default).associativity (sys.caches.getD i default).sets true (sys.caches.getD i default).blockedCycles ((sys.caches.getD i default).stats.incrementAccesses.incrementReads.incrementReadMisses))) sys.bus) BusOperation.BusRd address i false 0).dataProvided)).1.getD i default) with blockedCycles := ((allocateLine (busOperation (Sys.mk (sys.caches.set i (Cache.mk (sys.caches.getD i default).coreId (sys.caches.getD i default).setIndexBits (sys.caches.getD i default).blockOffsetBits (sys.caches.getD i default).associativity (sys.caches.getD i default).sets true (sys.caches.getD i default).blockedCycles ((sys.caches.getD i default).stats.incrementAccesses.incrementReads.incrementReadMisses))) sys.bus) BusOperation.BusRd address i false 0).sys.caches i address false (busOperation (Sys.mk (sys.caches.set i (Cache.mk (sys.caches.getD i default).coreId (sys.caches.getD i default).setIndexBits (sys.caches.getD i default).blockOffsetBits (sys.caches.getD i default).associativity (sys.caches.getD i default).sets true (sys.caches.getD i default).blockedCycles ((sys.caches.getD i default).stats.incrementAccesses.incrementReads.incrementReadMisses))) sys.bus) BusOperation.BusRd address i false 0).cycles ((busOperation (Sys.mk (sys.caches.set i (Cache.mk (sys.caches.getD i default).coreId (sys.caches.getD i default).setIndexBits (sys.caches.getD i default).blockOffsetBits (sys.caches.getD i default).associativity (sys.caches.getD i default).sets true (sys.caches.getD i default).blockedCycles ((sys.caches.getD i default).stats.incrementAccesses.incrementReads.incrementReadMisses))) sys.bus) BusOperation.BusRd address i false 0).accepted && (busOperation (Sys.mk (sys.caches.set i (Cache.mk (sys.caches.getD i default).coreId (sys.caches.getD i default).setIndexBits (sys.caches.getD i default).blockOffsetBits (sys.caches.getD i default).associativity (sys.caches.getD i default).sets true (sys.caches.getD i default).blockedCycles ((sys.caches.getD i default).stats.incrementAccesses.incrementReads.incrementReadMisses))) sys.bus) BusOperation.BusRd address i false 0).dataProvided)).1.getD i default).blockedCycles + ((allocateLine (busOperation (Sys.mk (sys.caches.set i (Cache.mk (sys.caches.getD i default).coreId (sys.caches.getD i default).setIndexBits (sys.caches.getD i default).blockOffsetBits (sys.caches.getD i default).associativity (sys.caches.getD i default).sets true (sys.caches.getD i default).blockedCycles ((sys.caches.getD i default).stats.incrementAccesses.incrementReads.incrementReadMisses))) sys.bus) BusOperation.BusRd address i false 0).sys.caches i address false (busOperation (Sys.mk (sys.caches.set i (Cache.mk (sys.caches.getD i default).coreId (sys.caches.getD i default).setIndexBits (sys.caches.getD i default).blockOffsetBits (sys.caches.getD i default).associativity (sys.caches.getD i default).sets true (sys.caches.getD i default).blockedCycles ((sys.caches.getD i default).stats.incrementAccesses.incrementReads.incrementReadMisses))) sys.bus) BusOperation.BusRd address i false 0).cycles ((busOperation (Sys.mk (sys.caches.set i (Cache.mk (sys.caches.getD i default).coreId (sys.caches.getD i default).setIndexBits (sys.caches.getD i default).blockOffsetBits (sys.caches.getD i default).associativity (sys.caches.getD i default).sets true (sys.caches.getD i default).blockedCycles ((sys.caches.getD i default).stats.incrementAccesses.incrementReads.incrementReadMisses))) sys.bus) BusOperation.BusRd address i false 0).accepted && (busOperation (Sys.mk (sys.caches.set i (Cache.mk (sys.caches.getD i default).coreId (sys.caches.getD i default).setIndexBits (sys.caches.getD i default).blockOffsetBits (sys.caches.getD i default).associativity (sys.caches.getD i default).sets true (sys.caches.getD i default).blockedCycles ((sys.caches.getD i default).stats.incrementAccesses.incrementReads.incrementReadMisses))) sys.bus) BusOperation.BusRd address i false 0).dataProvided)).2 - 1) }) : List Cache).getD i default).stateAt (addrSetIdx sb bob address) (addrTag sb bob address)
          = (if (busOperation (Sys.mk (sys.caches.set i (Cache.mk (sys.caches.getD i default).coreId (sys.caches.getD i default).setIndexBits (sys.caches.getD i default).blockOffsetBits (sys.caches.getD i default).associativity (sys.caches.getD i default).sets true (sys.caches.getD i default).blockedCycles ((sys.caches.getD i default).stats.incrementAccesses.incrementReads.incrementReadMisses))) sys.bus) BusOperation.BusRd address i false 0).dataProvided = true then CacheState.SHARED
             else CacheState.EXCLUSIVE) := by
        rw [hFself, g3, hbrEq]
        simp only [Bool.false_eq_true, if_false]
      refine ⟨⟨?_, ?_, rbusy, rpend⟩, ?_⟩
      · show (((allocateLine (busOperation (Sys.mk (sys.caches.set i (Cache.mk (sys.caches.getD i default).coreId (sys.caches.getD i default).setIndexBits (sys.caches.getD i default).blockOffsetBits (sys.caches.getD i default).associativity (sys.caches.getD i default).sets true (sys.caches.getD i default).blockedCycles ((sys.caches.getD i default).stats.incrementAccesses.incrementReads.incrementReadMisses))) sys.bus) BusOperation.BusRd address i false 0).sys.caches i address false (busOperation (Sys.mk (sys.caches.set i (Cache.mk (sys.caches.getD i default).coreId (sys.caches.getD i default).setIndexBits (sys.caches.getD i default).blockOffsetBits (sys.caches.getD i default).associativity (sys.caches.getD i default).sets true (sys.caches.getD i default).blockedCycles ((sys.caches.getD i default).stats.incrementAccesses.incrementReads.incrementReadMisses))) sys.bus) BusOperation.BusRd address i false 0).cycles ((busOperation (Sys.mk (sys.caches.set i (Cache.mk (sys.caches.getD i default).coreId (sys.caches.getD i default).setIndexBits (sys.caches.getD i default).blockOffsetBits (sys.caches.getD i default).associativity (sys.caches.getD i default).sets true (sys.caches.getD i default).blockedCycles ((sys.caches.getD i default).stats.incrementAccesses.incrementReads.incrementReadMisses))) sys.bus) BusOperation.BusRd address i false 0).accepted && (busOperation (Sys.mk (sys.caches.set i (Cache.mk (sys.caches.getD i default).coreId (sys.caches.getD i default).setIndexBits (sys.caches.getD i default).blockOffsetBits (sys.caches.getD i default).associativity (sys.caches.getD i default).sets true (sys.caches.getD i default).blockedCycles ((sys.caches.getD i default).stats.incrementAccesses.incrementReads.incrementReadMisses))) sys.bus) BusOperation.BusRd address i false 0).dataProvided)).1.set i { ((allocateLine (busOperation (Sys.mk (sys.caches.set i (Cache.mk (sys.caches.getD i default).coreId (sys.caches.getD i default).setIndexBits (sys.caches.getD i default).blockOffsetBits (sys.caches.getD i default).associativity (sys.caches.getD i default).sets true (sys.caches.getD i default).blockedCycles ((sys.caches.getD i default).stats.incrementAccesses.incrementReads.incrementReadMisses))) sys.bus) BusOperation.BusRd address i false 0).sys.caches i address false (busOperation (Sys.mk (sys.caches.set i (Cache.mk (sys.caches.getD i default).coreId (sys.caches.getD i default).setIndexBits (sys.caches.getD i default).blockOffsetBits (sys.caches.getD i default).associativity (sys.caches.getD i default).sets true (sys.caches.getD i default).blockedCycles ((sys.caches.getD i default).stats.incrementAccesses.incrementReads.incrementReadMisses))) sys.bus) BusOperation.BusRd address i false 0).cycles ((busOperation (Sys.mk (sys.caches.set i (Cache.mk (sys.caches.getD i default).coreId (sys.caches.getD i default).setIndexBits (sys.caches.getD i default).blockOffsetBits (sys.caches.getD i default).associativity (sys.caches.getD i default).sets true (sys.caches.getD i default).blockedCycles ((sys.caches.getD i default).stats.incrementAccesses.incrementReads.incrementReadMisses))) sys.bus) BusOperation.BusRd address i false 0).accepted && (busOperation (Sys.mk (sys.caches.set i (Cache.mk (sys.caches.getD i default).coreId (sys.caches.getD i default).setIndexBits (sys.caches.getD i default).blockOffsetBits (sys.caches.getD i default).associativity (sys.caches.getD i default).sets true (sys.caches.getD i default).blockedCycles ((sys.caches.getD i default).stats.incrementAccesses.incrementReads.incrementReadMisses))) sys.bus) BusOperation.BusRd address i false 0).dataProvided)).1.getD i default) with blockedCycles := ((allocateLine (busOperation (Sys.mk (sys.caches.set i (Cache.mk (sys.caches.getD i default).coreId (sys.caches.getD i default).setIndexBits (sys.caches.getD i default).blockOffsetBits (sys.caches.getD i default).associativity (sys.caches.getD i default).sets true (sys.caches.getD i default).blockedCycles ((sys.caches.getD i default).stats.incrementAccesses.incrementReads.incrementReadMisses))) sys.bus) BusOperation.BusRd address i false 0).sys.caches i address false (busOperation (Sys.mk (sys.caches.set i (Cache.mk (sys.caches.getD i default).coreId (sys.caches.getD i default).setIndexBits (sys.caches.getD i default).blockOffsetBits (sys.caches.getD i default).associativity (sys.caches.getD i default).sets true (sys.caches.getD i default).blockedCycles ((sys.caches.getD i default).stats.incrementAccesses.incrementReads.incrementReadMisses))) sys.bus) BusOperation.BusRd address i false 0).cycles ((busOperation (Sys.mk (sys.caches.set i (Cache.mk (sys.caches.getD i default).coreId (sys.caches.getD i default).setIndexBits (sys.caches.getD i default).blockOffsetBits (sys.caches.getD i default).associativity (sys.caches.getD i default).sets true (sys.caches.getD i default).blockedCycles ((sys.caches.getD i default).stats.incrementAccesses.incrementReads.incrementReadMisses))) sys.bus) BusOperation.BusRd address i false 0).accepted && (busOperation (Sys.mk (sys.caches.set i (Cache.mk (sys.caches.getD i default).coreId (sys.caches.getD i default).setIndexBits (sys.caches.getD i default).blockOffsetBits (sys.caches.getD i default).associativity (sys.caches.getD i default).sets true (sys.caches.getD i default).blockedCycles ((sys.caches.getD i default).stats.incrementAccesses.incrementReads.incrementReadMisses))) sys.bus) BusOperation.BusRd address i false 0).dataProvided)).1.getD i default).blockedCycles + ((allocateLine (busOperation (Sys.mk (sys.caches.set i (Cache.mk (sys.caches.getD i default).coreId (sys.caches.getD i default).setIndexBits (sys.caches.getD i default).blockOffsetBits (sys.caches.getD i default).associativity (sys.caches.getD i default).sets true (sys.caches.getD i default).blockedCycles ((sys.caches.getD i default).stats.incrementAccesses.incrementReads.incrementReadMisses))) sys.bus) BusOperation.BusRd address i false 0).sys.caches i address false (busOperation (Sys.mk (sys.caches.set i (Cache.mk (sys.caches.getD i default).coreId (sys.caches.getD i default).setIndexBits (sys.caches.getD i default).blockOffsetBits (sys.caches.getD i default).associativity (sys.caches.getD i default).sets true (sys.caches.getD i default).blockedCycles ((sys.caches.getD i default).stats.incrementAccesses.incrementReads.incrementReadMisses))) sys.bus) BusOperation.BusRd address i false 0).cycles ((busOperation (Sys.mk (sys.caches.set i (Cache.mk (sys.caches.getD i default).coreId (sys.caches.getD i default).setIndexBits (sys.caches.getD i default).blockOffsetBits (sys.caches.getD i default).associativity (sys.caches.getD i default).sets true (sys.caches.getD i default).blockedCycles ((sys.caches.getD i default).stats.incrementAccesses.incrementReads.incrementReadMisses))) sys.bus) BusOperation.BusRd address i false 0).accepted && (busOperation (Sys.mk (sys.caches.set i (Cache.mk (sys.caches.getD i default).coreId (sys.caches.getD i default).setIndexBits (sys.caches.getD i default).blockOffsetBits (sys.caches.getD i default).associativity (sys.caches.getD i default).sets true (sys.caches.getD i default).blockedCycles ((sys.caches.getD i default).stats.incrementAccesses.incrementReads.incrementReadMisses))) sys.bus) BusOperation.BusRd address i false 0).dataProvided)).2 - 1) }) : List Cache).length = n
        rw [List.length_set]
        exact g1
      · intro j hj
        show CacheWF sb bob assoc j ((((allocateLine (busOperation (Sys.mk (sys.caches.set i (Cache.mk (sys.caches.getD i default).coreId (sys.caches.getD i default).setIndexBits (sys.caches.getD i default).blockOffsetBits (sys.caches.getD i default).associativity (sys.caches.getD i default).sets true (sys.caches.getD i default).blockedCycles ((sys.caches.getD i default).stats.incrementAccesses.incrementReads.incrementReadMisses))) sys.bus) BusOperation.BusRd address i false 0).sys.caches i address false (busOperation (Sys.mk (sys.caches.set i (Cache.mk (sys.caches.getD i default).coreId (sys.caches.getD i default).setIndexBits (sys.caches.getD i default).blockOffsetBits (sys.caches.getD i default).associativity (sys.caches.getD i default).sets true (sys.caches.getD i default).blockedCycles ((sys.caches.getD i default).stats.incrementAccesses.incrementReads.incrementReadMisses))) sys.bus) BusOperation.BusRd address i false 0).cycles ((busOperation (Sys.mk (sys.caches.set i (Cache.mk (sys.caches.getD i default).coreId (sys.caches.getD i default).setIndexBits (sys.caches.getD i default).blockOffsetBits (sys.caches.getD i default).associativity (sys.caches.getD i default).sets true (sys.caches.getD i default).blockedCycles ((sys.caches.getD i default).stats.incrementAccesses.incrementReads.incrementReadMisses))) sys.bus) BusOperation.BusRd address i false 0).accepted && (busOperation (Sys.mk (sys.caches.set i (Cache.mk (sys.caches.getD i default).coreId (sys.caches.getD i default).setIndexBits (sys.caches.getD i default).blockOffsetBits (sys.caches.getD i default).associativity (sys.caches.getD i default).sets true (sys.caches.getD i default).blockedCycles ((sys.caches.getD i default).stats.incrementAccesses.incrementReads.incrementReadMisses))) sys.bus) BusOperation.BusRd address i false 0).dataProvided)).1.set i { ((allocateLine (busOperation (Sys.mk (sys.caches.set i (Cache.mk (sys.caches.getD i default).coreId (sys.caches.getD i default).setIndexBits (sys.caches.getD i default).blockOffsetBits (sys.caches.getD i default).associativity (sys.caches.getD i default).sets true (sys.caches.getD i default).blockedCycles ((sys.caches.getD i default).stats.incrementAccesses.incrementReads.incrementReadMisses))) sys.bus) BusOperation.BusRd address i false 0).sys.caches i address false (busOperation (Sys.mk (sys.caches.set i (Cache.mk (sys.caches.getD i default).coreId (sys.caches.getD i default).setIndexBits (sys.caches.getD i default).blockOffsetBits (sys.caches.getD i default).associativity (sys.caches.getD i default).sets true (sys.caches.getD i default).blockedCycles ((sys.caches.getD i default).stats.incrementAccesses.incrementReads.incrementReadMisses))) sys.bus) BusOperation.BusRd address i false 0).cycles ((busOperation (Sys.mk (sys.caches.set i (Cache.mk (sys.caches.getD i default).coreId (sys.caches.getD i default).setIndexBits (sys.caches.getD i default).blockOffsetBits (sys.caches.getD i default).associativity (sys.caches.getD i default).sets true (sys.caches.getD i default).blockedCycles ((sys.caches.getD i default).stats.incrementAccesses.incrementReads.incrementReadMisses))) sys.bus) BusOperation.BusRd address i false 0).accepted && (busOperation (Sys.mk (sys.caches.set i (Cache.mk (sys.caches.getD i default).coreId (sys.caches.getD i default).setIndexBits (sys.caches.getD i default).blockOffsetBits (sys.caches.getD i default).associativity (sys.caches.getD i default).sets true (sys.caches.getD i default).blockedCycles ((sys.caches.getD i default).stats.incrementAccesses.incrementReads.incrementReadMisses))) sys.bus) BusOperation.BusRd address i false 0).dataProvided)).1.getD i default) with blockedCycles := ((allocateLine (busOperation (Sys.mk (sys.caches.set i (Cache.mk (sys.caches.getD i default).coreId (sys.caches.getD i default).setIndexBits (sys.caches.getD i default).blockOffsetBits (sys.caches.getD i default).associativity (sys.caches.getD i default).sets true (sys.caches.getD i default).blockedCycles ((sys.caches.getD i default).stats.incrementAccesses.incrementReads.incrementReadMisses))) sys.bus) BusOperation.BusRd address i false 0).sys.caches i address false (busOperation (Sys.mk (sys.caches.set i (Cache.mk (sys.caches.getD i default).coreId (sys.caches.getD i default).setIndexBits (sys.caches.getD i default).blockOffsetBits (sys.caches.getD i default).associativity (sys.caches.getD i default).sets true (sys.caches.getD i default).blockedCycles ((sys.caches.getD i default).stats.incrementAccesses.incrementReads.incrementReadMisses))) sys.bus) BusOperation.BusRd address i false 0).cycles ((busOperation (Sys.mk (sys.caches.set i (Cache.mk (sys.caches.getD i default).coreId (sys.caches.getD i default).setIndexBits (sys.caches.getD i default).blockOffsetBits (sys.caches.getD i default).associativity (sys.caches.getD i default).sets true (sys.caches.getD i default).blockedCycles ((sys.caches.getD i default).stats.incrementAccesses.incrementReads.incrementReadMisses))) sys.bus) BusOperation.BusRd address i false 0).accepted && (busOperation (Sys.mk (sys.caches.set i (Cache.mk (sys.caches.getD i default).coreId (sys.caches.getD i default).setIndexBits (sys.caches.getD i default).blockOffsetBits (sys.caches.getD i default).associativity (sys.caches.getD i default).sets true (sys.caches.getD i default).blockedCycles ((sys.caches.getD i default).stats.incrementAccesses.incrementReads.incrementReadMisses))) sys.bus) BusOperation.BusRd address i false 0).dataProvided)).1.getD i default).blockedCycles + ((allocateLine (busOperation (Sys.mk (sys.caches.set i (Cache.mk (sys.caches.getD i default).coreId (sys.caches.getD i default).setIndexBits (sys.caches.getD i default).blockOffsetBits (sys.caches.getD i default).associativity (sys.caches.getD i default).sets true (sys.caches.getD i default).blockedCycles ((sys.caches.getD i default).stats.incrementAccesses.incrementReads.incrementReadMisses))) sys.bus) BusOperation.BusRd address i false 0).sys.caches i address false (busOperation (Sys.mk (sys.caches.set i (Cache.mk (sys.caches.getD i default).coreId (sys.caches.getD i default).setIndexBits (sys.caches.getD i default).blockOffsetBits (sys.caches.getD i default).associativity (sys.caches.getD i default).sets true (sys.caches.getD i default).blockedCycles ((sys.caches.getD i default).stats.incrementAccesses.incrementReads.incrementReadMisses))) sys.bus) BusOperation.BusRd address i false 0).cycles ((busOperation (Sys.mk (sys.caches.set i (Cache.mk (sys.caches.getD i default).coreId (sys.caches.getD i default).setIndexBits (sys.caches.getD i default).blockOffsetBits (sys.caches.getD i default).associativity (sys.caches.getD i default).sets true (sys.caches.getD i default).blockedCycles ((sys.caches.getD i default).stats.incrementAccesses.incrementReads.incrementReadMisses))) sys.bus) BusOperation.BusRd address i false 0).accepted && (busOperation (Sys.mk (sys.caches.set i (Cache.mk (sys.caches.getD i default).coreId (sys.caches.getD i default).setIndexBits (sys.caches.getD i default).blockOffsetBits (sys.caches.getD i default).associativity (sys.caches.getD i default).sets true (sys.caches.getD i default).blockedCycles ((sys.caches.getD i default).stats.incrementAccesses.incrementReads.incrementReadMisses))) sys.bus) BusOperation.BusRd address i false 0).dataProvided)).2 - 1) }) : List Cache).getD j default)
        by_cases hji : j = i
        · rw [hji, hFgI]
          exact g2 i hi
        · rw [hFgJ j hji]
          exact g2 j hj
      · show MesiOK n (((allocateLine (busOperation (Sys.mk (sys.caches.set i (Cache.mk (sys.caches.getD i default).coreId (sys.caches.getD i default).setIndexBits (sys.caches.getD i default).blockOffsetBits (sys.caches.getD i default).associativity (sys.caches.getD i default).sets true (sys.caches.getD i default).blockedCycles ((sys.caches.getD i default).stats.incrementAccesses.incrementReads.incrementReadMisses))) sys.bus) BusOperation.BusRd address i false 0).sys.caches i address false (busOperation (Sys.mk (sys.caches.set i (Cache.mk (sys.caches.getD i default).coreId (sys.caches.getD i default).setIndexBits (sys.caches.getD i default).blockOffsetBits (sys.caches.getD i default).associativity (sys.caches.getD i default).sets true (sys.caches.getD i default).blockedCycles ((sys.caches.getD i default).stats.incrementAccesses.incrementReads.incrementReadMisses))) sys.bus) BusOperation.BusRd address i false 0).cycles ((busOperation (Sys.mk (sys.caches.set i (Cache.mk (sys.caches.getD i default).coreId (sys.caches.getD i default).setIndexBits (sys.caches.getD i default).blockOffsetBits (sys.caches.getD i default).associativity (sys.caches.getD i default).sets true (sys.caches.getD i default).blockedCycles ((sys.caches.getD i default).stats.incrementAccesses.incrementReads.incrementReadMisses))) sys.bus) BusOperation.BusRd address i false 0).accepted && (busOperation (Sys.mk (sys.caches.set i (Cache.mk (sys.caches.getD i default).coreId (sys.caches.getD i default).setIndexBits (sys.caches.getD i default).blockOffsetBits (sys.caches.getD i default).associativity (sys.caches.getD i default).sets true (sys.caches.getD i default).blockedCycles ((sys.caches.getD i default).stats.incrementAccesses.incrementReads.incrementReadMisses))) sys.bus) BusOperation.BusRd address i false 0).dataProvided)).1.set i { ((allocateLine (busOperation (Sys.mk (sys.caches.set i (Cache.mk (sys.caches.getD i default).coreId (sys.caches.getD i default).setIndexBits (sys.caches.getD i default).blockOffsetBits (sys.caches.getD i default).associativity (sys.caches.getD i default).sets true (sys.caches.getD i default).blockedCycles ((sys.caches.getD i default).stats.incrementAccesses.incrementReads.incrementReadMisses))) sys.bus) BusOperation.BusRd address i false 0).sys.caches i address false (busOperation (Sys.mk (sys.caches.set i (Cache.mk (sys.caches.getD i default).coreId (sys.caches.getD i default).setIndexBits (sys.caches.getD i default).blockOffsetBits (sys.caches.getD i default).associativity (sys.caches.getD i default).sets true (sys.caches.getD i default).blockedCycles ((sys.caches.getD i default).stats.incrementAccesses.incrementReads.incrementReadMisses))) sys.bus) BusOperation.BusRd address i false 0).cycles ((busOperation (Sys.mk (sys.caches.set i (Cache.mk (sys.caches.getD i default).coreId (sys.caches.getD i default).setIndexBits (sys.caches.getD i default).blockOffsetBits (sys.caches.getD i default).associativity (sys.caches.getD i default).sets true (sys.caches.getD i default).blockedCycles ((sys.caches.getD i default).stats.incrementAccesses.incrementReads.incrementReadMisses))) sys.bus) BusOperation.BusRd address i false 0).accepted && (busOperation (Sys.mk (sys.caches.set i (Cache.mk (sys.caches.getD i default).coreId (sys.caches.getD i default).setIndexBits (sys.caches.getD i default).blockOffsetBits (sys.caches.getD i default).associativity (sys.caches.getD i default).sets true (sys.caches.getD i default).blockedCycles ((sys.caches.getD i default).stats.incrementAccesses.incrementReads.incrementReadMisses))) sys.bus) BusOperation.BusRd address i false 0).dataProvided)).1.getD i default) with blockedCycles := ((allocateLine (busOperation (Sys.mk (sys.caches.set i (Cache.mk (sys.caches.getD i default).coreId (sys.caches.getD i default).setIndexBits (sys.caches.getD i default).blockOffsetBits (sys.caches.getD i default).associativity (sys.caches.getD i default).sets true (sys.caches.getD i default).blockedCycles ((sys.caches.getD i default).stats.incrementAccesses.incrementReads.incrementReadMisses))) sys.bus) BusOperation.BusRd address i false 0).sys.caches i address false (busOperation (Sys.mk (sys.caches.set i (Cache.mk (sys.caches.getD i default).coreId (sys.caches.getD i default).setIndexBits (sys.caches.getD i default).blockOffsetBits (sys.caches.getD i default).associativity (sys.caches.getD i default).sets true (sys.caches.getD i default).blockedCycles ((sys.caches.getD i default).stats.incrementAccesses.incrementReads.incrementReadMisses))) sys.bus) BusOperation.BusRd address i false 0).cycles ((busOperation (Sys.mk (sys.caches.set i (Cache.mk (sys.caches.getD i default).coreId (sys.caches.getD i default).setIndexBits (sys.caches.getD i default).blockOffsetBits (sys.caches.getD i default).associativity (sys.caches.getD i default).sets true (sys.caches.getD i default).blockedCycles ((sys.caches.getD i default).stats.incrementAccesses.incrementReads.incrementReadMisses))) sys.bus) BusOperation.BusRd address i false 0).accepted && (busOperation (Sys.mk (sys.caches.set i (Cache.mk (sys.caches.getD i default).coreId (sys.caches.getD i default).setIndexBits (sys.caches.getD i default).blockOffsetBits (sys.caches.getD i default).associativity (sys.caches.getD i default).sets true (sys.caches.getD i default).blockedCycles ((sys.caches.getD i default).stats.incrementAccesses.incrementReads.incrementReadMisses))) sys.bus) BusOperation.BusRd address i false 0).dataProvided)).1.getD i default).blockedCycles + ((allocateLine (busOperation (Sys.mk (sys.caches.set i (Cache.mk (sys.caches.getD i default).coreId (sys.caches.getD i default).setIndexBits (sys.caches.getD i default).blockOffsetBits (sys.caches.getD i default).associativity (sys.caches.getD i default).sets true (sys.caches.getD i default).blockedCycles ((sys.caches.getD i default).stats.incrementAccesses.incrementReads.incrementReadMisses))) sys.bus) BusOperation.BusRd address i false 0).sys.caches i address false (busOperation (Sys.mk (sys.caches.set i (Cache.mk (sys.caches.getD i default).coreId (sys.caches.getD i default).setIndexBits (sys.caches.getD i default).blockOffsetBits (sys.caches.getD i default).associativity (sys.caches.getD i default).sets true (sys.caches.getD i default).blockedCycles ((sys.caches.getD i default).stats.incrementAccesses.incrementReads.incrementReadMisses))) sys.bus) BusOperation.BusRd address i false 0).cycles ((busOperation (Sys.mk (sys.caches.set i (Cache.mk (sys.caches.getD i default).coreId (sys.caches.getD i default).setIndexBits (sys.caches.getD i default).blockOffsetBits (sys.caches.getD i default).associativity (sys.caches.getD i default).sets true (sys.caches.getD i default).blockedCycles ((sys.caches.getD i default).stats.incrementAccesses.incrementReads.incrementReadMisses))) sys.bus) BusOperation.BusRd address i false 0).accepted && (busOperation (Sys.mk (sys.caches.set i (Cache.mk (sys.caches.getD i default).coreId (sys.caches.getD i default).setIndexBits (sys.caches.getD i default).blockOffsetBits (sys.caches.getD i default).associativity (sys.caches.getD i default).sets true (sys.caches.getD i default).blockedCycles ((sys.caches.getD i default).stats.incrementAccesses.incrementReads.incrementReadMisses))) sys.bus) BusOperation.BusRd address i false 0).dataProvided)).2 - 1) }) : List Cache)
        intro si tv a b ha hb hab hME
        rcases g5 with ⟨hunchS, hunchP⟩ | ⟨vt, hvtne, hInvVt, hunchS2, hrest⟩
        · have hPeerF : ∀ j, j < n → j ≠ i → (((allocateLine (busOperation (Sys.mk (sys.caches.set i (Cache.mk (sys.caches.getD i default).coreId (sys.caches.getD i default).setIndexBits (sys.caches.getD i default).blockOffsetBits (sys.caches.getD i default).associativity (sys.caches.getD i default).sets true (sys.caches.getD i default).blockedCycles ((sys.caches.getD i default).stats.incrementAccesses.incrementReads.incrementReadMisses))) sys.bus) BusOperation.BusRd address i false 0).sys.caches i address false (busOperation (Sys.mk (sys.caches.set i (Cache.mk (sys.caches.getD i default).coreId (sys.caches.getD i default).setIndexBits (sys.caches.getD i default).blockOffsetBits (sys.caches.getD i default).associativity (sys.caches.getD i default).sets true (sys.caches.getD i default).blockedCycles ((sys.caches.getD i default).stats.incrementAccesses.incrementReads.incrementReadMisses))) sys.bus) BusOperation.BusRd address i false 0).cycles ((busOperation (Sys.mk (sys.caches.set i (Cache.mk (sys.caches.getD i default).coreId (sys.caches.getD i default).setIndexBits (sys.caches.getD i default).blockOffsetBits (sys.caches.getD i default).associativity (sys.caches.getD i default).sets true (sys.caches.getD i default).blockedCycles ((sys.caches.getD i default).stats.incrementAccesses.incrementReads.incrementReadMisses))) sys.bus) BusOperation.BusRd address i false 0).accepted && (busOperation (Sys.mk (sys.caches.set i (Cache.mk (sys.caches.getD i default).coreId (sys.caches.getD i default).setIndexBits (sys.caches.getD i default).blockOffsetBits (sys.caches.getD i default).associativity (sys.caches.getD i default).sets true (sys.caches.getD i default).blockedCycles ((sys.caches.getD i default).stats.incrementAccesses.incrementReads.incrementReadMisses))) sys.bus) BusOperation.BusRd address i false 0).dataProvided)).1.set i { ((allocateLine (busOperation (Sys.mk (sys.caches.set i (Cache.mk (sys.caches.getD i default).coreId (sys.caches.getD i default).setIndexBits (sys.caches.getD i default).blockOffsetBits (sys.caches.getD i default).associativity (sys.caches.getD i default).sets true (sys.caches.getD i default).blockedCycles ((sys.caches.getD i default).stats.incrementAccesses.incrementReads.incrementReadMisses))) sys.bus) BusOperation.BusRd address i false 0).sys.caches i address false (busOperation (Sys.mk (sys.caches.set i (Cache.mk (sys.caches.getD i default).coreId (sys.caches.getD i default).setIndexBits (sys.caches.getD i default).blockOffsetBits (sys.caches.getD i default).associativity (sys.caches.getD i default).sets true (sys.caches.getD i default).blockedCycles ((sys.caches.getD i default).stats.incrementAccesses.incrementReads.incrementReadMisses))) sys.bus) BusOperation.BusRd address i false 0).cycles ((busOperation (Sys.mk (sys.caches.set i (Cache.mk (sys.caches.getD i default).coreId (sys.caches.getD i default).setIndexBits (sys.caches.getD i default).blockOffsetBits (sys.caches.getD i default).associativity (sys.caches.getD i default).sets true (sys.caches.getD i default).blockedCycles ((sys.caches.getD i default).stats.incrementAccesses.incrementReads.incrementReadMisses))) sys.bus) BusOperation.BusRd address i false 0).accepted && (busOperation (Sys.mk (sys.caches.set i (Cache.mk (sys.caches.getD i default).coreId (sys.caches.getD i default).setIndexBits (sys.caches.getD i default).blockOffsetBits (sys.caches.getD i default).associativity (sys.caches.getD i default).sets true (sys.caches.getD i default).blockedCycles ((sys.caches.getD i default).stats.incrementAccesses.incrementReads.incrementReadMisses))) sys.bus) BusOperation.BusRd address i false 0).dataProvided)).1.getD i default) with blockedCycles := ((allocateLine (busOperation (Sys.mk (sys.caches.set i (Cache.mk (sys.caches.getD i default).coreId (sys.caches.getD i default).setIndexBits (sys.caches.getD i default).blockOffsetBits (sys.caches.getD i default).associativity (sys.caches.getD i default).sets true (sys.caches.getD i default).blockedCycles ((sys.caches.getD i default).stats.incrementAccesses.incrementReads.incrementReadMisses))) sys.bus) BusOperation.BusRd address i false 0).sys.caches i address false (busOperation (Sys.mk (sys.caches.set i (Cache.mk (sys.caches.getD i default).coreId (sys.caches.getD i default).setIndexBits (sys.caches.getD i default).blockOffsetBits (sys.caches.getD i default).associativity (sys.caches.getD i default).sets true (sys.caches.getD i default).blockedCycles ((sys.caches.getD i default).stats.incrementAccesses.incrementReads.incrementReadMisses))) sys.bus) BusOperation.BusRd address i false 0).cycles ((busOperation (Sys.mk (sys.caches.set i (Cache.mk (sys.caches.getD i default).coreId (sys.caches.getD i default).setIndexBits (sys.caches.getD i default).blockOffsetBits (sys.caches.getD i default).associativity (sys.caches.getD i default).sets true (sys.caches.getD i default).blockedCycles ((sys.caches.getD i default).stats.incrementAccesses.incrementReads.incrementReadMisses))) sys.bus) BusOperation.BusRd address i false 0).accepted && (busOperation (Sys.mk (sys.caches.set i (Cache.mk (sys.caches.getD i default).coreId (sys.caches.getD i default).setIndexBits (sys.caches.getD i default).blockOffsetBits (sys.caches.getD i default).associativity (sys.caches.getD i default).sets true (sys.caches.getD i default).blockedCycles ((sys.caches.getD i default).stats.incrementAccesses.incrementReads.incrementReadMisses))) sys.bus) BusOperation.BusRd address i false 0).dataProvided)).1.getD i default).blockedCycles + ((allocateLine (busOperation (Sys.mk (sys.caches.set i (Cache.mk (sys.caches.getD i default).coreId (sys.caches.getD i default).setIndexBits (sys.caches.getD i default).blockOffsetBits (sys.caches.getD i default).associativity (sys.caches.getD i default).sets true (sys.caches.getD i default).blockedCycles ((sys.caches.getD i default).stats.incrementAccesses.incrementReads.incrementReadMisses))) sys.bus) BusOperation.BusRd address i false 0).sys.caches i address false (busOperation (Sys.mk (sys.caches.set i (Cache.mk (sys.caches.getD i default).coreId (sys.caches.getD i default).setIndexBits (sys.caches.getD i default).blockOffsetBits (sys.caches.getD i default).associativity (sys.caches.getD i default).sets true (sys.caches.getD i default).blockedCycles ((sys.caches.getD i default).stats.incrementAccesses.incrementReads.incrementReadMisses))) sys.bus) BusOperation.BusRd address i false 0).cycles ((busOperation (Sys.mk (sys.caches.set i (Cache.mk (sys.caches.getD i default).coreId (sys.caches.getD i default).setIndexBits (sys.caches.getD i default).blockOffsetBits (sys.caches.getD i default).associativity (sys.caches.getD i default).sets true (sys.caches.getD i default).blockedCycles ((sys.caches.getD i default).stats.incrementAccesses.incrementReads.incrementReadMisses))) sys.bus) BusOperation.BusRd address i false 0).accepted && (busOperation (Sys.mk (sys.caches.set i (Cache.mk (sys.caches.getD i default).coreId (sys.caches.getD i default).setIndexBits (sys.caches.getD i default).blockOffsetBits (sys.caches.getD i default).associativity (sys.caches.getD i default).sets true (sys.caches.getD i default).blockedCycles ((sys.caches.getD i default).stats.incrementAccesses.incrementReads.incrementReadMisses))) sys.bus) BusOperation.BusRd address i false 0).dataProvided)).2 - 1) }) : List Cache).getD j default
              = (busOperation (Sys.mk (sys.caches.set i (Cache.mk (sys.caches.getD i default).coreId (sys.caches.getD i default).setIndexBits (sys.caches.getD i default).blockOffsetBits (sys.caches.getD i default).associativity (sys.caches.getD i default).sets true (sys.caches.getD i default).blockedCycles ((sys.caches.getD i default).stats.incrementAccesses.incrementReads.incrementReadMisses))) sys.bus) BusOperation.BusRd address i false 0).sys.caches.getD j default := by
            intro j hj hji
            rw [hFgJ j hji]
            exact hunchP j hji
          have hPTA : ∀ j, j < n → j ≠ i →
              ((((allocateLine (busOperation (Sys.mk (sys.caches.set i (Cache.mk (sys.caches.getD i default).coreId (sys.caches.getD i default).setIndexBits (sys.caches.getD i default).blockOffsetBits (sys.caches.getD i default).associativity (sys.caches.getD i default).sets true (sys.caches.getD i default).blockedCycles ((sys.caches.getD i default).stats.incrementAccesses.incrementReads.incrementReadMisses))) sys.bus) BusOperation.BusRd address i false 0).sys.caches i address false (busOperation (Sys.mk (sys.caches.set i (Cache.mk (sys.caches.getD i default).coreId (sys.caches.getD i default).setIndexBits (sys.caches.getD i default).blockOffsetBits (sys.caches.getD i default).associativity (sys.caches.getD i default).sets true (sys.caches.getD i default).blockedCycles ((sys.caches.getD i default).stats.incrementAccesses.incrementReads.incrementReadMisses))) sys.bus) BusOperation.BusRd address i false 0).cycles ((busOperation (Sys.mk (sys.caches.set i (Cache.mk (sys.caches.getD i default).coreId (sys.caches.getD i default).setIndexBits (sys.caches.getD i default).blockOffsetBits (sys.caches.getD i default).associativity (sys.caches.getD i default).sets true (sys.caches.getD i default).blockedCycles ((sys.caches.getD i default).stats.incrementAccesses.incrementReads.incrementReadMisses))) sys.bus) BusOperation.BusRd address i false 0).accepted && (busOperation (Sys.mk (sys.caches.set i (Cache.mk (sys.caches.getD i default).coreId (sys.caches.getD i default).setIndexBits (sys.caches.getD i default).blockOffsetBits (sys.caches.getD i default).associativity (sys.caches.getD i default).sets true (sys.caches.getD i default).blockedCycles ((sys.caches.getD i default).stats.incrementAccesses.incrementReads.incrementReadMisses))) sys.bus) BusOperation.BusRd address i false 0).dataProvided)).1.set i { ((allocateLine (busOperation (Sys.mk (sys.caches.set i (Cache.mk (sys.caches.getD i default).coreId (sys.caches.getD i default).setIndexBits (sys.caches.getD i default).blockOffsetBits (sys.caches.getD i default).associativity (sys.caches.getD i default).sets true (sys.caches.getD i default).blockedCycles ((sys.caches.getD i default).stats.incrementAccesses.incrementReads.incrementReadMisses))) sys.bus) BusOperation.BusRd address i false 0).sys.caches i address false (busOperation (Sys.mk (sys.caches.set i (Cache.mk (sys.caches.getD i default).coreId (sys.caches.getD i default).setIndexBits (sys.caches.getD i default).blockOffsetBits (sys.caches.getD i default).associativity (sys.caches.getD i default).sets true (sys.caches.getD i default).blockedCycles ((sys.caches.getD i default).stats.incrementAccesses.incrementReads.incrementReadMisses))) sys.bus) BusOperation.BusRd address i false 0).cycles ((busOperation (Sys.mk (sys.caches.set i (Cache.mk (sys.caches.getD i default).coreId (sys.caches.getD i default).setIndexBits (sys.caches.getD i default).blockOffsetBits (sys.caches.getD i default).associativity (sys.caches.getD i default).sets true (sys.caches.getD i default).blockedCycles ((sys.caches.getD i default).stats.incrementAccesses.incrementReads.incrementReadMisses))) sys.bus) BusOperation.BusRd address i false 0).accepted && (busOperation (Sys.mk (sys.caches.set i (Cache.mk (sys.caches.getD i default).coreId (sys.caches.getD i default).setIndexBits (sys.caches.getD i default).blockOffsetBits (sys.caches.getD i default).associativity (sys.caches.getD i default).sets true (sys.caches.getD i default).blockedCycles ((sys.caches.getD i default).stats.incrementAccesses.incrementReads.incrementReadMisses))) sys.bus) BusOperation.BusRd address i false 0).dataProvided)).1.getD i default) with blockedCycles := ((allocateLine (busOperation (Sys.mk (sys.caches.set i (Cache.mk (sys.caches.getD i default).coreId (sys.caches.getD i default).setIndexBits (sys.caches.getD i default).blockOffsetBits (sys.caches.getD i default).associativity (sys.caches.getD i default).sets true (sys.caches.getD i default).blockedCycles ((sys.caches.getD i default).stats.incrementAccesses.incrementReads.incrementReadMisses))) sys.bus) BusOperation.BusRd address i false 0).sys.caches i address false (busOperation (Sys.mk (sys.caches.set i (Cache.mk (sys.caches.getD i default).coreId (sys.caches.getD i default).setIndexBits (sys.caches.getD i default).blockOffsetBits (sys.caches.getD i default).associativity (sys.caches.getD i default).sets true (sys.caches.getD i default).blockedCycles ((sys.caches.getD i default).stats.incrementAccesses.incrementReads.incrementReadMisses))) sys.bus) BusOperation.BusRd address i false 0).cycles ((busOperation (Sys.mk (sys.caches.set i (Cache.mk (sys.caches.getD i default).coreId (sys.caches.getD i default).setIndexBits (sys.caches.getD i default).blockOffsetBits (sys.caches.getD i default).associativity (sys.caches.getD i default).sets true (sys.caches.getD i default).blockedCycles ((sys.caches.getD i default).stats.incrementAccesses.incrementReads.incrementReadMisses))) sys.bus) BusOperation.BusRd address i false 0).accepted && (busOperation (Sys.mk (sys.caches.set i (Cache.mk (sys.caches.getD i default).coreId (sys.caches.getD i default).setIndexBits (sys.caches.getD i default).blockOffsetBits (sys.caches.getD i default).associativity (sys.caches.getD i default).sets true (sys.caches.getD i default).blockedCycles ((sys.caches.getD i default).stats.incrementAccesses.incrementReads.incrementReadMisses))) sys.bus) BusOperation.BusRd address i false 0).dataProvided)).1.getD i default).blockedCycles + ((allocateLine (busOperation (Sys.mk (sys.caches.set i (Cache.mk (sys.caches.getD i default).coreId (sys.caches.getD i default).setIndexBits (sys.caches.getD i default).blockOffsetBits (sys.caches.getD i default).associativity (sys.caches.getD i default).sets true (sys.caches.getD i default).blockedCycles ((sys.caches.getD i default).stats.incrementAccesses.incrementReads.incrementReadMisses))) sys.bus) BusOperation.BusRd address i false 0).sys.caches i address false (busOperation (Sys.mk (sys.caches.set i (Cache.mk (sys.caches.getD i default).coreId (sys.caches.getD i default).setIndexBits (sys.caches.getD i default).blockOffsetBits (sys.caches.getD i default).associativity (sys.caches.getD i default).sets true (sys.caches.getD i default).blockedCycles ((sys.caches.getD i default).stats.incrementAccesses.incrementReads.incrementReadMisses))) sys.bus) BusOperation.BusRd address i false 0).cycles ((busOperation (Sys.mk (sys.caches.set i (Cache.mk (sys.caches.getD i default).coreId (sys.caches.getD i default).setIndexBits (sys.caches.getD i default).blockOffsetBits (sys.caches.getD i default).associativity (sys.caches.getD i default).sets true (sys.caches.getD i default).blockedCycles ((sys.caches.getD i default).stats.incrementAccesses.incrementReads.incrementReadMisses))) sys.bus) BusOperation.BusRd address i false 0).accepted && (busOperation (Sys.mk (sys.caches.set i (Cache.mk (sys.caches.getD i default).coreId (sys.caches.getD i default).setIndexBits (sys.caches.getD i default).blockOffsetBits (sys.caches.getD i default).associativity (sys.caches.getD i default).sets true (sys.caches.getD i default).blockedCycles ((sys.caches.getD i default).stats.incrementAccesses.incrementReads.incrementReadMisses))) sys.bus) BusOperation.BusRd address i false 0).dataProvided)).2 - 1) }) : List Cache).getD j default).stateAt (addrSetIdx sb bob address) (addrTag sb bob address)
                = snoopNext BusOperation.BusRd
                    ((sys.caches.getD j default).stateAt (addrSetIdx sb bob address) (addrTag sb bob address)) := by
            intro j hj hji
            rw [hPeerF j hj hji, hPreTA j hj hji]
          by_cases hTA : si = (addrSetIdx sb bob address) ∧ tv = (addrTag sb bob address)
          · obtain ⟨h1, h2⟩ := hTA
            subst h1
            subst h2
            rcases Bool.eq_false_or_eq_true (busOperation (Sys.mk (sys.caches.set i (Cache.mk (sys.caches.getD i default).coreId (sys.caches.getD i default).setIndexBits (sys.caches.getD i default).blockOffsetBits (sys.caches.getD i default).associativity (sys.caches.getD i default).sets true (sys.caches.getD i default).blockedCycles ((sys.caches.getD i default).stats.incrementAccesses.incrementReads.incrementReadMisses))) sys.bus) BusOperation.BusRd address i false 0).dataProvided with hdp | hdp
            · exfalso
              by_cases hai : a = i
              · rw [hai] at hME
                rw [hSelfTAeq, hdp] at hME
                simp at hME
              · rw [hPTA a ha hai] at hME
                rcases hME with h | h
                · exact snoopNext_BusRd_not_M _ h
                · exact snoopNext_BusRd_not_E _ h
            · by_cases hbi : b = i
              · exfalso
                have hai : a ≠ i := by rw [← hbi]; exact hab
                rw [hPTA a ha hai, hPeerInvTA hdp a ha hai, snoopNext_INVALID] at hME
                rcases hME with h | h
                · cases h
                · cases h
              · rw [hPTA b hb hbi, hPeerInvTA hdp b hb hbi, snoopNext_INVALID]
          · have hne : si ≠ (addrSetIdx sb bob address) ∨ tv ≠ (addrTag sb bob address) := not_and_or.mp hTA
            have hstF : ∀ j, j < n → ((((allocateLine (busOperation (Sys.mk (sys.caches.set i (Cache.mk (sys.caches.getD i default).coreId (sys.caches.getD i default).setIndexBits (sys.caches.getD i default).blockOffsetBits (sys.caches.getD i default).associativity (sys.caches.getD i default).sets true (sys.caches.getD i default).blockedCycles ((sys.caches.getD i default).stats.incrementAccesses.incrementReads.incrementReadMisses))) sys.bus) BusOperation.BusRd address i false 0).sys.caches i address false (busOperation (Sys.mk (sys.caches.set i (Cache.mk (sys.caches.getD i default).coreId (sys.caches.getD i default).setIndexBits (sys.caches.getD i default).blockOffsetBits (sys.caches.getD i default).associativity (sys.caches.getD i default).sets true (sys.caches.getD i default).blockedCycles ((sys.caches.getD i default).stats.incrementAccesses.incrementReads.incrementReadMisses))) sys.bus) BusOperation.BusRd address i false 0).cycles ((busOperation (Sys.mk (sys.caches.set i (Cache.mk (sys.caches.getD i default).coreId (sys.caches.getD i default).setIndexBits (sys.caches.getD i default).blockOffsetBits (sys.caches.getD i default).associativity (sys.caches.getD i default).sets true (sys.caches.getD i default).blockedCycles ((sys.caches.getD i default).stats.incrementAccesses.incrementReads.incrementReadMisses))) sys.bus) BusOperation.BusRd address i false 0).accepted && (busOperation (Sys.mk (sys.caches.set i (Cache.mk (sys.caches.getD i default).coreId (sys.caches.getD i default).setIndexBits (sys.caches.getD i default).blockOffsetBits (sys.caches.getD i default).associativity (sys.caches.getD i default).sets true (sys.caches.getD i default).blockedCycles ((sys.caches.getD i default).stats.incrementAccesses.incrementReads.incrementReadMisses))) sys.bus) BusOperation.BusRd address i false 0).dataProvided)).1.set i { ((allocateLine (busOperation (Sys.mk (sys.caches.set i (Cache.mk (sys.caches.getD i default).coreId (sys.caches.getD i default).setIndexBits (sys.caches.getD i default).blockOffsetBits (sys.caches.getD i default).associativity (sys.caches.getD i default).sets true (sys.caches.getD i default).blockedCycles ((sys.caches.getD i default).stats.incrementAccesses.incrementReads.incrementReadMisses))) sys.bus) BusOperation.BusRd address i false 0).sys.caches i address false (busOperation (Sys.mk (sys.caches.set i (Cache.mk (sys.caches.getD i default).coreId (sys.caches.getD i default).setIndexBits (sys.caches.getD i default).blockOffsetBits (sys.caches.getD i default).associativity (sys.caches.getD i default).sets true (sys.caches.getD i default).blockedCycles ((sys.caches.getD i default).stats.incrementAccesses.incrementReads.incrementReadMisses))) sys.bus) BusOperation.BusRd address i false 0).cycles ((busOperation (Sys.mk (sys.caches.set i (Cache.mk (sys.caches.getD i default).coreId (sys.caches.getD i default).setIndexBits (sys.caches.getD i default).blockOffsetBits (sys.caches.getD i default).associativity (sys.caches.getD i default).sets true (sys.caches.getD i default).blockedCycles ((sys.caches.getD i default).stats.incrementAccesses.incrementReads.incrementReadMisses))) sys.bus) BusOperation.BusRd address i false 0).accepted && (busOperation (Sys.mk (sys.caches.set i (Cache.mk (sys.caches.getD i default).coreId (sys.caches.getD i default).setIndexBits (sys.caches.getD i default).blockOffsetBits (sys.caches.getD i default).associativity (sys.caches.getD i default).sets true (sys.caches.getD i default).blockedCycles ((sys.caches.getD i default).stats.incrementAccesses.incrementReads.incrementReadMisses))) sys.bus) BusOperation.BusRd address i false 0).dataProvided)).1.getD i default) with blockedCycles := ((allocateLine (busOperation (Sys.mk (sys.caches.set i (Cache.mk (sys.caches.getD i default).coreId (sys.caches.getD i default).setIndexBits (sys.caches.getD i default).blockOffsetBits (sys.caches.getD i default).associativity (sys.caches.getD i default).sets true (sys.caches.getD i default).blockedCycles ((sys.caches.getD i default).stats.incrementAccesses.incrementReads.incrementReadMisses))) sys.bus) BusOperation.BusRd address i false 0).sys.caches i address false (busOperation (Sys.mk (sys.caches.set i (Cache.mk (sys.caches.getD i default).coreId (sys.caches.getD i default).setIndexBits (sys.caches.getD i default).blockOffsetBits (sys.caches.getD i default).associativity (sys.caches.getD i default).sets true (sys.caches.getD i default).blockedCycles ((sys.caches.getD i default).stats.incrementAccesses.incrementReads.incrementReadMisses))) sys.bus) BusOperation.BusRd address i false 0).cycles ((busOperation (Sys.mk (sys.caches.set i (Cache.mk (sys.caches.getD i default).coreId (sys.caches.getD i default).setIndexBits (sys.caches.getD i default).blockOffsetBits (sys.caches.getD i default).associativity (sys.caches.getD i default).sets true (sys.caches.getD i default).blockedCycles ((sys.caches.getD i default).stats.incrementAccesses.incrementReads.incrementReadMisses))) sys.bus) BusOperation.BusRd address i false 0).accepted && (busOperation (Sys.mk (sys.caches.set i (Cache.mk (sys.caches.getD i default).coreId (sys.caches.getD i default).setIndexBits (sys.caches.getD i default).blockOffsetBits (sys.caches.getD i default).associativity (sys.caches.getD i default).sets true (sys.caches.getD i default).blockedCycles ((sys.caches.getD i default).stats.incrementAccesses.incrementReads.incrementReadMisses))) sys.bus) BusOperation.BusRd address i false 0).dataProvided)).1.getD i default).blockedCycles + ((allocateLine (busOperation (Sys.mk (sys.caches.set i (Cache.mk (sys.caches.getD i default).coreId (sys.caches.getD i default).setIndexBits (sys.caches.getD i default).blockOffsetBits (sys.caches.getD i default).associativity (sys.caches.getD i default).sets true (sys.caches.getD i default).blockedCycles ((sys.caches.getD i default).stats.incrementAccesses.incrementReads.incrementReadMisses))) sys.bus) BusOperation.BusRd address i false 0).sys.caches i address false (busOperation (Sys.mk (sys.caches.set i (Cache.mk (sys.caches.getD i default).coreId (sys.caches.getD i default).setIndexBits (sys.caches.getD i default).blockOffsetBits (sys.caches.getD i default).associativity (sys.caches.getD i default).sets true (sys.caches.getD i default).blockedCycles ((sys.caches.getD i default).stats.incrementAccesses.incrementReads.incrementReadMisses))) sys.bus) BusOperation.BusRd address i false 0).cycles ((busOperation (Sys.mk (sys.caches.set i (Cache.mk (sys.caches.getD i default).coreId (sys.caches.getD i default).setIndexBits (sys.caches.getD i default).blockOffsetBits (sys.caches.getD i default).associativity (sys.caches.getD i default).sets true (sys.caches.getD i default).blockedCycles ((sys.caches.getD i default).stats.incrementAccesses.incrementReads.incrementReadMisses))) sys.bus) BusOperation.BusRd address i false 0).accepted && (busOperation (Sys.mk (sys.caches.set i (Cache.mk (sys.caches.getD i default).coreId (sys.caches.getD i default).setIndexBits (sys.caches.getD i default).blockOffsetBits (sys.caches.getD i default).associativity (sys.caches.getD i default).sets true (sys.caches.getD i default).blockedCycles ((sys.caches.getD i default).stats.incrementAccesses.incrementReads.incrementReadMisses))) sys.bus) BusOperation.BusRd address i false 0).dataProvided)).2 - 1) }) : List Cache).getD j default).stateAt si tv
                = (sys.caches.getD j default).stateAt si tv := by
              intro j hj
              by_cases hji : j = i
              · rw [hji, hFself, hunchS si tv hne, hPreSelf]
              · rw [hPeerF j hj hji, hPreOther j hj hji si tv hne]
            rw [hstF b hb]
            rw [hstF a ha] at hME
            exact hmesi si tv a b ha hb hab hME
        · rcases hrest with hunchP2 | ⟨p, hp, hpi, e81, e82, e83, e84, e85, e86⟩
          · have hPeerF : ∀ j, j < n → j ≠ i → (((allocateLine (busOperation (Sys.mk (sys.caches.set i (Cache.mk (sys.caches.getD i default).coreId (sys.caches.getD i default).setIndexBits (sys.caches.getD i default).blockOffsetBits (sys.caches.getD i default).associativity (sys.caches.getD i default).sets true (sys.caches.getD i default).blockedCycles ((sys.caches.getD i default).stats.incrementAccesses.incrementReads.incrementReadMisses))) sys.bus) BusOperation.BusRd address i false 0).sys.caches i address false (busOperation (Sys.mk (sys.caches.set i (Cache.mk (sys.caches.getD i default).coreId (sys.caches.getD i default).setIndexBits (sys.caches.getD i default).blockOffsetBits (sys.caches.getD i default).associativity (sys.caches.getD i default).sets true (sys.caches.getD i default).blockedCycles ((sys.caches.getD i default).stats.incrementAccesses.incrementReads.incrementReadMisses))) sys.bus) BusOperation.BusRd address i false 0).cycles ((busOperation (Sys.mk (sys.caches.set i (Cache.mk (sys.caches.getD i default).coreId (sys.caches.getD i default).setIndexBits (sys.caches.getD i default).blockOffsetBits (sys.caches.getD i default).associativity (sys.caches.getD i default).sets true (sys.caches.getD i default).blockedCycles ((sys.caches.getD i default).stats.incrementAccesses.incrementReads.incrementReadMisses))) sys.bus) BusOperation.BusRd address i false 0).accepted && (busOperation (Sys.mk (sys.caches.set i (Cache.mk (sys.caches.getD i default).coreId (sys.caches.getD i default).setIndexBits (sys.caches.getD i default).blockOffsetBits (sys.caches.getD i default).associativity (sys.caches.getD i default).sets true (sys.caches.getD i default).blockedCycles ((sys.caches.getD i default).stats.incrementAccesses.incrementReads.incrementReadMisses))) sys.bus) BusOperation.BusRd address i false 0).dataProvided)).1.set i { ((allocateLine (busOperation (Sys.mk (sys.caches.set i (Cache.mk (sys.caches.getD i default).coreId (sys.caches.getD i default).setIndexBits (sys.caches.getD i default).blockOffsetBits (sys.caches.getD i default).associativity (sys.caches.getD i default).sets true (sys.caches.getD i default).blockedCycles ((sys.caches.getD i default).stats.incrementAccesses.incrementReads.incrementReadMisses))) sys.bus) BusOperation.BusRd address i false 0).sys.caches i address false (busOperation (Sys.mk (sys.caches.set i (Cache.mk (sys.caches.getD i default).coreId (sys.caches.getD i default).setIndexBits (sys.caches.getD i default).blockOffsetBits (sys.caches.getD i default).associativity (sys.caches.getD i default).sets true (sys.caches.getD i default).blockedCycles ((sys.caches.getD i default).stats.incrementAccesses.incrementReads.incrementReadMisses))) sys.bus) BusOperation.BusRd address i false 0).cycles ((busOperation (Sys.mk (sys.caches.set i (Cache.mk (sys.caches.getD i default).coreId (sys.caches.getD i default).setIndexBits (sys.caches.getD i default).blockOffsetBits (sys.caches.getD i default).associativity (sys.caches.getD i default).sets true (sys.caches.getD i default).blockedCycles ((sys.caches.getD i default).stats.incrementAccesses.incrementReads.incrementReadMisses))) sys.bus) BusOperation.BusRd address i false 0).accepted && (busOperation (Sys.mk (sys.caches.set i (Cache.mk (sys.caches.getD i default).coreId (sys.caches.getD i default).setIndexBits (sys.caches.getD i default).blockOffsetBits (sys.caches.getD i default).associativity (sys.caches.getD i default).sets true (sys.caches.getD i default).blockedCycles ((sys.caches.getD i default).stats.incrementAccesses.incrementReads.incrementReadMisses))) sys.bus) BusOperation.BusRd address i false 0).dataProvided)).1.getD i default) with blockedCycles := ((allocateLine (busOperation (Sys.mk (sys.caches.set i (Cache.mk (sys.caches.getD i default).coreId (sys.caches.getD i default).setIndexBits (sys.caches.getD i default).blockOffsetBits (sys.caches.getD i default).associativity (sys.caches.getD i default).sets true (sys.caches.getD i default).blockedCycles ((sys.caches.getD i default).stats.incrementAccesses.incrementReads.incrementReadMisses))) sys.bus) BusOperation.BusRd address i false 0).sys.caches i address false (busOperation (Sys.mk (sys.caches.set i (Cache.mk (sys.caches.getD i default).coreId (sys.caches.getD i default).setIndexBits (sys.caches.getD i default).blockOffsetBits (sys.caches.getD i default).associativity (sys.caches.getD i default).sets true (sys.caches.getD i default).blockedCycles ((sys.caches.getD i default).stats.incrementAccesses.incrementReads.incrementReadMisses))) sys.bus) BusOperation.BusRd address i false 0).cycles ((busOperation (Sys.mk (sys.caches.set i (Cache.mk (sys.caches.getD i default).coreId (sys.caches.getD i default).setIndexBits (sys.caches.getD i default).blockOffsetBits (sys.caches.getD i default).associativity (sys.caches.getD i default).sets true (sys.caches.getD i default).blockedCycles ((sys.caches.getD i default).stats.incrementAccesses.incrementReads.incrementReadMisses))) sys.bus) BusOperation.BusRd address i false 0).accepted && (busOperation (Sys.mk (sys.caches.set i (Cache.mk (sys.caches.getD i default).coreId (sys.caches.getD i default).setIndexBits (sys.caches.getD i default).blockOffsetBits (sys.caches.getD i default).associativity (sys.caches.getD i default).sets true (sys.caches.getD i default).blockedCycles ((sys.caches.getD i default).stats.incrementAccesses.incrementReads.incrementReadMisses))) sys.bus) BusOperation.BusRd address i false 0).dataProvided)).1.getD i default).blockedCycles + ((allocateLine (busOperation (Sys.mk (sys.caches.set i (Cache.mk (sys.caches.getD i default).coreId (sys.caches.getD i default).setIndexBits (sys.caches.getD i default).blockOffsetBits (sys.caches.getD i default).associativity (sys.caches.getD i default).sets true (sys.caches.getD i default).blockedCycles ((sys.caches.getD i default).stats.incrementAccesses.incrementReads.incrementReadMisses))) sys.bus) BusOperation.BusRd address i false 0).sys.caches i address false (busOperation (Sys.mk (sys.caches.set i (Cache.mk (sys.caches.getD i default).coreId (sys.caches.getD i default).setIndexBits (sys.caches.getD i default).blockOffsetBits (sys.caches.getD i default).associativity (sys.caches.getD i default).sets true (sys.caches.getD i default).blockedCycles ((sys.caches.getD i default).stats.incrementAccesses.incrementReads.incrementReadMisses))) sys.bus) BusOperation.BusRd address i false 0).cycles ((busOperation (Sys.mk (sys.caches.set i (Cache.mk (sys.caches.getD i default).coreId (sys.caches.getD i default).setIndexBits (sys.caches.getD i default).blockOffsetBits (sys.caches.getD i default).associativity (sys.caches.getD i default).sets true (sys.caches.getD i default).blockedCycles ((sys.caches.getD i default).stats.incrementAccesses.incrementReads.incrementReadMisses))) sys.bus) BusOperation.BusRd address i false 0).accepted && (busOperation (Sys.mk (sys.caches.set i (Cache.mk (sys.caches.getD i default).coreId (sys.caches.getD i default).setIndexBits (sys.caches.getD i default).blockOffsetBits (sys.caches.getD i default).associativity (sys.caches.getD i default).sets true (sys.caches.getD i default).blockedCycles ((sys.caches.getD i default).stats.incrementAccesses.incrementReads.incrementReadMisses))) sys.bus) BusOperation.BusRd address i false 0).dataProvided)).2 - 1) }) : List Cache).getD j default
                = (busOperation (Sys.mk (sys.caches.set i (Cache.mk (sys.caches.getD i default).coreId (sys.caches.getD i default).setIndexBits (sys.caches.getD i default).blockOffsetBits (sys.caches.getD i default).associativity (sys.caches.getD i default).sets true (sys.caches.getD i default).blockedCycles ((sys.caches.getD i default).stats.incrementAccesses.incrementReads.incrementReadMisses))) sys.bus) BusOperation.BusRd address i false 0).sys.caches.getD j default := by
              intro j hj hji
              rw [hFgJ j hji]
              exact hunchP2 j hji
            have hPTA : ∀ j, j < n → j ≠ i →
                ((((allocateLine (busOperation (Sys.mk (sys.caches.set i (Cache.mk (sys.caches.getD i default).coreId (sys.caches.getD i default).setIndexBits (sys.caches.getD i default).blockOffsetBits (sys.caches.getD i default).associativity (sys.caches.getD i default).sets true (sys.caches.getD i default).blockedCycles ((sys.caches.getD i default).stats.incrementAccesses.incrementReads.incrementReadMisses))) sys.bus) BusOperation.BusRd address i false 0).sys.caches i address false (busOperation (Sys.mk (sys.caches.set i (Cache.mk (sys.caches.getD i default).coreId (sys.caches.getD i default).setIndexBits (sys.caches.getD i default).blockOffsetBits (sys.caches.getD i default).associativity (sys.caches.getD i default).sets true (sys.caches.getD i default).blockedCycles ((sys.caches.getD i default).stats.incrementAccesses.incrementReads.incrementReadMisses))) sys.bus) BusOperation.BusRd address i false 0).cycles ((busOperation (Sys.mk (sys.caches.set i (Cache.mk (sys.caches.getD i default).coreId (sys.caches.getD i default).setIndexBits (sys.caches.getD i default).blockOffsetBits (sys.caches.getD i default).associativity (sys.caches.getD i default).sets true (sys.caches.getD i default).blockedCycles ((sys.caches.getD i default).stats.incrementAccesses.incrementReads.incrementReadMisses))) sys.bus) BusOperation.BusRd address i false 0).accepted && (busOperation (Sys.mk (sys.caches.set i (Cache.mk (sys.caches.getD i default).coreId (sys.caches.getD i default).setIndexBits (sys.caches.getD i default).blockOffsetBits (sys.caches.getD i default).associativity (sys.caches.getD i default).sets true (sys.caches.getD i default).blockedCycles ((sys.caches.getD i default).stats.incrementAccesses.incrementReads.incrementReadMisses))) sys.bus) BusOperation.BusRd address i false 0).dataProvided)).1.set i { ((allocateLine (busOperation (Sys.mk (sys.caches.set i (Cache.mk (sys.caches.getD i default).coreId (sys.caches.getD i default).setIndexBits (sys.caches.getD i default).blockOffsetBits (sys.caches.getD i default).associativity (sys.caches.getD i default).sets true (sys.caches.getD i default).blockedCycles ((sys.caches.getD i default).stats.incrementAccesses.incrementReads.incrementReadMisses))) sys.bus) BusOperation.BusRd address i false 0).sys.caches i address false (busOperation (Sys.mk (sys.caches.set i (Cache.mk (sys.caches.getD i default).coreId (sys.caches.getD i default).setIndexBits (sys.caches.getD i default).blockOffsetBits (sys.caches.getD i default).associativity (sys.caches.getD i default).sets true (sys.caches.getD i default).blockedCycles ((sys.caches.getD i default).stats.incrementAccesses.incrementReads.incrementReadMisses))) sys.bus) BusOperation.BusRd address i false 0).cycles ((busOperation (Sys.mk (sys.caches.set i (Cache.mk (sys.caches.getD i default).coreId (sys.caches.getD i default).setIndexBits (sys.caches.getD i default).blockOffsetBits (sys.caches.getD i default).associativity (sys.caches.getD i default).sets true (sys.caches.getD i default).blockedCycles ((sys.caches.getD i default).stats.incrementAccesses.incrementReads.incrementReadMisses))) sys.bus) BusOperation.BusRd address i false 0).accepted && (busOperation (Sys.mk (sys.caches.set i (Cache.mk (sys.caches.getD i default).coreId (sys.caches.getD i default).setIndexBits (sys.caches.getD i default).blockOffsetBits (sys.caches.getD i default).associativity (sys.caches.getD i default).sets true (sys.caches.getD i default).blockedCycles ((sys.caches.getD i default).stats.incrementAccesses.incrementReads.incrementReadMisses))) sys.bus) BusOperation.BusRd address i false 0).dataProvided)).1.getD i default) with blockedCycles := ((allocateLine (busOperation (Sys.mk (sys.caches.set i (Cache.mk (sys.caches.getD i default).coreId (sys.caches.getD i default).setIndexBits (sys.caches.getD i default).blockOffsetBits (sys.caches.getD i default).associativity (sys.caches.getD i default).sets true (sys.caches.getD i default).blockedCycles ((sys.caches.getD i default).stats.incrementAccesses.incrementReads.incrementReadMisses))) sys.bus) BusOperation.BusRd address i false 0).sys.caches i address false (busOperation (Sys.mk (sys.caches.set i (Cache.mk (sys.caches.getD i default).coreId (sys.caches.getD i default).setIndexBits (sys.caches.getD i default).blockOffsetBits (sys.caches.getD i default).associativity (sys.caches.getD i default).sets true (sys.caches.getD i default).blockedCycles ((sys.caches.getD i default).stats.incrementAccesses.incrementReads.incrementReadMisses))) sys.bus) BusOperation.BusRd address i false 0).cycles ((busOperation (Sys.mk (sys.caches.set i (Cache.mk (sys.caches.getD i default).coreId (sys.caches.getD i default).setIndexBits (sys.caches.getD i default).blockOffsetBits (sys.caches.getD i default).associativity (sys.caches.getD i default).sets true (sys.caches.getD i default).blockedCycles ((sys.caches.getD i default).stats.incrementAccesses.incrementReads.incrementReadMisses))) sys.bus) BusOperation.BusRd address i false 0).accepted && (busOperation (Sys.mk (sys.caches.set i (Cache.mk (sys.caches.getD i default).coreId (sys.caches.getD i default).setIndexBits (sys.caches.getD i default).blockOffsetBits (sys.caches.getD i default).associativity (sys.caches.getD i default).sets true (sys.caches.getD i default).blockedCycles ((sys.caches.getD i default).stats.incrementAccesses.incrementReads.incrementReadMisses))) sys.bus) BusOperation.BusRd address i false 0).dataProvided)).1.getD i default).blockedCycles + ((allocateLine (busOperation (Sys.mk (sys.caches.set i (Cache.mk (sys.caches.getD i default).coreId (sys.caches.getD i default).setIndexBits (sys.caches.getD i default).blockOffsetBits (sys.caches.getD i default).associativity (sys.caches.getD i default).sets true (sys.caches.getD i default).blockedCycles ((sys.caches.getD i default).stats.incrementAccesses.incrementReads.incrementReadMisses))) sys.bus) BusOperation.BusRd address i false 0).sys.caches i address false (busOperation (Sys.mk (sys.caches.set i (Cache.mk (sys.caches.getD i default).coreId (sys.caches.getD i default).setIndexBits (sys.caches.getD i default).blockOffsetBits (sys.caches.getD i default).associativity (sys.caches.getD i default).sets true (sys.caches.getD i default).blockedCycles ((sys.caches.getD i default).stats.incrementAccesses.incrementReads.incrementReadMisses))) sys.bus) BusOperation.BusRd address i false 0).cycles ((busOperation (Sys.mk (sys.caches.set i (Cache.mk (sys.caches.getD i default).coreId (sys.caches.getD i default).setIndexBits (sys.caches.getD i default).blockOffsetBits (sys.caches.getD i default).associativity (sys.caches.getD i default).sets true (sys.caches.getD i default).blockedCycles ((sys.caches.getD i default).stats.incrementAccesses.incrementReads.incrementReadMisses))) sys.bus) BusOperation.BusRd address i false 0).accepted && (busOperation (Sys.mk (sys.caches.set i (Cache.mk (sys.caches.getD i default).coreId (sys.caches.getD i default).setIndexBits (sys.caches.getD i default).blockOffsetBits (sys.caches.getD i default).associativity (sys.caches.getD i default).sets true (sys.caches.getD i default).blockedCycles ((sys.caches.getD i default).stats.incrementAccesses.incrementReads.incrementReadMisses))) sys.bus) BusOperation.BusRd address i false 0).dataProvided)).2 - 1) }) : List Cache).getD j default).stateAt (addrSetIdx sb bob address) (addrTag sb bob address)
                  = snoopNext BusOperation.BusRd
                      ((sys.caches.getD j default).stateAt (addrSetIdx sb bob address) (addrTag sb bob address)) := by
              intro j hj hji
              rw [hPeerF j hj hji, hPreTA j hj hji]
            have hselfvt : ((((allocateLine (busOperation (Sys.mk (sys.caches.set i (Cache.mk (sys.caches.getD i default).coreId (sys.caches.getD i default).setIndexBits (sys.caches.getD i default).blockOffsetBits (sys.caches.getD i default).associativity (sys.caches.getD i default).sets true (sys.caches.getD i default).blockedCycles ((sys.caches.getD i default).stats.incrementAccesses.incrementReads.incrementReadMisses))) sys.bus) BusOperation.BusRd address i false 0).sys.caches i address false (busOperation (Sys.mk (sys.caches.set i (Cache.mk (sys.caches.getD i default).coreId (sys.caches.getD i default).setIndexBits (sys.caches.getD i default).blockOffsetBits (sys.caches.getD i default).associativity (sys.caches.getD i default).sets true (sys.caches.getD i default).blockedCycles ((sys.caches.getD i default).stats.incrementAccesses.incrementReads.incrementReadMisses))) sys.bus) BusOperation.BusRd address i false 0).cycles ((busOperation (Sys.mk (sys.caches.set i (Cache.mk (sys.caches.getD i default).coreId (sys.caches.getD i default).setIndexBits (sys.caches.getD i default).blockOffsetBits (sys.caches.getD i default).associativity (sys.caches.getD i default).sets true (sys.caches.getD i default).blockedCycles ((sys.caches.getD i default).stats.incrementAccesses.incrementReads.incrementReadMisses))) sys.bus) BusOperation.BusRd address i false 0).accepted && (busOperation (Sys.mk (sys.caches.set i (Cache.mk (sys.caches.getD i default).coreId (sys.caches.getD i default).setIndexBits (sys.caches.getD i default).blockOffsetBits (sys.caches.getD i default).associativity (sys.caches.getD i default).sets true (sys.caches.getD i default).blockedCycles ((sys.caches.getD i default).stats.incrementAccesses.incrementReads.incrementReadMisses))) sys.bus) BusOperation.BusRd address i false 0).dataProvided)).1.set i { ((allocateLine (busOperation (Sys.mk (sys.caches.set i (Cache.mk (sys.caches.getD i default).coreId (sys.caches.getD i default).setIndexBits (sys.caches.getD i default).blockOffsetBits (sys.caches.getD i default).associativity (sys.caches.getD i default).sets true (sys.caches.getD i default).blockedCycles ((sys.caches.getD i default).stats.incrementAccesses.incrementReads.incrementReadMisses))) sys.bus) BusOperation.BusRd address i false 0).sys.caches i address false (busOperation (Sys.mk (sys.caches.set i (Cache.mk (sys.caches.getD i default).coreId (sys.caches.getD i default).setIndexBits (sys.caches.getD i default).blockOffsetBits (sys.caches.getD i default).associativity (sys.caches.getD i default).sets true (sys.caches.getD i default).blockedCycles ((sys.caches.getD i default).stats.incrementAccesses.incrementReads.incrementReadMisses))) sys.bus) BusOperation.BusRd address i false 0).cycles ((busOperation (Sys.mk (sys.caches.set i (Cache.mk (sys.caches.getD i default).coreId (sys.caches.getD i default).setIndexBits (sys.caches.getD i default).blockOffsetBits (sys.caches.getD i default).associativity (sys.caches.getD i default).sets true (sys.caches.getD i default).blockedCycles ((sys.caches.getD i default).stats.incrementAccesses.incrementReads.incrementReadMisses))) sys.bus) BusOperation.BusRd address i false 0).accepted && (busOperation (Sys.mk (sys.caches.set i (Cache.mk (sys.caches.getD i default).coreId (sys.caches.getD i default).setIndexBits (sys.caches.getD i default).blockOffsetBits (sys.caches.getD i default).associativity (sys.caches.getD i default).sets true (sys.caches.getD i default).blockedCycles ((sys.caches.getD i default).stats.incrementAccesses.incrementReads.incrementReadMisses))) sys.bus) BusOperation.BusRd address i false 0).dataProvided)).1.getD i default) with blockedCycles := ((allocateLine (busOperation (Sys.mk (sys.caches.set i (Cache.mk (sys.caches.getD i default).coreId (sys.caches.getD i default).setIndexBits (sys.caches.getD i default).blockOffsetBits (sys.caches.getD i default).associativity (sys.caches.getD i default).sets true (sys.caches.getD i default).blockedCycles ((sys.caches.getD i default).stats.incrementAccesses.incrementReads.incrementReadMisses))) sys.bus) BusOperation.BusRd address i false 0).sys.caches i address false (busOperation (Sys.mk (sys.caches.set i (Cache.mk (sys.caches.getD i default).coreId (sys.caches.getD i default).setIndexBits (sys.caches.getD i default).blockOffsetBits (sys.caches.getD i default).associativity (sys.caches.getD i default).sets true (sys.caches.getD i default).blockedCycles ((sys.caches.getD i default).stats.incrementAccesses.incrementReads.incrementReadMisses))) sys.bus) BusOperation.BusRd address i false 0).cycles ((busOperation (Sys.mk (sys.caches.set i (Cache.mk (sys.caches.getD i default).coreId (sys.caches.getD i default).setIndexBits (sys.caches.getD i default).blockOffsetBits (sys.caches.getD i default).associativity (sys.caches.getD i default).sets true (sys.caches.getD i default).blockedCycles ((sys.caches.getD i default).stats.incrementAccesses.incrementReads.incrementReadMisses))) sys.bus) BusOperation.BusRd address i false 0).accepted && (busOperation (Sys.mk (sys.caches.set i (Cache.mk (sys.caches.getD i default).coreId (sys.caches.getD i default).setIndexBits (sys.caches.getD i default).blockOffsetBits (sys.caches.getD i default).associativity (sys.caches.getD i default).sets true (sys.caches.getD i default).blockedCycles ((sys.caches.getD i default).stats.incrementAccesses.incrementReads.incrementReadMisses))) sys.bus) BusOperation.BusRd address i false 0).dataProvided)).1.getD i default).blockedCycles + ((allocateLine (busOperation (Sys.mk (sys.caches.set i (Cache.mk (sys.caches.getD i default).coreId (sys.caches.getD i default).setIndexBits (sys.caches.getD i default).blockOffsetBits (sys.caches.getD i default).associativity (sys.caches.getD i default).sets true (sys.caches.getD i default).blockedCycles ((sys.caches.getD i default).stats.incrementAccesses.incrementReads.incrementReadMisses))) sys.bus) BusOperation.BusRd address i false 0).sys.caches i address false (busOperation (Sys.mk (sys.caches.set i (Cache.mk (sys.caches.getD i default).coreId (sys.caches.getD i default).setIndexBits (sys.caches.getD i default).blockOffsetBits (sys.caches.getD i default).associativity (sys.caches.getD i default).sets true (sys.caches.getD i default).blockedCycles ((sys.caches.getD i default).stats.incrementAccesses.incrementReads.incrementReadMisses))) sys.bus) BusOperation.BusRd address i false 0).cycles ((busOperation (Sys.mk (sys.caches.set i (Cache.mk (sys.caches.getD i default).coreId (sys.caches.getD i default).setIndexBits (sys.caches.getD i default).blockOffsetBits (sys.caches.getD i default).associativity (sys.caches.getD i default).sets true (sys.caches.getD i default).blockedCycles ((sys.caches.getD i default).stats.incrementAccesses.incrementReads.incrementReadMisses))) sys.bus) BusOperation.BusRd address i false 0).accepted && (busOperation (Sys.mk (sys.caches.set i (Cache.mk (sys.caches.getD i default).coreId (sys.caches.getD i default).setIndexBits (sys.caches.getD i default).blockOffsetBits (sys.caches.getD i default).associativity (sys.caches.getD i default).sets true (sys.caches.getD i default).blockedCycles ((sys.caches.getD i default).stats.incrementAccesses.incrementReads.incrementReadMisses))) sys.bus) BusOperation.BusRd address i false 0).dataProvided)).2 - 1) }) : List Cache).getD i default).stateAt (addrSetIdx sb bob address) vt
                = CacheState.INVALID := by
              rw [hFself]
              exact hInvVt
            by_cases hTA : si = (addrSetIdx sb bob address) ∧ tv = (addrTag sb bob address)
            · obtain ⟨h1, h2⟩ := hTA
              subst h1
              subst h2
              rcases Bool.eq_false_or_eq_true (busOperation (Sys.mk (sys.caches.set i (Cache.mk (sys.caches.getD i default).coreId (sys.caches.getD i default).setIndexBits (sys.caches.getD i default).blockOffsetBits (sys.caches.getD i default).associativity (sys.caches.getD i default).sets true (sys.caches.getD i default).blockedCycles ((sys.caches.getD i default).stats.incrementAccesses.incrementReads.incrementReadMisses))) sys.bus) BusOperation.BusRd address i false 0).dataProvided with hdp | hdp
              · exfalso
                by_cases hai : a = i
                · rw [hai] at hME
                  rw [hSelfTAeq, hdp] at hME
                  simp at hME
                · rw [hPTA a ha hai] at hME
                  rcases hME with h | h
                  · exact snoopNext_BusRd_not_M _ h
                  · exact snoopNext_BusRd_not_E _ h
              · by_cases hbi : b = i
                · exfalso
                  have hai : a ≠ i := by rw [← hbi]; exact hab
                  rw [hPTA a ha hai, hPeerInvTA hdp a ha hai, snoopNext_INVALID] at hME
                  rcases hME with h | h
                  · cases h
                  · cases h
                · rw [hPTA b hb hbi, hPeerInvTA hdp b hb hbi, snoopNext_INVALID]
            · have hne : si ≠ (addrSetIdx sb bob address) ∨ tv ≠ (addrTag sb bob address) := not_and_or.mp hTA
              by_cases hVT : si = (addrSetIdx sb bob address) ∧ tv = vt
              · obtain ⟨h1, h2⟩ := hVT
                rw [h1, h2] at hME
                rw [h1, h2]
                have hstVt : ∀ j, j < n → j ≠ i →
                    ((((allocateLine (busOperation (Sys.mk (sys.caches.set i (Cache.mk (sys.caches.getD i default).coreId (sys.caches.getD i default).setIndexBits (sys.caches.getD i default).blockOffsetBits (sys.caches.getD i default).associativity (sys.caches.getD i default).sets true (sys.caches.getD i default).blockedCycles ((sys.caches.getD i default).stats.incrementAccesses.incrementReads.incrementReadMisses))) sys.bus) BusOperation.BusRd address i false 0).sys.caches i address false (busOperation (Sys.mk (sys.caches.set i (Cache.mk (sys.caches.getD i default).coreId (sys.caches.getD i default).setIndexBits (sys.caches.getD i default).blockOffsetBits (sys.caches.getD i default).associativity (sys.caches.getD i default).sets true (sys.caches.getD i default).blockedCycles ((sys.caches.getD i default).stats.incrementAccesses.incrementReads.incrementReadMisses))) sys.bus) BusOperation.BusRd address i false 0).cycles ((busOperation (Sys.mk (sys.caches.set i (Cache.mk (sys.caches.getD i default).coreId (sys.caches.getD i default).setIndexBits (sys.caches.getD i default).blockOffsetBits (sys.caches.getD i default).associativity (sys.caches.getD i default).sets true (sys.caches.getD i default).blockedCycles ((sys.caches.getD i default).stats.incrementAccesses.incrementReads.incrementReadMisses))) sys.bus) BusOperation.BusRd address i false 0).accepted && (busOperation (Sys.mk (sys.caches.set i (Cache.mk (sys.caches.getD i default).coreId (sys.caches.getD i default).setIndexBits (sys.caches.getD i default).blockOffsetBits (sys.caches.getD i default).associativity (sys.caches.getD i default).sets true (sys.caches.getD i default).blockedCycles ((sys.caches.getD i default).stats.incrementAccesses.incrementReads.incrementReadMisses))) sys.bus) BusOperation.BusRd address i false 0).dataProvided)).1.set i { ((allocateLine (busOperation (Sys.mk (sys.caches.set i (Cache.mk (sys.caches.getD i default).coreId (sys.caches.getD i default).setIndexBits (sys.caches.getD i default).blockOffsetBits (sys.caches.getD i default).associativity (sys.caches.getD i default).sets true (sys.caches.getD i default).blockedCycles ((sys.caches.getD i default).stats.incrementAccesses.incrementReads.incrementReadMisses))) sys.bus) BusOperation.BusRd address i false 0).sys.caches i address false (busOperation (Sys.mk (sys.caches.set i (Cache.mk (sys.caches.getD i default).coreId (sys.caches.getD i default).setIndexBits (sys.caches.getD i default).blockOffsetBits (sys.caches.getD i default).associativity (sys.caches.getD i default).sets true (sys.caches.getD i default).blockedCycles ((sys.caches.getD i default).stats.incrementAccesses.incrementReads.incrementReadMisses))) sys.bus) BusOperation.BusRd address i false 0).cycles ((busOperation (Sys.mk (sys.caches.set i (Cache.mk (sys.caches.getD i default).coreId (sys.caches.getD i default).setIndexBits (sys.caches.getD i default).blockOffsetBits (sys.caches.getD i default).associativity (sys.caches.getD i default).sets true (sys.caches.getD i default).blockedCycles ((sys.caches.getD i default).stats.incrementAccesses.incrementReads.incrementReadMisses))) sys.bus) BusOperation.BusRd address i false 0).accepted && (busOperation (Sys.mk (sys.caches.set i (Cache.mk (sys.caches.getD i default).coreId (sys.caches.getD i default).setIndexBits (sys.caches.getD i default).blockOffsetBits (sys.caches.getD i default).associativity (sys.caches.getD i default).sets true (sys.caches.getD i default).blockedCycles ((sys.caches.getD i default).stats.incrementAccesses.incrementReads.incrementReadMisses))) sys.bus) BusOperation.BusRd address i false 0).dataProvided)).1.getD i default) with blockedCycles := ((allocateLine (busOperation (Sys.mk (sys.caches.set i (Cache.mk (sys.caches.getD i default).coreId (sys.caches.getD i default).setIndexBits (sys.caches.getD i default).blockOffsetBits (sys.caches.getD i default).associativity (sys.caches.getD i default).sets true (sys.caches.getD i default).blockedCycles ((sys.caches.getD i default).stats.incrementAccesses.incrementReads.incrementReadMisses))) sys.bus) BusOperation.BusRd address i false 0).sys.caches i address false (busOperation (Sys.mk (sys.caches.set i (Cache.mk (sys.caches.getD i default).coreId (sys.caches.getD i default).setIndexBits (sys.caches.getD i default).blockOffsetBits (sys.caches.getD i default).associativity (sys.caches.getD i default).sets true (sys.caches.getD i default).blockedCycles ((sys.caches.getD i default).stats.incrementAccesses.incrementReads.incrementReadMisses))) sys.bus) BusOperation.BusRd address i false 0).cycles ((busOperation (Sys.mk (sys.caches.set i (Cache.mk (sys.caches.getD i default).coreId (sys.caches.getD i default).setIndexBits (sys.caches.getD i default).blockOffsetBits (sys.caches.getD i default).associativity (sys.caches.getD i default).sets true (sys.caches.getD i default).blockedCycles ((sys.caches.getD i default).stats.incrementAccesses.incrementReads.incrementReadMisses))) sys.bus) BusOperation.BusRd address i false 0).accepted && (busOperation (Sys.mk (sys.caches.set i (Cache.mk (sys.caches.getD i default).coreId (sys.caches.getD i default).setIndexBits (sys.caches.getD i default).blockOffsetBits (sys.caches.getD i default).associativity (sys.caches.getD i default).sets true (sys.caches.getD i default).blockedCycles ((sys.caches.getD i default).stats.incrementAccesses.incrementReads.incrementReadMisses))) sys.bus) BusOperation.BusRd address i false 0).dataProvided)).1.getD i default).blockedCycles + ((allocateLine (busOperation (Sys.mk (sys.caches.set i (Cache.mk (sys.caches.getD i default).coreId (sys.caches.getD i default).setIndexBits (sys.caches.getD i default).blockOffsetBits (sys.caches.getD i default).associativity (sys.caches.getD i default).sets true (sys.caches.getD i default).blockedCycles ((sys.caches.getD i default).stats.incrementAccesses.incrementReads.incrementReadMisses))) sys.bus) BusOperation.BusRd address i false 0).sys.caches i address false (busOperation (Sys.mk (sys.caches.set i (Cache.mk (sys.caches.getD i default).coreId (sys.caches.getD i default).setIndexBits (sys.caches.getD i default).blockOffsetBits (sys.caches.getD i default).associativity (sys.caches.getD i default).sets true (sys.caches.getD i default).blockedCycles ((sys.caches.getD i default).stats.incrementAccesses.incrementReads.incrementReadMisses))) sys.bus) BusOperation.BusRd address i false 0).cycles ((busOperation (Sys.mk (sys.caches.set i (Cache.mk (sys.caches.getD i default).coreId (sys.caches.getD i default).setIndexBits (sys.caches.getD i default).blockOffsetBits (sys.caches.getD i default).associativity (sys.caches.getD i default).sets true (sys.caches.getD i default).blockedCycles ((sys.caches.getD i default).stats.incrementAccesses.incrementReads.incrementReadMisses))) sys.bus) BusOperation.BusRd address i false 0).accepted && (busOperation (Sys.mk (sys.caches.set i (Cache.mk (sys.caches.getD i default).coreId (sys.caches.getD i default).setIndexBits (sys.caches.getD i default).blockOffsetBits (sys.caches.getD i default).associativity (sys.caches.getD i default).sets true (sys.caches.getD i default).blockedCycles ((sys.caches.getD i default).stats.incrementAccesses.incrementReads.incrementReadMisses))) sys.bus) BusOperation.BusRd address i false 0).dataProvided)).2 - 1) }) : List Cache).getD j default).stateAt (addrSetIdx sb bob address) vt
                      = (sys.caches.getD j default).stateAt (addrSetIdx sb bob address) vt := by
                  intro j hj hji
                  rw [hPeerF j hj hji, hPreOther j hj hji _ _ (Or.inr hvtne)]
                by_cases hbi : b = i
                · rw [hbi]
                  exact hselfvt
                · by_cases hai : a = i
                  · exfalso
                    rw [hai, hselfvt] at hME
                    rcases hME with h | h
                    · cases h
                    · cases h
                  · rw [hstVt b hb hbi]
                    rw [hstVt a ha hai] at hME
                    exact hmesi (addrSetIdx sb bob address) vt a b ha hb hab hME
              · have hne2 : si ≠ (addrSetIdx sb bob address) ∨ tv ≠ vt := not_and_or.mp hVT
                have hstF : ∀ j, j < n →
                    ((((allocateLine (busOperation (Sys.mk (sys.caches.set i (Cache.mk (sys.caches.getD i default).coreId (sys.caches.getD i default).setIndexBits (sys.caches.getD i default).blockOffsetBits (sys.caches.getD i default).associativity (sys.caches.getD i default).sets true (sys.caches.getD i default).blockedCycles ((sys.caches.getD i default).stats.incrementAccesses.incrementReads.incrementReadMisses))) sys.bus) BusOperation.BusRd address i false 0).sys.caches i address false (busOperation (Sys.mk (sys.caches.set i (Cache.mk (sys.caches.getD i default).coreId (sys.caches.getD i default).setIndexBits (sys.caches.getD i default).blockOffsetBits (sys.caches.getD i default).associativity (sys.caches.getD i default).sets true (sys.caches.getD i default).blockedCycles ((sys.caches.getD i default).stats.incrementAccesses.incrementReads.incrementReadMisses))) sys.bus) BusOperation.BusRd address i false 0).cycles ((busOperation (Sys.mk (sys.caches.set i (Cache.mk (sys.caches.getD i default).coreId (sys.caches.getD i default).setIndexBits (sys.caches.getD i default).blockOffsetBits (sys.caches.getD i default).associativity (sys.caches.getD i default).sets true (sys.caches.getD i default).blockedCycles ((sys.caches.getD i default).stats.incrementAccesses.incrementReads.incrementReadMisses))) sys.bus) BusOperation.BusRd address i false 0).accepted && (busOperation (Sys.mk (sys.caches.set i (Cache.mk (sys.caches.getD i default).coreId (sys.caches.getD i default).setIndexBits (sys.caches.getD i default).blockOffsetBits (sys.caches.getD i default).associativity (sys.caches.getD i default).sets true (sys.caches.getD i default).blockedCycles ((sys.caches.getD i default).stats.incrementAccesses.incrementReads.incrementReadMisses))) sys.bus) BusOperation.BusRd address i false 0).dataProvided)).1.set i { ((allocateLine (busOperation (Sys.mk (sys.caches.set i (Cache.mk (sys.caches.getD i default).coreId (sys.caches.getD i default).setIndexBits (sys.caches.getD i default).blockOffsetBits (sys.caches.getD i default).associativity (sys.caches.getD i default).sets true (sys.caches.getD i default).blockedCycles ((sys.caches.getD i default).stats.incrementAccesses.incrementReads.incrementReadMisses))) sys.bus) BusOperation.BusRd address i false 0).sys.caches i address false (busOperation (Sys.mk (sys.caches.set i (Cache.mk (sys.caches.getD i default).coreId (sys.caches.getD i default).setIndexBits (sys.caches.getD i default).blockOffsetBits (sys.caches.getD i default).associativity (sys.caches.getD i default).sets true (sys.caches.getD i default).blockedCycles ((sys.caches.getD i default).stats.incrementAccesses.incrementReads.incrementReadMisses))) sys.bus) BusOperation.BusRd address i false 0).cycles ((busOperation (Sys.mk (sys.caches.set i (Cache.mk (sys.caches.getD i default).coreId (sys.caches.getD i default).setIndexBits (sys.caches.getD i default).blockOffsetBits (sys.caches.getD i default).associativity (sys.caches.getD i default).sets true (sys.caches.getD i default).blockedCycles ((sys.caches.getD i default).stats.incrementAccesses.incrementReads.incrementReadMisses))) sys.bus) BusOperation.BusRd address i false 0).accepted && (busOperation (Sys.mk (sys.caches.set i (Cache.mk (sys.caches.getD i default).coreId (sys.caches.getD i default).setIndexBits (sys.caches.getD i default).blockOffsetBits (sys.caches.getD i default).associativity (sys.caches.getD i default).sets true (sys.caches.getD i default).blockedCycles ((sys.caches.getD i default).stats.incrementAccesses.incrementReads.incrementReadMisses))) sys.bus) BusOperation.BusRd address i false 0).dataProvided)).1.getD i default) with blockedCycles := ((allocateLine (busOperation (Sys.mk (sys.caches.set i (Cache.mk (sys.caches.getD i default).coreId (sys.caches.getD i default).setIndexBits (sys.caches.getD i default).blockOffsetBits (sys.caches.getD i default).associativity (sys.caches.getD i default).sets true (sys.caches.getD i default).blockedCycles ((sys.caches.getD i default).stats.incrementAccesses.incrementReads.incrementReadMisses))) sys.bus) BusOperation.BusRd address i false 0).sys.caches i address false (busOperation (Sys.mk (sys.caches.set i (Cache.mk (sys.caches.getD i default).coreId (sys.caches.getD i default).setIndexBits (sys.caches.getD i default).blockOffsetBits (sys.caches.getD i default).associativity (sys.caches.getD i default).sets true (sys.caches.getD i default).blockedCycles ((sys.caches.getD i default).stats.incrementAccesses.incrementReads.incrementReadMisses))) sys.bus) BusOperation.BusRd address i false 0).cycles ((busOperation (Sys.mk (sys.caches.set i (Cache.mk (sys.caches.getD i default).coreId (sys.caches.getD i default).setIndexBits (sys.caches.getD i default).blockOffsetBits (sys.caches.getD i default).associativity (sys.caches.getD i default).sets true (sys.caches.getD i default).blockedCycles ((sys.caches.getD i default).stats.incrementAccesses.incrementReads.incrementReadMisses))) sys.bus) BusOperation.BusRd address i false 0).accepted && (busOperation (Sys.mk (sys.caches.set i (Cache.mk (sys.caches.getD i default).coreId (sys.caches.getD i default).setIndexBits (sys.caches.getD i default).blockOffsetBits (sys.caches.getD i default).associativity (sys.caches.getD i default).sets true (sys.caches.getD i default).blockedCycles ((sys.caches.getD i default).stats.incrementAccesses.incrementReads.incrementReadMisses))) sys.bus) BusOperation.BusRd address i false 0).dataProvided)).1.getD i default).blockedCycles + ((allocateLine (busOperation (Sys.mk (sys.caches.set i (Cache.mk (sys.caches.getD i default).coreId (sys.caches.getD i default).setIndexBits (sys.caches.getD i default).blockOffsetBits (sys.caches.getD i default).associativity (sys.caches.getD i default).sets true (sys.caches.getD i default).blockedCycles ((sys.caches.getD i default).stats.incrementAccesses.incrementReads.incrementReadMisses))) sys.bus) BusOperation.BusRd address i false 0).sys.caches i address false (busOperation (Sys.mk (sys.caches.set i (Cache.mk (sys.caches.getD i default).coreId (sys.caches.getD i default).setIndexBits (sys.caches.getD i default).blockOffsetBits (sys.caches.getD i default).associativity (sys.caches.getD i default).sets true (sys.caches.getD i default).blockedCycles ((sys.caches.getD i default).stats.incrementAccesses.incrementReads.incrementReadMisses))) sys.bus) BusOperation.BusRd address i false 0).cycles ((busOperation (Sys.mk (sys.caches.set i (Cache.mk (sys.caches.getD i default).coreId (sys.caches.getD i default).setIndexBits (sys.caches.getD i default).blockOffsetBits (sys.caches.getD i default).associativity (sys.caches.getD i default).sets true (sys.caches.getD i default).blockedCycles ((sys.caches.getD i default).stats.incrementAccesses.incrementReads.incrementReadMisses))) sys.bus) BusOperation.BusRd address i false 0).accepted && (busOperation (Sys.mk (sys.caches.set i (Cache.mk (sys.caches.getD i default).coreId (sys.caches.getD i default).setIndexBits (sys.caches.getD i default).blockOffsetBits (sys.caches.getD i default).associativity (sys.caches.getD i default).sets true (sys.caches.getD i default).blockedCycles ((sys.caches.getD i default).stats.incrementAccesses.incrementReads.incrementReadMisses))) sys.bus) BusOperation.BusRd address i false 0).dataProvided)).2 - 1) }) : List Cache).getD j default).stateAt si tv
                      = (sys.caches.getD j default).stateAt si tv := by
                  intro j hj
                  by_cases hji : j = i
                  · rw [hji, hFself, hunchS2 si tv hne hne2, hPreSelf]
                  · rw [hPeerF j hj hji, hPreOther j hj hji si tv hne]
                rw [hstF b hb]
                rw [hstF a ha] at hME
                exact hmesi si tv a b ha hb hab hME
          · have hPeerF : ∀ j, j < n → j ≠ i → j ≠ p →
                (((allocateLine (busOperation (Sys.mk (sys.caches.set i (Cache.mk (sys.caches.getD i default).coreId (sys.caches.getD i default).setIndexBits (sys.caches.getD i default).blockOffsetBits (sys.caches.getD i default).associativity (sys.caches.getD i default).sets true (sys.caches.getD i default).blockedCycles ((sys.caches.getD i default).stats.incrementAccesses.incrementReads.incrementReadMisses))) sys.bus) BusOperation.BusRd address i false 0).sys.caches i address false (busOperation (Sys.mk (sys.caches.set i (Cache.mk (sys.caches.getD i default).coreId (sys.caches.getD i default).setIndexBits (sys.caches.getD i default).blockOffsetBits (sys.caches.getD i default).associativity (sys.caches.getD i default).sets true (sys.caches.getD i default).blockedCycles ((sys.caches.getD i default).stats.incrementAccesses.incrementReads.incrementReadMisses))) sys.bus) BusOperation.BusRd address i false 0).cycles ((busOperation (Sys.mk (sys.caches.set i (Cache.mk (sys.caches.getD i default).coreId (sys.caches.getD i default).setIndexBits (sys.caches.getD i default).blockOffsetBits (sys.caches.getD i default).associativity (sys.caches.getD i default).sets true (sys.caches.getD i default).blockedCycles ((sys.caches.getD i default).stats.incrementAccesses.incrementReads.incrementReadMisses))) sys.bus) BusOperation.BusRd address i false 0).accepted && (busOperation (Sys.mk (sys.caches.set i (Cache.mk (sys.caches.getD i default).coreId (sys.caches.getD i default).setIndexBits (sys.caches.getD i default).blockOffsetBits (sys.caches.getD i default).associativity (sys.caches.getD i default).sets true (sys.caches.getD i default).blockedCycles ((sys.caches.getD i default).stats.incrementAccesses.incrementReads.incrementReadMisses))) sys.bus) BusOperation.BusRd address i false 0).dataProvided)).1.set i { ((allocateLine (busOperation (Sys.mk (sys.caches.set i (Cache.mk (sys.caches.getD i default).coreId (sys.caches.getD i default).setIndexBits (sys.caches.getD i default).blockOffsetBits (sys.caches.getD i default).associativity (sys.caches.getD i default).sets true (sys.caches.getD i default).blockedCycles ((sys.caches.getD i default).stats.incrementAccesses.incrementReads.incrementReadMisses))) sys.bus) BusOperation.BusRd address i false 0).sys.caches i address false (busOperation (Sys.mk (sys.caches.set i (Cache.mk (sys.caches.getD i default).coreId (sys.caches.getD i default).setIndexBits (sys.caches.getD i default).blockOffsetBits (sys.caches.getD i default).associativity (sys.caches.getD i default).sets true (sys.caches.getD i default).blockedCycles ((sys.caches.getD i default).stats.incrementAccesses.incrementReads.incrementReadMisses))) sys.bus) BusOperation.BusRd address i false 0).cycles ((busOperation (Sys.mk (sys.caches.set i (Cache.mk (sys.caches.getD i default).coreId (sys.caches.getD i default).setIndexBits (sys.caches.getD i default).blockOffsetBits (sys.caches.getD i default).associativity (sys.caches.getD i default).sets true (sys.caches.getD i default).blockedCycles ((sys.caches.getD i default).stats.incrementAccesses.incrementReads.incrementReadMisses))) sys.bus) BusOperation.BusRd address i false 0).accepted && (busOperation (Sys.mk (sys.caches.set i (Cache.mk (sys.caches.getD i default).coreId (sys.caches.getD i default).setIndexBits (sys.caches.getD i default).blockOffsetBits (sys.caches.getD i default).associativity (sys.caches.getD i default).sets true (sys.caches.getD i default).blockedCycles ((sys.caches.getD i default).stats.incrementAccesses.incrementReads.incrementReadMisses))) sys.bus) BusOperation.BusRd address i false 0).dataProvided)).1.getD i default) with blockedCycles := ((allocateLine (busOperation (Sys.mk (sys.caches.set i (Cache.mk (sys.caches.getD i default).coreId (sys.caches.getD i default).setIndexBits (sys.caches.getD i default).blockOffsetBits (sys.caches.getD i default).associativity (sys.caches.getD i default).sets true (sys.caches.getD i default).blockedCycles ((sys.caches.getD i default).stats.incrementAccesses.incrementReads.incrementReadMisses))) sys.bus) BusOperation.BusRd address i false 0).sys.caches i address false (busOperation (Sys.mk (sys.caches.set i (Cache.mk (sys.caches.getD i default).coreId (sys.caches.getD i default).setIndexBits (sys.caches.getD i default).blockOffsetBits (sys.caches.getD i default).associativity (sys.caches.getD i default).sets true (sys.caches.getD i default).blockedCycles ((sys.caches.getD i default).stats.incrementAccesses.incrementReads.incrementReadMisses))) sys.bus) BusOperation.BusRd address i false 0).cycles ((busOperation (Sys.mk (sys.caches.set i (Cache.mk (sys.caches.getD i default).coreId (sys.caches.getD i default).setIndexBits (sys.caches.getD i default).blockOffsetBits (sys.caches.getD i default).associativity (sys.caches.getD i default).sets true (sys.caches.getD i default).blockedCycles ((sys.caches.getD i default).stats.incrementAccesses.incrementReads.incrementReadMisses))) sys.bus) BusOperation.BusRd address i false 0).accepted && (busOperation (Sys.mk (sys.caches.set i (Cache.mk (sys.caches.getD i default).coreId (sys.caches.getD i default).setIndexBits (sys.caches.getD i default).blockOffsetBits (sys.caches.getD i default).associativity (sys.caches.getD i default).sets true (sys.caches.getD i default).blockedCycles ((sys.caches.getD i default).stats.incrementAccesses.incrementReads.incrementReadMisses))) sys.bus) BusOperation.BusRd address i false 0).dataProvided)).1.getD i default).blockedCycles + ((allocateLine (busOperation (Sys.mk (sys.caches.set i (Cache.mk (sys.caches.getD i default).coreId (sys.caches.getD i default).setIndexBits (sys.caches.getD i default).blockOffsetBits (sys.caches.getD i default).associativity (sys.caches.getD i default).sets true (sys.caches.getD i default).blockedCycles ((sys.caches.getD i default).stats.incrementAccesses.incrementReads.incrementReadMisses))) sys.bus) BusOperation.BusRd address i false 0).sys.caches i address false (busOperation (Sys.mk (sys.caches.set i (Cache.mk (sys.caches.getD i default).coreId (sys.caches.getD i default).setIndexBits (sys.caches.getD i default).blockOffsetBits (sys.caches.getD i default).associativity (sys.caches.getD i default).sets true (sys.caches.getD i default).blockedCycles ((sys.caches.getD i default).stats.incrementAccesses.incrementReads.incrementReadMisses))) sys.bus) BusOperation.BusRd address i false 0).cycles ((busOperation (Sys.mk (sys.caches.set i (Cache.mk (sys.caches.getD i default).coreId (sys.caches.getD i default).setIndexBits (sys.caches.getD i default).blockOffsetBits (sys.caches.getD i default).associativity (sys.caches.getD i default).sets true (sys.caches.getD i default).blockedCycles ((sys.caches.getD i default).stats.incrementAccesses.incrementReads.incrementReadMisses))) sys.bus) BusOperation.BusRd address i false 0).accepted && (busOperation (Sys.mk (sys.caches.set i (Cache.mk (sys.caches.getD i default).coreId (sys.caches.getD i default).setIndexBits (sys.caches.getD i default).blockOffsetBits (sys.caches.getD i default).associativity (sys.caches.getD i default).sets true (sys.caches.getD i default).blockedCycles ((sys.caches.getD i default).stats.incrementAccesses.incrementReads.incrementReadMisses))) sys.bus) BusOperation.BusRd address i false 0).dataProvided)).2 - 1) }) : List Cache).getD j default = (busOperation (Sys.mk (sys.caches.set i (Cache.mk (sys.caches.getD i default).coreId (sys.caches.getD i default).setIndexBits (sys.caches.getD i default).blockOffsetBits (sys.caches.getD i default).associativity (sys.caches.getD i default).sets true (sys.caches.getD i default).blockedCycles ((sys.caches.getD i default).stats.incrementAccesses.incrementReads.incrementReadMisses))) sys.bus) BusOperation.BusRd address i false 0).sys.caches.getD j default := by
              intro j hj hji hjp
              rw [hFgJ j hji]
              exact e85 j hjp hji
            have hPTA : ∀ j, j < n → j ≠ i →
                ((((allocateLine (busOperation (Sys.mk (sys.caches.set i (Cache.mk (sys.caches.getD i default).coreId (sys.caches.getD i default).setIndexBits (sys.caches.getD i default).blockOffsetBits (sys.caches.getD i default).associativity (sys.caches.getD i default).sets true (sys.caches.getD i default).blockedCycles ((sys.caches.getD i default).stats.incrementAccesses.incrementReads.incrementReadMisses))) sys.bus) BusOperation.BusRd address i false 0).sys.caches i address false (busOperation (Sys.mk (sys.caches.set i (Cache.mk (sys.caches.getD i default).coreId (sys.caches.getD i default).setIndexBits (sys.caches.getD i default).blockOffsetBits (sys.caches.getD i default).associativity (sys.caches.getD i default).sets true (sys.caches.getD i default).blockedCycles ((sys.caches.getD i default).stats.incrementAccesses.incrementReads.incrementReadMisses))) sys.bus) BusOperation.BusRd address i false 0).cycles ((busOperation (Sys.mk (sys.caches.set i (Cache.mk (sys.caches.getD i default).coreId (sys.caches.getD i default).setIndexBits (sys.caches.getD i default).blockOffsetBits (sys.caches.getD i default).associativity (sys.caches.getD i default).sets true (sys.caches.getD i default).blockedCycles ((sys.caches.getD i default).stats.incrementAccesses.incrementReads.incrementReadMisses))) sys.bus) BusOperation.BusRd address i false 0).accepted && (busOperation (Sys.mk (sys.caches.set i (Cache.mk (sys.caches.getD i default).coreId (sys.caches.getD i default).setIndexBits (sys.caches.getD i default).blockOffsetBits (sys.caches.getD i default).associativity (sys.caches.getD i default).sets true (sys.caches.getD i default).blockedCycles ((sys.caches.getD i default).stats.incrementAccesses.incrementReads.incrementReadMisses))) sys.bus) BusOperation.BusRd address i false 0).dataProvided)).1.set i { ((allocateLine (busOperation (Sys.mk (sys.caches.set i (Cache.mk (sys.caches.getD i default).coreId (sys.caches.getD i default).setIndexBits (sys.caches.getD i default).blockOffsetBits (sys.caches.getD i default).associativity (sys.caches.getD i default).sets true (sys.caches.getD i default).blockedCycles ((sys.caches.getD i default).stats.incrementAccesses.incrementReads.incrementReadMisses))) sys.bus) BusOperation.BusRd address i false 0).sys.caches i address false (busOperation (Sys.mk (sys.caches.set i (Cache.mk (sys.caches.getD i default).coreId (sys.caches.getD i default).setIndexBits (sys.caches.getD i default).blockOffsetBits (sys.caches.getD i default).associativity (sys.caches.getD i default).sets true (sys.caches.getD i default).blockedCycles ((sys.caches.getD i default).stats.incrementAccesses.incrementReads.incrementReadMisses))) sys.bus) BusOperation.BusRd address i false 0).cycles ((busOperation (Sys.mk (sys.caches.set i (Cache.mk (sys.caches.getD i default).coreId (sys.caches.getD i default).setIndexBits (sys.caches.getD i default).blockOffsetBits (sys.caches.getD i default).associativity (sys.caches.getD i default).sets true (sys.caches.getD i default).blockedCycles ((sys.caches.getD i default).stats.incrementAccesses.incrementReads.incrementReadMisses))) sys.bus) BusOperation.BusRd address i false 0).accepted && (busOperation (Sys.mk (sys.caches.set i (Cache.mk (sys.caches.getD i default).coreId (sys.caches.getD i default).setIndexBits (sys.caches.getD i default).blockOffsetBits (sys.caches.getD i default).associativity (sys.caches.getD i default).sets true (sys.caches.getD i default).blockedCycles ((sys.caches.getD i default).stats.incrementAccesses.incrementReads.incrementReadMisses))) sys.bus) BusOperation.BusRd address i false 0).dataProvided)).1.getD i default) with blockedCycles := ((allocateLine (busOperation (Sys.mk (sys.caches.set i (Cache.mk (sys.caches.getD i default).coreId (sys.caches.getD i default).setIndexBits (sys.caches.getD i default).blockOffsetBits (sys.caches.getD i default).associativity (sys.caches.getD i default).sets true (sys.caches.getD i default).blockedCycles ((sys.caches.getD i default).stats.incrementAccesses.incrementReads.incrementReadMisses))) sys.bus) BusOperation.BusRd address i false 0).sys.caches i address false (busOperation (Sys.mk (sys.caches.set i (Cache.mk (sys.caches.getD i default).coreId (sys.caches.getD i default).setIndexBits (sys.caches.getD i default).blockOffsetBits (sys.caches.getD i default).associativity (sys.caches.getD i default).sets true (sys.caches.getD i default).blockedCycles ((sys.caches.getD i default).stats.incrementAccesses.incrementReads.incrementReadMisses))) sys.bus) BusOperation.BusRd address i false 0).cycles ((busOperation (Sys.mk (sys.caches.set i (Cache.mk (sys.caches.getD i default).coreId (sys.caches.getD i default).setIndexBits (sys.caches.getD i default).blockOffsetBits (sys.caches.getD i default).associativity (sys.caches.getD i default).sets true (sys.caches.getD i default).blockedCycles ((sys.caches.getD i default).stats.incrementAccesses.incrementReads.incrementReadMisses))) sys.bus) BusOperation.BusRd address i false 0).accepted && (busOperation (Sys.mk (sys.caches.set i (Cache.mk (sys.caches.getD i default).coreId (sys.caches.getD i default).setIndexBits (sys.caches.getD i default).blockOffsetBits (sys.caches.getD i default).associativity (sys.caches.getD i default).sets true (sys.caches.getD i default).blockedCycles ((sys.caches.getD i default).stats.incrementAccesses.incrementReads.incrementReadMisses))) sys.bus) BusOperation.BusRd address i false 0).dataProvided)).1.getD i default).blockedCycles + ((allocateLine (busOperation (Sys.mk (sys.caches.set i (Cache.mk (sys.caches.getD i default).coreId (sys.caches.getD i default).setIndexBits (sys.caches.getD i default).blockOffsetBits (sys.caches.getD i default).associativity (sys.caches.getD i default).sets true (sys.caches.getD i default).blockedCycles ((sys.caches.getD i default).stats.incrementAccesses.incrementReads.incrementReadMisses))) sys.bus) BusOperation.BusRd address i false 0).sys.caches i address false (busOperation (Sys.mk (sys.caches.set i (Cache.mk (sys.caches.getD i default).coreId (sys.caches.getD i default).setIndexBits (sys.caches.getD i default).blockOffsetBits (sys.caches.getD i default).associativity (sys.caches.getD i default).sets true (sys.caches.getD i default).blockedCycles ((sys.caches.getD i default).stats.incrementAccesses.incrementReads.incrementReadMisses))) sys.bus) BusOperation.BusRd address i false 0).cycles ((busOperation (Sys.mk (sys.caches.set i (Cache.mk (sys.caches.getD i default).coreId (sys.caches.getD i default).setIndexBits (sys.caches.getD i default).blockOffsetBits (sys.caches.getD i default).associativity (sys.caches.getD i default).sets true (sys.caches.getD i default).blockedCycles ((sys.caches.getD i default).stats.incrementAccesses.incrementReads.incrementReadMisses))) sys.bus) BusOperation.BusRd address i false 0).accepted && (busOperation (Sys.mk (sys.caches.set i (Cache.mk (sys.caches.getD i default).coreId (sys.caches.getD i default).setIndexBits (sys.caches.getD i default).blockOffsetBits (sys.caches.getD i default).associativity (sys.caches.getD i default).sets true (sys.caches.getD i default).blockedCycles ((sys.caches.getD i default).stats.incrementAccesses.incrementReads.incrementReadMisses))) sys.bus) BusOperation.BusRd address i false 0).dataProvided)).2 - 1) }) : List Cache).getD j default).stateAt (addrSetIdx sb bob address) (addrTag sb bob address)
                  = snoopNext BusOperation.BusRd
                      ((sys.caches.getD j default).stateAt (addrSetIdx sb bob address) (addrTag sb bob address)) := by
              intro j hj hji
              by_cases hjp : j = p
              · rw [hjp, hFgJ p hpi, e83 (addrSetIdx sb bob address) (addrTag sb bob address) (Or.inr (fun h => hvtne h.symm)),
                  hPreTA p hp hpi]
              · rw [hPeerF j hj hji hjp, hPreTA j hj hji]
            have hselfvt : ((((allocateLine (busOperation (Sys.mk (sys.caches.set i (Cache.mk (sys.caches.getD i default).coreId (sys.caches.getD i default).setIndexBits (sys.caches.getD i default).blockOffsetBits (sys.caches.getD i default).associativity (sys.caches.getD i default).sets true (sys.caches.getD i default).blockedCycles ((sys.caches.getD i default).stats.incrementAccesses.incrementReads.incrementReadMisses))) sys.bus) BusOperation.BusRd address i false 0).sys.caches i address false (busOperation (Sys.mk (sys.caches.set i (Cache.mk (sys.caches.getD i default).coreId (sys.caches.getD i default).setIndexBits (sys.caches.getD i default).blockOffsetBits (sys.caches.getD i default).associativity (sys.caches.getD i default).sets true (sys.caches.getD i default).blockedCycles ((sys.caches.getD i default).stats.incrementAccesses.incrementReads.incrementReadMisses))) sys.bus) BusOperation.BusRd address i false 0).cycles ((busOperation (Sys.mk (sys.caches.set i (Cache.mk (sys.caches.getD i default).coreId (sys.caches.getD i default).setIndexBits (sys.caches.getD i default).blockOffsetBits (sys.caches.getD i default).associativity (sys.caches.getD i default).sets true (sys.caches.getD i default).blockedCycles ((sys.caches.getD i default).stats.incrementAccesses.incrementReads.incrementReadMisses))) sys.bus) BusOperation.BusRd address i false 0).accepted && (busOperation (Sys.mk (sys.caches.set i (Cache.mk (sys.caches.getD i default).coreId (sys.caches.getD i default).setIndexBits (sys.caches.getD i default).blockOffsetBits (sys.caches.getD i default).associativity (sys.caches.getD i default).sets true (sys.caches.getD i default).blockedCycles ((sys.caches.getD i default).stats.incrementAccesses.incrementReads.incrementReadMisses))) sys.bus) BusOperation.BusRd address i false 0).dataProvided)).1.set i { ((allocateLine (busOperation (Sys.mk (sys.caches.set i (Cache.mk (sys.caches.getD i default).coreId (sys.caches.getD i default).setIndexBits (sys.caches.getD i default).blockOffsetBits (sys.caches.getD i default).associativity (sys.caches.getD i default).sets true (sys.caches.getD i default).blockedCycles ((sys.caches.getD i default).stats.incrementAccesses.incrementReads.incrementReadMisses))) sys.bus) BusOperation.BusRd address i false 0).sys.caches i address false (busOperation (Sys.mk (sys.caches.set i (Cache.mk (sys.caches.getD i default).coreId (sys.caches.getD i default).setIndexBits (sys.caches.getD i default).blockOffsetBits (sys.caches.getD i default).associativity (sys.caches.getD i default).sets true (sys.caches.getD i default).blockedCycles ((sys.caches.getD i default).stats.incrementAccesses.incrementReads.incrementReadMisses))) sys.bus) BusOperation.BusRd address i false 0).cycles ((busOperation (Sys.mk (sys.caches.set i (Cache.mk (sys.caches.getD i default).coreId (sys.caches.getD i default).setIndexBits (sys.caches.getD i default).blockOffsetBits (sys.caches.getD i default).associativity (sys.caches.getD i default).sets true (sys.caches.getD i default).blockedCycles ((sys.caches.getD i default).stats.incrementAccesses.incrementReads.incrementReadMisses))) sys.bus) BusOperation.BusRd address i false 0).accepted && (busOperation (Sys.mk (sys.caches.set i (Cache.mk (sys.caches.getD i default).coreId (sys.caches.getD i default).setIndexBits (sys.caches.getD i default).blockOffsetBits (sys.caches.getD i default).associativity (sys.caches.getD i default).sets true (sys.caches.getD i default).blockedCycles ((sys.caches.getD i default).stats.incrementAccesses.incrementReads.incrementReadMisses))) sys.bus) BusOperation.BusRd address i false 0).dataProvided)).1.getD i default) with blockedCycles := ((allocateLine (busOperation (Sys.mk (sys.caches.set i (Cache.mk (sys.caches.getD i default).coreId (sys.caches.getD i default).setIndexBits (sys.caches.getD i default).blockOffsetBits (sys.caches.getD i default).associativity (sys.caches.getD i default).sets true (sys.caches.getD i default).blockedCycles ((sys.caches.getD i default).stats.incrementAccesses.incrementReads.incrementReadMisses))) sys.bus) BusOperation.BusRd address i false 0).sys.caches i address false (busOperation (Sys.mk (sys.caches.set i (Cache.mk (sys.caches.getD i default).coreId (sys.caches.getD i default).setIndexBits (sys.caches.getD i default).blockOffsetBits (sys.caches.getD i default).associativity (sys.caches.getD i default).sets true (sys.caches.getD i default).blockedCycles ((sys.caches.getD i default).stats.incrementAccesses.incrementReads.incrementReadMisses))) sys.bus) BusOperation.BusRd address i false 0).cycles ((busOperation (Sys.mk (sys.caches.set i (Cache.mk (sys.caches.getD i default).coreId (sys.caches.getD i default).setIndexBits (sys.caches.getD i default).blockOffsetBits (sys.caches.getD i default).associativity (sys.caches.getD i default).sets true (sys.caches.getD i default).blockedCycles ((sys.caches.getD i default).stats.incrementAccesses.incrementReads.incrementReadMisses))) sys.bus) BusOperation.BusRd address i false 0).accepted && (busOperation (Sys.mk (sys.caches.set i (Cache.mk (sys.caches.getD i default).coreId (sys.caches.getD i default).setIndexBits (sys.caches.getD i default).blockOffsetBits (sys.caches.getD i default).associativity (sys.caches.getD i default).sets true (sys.caches.getD i default).blockedCycles ((sys.caches.getD i default).stats.incrementAccesses.incrementReads.incrementReadMisses))) sys.bus) BusOperation.BusRd address i false 0).dataProvided)).1.getD i default).blockedCycles + ((allocateLine (busOperation (Sys.mk (sys.caches.set i (Cache.mk (sys.caches.getD i default).coreId (sys.caches.getD i default).setIndexBits (sys.caches.getD i default).blockOffsetBits (sys.caches.getD i default).associativity (sys.caches.getD i default).sets true (sys.caches.getD i default).blockedCycles ((sys.caches.getD i default).stats.incrementAccesses.incrementReads.incrementReadMisses))) sys.bus) BusOperation.BusRd address i false 0).sys.caches i address false (busOperation (Sys.mk (sys.caches.set i (Cache.mk (sys.caches.getD i default).coreId (sys.caches.getD i default).setIndexBits (sys.caches.getD i default).blockOffsetBits (sys.caches.getD i default).associativity (sys.caches.getD i default).sets true (sys.caches.getD i default).blockedCycles ((sys.caches.getD i default).stats.incrementAccesses.incrementReads.incrementReadMisses))) sys.bus) BusOperation.BusRd address i false 0).cycles ((busOperation (Sys.mk (sys.caches.set i (Cache.mk (sys.caches.getD i default).coreId (sys.caches.getD i default).setIndexBits (sys.caches.getD i default).blockOffsetBits (sys.caches.getD i default).associativity (sys.caches.getD i default).sets true (sys.caches.getD i default).blockedCycles ((sys.caches.getD i default).stats.incrementAccesses.incrementReads.incrementReadMisses))) sys.bus) BusOperation.BusRd address i false 0).accepted && (busOperation (Sys.mk (sys.caches.set i (Cache.mk (sys.caches.getD i default).coreId (sys.caches.getD i default).setIndexBits (sys.caches.getD i default).blockOffsetBits (sys.caches.getD i default).associativity (sys.caches.getD i default).sets true (sys.caches.getD i default).blockedCycles ((sys.caches.getD i default).stats.incrementAccesses.incrementReads.incrementReadMisses))) sys.bus) BusOperation.BusRd address i false 0).dataProvided)).2 - 1) }) : List Cache).getD i default).stateAt (addrSetIdx sb bob address) vt
                = CacheState.INVALID := by
              rw [hFself]
              exact hInvVt
            by_cases hTA : si = (addrSetIdx sb bob address) ∧ tv = (addrTag sb bob address)
            · obtain ⟨h1, h2⟩ := hTA
              subst h1
              subst h2
              rcases Bool.eq_false_or_eq_true (busOperation (Sys.mk (sys.caches.set i (Cache.mk (sys.caches.getD i default).coreId (sys.caches.getD i default).setIndexBits (sys.caches.getD i default).blockOffsetBits (sys.caches.getD i default).associativity (sys.caches.getD i default).sets true (sys.caches.getD i default).blockedCycles ((sys.caches.getD i default).stats.incrementAccesses.incrementReads.incrementReadMisses))) sys.bus) BusOperation.BusRd address i false 0).dataProvided with hdp | hdp
              · exfalso
                by_cases hai : a = i
                · rw [hai] at hME
                  rw [hSelfTAeq, hdp] at hME
                  simp at hME
                · rw [hPTA a ha hai] at hME
                  rcases hME with h | h
                  · exact snoopNext_BusRd_not_M _ h
                  · exact snoopNext_BusRd_not_E _ h
              · by_cases hbi : b = i
                · exfalso
                  have hai : a ≠ i := by rw [← hbi]; exact hab
                  rw [hPTA a ha hai, hPeerInvTA hdp a ha hai, snoopNext_INVALID] at hME
                  rcases hME with h | h
                  · cases h
                  · cases h
                · rw [hPTA b hb hbi, hPeerInvTA hdp b hb hbi, snoopNext_INVALID]
            · have hne : si ≠ (addrSetIdx sb bob address) ∨ tv ≠ (addrTag sb bob address) := not_and_or.mp hTA
              by_cases hVT : si = (addrSetIdx sb bob address) ∧ tv = vt
              · obtain ⟨h1, h2⟩ := hVT
                rw [h1, h2] at hME
                rw [h1, h2]
                have hsysSelfVt : (sys.caches.getD i default).stateAt (addrSetIdx sb bob address) vt
                    = CacheState.SHARED := by
                  rw [← hPreSelf]
                  exact e86
                have he84s : ∀ q, q < n → q ≠ i → q ≠ p →
                    (sys.caches.getD q default).stateAt (addrSetIdx sb bob address) vt ≠ CacheState.SHARED := by
                  intro q hq hqi hqp
                  rw [← hPreOther q hq hqi _ _ (Or.inr hvtne)]
                  exact e84 q hq hqi hqp
                have hqInv : ∀ q, q < n → q ≠ i → q ≠ p →
                    (sys.caches.getD q default).stateAt (addrSetIdx sb bob address) vt = CacheState.INVALID := by
                  intro q hq hqi hqp
                  cases hqs : (sys.caches.getD q default).stateAt (addrSetIdx sb bob address) vt with
                  | MODIFIED =>
                    exfalso
                    have hI := hmesi (addrSetIdx sb bob address) vt q i hq hi hqi (Or.inl hqs)
                    rw [hsysSelfVt] at hI
                    cases hI
                  | EXCLUSIVE =>
                    exfalso
                    have hI := hmesi (addrSetIdx sb bob address) vt q i hq hi hqi (Or.inr hqs)
                    rw [hsysSelfVt] at hI
                    cases hI
                  | SHARED => exact absurd hqs (he84s q hq hqi hqp)
                  | INVALID => rfl
                have hFq : ∀ q, q < n → q ≠ i → q ≠ p →
                    ((((allocateLine (busOperation (Sys.mk (sys.caches.set i (Cache.mk (sys.caches.getD i default).coreId (sys.caches.getD i default).setIndexBits (sys.caches.getD i default).blockOffsetBits (sys.caches.getD i default).associativity (sys.caches.getD i default).sets true (sys.caches.getD i default).blockedCycles ((sys.caches.getD i default).stats.incrementAccesses.incrementReads.incrementReadMisses))) sys.bus) BusOperation.BusRd address i false 0).sys.caches i address false (busOperation (Sys.mk (sys.caches.set i (Cache.mk (sys.caches.getD i default).coreId (sys.caches.getD i default).setIndexBits (sys.caches.getD i default).blockOffsetBits (sys.caches.getD i default).associativity (sys.caches.getD i default).sets true (sys.caches.getD i default).blockedCycles ((sys.caches.getD i default).stats.incrementAccesses.incrementReads.incrementReadMisses))) sys.bus) BusOperation.BusRd address i false 0).cycles ((busOperation (Sys.mk (sys.caches.set i (Cache.mk (sys.caches.getD i default).coreId (sys.caches.getD i default).setIndexBits (sys.caches.getD i default).blockOffsetBits (sys.caches.getD i default).associativity (sys.caches.getD i default).sets true (sys.caches.getD i default).blockedCycles ((sys.caches.getD i default).stats.incrementAccesses.incrementReads.incrementReadMisses))) sys.bus) BusOperation.BusRd address i false 0).accepted && (busOperation (Sys.mk (sys.caches.set i (Cache.mk (sys.caches.getD i default).coreId (sys.caches.getD i default).setIndexBits (sys.caches.getD i default).blockOffsetBits (sys.caches.getD i default).associativity (sys.caches.getD i default).sets true (sys.caches.getD i default).blockedCycles ((sys.caches.getD i default).stats.incrementAccesses.incrementReads.incrementReadMisses))) sys.bus) BusOperation.BusRd address i false 0).dataProvided)).1.set i { ((allocateLine (busOperation (Sys.mk (sys.caches.set i (Cache.mk (sys.caches.getD i default).coreId (sys.caches.getD i default).setIndexBits (sys.caches.getD i default).blockOffsetBits (sys.caches.getD i default).associativity (sys.caches.getD i default).sets true (sys.caches.getD i default).blockedCycles ((sys.caches.getD i default).stats.incrementAccesses.incrementReads.incrementReadMisses))) sys.bus) BusOperation.BusRd address i false 0).sys.caches i address false (busOperation (Sys.mk (sys.caches.set i (Cache.mk (sys.caches.getD i default).coreId (sys.caches.getD i default).setIndexBits (sys.caches.getD i default).blockOffsetBits (sys.caches.getD i default).associativity (sys.caches.getD i default).sets true (sys.caches.getD i default).blockedCycles ((sys.caches.getD i default).stats.incrementAccesses.incrementReads.incrementReadMisses))) sys.bus) BusOperation.BusRd address i false 0).cycles ((busOperation (Sys.mk (sys.caches.set i (Cache.mk (sys.caches.getD i default).coreId (sys.caches.getD i default).setIndexBits (sys.caches.getD i default).blockOffsetBits (sys.caches.getD i default).associativity (sys.caches.getD i default).sets true (sys.caches.getD i default).blockedCycles ((sys.caches.getD i default).stats.incrementAccesses.incrementReads.incrementReadMisses))) sys.bus) BusOperation.BusRd address i false 0).accepted && (busOperation (Sys.mk (sys.caches.set i (Cache.mk (sys.caches.getD i default).coreId (sys.caches.getD i default).setIndexBits (sys.caches.getD i default).blockOffsetBits (sys.caches.getD i default).associativity (sys.caches.getD i default).sets true (sys.caches.getD i default).blockedCycles ((sys.caches.getD i default).stats.incrementAccesses.incrementReads.incrementReadMisses))) sys.bus) BusOperation.BusRd address i false 0).dataProvided)).1.getD i default) with blockedCycles := ((allocateLine (busOperation (Sys.mk (sys.caches.set i (Cache.mk (sys.caches.getD i default).coreId (sys.caches.getD i default).setIndexBits (sys.caches.getD i default).blockOffsetBits (sys.caches.getD i default).associativity (sys.caches.getD i default).sets true (sys.caches.getD i default).blockedCycles ((sys.caches.getD i default).stats.incrementAccesses.incrementReads.incrementReadMisses))) sys.bus) BusOperation.BusRd address i false 0).sys.caches i address false (busOperation (Sys.mk (sys.caches.set i (Cache.mk (sys.caches.getD i default).coreId (sys.caches.getD i default).setIndexBits (sys.caches.getD i default).blockOffsetBits (sys.caches.getD i default).associativity (sys.caches.getD i default).sets true (sys.caches.getD i default).blockedCycles ((sys.caches.getD i default).stats.incrementAccesses.incrementReads.incrementReadMisses))) sys.bus) BusOperation.BusRd address i false 0).cycles ((busOperation (Sys.mk (sys.caches.set i (Cache.mk (sys.caches.getD i default).coreId (sys.caches.getD i default).setIndexBits (sys.caches.getD i default).blockOffsetBits (sys.caches.getD i default).associativity (sys.caches.getD i default).sets true (sys.caches.getD i default).blockedCycles ((sys.caches.getD i default).stats.incrementAccesses.incrementReads.incrementReadMisses))) sys.bus) BusOperation.BusRd address i false 0).accepted && (busOperation (Sys.mk (sys.caches.set i (Cache.mk (sys.caches.getD i default).coreId (sys.caches.getD i default).setIndexBits (sys.caches.getD i default).blockOffsetBits (sys.caches.getD i default).associativity (sys.caches.getD i default).sets true (sys.caches.getD i default).blockedCycles ((sys.caches.getD i default).stats.incrementAccesses.incrementReads.incrementReadMisses))) sys.bus) BusOperation.BusRd address i false 0).dataProvided)).1.getD i default).blockedCycles + ((allocateLine (busOperation (Sys.mk (sys.caches.set i (Cache.mk (sys.caches.getD i default).coreId (sys.caches.getD i default).setIndexBits (sys.caches.getD i default).blockOffsetBits (sys.caches.getD i default).associativity (sys.caches.getD i default).sets true (sys.caches.getD i default).blockedCycles ((sys.caches.getD i default).stats.incrementAccesses.incrementReads.incrementReadMisses))) sys.bus) BusOperation.BusRd address i false 0).sys.caches i address false (busOperation (Sys.mk (sys.caches.set i (Cache.mk (sys.caches.getD i default).coreId (sys.caches.getD i default).setIndexBits (sys.caches.getD i default).blockOffsetBits (sys.caches.getD i default).associativity (sys.caches.getD i default).sets true (sys.caches.getD i default).blockedCycles ((sys.caches.getD i default).stats.incrementAccesses.incrementReads.incrementReadMisses))) sys.bus) BusOperation.BusRd address i false 0).cycles ((busOperation (Sys.mk (sys.caches.set i (Cache.mk (sys.caches.getD i default).coreId (sys.caches.getD i default).setIndexBits (sys.caches.getD i default).blockOffsetBits (sys.caches.getD i default).associativity (sys.caches.getD i default).sets true (sys.caches.getD i default).blockedCycles ((sys.caches.getD i default).stats.incrementAccesses.incrementReads.incrementReadMisses))) sys.bus) BusOperation.BusRd address i false 0).accepted && (busOperation (Sys.mk (sys.caches.set i (Cache.mk (sys.caches.getD i default).coreId (sys.caches.getD i default).setIndexBits (sys.caches.getD i default).blockOffsetBits (sys.caches.getD i default).associativity (sys.caches.getD i default).sets true (sys.caches.getD i default).blockedCycles ((sys.caches.getD i default).stats.incrementAccesses.incrementReads.incrementReadMisses))) sys.bus) BusOperation.BusRd address i false 0).dataProvided)).2 - 1) }) : List Cache).getD q default).stateAt (addrSetIdx sb bob address) vt
                      = CacheState.INVALID := by
                  intro q hq hqi hqp
                  rw [hPeerF q hq hqi hqp, hPreOther q hq hqi _ _ (Or.inr hvtne)]
                  exact hqInv q hq hqi hqp
                by_cases hbp : b = p
                · exfalso
                  have hap : a ≠ p := by rw [← hbp]; exact hab
                  by_cases hai : a = i
                  · rw [hai, hselfvt] at hME
                    rcases hME with h | h
                    · cases h
                    · cases h
                  · rw [hFq a ha hai hap] at hME
                    rcases hME with h | h
                    · cases h
                    · cases h
                · by_cases hbi : b = i
                  · rw [hbi]
                    exact hselfvt
                  · exact hFq b hb hbi hbp
              · have hne2 : si ≠ (addrSetIdx sb bob address) ∨ tv ≠ vt := not_and_or.mp hVT
                have hstF : ∀ j, j < n →
                    ((((allocateLine (busOperation (Sys.mk (sys.caches.set i (Cache.mk (sys.caches.getD i default).coreId (sys.caches.getD i default).setIndexBits (sys.caches.getD i default).blockOffsetBits (sys.caches.getD i default).associativity (sys.caches.getD i default).sets true (sys.caches.getD i default).blockedCycles ((sys.caches.getD i default).stats.incrementAccesses.incrementReads.incrementReadMisses))) sys.bus) BusOperation.BusRd address i false 0).sys.caches i address false (busOperation (Sys.mk (sys.caches.set i (Cache.mk (sys.caches.getD i default).coreId (sys.caches.getD i default).setIndexBits (sys.caches.getD i default).blockOffsetBits (sys.caches.getD i default).associativity (sys.caches.getD i default).sets true (sys.caches.getD i default).blockedCycles ((sys.caches.getD i default).stats.incrementAccesses.incrementReads.incrementReadMisses))) sys.bus) BusOperation.BusRd address i false 0).cycles ((busOperation (Sys.mk (sys.caches.set i (Cache.mk (sys.caches.getD i default).coreId (sys.caches.getD i default).setIndexBits (sys.caches.getD i default).blockOffsetBits (sys.caches.getD i default).associativity (sys.caches.getD i default).sets true (sys.caches.getD i default).blockedCycles ((sys.caches.getD i default).stats.incrementAccesses.incrementReads.incrementReadMisses))) sys.bus) BusOperation.BusRd address i false 0).accepted && (busOperation (Sys.mk (sys.caches.set i (Cache.mk (sys.caches.getD i default).coreId (sys.caches.getD i default).setIndexBits (sys.caches.getD i default).blockOffsetBits (sys.caches.getD i default).associativity (sys.caches.getD i default).sets true (sys.caches.getD i default).blockedCycles ((sys.caches.getD i default).stats.incrementAccesses.incrementReads.incrementReadMisses))) sys.bus) BusOperation.BusRd address i false 0).dataProvided)).1.set i { ((allocateLine (busOperation (Sys.mk (sys.caches.set i (Cache.mk (sys.caches.getD i default).coreId (sys.caches.getD i default).setIndexBits (sys.caches.getD i default).blockOffsetBits (sys.caches.getD i default).associativity (sys.caches.getD i default).sets true (sys.caches.getD i default).blockedCycles ((sys.caches.getD i default).stats.incrementAccesses.incrementReads.incrementReadMisses))) sys.bus) BusOperation.BusRd address i false 0).sys.caches i address false (busOperation (Sys.mk (sys.caches.set i (Cache.mk (sys.caches.getD i default).coreId (sys.caches.getD i default).setIndexBits (sys.caches.getD i default).blockOffsetBits (sys.caches.getD i default).associativity (sys.caches.getD i default).sets true (sys.caches.getD i default).blockedCycles ((sys.caches.getD i default).stats.incrementAccesses.incrementReads.incrementReadMisses))) sys.bus) BusOperation.BusRd address i false 0).cycles ((busOperation (Sys.mk (sys.caches.set i (Cache.mk (sys.caches.getD i default).coreId (sys.caches.getD i default).setIndexBits (sys.caches.getD i default).blockOffsetBits (sys.caches.getD i default).associativity (sys.caches.getD i default).sets true (sys.caches.getD i default).blockedCycles ((sys.caches.getD i default).stats.incrementAccesses.incrementReads.incrementReadMisses))) sys.bus) BusOperation.BusRd address i false 0).accepted && (busOperation (Sys.mk (sys.caches.set i (Cache.mk (sys.caches.getD i default).coreId (sys.caches.getD i default).setIndexBits (sys.caches.getD i default).blockOffsetBits (sys.caches.getD i default).associativity (sys.caches.getD i default).sets true (sys.caches.getD i default).blockedCycles ((sys.caches.getD i default).stats.incrementAccesses.incrementReads.incrementReadMisses))) sys.bus) BusOperation.BusRd address i false 0).dataProvided)).1.getD i default) with blockedCycles := ((allocateLine (busOperation (Sys.mk (sys.caches.set i (Cache.mk (sys.caches.getD i default).coreId (sys.caches.getD i default).setIndexBits (sys.caches.getD i default).blockOffsetBits (sys.caches.getD i default).associativity (sys.caches.getD i default).sets true (sys.caches.getD i default).blockedCycles ((sys.caches.getD i default).stats.incrementAccesses.incrementReads.incrementReadMisses))) sys.bus) BusOperation.BusRd address i false 0).sys.caches i address false (busOperation (Sys.mk (sys.caches.set i (Cache.mk (sys.caches.getD i default).coreId (sys.caches.getD i default).setIndexBits (sys.caches.getD i default).blockOffsetBits (sys.caches.getD i default).associativity (sys.caches.getD i default).sets true (sys.caches.getD i default).blockedCycles ((sys.caches.getD i default).stats.incrementAccesses.incrementReads.incrementReadMisses))) sys.bus) BusOperation.BusRd address i false 0).cycles ((busOperation (Sys.mk (sys.caches.set i (Cache.mk (sys.caches.getD i default).coreId (sys.caches.getD i default).setIndexBits (sys.caches.getD i default).blockOffsetBits (sys.caches.getD i default).associativity (sys.caches.getD i default).sets true (sys.caches.getD i default).blockedCycles ((sys.caches.getD i default).stats.incrementAccesses.incrementReads.incrementReadMisses))) sys.bus) BusOperation.BusRd address i false 0).accepted && (busOperation (Sys.mk (sys.caches.set i (Cache.mk (sys.caches.getD i default).coreId (sys.caches.getD i default).setIndexBits (sys.caches.getD i default).blockOffsetBits (sys.caches.getD i default).associativity (sys.caches.getD i default).sets true (sys.caches.getD i default).blockedCycles ((sys.caches.getD i default).stats.incrementAccesses.incrementReads.incrementReadMisses))) sys.bus) BusOperation.BusRd address i false 0).dataProvided)).1.getD i default).blockedCycles + ((allocateLine (busOperation (Sys.mk (sys.caches.set i (Cache.mk (sys.caches.getD i default).coreId (sys.caches.getD i default).setIndexBits (sys.caches.getD i default).blockOffsetBits (sys.caches.getD i default).associativity (sys.caches.getD i default).sets true (sys.caches.getD i default).blockedCycles ((sys.caches.getD i default).stats.incrementAccesses.incrementReads.incrementReadMisses))) sys.bus) BusOperation.BusRd address i false 0).sys.caches i address false (busOperation (Sys.mk (sys.caches.set i (Cache.mk (sys.caches.getD i default).coreId (sys.caches.getD i default).setIndexBits (sys.caches.getD i default).blockOffsetBits (sys.caches.getD i default).associativity (sys.caches.getD i default).sets true (sys.caches.getD i default).blockedCycles ((sys.caches.getD i default).stats.incrementAccesses.incrementReads.incrementReadMisses))) sys.bus) BusOperation.BusRd address i false 0).cycles ((busOperation (Sys.mk (sys.caches.set i (Cache.mk (sys.caches.getD i default).coreId (sys.caches.getD i default).setIndexBits (sys.caches.getD i default).blockOffsetBits (sys.caches.getD i default).associativity (sys.caches.getD i default).sets true (sys.caches.getD i default).blockedCycles ((sys.caches.getD i default).stats.incrementAccesses.incrementReads.incrementReadMisses))) sys.bus) BusOperation.BusRd address i false 0).accepted && (busOperation (Sys.mk (sys.caches.set i (Cache.mk (sys.caches.getD i default).coreId (sys.caches.getD i default).setIndexBits (sys.caches.getD i default).blockOffsetBits (sys.caches.getD i default).associativity (sys.caches.getD i default).sets true (sys.caches.getD i default).blockedCycles ((sys.caches.getD i default).stats.incrementAccesses.incrementReads.incrementReadMisses))) sys.bus) BusOperation.BusRd address i false 0).dataProvided)).2 - 1) }) : List Cache).getD j default).stateAt si tv
                      = (sys.caches.getD j default).stateAt si tv := by
                  intro j hj
                  by_cases hji : j = i
                  · rw [hji, hFself, hunchS2 si tv hne hne2, hPreSelf]
                  · by_cases hjp : j = p
                    · rw [hjp, hFgJ p hpi, e83 si tv hne2, hPreOther p hp hpi si tv hne]
                    · rw [hPeerF j hj hji hjp, hPreOther j hj hji si tv hne]
                rw [hstF b hb]
                rw [hstF a ha] at hME
                exact hmesi si tv a b ha hb hab hME

theorem writeHitMut_spec (sb bob assoc : Nat) (i : Nat) (c : Cache) (address li : Nat)
    (hcwf : CacheWF sb bob assoc i c)
    (hk : (c.sets.getD (c.getSetIndex address) default).findLine (c.getTag address)
      = some li) :
    CacheWF sb bob assoc i
      (c.putSet (c.getSetIndex address)
        ((c.sets.getD (c.getSetIndex address) default).setLineState li
          CacheState.MODIFIED)) ∧
    (c.putSet (c.getSetIndex address)
        ((c.sets.getD (c.getSetIndex address) default).setLineState li
          CacheState.MODIFIED)).stateAt (addrSetIdx sb bob address) (addrTag sb bob address)
      = CacheState.MODIFIED ∧
    (∀ si tv, si ≠ addrSetIdx sb bob address ∨ tv ≠ addrTag sb bob address →
      (c.putSet (c.getSetIndex address)
        ((c.sets.getD (c.getSetIndex address) default).setLineState li
          CacheState.MODIFIED)).stateAt si tv = c.stateAt si tv) := by
  have hsi := cacheWF_getSetIndex sb bob assoc i c hcwf address
  have hta := cacheWF_getTag sb bob assoc i c hcwf address
  have hsilt2 : c.getSetIndex address < 2 ^ sb := by
    rw [← hcwf.2.1]
    exact getSetIndex_lt c address
  have hset : c.getSetIndex address < c.sets.length := by
    rw [hcwf.2.2.2.2.1]
    exact hsilt2
  have hsetfacts := hcwf.2.2.2.2.2 (c.getSetIndex address) hsilt2
  have hu := hsetfacts.2.2
  have hk2 : (c.sets.getD (c.getSetIndex address) default).findLine (addrTag sb bob address)
      = some li := by
    rw [← hta]
    exact hk
  obtain ⟨hlilt, hmat, _⟩ := (findLine_eq_some_iff _ _ _).mp hk2
  refine ⟨?_, ?_, ?_⟩
  · refine ⟨hcwf.1, hcwf.2.1, hcwf.2.2.1, hcwf.2.2.2.1, ?_, ?_⟩
    · show (c.sets.set (c.getSetIndex address)
        ((c.sets.getD (c.getSetIndex address) default).setLineState li
          CacheState.MODIFIED)).length = 2 ^ sb
      rw [List.length_set]
      exact hcwf.2.2.2.2.1
    · intro k hkk
      show ((c.sets.set (c.getSetIndex address)
          ((c.sets.getD (c.getSetIndex address) default).setLineState li
            CacheState.MODIFIED)).getD k default).lines.length = assoc ∧
        ((c.sets.set (c.getSetIndex address)
          ((c.sets.getD (c.getSetIndex address) default).setLineState li
            CacheState.MODIFIED)).getD k default).lruCounter.length = assoc ∧
        ((c.sets.set (c.getSetIndex address)
          ((c.sets.getD (c.getSetIndex address) default).setLineState li
            CacheState.MODIFIED)).getD k default).tagUnique
      by_cases hki : k = c.getSetIndex address
      · rw [hki, getD_set_self _ _ _ _ hset]
        refine ⟨?_, ?_, ?_⟩
        · rw [setLineState_lines_length]
          exact hsetfacts.1
        · rw [setLineState_lru]
          exact hsetfacts.2.1
        · exact tagUnique_setLineState _ _ _ (Or.inl hmat.1) hu
      · rw [getD_set_ne _ _ _ _ _ (fun h => hki h.symm)]
        exact hcwf.2.2.2.2.2 k hkk
  · rw [← hsi]
    exact stateAt_mutLine_self c (c.getSetIndex address) li CacheState.MODIFIED
      (addrTag sb bob address) hset hu hk2 _ rfl
  · intro si tv hne
    refine stateAt_mutLine_other c (c.getSetIndex address) li CacheState.MODIFIED
      (addrTag sb bob address) hset hmat.2 _ rfl si tv ?_
    rcases hne with h | h
    · left
      rw [hsi]
      exact h
    · right
      exact h

theorem cacheWrite_preserves_Inv (n sb assoc bob : Nat) (sys : Sys)
    (hinv : Inv n sb assoc bob sys) (hassoc : 0 < assoc)
    (i : Nat) (hi : i < n) (address : Nat) (cycles : Int) :
    Inv n sb assoc bob (cacheWrite sys i address cycles).sys := by
  obtain ⟨⟨hlen, hwf, hbusy, hpend⟩, hmesi⟩ := hinv
  have hcwf := hwf i hi
  have hcore : (sys.caches.getD i default).coreId = i := hcwf.1
  have hslen : (sys.caches.getD i default).sets.length = 2 ^ sb := hcwf.2.2.2.2.1
  have hSI := cacheWF_getSetIndex sb bob assoc i _ hcwf address
  have hTA := cacheWF_getTag sb bob assoc i _ hcwf address
  have haddrSI : (addrSetIdx sb bob address) < 2 ^ sb := by
    unfold addrSetIdx
    exact Nat.mod_lt _ (Nat.pos_pow_of_pos _ (by omega))
  cases hbl : (sys.caches.getD i default).isBlocked with
  | true =>
    rw [cacheWrite_eq_blocked sys i address cycles hbl]
    exact ⟨⟨hlen, hwf, hbusy, hpend⟩, hmesi⟩
  | false =>
    cases hfl : ((sys.caches.getD i default).sets.getD ((sys.caches.getD i default).getSetIndex address) default).findLine
        ((sys.caches.getD i default).getTag address) with
    | some li =>
      have hSIc : ((Cache.mk (sys.caches.getD i default).coreId (sys.caches.getD i default).setIndexBits (sys.caches.getD i default).blockOffsetBits (sys.caches.getD i default).associativity (sys.caches.getD i default).sets (sys.caches.getD i default).isBlocked (sys.caches.getD i default).blockedCycles ((sys.caches.getD i default).stats.incrementAccesses.incrementWrites)) : Cache).getSetIndex address = (addrSetIdx sb bob address) := hSI
      have hSIlt : ((Cache.mk (sys.caches.getD i default).coreId (sys.caches.getD i default).setIndexBits (sys.caches.getD i default).blockOffsetBits (sys.caches.getD i default).associativity (sys.caches.getD i default).sets (sys.caches.getD i default).isBlocked (sys.caches.getD i default).blockedCycles ((sys.caches.getD i default).stats.incrementAccesses.incrementWrites)) : Cache).getSetIndex address < (sys.caches.getD i default).sets.length := by
        rw [hSIc, hslen]
        exact haddrSI
      have hf2 : ((((Cache.mk (sys.caches.getD i default).coreId (sys.caches.getD i default).setIndexBits (sys.caches.getD i default).blockOffsetBits (sys.caches.getD i default).associativity (sys.caches.getD i default).sets (sys.caches.getD i default).isBlocked (sys.caches.getD i default).blockedCycles ((sys.caches.getD i default).stats.incrementAccesses.incrementWrites)).putSet ((Cache.mk (sys.caches.getD i default).coreId (sys.caches.getD i default).setIndexBits (sys.caches.getD i default).blockOffsetBits (sys.caches.getD i default).associativity (sys.caches.getD i default).sets (sys.caches.getD i default).isBlocked (sys.caches.getD i default).blockedCycles ((sys.caches.getD i default).stats.incrementAccesses.incrementWrites)).getSetIndex address) (((sys.caches.getD i default).sets.getD ((Cache.mk (sys.caches.getD i default).coreId (sys.caches.getD i default).setIndexBits (sys.caches.getD i default).blockOffsetBits (sys.caches.getD i default).associativity (sys.caches.getD i default).sets (sys.caches.getD i default).isBlocked (sys.caches.getD i default).blockedCycles ((sys.caches.getD i default).stats.incrementAccesses.incrementWrites)).getSetIndex address) default).updateLRU li)).sets.getD (((Cache.mk (sys.caches.getD i default).coreId (sys.caches.getD i default).setIndexBits (sys.caches.getD i default).blockOffsetBits (sys.caches.getD i default).associativity (sys.caches.getD i default).sets (sys.caches.getD i default).isBlocked (sys.caches.getD i default).blockedCycles ((sys.caches.getD i default).stats.incrementAccesses.incrementWrites)).putSet ((Cache.mk (sys.caches.getD i default).coreId (sys.caches.getD i default).setIndexBits (sys.caches.getD i default).blockOffsetBits (sys.caches.getD i default).associativity (sys.caches.getD i default).sets (sys.caches.getD i default).isBlocked (sys.caches.getD i default).blockedCycles ((sys.caches.getD i default).stats.incrementAccesses.incrementWrites)).getSetIndex address) (((sys.caches.getD i default).sets.getD ((Cache.mk (sys.caches.getD i default).coreId (sys.caches.getD i default).setIndexBits (sys.caches.getD i default).blockOffsetBits (sys.caches.getD i default).associativity (sys.caches.getD i default).sets (sys.caches.getD i default).isBlocked (sys.caches.getD i default).blockedCycles ((sys.caches.getD i default).stats.incrementAccesses.incrementWrites)).getSetIndex address) default).updateLRU li)).getSetIndex address) default) : CacheSet).findLine ((((Cache.mk (sys.caches.getD i default).coreId (sys.caches.getD i default).setIndexBits (sys.caches.getD i default).blockOffsetBits (sys.caches.getD i default).associativity (sys.caches.getD i default).sets (sys.caches.getD i default).isBlocked (sys.caches.getD i default).blockedCycles ((sys.caches.getD i default).stats.incrementAccesses.incrementWrites)).putSet ((Cache.mk (sys.caches.getD i default).coreId (sys.caches.getD i default).setIndexBits (sys.caches.getD i default).blockOffsetBits (sys.caches.getD i default).associativity (sys.caches.getD i default).sets (sys.caches.getD i default).isBlocked (sys.caches.getD i default).blockedCycles ((sys.caches.getD i default).stats.incrementAccesses.incrementWrites)).getSetIndex address) (((sys.caches.getD i default).sets.getD ((Cache.mk (sys.caches.getD i default).coreId (sys.caches.getD i default).setIndexBits (sys.caches.getD i default).blockOffsetBits (sys.caches.getD i default).associativity (sys.caches.getD i default).sets (sys.caches.getD i default).isBlocked (sys.caches.getD i default).blockedCycles ((sys.caches.getD i default).stats.incrementAccesses.incrementWrites)).getSetIndex address) default).updateLRU li)) : Cache).getTag address) = some li := by
        show ((((sys.caches.getD i default).sets.set ((Cache.mk (sys.caches.getD i default).coreId (sys.caches.getD i default).setIndexBits (sys.caches.getD i default).blockOffsetBits (sys.caches.getD i default).associativity (sys.caches.getD i default).sets (sys.caches.getD i default).isBlocked (sys.caches.getD i default).blockedCycles ((sys.caches.getD i default).stats.incrementAccesses.incrementWrites)).getSetIndex address) (((sys.caches.getD i default).sets.getD ((Cache.mk (sys.caches.getD i default).coreId (sys.caches.getD i default).setIndexBits (sys.caches.getD i default).blockOffsetBits (sys.caches.getD i default).associativity (sys.caches.getD i default).sets (sys.caches.getD i default).isBlocked (sys.caches.getD i default).blockedCycles ((sys.caches.getD i default).stats.incrementAccesses.incrementWrites)).getSetIndex address) default).updateLRU li))).getD ((Cache.mk (sys.caches.getD i default).coreId (sys.caches.getD i default).setIndexBits (sys.caches.getD i default).blockOffsetBits (sys.caches.getD i default).associativity (sys.caches.getD i default).sets (sys.caches.getD i default).isBlocked (sys.caches.getD i default).blockedCycles ((sys.caches.getD i default).stats.incrementAccesses.incrementWrites)).getSetIndex address) default).findLine
          ((sys.caches.getD i default).getTag address) = some li
        rw [getD_set_self _ _ _ _ hSIlt]
        exact hfl
      have hsetw : ((((Cache.mk (sys.caches.getD i default).coreId (sys.caches.getD i default).setIndexBits (sys.caches.getD i default).blockOffsetBits (sys.caches.getD i default).associativity (sys.caches.getD i default).sets (sys.caches.getD i default).isBlocked (sys.caches.getD i default).blockedCycles ((sys.caches.getD i default).stats.incrementAccesses.incrementWrites)).putSet ((Cache.mk (sys.caches.getD i default).coreId (sys.caches.getD i default).setIndexBits (sys.caches.getD i default).blockOffsetBits (sys.caches.getD i default).associativity (sys.caches.getD i default).sets (sys.caches.getD i default).isBlocked (sys.caches.getD i default).blockedCycles ((sys.caches.getD i default).stats.incrementAccesses.incrementWrites)).getSetIndex address) (((sys.caches.getD i default).sets.getD ((Cache.mk (sys.caches.getD i default).coreId (sys.caches.getD i default).setIndexBits (sys.caches.getD i default).blockOffsetBits (sys.caches.getD i default).associativity (sys.caches.getD i default).sets (sys.caches.getD i default).isBlocked (sys.caches.getD i default).blockedCycles ((sys.caches.getD i default).stats.incrementAccesses.incrementWrites)).getSetIndex address) default).updateLRU li)).sets.getD (((Cache.mk (sys.caches.getD i default).coreId (sys.caches.getD i default).setIndexBits (sys.caches.getD i default).blockOffsetBits (sys.caches.getD i default).associativity (sys.caches.getD i default).sets (sys.caches.getD i default).isBlocked (sys.caches.getD i default).blockedCycles ((sys.caches.getD i default).stats.incrementAccesses.incrementWrites)).putSet ((Cache.mk (sys.caches.getD i default).coreId (sys.caches.getD i default).setIndexBits (sys.caches.getD i default).blockOffsetBits (sys.caches.getD i default).associativity (sys.caches.getD i default).sets (sys.caches.getD i default).isBlocked (sys.caches.getD i default).blockedCycles ((sys.caches.getD i default).stats.incrementAccesses.incrementWrites)).getSetIndex address) (((sys.caches.getD i default).sets.getD ((Cache.mk (sys.caches.getD i default).coreId (sys.caches.getD i default).setIndexBits (sys.caches.getD i default).blockOffsetBits (sys.caches.getD i default).associativity (sys.caches.getD i default).sets (sys.caches.getD i default).isBlocked (sys.caches.getD i default).blockedCycles ((sys.caches.getD i default).stats.incrementAccesses.incrementWrites)).getSetIndex address) default).updateLRU li)).getSetIndex address) default) : CacheSet) = (((sys.caches.getD i default).sets.getD ((Cache.mk (sys.caches.getD i default).coreId (sys.caches.getD i default).setIndexBits (sys.caches.getD i default).blockOffsetBits (sys.caches.getD i default).associativity (sys.caches.getD i default).sets (sys.caches.getD i default).isBlocked (sys.caches.getD i default).blockedCycles ((sys.caches.getD i default).stats.incrementAccesses.incrementWrites)).getSetIndex address) default).updateLRU li) := by
        show ((((sys.caches.getD i default).sets.set ((Cache.mk (sys.caches.getD i default).coreId (sys.caches.getD i default).setIndexBits (sys.caches.getD i default).blockOffsetBits (sys.caches.getD i default).associativity (sys.caches.getD i default).sets (sys.caches.getD i default).isBlocked (sys.caches.getD i default).blockedCycles ((sys.caches.getD i default).stats.incrementAccesses.incrementWrites)).getSetIndex address) (((sys.caches.getD i default).sets.getD ((Cache.mk (sys.caches.getD i default).coreId (sys.caches.getD i default).setIndexBits (sys.caches.getD i default).blockOffsetBits (sys.caches.getD i default).associativity (sys.caches.getD i default).sets (sys.caches.getD i default).isBlocked (sys.caches.getD i default).blockedCycles ((sys.caches.getD i default).stats.incrementAccesses.incrementWrites)).getSetIndex address) default).updateLRU li))).getD ((Cache.mk (sys.caches.getD i default).coreId (sys.caches.getD i default).setIndexBits (sys.caches.getD i default).blockOffsetBits (sys.caches.getD i default).associativity (sys.caches.getD i default).sets (sys.caches.getD i default).isBlocked (sys.caches.getD i default).blockedCycles ((sys.caches.getD i default).stats.incrementAccesses.incrementWrites)).getSetIndex address) default) = (((sys.caches.getD i default).sets.getD ((Cache.mk (sys.caches.getD i default).coreId (sys.caches.getD i default).setIndexBits (sys.caches.getD i default).blockOffsetBits (sys.caches.getD i default).associativity (sys.caches.getD i default).sets (sys.caches.getD i default).isBlocked (sys.caches.getD i default).blockedCycles ((sys.caches.getD i default).stats.incrementAccesses.incrementWrites)).getSetIndex address) default).updateLRU li)
        exact getD_set_self _ _ _ _ hSIlt
      have hline : (((((Cache.mk (sys.caches.getD i default).coreId (sys.caches.getD i default).setIndexBits (sys.caches.getD i default).blockOffsetBits (sys.caches.getD i default).associativity (sys.caches.getD i default).sets (sys.caches.getD i default).isBlocked (sys.caches.getD i default).blockedCycles ((sys.caches.getD i default).stats.incrementAccesses.incrementWrites)).putSet ((Cache.mk (sys.caches.getD i default).coreId (sys.caches.getD i default).setIndexBits (sys.caches.getD i default).blockOffsetBits (sys.caches.getD i default).associativity (sys.caches.getD i default).sets (sys.caches.getD i default).isBlocked (sys.caches.getD i default).blockedCycles ((sys.caches.getD i default).stats.incrementAccesses.incrementWrites)).getSetIndex address) (((sys.caches.getD i default).sets.getD ((Cache.mk (sys.caches.getD i default).coreId (sys.caches.getD i default).setIndexBits (sys.caches.getD i default).blockOffsetBits (sys.caches.getD i default).associativity (sys.caches.getD i default).sets (sys.caches.getD i default).isBlocked (sys.caches.getD i default).blockedCycles ((sys.caches.getD i default).stats.incrementAccesses.incrementWrites)).getSetIndex address) default).updateLRU li)).sets.getD (((Cache.mk (sys.caches.getD i default).coreId (sys.caches.getD i default).setIndexBits (sys.caches.getD i default).blockOffsetBits (sys.caches.getD i default).associativity (sys.caches.getD i default).sets (sys.caches.getD i default).isBlocked (sys.caches.getD i default).blockedCycles ((sys.caches.getD i default).stats.incrementAccesses.incrementWrites)).putSet ((Cache.mk (sys.caches.getD i default).coreId (sys.caches.getD i default).setIndexBits (sys.caches.getD i default).blockOffsetBits (sys.caches.getD i default).associativity (sys.caches.getD i default).sets (sys.caches.getD i default).isBlocked (sys.caches.getD i default).blockedCycles ((sys.caches.getD i default).stats.incrementAccesses.incrementWrites)).getSetIndex address) (((sys.caches.getD i default).sets.getD ((Cache.mk (sys.caches.getD i default).coreId (sys.caches.getD i default).setIndexBits (sys.caches.getD i default).blockOffsetBits (sys.caches.getD i default).associativity (sys.caches.getD i default).sets (sys.caches.getD i default).isBlocked (sys.caches.getD i default).blockedCycles ((sys.caches.getD i default).stats.incrementAccesses.incrementWrites)).getSetIndex address) default).updateLRU li)).getSetIndex address) default).getLine li) : CacheLine).state
          = (((sys.caches.getD i default).sets.getD ((Cache.mk (sys.caches.getD i default).coreId (sys.caches.getD i default).setIndexBits (sys.caches.getD i default).blockOffsetBits (sys.caches.getD i default).associativity (sys.caches.getD i default).sets (sys.caches.getD i default).isBlocked (sys.caches.getD i default).blockedCycles ((sys.caches.getD i default).stats.incrementAccesses.incrementWrites)).getSetIndex address) default).getLine li).state := by
        rw [hsetw]
        rfl
      have hst0 : ∀ si tv, (((Cache.mk (sys.caches.getD i default).coreId (sys.caches.getD i default).setIndexBits (sys.caches.getD i default).blockOffsetBits (sys.caches.getD i default).associativity (sys.caches.getD i default).sets (sys.caches.getD i default).isBlocked (sys.caches.getD i default).blockedCycles ((sys.caches.getD i default).stats.incrementAccesses.incrementWrites)).putSet ((Cache.mk (sys.caches.getD i default).coreId (sys.caches.getD i default).setIndexBits (sys.caches.getD i default).blockOffsetBits (sys.caches.getD i default).associativity (sys.caches.getD i default).sets (sys.caches.getD i default).isBlocked (sys.caches.getD i default).blockedCycles ((sys.caches.getD i default).stats.incrementAccesses.incrementWrites)).getSetIndex address) (((sys.caches.getD i default).sets.getD ((Cache.mk (sys.caches.getD i default).coreId (sys.caches.getD i default).setIndexBits (sys.caches.getD i default).blockOffsetBits (sys.caches.getD i default).associativity (sys.caches.getD i default).sets (sys.caches.getD i default).isBlocked (sys.caches.getD i default).blockedCycles ((sys.caches.getD i default).stats.incrementAccesses.incrementWrites)).getSetIndex address) default).updateLRU li)) : Cache).stateAt si tv = (sys.caches.getD i default).stateAt si tv := by
        intro si tv
        show (((sys.caches.getD i default).sets.set ((Cache.mk (sys.caches.getD i default).coreId (sys.caches.getD i default).setIndexBits (sys.caches.getD i default).blockOffsetBits (sys.caches.getD i default).associativity (sys.caches.getD i default).sets (sys.caches.getD i default).isBlocked (sys.caches.getD i default).blockedCycles ((sys.caches.getD i default).stats.incrementAccesses.incrementWrites)).getSetIndex address) (((sys.caches.getD i default).sets.getD ((Cache.mk (sys.caches.getD i default).coreId (sys.caches.getD i default).setIndexBits (sys.caches.getD i default).blockOffsetBits (sys.caches.getD i default).associativity (sys.caches.getD i default).sets (sys.caches.getD i default).isBlocked (sys.caches.getD i default).blockedCycles ((sys.caches.getD i default).stats.incrementAccesses.incrementWrites)).getSetIndex address) default).updateLRU li)).getD si default).stateOf tv
          = ((sys.caches.getD i default).sets.getD si default).stateOf tv
        by_cases hsi : si = ((Cache.mk (sys.caches.getD i default).coreId (sys.caches.getD i default).setIndexBits (sys.caches.getD i default).blockOffsetBits (sys.caches.getD i default).associativity (sys.caches.getD i default).sets (sys.caches.getD i default).isBlocked (sys.caches.getD i default).blockedCycles ((sys.caches.getD i default).stats.incrementAccesses.incrementWrites)).getSetIndex address)
        · rw [hsi, getD_set_self _ _ _ _ hSIlt]
          exact updateLRU_stateOf _ _ _
        · rw [getD_set_ne _ _ _ _ _ (fun h => hsi h.symm)]
      have hwfC : CacheWF sb bob assoc i (((Cache.mk (sys.caches.getD i default).coreId (sys.caches.getD i default).setIndexBits (sys.caches.getD i default).blockOffsetBits (sys.caches.getD i default).associativity (sys.caches.getD i default).sets (sys.caches.getD i default).isBlocked (sys.caches.getD i default).blockedCycles ((sys.caches.getD i default).stats.incrementAccesses.incrementWrites)).putSet ((Cache.mk (sys.caches.getD i default).coreId (sys.caches.getD i default).setIndexBits (sys.caches.getD i default).blockOffsetBits (sys.caches.getD i default).associativity (sys.caches.getD i default).sets (sys.caches.getD i default).isBlocked (sys.caches.getD i default).blockedCycles ((sys.caches.getD i default).stats.incrementAccesses.incrementWrites)).getSetIndex address) (((sys.caches.getD i default).sets.getD ((Cache.mk (sys.caches.getD i default).coreId (sys.caches.getD i default).setIndexBits (sys.caches.getD i default).blockOffsetBits (sys.caches.getD i default).associativity (sys.caches.getD i default).sets (sys.caches.getD i default).isBlocked (sys.caches.getD i default).blockedCycles ((sys.caches.getD i default).stats.incrementAccesses.incrementWrites)).getSetIndex address) default).updateLRU li)) : Cache) := by
        refine ⟨hcwf.1, hcwf.2.1, hcwf.2.2.1, hcwf.2.2.2.1, ?_, ?_⟩
        · show ((sys.caches.getD i default).sets.set ((Cache.mk (sys.caches.getD i default).coreId (sys.caches.getD i default).setIndexBits (sys.caches.getD i default).blockOffsetBits (sys.caches.getD i default).associativity (sys.caches.getD i default).sets (sys.caches.getD i default).isBlocked (sys.caches.getD i default).blockedCycles ((sys.caches.getD i default).stats.incrementAccesses.incrementWrites)).getSetIndex address) (((sys.caches.getD i default).sets.getD ((Cache.mk (sys.caches.getD i default).coreId (sys.caches.getD i default).setIndexBits (sys.caches.getD i default).blockOffsetBits (sys.caches.getD i default).associativity (sys.caches.getD i default).sets (sys.caches.getD i default).isBlocked (sys.caches.getD i default).blockedCycles ((sys.caches.getD i default).stats.incrementAccesses.incrementWrites)).getSetIndex address) default).updateLRU li)).length = 2 ^ sb
          rw [List.length_set]
          exact hslen
        · intro k hk
          show (((sys.caches.getD i default).sets.set ((Cache.mk (sys.caches.getD i default).coreId (sys.caches.getD i default).setIndexBits (sys.caches.getD i default).blockOffsetBits (sys.caches.getD i default).associativity (sys.caches.getD i default).sets (sys.caches.getD i default).isBlocked (sys.caches.getD i default).blockedCycles ((sys.caches.getD i default).stats.incrementAccesses.incrementWrites)).getSetIndex address) (((sys.caches.getD i default).sets.getD ((Cache.mk (sys.caches.getD i default).coreId (sys.caches.getD i default).setIndexBits (sys.caches.getD i default).blockOffsetBits (sys.caches.getD i default).associativity (sys.caches.getD i default).sets (sys.caches.getD i default).isBlocked (sys.caches.getD i default).blockedCycles ((sys.caches.getD i default).stats.incrementAccesses.incrementWrites)).getSetIndex address) default).updateLRU li)).getD k default).lines.length = assoc ∧
            (((sys.caches.getD i default).sets.set ((Cache.mk (sys.caches.getD i default).coreId (sys.caches.getD i default).setIndexBits (sys.caches.getD i default).blockOffsetBits (sys.caches.getD i default).associativity (sys.caches.getD i default).sets (sys.caches.getD i default).isBlocked (sys.caches.getD i default).blockedCycles ((sys.caches.getD i default).stats.incrementAccesses.incrementWrites)).getSetIndex address) (((sys.caches.getD i default).sets.getD ((Cache.mk (sys.caches.getD i default).coreId (sys.caches.getD i default).setIndexBits (sys.caches.getD i default).blockOffsetBits (sys.caches.getD i default).associativity (sys.caches.getD i default).sets (sys.caches.getD i default).isBlocked (sys.caches.getD i default).blockedCycles ((sys.caches.getD i default).stats.incrementAccesses.incrementWrites)).getSetIndex address) default).updateLRU li)).getD k default).lruCounter.length = assoc ∧
            (((sys.caches.getD i default).sets.set ((Cache.mk (sys.caches.getD i default).coreId (sys.caches.getD i default).setIndexBits (sys.caches.getD i default).blockOffsetBits (sys.caches.getD i default).associativity (sys.caches.getD i default).sets (sys.caches.getD i default).isBlocked (sys.caches.getD i default).blockedCycles ((sys.caches.getD i default).stats.incrementAccesses.incrementWrites)).getSetIndex address) (((sys.caches.getD i default).sets.getD ((Cache.mk (sys.caches.getD i default).coreId (sys.caches.getD i default).setIndexBits (sys.caches.getD i default).blockOffsetBits (sys.caches.getD i default).associativity (sys.caches.getD i default).sets (sys.caches.getD i default).isBlocked (sys.caches.getD i default).blockedCycles ((sys.caches.getD i default).stats.incrementAccesses.incrementWrites)).getSetIndex address) default).updateLRU li)).getD k default).tagUnique
          by_cases hki : k = ((Cache.mk (sys.caches.getD i default).coreId (sys.caches.getD i default).setIndexBits (sys.caches.getD i default).blockOffsetBits (sys.caches.getD i default).associativity (sys.caches.getD i default).sets (sys.caches.getD i default).isBlocked (sys.caches.getD i default).blockedCycles ((sys.caches.getD i default).stats.incrementAccesses.incrementWrites)).getSetIndex address)
          · rw [hki, getD_set_self _ _ _ _ hSIlt]
            have horig := hcwf.2.2.2.2.2 (addrSetIdx sb bob address) haddrSI
            refine ⟨?_, ?_, ?_⟩
            · rw [updateLRU_lines]
              show ((sys.caches.getD i default).sets.getD ((sys.caches.getD i default).getSetIndex address) default).lines.length = assoc
              rw [hSI]
              exact horig.1
            · rw [updateLRU_lru_length]
              show ((sys.caches.getD i default).sets.getD ((sys.caches.getD i default).getSetIndex address) default).lruCounter.length
                = assoc
              rw [hSI]
              exact horig.2.1
            · show ((sys.caches.getD i default).sets.getD ((sys.caches.getD i default).getSetIndex address) default).tagUnique
              rw [hSI]
              exact horig.2.2
          · rw [getD_set_ne _ _ _ _ _ (fun h => hki h.symm)]
            exact hcwf.2.2.2.2.2 k hk
      cases hstate : (((sys.caches.getD i default).sets.getD ((Cache.mk (sys.caches.getD i default).coreId (sys.caches.getD i default).setIndexBits (sys.caches.getD i default).blockOffsetBits (sys.caches.getD i default).associativity (sys.caches.getD i default).sets (sys.caches.getD i default).isBlocked (sys.caches.getD i default).blockedCycles ((sys.caches.getD i default).stats.incrementAccesses.incrementWrites)).getSetIndex address) default).getLine li).state with
      | MODIFIED =>
        have hns : ¬ ((((((Cache.mk (sys.caches.getD i default).coreId (sys.caches.getD i default).setIndexBits (sys.caches.getD i default).blockOffsetBits (sys.caches.getD i default).associativity (sys.caches.getD i default).sets (sys.caches.getD i default).isBlocked (sys.caches.getD i default).blockedCycles ((sys.caches.getD i default).stats.incrementAccesses.incrementWrites)).putSet ((Cache.mk (sys.caches.getD i default).coreId (sys.caches.getD i default).setIndexBits (sys.caches.getD i default).blockOffsetBits (sys.caches.getD i default).associativity (sys.caches.getD i default).sets (sys.caches.getD i default).isBlocked (sys.caches.getD i default).blockedCycles ((sys.caches.getD i default).stats.incrementAccesses.incrementWrites)).getSetIndex address) (((sys.caches.getD i default).sets.getD ((Cache.mk (sys.caches.getD i default).coreId (sys.caches.getD i default).setIndexBits (sys.caches.getD i default).blockOffsetBits (sys.caches.getD i default).associativity (sys.caches.getD i default).sets (sys.caches.getD i default).isBlocked (sys.caches.getD i default).blockedCycles ((sys.caches.getD i default).stats.incrementAccesses.incrementWrites)).getSetIndex address) default).updateLRU li)).sets.getD (((Cache.mk (sys.caches.getD i default).coreId (sys.caches.getD i default).setIndexBits (sys.caches.getD i default).blockOffsetBits (sys.caches.getD i default).associativity (sys.caches.getD i default).sets (sys.caches.getD i default).isBlocked (sys.caches.getD i default).blockedCycles ((sys.caches.getD i default).stats.incrementAccesses.incrementWrites)).putSet ((Cache.mk (sys.caches.getD i default).coreId (sys.caches.getD i default).setIndexBits (sys.caches.getD i default).blockOffsetBits (sys.caches.getD i default).associativity (sys.caches.getD i default).sets (sys.caches.getD i default).isBlocked (sys.caches.getD i default).blockedCycles ((sys.caches.getD i default).stats.incrementAccesses.incrementWrites)).getSetIndex address) (((sys.caches.getD i default).sets.getD ((Cache.mk (sys.caches.getD i default).coreId (sys.caches.getD i default).setIndexBits (sys.caches.getD i default).blockOffsetBits (sys.caches.getD i default).associativity (sys.caches.getD i default).sets (sys.caches.getD i default).isBlocked (sys.caches.getD i default).blockedCycles ((sys.caches.getD i default).stats.incrementAccesses.incrementWrites)).getSetIndex address) default).updateLRU li)).getSetIndex address) default).getLine li) : CacheLine).state = CacheState.SHARED ∨
            (((((Cache.mk (sys.caches.getD i default).coreId (sys.caches.getD i default).setIndexBits (sys.caches.getD i default).blockOffsetBits (sys.caches.getD i default).associativity (sys.caches.getD i default).sets (sys.caches.getD i default).isBlocked (sys.caches.getD i default).blockedCycles ((sys.caches.getD i default).stats.incrementAccesses.incrementWrites)).putSet ((Cache.mk (sys.caches.getD i default).coreId (sys.caches.getD i default).setIndexBits (sys.caches.getD i default).blockOffsetBits (sys.caches.getD i default).associativity (sys.caches.getD i default).sets (sys.caches.getD i default).isBlocked (sys.caches.getD i default).blockedCycles ((sys.caches.getD i default).stats.incrementAccesses.incrementWrites)).getSetIndex address) (((sys.caches.getD i default).sets.getD ((Cache.mk (sys.caches.getD i default).coreId (sys.caches.getD i default).setIndexBits (sys.caches.getD i default).blockOffsetBits (sys.caches.getD i default).associativity (sys.caches.getD i default).sets (sys.caches.getD i default).isBlocked (sys.caches.getD i default).blockedCycles ((sys.caches.getD i default).stats.incrementAccesses.incrementWrites)).getSetIndex address) default).updateLRU li)).sets.getD (((Cache.mk (sys.caches.getD i default).coreId (sys.caches.getD i default).setIndexBits (sys.caches.getD i default).blockOffsetBits (sys.caches.getD i default).associativity (sys.caches.getD i default).sets (sys.caches.getD i default).isBlocked (sys.caches.getD i default).blockedCycles ((sys.caches.getD i default).stats.incrementAccesses.incrementWrites)).putSet ((Cache.mk (sys.caches.getD i default).coreId (sys.caches.getD i default).setIndexBits (sys.caches.getD i default).blockOffsetBits (sys.caches.getD i default).associativity (sys.caches.getD i default).sets (sys.caches.getD i default).isBlocked (sys.caches.getD i default).blockedCycles ((sys.caches.getD i default).stats.incrementAccesses.incrementWrites)).getSetIndex address) (((sys.caches.getD i default).sets.getD ((Cache.mk (sys.caches.getD i default).coreId (sys.caches.getD i default).setIndexBits (sys.caches.getD i default).blockOffsetBits (sys.caches.getD i default).associativity (sys.caches.getD i default).sets (sys.caches.getD i default).isBlocked (sys.caches.getD i default).blockedCycles ((sys.caches.getD i default).stats.incrementAccesses.incrementWrites)).getSetIndex address) default).updateLRU li)).getSetIndex address) default).getLine li) : CacheLine).state = CacheState.EXCLUSIVE) := by
          rw [hline, hstate]
          rintro (h | h) <;> cases h
        rw [cacheWrite_eq_hit_other sys i address cycles li hbl hfl hf2 hns]
        have hgI : (sys.caches.set i ((Cache.mk (sys.caches.getD i default).coreId (sys.caches.getD i default).setIndexBits (sys.caches.getD i default).blockOffsetBits (sys.caches.getD i default).associativity (sys.caches.getD i default).sets (sys.caches.getD i default).isBlocked (sys.caches.getD i default).blockedCycles ((sys.caches.getD i default).stats.incrementAccesses.incrementWrites)).putSet ((Cache.mk (sys.caches.getD i default).coreId (sys.caches.getD i default).setIndexBits (sys.caches.getD i default).blockOffsetBits (sys.caches.getD i default).associativity (sys.caches.getD i default).sets (sys.caches.getD i default).isBlocked (sys.caches.getD i default).blockedCycles ((sys.caches.getD i default).stats.incrementAccesses.incrementWrites)).getSetIndex address) (((sys.caches.getD i default).sets.getD ((Cache.mk (sys.caches.getD i default).coreId (sys.caches.getD i default).setIndexBits (sys.caches.getD i default).blockOffsetBits (sys.caches.getD i default).associativity (sys.caches.getD i default).sets (sys.caches.getD i default).isBlocked (sys.caches.getD i default).blockedCycles ((sys.caches.getD i default).stats.incrementAccesses.incrementWrites)).getSetIndex address) default).updateLRU li))).getD i default = ((Cache.mk (sys.caches.getD i default).coreId (sys.caches.getD i default).setIndexBits (sys.caches.getD i default).blockOffsetBits (sys.caches.getD i default).associativity (sys.caches.getD i default).sets (sys.caches.getD i default).isBlocked (sys.caches.getD i default).blockedCycles ((sys.caches.getD i default).stats.incrementAccesses.incrementWrites)).putSet ((Cache.mk (sys.caches.getD i default).coreId (sys.caches.getD i default).setIndexBits (sys.caches.getD i default).blockOffsetBits (sys.caches.getD i default).associativity (sys.caches.getD i default).sets (sys.caches.getD i default).isBlocked (sys.caches.getD i default).blockedCycles ((sys.caches.getD i default).stats.incrementAccesses.incrementWrites)).getSetIndex address) (((sys.caches.getD i default).sets.getD ((Cache.mk (sys.caches.getD i default).coreId (sys.caches.getD i default).setIndexBits (sys.caches.getD i default).blockOffsetBits (sys.caches.getD i default).associativity (sys.caches.getD i default).sets (sys.caches.getD i default).isBlocked (sys.caches.getD i default).blockedCycles ((sys.caches.getD i default).stats.incrementAccesses.incrementWrites)).getSetIndex address) default).updateLRU li)) :=
          getD_set_self _ _ _ _ (by rw [hlen]; exact hi)
        have hgJ : ∀ j, j ≠ i →
            (sys.caches.set i ((Cache.mk (sys.caches.getD i default).coreId (sys.caches.getD i default).setIndexBits (sys.caches.getD i default).blockOffsetBits (sys.caches.getD i default).associativity (sys.caches.getD i default).sets (sys.caches.getD i default).isBlocked (sys.caches.getD i default).blockedCycles ((sys.caches.getD i default).stats.incrementAccesses.incrementWrites)).putSet ((Cache.mk (sys.caches.getD i default).coreId (sys.caches.getD i default).setIndexBits (sys.caches.getD i default).blockOffsetBits (sys.caches.getD i default).associativity (sys.caches.getD i default).sets (sys.caches.getD i default).isBlocked (sys.caches.getD i default).blockedCycles ((sys.caches.getD i default).stats.incrementAccesses.incrementWrites)).getSetIndex address) (((sys.caches.getD i default).sets.getD ((Cache.mk (sys.caches.getD i default).coreId (sys.caches.getD i default).setIndexBits (sys.caches.getD i default).blockOffsetBits (sys.caches.getD i default).associativity (sys.caches.getD i default).sets (sys.caches.getD i default).isBlocked (sys.caches.getD i default).blockedCycles ((sys.caches.getD i default).stats.incrementAccesses.incrementWrites)).getSetIndex address) default).updateLRU li))).getD j default = sys.caches.getD j default :=
          fun j hj => getD_set_ne _ _ _ _ _ (fun h => hj h.symm)
        refine ⟨⟨?_, ?_, hbusy, hpend⟩, ?_⟩
        · show (sys.caches.set i ((Cache.mk (sys.caches.getD i default).coreId (sys.caches.getD i default).setIndexBits (sys.caches.getD i default).blockOffsetBits (sys.caches.getD i default).associativity (sys.caches.getD i default).sets (sys.caches.getD i default).isBlocked (sys.caches.getD i default).blockedCycles ((sys.caches.getD i default).stats.incrementAccesses.incrementWrites)).putSet ((Cache.mk (sys.caches.getD i default).coreId (sys.caches.getD i default).setIndexBits (sys.caches.getD i default).blockOffsetBits (sys.caches.getD i default).associativity (sys.caches.getD i default).sets (sys.caches.getD i default).isBlocked (sys.caches.getD i default).blockedCycles ((sys.caches.getD i default).stats.incrementAccesses.incrementWrites)).getSetIndex address) (((sys.caches.getD i default).sets.getD ((Cache.mk (sys.caches.getD i default).coreId (sys.caches.getD i default).setIndexBits (sys.caches.getD i default).blockOffsetBits (sys.caches.getD i default).associativity (sys.caches.getD i default).sets (sys.caches.getD i default).isBlocked (sys.caches.getD i default).blockedCycles ((sys.caches.getD i default).stats.incrementAccesses.incrementWrites)).getSetIndex address) default).updateLRU li))).length = n
          rw [List.length_set]
          exact hlen
        · intro j hj
          show CacheWF sb bob assoc j ((sys.caches.set i ((Cache.mk (sys.caches.getD i default).coreId (sys.caches.getD i default).setIndexBits (sys.caches.getD i default).blockOffsetBits (sys.caches.getD i default).associativity (sys.caches.getD i default).sets (sys.caches.getD i default).isBlocked (sys.caches.getD i default).blockedCycles ((sys.caches.getD i default).stats.incrementAccesses.incrementWrites)).putSet ((Cache.mk (sys.caches.getD i default).coreId (sys.caches.getD i default).setIndexBits (sys.caches.getD i default).blockOffsetBits (sys.caches.getD i default).associativity (sys.caches.getD i default).sets (sys.caches.getD i default).isBlocked (sys.caches.getD i default).blockedCycles ((sys.caches.getD i default).stats.incrementAccesses.incrementWrites)).getSetIndex address) (((sys.caches.getD i default).sets.getD ((Cache.mk (sys.caches.getD i default).coreId (sys.caches.getD i default).setIndexBits (sys.caches.getD i default).blockOffsetBits (sys.caches.getD i default).associativity (sys.caches.getD i default).sets (sys.caches.getD i default).isBlocked (sys.caches.getD i default).blockedCycles ((sys.caches.getD i default).stats.incrementAccesses.incrementWrites)).getSetIndex address) default).updateLRU li))).getD j default)
          by_cases hji : j = i
          · rw [hji, hgI]
            exact hwfC
          · rw [hgJ j hji]
            exact hwf j hj
        · show MesiOK n (sys.caches.set i ((Cache.mk (sys.caches.getD i default).coreId (sys.caches.getD i default).setIndexBits (sys.caches.getD i default).blockOffsetBits (sys.caches.getD i default).associativity (sys.caches.getD i default).sets (sys.caches.getD i default).isBlocked (sys.caches.getD i default).blockedCycles ((sys.caches.getD i default).stats.incrementAccesses.incrementWrites)).putSet ((Cache.mk (sys.caches.getD i default).coreId (sys.caches.getD i default).setIndexBits (sys.caches.getD i default).blockOffsetBits (sys.caches.getD i default).associativity (sys.caches.getD i default).sets (sys.caches.getD i default).isBlocked (sys.caches.getD i default).blockedCycles ((sys.caches.getD i default).stats.incrementAccesses.incrementWrites)).getSetIndex address) (((sys.caches.getD i default).sets.getD ((Cache.mk (sys.caches.getD i default).coreId (sys.caches.getD i default).setIndexBits (sys.caches.getD i default).blockOffsetBits (sys.caches.getD i default).associativity (sys.caches.getD i default).sets (sys.caches.getD i default).isBlocked (sys.caches.getD i default).blockedCycles ((sys.caches.getD i default).stats.incrementAccesses.incrementWrites)).getSetIndex address) default).updateLRU li)))
          intro si tv a b ha hb hab hME
          have hstF : ∀ j, j < n →
              (((sys.caches.set i ((Cache.mk (sys.caches.getD i default).coreId (sys.caches.getD i default).setIndexBits (sys.caches.getD i default).blockOffsetBits (sys.caches.getD i default).associativity (sys.caches.getD i default).sets (sys.caches.getD i default).isBlocked (sys.caches.getD i default).blockedCycles ((sys.caches.getD i default).stats.incrementAccesses.incrementWrites)).putSet ((Cache.mk (sys.caches.getD i default).coreId (sys.caches.getD i default).setIndexBits (sys.caches.getD i default).blockOffsetBits (sys.caches.getD i default).associativity (sys.caches.getD i default).sets (sys.caches.getD i default).isBlocked (sys.caches.getD i default).blockedCycles ((sys.caches.getD i default).stats.incrementAccesses.incrementWrites)).getSetIndex address) (((sys.caches.getD i default).sets.getD ((Cache.mk (sys.caches.getD i default).coreId (sys.caches.getD i default).setIndexBits (sys.caches.getD i default).blockOffsetBits (sys.caches.getD i default).associativity (sys.caches.getD i default).sets (sys.caches.getD i default).isBlocked (sys.caches.getD i default).blockedCycles ((sys.caches.getD i default).stats.incrementAccesses.incrementWrites)).getSetIndex address) default).updateLRU li)))).getD j default).stateAt si tv
                = (sys.caches.getD j default).stateAt si tv := by
            intro j hj
            by_cases hji : j = i
            · rw [hji, hgI]
              exact hst0 si tv
            · rw [hgJ j hji]
          rw [hstF b hb]
          rw [hstF a ha] at hME
          exact hmesi si tv a b ha hb hab hME
      | INVALID =>
        have hns : ¬ ((((((Cache.mk (sys.caches.getD i default).coreId (sys.caches.getD i default).setIndexBits (sys.caches.getD i default).blockOffsetBits (sys.caches.getD i default).associativity (sys.caches.getD i default).sets (sys.caches.getD i default).isBlocked (sys.caches.getD i default).blockedCycles ((sys.caches.getD i default).stats.incrementAccesses.incrementWrites)).putSet ((Cache.mk (sys.caches.getD i default).coreId (sys.caches.getD i default).setIndexBits (sys.caches.getD i default).blockOffsetBits (sys.caches.getD i default).associativity (sys.caches.getD i default).sets (sys.caches.getD i default).isBlocked (sys.caches.getD i default).blockedCycles ((sys.caches.getD i default).stats.incrementAccesses.incrementWrites)).getSetIndex address) (((sys.caches.getD i default).sets.getD ((Cache.mk (sys.caches.getD i default).coreId (sys.caches.getD i default).setIndexBits (sys.caches.getD i default).blockOffsetBits (sys.caches.getD i default).associativity (sys.caches.getD i default).sets (sys.caches.getD i default).isBlocked (sys.caches.getD i default).blockedCycles ((sys.caches.getD i default).stats.incrementAccesses.incrementWrites)).getSetIndex address) default).updateLRU li)).sets.getD (((Cache.mk (sys.caches.getD i default).coreId (sys.caches.getD i default).setIndexBits (sys.caches.getD i default).blockOffsetBits (sys.caches.getD i default).associativity (sys.caches.getD i default).sets (sys.caches.getD i default).isBlocked (sys.caches.getD i default).blockedCycles ((sys.caches.getD i default).stats.incrementAccesses.incrementWrites)).putSet ((Cache.mk (sys.caches.getD i default).coreId (sys.caches.getD i default).setIndexBits (sys.caches.getD i default).blockOffsetBits (sys.caches.getD i default).associativity (sys.caches.getD i default).sets (sys.caches.getD i default).isBlocked (sys.caches.getD i default).blockedCycles ((sys.caches.getD i default).stats.incrementAccesses.incrementWrites)).getSetIndex address) (((sys.caches.getD i default).sets.getD ((Cache.mk (sys.caches.getD i default).coreId (sys.caches.getD i default).setIndexBits (sys.caches.getD i default).blockOffsetBits (sys.caches.getD i default).associativity (sys.caches.getD i default).sets (sys.caches.getD i default).isBlocked (sys.caches.getD i default).blockedCycles ((sys.caches.getD i default).stats.incrementAccesses.incrementWrites)).getSetIndex address) default).updateLRU li)).getSetIndex address) default).getLine li) : CacheLine).state = CacheState.SHARED ∨
            (((((Cache.mk (sys.caches.getD i default).coreId (sys.caches.getD i default).setIndexBits (sys.caches.getD i default).blockOffsetBits (sys.caches.getD i default).associativity (sys.caches.getD i default).sets (sys.caches.getD i default).isBlocked (sys.caches.getD i default).blockedCycles ((sys.caches.getD i default).stats.incrementAccesses.incrementWrites)).putSet ((Cache.mk (sys.caches.getD i default).coreId (sys.caches.getD i default).setIndexBits (sys.caches.getD i default).blockOffsetBits (sys.caches.getD i default).associativity (sys.caches.getD i default).sets (sys.caches.getD i default).isBlocked (sys.caches.getD i default).blockedCycles ((sys.caches.getD i default).stats.incrementAccesses.incrementWrites)).getSetIndex address) (((sys.caches.getD i default).sets.getD ((Cache.mk (sys.caches.getD i default).coreId (sys.caches.getD i default).setIndexBits (sys.caches.getD i default).blockOffsetBits (sys.caches.getD i default).associativity (sys.caches.getD i default).sets (sys.caches.getD i default).isBlocked (sys.caches.getD i default).blockedCycles ((sys.caches.getD i default).stats.incrementAccesses.incrementWrites)).getSetIndex address) default).updateLRU li)).sets.getD (((Cache.mk (sys.caches.getD i default).coreId (sys.caches.getD i default).setIndexBits (sys.caches.getD i default).blockOffsetBits (sys.caches.getD i default).associativity (sys.caches.getD i default).sets (sys.caches.getD i default).isBlocked (sys.caches.getD i default).blockedCycles ((sys.caches.getD i default).stats.incrementAccesses.incrementWrites)).putSet ((Cache.mk (sys.caches.getD i default).coreId (sys.caches.getD i default).setIndexBits (sys.caches.getD i default).blockOffsetBits (sys.caches.getD i default).associativity (sys.caches.getD i default).sets (sys.caches.getD i default).isBlocked (sys.caches.getD i default).blockedCycles ((sys.caches.getD i default).stats.incrementAccesses.incrementWrites)).getSetIndex address) (((sys.caches.getD i default).sets.getD ((Cache.mk (sys.caches.getD i default).coreId (sys.caches.getD i default).setIndexBits (sys.caches.getD i default).blockOffsetBits (sys.caches.getD i default).associativity (sys.caches.getD i default).sets (sys.caches.getD i default).isBlocked (sys.caches.getD i default).blockedCycles ((sys.caches.getD i default).stats.incrementAccesses.incrementWrites)).getSetIndex address) default).updateLRU li)).getSetIndex address) default).getLine li) : CacheLine).state = CacheState.EXCLUSIVE) := by
          rw [hline, hstate]
          rintro (h | h) <;> cases h
        rw [cacheWrite_eq_hit_other sys i address cycles li hbl hfl hf2 hns]
        have hgI : (sys.caches.set i ((Cache.mk (sys.caches.getD i default).coreId (sys.caches.getD i default).setIndexBits (sys.caches.getD i default).blockOffsetBits (sys.caches.getD i default).associativity (sys.caches.getD i default).sets (sys.caches.getD i default).isBlocked (sys.caches.getD i default).blockedCycles ((sys.caches.getD i default).stats.incrementAccesses.incrementWrites)).putSet ((Cache.mk (sys.caches.getD i default).coreId (sys.caches.getD i default).setIndexBits (sys.caches.getD i default).blockOffsetBits (sys.caches.getD i default).associativity (sys.caches.getD i default).sets (sys.caches.getD i default).isBlocked (sys.caches.getD i default).blockedCycles ((sys.caches.getD i default).stats.incrementAccesses.incrementWrites)).getSetIndex address) (((sys.caches.getD i default).sets.getD ((Cache.mk (sys.caches.getD i default).coreId (sys.caches.getD i default).setIndexBits (sys.caches.getD i default).blockOffsetBits (sys.caches.getD i default).associativity (sys.caches.getD i default).sets (sys.caches.getD i default).isBlocked (sys.caches.getD i default).blockedCycles ((sys.caches.getD i default).stats.incrementAccesses.incrementWrites)).getSetIndex address) default).updateLRU li))).getD i default = ((Cache.mk (sys.caches.getD i default).coreId (sys.caches.getD i default).setIndexBits (sys.caches.getD i default).blockOffsetBits (sys.caches.getD i default).associativity (sys.caches.getD i default).sets (sys.caches.getD i default).isBlocked (sys.caches.getD i default).blockedCycles ((sys.caches.getD i default).stats.incrementAccesses.incrementWrites)).putSet ((Cache.mk (sys.caches.getD i default).coreId (sys.caches.getD i default).setIndexBits (sys.caches.getD i default).blockOffsetBits (sys.caches.getD i default).associativity (sys.caches.getD i default).sets (sys.caches.getD i default).isBlocked (sys.caches.getD i default).blockedCycles ((sys.caches.getD i default).stats.incrementAccesses.incrementWrites)).getSetIndex address) (((sys.caches.getD i default).sets.getD ((Cache.mk (sys.caches.getD i default).coreId (sys.caches.getD i default).setIndexBits (sys.caches.getD i default).blockOffsetBits (sys.caches.getD i default).associativity (sys.caches.getD i default).sets (sys.caches.getD i default).isBlocked (sys.caches.getD i default).blockedCycles ((sys.caches.getD i default).stats.incrementAccesses.incrementWrites)).getSetIndex address) default).updateLRU li)) :=
          getD_set_self _ _ _ _ (by rw [hlen]; exact hi)
        have hgJ : ∀ j, j ≠ i →
            (sys.caches.set i ((Cache.mk (sys.caches.getD i default).coreId (sys.caches.getD i default).setIndexBits (sys.caches.getD i default).blockOffsetBits (sys.caches.getD i default).associativity (sys.caches.getD i default).sets (sys.caches.getD i default).isBlocked (sys.caches.getD i default).blockedCycles ((sys.caches.getD i default).stats.incrementAccesses.incrementWrites)).putSet ((Cache.mk (sys.caches.getD i default).coreId (sys.caches.getD i default).setIndexBits (sys.caches.getD i default).blockOffsetBits (sys.caches.getD i default).associativity (sys.caches.getD i default).sets (sys.caches.getD i default).isBlocked (sys.caches.getD i default).blockedCycles ((sys.caches.getD i default).stats.incrementAccesses.incrementWrites)).getSetIndex address) (((sys.caches.getD i default).sets.getD ((Cache.mk (sys.caches.getD i default).coreId (sys.caches.getD i default).setIndexBits (sys.caches.getD i default).blockOffsetBits (sys.caches.getD i default).associativity (sys.caches.getD i default).sets (sys.caches.getD i default).isBlocked (sys.caches.getD i default).blockedCycles ((sys.caches.getD i default).stats.incrementAccesses.incrementWrites)).getSetIndex address) default).updateLRU li))).getD j default = sys.caches.getD j default :=
          fun j hj => getD_set_ne _ _ _ _ _ (fun h => hj h.symm)
        refine ⟨⟨?_, ?_, hbusy, hpend⟩, ?_⟩
        · show (sys.caches.set i ((Cache.mk (sys.caches.getD i default).coreId (sys.caches.getD i default).setIndexBits (sys.caches.getD i default).blockOffsetBits (sys.caches.getD i default).associativity (sys.caches.getD i default).sets (sys.caches.getD i default).isBlocked (sys.caches.getD i default).blockedCycles ((sys.caches.getD i default).stats.incrementAccesses.incrementWrites)).putSet ((Cache.mk (sys.caches.getD i default).coreId (sys.caches.getD i default).setIndexBits (sys.caches.getD i default).blockOffsetBits (sys.caches.getD i default).associativity (sys.caches.getD i default).sets (sys.caches.getD i default).isBlocked (sys.caches.getD i default).blockedCycles ((sys.caches.getD i default).stats.incrementAccesses.incrementWrites)).getSetIndex address) (((sys.caches.getD i default).sets.getD ((Cache.mk (sys.caches.getD i default).coreId (sys.caches.getD i default).setIndexBits (sys.caches.getD i default).blockOffsetBits (sys.caches.getD i default).associativity (sys.caches.getD i default).sets (sys.caches.getD i default).isBlocked (sys.caches.getD i default).blockedCycles ((sys.caches.getD i default).stats.incrementAccesses.incrementWrites)).getSetIndex address) default).updateLRU li))).length = n
          rw [List.length_set]
          exact hlen
        · intro j hj
          show CacheWF sb bob assoc j ((sys.caches.set i ((Cache.mk (sys.caches.getD i default).coreId (sys.caches.getD i default).setIndexBits (sys.caches.getD i default).blockOffsetBits (sys.caches.getD i default).associativity (sys.caches.getD i default).sets (sys.caches.getD i default).isBlocked (sys.caches.getD i default).blockedCycles ((sys.caches.getD i default).stats.incrementAccesses.incrementWrites)).putSet ((Cache.mk (sys.caches.getD i default).coreId (sys.caches.getD i default).setIndexBits (sys.caches.getD i default).blockOffsetBits (sys.caches.getD i default).associativity (sys.caches.getD i default).sets (sys.caches.getD i default).isBlocked (sys.caches.getD i default).blockedCycles ((sys.caches.getD i default).stats.incrementAccesses.incrementWrites)).getSetIndex address) (((sys.caches.getD i default).sets.getD ((Cache.mk (sys.caches.getD i default).coreId (sys.caches.getD i default).setIndexBits (sys.caches.getD i default).blockOffsetBits (sys.caches.getD i default).associativity (sys.caches.getD i default).sets (sys.caches.getD i default).isBlocked (sys.caches.getD i default).blockedCycles ((sys.caches.getD i default).stats.incrementAccesses.incrementWrites)).getSetIndex address) default).updateLRU li))).getD j default)
          by_cases hji : j = i
          · rw [hji, hgI]
            exact hwfC
          · rw [hgJ j hji]
            exact hwf j hj
        · show MesiOK n (sys.caches.set i ((Cache.mk (sys.caches.getD i default).coreId (sys.caches.getD i default).setIndexBits (sys.caches.getD i default).blockOffsetBits (sys.caches.getD i default).associativity (sys.caches.getD i default).sets (sys.caches.getD i default).isBlocked (sys.caches.getD i default).blockedCycles ((sys.caches.getD i default).stats.incrementAccesses.incrementWrites)).putSet ((Cache.mk (sys.caches.getD i default).coreId (sys.caches.getD i default).setIndexBits (sys.caches.getD i default).blockOffsetBits (sys.caches.getD i default).associativity (sys.caches.getD i default).sets (sys.caches.getD i default).isBlocked (sys.caches.getD i default).blockedCycles ((sys.caches.getD i default).stats.incrementAccesses.incrementWrites)).getSetIndex address) (((sys.caches.getD i default).sets.getD ((Cache.mk (sys.caches.getD i default).coreId (sys.caches.getD i default).setIndexBits (sys.caches.getD i default).blockOffsetBits (sys.caches.getD i default).associativity (sys.caches.getD i default).sets (sys.caches.getD i default).isBlocked (sys.caches.getD i default).blockedCycles ((sys.caches.getD i default).stats.incrementAccesses.incrementWrites)).getSetIndex address) default).updateLRU li)))
          intro si tv a b ha hb hab hME
          have hstF : ∀ j, j < n →
              (((sys.caches.set i ((Cache.mk (sys.caches.getD i default).coreId (sys.caches.getD i default).setIndexBits (sys.caches.getD i default).blockOffsetBits (sys.caches.getD i default).associativity (sys.caches.getD i default).sets (sys.caches.getD i default).isBlocked (sys.caches.getD i default).blockedCycles ((sys.caches.getD i default).stats.incrementAccesses.incrementWrites)).putSet ((Cache.mk (sys.caches.getD i default).coreId (sys.caches.getD i default).setIndexBits (sys.caches.getD i default).blockOffsetBits (sys.caches.getD i default).associativity (sys.caches.getD i default).sets (sys.caches.getD i default).isBlocked (sys.caches.getD i default).blockedCycles ((sys.caches.getD i default).stats.incrementAccesses.incrementWrites)).getSetIndex address) (((sys.caches.getD i default).sets.getD ((Cache.mk (sys.caches.getD i default).coreId (sys.caches.getD i default).setIndexBits (sys.caches.getD i default).blockOffsetBits (sys.caches.getD i default).associativity (sys.caches.getD i default).sets (sys.caches.getD i default).isBlocked (sys.caches.getD i default).blockedCycles ((sys.caches.getD i default).stats.incrementAccesses.incrementWrites)).getSetIndex address) default).updateLRU li)))).getD j default).stateAt si tv
                = (sys.caches.getD j default).stateAt si tv := by
            intro j hj
            by_cases hji : j = i
            · rw [hji, hgI]
              exact hst0 si tv
            · rw [hgJ j hji]
          rw [hstF b hb]
          rw [hstF a ha] at hME
          exact hmesi si tv a b ha hb hab hME
      | EXCLUSIVE =>
        have hse : (((((Cache.mk (sys.caches.getD i default).coreId (sys.caches.getD i default).setIndexBits (sys.caches.getD i default).blockOffsetBits (sys.caches.getD i default).associativity (sys.caches.getD i default).sets (sys.caches.getD i default).isBlocked (sys.caches.getD i default).blockedCycles ((sys.caches.getD i default).stats.incrementAccesses.incrementWrites)).putSet ((Cache.mk (sys.caches.getD i default).coreId (sys.caches.getD i default).setIndexBits (sys.caches.getD i default).blockOffsetBits (sys.caches.getD i default).associativity (sys.caches.getD i default).sets (sys.caches.getD i default).isBlocked (sys.caches.getD i default).blockedCycles ((sys.caches.getD i default).stats.incrementAccesses.incrementWrites)).getSetIndex address) (((sys.caches.getD i default).sets.getD ((Cache.mk (sys.caches.getD i default).coreId (sys.caches.getD i default).setIndexBits (sys.caches.getD i default).blockOffsetBits (sys.caches.getD i default).associativity (sys.caches.getD i default).sets (sys.caches.getD i default).isBlocked (sys.caches.getD i default).blockedCycles ((sys.caches.getD i default).stats.incrementAccesses.incrementWrites)).getSetIndex address) default).updateLRU li)).sets.getD (((Cache.mk (sys.caches.getD i default).coreId (sys.caches.getD i default).setIndexBits (sys.caches.getD i default).blockOffsetBits (sys.caches.getD i default).associativity (sys.caches.getD i default).sets (sys.caches.getD i default).isBlocked (sys.caches.getD i default).blockedCycles ((sys.caches.getD i default).stats.incrementAccesses.incrementWrites)).putSet ((Cache.mk (sys.caches.getD i default).coreId (sys.caches.getD i default).setIndexBits (sys.caches.getD i default).blockOffsetBits (sys.caches.getD i default).associativity (sys.caches.getD i default).sets (sys.caches.getD i default).isBlocked (sys.caches.getD i default).blockedCycles ((sys.caches.getD i default).stats.incrementAccesses.incrementWrites)).getSetIndex address) (((sys.caches.getD i default).sets.getD ((Cache.mk (sys.caches.getD i default).coreId (sys.caches.getD i default).setIndexBits (sys.caches.getD i default).blockOffsetBits (sys.caches.getD i default).associativity (sys.caches.getD i default).sets (sys.caches.getD i default).isBlocked (sys.caches.getD i default).blockedCycles ((sys.caches.getD i default).stats.incrementAccesses.incrementWrites)).getSetIndex address) default).updateLRU li)).getSetIndex address) default).getLine li) : CacheLine).state = CacheState.EXCLUSIVE := hline.trans hstate
        rw [cacheWrite_eq_hit_E sys i address cycles li hbl hfl hf2 hse]
        obtain ⟨hwf3, hst3TA, hst3O⟩ := writeHitMut_spec sb bob assoc i ((Cache.mk (sys.caches.getD i default).coreId (sys.caches.getD i default).setIndexBits (sys.caches.getD i default).blockOffsetBits (sys.caches.getD i default).associativity (sys.caches.getD i default).sets (sys.caches.getD i default).isBlocked (sys.caches.getD i default).blockedCycles ((sys.caches.getD i default).stats.incrementAccesses.incrementWrites)).putSet ((Cache.mk (sys.caches.getD i default).coreId (sys.caches.getD i default).setIndexBits (sys.caches.getD i default).blockOffsetBits (sys.caches.getD i default).associativity (sys.caches.getD i default).sets (sys.caches.getD i default).isBlocked (sys.caches.getD i default).blockedCycles ((sys.caches.getD i default).stats.incrementAccesses.incrementWrites)).getSetIndex address) (((sys.caches.getD i default).sets.getD ((Cache.mk (sys.caches.getD i default).coreId (sys.caches.getD i default).setIndexBits (sys.caches.getD i default).blockOffsetBits (sys.caches.getD i default).associativity (sys.caches.getD i default).sets (sys.caches.getD i default).isBlocked (sys.caches.getD i default).blockedCycles ((sys.caches.getD i default).stats.incrementAccesses.incrementWrites)).getSetIndex address) default).updateLRU li)) address li
          hwfC hf2
        have hSelfE : (sys.caches.getD i default).stateAt (addrSetIdx sb bob address) (addrTag sb bob address) = CacheState.EXCLUSIVE := by
          show ((sys.caches.getD i default).sets.getD (addrSetIdx sb bob address) default).stateOf (addrTag sb bob address) = CacheState.EXCLUSIVE
          rw [← hSI, ← hTA, stateOf_of_findLine_some _ _ _ hfl]
          exact hstate
        have hstC3 : ∀ si tv, (si ≠ (addrSetIdx sb bob address) ∨ tv ≠ (addrTag sb bob address)) →
            ((((Cache.mk (sys.caches.getD i default).coreId (sys.caches.getD i default).setIndexBits (sys.caches.getD i default).blockOffsetBits (sys.caches.getD i default).associativity (sys.caches.getD i default).sets (sys.caches.getD i default).isBlocked (sys.caches.getD i default).blockedCycles ((sys.caches.getD i default).stats.incrementAccesses.incrementWrites)).putSet ((Cache.mk (sys.caches.getD i default).coreId (sys.caches.getD i default).setIndexBits (sys.caches.getD i default).blockOffsetBits (sys.caches.getD i default).associativity (sys.caches.getD i default).sets (sys.caches.getD i default).isBlocked (sys.caches.getD i default).blockedCycles ((sys.caches.getD i default).stats.incrementAccesses.incrementWrites)).getSetIndex address) (((sys.caches.getD i default).sets.getD ((Cache.mk (sys.caches.getD i default).coreId (sys.caches.getD i default).setIndexBits (sys.caches.getD i default).blockOffsetBits (sys.caches.getD i default).associativity (sys.caches.getD i default).sets (sys.caches.getD i default).isBlocked (sys.caches.getD i default).blockedCycles ((sys.caches.getD i default).stats.incrementAccesses.incrementWrites)).getSetIndex address) default).updateLRU li)).putSet (((Cache.mk (sys.caches.getD i default).coreId (sys.caches.getD i default).setIndexBits (sys.caches.getD i default).blockOffsetBits (sys.caches.getD i default).associativity (sys.caches.getD i default).sets (sys.caches.getD i default).isBlocked (sys.caches.getD i default).blockedCycles ((sys.caches.getD i default).stats.incrementAccesses.incrementWrites)).putSet ((Cache.mk (sys.caches.getD i default).coreId (sys.caches.getD i default).setIndexBits (sys.caches.getD i default).blockOffsetBits (sys.caches.getD i default).associativity (sys.caches.getD i default).sets (sys.caches.getD i default).isBlocked (sys.caches.getD i default).blockedCycles ((sys.caches.getD i default).stats.incrementAccesses.incrementWrites)).getSetIndex address) (((sys.caches.getD i default).sets.getD ((Cache.mk (sys.caches.getD i default).coreId (sys.caches.getD i default).setIndexBits (sys.caches.getD i default).blockOffsetBits (sys.caches.getD i default).associativity (sys.caches.getD i default).sets (sys.caches.getD i default).isBlocked (sys.caches.getD i default).blockedCycles ((sys.caches.getD i default).stats.incrementAccesses.incrementWrites)).getSetIndex address) default).updateLRU li)).getSetIndex address) ((((Cache.mk (sys.caches.getD i default).coreId (sys.caches.getD i default).setIndexBits (sys.caches.getD i default).blockOffsetBits (sys.caches.getD i default).associativity (sys.caches.getD i default).sets (sys.caches.getD i default).isBlocked (sys.caches.getD i default).blockedCycles ((sys.caches.getD i default).stats.incrementAccesses.incrementWrites)).putSet ((Cache.mk (sys.caches.getD i default).coreId (sys.caches.getD i default).setIndexBits (sys.caches.getD i default).blockOffsetBits (sys.caches.getD i default).associativity (sys.caches.getD i default).sets (sys.caches.getD i default).isBlocked (sys.caches.getD i default).blockedCycles ((sys.caches.getD i default).stats.incrementAccesses.incrementWrites)).getSetIndex address) (((sys.caches.getD i default).sets.getD ((Cache.mk (sys.caches.getD i default).coreId (sys.caches.getD i default).setIndexBits (sys.caches.getD i default).blockOffsetBits (sys.caches.getD i default).associativity (sys.caches.getD i default).sets (sys.caches.getD i default).isBlocked (sys.caches.getD i default).blockedCycles ((sys.caches.getD i default).stats.incrementAccesses.incrementWrites)).getSetIndex address) default).updateLRU li)).sets.getD (((Cache.mk (sys.caches.getD i default).coreId (sys.caches.getD i default).setIndexBits (sys.caches.getD i default).blockOffsetBits (sys.caches.getD i default).associativity (sys.caches.getD i default).sets (sys.caches.getD i default).isBlocked (sys.caches.getD i default).blockedCycles ((sys.caches.getD i default).stats.incrementAccesses.incrementWrites)).putSet ((Cache.mk (sys.caches.getD i default).coreId (sys.caches.getD i default).setIndexBits (sys.caches.getD i default).blockOffsetBits (sys.caches.getD i default).associativity (sys.caches.getD i default).sets (sys.caches.getD i default).isBlocked (sys.caches.getD i default).blockedCycles ((sys.caches.getD i default).stats.incrementAccesses.incrementWrites)).getSetIndex address) (((sys.caches.getD i default).sets.getD ((Cache.mk (sys.caches.getD i default).coreId (sys.caches.getD i default).setIndexBits (sys.caches.getD i default).blockOffsetBits (sys.caches.getD i default).associativity (sys.caches.getD i default).sets (sys.caches.getD i default).isBlocked (sys.caches.getD i default).blockedCycles ((sys.caches.getD i default).stats.incrementAccesses.incrementWrites)).getSetIndex address) default).updateLRU li)).getSetIndex address) default).setLineState li CacheState.MODIFIED)) : Cache).stateAt si tv = (sys.caches.getD i default).stateAt si tv := by
          intro si tv hne
          rw [hst3O si tv hne, hst0]
        have hgI : (sys.caches.set i (((Cache.mk (sys.caches.getD i default).coreId (sys.caches.getD i default).setIndexBits (sys.caches.getD i default).blockOffsetBits (sys.caches.getD i default).associativity (sys.caches.getD i default).sets (sys.caches.getD i default).isBlocked (sys.caches.getD i default).blockedCycles ((sys.caches.getD i default).stats.incrementAccesses.incrementWrites)).putSet ((Cache.mk (sys.caches.getD i default).coreId (sys.caches.getD i default).setIndexBits (sys.caches.getD i default).blockOffsetBits (sys.caches.getD i default).associativity (sys.caches.getD i default).sets (sys.caches.getD i default).isBlocked (sys.caches.getD i default).blockedCycles ((sys.caches.getD i default).stats.incrementAccesses.incrementWrites)).getSetIndex address) (((sys.caches.getD i default).sets.getD ((Cache.mk (sys.caches.getD i default).coreId (sys.caches.getD i default).setIndexBits (sys.caches.getD i default).blockOffsetBits (sys.caches.getD i default).associativity (sys.caches.getD i default).sets (sys.caches.getD i default).isBlocked (sys.caches.getD i default).blockedCycles ((sys.caches.getD i default).stats.incrementAccesses.incrementWrites)).getSetIndex address) default).updateLRU li)).putSet (((Cache.mk (sys.caches.getD i default).coreId (sys.caches.getD i default).setIndexBits (sys.caches.getD i default).blockOffsetBits (sys.caches.getD i default).associativity (sys.caches.getD i default).sets (sys.caches.getD i default).isBlocked (sys.caches.getD i default).blockedCycles ((sys.caches.getD i default).stats.incrementAccesses.incrementWrites)).putSet ((Cache.mk (sys.caches.getD i default).coreId (sys.caches.getD i default).setIndexBits (sys.caches.getD i default).blockOffsetBits (sys.caches.getD i default).associativity (sys.caches.getD i default).sets (sys.caches.getD i default).isBlocked (sys.caches.getD i default).blockedCycles ((sys.caches.getD i default).stats.incrementAccesses.incrementWrites)).getSetIndex address) (((sys.caches.getD i default).sets.getD ((Cache.mk (sys.caches.getD i default).coreId (sys.caches.getD i default).setIndexBits (sys.caches.getD i default).blockOffsetBits (sys.caches.getD i default).associativity (sys.caches.getD i default).sets (sys.caches.getD i default).isBlocked (sys.caches.getD i default).blockedCycles ((sys.caches.getD i default).stats.incrementAccesses.incrementWrites)).getSetIndex address) default).updateLRU li)).getSetIndex address) ((((Cache.mk (sys.caches.getD i default).coreId (sys.caches.getD i default).setIndexBits (sys.caches.getD i default).blockOffsetBits (sys.caches.getD i default).associativity (sys.caches.getD i default).sets (sys.caches.getD i default).isBlocked (sys.caches.getD i default).blockedCycles ((sys.caches.getD i default).stats.incrementAccesses.incrementWrites)).putSet ((Cache.mk (sys.caches.getD i default).coreId (sys.caches.getD i default).setIndexBits (sys.caches.getD i default).blockOffsetBits (sys.caches.getD i default).associativity (sys.caches.getD i default).sets (sys.caches.getD i default).isBlocked (sys.caches.getD i default).blockedCycles ((sys.caches.getD i default).stats.incrementAccesses.incrementWrites)).getSetIndex address) (((sys.caches.getD i default).sets.getD ((Cache.mk (sys.caches.getD i default).coreId (sys.caches.getD i default).setIndexBits (sys.caches.getD i default).blockOffsetBits (sys.caches.getD i default).associativity (sys.caches.getD i default).sets (sys.caches.getD i default).isBlocked (sys.caches.getD i default).blockedCycles ((sys.caches.getD i default).stats.incrementAccesses.incrementWrites)).getSetIndex address) default).updateLRU li)).sets.getD (((Cache.mk (sys.caches.getD i default).coreId (sys.caches.getD i default).setIndexBits (sys.caches.getD i default).blockOffsetBits (sys.caches.getD i default).associativity (sys.caches.getD i default).sets (sys.caches.getD i default).isBlocked (sys.caches.getD i default).blockedCycles ((sys.caches.getD i default).stats.incrementAccesses.incrementWrites)).putSet ((Cache.mk (sys.caches.getD i default).coreId (sys.caches.getD i default).setIndexBits (sys.caches.getD i default).blockOffsetBits (sys.caches.getD i default).associativity (sys.caches.getD i default).sets (sys.caches.getD i default).isBlocked (sys.caches.getD i default).blockedCycles ((sys.caches.getD i default).stats.incrementAccesses.incrementWrites)).getSetIndex address) (((sys.caches.getD i default).sets.getD ((Cache.mk (sys.caches.getD i default).coreId (sys.caches.getD i default).setIndexBits (sys.caches.getD i default).blockOffsetBits (sys.caches.getD i default).associativity (sys.caches.getD i default).sets (sys.caches.getD i default).isBlocked (sys.caches.getD i default).blockedCycles ((sys.caches.getD i default).stats.incrementAccesses.incrementWrites)).getSetIndex address) default).updateLRU li)).getSetIndex address) default).setLineState li CacheState.MODIFIED))).getD i default = (((Cache.mk (sys.caches.getD i default).coreId (sys.caches.getD i default).setIndexBits (sys.caches.getD i default).blockOffsetBits (sys.caches.getD i default).associativity (sys.caches.getD i default).sets (sys.caches.getD i default).isBlocked (sys.caches.getD i default).blockedCycles ((sys.caches.getD i default).stats.incrementAccesses.incrementWrites)).putSet ((Cache.mk (sys.caches.getD i default).coreId (sys.caches.getD i default).setIndexBits (sys.caches.getD i default).blockOffsetBits (sys.caches.getD i default).associativity (sys.caches.getD i default).sets (sys.caches.getD i default).isBlocked (sys.caches.getD i default).blockedCycles ((sys.caches.getD i default).stats.incrementAccesses.incrementWrites)).getSetIndex address) (((sys.caches.getD i default).sets.getD ((Cache.mk (sys.caches.getD i default).coreId (sys.caches.getD i default).setIndexBits (sys.caches.getD i default).blockOffsetBits (sys.caches.getD i default).associativity (sys.caches.getD i default).sets (sys.caches.getD i default).isBlocked (sys.caches.getD i default).blockedCycles ((sys.caches.getD i default).stats.incrementAccesses.incrementWrites)).getSetIndex address) default).updateLRU li)).putSet (((Cache.mk (sys.caches.getD i default).coreId (sys.caches.getD i default).setIndexBits (sys.caches.getD i default).blockOffsetBits (sys.caches.getD i default).associativity (sys.caches.getD i default).sets (sys.caches.getD i default).isBlocked (sys.caches.getD i default).blockedCycles ((sys.caches.getD i default).stats.incrementAccesses.incrementWrites)).putSet ((Cache.mk (sys.caches.getD i default).coreId (sys.caches.getD i default).setIndexBits (sys.caches.getD i default).blockOffsetBits (sys.caches.getD i default).associativity (sys.caches.getD i default).sets (sys.caches.getD i default).isBlocked (sys.caches.getD i default).blockedCycles ((sys.caches.getD i default).stats.incrementAccesses.incrementWrites)).getSetIndex address) (((sys.caches.getD i default).sets.getD ((Cache.mk (sys.caches.getD i default).coreId (sys.caches.getD i default).setIndexBits (sys.caches.getD i default).blockOffsetBits (sys.caches.getD i default).associativity (sys.caches.getD i default).sets (sys.caches.getD i default).isBlocked (sys.caches.getD i default).blockedCycles ((sys.caches.getD i default).stats.incrementAccesses.incrementWrites)).getSetIndex address) default).updateLRU li)).getSetIndex address) ((((Cache.mk (sys.caches.getD i default).coreId (sys.caches.getD i default).setIndexBits (sys.caches.getD i default).blockOffsetBits (sys.caches.getD i default).associativity (sys.caches.getD i default).sets (sys.caches.getD i default).isBlocked (sys.caches.getD i default).blockedCycles ((sys.caches.getD i default).stats.incrementAccesses.incrementWrites)).putSet ((Cache.mk (sys.caches.getD i default).coreId (sys.caches.getD i default).setIndexBits (sys.caches.getD i default).blockOffsetBits (sys.caches.getD i default).associativity (sys.caches.getD i default).sets (sys.caches.getD i default).isBlocked (sys.caches.getD i default).blockedCycles ((sys.caches.getD i default).stats.incrementAccesses.incrementWrites)).getSetIndex address) (((sys.caches.getD i default).sets.getD ((Cache.mk (sys.caches.getD i default).coreId (sys.caches.getD i default).setIndexBits (sys.caches.getD i default).blockOffsetBits (sys.caches.getD i default).associativity (sys.caches.getD i default).sets (sys.caches.getD i default).isBlocked (sys.caches.getD i default).blockedCycles ((sys.caches.getD i default).stats.incrementAccesses.incrementWrites)).getSetIndex address) default).updateLRU li)).sets.getD (((Cache.mk (sys.caches.getD i default).coreId (sys.caches.getD i default).setIndexBits (sys.caches.getD i default).blockOffsetBits (sys.caches.getD i default).associativity (sys.caches.getD i default).sets (sys.caches.getD i default).isBlocked (sys.caches.getD i default).blockedCycles ((sys.caches.getD i default).stats.incrementAccesses.incrementWrites)).putSet ((Cache.mk (sys.caches.getD i default).coreId (sys.caches.getD i default).setIndexBits (sys.caches.getD i default).blockOffsetBits (sys.caches.getD i default).associativity (sys.caches.getD i default).sets (sys.caches.getD i default).isBlocked (sys.caches.getD i default).blockedCycles ((sys.caches.getD i default).stats.incrementAccesses.incrementWrites)).getSetIndex address) (((sys.caches.getD i default).sets.getD ((Cache.mk (sys.caches.getD i default).coreId (sys.caches.getD i default).setIndexBits (sys.caches.getD i default).blockOffsetBits (sys.caches.getD i default).associativity (sys.caches.getD i default).sets (sys.caches.getD i default).isBlocked (sys.caches.getD i default).blockedCycles ((sys.caches.getD i default).stats.incrementAccesses.incrementWrites)).getSetIndex address) default).updateLRU li)).getSetIndex address) default).setLineState li CacheState.MODIFIED)) :=
          getD_set_self _ _ _ _ (by rw [hlen]; exact hi)
        have hgJ : ∀ j, j ≠ i →
            (sys.caches.set i (((Cache.mk (sys.caches.getD i default).coreId (sys.caches.getD i default).setIndexBits (sys.caches.getD i default).blockOffsetBits (sys.caches.getD i default).associativity (sys.caches.getD i default).sets (sys.caches.getD i default).isBlocked (sys.caches.getD i default).blockedCycles ((sys.caches.getD i default).stats.incrementAccesses.incrementWrites)).putSet ((Cache.mk (sys.caches.getD i default).coreId (sys.caches.getD i default).setIndexBits (sys.caches.getD i default).blockOffsetBits (sys.caches.getD i default).associativity (sys.caches.getD i default).sets (sys.caches.getD i default).isBlocked (sys.caches.getD i default).blockedCycles ((sys.caches.getD i default).stats.incrementAccesses.incrementWrites)).getSetIndex address) (((sys.caches.getD i default).sets.getD ((Cache.mk (sys.caches.getD i default).coreId (sys.caches.getD i default).setIndexBits (sys.caches.getD i default).blockOffsetBits (sys.caches.getD i default).associativity (sys.caches.getD i default).sets (sys.caches.getD i default).isBlocked (sys.caches.getD i default).blockedCycles ((sys.caches.getD i default).stats.incrementAccesses.incrementWrites)).getSetIndex address) default).updateLRU li)).putSet (((Cache.mk (sys.caches.getD i default).coreId (sys.caches.getD i default).setIndexBits (sys.caches.getD i default).blockOffsetBits (sys.caches.getD i default).associativity (sys.caches.getD i default).sets (sys.caches.getD i default).isBlocked (sys.caches.getD i default).blockedCycles ((sys.caches.getD i default).stats.incrementAccesses.incrementWrites)).putSet ((Cache.mk (sys.caches.getD i default).coreId (sys.caches.getD i default).setIndexBits (sys.caches.getD i default).blockOffsetBits (sys.caches.getD i default).associativity (sys.caches.getD i default).sets (sys.caches.getD i default).isBlocked (sys.caches.getD i default).blockedCycles ((sys.caches.getD i default).stats.incrementAccesses.incrementWrites)).getSetIndex address) (((sys.caches.getD i default).sets.getD ((Cache.mk (sys.caches.getD i default).coreId (sys.caches.getD i default).setIndexBits (sys.caches.getD i default).blockOffsetBits (sys.caches.getD i default).associativity (sys.caches.getD i default).sets (sys.caches.getD i default).isBlocked (sys.caches.getD i default).blockedCycles ((sys.caches.getD i default).stats.incrementAccesses.incrementWrites)).getSetIndex address) default).updateLRU li)).getSetIndex address) ((((Cache.mk (sys.caches.getD i default).coreId (sys.caches.getD i default).setIndexBits (sys.caches.getD i default).blockOffsetBits (sys.caches.getD i default).associativity (sys.caches.getD i default).sets (sys.caches.getD i default).isBlocked (sys.caches.getD i default).blockedCycles ((sys.caches.getD i default).stats.incrementAccesses.incrementWrites)).putSet ((Cache.mk (sys.caches.getD i default).coreId (sys.caches.getD i default).setIndexBits (sys.caches.getD i default).blockOffsetBits (sys.caches.getD i default).associativity (sys.caches.getD i default).sets (sys.caches.getD i default).isBlocked (sys.caches.getD i default).blockedCycles ((sys.caches.getD i default).stats.incrementAccesses.incrementWrites)).getSetIndex address) (((sys.caches.getD i default).sets.getD ((Cache.mk (sys.caches.getD i default).coreId (sys.caches.getD i default).setIndexBits (sys.caches.getD i default).blockOffsetBits (sys.caches.getD i default).associativity (sys.caches.getD i default).sets (sys.caches.getD i default).isBlocked (sys.caches.getD i default).blockedCycles ((sys.caches.getD i default).stats.incrementAccesses.incrementWrites)).getSetIndex address) default).updateLRU li)).sets.getD (((Cache.mk (sys.caches.getD i default).coreId (sys.caches.getD i default).setIndexBits (sys.caches.getD i default).blockOffsetBits (sys.caches.getD i default).associativity (sys.caches.getD i default).sets (sys.caches.getD i default).isBlocked (sys.caches.getD i default).blockedCycles ((sys.caches.getD i default).stats.incrementAccesses.incrementWrites)).putSet ((Cache.mk (sys.caches.getD i default).coreId (sys.caches.getD i default).setIndexBits (sys.caches.getD i default).blockOffsetBits (sys.caches.getD i default).associativity (sys.caches.getD i default).sets (sys.caches.getD i default).isBlocked (sys.caches.getD i default).blockedCycles ((sys.caches.getD i default).stats.incrementAccesses.incrementWrites)).getSetIndex address) (((sys.caches.getD i default).sets.getD ((Cache.mk (sys.caches.getD i default).coreId (sys.caches.getD i default).setIndexBits (sys.caches.getD i default).blockOffsetBits (sys.caches.getD i default).associativity (sys.caches.getD i default).sets (sys.caches.getD i default).isBlocked (sys.caches.getD i default).blockedCycles ((sys.caches.getD i default).stats.incrementAccesses.incrementWrites)).getSetIndex address) default).updateLRU li)).getSetIndex address) default).setLineState li CacheState.MODIFIED))).getD j default = sys.caches.getD j default :=
          fun j hj => getD_set_ne _ _ _ _ _ (fun h => hj h.symm)
        refine ⟨⟨?_, ?_, hbusy, hpend⟩, ?_⟩
        · show (sys.caches.set i (((Cache.mk (sys.caches.getD i default).coreId (sys.caches.getD i default).setIndexBits (sys.caches.getD i default).blockOffsetBits (sys.caches.getD i default).associativity (sys.caches.getD i default).sets (sys.caches.getD i default).isBlocked (sys.caches.getD i default).blockedCycles ((sys.caches.getD i default).stats.incrementAccesses.incrementWrites)).putSet ((Cache.mk (sys.caches.getD i default).coreId (sys.caches.getD i default).setIndexBits (sys.caches.getD i default).blockOffsetBits (sys.caches.getD i default).associativity (sys.caches.getD i default).sets (sys.caches.getD i default).isBlocked (sys.caches.getD i default).blockedCycles ((sys.caches.getD i default).stats.incrementAccesses.incrementWrites)).getSetIndex address) (((sys.caches.getD i default).sets.getD ((Cache.mk (sys.caches.getD i default).coreId (sys.caches.getD i default).setIndexBits (sys.caches.getD i default).blockOffsetBits (sys.caches.getD i default).associativity (sys.caches.getD i default).sets (sys.caches.getD i default).isBlocked (sys.caches.getD i default).blockedCycles ((sys.caches.getD i default).stats.incrementAccesses.incrementWrites)).getSetIndex address) default).updateLRU li)).putSet (((Cache.mk (sys.caches.getD i default).coreId (sys.caches.getD i default).setIndexBits (sys.caches.getD i default).blockOffsetBits (sys.caches.getD i default).associativity (sys.caches.getD i default).sets (sys.caches.getD i default).isBlocked (sys.caches.getD i default).blockedCycles ((sys.caches.getD i default).stats.incrementAccesses.incrementWrites)).putSet ((Cache.mk (sys.caches.getD i default).coreId (sys.caches.getD i default).setIndexBits (sys.caches.getD i default).blockOffsetBits (sys.caches.getD i default).associativity (sys.caches.getD i default).sets (sys.caches.getD i default).isBlocked (sys.caches.getD i default).blockedCycles ((sys.caches.getD i default).stats.incrementAccesses.incrementWrites)).getSetIndex address) (((sys.caches.getD i default).sets.getD ((Cache.mk (sys.caches.getD i default).coreId (sys.caches.getD i default).setIndexBits (sys.caches.getD i default).blockOffsetBits (sys.caches.getD i default).associativity (sys.caches.getD i default).sets (sys.caches.getD i default).isBlocked (sys.caches.getD i default).blockedCycles ((sys.caches.getD i default).stats.incrementAccesses.incrementWrites)).getSetIndex address) default).updateLRU li)).getSetIndex address) ((((Cache.mk (sys.caches.getD i default).coreId (sys.caches.getD i default).setIndexBits (sys.caches.getD i default).blockOffsetBits (sys.caches.getD i default).associativity (sys.caches.getD i default).sets (sys.caches.getD i default).isBlocked (sys.caches.getD i default).blockedCycles ((sys.caches.getD i default).stats.incrementAccesses.incrementWrites)).putSet ((Cache.mk (sys.caches.getD i default).coreId (sys.caches.getD i default).setIndexBits (sys.caches.getD i default).blockOffsetBits (sys.caches.getD i default).associativity (sys.caches.getD i default).sets (sys.caches.getD i default).isBlocked (sys.caches.getD i default).blockedCycles ((sys.caches.getD i default).stats.incrementAccesses.incrementWrites)).getSetIndex address) (((sys.caches.getD i default).sets.getD ((Cache.mk (sys.caches.getD i default).coreId (sys.caches.getD i default).setIndexBits (sys.caches.getD i default).blockOffsetBits (sys.caches.getD i default).associativity (sys.caches.getD i default).sets (sys.caches.getD i default).isBlocked (sys.caches.getD i default).blockedCycles ((sys.caches.getD i default).stats.incrementAccesses.incrementWrites)).getSetIndex address) default).updateLRU li)).sets.getD (((Cache.mk (sys.caches.getD i default).coreId (sys.caches.getD i default).setIndexBits (sys.caches.getD i default).blockOffsetBits (sys.caches.getD i default).associativity (sys.caches.getD i default).sets (sys.caches.getD i default).isBlocked (sys.caches.getD i default).blockedCycles ((sys.caches.getD i default).stats.incrementAccesses.incrementWrites)).putSet ((Cache.mk (sys.caches.getD i default).coreId (sys.caches.getD i default).setIndexBits (sys.caches.getD i default).blockOffsetBits (sys.caches.getD i default).associativity (sys.caches.getD i default).sets (sys.caches.getD i default).isBlocked (sys.caches.getD i default).blockedCycles ((sys.caches.getD i default).stats.incrementAccesses.incrementWrites)).getSetIndex address) (((sys.caches.getD i default).sets.getD ((Cache.mk (sys.caches.getD i default).coreId (sys.caches.getD i default).setIndexBits (sys.caches.getD i default).blockOffsetBits (sys.caches.getD i default).associativity (sys.caches.getD i default).sets (sys.caches.getD i default).isBlocked (sys.caches.getD i default).blockedCycles ((sys.caches.getD i default).stats.incrementAccesses.incrementWrites)).getSetIndex address) default).updateLRU li)).getSetIndex address) default).setLineState li CacheState.MODIFIED))).length = n
          rw [List.length_set]
          exact hlen
        · intro j hj
          show CacheWF sb bob assoc j ((sys.caches.set i (((Cache.mk (sys.caches.getD i default).coreId (sys.caches.getD i default).setIndexBits (sys.caches.getD i default).blockOffsetBits (sys.caches.getD i default).associativity (sys.caches.getD i default).sets (sys.caches.getD i default).isBlocked (sys.caches.getD i default).blockedCycles ((sys.caches.getD i default).stats.incrementAccesses.incrementWrites)).putSet ((Cache.mk (sys.caches.getD i default).coreId (sys.caches.getD i default).setIndexBits (sys.caches.getD i default).blockOffsetBits (sys.caches.getD i default).associativity (sys.caches.getD i default).sets (sys.caches.getD i default).isBlocked (sys.caches.getD i default).blockedCycles ((sys.caches.getD i default).stats.incrementAccesses.incrementWrites)).getSetIndex address) (((sys.caches.getD i default).sets.getD ((Cache.mk (sys.caches.getD i default).coreId (sys.caches.getD i default).setIndexBits (sys.caches.getD i default).blockOffsetBits (sys.caches.getD i default).associativity (sys.caches.getD i default).sets (sys.caches.getD i default).isBlocked (sys.caches.getD i default).blockedCycles ((sys.caches.getD i default).stats.incrementAccesses.incrementWrites)).getSetIndex address) default).updateLRU li)).putSet (((Cache.mk (sys.caches.getD i default).coreId (sys.caches.getD i default).setIndexBits (sys.caches.getD i default).blockOffsetBits (sys.caches.getD i default).associativity (sys.caches.getD i default).sets (sys.caches.getD i default).isBlocked (sys.caches.getD i default).blockedCycles ((sys.caches.getD i default).stats.incrementAccesses.incrementWrites)).putSet ((Cache.mk (sys.caches.getD i default).coreId (sys.caches.getD i default).setIndexBits (sys.caches.getD i default).blockOffsetBits (sys.caches.getD i default).associativity (sys.caches.getD i default).sets (sys.caches.getD i default).isBlocked (sys.caches.getD i default).blockedCycles ((sys.caches.getD i default).stats.incrementAccesses.incrementWrites)).getSetIndex address) (((sys.caches.getD i default).sets.getD ((Cache.mk (sys.caches.getD i default).coreId (sys.caches.getD i default).setIndexBits (sys.caches.getD i default).blockOffsetBits (sys.caches.getD i default).associativity (sys.caches.getD i default).sets (sys.caches.getD i default).isBlocked (sys.caches.getD i default).blockedCycles ((sys.caches.getD i default).stats.incrementAccesses.incrementWrites)).getSetIndex address) default).updateLRU li)).getSetIndex address) ((((Cache.mk (sys.caches.getD i default).coreId (sys.caches.getD i default).setIndexBits (sys.caches.getD i default).blockOffsetBits (sys.caches.getD i default).associativity (sys.caches.getD i default).sets (sys.caches.getD i default).isBlocked (sys.caches.getD i default).blockedCycles ((sys.caches.getD i default).stats.incrementAccesses.incrementWrites)).putSet ((Cache.mk (sys.caches.getD i default).coreId (sys.caches.getD i default).setIndexBits (sys.caches.getD i default).blockOffsetBits (sys.caches.getD i default).associativity (sys.caches.getD i default).sets (sys.caches.getD i default).isBlocked (sys.caches.getD i default).blockedCycles ((sys.caches.getD i default).stats.incrementAccesses.incrementWrites)).getSetIndex address) (((sys.caches.getD i default).sets.getD ((Cache.mk (sys.caches.getD i default).coreId (sys.caches.getD i default).setIndexBits (sys.caches.getD i default).blockOffsetBits (sys.caches.getD i default).associativity (sys.caches.getD i default).sets (sys.caches.getD i default).isBlocked (sys.caches.getD i default).blockedCycles ((sys.caches.getD i default).stats.incrementAccesses.incrementWrites)).getSetIndex address) default).updateLRU li)).sets.getD (((Cache.mk (sys.caches.getD i default).coreId (sys.caches.getD i default).setIndexBits (sys.caches.getD i default).blockOffsetBits (sys.caches.getD i default).associativity (sys.caches.getD i default).sets (sys.caches.getD i default).isBlocked (sys.caches.getD i default).blockedCycles ((sys.caches.getD i default).stats.incrementAccesses.incrementWrites)).putSet ((Cache.mk (sys.caches.getD i default).coreId (sys.caches.getD i default).setIndexBits (sys.caches.getD i default).blockOffsetBits (sys.caches.getD i default).associativity (sys.caches.getD i default).sets (sys.caches.getD i default).isBlocked (sys.caches.getD i default).blockedCycles ((sys.caches.getD i default).stats.incrementAccesses.incrementWrites)).getSetIndex address) (((sys.caches.getD i default).sets.getD ((Cache.mk (sys.caches.getD i default).coreId (sys.caches.getD i default).setIndexBits (sys.caches.getD i default).blockOffsetBits (sys.caches.getD i default).associativity (sys.caches.getD i default).sets (sys.caches.getD i default).isBlocked (sys.caches.getD i default).blockedCycles ((sys.caches.getD i default).stats.incrementAccesses.incrementWrites)).getSetIndex address) default).updateLRU li)).getSetIndex address) default).setLineState li CacheState.MODIFIED))).getD j default)
          by_cases hji : j = i
          · rw [hji, hgI]
            exact hwf3
          · rw [hgJ j hji]
            exact hwf j hj
        · show MesiOK n (sys.caches.set i (((Cache.mk (sys.caches.getD i default).coreId (sys.caches.getD i default).setIndexBits (sys.caches.getD i default).blockOffsetBits (sys.caches.getD i default).associativity (sys.caches.getD i default).sets (sys.caches.getD i default).isBlocked (sys.caches.getD i default).blockedCycles ((sys.caches.getD i default).stats.incrementAccesses.incrementWrites)).putSet ((Cache.mk (sys.caches.getD i default).coreId (sys.caches.getD i default).setIndexBits (sys.caches.getD i default).blockOffsetBits (sys.caches.getD i default).associativity (sys.caches.getD i default).sets (sys.caches.getD i default).isBlocked (sys.caches.getD i default).blockedCycles ((sys.caches.getD i default).stats.incrementAccesses.incrementWrites)).getSetIndex address) (((sys.caches.getD i default).sets.getD ((Cache.mk (sys.caches.getD i default).coreId (sys.caches.getD i default).setIndexBits (sys.caches.getD i default).blockOffsetBits (sys.caches.getD i default).associativity (sys.caches.getD i default).sets (sys.caches.getD i default).isBlocked (sys.caches.getD i default).blockedCycles ((sys.caches.getD i default).stats.incrementAccesses.incrementWrites)).getSetIndex address) default).updateLRU li)).putSet (((Cache.mk (sys.caches.getD i default).coreId (sys.caches.getD i default).setIndexBits (sys.caches.getD i default).blockOffsetBits (sys.caches.getD i default).associativity (sys.caches.getD i default).sets (sys.caches.getD i default).isBlocked (sys.caches.getD i default).blockedCycles ((sys.caches.getD i default).stats.incrementAccesses.incrementWrites)).putSet ((Cache.mk (sys.caches.getD i default).coreId (sys.caches.getD i default).setIndexBits (sys.caches.getD i default).blockOffsetBits (sys.caches.getD i default).associativity (sys.caches.getD i default).sets (sys.caches.getD i default).isBlocked (sys.caches.getD i default).blockedCycles ((sys.caches.getD i default).stats.incrementAccesses.incrementWrites)).getSetIndex address) (((sys.caches.getD i default).sets.getD ((Cache.mk (sys.caches.getD i default).coreId (sys.caches.getD i default).setIndexBits (sys.caches.getD i default).blockOffsetBits (sys.caches.getD i default).associativity (sys.caches.getD i default).sets (sys.caches.getD i default).isBlocked (sys.caches.getD i default).blockedCycles ((sys.caches.getD i default).stats.incrementAccesses.incrementWrites)).getSetIndex address) default).updateLRU li)).getSetIndex address) ((((Cache.mk (sys.caches.getD i default).coreId (sys.caches.getD i default).setIndexBits (sys.caches.getD i default).blockOffsetBits (sys.caches.getD i default).associativity (sys.caches.getD i default).sets (sys.caches.getD i default).isBlocked (sys.caches.getD i default).blockedCycles ((sys.caches.getD i default).stats.incrementAccesses.incrementWrites)).putSet ((Cache.mk (sys.caches.getD i default).coreId (sys.caches.getD i default).setIndexBits (sys.caches.getD i default).blockOffsetBits (sys.caches.getD i default).associativity (sys.caches.getD i default).sets (sys.caches.getD i default).isBlocked (sys.caches.getD i default).blockedCycles ((sys.caches.getD i default).stats.incrementAccesses.incrementWrites)).getSetIndex address) (((sys.caches.getD i default).sets.getD ((Cache.mk (sys.caches.getD i default).coreId (sys.caches.getD i default).setIndexBits (sys.caches.getD i default).blockOffsetBits (sys.caches.getD i default).associativity (sys.caches.getD i default).sets (sys.caches.getD i default).isBlocked (sys.caches.getD i default).blockedCycles ((sys.caches.getD i default).stats.incrementAccesses.incrementWrites)).getSetIndex address) default).updateLRU li)).sets.getD (((Cache.mk (sys.caches.getD i default).coreId (sys.caches.getD i default).setIndexBits (sys.caches.getD i default).blockOffsetBits (sys.caches.getD i default).associativity (sys.caches.getD i default).sets (sys.caches.getD i default).isBlocked (sys.caches.getD i default).blockedCycles ((sys.caches.getD i default).stats.incrementAccesses.incrementWrites)).putSet ((Cache.mk (sys.caches.getD i default).coreId (sys.caches.getD i default).setIndexBits (sys.caches.getD i default).blockOffsetBits (sys.caches.getD i default).associativity (sys.caches.getD i default).sets (sys.caches.getD i default).isBlocked (sys.caches.getD i default).blockedCycles ((sys.caches.getD i default).stats.incrementAccesses.incrementWrites)).getSetIndex address) (((sys.caches.getD i default).sets.getD ((Cache.mk (sys.caches.getD i default).coreId (sys.caches.getD i default).setIndexBits (sys.caches.getD i default).blockOffsetBits (sys.caches.getD i default).associativity (sys.caches.getD i default).sets (sys.caches.getD i default).isBlocked (sys.caches.getD i default).blockedCycles ((sys.caches.getD i default).stats.incrementAccesses.incrementWrites)).getSetIndex address) default).updateLRU li)).getSetIndex address) default).setLineState li CacheState.MODIFIED)))
          intro si tv a b ha hb hab hME
          by_cases hTA2 : si = (addrSetIdx sb bob address) ∧ tv = (addrTag sb bob address)
          · obtain ⟨h1, h2⟩ := hTA2
            subst h1
            subst h2
            by_cases hbi : b = i
            · exfalso
              have hai : a ≠ i := by rw [← hbi]; exact hab
              have hInv := hmesi (addrSetIdx sb bob address) (addrTag sb bob address) i a hi ha (fun h => hai h.symm) (Or.inr hSelfE)
              rw [hgJ a hai, hInv] at hME
              rcases hME with h | h
              · cases h
              · cases h
            · rw [hgJ b hbi]
              exact hmesi (addrSetIdx sb bob address) (addrTag sb bob address) i b hi hb (fun h => hbi h.symm) (Or.inr hSelfE)
          · have hne := not_and_or.mp hTA2
            have hstF : ∀ j, j < n →
                (((sys.caches.set i (((Cache.mk (sys.caches.getD i default).coreId (sys.caches.getD i default).setIndexBits (sys.caches.getD i default).blockOffsetBits (sys.caches.getD i default).associativity (sys.caches.getD i default).sets (sys.caches.getD i default).isBlocked (sys.caches.getD i default).blockedCycles ((sys.caches.getD i default).stats.incrementAccesses.incrementWrites)).putSet ((Cache.mk (sys.caches.getD i default).coreId (sys.caches.getD i default).setIndexBits (sys.caches.getD i default).blockOffsetBits (sys.caches.getD i default).associativity (sys.caches.getD i default).sets (sys.caches.getD i default).isBlocked (sys.caches.getD i default).blockedCycles ((sys.caches.getD i default).stats.incrementAccesses.incrementWrites)).getSetIndex address) (((sys.caches.getD i default).sets.getD ((Cache.mk (sys.caches.getD i default).coreId (sys.caches.getD i default).setIndexBits (sys.caches.getD i default).blockOffsetBits (sys.caches.getD i default).associativity (sys.caches.getD i default).sets (sys.caches.getD i default).isBlocked (sys.caches.getD i default).blockedCycles ((sys.caches.getD i default).stats.incrementAccesses.incrementWrites)).getSetIndex address) default).updateLRU li)).putSet (((Cache.mk (sys.caches.getD i default).coreId (sys.caches.getD i default).setIndexBits (sys.caches.getD i default).blockOffsetBits (sys.caches.getD i default).associativity (sys.caches.getD i default).sets (sys.caches.getD i default).isBlocked (sys.caches.getD i default).blockedCycles ((sys.caches.getD i default).stats.incrementAccesses.incrementWrites)).putSet ((Cache.mk (sys.caches.getD i default).coreId (sys.caches.getD i default).setIndexBits (sys.caches.getD i default).blockOffsetBits (sys.caches.getD i default).associativity (sys.caches.getD i default).sets (sys.caches.getD i default).isBlocked (sys.caches.getD i default).blockedCycles ((sys.caches.getD i default).stats.incrementAccesses.incrementWrites)).getSetIndex address) (((sys.caches.getD i default).sets.getD ((Cache.mk (sys.caches.getD i default).coreId (sys.caches.getD i default).setIndexBits (sys.caches.getD i default).blockOffsetBits (sys.caches.getD i default).associativity (sys.caches.getD i default).sets (sys.caches.getD i default).isBlocked (sys.caches.getD i default).blockedCycles ((sys.caches.getD i default).stats.incrementAccesses.incrementWrites)).getSetIndex address) default).updateLRU li)).getSetIndex address) ((((Cache.mk (sys.caches.getD i default).coreId (sys.caches.getD i default).setIndexBits (sys.caches.getD i default).blockOffsetBits (sys.caches.getD i default).associativity (sys.caches.getD i default).sets (sys.caches.getD i default).isBlocked (sys.caches.getD i default).blockedCycles ((sys.caches.getD i default).stats.incrementAccesses.incrementWrites)).putSet ((Cache.mk (sys.caches.getD i default).coreId (sys.caches.getD i default).setIndexBits (sys.caches.getD i default).blockOffsetBits (sys.caches.getD i default).associativity (sys.caches.getD i default).sets (sys.caches.getD i default).isBlocked (sys.caches.getD i default).blockedCycles ((sys.caches.getD i default).stats.incrementAccesses.incrementWrites)).getSetIndex address) (((sys.caches.getD i default).sets.getD ((Cache.mk (sys.caches.getD i default).coreId (sys.caches.getD i default).setIndexBits (sys.caches.getD i default).blockOffsetBits (sys.caches.getD i default).associativity (sys.caches.getD i default).sets (sys.caches.getD i default).isBlocked (sys.caches.getD i default).blockedCycles ((sys.caches.getD i default).stats.incrementAccesses.incrementWrites)).getSetIndex address) default).updateLRU li)).sets.getD (((Cache.mk (sys.caches.getD i default).coreId (sys.caches.getD i default).setIndexBits (sys.caches.getD i default).blockOffsetBits (sys.caches.getD i default).associativity (sys.caches.getD i default).sets (sys.caches.getD i default).isBlocked (sys.caches.getD i default).blockedCycles ((sys.caches.getD i default).stats.incrementAccesses.incrementWrites)).putSet ((Cache.mk (sys.caches.getD i default).coreId (sys.caches.getD i default).setIndexBits (sys.caches.getD i default).blockOffsetBits (sys.caches.getD i default).associativity (sys.caches.getD i default).sets (sys.caches.getD i default).isBlocked (sys.caches.getD i default).blockedCycles ((sys.caches.getD i default).stats.incrementAccesses.incrementWrites)).getSetIndex address) (((sys.caches.getD i default).sets.getD ((Cache.mk (sys.caches.getD i default).coreId (sys.caches.getD i default).setIndexBits (sys.caches.getD i default).blockOffsetBits (sys.caches.getD i default).associativity (sys.caches.getD i default).sets (sys.caches.getD i default).isBlocked (sys.caches.getD i default).blockedCycles ((sys.caches.getD i default).stats.incrementAccesses.incrementWrites)).getSetIndex address) default).updateLRU li)).getSetIndex address) default).setLineState li CacheState.MODIFIED)))).getD j default).stateAt si tv
                  = (sys.caches.getD j default).stateAt si tv := by
              intro j hj
              by_cases hji : j = i
              · rw [hji, hgI]
                exact hstC3 si tv hne
              · rw [hgJ j hji]
            rw [hstF b hb]
            rw [hstF a ha] at hME
            exact hmesi si tv a b ha hb hab hME
      | SHARED =>
        have hss : (((((Cache.mk (sys.caches.getD i default).coreId (sys.caches.getD i default).setIndexBits (sys.caches.getD i default).blockOffsetBits (sys.caches.getD i default).associativity (sys.caches.getD i default).sets (sys.caches.getD i default).isBlocked (sys.caches.getD i default).blockedCycles ((sys.caches.getD i default).stats.incrementAccesses.incrementWrites)).putSet ((Cache.mk (sys.caches.getD i default).coreId (sys.caches.getD i default).setIndexBits (sys.caches.getD i default).blockOffsetBits (sys.caches.getD i default).associativity (sys.caches.getD i default).sets (sys.caches.getD i default).isBlocked (sys.caches.getD i default).blockedCycles ((sys.caches.getD i default).stats.incrementAccesses.incrementWrites)).getSetIndex address) (((sys.caches.getD i default).sets.getD ((Cache.mk (sys.caches.getD i default).coreId (sys.caches.getD i default).setIndexBits (sys.caches.getD i default).blockOffsetBits (sys.caches.getD i default).associativity (sys.caches.getD i default).sets (sys.caches.getD i default).isBlocked (sys.caches.getD i default).blockedCycles ((sys.caches.getD i default).stats.incrementAccesses.incrementWrites)).getSetIndex address) default).updateLRU li)).sets.getD (((Cache.mk (sys.caches.getD i default).coreId (sys.caches.getD i default).setIndexBits (sys.caches.getD i default).blockOffsetBits (sys.caches.getD i default).associativity (sys.caches.getD i default).sets (sys.caches.getD i default).isBlocked (sys.caches.getD i default).blockedCycles ((sys.caches.getD i default).stats.incrementAccesses.incrementWrites)).putSet ((Cache.mk (sys.caches.getD i default).coreId (sys.caches.getD i default).setIndexBits (sys.caches.getD i default).blockOffsetBits (sys.caches.getD i default).associativity (sys.caches.getD i default).sets (sys.caches.getD i default).isBlocked (sys.caches.getD i default).blockedCycles ((sys.caches.getD i default).stats.incrementAccesses.incrementWrites)).getSetIndex address) (((sys.caches.getD i default).sets.getD ((Cache.mk (sys.caches.getD i default).coreId (sys.caches.getD i default).setIndexBits (sys.caches.getD i default).blockOffsetBits (sys.caches.getD i default).associativity (sys.caches.getD i default).sets (sys.caches.getD i default).isBlocked (sys.caches.getD i default).blockedCycles ((sys.caches.getD i default).stats.incrementAccesses.incrementWrites)).getSetIndex address) default).updateLRU li)).getSetIndex address) default).getLine li) : CacheLine).state = CacheState.SHARED := hline.trans hstate
        rw [cacheWrite_eq_hit_S sys i address cycles li hbl hfl hf2 hcore hss]
        have hws1 : SysWF n sb assoc bob ((Sys.mk (sys.caches.set i ((Cache.mk (sys.caches.getD i default).coreId (sys.caches.getD i default).setIndexBits (sys.caches.getD i default).blockOffsetBits (sys.caches.getD i default).associativity (sys.caches.getD i default).sets (sys.caches.getD i default).isBlocked (sys.caches.getD i default).blockedCycles ((sys.caches.getD i default).stats.incrementAccesses.incrementWrites)).putSet ((Cache.mk (sys.caches.getD i default).coreId (sys.caches.getD i default).setIndexBits (sys.caches.getD i default).blockOffsetBits (sys.caches.getD i default).associativity (sys.caches.getD i default).sets (sys.caches.getD i default).isBlocked (sys.caches.getD i default).blockedCycles ((sys.caches.getD i default).stats.incrementAccesses.incrementWrites)).getSetIndex address) (((sys.caches.getD i default).sets.getD ((Cache.mk (sys.caches.getD i default).coreId (sys.caches.getD i default).setIndexBits (sys.caches.getD i default).blockOffsetBits (sys.caches.getD i default).associativity (sys.caches.getD i default).sets (sys.caches.getD i default).isBlocked (sys.caches.getD i default).blockedCycles ((sys.caches.getD i default).stats.incrementAccesses.incrementWrites)).getSetIndex address) default).updateLRU li))) sys.bus) : Sys) := by
          refine ⟨?_, ?_, hbusy, hpend⟩
          · show (sys.caches.set i ((Cache.mk (sys.caches.getD i default).coreId (sys.caches.getD i default).setIndexBits (sys.caches.getD i default).blockOffsetBits (sys.caches.getD i default).associativity (sys.caches.getD i default).sets (sys.caches.getD i default).isBlocked (sys.caches.getD i default).blockedCycles ((sys.caches.getD i default).stats.incrementAccesses.incrementWrites)).putSet ((Cache.mk (sys.caches.getD i default).coreId (sys.caches.getD i default).setIndexBits (sys.caches.getD i default).blockOffsetBits (sys.caches.getD i default).associativity (sys.caches.getD i default).sets (sys.caches.getD i default).isBlocked (sys.caches.getD i default).blockedCycles ((sys.caches.getD i default).stats.incrementAccesses.incrementWrites)).getSetIndex address) (((sys.caches.getD i default).sets.getD ((Cache.mk (sys.caches.getD i default).coreId (sys.caches.getD i default).setIndexBits (sys.caches.getD i default).blockOffsetBits (sys.caches.getD i default).associativity (sys.caches.getD i default).sets (sys.caches.getD i default).isBlocked (sys.caches.getD i default).blockedCycles ((sys.caches.getD i default).stats.incrementAccesses.incrementWrites)).getSetIndex address) default).updateLRU li))).length = n
            rw [List.length_set]
            exact hlen
          · intro j hj
            show CacheWF sb bob assoc j ((sys.caches.set i ((Cache.mk (sys.caches.getD i default).coreId (sys.caches.getD i default).setIndexBits (sys.caches.getD i default).blockOffsetBits (sys.caches.getD i default).associativity (sys.caches.getD i default).sets (sys.caches.getD i default).isBlocked (sys.caches.getD i default).blockedCycles ((sys.caches.getD i default).stats.incrementAccesses.incrementWrites)).putSet ((Cache.mk (sys.caches.getD i default).coreId (sys.caches.getD i default).setIndexBits (sys.caches.getD i default).blockOffsetBits (sys.caches.getD i default).associativity (sys.caches.getD i default).sets (sys.caches.getD i default).isBlocked (sys.caches.getD i default).blockedCycles ((sys.caches.getD i default).stats.incrementAccesses.incrementWrites)).getSetIndex address) (((sys.caches.getD i default).sets.getD ((Cache.mk (sys.caches.getD i default).coreId (sys.caches.getD i default).setIndexBits (sys.caches.getD i default).blockOffsetBits (sys.caches.getD i default).associativity (sys.caches.getD i default).sets (sys.caches.getD i default).isBlocked (sys.caches.getD i default).blockedCycles ((sys.caches.getD i default).stats.incrementAccesses.incrementWrites)).getSetIndex address) default).updateLRU li))).getD j default)
            by_cases hji : j = i
            · rw [hji, getD_set_self _ _ _ _ (by rw [hlen]; exact hi)]
              exact hwfC
            · rw [getD_set_ne _ _ _ _ _ (fun h => hji h.symm)]
              exact hwf j hj
        have hg1SI : ((Sys.mk (sys.caches.set i ((Cache.mk (sys.caches.getD i default).coreId (sys.caches.getD i default).setIndexBits (sys.caches.getD i default).blockOffsetBits (sys.caches.getD i default).associativity (sys.caches.getD i default).sets (sys.caches.getD i default).isBlocked (sys.caches.getD i default).blockedCycles ((sys.caches.getD i default).stats.incrementAccesses.incrementWrites)).putSet ((Cache.mk (sys.caches.getD i default).coreId (sys.caches.getD i default).setIndexBits (sys.caches.getD i default).blockOffsetBits (sys.caches.getD i default).associativity (sys.caches.getD i default).sets (sys.caches.getD i default).isBlocked (sys.caches.getD i default).blockedCycles ((sys.caches.getD i default).stats.incrementAccesses.incrementWrites)).getSetIndex address) (((sys.caches.getD i default).sets.getD ((Cache.mk (sys.caches.getD i default).coreId (sys.caches.getD i default).setIndexBits (sys.caches.getD i default).blockOffsetBits (sys.caches.getD i default).associativity (sys.caches.getD i default).sets (sys.caches.getD i default).isBlocked (sys.caches.getD i default).blockedCycles ((sys.caches.getD i default).stats.incrementAccesses.incrementWrites)).getSetIndex address) default).updateLRU li))) sys.bus) : Sys).caches.getD i default = ((Cache.mk (sys.caches.getD i default).coreId (sys.caches.getD i default).setIndexBits (sys.caches.getD i default).blockOffsetBits (sys.caches.getD i default).associativity (sys.caches.getD i default).sets (sys.caches.getD i default).isBlocked (sys.caches.getD i default).blockedCycles ((sys.caches.getD i default).stats.incrementAccesses.incrementWrites)).putSet ((Cache.mk (sys.caches.getD i default).coreId (sys.caches.getD i default).setIndexBits (sys.caches.getD i default).blockOffsetBits (sys.caches.getD i default).associativity (sys.caches.getD i default).sets (sys.caches.getD i default).isBlocked (sys.caches.getD i default).blockedCycles ((sys.caches.getD i default).stats.incrementAccesses.incrementWrites)).getSetIndex address) (((sys.caches.getD i default).sets.getD ((Cache.mk (sys.caches.getD i default).coreId (sys.caches.getD i default).setIndexBits (sys.caches.getD i default).blockOffsetBits (sys.caches.getD i default).associativity (sys.caches.getD i default).sets (sys.caches.getD i default).isBlocked (sys.caches.getD i default).blockedCycles ((sys.caches.getD i default).stats.incrementAccesses.incrementWrites)).getSetIndex address) default).updateLRU li)) :=
          getD_set_self _ _ _ _ (by rw [hlen]; exact hi)
        have hg1SJ : ∀ j, j ≠ i →
            ((Sys.mk (sys.caches.set i ((Cache.mk (sys.caches.getD i default).coreId (sys.caches.getD i default).setIndexBits (sys.caches.getD i default).blockOffsetBits (sys.caches.getD i default).associativity (sys.caches.getD i default).sets (sys.caches.getD i default).isBlocked (sys.caches.getD i default).blockedCycles ((sys.caches.getD i default).stats.incrementAccesses.incrementWrites)).putSet ((Cache.mk (sys.caches.getD i default).coreId (sys.caches.getD i default).setIndexBits (sys.caches.getD i default).blockOffsetBits (sys.caches.getD i default).associativity (sys.caches.getD i default).sets (sys.caches.getD i default).isBlocked (sys.caches.getD i default).blockedCycles ((sys.caches.getD i default).stats.incrementAccesses.incrementWrites)).getSetIndex address) (((sys.caches.getD i default).sets.getD ((Cache.mk (sys.caches.getD i default).coreId (sys.caches.getD i default).setIndexBits (sys.caches.getD i default).blockOffsetBits (sys.caches.getD i default).associativity (sys.caches.getD i default).sets (sys.caches.getD i default).isBlocked (sys.caches.getD i default).blockedCycles ((sys.caches.getD i default).stats.incrementAccesses.incrementWrites)).getSetIndex address) default).updateLRU li))) sys.bus) : Sys).caches.getD j default = sys.caches.getD j default :=
          fun j hj => getD_set_ne _ _ _ _ _ (fun h => hj h.symm)
        have hst1 : ∀ j, j < n → ∀ si tv,
            (((Sys.mk (sys.caches.set i ((Cache.mk (sys.caches.getD i default).coreId (sys.caches.getD i default).setIndexBits (sys.caches.getD i default).blockOffsetBits (sys.caches.getD i default).associativity (sys.caches.getD i default).sets (sys.caches.getD i default).isBlocked (sys.caches.getD i default).blockedCycles ((sys.caches.getD i default).stats.incrementAccesses.incrementWrites)).putSet ((Cache.mk (sys.caches.getD i default).coreId (sys.caches.getD i default).setIndexBits (sys.caches.getD i default).blockOffsetBits (sys.caches.getD i default).associativity (sys.caches.getD i default).sets (sys.caches.getD i default).isBlocked (sys.caches.getD i default).blockedCycles ((sys.caches.getD i default).stats.incrementAccesses.incrementWrites)).getSetIndex address) (((sys.caches.getD i default).sets.getD ((Cache.mk (sys.caches.getD i default).coreId (sys.caches.getD i default).setIndexBits (sys.caches.getD i default).blockOffsetBits (sys.caches.getD i default).associativity (sys.caches.getD i default).sets (sys.caches.getD i default).isBlocked (sys.caches.getD i default).blockedCycles ((sys.caches.getD i default).stats.incrementAccesses.incrementWrites)).getSetIndex address) default).updateLRU li))) sys.bus) : Sys).caches.getD j default).stateAt si tv
              = (sys.caches.getD j default).stateAt si tv := by
          intro j hj si tv
          by_cases hji : j = i
          · rw [hji, hg1SI]
            exact hst0 si tv
          · rw [hg1SJ j hji]
        obtain ⟨racc, rbusy, rpend, rlen, rgetI, rgetJ, rdp⟩ :=
          busOperation_spec n sb assoc bob (Sys.mk (sys.caches.set i ((Cache.mk (sys.caches.getD i default).coreId (sys.caches.getD i default).setIndexBits (sys.caches.getD i default).blockOffsetBits (sys.caches.getD i default).associativity (sys.caches.getD i default).sets (sys.caches.getD i default).isBlocked (sys.caches.getD i default).blockedCycles ((sys.caches.getD i default).stats.incrementAccesses.incrementWrites)).putSet ((Cache.mk (sys.caches.getD i default).coreId (sys.caches.getD i default).setIndexBits (sys.caches.getD i default).blockOffsetBits (sys.caches.getD i default).associativity (sys.caches.getD i default).sets (sys.caches.getD i default).isBlocked (sys.caches.getD i default).blockedCycles ((sys.caches.getD i default).stats.incrementAccesses.incrementWrites)).getSetIndex address) (((sys.caches.getD i default).sets.getD ((Cache.mk (sys.caches.getD i default).coreId (sys.caches.getD i default).setIndexBits (sys.caches.getD i default).blockOffsetBits (sys.caches.getD i default).associativity (sys.caches.getD i default).sets (sys.caches.getD i default).isBlocked (sys.caches.getD i default).blockedCycles ((sys.caches.getD i default).stats.incrementAccesses.incrementWrites)).getSetIndex address) default).updateLRU li))) sys.bus) hws1 BusOperation.BusUpgr address i
        obtain ⟨rstates, rdpf⟩ :=
          busOperation_stateAt n sb assoc bob (Sys.mk (sys.caches.set i ((Cache.mk (sys.caches.getD i default).coreId (sys.caches.getD i default).setIndexBits (sys.caches.getD i default).blockOffsetBits (sys.caches.getD i default).associativity (sys.caches.getD i default).sets (sys.caches.getD i default).isBlocked (sys.caches.getD i default).blockedCycles ((sys.caches.getD i default).stats.incrementAccesses.incrementWrites)).putSet ((Cache.mk (sys.caches.getD i default).coreId (sys.caches.getD i default).setIndexBits (sys.caches.getD i default).blockOffsetBits (sys.caches.getD i default).associativity (sys.caches.getD i default).sets (sys.caches.getD i default).isBlocked (sys.caches.getD i default).blockedCycles ((sys.caches.getD i default).stats.incrementAccesses.incrementWrites)).getSetIndex address) (((sys.caches.getD i default).sets.getD ((Cache.mk (sys.caches.getD i default).coreId (sys.caches.getD i default).setIndexBits (sys.caches.getD i default).blockOffsetBits (sys.caches.getD i default).associativity (sys.caches.getD i default).sets (sys.caches.getD i default).isBlocked (sys.caches.getD i default).blockedCycles ((sys.caches.getD i default).stats.incrementAccesses.incrementWrites)).getSetIndex address) default).updateLRU li))) sys.bus) hws1 BusOperation.BusUpgr address i hi
        have hwfR := busOperation_WF n sb assoc bob (Sys.mk (sys.caches.set i ((Cache.mk (sys.caches.getD i default).coreId (sys.caches.getD i default).setIndexBits (sys.caches.getD i default).blockOffsetBits (sys.caches.getD i default).associativity (sys.caches.getD i default).sets (sys.caches.getD i default).isBlocked (sys.caches.getD i default).blockedCycles ((sys.caches.getD i default).stats.incrementAccesses.incrementWrites)).putSet ((Cache.mk (sys.caches.getD i default).coreId (sys.caches.getD i default).setIndexBits (sys.caches.getD i default).blockOffsetBits (sys.caches.getD i default).associativity (sys.caches.getD i default).sets (sys.caches.getD i default).isBlocked (sys.caches.getD i default).blockedCycles ((sys.caches.getD i default).stats.incrementAccesses.incrementWrites)).getSetIndex address) (((sys.caches.getD i default).sets.getD ((Cache.mk (sys.caches.getD i default).coreId (sys.caches.getD i default).setIndexBits (sys.caches.getD i default).blockOffsetBits (sys.caches.getD i default).associativity (sys.caches.getD i default).sets (sys.caches.getD i default).isBlocked (sys.caches.getD i default).blockedCycles ((sys.caches.getD i default).stats.incrementAccesses.incrementWrites)).getSetIndex address) default).updateLRU li))) sys.bus) hws1 BusOperation.BusUpgr address i hi
        have hC2 : (((busOperation (Sys.mk (sys.caches.set i ((Cache.mk (sys.caches.getD i default).coreId (sys.caches.getD i default).setIndexBits (sys.caches.getD i default).blockOffsetBits (sys.caches.getD i default).associativity (sys.caches.getD i default).sets (sys.caches.getD i default).isBlocked (sys.caches.getD i default).blockedCycles ((sys.caches.getD i default).stats.incrementAccesses.incrementWrites)).putSet ((Cache.mk (sys.caches.getD i default).coreId (sys.caches.getD i default).setIndexBits (sys.caches.getD i default).blockOffsetBits (sys.caches.getD i default).associativity (sys.caches.getD i default).sets (sys.caches.getD i default).isBlocked (sys.caches.getD i default).blockedCycles ((sys.caches.getD i default).stats.incrementAccesses.incrementWrites)).getSetIndex address) (((sys.caches.getD i default).sets.getD ((Cache.mk (sys.caches.getD i default).coreId (sys.caches.getD i default).setIndexBits (sys.caches.getD i default).blockOffsetBits (sys.caches.getD i default).associativity (sys.caches.getD i default).sets (sys.caches.getD i default).isBlocked (sys.caches.getD i default).blockedCycles ((sys.caches.getD i default).stats.incrementAccesses.incrementWrites)).getSetIndex address) default).updateLRU li))) sys.bus) BusOperation.BusUpgr address i false 0).sys.caches.getD i default) : Cache) = ((Cache.mk (sys.caches.getD i default).coreId (sys.caches.getD i default).setIndexBits (sys.caches.getD i default).blockOffsetBits (sys.caches.getD i default).associativity (sys.caches.getD i default).sets (sys.caches.getD i default).isBlocked (sys.caches.getD i default).blockedCycles ((sys.caches.getD i default).stats.incrementAccesses.incrementWrites)).putSet ((Cache.mk (sys.caches.getD i default).coreId (sys.caches.getD i default).setIndexBits (sys.caches.getD i default).blockOffsetBits (sys.caches.getD i default).associativity (sys.caches.getD i default).sets (sys.caches.getD i default).isBlocked (sys.caches.getD i default).blockedCycles ((sys.caches.getD i default).stats.incrementAccesses.incrementWrites)).getSetIndex address) (((sys.caches.getD i default).sets.getD ((Cache.mk (sys.caches.getD i default).coreId (sys.caches.getD i default).setIndexBits (sys.caches.getD i default).blockOffsetBits (sys.caches.getD i default).associativity (sys.caches.getD i default).sets (sys.caches.getD i default).isBlocked (sys.caches.getD i default).blockedCycles ((sys.caches.getD i default).stats.incrementAccesses.incrementWrites)).getSetIndex address) default).updateLRU li)) := by
          rw [rgetI]
          exact hg1SI
        rw [hC2]
        obtain ⟨hwf3, hst3TA, hst3O⟩ := writeHitMut_spec sb bob assoc i ((Cache.mk (sys.caches.getD i default).coreId (sys.caches.getD i default).setIndexBits (sys.caches.getD i default).blockOffsetBits (sys.caches.getD i default).associativity (sys.caches.getD i default).sets (sys.caches.getD i default).isBlocked (sys.caches.getD i default).blockedCycles ((sys.caches.getD i default).stats.incrementAccesses.incrementWrites)).putSet ((Cache.mk (sys.caches.getD i default).coreId (sys.caches.getD i default).setIndexBits (sys.caches.getD i default).blockOffsetBits (sys.caches.getD i default).associativity (sys.caches.getD i default).sets (sys.caches.getD i default).isBlocked (sys.caches.getD i default).blockedCycles ((sys.caches.getD i default).stats.incrementAccesses.incrementWrites)).getSetIndex address) (((sys.caches.getD i default).sets.getD ((Cache.mk (sys.caches.getD i default).coreId (sys.caches.getD i default).setIndexBits (sys.caches.getD i default).blockOffsetBits (sys.caches.getD i default).associativity (sys.caches.getD i default).sets (sys.caches.getD i default).isBlocked (sys.caches.getD i default).blockedCycles ((sys.caches.getD i default).stats.incrementAccesses.incrementWrites)).getSetIndex address) default).updateLRU li)) address li
          hwfC hf2
        have hPreTA : ∀ j, j < n → j ≠ i →
            ((busOperation (Sys.mk (sys.caches.set i ((Cache.mk (sys.caches.getD i default).coreId (sys.caches.getD i default).setIndexBits (sys.caches.getD i default).blockOffsetBits (sys.caches.getD i default).associativity (sys.caches.getD i default).sets (sys.caches.getD i default).isBlocked (sys.caches.getD i default).blockedCycles ((sys.caches.getD i default).stats.incrementAccesses.incrementWrites)).putSet ((Cache.mk (sys.caches.getD i default).coreId (sys.caches.getD i default).setIndexBits (sys.caches.getD i default).blockOffsetBits (sys.caches.getD i default).associativity (sys.caches.getD i default).sets (sys.caches.getD i default).isBlocked (sys.caches.getD i default).blockedCycles ((sys.caches.getD i default).stats.incrementAccesses.incrementWrites)).getSetIndex address) (((sys.caches.getD i default).sets.getD ((Cache.mk (sys.caches.getD i default).coreId (sys.caches.getD i default).setIndexBits (sys.caches.getD i default).blockOffsetBits (sys.caches.getD i default).associativity (sys.caches.getD i default).sets (sys.caches.getD i default).isBlocked (sys.caches.getD i default).blockedCycles ((sys.caches.getD i default).stats.incrementAccesses.incrementWrites)).getSetIndex address) default).updateLRU li))) sys.bus) BusOperation.BusUpgr address i false 0).sys.caches.getD j default).stateAt (addrSetIdx sb bob address) (addrTag sb bob address)
              = snoopNext BusOperation.BusUpgr
                  ((sys.caches.getD j default).stateAt (addrSetIdx sb bob address) (addrTag sb bob address)) := by
          intro j hj hji
          rw [(rstates j hj hji).1, hst1 j hj]
        have hPreO : ∀ j, j < n → j ≠ i → ∀ si tv, (si ≠ (addrSetIdx sb bob address) ∨ tv ≠ (addrTag sb bob address)) →
            ((busOperation (Sys.mk (sys.caches.set i ((Cache.mk (sys.caches.getD i default).coreId (sys.caches.getD i default).setIndexBits (sys.caches.getD i default).blockOffsetBits (sys.caches.getD i default).associativity (sys.caches.getD i default).sets (sys.caches.getD i default).isBlocked (sys.caches.getD i default).blockedCycles ((sys.caches.getD i default).stats.incrementAccesses.incrementWrites)).putSet ((Cache.mk (sys.caches.getD i default).coreId (sys.caches.getD i default).setIndexBits (sys.caches.getD i default).blockOffsetBits (sys.caches.getD i default).associativity (sys.caches.getD i default).sets (sys.caches.getD i default).isBlocked (sys.caches.getD i default).blockedCycles ((sys.caches.getD i default).stats.incrementAccesses.incrementWrites)).getSetIndex address) (((sys.caches.getD i default).sets.getD ((Cache.mk (sys.caches.getD i default).coreId (sys.caches.getD i default).setIndexBits (sys.caches.getD i default).blockOffsetBits (sys.caches.getD i default).associativity (sys.caches.getD i default).sets (sys.caches.getD i default).isBlocked (sys.caches.getD i default).blockedCycles ((sys.caches.getD i default).stats.incrementAccesses.incrementWrites)).getSetIndex address) default).updateLRU li))) sys.bus) BusOperation.BusUpgr address i false 0).sys.caches.getD j default).stateAt si tv
              = (sys.caches.getD j default).stateAt si tv := by
          intro j hj hji si tv hne
          rw [(rstates j hj hji).2 si tv hne, hst1 j hj]
        have hgI : ((busOperation (Sys.mk (sys.caches.set i ((Cache.mk (sys.caches.getD i default).coreId (sys.caches.getD i default).setIndexBits (sys.caches.getD i default).blockOffsetBits (sys.caches.getD i default).associativity (sys.caches.getD i default).sets (sys.caches.getD i default).isBlocked (sys.caches.getD i default).blockedCycles ((sys.caches.getD i default).stats.incrementAccesses.incrementWrites)).putSet ((Cache.mk (sys.caches.getD i default).coreId (sys.caches.getD i default).setIndexBits (sys.caches.getD i default).blockOffsetBits (sys.caches.getD i default).associativity (sys.caches.getD i default).sets (sys.caches.getD i default).isBlocked (sys.caches.getD i default).blockedCycles ((sys.caches.getD i default).stats.incrementAccesses.incrementWrites)).getSetIndex address) (((sys.caches.getD i default).sets.getD ((Cache.mk (sys.caches.getD i default).coreId (sys.caches.getD i default).setIndexBits (sys.caches.getD i default).blockOffsetBits (sys.caches.getD i default).associativity (sys.caches.getD i default).sets (sys.caches.getD i default).isBlocked (sys.caches.getD i default).blockedCycles ((sys.caches.getD i default).stats.incrementAccesses.incrementWrites)).getSetIndex address) default).updateLRU li))) sys.bus) BusOperation.BusUpgr address i false 0).sys.caches.set i (((Cache.mk (sys.caches.getD i default).coreId (sys.caches.getD i default).setIndexBits (sys.caches.getD i default).blockOffsetBits (sys.caches.getD i default).associativity (sys.caches.getD i default).sets (sys.caches.getD i default).isBlocked (sys.caches.getD i default).blockedCycles ((sys.caches.getD i default).stats.incrementAccesses.incrementWrites)).putSet ((Cache.mk (sys.caches.getD i default).coreId (sys.caches.getD i default).setIndexBits (sys.caches.getD i default).blockOffsetBits (sys.caches.getD i default).associativity (sys.caches.getD i default).sets (sys.caches.getD i default).isBlocked (sys.caches.getD i default).blockedCycles ((sys.caches.getD i default).stats.incrementAccesses.incrementWrites)).getSetIndex address) (((sys.caches.getD i default).sets.getD ((Cache.mk (sys.caches.getD i default).coreId (sys.caches.getD i default).setIndexBits (sys.caches.getD i default).blockOffsetBits (sys.caches.getD i default).associativity (sys.caches.getD i default).sets (sys.caches.getD i default).isBlocked (sys.caches.getD i default).blockedCycles ((sys.caches.getD i default).stats.incrementAccesses.incrementWrites)).getSetIndex address) default).updateLRU li)).putSet (((Cache.mk (sys.caches.getD i default).coreId (sys.caches.getD i default).setIndexBits (sys.caches.getD i default).blockOffsetBits (sys.caches.getD i default).associativity (sys.caches.getD i default).sets (sys.caches.getD i default).isBlocked (sys.caches.getD i default).blockedCycles ((sys.caches.getD i default).stats.incrementAccesses.incrementWrites)).putSet ((Cache.mk (sys.caches.getD i default).coreId (sys.caches.getD i default).setIndexBits (sys.caches.getD i default).blockOffsetBits (sys.caches.getD i default).associativity (sys.caches.getD i default).sets (sys.caches.getD i default).isBlocked (sys.caches.getD i default).blockedCycles ((sys.caches.getD i default).stats.incrementAccesses.incrementWrites)).getSetIndex address) (((sys.caches.getD i default).sets.getD ((Cache.mk (sys.caches.getD i default).coreId (sys.caches.getD i default).setIndexBits (sys.caches.getD i default).blockOffsetBits (sys.caches.getD i default).associativity (sys.caches.getD i default).sets (sys.caches.getD i default).isBlocked (sys.caches.getD i default).blockedCycles ((sys.caches.getD i default).stats.incrementAccesses.incrementWrites)).getSetIndex address) default).updateLRU li)).getSetIndex address) ((((Cache.mk (sys.caches.getD i default).coreId (sys.caches.getD i default).setIndexBits (sys.caches.getD i default).blockOffsetBits (sys.caches.getD i default).associativity (sys.caches.getD i default).sets (sys.caches.getD i default).isBlocked (sys.caches.getD i default).blockedCycles ((sys.caches.getD i default).stats.incrementAccesses.incrementWrites)).putSet ((Cache.mk (sys.caches.getD i default).coreId (sys.caches.getD i default).setIndexBits (sys.caches.getD i default).blockOffsetBits (sys.caches.getD i default).associativity (sys.caches.getD i default).sets (sys.caches.getD i default).isBlocked (sys.caches.getD i default).blockedCycles ((sys.caches.getD i default).stats.incrementAccesses.incrementWrites)).getSetIndex address) (((sys.caches.getD i default).sets.getD ((Cache.mk (sys.caches.getD i default).coreId (sys.caches.getD i default).setIndexBits (sys.caches.getD i default).blockOffsetBits (sys.caches.getD i default).associativity (sys.caches.getD i default).sets (sys.caches.getD i default).isBlocked (sys.caches.getD i default).blockedCycles ((sys.caches.getD i default).stats.incrementAccesses.incrementWrites)).getSetIndex address) default).updateLRU li)).sets.getD (((Cache.mk (sys.caches.getD i default).coreId (sys.caches.getD i default).setIndexBits (sys.caches.getD i default).blockOffsetBits (sys.caches.getD i default).associativity (sys.caches.getD i default).sets (sys.caches.getD i default).isBlocked (sys.caches.getD i default).blockedCycles ((sys.caches.getD i default).stats.incrementAccesses.incrementWrites)).putSet ((Cache.mk (sys.caches.getD i default).coreId (sys.caches.getD i default).setIndexBits (sys.caches.getD i default).blockOffsetBits (sys.caches.getD i default).associativity (sys.caches.getD i default).sets (sys.caches.getD i default).isBlocked (sys.caches.getD i default).blockedCycles ((sys.caches.getD i default).stats.incrementAccesses.incrementWrites)).getSetIndex address) (((sys.caches.getD i default).sets.getD ((Cache.mk (sys.caches.getD i default).coreId (sys.caches.getD i default).setIndexBits (sys.caches.getD i default).blockOffsetBits (sys.caches.getD i default).associativity (sys.caches.getD i default).sets (sys.caches.getD i default).isBlocked (sys.caches.getD i default).blockedCycles ((sys.caches.getD i default).stats.incrementAccesses.incrementWrites)).getSetIndex address) default).updateLRU li)).getSetIndex address) default).setLineState li CacheState.MODIFIED))).getD i default = (((Cache.mk (sys.caches.getD i default).coreId (sys.caches.getD i default).setIndexBits (sys.caches.getD i default).blockOffsetBits (sys.caches.getD i default).associativity (sys.caches.getD i default).sets (sys.caches.getD i default).isBlocked (sys.caches.getD i default).blockedCycles ((sys.caches.getD i default).stats.incrementAccesses.incrementWrites)).putSet ((Cache.mk (sys.caches.getD i default).coreId (sys.caches.getD i default).setIndexBits (sys.caches.getD i default).blockOffsetBits (sys.caches.getD i default).associativity (sys.caches.getD i default).sets (sys.caches.getD i default).isBlocked (sys.caches.getD i default).blockedCycles ((sys.caches.getD i default).stats.incrementAccesses.incrementWrites)).getSetIndex address) (((sys.caches.getD i default).sets.getD ((Cache.mk (sys.caches.getD i default).coreId (sys.caches.getD i default).setIndexBits (sys.caches.getD i default).blockOffsetBits (sys.caches.getD i default).associativity (sys.caches.getD i default).sets (sys.caches.getD i default).isBlocked (sys.caches.getD i default).blockedCycles ((sys.caches.getD i default).stats.incrementAccesses.incrementWrites)).getSetIndex address) default).updateLRU li)).putSet (((Cache.mk (sys.caches.getD i default).coreId (sys.caches.getD i default).setIndexBits (sys.caches.getD i default).blockOffsetBits (sys.caches.getD i default).associativity (sys.caches.getD i default).sets (sys.caches.getD i default).isBlocked (sys.caches.getD i default).blockedCycles ((sys.caches.getD i default).stats.incrementAccesses.incrementWrites)).putSet ((Cache.mk (sys.caches.getD i default).coreId (sys.caches.getD i default).setIndexBits (sys.caches.getD i default).blockOffsetBits (sys.caches.getD i default).associativity (sys.caches.getD i default).sets (sys.caches.getD i default).isBlocked (sys.caches.getD i default).blockedCycles ((sys.caches.getD i default).stats.incrementAccesses.incrementWrites)).getSetIndex address) (((sys.caches.getD i default).sets.getD ((Cache.mk (sys.caches.getD i default).coreId (sys.caches.getD i default).setIndexBits (sys.caches.getD i default).blockOffsetBits (sys.caches.getD i default).associativity (sys.caches.getD i default).sets (sys.caches.getD i default).isBlocked (sys.caches.getD i default).blockedCycles ((sys.caches.getD i default).stats.incrementAccesses.incrementWrites)).getSetIndex address) default).updateLRU li)).getSetIndex address) ((((Cache.mk (sys.caches.getD i default).coreId (sys.caches.getD i default).setIndexBits (sys.caches.getD i default).blockOffsetBits (sys.caches.getD i default).associativity (sys.caches.getD i default).sets (sys.caches.getD i default).isBlocked (sys.caches.getD i default).blockedCycles ((sys.caches.getD i default).stats.incrementAccesses.incrementWrites)).putSet ((Cache.mk (sys.caches.getD i default).coreId (sys.caches.getD i default).setIndexBits (sys.caches.getD i default).blockOffsetBits (sys.caches.getD i default).associativity (sys.caches.getD i default).sets (sys.caches.getD i default).isBlocked (sys.caches.getD i default).blockedCycles ((sys.caches.getD i default).stats.incrementAccesses.incrementWrites)).getSetIndex address) (((sys.caches.getD i default).sets.getD ((Cache.mk (sys.caches.getD i default).coreId (sys.caches.getD i default).setIndexBits (sys.caches.getD i default).blockOffsetBits (sys.caches.getD i default).associativity (sys.caches.getD i default).sets (sys.caches.getD i default).isBlocked (sys.caches.getD i default).blockedCycles ((sys.caches.getD i default).stats.incrementAccesses.incrementWrites)).getSetIndex address) default).updateLRU li)).sets.getD (((Cache.mk (sys.caches.getD i default).coreId (sys.caches.getD i default).setIndexBits (sys.caches.getD i default).blockOffsetBits (sys.caches.getD i default).associativity (sys.caches.getD i default).sets (sys.caches.getD i default).isBlocked (sys.caches.getD i default).blockedCycles ((sys.caches.getD i default).stats.incrementAccesses.incrementWrites)).putSet ((Cache.mk (sys.caches.getD i default).coreId (sys.caches.getD i default).setIndexBits (sys.caches.getD i default).blockOffsetBits (sys.caches.getD i default).associativity (sys.caches.getD i default).sets (sys.caches.getD i default).isBlocked (sys.caches.getD i default).blockedCycles ((sys.caches.getD i default).stats.incrementAccesses.incrementWrites)).getSetIndex address) (((sys.caches.getD i default).sets.getD ((Cache.mk (sys.caches.getD i default).coreId (sys.caches.getD i default).setIndexBits (sys.caches.getD i default).blockOffsetBits (sys.caches.getD i default).associativity (sys.caches.getD i default).sets (sys.caches.getD i default).isBlocked (sys.caches.getD i default).blockedCycles ((sys.caches.getD i default).stats.incrementAccesses.incrementWrites)).getSetIndex address) default).updateLRU li)).getSetIndex address) default).setLineState li CacheState.MODIFIED)) :=
          getD_set_self _ _ _ _ (by rw [rlen]; exact hi)
        have hgJ : ∀ j, j ≠ i → ((busOperation (Sys.mk (sys.caches.set i ((Cache.mk (sys.caches.getD i default).coreId (sys.caches.getD i default).setIndexBits (sys.caches.getD i default).blockOffsetBits (sys.caches.getD i default).associativity (sys.caches.getD i default).sets (sys.caches.getD i default).isBlocked (sys.caches.getD i default).blockedCycles ((sys.caches.getD i default).stats.incrementAccesses.incrementWrites)).putSet ((Cache.mk (sys.caches.getD i default).coreId (sys.caches.getD i default).setIndexBits (sys.caches.getD i default).blockOffsetBits (sys.caches.getD i default).associativity (sys.caches.getD i default).sets (sys.caches.getD i default).isBlocked (sys.caches.getD i default).blockedCycles ((sys.caches.getD i default).stats.incrementAccesses.incrementWrites)).getSetIndex address) (((sys.caches.getD i default).sets.getD ((Cache.mk (sys.caches.getD i default).coreId (sys.caches.getD i default).setIndexBits (sys.caches.getD i default).blockOffsetBits (sys.caches.getD i default).associativity (sys.caches.getD i default).sets (sys.caches.getD i default).isBlocked (sys.caches.getD i default).blockedCycles ((sys.caches.getD i default).stats.incrementAccesses.incrementWrites)).getSetIndex address) default).updateLRU li))) sys.bus) BusOperation.BusUpgr address i false 0).sys.caches.set i (((Cache.mk (sys.caches.getD i default).coreId (sys.caches.getD i default).setIndexBits (sys.caches.getD i default).blockOffsetBits (sys.caches.getD i default).associativity (sys.caches.getD i default).sets (sys.caches.getD i default).isBlocked (sys.caches.getD i default).blockedCycles ((sys.caches.getD i default).stats.incrementAccesses.incrementWrites)).putSet ((Cache.mk (sys.caches.getD i default).coreId (sys.caches.getD i default).setIndexBits (sys.caches.getD i default).blockOffsetBits (sys.caches.getD i default).associativity (sys.caches.getD i default).sets (sys.caches.getD i default).isBlocked (sys.caches.getD i default).blockedCycles ((sys.caches.getD i default).stats.incrementAccesses.incrementWrites)).getSetIndex address) (((sys.caches.getD i default).sets.getD ((Cache.mk (sys.caches.getD i default).coreId (sys.caches.getD i default).setIndexBits (sys.caches.getD i default).blockOffsetBits (sys.caches.getD i default).associativity (sys.caches.getD i default).sets (sys.caches.getD i default).isBlocked (sys.caches.getD i default).blockedCycles ((sys.caches.getD i default).stats.incrementAccesses.incrementWrites)).getSetIndex address) default).updateLRU li)).putSet (((Cache.mk (sys.caches.getD i default).coreId (sys.caches.getD i default).setIndexBits (sys.caches.getD i default).blockOffsetBits (sys.caches.getD i default).associativity (sys.caches.getD i default).sets (sys.caches.getD i default).isBlocked (sys.caches.getD i default).blockedCycles ((sys.caches.getD i default).stats.incrementAccesses.incrementWrites)).putSet ((Cache.mk (sys.caches.getD i default).coreId (sys.caches.getD i default).setIndexBits (sys.caches.getD i default).blockOffsetBits (sys.caches.getD i default).associativity (sys.caches.getD i default).sets (sys.caches.getD i default).isBlocked (sys.caches.getD i default).blockedCycles ((sys.caches.getD i default).stats.incrementAccesses.incrementWrites)).getSetIndex address) (((sys.caches.getD i default).sets.getD ((Cache.mk (sys.caches.getD i default).coreId (sys.caches.getD i default).setIndexBits (sys.caches.getD i default).blockOffsetBits (sys.caches.getD i default).associativity (sys.caches.getD i default).sets (sys.caches.getD i default).isBlocked (sys.caches.getD i default).blockedCycles ((sys.caches.getD i default).stats.incrementAccesses.incrementWrites)).getSetIndex address) default).updateLRU li)).getSetIndex address) ((((Cache.mk (sys.caches.getD i default).coreId (sys.caches.getD i default).setIndexBits (sys.caches.getD i default).blockOffsetBits (sys.caches.getD i default).associativity (sys.caches.getD i default).sets (sys.caches.getD i default).isBlocked (sys.caches.getD i default).blockedCycles ((sys.caches.getD i default).stats.incrementAccesses.incrementWrites)).putSet ((Cache.mk (sys.caches.getD i default).coreId (sys.caches.getD i default).setIndexBits (sys.caches.getD i default).blockOffsetBits (sys.caches.getD i default).associativity (sys.caches.getD i default).sets (sys.caches.getD i default).isBlocked (sys.caches.getD i default).blockedCycles ((sys.caches.getD i default).stats.incrementAccesses.incrementWrites)).getSetIndex address) (((sys.caches.getD i default).sets.getD ((Cache.mk (sys.caches.getD i default).coreId (sys.caches.getD i default).setIndexBits (sys.caches.getD i default).blockOffsetBits (sys.caches.getD i default).associativity (sys.caches.getD i default).sets (sys.caches.getD i default).isBlocked (sys.caches.getD i default).blockedCycles ((sys.caches.getD i default).stats.incrementAccesses.incrementWrites)).getSetIndex address) default).updateLRU li)).sets.getD (((Cache.mk (sys.caches.getD i default).coreId (sys.caches.getD i default).setIndexBits (sys.caches.getD i default).blockOffsetBits (sys.caches.getD i default).associativity (sys.caches.getD i default).sets (sys.caches.getD i default).isBlocked (sys.caches.getD i default).blockedCycles ((sys.caches.getD i default).stats.incrementAccesses.incrementWrites)).putSet ((Cache.mk (sys.caches.getD i default).coreId (sys.caches.getD i default).setIndexBits (sys.caches.getD i default).blockOffsetBits (sys.caches.getD i default).associativity (sys.caches.getD i default).sets (sys.caches.getD i default).isBlocked (sys.caches.getD i default).blockedCycles ((sys.caches.getD i default).stats.incrementAccesses.incrementWrites)).getSetIndex address) (((sys.caches.getD i default).sets.getD ((Cache.mk (sys.caches.getD i default).coreId (sys.caches.getD i default).setIndexBits (sys.caches.getD i default).blockOffsetBits (sys.caches.getD i default).associativity (sys.caches.getD i default).sets (sys.caches.getD i default).isBlocked (sys.caches.getD i default).blockedCycles ((sys.caches.getD i default).stats.incrementAccesses.incrementWrites)).getSetIndex address) default).updateLRU li)).getSetIndex address) default).setLineState li CacheState.MODIFIED))).getD j default
            = (busOperation (Sys.mk (sys.caches.set i ((Cache.mk (sys.caches.getD i default).coreId (sys.caches.getD i default).setIndexBits (sys.caches.getD i default).blockOffsetBits (sys.caches.getD i default).associativity (sys.caches.getD i default).sets (sys.caches.getD i default).isBlocked (sys.caches.getD i default).blockedCycles ((sys.caches.getD i default).stats.incrementAccesses.incrementWrites)).putSet ((Cache.mk (sys.caches.getD i default).coreId (sys.caches.getD i default).setIndexBits (sys.caches.getD i default).blockOffsetBits (sys.caches.getD i default).associativity (sys.caches.getD i default).sets (sys.caches.getD i default).isBlocked (sys.caches.getD i default).blockedCycles ((sys.caches.getD i default).stats.incrementAccesses.incrementWrites)).getSetIndex address) (((sys.caches.getD i default).sets.getD ((Cache.mk (sys.caches.getD i default).coreId (sys.caches.getD i default).setIndexBits (sys.caches.getD i default).blockOffsetBits (sys.caches.getD i default).associativity (sys.caches.getD i default).sets (sys.caches.getD i default).isBlocked (sys.caches.getD i default).blockedCycles ((sys.caches.getD i default).stats.incrementAccesses.incrementWrites)).getSetIndex address) default).updateLRU li))) sys.bus) BusOperation.BusUpgr address i false 0).sys.caches.getD j default :=
          fun j hj => getD_set_ne _ _ _ _ _ (fun h => hj h.symm)
        refine ⟨⟨?_, ?_, rbusy, rpend⟩, ?_⟩
        · show ((busOperation (Sys.mk (sys.caches.set i ((Cache.mk (sys.caches.getD i default).coreId (sys.caches.getD i default).setIndexBits (sys.caches.getD i default).blockOffsetBits (sys.caches.getD i default).associativity (sys.caches.getD i default).sets (sys.caches.getD i default).isBlocked (sys.caches.getD i default).blockedCycles ((sys.caches.getD i default).stats.incrementAccesses.incrementWrites)).putSet ((Cache.mk (sys.caches.getD i default).coreId (sys.caches.getD i default).setIndexBits (sys.caches.getD i default).blockOffsetBits (sys.caches.getD i default).associativity (sys.caches.getD i default).sets (sys.caches.getD i default).isBlocked (sys.caches.getD i default).blockedCycles ((sys.caches.getD i default).stats.incrementAccesses.incrementWrites)).getSetIndex address) (((sys.caches.getD i default).sets.getD ((Cache.mk (sys.caches.getD i default).coreId (sys.caches.getD i default).setIndexBits (sys.caches.getD i default).blockOffsetBits (sys.caches.getD i default).associativity (sys.caches.getD i default).sets (sys.caches.getD i default).isBlocked (sys.caches.getD i default).blockedCycles ((sys.caches.getD i default).stats.incrementAccesses.incrementWrites)).getSetIndex address) default).updateLRU li))) sys.bus) BusOperation.BusUpgr address i false 0).sys.caches.set i (((Cache.mk (sys.caches.getD i default).coreId (sys.caches.getD i default).setIndexBits (sys.caches.getD i default).blockOffsetBits (sys.caches.getD i default).associativity (sys.caches.getD i default).sets (sys.caches.getD i default).isBlocked (sys.caches.getD i default).blockedCycles ((sys.caches.getD i default).stats.incrementAccesses.incrementWrites)).putSet ((Cache.mk (sys.caches.getD i default).coreId (sys.caches.getD i default).setIndexBits (sys.caches.getD i default).blockOffsetBits (sys.caches.getD i default).associativity (sys.caches.getD i default).sets (sys.caches.getD i default).isBlocked (sys.caches.getD i default).blockedCycles ((sys.caches.getD i default).stats.incrementAccesses.incrementWrites)).getSetIndex address) (((sys.caches.getD i default).sets.getD ((Cache.mk (sys.caches.getD i default).coreId (sys.caches.getD i default).setIndexBits (sys.caches.getD i default).blockOffsetBits (sys.caches.getD i default).associativity (sys.caches.getD i default).sets (sys.caches.getD i default).isBlocked (sys.caches.getD i default).blockedCycles ((sys.caches.getD i default).stats.incrementAccesses.incrementWrites)).getSetIndex address) default).updateLRU li)).putSet (((Cache.mk (sys.caches.getD i default).coreId (sys.caches.getD i default).setIndexBits (sys.caches.getD i default).blockOffsetBits (sys.caches.getD i default).associativity (sys.caches.getD i default).sets (sys.caches.getD i default).isBlocked (sys.caches.getD i default).blockedCycles ((sys.caches.getD i default).stats.incrementAccesses.incrementWrites)).putSet ((Cache.mk (sys.caches.getD i default).coreId (sys.caches.getD i default).setIndexBits (sys.caches.getD i default).blockOffsetBits (sys.caches.getD i default).associativity (sys.caches.getD i default).sets (sys.caches.getD i default).isBlocked (sys.caches.getD i default).blockedCycles ((sys.caches.getD i default).stats.incrementAccesses.incrementWrites)).getSetIndex address) (((sys.caches.getD i default).sets.getD ((Cache.mk (sys.caches.getD i default).coreId (sys.caches.getD i default).setIndexBits (sys.caches.getD i default).blockOffsetBits (sys.caches.getD i default).associativity (sys.caches.getD i default).sets (sys.caches.getD i default).isBlocked (sys.caches.getD i default).blockedCycles ((sys.caches.getD i default).stats.incrementAccesses.incrementWrites)).getSetIndex address) default).updateLRU li)).getSetIndex address) ((((Cache.mk (sys.caches.getD i default).coreId (sys.caches.getD i default).setIndexBits (sys.caches.getD i default).blockOffsetBits (sys.caches.getD i default).associativity (sys.caches.getD i default).sets (sys.caches.getD i default).isBlocked (sys.caches.getD i default).blockedCycles ((sys.caches.getD i default).stats.incrementAccesses.incrementWrites)).putSet ((Cache.mk (sys.caches.getD i default).coreId (sys.caches.getD i default).setIndexBits (sys.caches.getD i default).blockOffsetBits (sys.caches.getD i default).associativity (sys.caches.getD i default).sets (sys.caches.getD i default).isBlocked (sys.caches.getD i default).blockedCycles ((sys.caches.getD i default).stats.incrementAccesses.incrementWrites)).getSetIndex address) (((sys.caches.getD i default).sets.getD ((Cache.mk (sys.caches.getD i default).coreId (sys.caches.getD i default).setIndexBits (sys.caches.getD i default).blockOffsetBits (sys.caches.getD i default).associativity (sys.caches.getD i default).sets (sys.caches.getD i default).isBlocked (sys.caches.getD i default).blockedCycles ((sys.caches.getD i default).stats.incrementAccesses.incrementWrites)).getSetIndex address) default).updateLRU li)).sets.getD (((Cache.mk (sys.caches.getD i default).coreId (sys.caches.getD i default).setIndexBits (sys.caches.getD i default).blockOffsetBits (sys.caches.getD i default).associativity (sys.caches.getD i default).sets (sys.caches.getD i default).isBlocked (sys.caches.getD i default).blockedCycles ((sys.caches.getD i default).stats.incrementAccesses.incrementWrites)).putSet ((Cache.mk (sys.caches.getD i default).coreId (sys.caches.getD i default).setIndexBits (sys.caches.getD i default).blockOffsetBits (sys.caches.getD i default).associativity (sys.caches.getD i default).sets (sys.caches.getD i default).isBlocked (sys.caches.getD i default).blockedCycles ((sys.caches.getD i default).stats.incrementAccesses.incrementWrites)).getSetIndex address) (((sys.caches.getD i default).sets.getD ((Cache.mk (sys.caches.getD i default).coreId (sys.caches.getD i default).setIndexBits (sys.caches.getD i default).blockOffsetBits (sys.caches.getD i default).associativity (sys.caches.getD i default).sets (sys.caches.getD i default).isBlocked (sys.caches.getD i default).blockedCycles ((sys.caches.getD i default).stats.incrementAccesses.incrementWrites)).getSetIndex address) default).updateLRU li)).getSetIndex address) default).setLineState li CacheState.MODIFIED))).length = n
          rw [List.length_set]
          exact rlen
        · intro j hj
          show CacheWF sb bob assoc j (((busOperation (Sys.mk (sys.caches.set i ((Cache.mk (sys.caches.getD i default).coreId (sys.caches.getD i default).setIndexBits (sys.caches.getD i default).blockOffsetBits (sys.caches.getD i default).associativity (sys.caches.getD i default).sets (sys.caches.getD i default).isBlocked (sys.caches.getD i default).blockedCycles ((sys.caches.getD i default).stats.incrementAccesses.incrementWrites)).putSet ((Cache.mk (sys.caches.getD i default).coreId (sys.caches.getD i default).setIndexBits (sys.caches.getD i default).blockOffsetBits (sys.caches.getD i default).associativity (sys.caches.getD i default).sets (sys.caches.getD i default).isBlocked (sys.caches.getD i default).blockedCycles ((sys.caches.getD i default).stats.incrementAccesses.incrementWrites)).getSetIndex address) (((sys.caches.getD i default).sets.getD ((Cache.mk (sys.caches.getD i default).coreId (sys.caches.getD i default).setIndexBits (sys.caches.getD i default).blockOffsetBits (sys.caches.getD i default).associativity (sys.caches.getD i default).sets (sys.caches.getD i default).isBlocked (sys.caches.getD i default).blockedCycles ((sys.caches.getD i default).stats.incrementAccesses.incrementWrites)).getSetIndex address) default).updateLRU li))) sys.bus) BusOperation.BusUpgr address i false 0).sys.caches.set i (((Cache.mk (sys.caches.getD i default).coreId (sys.caches.getD i default).setIndexBits (sys.caches.getD i default).blockOffsetBits (sys.caches.getD i default).associativity (sys.caches.getD i default).sets (sys.caches.getD i default).isBlocked (sys.caches.getD i default).blockedCycles ((sys.caches.getD i default).stats.incrementAccesses.incrementWrites)).putSet ((Cache.mk (sys.caches.getD i default).coreId (sys.caches.getD i default).setIndexBits (sys.caches.getD i default).blockOffsetBits (sys.caches.getD i default).associativity (sys.caches.getD i default).sets (sys.caches.getD i default).isBlocked (sys.caches.getD i default).blockedCycles ((sys.caches.getD i default).stats.incrementAccesses.incrementWrites)).getSetIndex address) (((sys.caches.getD i default).sets.getD ((Cache.mk (sys.caches.getD i default).coreId (sys.caches.getD i default).setIndexBits (sys.caches.getD i default).blockOffsetBits (sys.caches.getD i default).associativity (sys.caches.getD i default).sets (sys.caches.getD i default).isBlocked (sys.caches.getD i default).blockedCycles ((sys.caches.getD i default).stats.incrementAccesses.incrementWrites)).getSetIndex address) default).updateLRU li)).putSet (((Cache.mk (sys.caches.getD i default).coreId (sys.caches.getD i default).setIndexBits (sys.caches.getD i default).blockOffsetBits (sys.caches.getD i default).associativity (sys.caches.getD i default).sets (sys.caches.getD i default).isBlocked (sys.caches.getD i default).blockedCycles ((sys.caches.getD i default).stats.incrementAccesses.incrementWrites)).putSet ((Cache.mk (sys.caches.getD i default).coreId (sys.caches.getD i default).setIndexBits (sys.caches.getD i default).blockOffsetBits (sys.caches.getD i default).associativity (sys.caches.getD i default).sets (sys.caches.getD i default).isBlocked (sys.caches.getD i default).blockedCycles ((sys.caches.getD i default).stats.incrementAccesses.incrementWrites)).getSetIndex address) (((sys.caches.getD i default).sets.getD ((Cache.mk (sys.caches.getD i default).coreId (sys.caches.getD i default).setIndexBits (sys.caches.getD i default).blockOffsetBits (sys.caches.getD i default).associativity (sys.caches.getD i default).sets (sys.caches.getD i default).isBlocked (sys.caches.getD i default).blockedCycles ((sys.caches.getD i default).stats.incrementAccesses.incrementWrites)).getSetIndex address) default).updateLRU li)).getSetIndex address) ((((Cache.mk (sys.caches.getD i default).coreId (sys.caches.getD i default).setIndexBits (sys.caches.getD i default).blockOffsetBits (sys.caches.getD i default).associativity (sys.caches.getD i default).sets (sys.caches.getD i default).isBlocked (sys.caches.getD i default).blockedCycles ((sys.caches.getD i default).stats.incrementAccesses.incrementWrites)).putSet ((Cache.mk (sys.caches.getD i default).coreId (sys.caches.getD i default).setIndexBits (sys.caches.getD i default).blockOffsetBits (sys.caches.getD i default).associativity (sys.caches.getD i default).sets (sys.caches.getD i default).isBlocked (sys.caches.getD i default).blockedCycles ((sys.caches.getD i default).stats.incrementAccesses.incrementWrites)).getSetIndex address) (((sys.caches.getD i default).sets.getD ((Cache.mk (sys.caches.getD i default).coreId (sys.caches.getD i default).setIndexBits (sys.caches.getD i default).blockOffsetBits (sys.caches.getD i default).associativity (sys.caches.getD i default).sets (sys.caches.getD i default).isBlocked (sys.caches.getD i default).blockedCycles ((sys.caches.getD i default).stats.incrementAccesses.incrementWrites)).getSetIndex address) default).updateLRU li)).sets.getD (((Cache.mk (sys.caches.getD i default).coreId (sys.caches.getD i default).setIndexBits (sys.caches.getD i default).blockOffsetBits (sys.caches.getD i default).associativity (sys.caches.getD i default).sets (sys.caches.getD i default).isBlocked (sys.caches.getD i default).blockedCycles ((sys.caches.getD i default).stats.incrementAccesses.incrementWrites)).putSet ((Cache.mk (sys.caches.getD i default).coreId (sys.caches.getD i default).setIndexBits (sys.caches.getD i default).blockOffsetBits (sys.caches.getD i default).associativity (sys.caches.getD i default).sets (sys.caches.getD i default).isBlocked (sys.caches.getD i default).blockedCycles ((sys.caches.getD i default).stats.incrementAccesses.incrementWrites)).getSetIndex address) (((sys.caches.getD i default).sets.getD ((Cache.mk (sys.caches.getD i default).coreId (sys.caches.getD i default).setIndexBits (sys.caches.getD i default).blockOffsetBits (sys.caches.getD i default).associativity (sys.caches.getD i default).sets (sys.caches.getD i default).isBlocked (sys.caches.getD i default).blockedCycles ((sys.caches.getD i default).stats.incrementAccesses.incrementWrites)).getSetIndex address) default).updateLRU li)).getSetIndex address) default).setLineState li CacheState.MODIFIED))).getD j default)
          by_cases hji : j = i
          · rw [hji, hgI]
            exact hwf3
          · rw [hgJ j hji]
            exact hwfR.2.1 j hj
        · show MesiOK n ((busOperation (Sys.mk (sys.caches.set i ((Cache.mk (sys.caches.getD i default).coreId (sys.caches.getD i default).setIndexBits (sys.caches.getD i default).blockOffsetBits (sys.caches.getD i default).associativity (sys.caches.getD i default).sets (sys.caches.getD i default).isBlocked (sys.caches.getD i default).blockedCycles ((sys.caches.getD i default).stats.incrementAccesses.incrementWrites)).putSet ((Cache.mk (sys.caches.getD i default).coreId (sys.caches.getD i default).setIndexBits (sys.caches.getD i default).blockOffsetBits (sys.caches.getD i default).associativity (sys.caches.getD i default).sets (sys.caches.getD i default).isBlocked (sys.caches.getD i default).blockedCycles ((sys.caches.getD i default).stats.incrementAccesses.incrementWrites)).getSetIndex address) (((sys.caches.getD i default).sets.getD ((Cache.mk (sys.caches.getD i default).coreId (sys.caches.getD i default).setIndexBits (sys.caches.getD i default).blockOffsetBits (sys.caches.getD i default).associativity (sys.caches.getD i default).sets (sys.caches.getD i default).isBlocked (sys.caches.getD i default).blockedCycles ((sys.caches.getD i default).stats.incrementAccesses.incrementWrites)).getSetIndex address) default).updateLRU li))) sys.bus) BusOperation.BusUpgr address i false 0).sys.caches.set i (((Cache.mk (sys.caches.getD i default).coreId (sys.caches.getD i default).setIndexBits (sys.caches.getD i default).blockOffsetBits (sys.caches.getD i default).associativity (sys.caches.getD i default).sets (sys.caches.getD i default).isBlocked (sys.caches.getD i default).blockedCycles ((sys.caches.getD i default).stats.incrementAccesses.incrementWrites)).putSet ((Cache.mk (sys.caches.getD i default).coreId (sys.caches.getD i default).setIndexBits (sys.caches.getD i default).blockOffsetBits (sys.caches.getD i default).associativity (sys.caches.getD i default).sets (sys.caches.getD i default).isBlocked (sys.caches.getD i default).blockedCycles ((sys.caches.getD i default).stats.incrementAccesses.incrementWrites)).getSetIndex address) (((sys.caches.getD i default).sets.getD ((Cache.mk (sys.caches.getD i default).coreId (sys.caches.getD i default).setIndexBits (sys.caches.getD i default).blockOffsetBits (sys.caches.getD i default).associativity (sys.caches.getD i default).sets (sys.caches.getD i default).isBlocked (sys.caches.getD i default).blockedCycles ((sys.caches.getD i default).stats.incrementAccesses.incrementWrites)).getSetIndex address) default).updateLRU li)).putSet (((Cache.mk (sys.caches.getD i default).coreId (sys.caches.getD i default).setIndexBits (sys.caches.getD i default).blockOffsetBits (sys.caches.getD i default).associativity (sys.caches.getD i default).sets (sys.caches.getD i default).isBlocked (sys.caches.getD i default).blockedCycles ((sys.caches.getD i default).stats.incrementAccesses.incrementWrites)).putSet ((Cache.mk (sys.caches.getD i default).coreId (sys.caches.getD i default).setIndexBits (sys.caches.getD i default).blockOffsetBits (sys.caches.getD i default).associativity (sys.caches.getD i default).sets (sys.caches.getD i default).isBlocked (sys.caches.getD i default).blockedCycles ((sys.caches.getD i default).stats.incrementAccesses.incrementWrites)).getSetIndex address) (((sys.caches.getD i default).sets.getD ((Cache.mk (sys.caches.getD i default).coreId (sys.caches.getD i default).setIndexBits (sys.caches.getD i default).blockOffsetBits (sys.caches.getD i default).associativity (sys.caches.getD i default).sets (sys.caches.getD i default).isBlocked (sys.caches.getD i default).blockedCycles ((sys.caches.getD i default).stats.incrementAccesses.incrementWrites)).getSetIndex address) default).updateLRU li)).getSetIndex address) ((((Cache.mk (sys.caches.getD i default).coreId (sys.caches.getD i default).setIndexBits (sys.caches.getD i default).blockOffsetBits (sys.caches.getD i default).associativity (sys.caches.getD i default).sets (sys.caches.getD i default).isBlocked (sys.caches.getD i default).blockedCycles ((sys.caches.getD i default).stats.incrementAccesses.incrementWrites)).putSet ((Cache.mk (sys.caches.getD i default).coreId (sys.caches.getD i default).setIndexBits (sys.caches.getD i default).blockOffsetBits (sys.caches.getD i default).associativity (sys.caches.getD i default).sets (sys.caches.getD i default).isBlocked (sys.caches.getD i default).blockedCycles ((sys.caches.getD i default).stats.incrementAccesses.incrementWrites)).getSetIndex address) (((sys.caches.getD i default).sets.getD ((Cache.mk (sys.caches.getD i default).coreId (sys.caches.getD i default).setIndexBits (sys.caches.getD i default).blockOffsetBits (sys.caches.getD i default).associativity (sys.caches.getD i default).sets (sys.caches.getD i default).isBlocked (sys.caches.getD i default).blockedCycles ((sys.caches.getD i default).stats.incrementAccesses.incrementWrites)).getSetIndex address) default).updateLRU li)).sets.getD (((Cache.mk (sys.caches.getD i default).coreId (sys.caches.getD i default).setIndexBits (sys.caches.getD i default).blockOffsetBits (sys.caches.getD i default).associativity (sys.caches.getD i default).sets (sys.caches.getD i default).isBlocked (sys.caches.getD i default).blockedCycles ((sys.caches.getD i default).stats.incrementAccesses.incrementWrites)).putSet ((Cache.mk (sys.caches.getD i default).coreId (sys.caches.getD i default).setIndexBits (sys.caches.getD i default).blockOffsetBits (sys.caches.getD i default).associativity (sys.caches.getD i default).sets (sys.caches.getD i default).isBlocked (sys.caches.getD i default).blockedCycles ((sys.caches.getD i default).stats.incrementAccesses.incrementWrites)).getSetIndex address) (((sys.caches.getD i default).sets.getD ((Cache.mk (sys.caches.getD i default).coreId (sys.caches.getD i default).setIndexBits (sys.caches.getD i default).blockOffsetBits (sys.caches.getD i default).associativity (sys.caches.getD i default).sets (sys.caches.getD i default).isBlocked (sys.caches.getD i default).blockedCycles ((sys.caches.getD i default).stats.incrementAccesses.incrementWrites)).getSetIndex address) default).updateLRU li)).getSetIndex address) default).setLineState li CacheState.MODIFIED)))
          intro si tv a b ha hb hab hME
          by_cases hTA2 : si = (addrSetIdx sb bob address) ∧ tv = (addrTag sb bob address)
          · obtain ⟨h1, h2⟩ := hTA2
            subst h1
            subst h2
            by_cases hbi : b = i
            · exfalso
              have hai : a ≠ i := by rw [← hbi]; exact hab
              rw [hgJ a hai, hPreTA a ha hai, snoopNext_BusUpgr_eq_INVALID] at hME
              rcases hME with h | h
              · cases h
              · cases h
            · rw [hgJ b hbi, hPreTA b hb hbi, snoopNext_BusUpgr_eq_INVALID]
          · have hne := not_and_or.mp hTA2
            have hstF : ∀ j, j < n →
                ((((busOperation (Sys.mk (sys.caches.set i ((Cache.mk (sys.caches.getD i default).coreId (sys.caches.getD i default).setIndexBits (sys.caches.getD i default).blockOffsetBits (sys.caches.getD i default).associativity (sys.caches.getD i default).sets (sys.caches.getD i default).isBlocked (sys.caches.getD i default).blockedCycles ((sys.caches.getD i default).stats.incrementAccesses.incrementWrites)).putSet ((Cache.mk (sys.caches.getD i default).coreId (sys.caches.getD i default).setIndexBits (sys.caches.getD i default).blockOffsetBits (sys.caches.getD i default).associativity (sys.caches.getD i default).sets (sys.caches.getD i default).isBlocked (sys.caches.getD i default).blockedCycles ((sys.caches.getD i default).stats.incrementAccesses.incrementWrites)).getSetIndex address) (((sys.caches.getD i default).sets.getD ((Cache.mk (sys.caches.getD i default).coreId (sys.caches.getD i default).setIndexBits (sys.caches.getD i default).blockOffsetBits (sys.caches.getD i default).associativity (sys.caches.getD i default).sets (sys.caches.getD i default).isBlocked (sys.caches.getD i default).blockedCycles ((sys.caches.getD i default).stats.incrementAccesses.incrementWrites)).getSetIndex address) default).updateLRU li))) sys.bus) BusOperation.BusUpgr address i false 0).sys.caches.set i (((Cache.mk (sys.caches.getD i default).coreId (sys.caches.getD i default).setIndexBits (sys.caches.getD i default).blockOffsetBits (sys.caches.getD i default).associativity (sys.caches.getD i default).sets (sys.caches.getD i default).isBlocked (sys.caches.getD i default).blockedCycles ((sys.caches.getD i default).stats.incrementAccesses.incrementWrites)).putSet ((Cache.mk (sys.caches.getD i default).coreId (sys.caches.getD i default).setIndexBits (sys.caches.getD i default).blockOffsetBits (sys.caches.getD i default).associativity (sys.caches.getD i default).sets (sys.caches.getD i default).isBlocked (sys.caches.getD i default).blockedCycles ((sys.caches.getD i default).stats.incrementAccesses.incrementWrites)).getSetIndex address) (((sys.caches.getD i default).sets.getD ((Cache.mk (sys.caches.getD i default).coreId (sys.caches.getD i default).setIndexBits (sys.caches.getD i default).blockOffsetBits (sys.caches.getD i default).associativity (sys.caches.getD i default).sets (sys.caches.getD i default).isBlocked (sys.caches.getD i default).blockedCycles ((sys.caches.getD i default).stats.incrementAccesses.incrementWrites)).getSetIndex address) default).updateLRU li)).putSet (((Cache.mk (sys.caches.getD i default).coreId (sys.caches.getD i default).setIndexBits (sys.caches.getD i default).blockOffsetBits (sys.caches.getD i default).associativity (sys.caches.getD i default).sets (sys.caches.getD i default).isBlocked (sys.caches.getD i default).blockedCycles ((sys.caches.getD i default).stats.incrementAccesses.incrementWrites)).putSet ((Cache.mk (sys.caches.getD i default).coreId (sys.caches.getD i default).setIndexBits (sys.caches.getD i default).blockOffsetBits (sys.caches.getD i default).associativity (sys.caches.getD i default).sets (sys.caches.getD i default).isBlocked (sys.caches.getD i default).blockedCycles ((sys.caches.getD i default).stats.incrementAccesses.incrementWrites)).getSetIndex address) (((sys.caches.getD i default).sets.getD ((Cache.mk (sys.caches.getD i default).coreId (sys.caches.getD i default).setIndexBits (sys.caches.getD i default).blockOffsetBits (sys.caches.getD i default).associativity (sys.caches.getD i default).sets (sys.caches.getD i default).isBlocked (sys.caches.getD i default).blockedCycles ((sys.caches.getD i default).stats.incrementAccesses.incrementWrites)).getSetIndex address) default).updateLRU li)).getSetIndex address) ((((Cache.mk (sys.caches.getD i default).coreId (sys.caches.getD i default).setIndexBits (sys.caches.getD i default).blockOffsetBits (sys.caches.getD i default).associativity (sys.caches.getD i default).sets (sys.caches.getD i default).isBlocked (sys.caches.getD i default).blockedCycles ((sys.caches.getD i default).stats.incrementAccesses.incrementWrites)).putSet ((Cache.mk (sys.caches.getD i default).coreId (sys.caches.getD i default).setIndexBits (sys.caches.getD i default).blockOffsetBits (sys.caches.getD i default).associativity (sys.caches.getD i default).sets (sys.caches.getD i default).isBlocked (sys.caches.getD i default).blockedCycles ((sys.caches.getD i default).stats.incrementAccesses.incrementWrites)).getSetIndex address) (((sys.caches.getD i default).sets.getD ((Cache.mk (sys.caches.getD i default).coreId (sys.caches.getD i default).setIndexBits (sys.caches.getD i default).blockOffsetBits (sys.caches.getD i default).associativity (sys.caches.getD i default).sets (sys.caches.getD i default).isBlocked (sys.caches.getD i default).blockedCycles ((sys.caches.getD i default).stats.incrementAccesses.incrementWrites)).getSetIndex address) default).updateLRU li)).sets.getD (((Cache.mk (sys.caches.getD i default).coreId (sys.caches.getD i default).setIndexBits (sys.caches.getD i default).blockOffsetBits (sys.caches.getD i default).associativity (sys.caches.getD i default).sets (sys.caches.getD i default).isBlocked (sys.caches.getD i default).blockedCycles ((sys.caches.getD i default).stats.incrementAccesses.incrementWrites)).putSet ((Cache.mk (sys.caches.getD i default).coreId (sys.caches.getD i default).setIndexBits (sys.caches.getD i default).blockOffsetBits (sys.caches.getD i default).associativity (sys.caches.getD i default).sets (sys.caches.getD i default).isBlocked (sys.caches.getD i default).blockedCycles ((sys.caches.getD i default).stats.incrementAccesses.incrementWrites)).getSetIndex address) (((sys.caches.getD i default).sets.getD ((Cache.mk (sys.caches.getD i default).coreId (sys.caches.getD i default).setIndexBits (sys.caches.getD i default).blockOffsetBits (sys.caches.getD i default).associativity (sys.caches.getD i default).sets (sys.caches.getD i default).isBlocked (sys.caches.getD i default).blockedCycles ((sys.caches.getD i default).stats.incrementAccesses.incrementWrites)).getSetIndex address) default).updateLRU li)).getSetIndex address) default).setLineState li CacheState.MODIFIED)))).getD j default).stateAt si tv
                  = (sys.caches.getD j default).stateAt si tv := by
              intro j hj
              by_cases hji : j = i
              · rw [hji, hgI, hst3O si tv hne, hst0]
              · rw [hgJ j hji, hPreO j hj hji si tv hne]
            rw [hstF b hb]
            rw [hstF a ha] at hME
            exact hmesi si tv a b ha hb hab hME
    | none =>
      rw [cacheWrite_eq_miss sys i address cycles hbl hfl hcore]
      have hws1 : SysWF n sb assoc bob ((Sys.mk (sys.caches.set i (Cache.mk (sys.caches.getD i default).coreId (sys.caches.getD i default).setIndexBits (sys.caches.getD i default).blockOffsetBits (sys.caches.getD i default).associativity (sys.caches.getD i default).sets true (sys.caches.getD i default).blockedCycles ((sys.caches.getD i default).stats.incrementAccesses.incrementWrites.incrementWriteMisses))) sys.bus) : Sys) := by
        refine ⟨?_, ?_, hbusy, hpend⟩
        · show (sys.caches.set i (Cache.mk (sys.caches.getD i default).coreId (sys.caches.getD i default).setIndexBits (sys.caches.getD i default).blockOffsetBits (sys.caches.getD i default).associativity (sys.caches.getD i default).sets true (sys.caches.getD i default).blockedCycles ((sys.caches.getD i default).stats.incrementAccesses.incrementWrites.incrementWriteMisses))).length = n
          rw [List.length_set]
          exact hlen
        · intro j hj
          show CacheWF sb bob assoc j ((sys.caches.set i (Cache.mk (sys.caches.getD i default).coreId (sys.caches.getD i default).setIndexBits (sys.caches.getD i default).blockOffsetBits (sys.caches.getD i default).associativity (sys.caches.getD i default).sets true (sys.caches.getD i default).blockedCycles ((sys.caches.getD i default).stats.incrementAccesses.incrementWrites.incrementWriteMisses))).getD j default)
          by_cases hji : j = i
          · rw [hji, getD_set_self _ _ _ _ (by rw [hlen]; exact hi)]
            exact hwf i hi
          · rw [getD_set_ne _ _ _ _ _ (fun h => hji h.symm)]
            exact hwf j hj
      have hg1I : ((Sys.mk (sys.caches.set i (Cache.mk (sys.caches.getD i default).coreId (sys.caches.getD i default).setIndexBits (sys.caches.getD i default).blockOffsetBits (sys.caches.getD i default).associativity (sys.caches.getD i default).sets true (sys.caches.getD i default).blockedCycles ((sys.caches.getD i default).stats.incrementAccesses.incrementWrites.incrementWriteMisses))) sys.bus) : Sys).caches.getD i default = (Cache.mk (sys.caches.getD i default).coreId (sys.caches.getD i default).setIndexBits (sys.caches.getD i default).blockOffsetBits (sys.caches.getD i default).associativity (sys.caches.getD i default).sets true (sys.caches.getD i default).blockedCycles ((sys.caches.getD i default).stats.incrementAccesses.incrementWrites.incrementWriteMisses)) :=
        getD_set_self _ _ _ _ (by rw [hlen]; exact hi)
      have hg1J : ∀ j, j ≠ i →
          ((Sys.mk (sys.caches.set i (Cache.mk (sys.caches.getD i default).coreId (sys.caches.getD i default).setIndexBits (sys.caches.getD i default).blockOffsetBits (sys.caches.getD i default).associativity (sys.caches.getD i default).sets true (sys.caches.getD i default).blockedCycles ((sys.caches.getD i default).stats.incrementAccesses.incrementWrites.incrementWriteMisses))) sys.bus) : Sys).caches.getD j default = sys.caches.getD j default :=
        fun j hj => getD_set_ne _ _ _ _ _ (fun h => hj h.symm)
      have hst1 : ∀ j, j < n → ∀ si tv,
          (((Sys.mk (sys.caches.set i (Cache.mk (sys.caches.getD i default).coreId (sys.caches.getD i default).setIndexBits (sys.caches.getD i default).blockOffsetBits (sys.caches.getD i default).associativity (sys.caches.getD i default).sets true (sys.caches.getD i default).blockedCycles ((sys.caches.getD i default).stats.incrementAccesses.incrementWrites.incrementWriteMisses))) sys.bus) : Sys).caches.getD j default).stateAt si tv
            = (sys.caches.getD j default).stateAt si tv := by
        intro j hj si tv
        by_cases hji : j = i
        · rw [hji, hg1I]
          rfl
        · rw [hg1J j hji]
      obtain ⟨racc, rbusy, rpend, rlen, rgetI, rgetJ, rdp⟩ :=
        busOperation_spec n sb assoc bob (Sys.mk (sys.caches.set i (Cache.mk (sys.caches.getD i default).coreId (sys.caches.getD i default).setIndexBits (sys.caches.getD i default).blockOffsetBits (sys.caches.getD i default).associativity (sys.caches.getD i default).sets true (sys.caches.getD i default).blockedCycles ((sys.caches.getD i default).stats.incrementAccesses.incrementWrites.incrementWriteMisses))) sys.bus) hws1 BusOperation.BusRdX address i
      obtain ⟨rstates, rdpf⟩ :=
        busOperation_stateAt n sb assoc bob (Sys.mk (sys.caches.set i (Cache.mk (sys.caches.getD i default).coreId (sys.caches.getD i default).setIndexBits (sys.caches.getD i default).blockOffsetBits (sys.caches.getD i default).associativity (sys.caches.getD i default).sets true (sys.caches.getD i default).blockedCycles ((sys.caches.getD i default).stats.incrementAccesses.incrementWrites.incrementWriteMisses))) sys.bus) hws1 BusOperation.BusRdX address i hi
      have hwfR := busOperation_WF n sb assoc bob (Sys.mk (sys.caches.set i (Cache.mk (sys.caches.getD i default).coreId (sys.caches.getD i default).setIndexBits (sys.caches.getD i default).blockOffsetBits (sys.caches.getD i default).associativity (sys.caches.getD i default).sets true (sys.caches.getD i default).blockedCycles ((sys.caches.getD i default).stats.incrementAccesses.incrementWrites.incrementWriteMisses))) sys.bus) hws1 BusOperation.BusRdX address i hi
      have hmissR : ((busOperation (Sys.mk (sys.caches.set i (Cache.mk (sys.caches.getD i default).coreId (sys.caches.getD i default).setIndexBits (sys.caches.getD i default).blockOffsetBits (sys.caches.getD i default).associativity (sys.caches.getD i default).sets true (sys.caches.getD i default).blockedCycles ((sys.caches.getD i default).stats.incrementAccesses.incrementWrites.incrementWriteMisses))) sys.bus) BusOperation.BusRdX address i false 0).sys.caches.getD i default).stateAt (addrSetIdx sb bob address) (addrTag sb bob address)
          = CacheState.INVALID := by
        rw [rgetI, hg1I]
        show ((sys.caches.getD i default).sets.getD (addrSetIdx sb bob address) default).stateOf (addrTag sb bob address) = CacheState.INVALID
        rw [stateOf_eq_INVALID_iff, ← hSI, ← hTA]
        exact hfl
      obtain ⟨g1, g2, g3, g4, g5, g6⟩ :=
        allocateLine_spec n sb assoc bob (busOperation (Sys.mk (sys.caches.set i (Cache.mk (sys.caches.getD i default).coreId (sys.caches.getD i default).setIndexBits (sys.caches.getD i default).blockOffsetBits (sys.caches.getD i default).associativity (sys.caches.getD i default).sets true (sys.caches.getD i default).blockedCycles ((sys.caches.getD i default).stats.incrementAccesses.incrementWrites.incrementWriteMisses))) sys.bus) BusOperation.BusRdX address i false 0).sys.caches rlen hwfR.2.1 hassoc i hi address
          hmissR true (busOperation (Sys.mk (sys.caches.set i (Cache.mk (sys.caches.getD i default).coreId (sys.caches.getD i default).setIndexBits (sys.caches.getD i default).blockOffsetBits (sys.caches.getD i default).associativity (sys.caches.getD i default).sets true (sys.caches.getD i default).blockedCycles ((sys.caches.getD i default).stats.incrementAccesses.incrementWrites.incrementWriteMisses))) sys.bus) BusOperation.BusRdX address i false 0).cycles ((busOperation (Sys.mk (sys.caches.set i (Cache.mk (sys.caches.getD i default).coreId (sys.caches.getD i default).setIndexBits (sys.caches.getD i default).blockOffsetBits (sys.caches.getD i default).associativity (sys.caches.getD i default).sets true (sys.caches.getD i default).blockedCycles ((sys.caches.getD i default).stats.incrementAccesses.incrementWrites.incrementWriteMisses))) sys.bus) BusOperation.BusRdX address i false 0).accepted && (busOperation (Sys.mk (sys.caches.set i (Cache.mk (sys.caches.getD i default).coreId (sys.caches.getD i default).setIndexBits (sys.caches.getD i default).blockOffsetBits (sys.caches.getD i default).associativity (sys.caches.getD i default).sets true (sys.caches.getD i default).blockedCycles ((sys.caches.getD i default).stats.incrementAccesses.incrementWrites.incrementWriteMisses))) sys.bus) BusOperation.BusRdX address i false 0).dataProvided)
      have hFgI : (((allocateLine (busOperation (Sys.mk (sys.caches.set i (Cache.mk (sys.caches.getD i default).coreId (sys.caches.getD i default).setIndexBits (sys.caches.getD i default).blockOffsetBits (sys.caches.getD i default).associativity (sys.caches.getD i default).sets true (sys.caches.getD i default).blockedCycles ((sys.caches.getD i default).stats.incrementAccesses.incrementWrites.incrementWriteMisses))) sys.bus) BusOperation.BusRdX address i false 0).sys.caches i address true (busOperation (Sys.mk (sys.caches.set i (Cache.mk (sys.caches.getD i default).coreId (sys.caches.getD i default).setIndexBits (sys.caches.getD i default).blockOffsetBits (sys.caches.getD i default).associativity (sys.caches.getD i default).sets true (sys.caches.getD i default).blockedCycles ((sys.caches.getD i default).stats.incrementAccesses.incrementWrites.incrementWriteMisses))) sys.bus) BusOperation.BusRdX address i false 0).cycles ((busOperation (Sys.mk (sys.caches.set i (Cache.mk (sys.caches.getD i default).coreId (sys.caches.getD i default).setIndexBits (sys.caches.getD i default).blockOffsetBits (sys.caches.getD i default).associativity (sys.caches.getD i default).sets true (sys.caches.getD i default).blockedCycles ((sys.caches.getD i default).stats.incrementAccesses.incrementWrites.incrementWriteMisses))) sys.bus) BusOperation.BusRdX address i false 0).accepted && (busOperation (Sys.mk (sys.caches.set i (Cache.mk (sys.caches.getD i default).coreId (sys.caches.getD i default).setIndexBits (sys.caches.getD i default).blockOffsetBits (sys.caches.getD i default).associativity (sys.caches.getD i default).sets true (sys.caches.getD i default).blockedCycles ((sys.caches.getD i default).stats.incrementAccesses.incrementWrites.incrementWriteMisses))) sys.bus) BusOperation.BusRdX address i false 0).dataProvided)).1.set i { ((allocateLine (busOperation (Sys.mk (sys.caches.set i (Cache.mk (sys.caches.getD i default).coreId (sys.caches.getD i default).setIndexBits (sys.caches.getD i default).blockOffsetBits (sys.caches.getD i default).associativity (sys.caches.getD i default).sets true (sys.caches.getD i default).blockedCycles ((sys.caches.getD i default).stats.incrementAccesses.incrementWrites.incrementWriteMisses))) sys.bus) BusOperation.BusRdX address i false 0).sys.caches i address true (busOperation (Sys.mk (sys.caches.set i (Cache.mk (sys.caches.getD i default).coreId (sys.caches.getD i default).setIndexBits (sys.caches.getD i default).blockOffsetBits (sys.caches.getD i default).associativity (sys.caches.getD i default).sets true (sys.caches.getD i default).blockedCycles ((sys.caches.getD i default).stats.incrementAccesses.incrementWrites.incrementWriteMisses))) sys.bus) BusOperation.BusRdX address i false 0).cycles ((busOperation (Sys.mk (sys.caches.set i (Cache.mk (sys.caches.getD i default).coreId (sys.caches.getD i default).setIndexBits (sys.caches.getD i default).blockOffsetBits (sys.caches.getD i default).associativity (sys.caches.getD i default).sets true (sys.caches.getD i default).blockedCycles ((sys.caches.getD i default).stats.incrementAccesses.incrementWrites.incrementWriteMisses))) sys.bus) BusOperation.BusRdX address i false 0).accepted && (busOperation (Sys.mk (sys.caches.set i (Cache.mk (sys.caches.getD i default).coreId (sys.caches.getD i default).setIndexBits (sys.caches.getD i default).blockOffsetBits (sys.caches.getD i default).associativity (sys.caches.getD i default).sets true (sys.caches.getD i default).blockedCycles ((sys.caches.getD i default).stats.incrementAccesses.incrementWrites.incrementWriteMisses))) sys.bus) BusOperation.BusRdX address i false 0).dataProvided)).1.getD i default) with blockedCycles := if (allocateLine (busOperation (Sys.mk (sys.caches.set i (Cache.mk (sys.caches.getD i default).coreId (sys.caches.getD i default).setIndexBits (sys.caches.getD i default).blockOffsetBits (sys.caches.getD i default).associativity (sys.caches.getD i default).sets true (sys.caches.getD i default).blockedCycles ((sys.caches.getD i default).stats.incrementAccesses.incrementWrites.incrementWriteMisses))) sys.bus) BusOperation.BusRdX address i false 0).sys.caches i address true (busOperation (Sys.mk (sys.caches.set i (Cache.mk (sys.caches.getD i default).coreId (sys.caches.getD i default).setIndexBits (sys.caches.getD i default).blockOffsetBits (sys.caches.getD i default).associativity (sys.caches.getD i default).sets true (sys.caches.getD i default).blockedCycles ((sys.caches.getD i default).stats.incrementAccesses.incrementWrites.incrementWriteMisses))) sys.bus) BusOperation.BusRdX address i false 0).cycles ((busOperation (Sys.mk (sys.caches.set i (Cache.mk (sys.caches.getD i default).coreId (sys.caches.getD i default).setIndexBits (sys.caches.getD i default).blockOffsetBits (sys.caches.getD i default).associativity (sys.caches.getD i default).sets true (sys.caches.getD i default).blockedCycles ((sys.caches.getD i default).stats.incrementAccesses.incrementWrites.incrementWriteMisses))) sys.bus) BusOperation.BusRdX address i false 0).accepted && (busOperation (Sys.mk (sys.caches.set i (Cache.mk (sys.caches.getD i default).coreId (sys.caches.getD i default).setIndexBits (sys.caches.getD i default).blockOffsetBits (sys.caches.getD i default).associativity (sys.caches.getD i default).sets true (sys.caches.getD i default).blockedCycles ((sys.caches.getD i default).stats.incrementAccesses.incrementWrites.incrementWriteMisses))) sys.bus) BusOperation.BusRdX address i false 0).dataProvided)).2 > 0 then (allocateLine (busOperation (Sys.mk (sys.caches.set i (Cache.mk (sys.caches.getD i default).coreId (sys.caches.getD i default).setIndexBits (sys.caches.getD i default).blockOffsetBits (sys.caches.getD i default).associativity (sys.caches.getD i default).sets true (sys.caches.getD i default).blockedCycles ((sys.caches.getD i default).stats.incrementAccesses.incrementWrites.incrementWriteMisses))) sys.bus) BusOperation.BusRdX address i false 0).sys.caches i address true (busOperation (Sys.mk (sys.caches.set i (Cache.mk (sys.caches.getD i default).coreId (sys.caches.getD i default).setIndexBits (sys.caches.getD i default).blockOffsetBits (sys.caches.getD i default).associativity (sys.caches.getD i default).sets true (sys.caches.getD i default).blockedCycles ((sys.caches.getD i default).stats.incrementAccesses.incrementWrites.incrementWriteMisses))) sys.bus) BusOperation.BusRdX address i false 0).cycles ((busOperation (Sys.mk (sys.caches.set i (Cache.mk (sys.caches.getD i default).coreId (sys.caches.getD i default).setIndexBits (sys.caches.getD i default).blockOffsetBits (sys.caches.getD i default).associativity (sys.caches.getD i default).sets true (sys.caches.getD i default).blockedCycles ((sys.caches.getD i default).stats.incrementAccesses.incrementWrites.incrementWriteMisses))) sys.bus) BusOperation.BusRdX address i false 0).accepted && (busOperation (Sys.mk (sys.caches.set i (Cache.mk (sys.caches.getD i default).coreId (sys.caches.getD i default).setIndexBits (sys.caches.getD i default).blockOffsetBits (sys.caches.getD i default).associativity (sys.caches.getD i default).sets true (sys.caches.getD i default).blockedCycles ((sys.caches.getD i default).stats.incrementAccesses.incrementWrites.incrementWriteMisses))) sys.bus) BusOperation.BusRdX address i false 0).dataProvided)).2 - 1 else 0 }) : List Cache).getD i default = { ((allocateLine (busOperation (Sys.mk (sys.caches.set i (Cache.mk (sys.caches.getD i default).coreId (sys.caches.getD i default).setIndexBits (sys.caches.getD i default).blockOffsetBits (sys.caches.getD i default).associativity (sys.caches.getD i default).sets true (sys.caches.getD i default).blockedCycles ((sys.caches.getD i default).stats.incrementAccesses.incrementWrites.incrementWriteMisses))) sys.bus) BusOperation.BusRdX address i false 0).sys.caches i address true (busOperation (Sys.mk (sys.caches.set i (Cache.mk (sys.caches.getD i default).coreId (sys.caches.getD i default).setIndexBits (sys.caches.getD i default).blockOffsetBits (sys.caches.getD i default).associativity (sys.caches.getD i default).sets true (sys.caches.getD i default).blockedCycles ((sys.caches.getD i default).stats.incrementAccesses.incrementWrites.incrementWriteMisses))) sys.bus) BusOperation.BusRdX address i false 0).cycles ((busOperation (Sys.mk (sys.caches.set i (Cache.mk (sys.caches.getD i default).coreId (sys.caches.getD i default).setIndexBits (sys.caches.getD i default).blockOffsetBits (sys.caches.getD i default).associativity (sys.caches.getD i default).sets true (sys.caches.getD i default).blockedCycles ((sys.caches.getD i default).stats.incrementAccesses.incrementWrites.incrementWriteMisses))) sys.bus) BusOperation.BusRdX address i false 0).accepted && (busOperation (Sys.mk (sys.caches.set i (Cache.mk (sys.caches.getD i default).coreId (sys.caches.getD i default).setIndexBits (sys.caches.getD i default).blockOffsetBits (sys.caches.getD i default).associativity (sys.caches.getD i default).sets true (sys.caches.getD i default).blockedCycles ((sys.caches.getD i default).stats.incrementAccesses.incrementWrites.incrementWriteMisses))) sys.bus) BusOperation.BusRdX address i false 0).dataProvided)).1.getD i default) with blockedCycles := if (allocateLine (busOperation (Sys.mk (sys.caches.set i (Cache.mk (sys.caches.getD i default).coreId (sys.caches.getD i default).setIndexBits (sys.caches.getD i default).blockOffsetBits (sys.caches.getD i default).associativity (sys.caches.getD i default).sets true (sys.caches.getD i default).blockedCycles ((sys.caches.getD i default).stats.incrementAccesses.incrementWrites.incrementWriteMisses))) sys.bus) BusOperation.BusRdX address i false 0).sys.caches i address true (busOperation (Sys.mk (sys.caches.set i (Cache.mk (sys.caches.getD i default).coreId (sys.caches.getD i default).setIndexBits (sys.caches.getD i default).blockOffsetBits (sys.caches.getD i default).associativity (sys.caches.getD i default).sets true (sys.caches.getD i default).blockedCycles ((sys.caches.getD i default).stats.incrementAccesses.incrementWrites.incrementWriteMisses))) sys.bus) BusOperation.BusRdX address i false 0).cycles ((busOperation (Sys.mk (sys.caches.set i (Cache.mk (sys.caches.getD i default).coreId (sys.caches.getD i default).setIndexBits (sys.caches.getD i default).blockOffsetBits (sys.caches.getD i default).associativity (sys.caches.getD i default).sets true (sys.caches.getD i default).blockedCycles ((sys.caches.getD i default).stats.incrementAccesses.incrementWrites.incrementWriteMisses))) sys.bus) BusOperation.BusRdX address i false 0).accepted && (busOperation (Sys.mk (sys.caches.set i (Cache.mk (sys.caches.getD i default).coreId (sys.caches.getD i default).setIndexBits (sys.caches.getD i default).blockOffsetBits (sys.caches.getD i default).associativity (sys.caches.getD i default).sets true (sys.caches.getD i default).blockedCycles ((sys.caches.getD i default).stats.incrementAccesses.incrementWrites.incrementWriteMisses))) sys.bus) BusOperation.BusRdX address i false 0).dataProvided)).2 > 0 then (allocateLine (busOperation (Sys.mk (sys.caches.set i (Cache.mk (sys.caches.getD i default).coreId (sys.caches.getD i default).setIndexBits (sys.caches.getD i default).blockOffsetBits (sys.caches.getD i default).associativity (sys.caches.getD i default).sets true (sys.caches.getD i default).blockedCycles ((sys.caches.getD i default).stats.incrementAccesses.incrementWrites.incrementWriteMisses))) sys.bus) BusOperation.BusRdX address i false 0).sys.caches i address true (busOperation (Sys.mk (sys.caches.set i (Cache.mk (sys.caches.getD i default).coreId (sys.caches.getD i default).setIndexBits (sys.caches.getD i default).blockOffsetBits (sys.caches.getD i default).associativity (sys.caches.getD i default).sets true (sys.caches.getD i default).blockedCycles ((sys.caches.getD i default).stats.incrementAccesses.incrementWrites.incrementWriteMisses))) sys.bus) BusOperation.BusRdX address i false 0).cycles ((busOperation (Sys.mk (sys.caches.set i (Cache.mk (sys.caches.getD i default).coreId (sys.caches.getD i default).setIndexBits (sys.caches.getD i default).blockOffsetBits (sys.caches.getD i default).associativity (sys.caches.getD i default).sets true (sys.caches.getD i default).blockedCycles ((sys.caches.getD i default).stats.incrementAccesses.incrementWrites.incrementWriteMisses))) sys.bus) BusOperation.BusRdX address i false 0).accepted && (busOperation (Sys.mk (sys.caches.set i (Cache.mk (sys.caches.getD i default).coreId (sys.caches.getD i default).setIndexBits (sys.caches.getD i default).blockOffsetBits (sys.caches.getD i default).associativity (sys.caches.getD i default).sets true (sys.caches.getD i default).blockedCycles ((sys.caches.getD i default).stats.incrementAccesses.incrementWrites.incrementWriteMisses))) sys.bus) BusOperation.BusRdX address i false 0).dataProvided)).2 - 1 else 0 } :=
        getD_set_self _ _ _ _ (by rw [g1]; exact hi)
      have hFgJ : ∀ j, j ≠ i →
          (((allocateLine (busOperation (Sys.mk (sys.caches.set i (Cache.mk (sys.caches.getD i default).coreId (sys.caches.getD i default).setIndexBits (sys.caches.getD i default).blockOffsetBits (sys.caches.getD i default).associativity (sys.caches.getD i default).sets true (sys.caches.getD i default).blockedCycles ((sys.caches.getD i default).stats.incrementAccesses.incrementWrites.incrementWriteMisses))) sys.bus) BusOperation.BusRdX address i false 0).sys.caches i address true (busOperation (Sys.mk (sys.caches.set i (Cache.mk (sys.caches.getD i default).coreId (sys.caches.getD i default).setIndexBits (sys.caches.getD i default).blockOffsetBits (sys.caches.getD i default).associativity (sys.caches.getD i default).sets true (sys.caches.getD i default).blockedCycles ((sys.caches.getD i default).stats.incrementAccesses.incrementWrites.incrementWriteMisses))) sys.bus) BusOperation.BusRdX address i false 0).cycles ((busOperation (Sys.mk (sys.caches.set i (Cache.mk (sys.caches.getD i default).coreId (sys.caches.getD i default).setIndexBits (sys.caches.getD i default).blockOffsetBits (sys.caches.getD i default).associativity (sys.caches.getD i default).sets true (sys.caches.getD i default).blockedCycles ((sys.caches.getD i default).stats.incrementAccesses.incrementWrites.incrementWriteMisses))) sys.bus) BusOperation.BusRdX address i false 0).accepted && (busOperation (Sys.mk (sys.caches.set i (Cache.mk (sys.caches.getD i default).coreId (sys.caches.getD i default).setIndexBits (sys.caches.getD i default).blockOffsetBits (sys.caches.getD i default).associativity (sys.caches.getD i default).sets true (sys.caches.getD i default).blockedCycles ((sys.caches.getD i default).stats.incrementAccesses.incrementWrites.incrementWriteMisses))) sys.bus) BusOperation.BusRdX address i false 0).dataProvided)).1.set i { ((allocateLine (busOperation (Sys.mk (sys.caches.set i (Cache.mk (sys.caches.getD i default).coreId (sys.caches.getD i default).setIndexBits (sys.caches.getD i default).blockOffsetBits (sys.caches.getD i default).associativity (sys.caches.getD i default).sets true (sys.caches.getD i default).blockedCycles ((sys.caches.getD i default).stats.incrementAccesses.incrementWrites.incrementWriteMisses))) sys.bus) BusOperation.BusRdX address i false 0).sys.caches i address true (busOperation (Sys.mk (sys.caches.set i (Cache.mk (sys.caches.getD i default).coreId (sys.caches.getD i default).setIndexBits (sys.caches.getD i default).blockOffsetBits (sys.caches.getD i default).associativity (sys.caches.getD i default).sets true (sys.caches.getD i default).blockedCycles ((sys.caches.getD i default).stats.incrementAccesses.incrementWrites.incrementWriteMisses))) sys.bus) BusOperation.BusRdX address i false 0).cycles ((busOperation (Sys.mk (sys.caches.set i (Cache.mk (sys.caches.getD i default).coreId (sys.caches.getD i default).setIndexBits (sys.caches.getD i default).blockOffsetBits (sys.caches.getD i default).associativity (sys.caches.getD i default).sets true (sys.caches.getD i default).blockedCycles ((sys.caches.getD i default).stats.incrementAccesses.incrementWrites.incrementWriteMisses))) sys.bus) BusOperation.BusRdX address i false 0).accepted && (busOperation (Sys.mk (sys.caches.set i (Cache.mk (sys.caches.getD i default).coreId (sys.caches.getD i default).setIndexBits (sys.caches.getD i default).blockOffsetBits (sys.caches.getD i default).associativity (sys.caches.getD i default).sets true (sys.caches.getD i default).blockedCycles ((sys.caches.getD i default).stats.incrementAccesses.incrementWrites.incrementWriteMisses))) sys.bus) BusOperation.BusRdX address i false 0).dataProvided)).1.getD i default) with blockedCycles := if (allocateLine (busOperation (Sys.mk (sys.caches.set i (Cache.mk (sys.caches.getD i default).coreId (sys.caches.getD i default).setIndexBits (sys.caches.getD i default).blockOffsetBits (sys.caches.getD i default).associativity (sys.caches.getD i default).sets true (sys.caches.getD i default).blockedCycles ((sys.caches.getD i default).stats.incrementAccesses.incrementWrites.incrementWriteMisses))) sys.bus) BusOperation.BusRdX address i false 0).sys.caches i address true (busOperation (Sys.mk (sys.caches.set i (Cache.mk (sys.caches.getD i default).coreId (sys.caches.getD i default).setIndexBits (sys.caches.getD i default).blockOffsetBits (sys.caches.getD i default).associativity (sys.caches.getD i default).sets true (sys.caches.getD i default).blockedCycles ((sys.caches.getD i default).stats.incrementAccesses.incrementWrites.incrementWriteMisses))) sys.bus) BusOperation.BusRdX address i false 0).cycles ((busOperation (Sys.mk (sys.caches.set i (Cache.mk (sys.caches.getD i default).coreId (sys.caches.getD i default).setIndexBits (sys.caches.getD i default).blockOffsetBits (sys.caches.getD i default).associativity (sys.caches.getD i default).sets true (sys.caches.getD i default).blockedCycles ((sys.caches.getD i default).stats.incrementAccesses.incrementWrites.incrementWriteMisses))) sys.bus) BusOperation.BusRdX address i false 0).accepted && (busOperation (Sys.mk (sys.caches.set i (Cache.mk (sys.caches.getD i default).coreId (sys.caches.getD i default).setIndexBits (sys.caches.getD i default).blockOffsetBits (sys.caches.getD i default).associativity (sys.caches.getD i default).sets true (sys.caches.getD i default).blockedCycles ((sys.caches.getD i default).stats.incrementAccesses.incrementWrites.incrementWriteMisses))) sys.bus) BusOperation.BusRdX address i false 0).dataProvided)).2 > 0 then (allocateLine (busOperation (Sys.mk (sys.caches.set i (Cache.mk (sys.caches.getD i default).coreId (sys.caches.getD i default).setIndexBits (sys.caches.getD i default).blockOffsetBits (sys.caches.getD i default).associativity (sys.caches.getD i default).sets true (sys.caches.getD i default).blockedCycles ((sys.caches.getD i default).stats.incrementAccesses.incrementWrites.incrementWriteMisses))) sys.bus) BusOperation.BusRdX address i false 0).sys.caches i address true (busOperation (Sys.mk (sys.caches.set i (Cache.mk (sys.caches.getD i default).coreId (sys.caches.getD i default).setIndexBits (sys.caches.getD i default).blockOffsetBits (sys.caches.getD i default).associativity (sys.caches.getD i default).sets true (sys.caches.getD i default).blockedCycles ((sys.caches.getD i default).stats.incrementAccesses.incrementWrites.incrementWriteMisses))) sys.bus) BusOperation.BusRdX address i false 0).cycles ((busOperation (Sys.mk (sys.caches.set i (Cache.mk (sys.caches.getD i default).coreId (sys.caches.getD i default).setIndexBits (sys.caches.getD i default).blockOffsetBits (sys.caches.getD i default).associativity (sys.caches.getD i default).sets true (sys.caches.getD i default).blockedCycles ((sys.caches.getD i default).stats.incrementAccesses.incrementWrites.incrementWriteMisses))) sys.bus) BusOperation.BusRdX address i false 0).accepted && (busOperation (Sys.mk (sys.caches.set i (Cache.mk (sys.caches.getD i default).coreId (sys.caches.getD i default).setIndexBits (sys.caches.getD i default).blockOffsetBits (sys.caches.getD i default).associativity (sys.caches.getD i default).sets true (sys.caches.getD i default).blockedCycles ((sys.caches.getD i default).stats.incrementAccesses.incrementWrites.incrementWriteMisses))) sys.bus) BusOperation.BusRdX address i false 0).dataProvided)).2 - 1 else 0 }) : List Cache).getD j default = (allocateLine (busOperation (Sys.mk (sys.caches.set i (Cache.mk (sys.caches.getD i default).coreId (sys.caches.getD i default).setIndexBits (sys.caches.getD i default).blockOffsetBits (sys.caches.getD i default).associativity (sys.caches.getD i default).sets true (sys.caches.getD i default).blockedCycles ((sys.caches.getD i default).stats.incrementAccesses.incrementWrites.incrementWriteMisses))) sys.bus) BusOperation.BusRdX address i false 0).sys.caches i address true (busOperation (Sys.mk (sys.caches.set i (Cache.mk (sys.caches.getD i default).coreId (sys.caches.getD i default).setIndexBits (sys.caches.getD i default).blockOffsetBits (sys.caches.getD i default).associativity (sys.caches.getD i default).sets true (sys.caches.getD i default).blockedCycles ((sys.caches.getD i default).stats.incrementAccesses.incrementWrites.incrementWriteMisses))) sys.bus) BusOperation.BusRdX address i false 0).cycles ((busOperation (Sys.mk (sys.caches.set i (Cache.mk (sys.caches.getD i default).coreId (sys.caches.getD i default).setIndexBits (sys.caches.getD i default).blockOffsetBits (sys.caches.getD i default).associativity (sys.caches.getD i default).sets true (sys.caches.getD i default).blockedCycles ((sys.caches.getD i default).stats.incrementAccesses.incrementWrites.incrementWriteMisses))) sys.bus) BusOperation.BusRdX address i false 0).accepted && (busOperation (Sys.mk (sys.caches.set i (Cache.mk (sys.caches.getD i default).coreId (sys.caches.getD i default).setIndexBits (sys.caches.getD i default).blockOffsetBits (sys.caches.getD i default).associativity (sys.caches.getD i default).sets true (sys.caches.getD i default).blockedCycles ((sys.caches.getD i default).stats.incrementAccesses.incrementWrites.incrementWriteMisses))) sys.bus) BusOperation.BusRdX address i false 0).dataProvided)).1.getD j default :=
        fun j hj => getD_set_ne _ _ _ _ _ (fun h => hj h.symm)
      have hFself : ∀ si tv, ((((allocateLine (busOperation (Sys.mk (sys.caches.set i (Cache.mk (sys.caches.getD i default).coreId (sys.caches.getD i default).setIndexBits (sys.caches.getD i default).blockOffsetBits (sys.caches.getD i default).associativity (sys.caches.getD i default).sets true (sys.caches.getD i default).blockedCycles ((sys.caches.getD i default).stats.incrementAccesses.incrementWrites.incrementWriteMisses))) sys.bus) BusOperation.BusRdX address i false 0).sys.caches i address true (busOperation (Sys.mk (sys.caches.set i (Cache.mk (sys.caches.getD i default).coreId (sys.caches.getD i default).setIndexBits (sys.caches.getD i default).blockOffsetBits (sys.caches.getD i default).associativity (sys.caches.getD i default).sets true (sys.caches.getD i default).blockedCycles ((sys.caches.getD i default).stats.incrementAccesses.incrementWrites.incrementWriteMisses))) sys.bus) BusOperation.BusRdX address i false 0).cycles ((busOperation (Sys.mk (sys.caches.set i (Cache.mk (sys.caches.getD i default).coreId (sys.caches.getD i default).setIndexBits (sys.caches.getD i default).blockOffsetBits (sys.caches.getD i default).associativity (sys.caches.getD i default).sets true (sys.caches.getD i default).blockedCycles ((sys.caches.getD i default).stats.incrementAccesses.incrementWrites.incrementWriteMisses))) sys.bus) BusOperation.BusRdX address i false 0).accepted && (busOperation (Sys.mk (sys.caches.set i (Cache.mk (sys.caches.getD i default).coreId (sys.caches.getD i default).setIndexBits (sys.caches.getD i default).blockOffsetBits (sys.caches.getD i default).associativity (sys.caches.getD i default).sets true (sys.caches.getD i default).blockedCycles ((sys.caches.getD i default).stats.incrementAccesses.incrementWrites.incrementWriteMisses))) sys.bus) BusOperation.BusRdX address i false 0).dataProvided)).1.set i { ((allocateLine (busOperation (Sys.mk (sys.caches.set i (Cache.mk (sys.caches.getD i default).coreId (sys.caches.getD i default).setIndexBits (sys.caches.getD i default).blockOffsetBits (sys.caches.getD i default).associativity (sys.caches.getD i default).sets true (sys.caches.getD i default).blockedCycles ((sys.caches.getD i default).stats.incrementAccesses.incrementWrites.incrementWriteMisses))) sys.bus) BusOperation.BusRdX address i false 0).sys.caches i address true (busOperation (Sys.mk (sys.caches.set i (Cache.mk (sys.caches.getD i default).coreId (sys.caches.getD i default).setIndexBits (sys.caches.getD i default).blockOffsetBits (sys.caches.getD i default).associativity (sys.caches.getD i default).sets true (sys.caches.getD i default).blockedCycles ((sys.caches.getD i default).stats.incrementAccesses.incrementWrites.incrementWriteMisses))) sys.bus) BusOperation.BusRdX address i false 0).cycles ((busOperation (Sys.mk (sys.caches.set i (Cache.mk (sys.caches.getD i default).coreId (sys.caches.getD i default).setIndexBits (sys.caches.getD i default).blockOffsetBits (sys.caches.getD i default).associativity (sys.caches.getD i default).sets true (sys.caches.getD i default).blockedCycles ((sys.caches.getD i default).stats.incrementAccesses.incrementWrites.incrementWriteMisses))) sys.bus) BusOperation.BusRdX address i false 0).accepted && (busOperation (Sys.mk (sys.caches.set i (Cache.mk (sys.caches.getD i default).coreId (sys.caches.getD i default).setIndexBits (sys.caches.getD i default).blockOffsetBits (sys.caches.getD i default).associativity (sys.caches.getD i default).sets true (sys.caches.getD i default).blockedCycles ((sys.caches.getD i default).stats.incrementAccesses.incrementWrites.incrementWriteMisses))) sys.bus) BusOperation.BusRdX address i false 0).dataProvided)).1.getD i default) with blockedCycles := if (allocateLine (busOperation (Sys.mk (sys.caches.set i (Cache.mk (sys.caches.getD i default).coreId (sys.caches.getD i default).setIndexBits (sys.caches.getD i default).blockOffsetBits (sys.caches.getD i default).associativity (sys.caches.getD i default).sets true (sys.caches.getD i default).blockedCycles ((sys.caches.getD i default).stats.incrementAccesses.incrementWrites.incrementWriteMisses))) sys.bus) BusOperation.BusRdX address i false 0).sys.caches i address true (busOperation (Sys.mk (sys.caches.set i (Cache.mk (sys.caches.getD i default).coreId (sys.caches.getD i default).setIndexBits (sys.caches.getD i default).blockOffsetBits (sys.caches.getD i default).associativity (sys.caches.getD i default).sets true (sys.caches.getD i default).blockedCycles ((sys.caches.getD i default).stats.incrementAccesses.incrementWrites.incrementWriteMisses))) sys.bus) BusOperation.BusRdX address i false 0).cycles ((busOperation (Sys.mk (sys.caches.set i (Cache.mk (sys.caches.getD i default).coreId (sys.caches.getD i default).setIndexBits (sys.caches.getD i default).blockOffsetBits (sys.caches.getD i default).associativity (sys.caches.getD i default).sets true (sys.caches.getD i default).blockedCycles ((sys.caches.getD i default).stats.incrementAccesses.incrementWrites.incrementWriteMisses))) sys.bus) BusOperation.BusRdX address i false 0).accepted && (busOperation (Sys.mk (sys.caches.set i (Cache.mk (sys.caches.getD i default).coreId (sys.caches.getD i default).setIndexBits (sys.caches.getD i default).blockOffsetBits (sys.caches.getD i default).associativity (sys.caches.getD i default).sets true (sys.caches.getD i default).blockedCycles ((sys.caches.getD i default).stats.incrementAccesses.incrementWrites.incrementWriteMisses))) sys.bus) BusOperation.BusRdX address i false 0).dataProvided)).2 > 0 then (allocateLine (busOperation (Sys.mk (sys.caches.set i (Cache.mk (sys.caches.getD i default).coreId (sys.caches.getD i default).setIndexBits (sys.caches.getD i default).blockOffsetBits (sys.caches.getD i default).associativity (sys.caches.getD i default).sets true (sys.caches.getD i default).blockedCycles ((sys.caches.getD i default).stats.incrementAccesses.incrementWrites.incrementWriteMisses))) sys.bus) BusOperation.BusRdX address i false 0).sys.caches i address true (busOperation (Sys.mk (sys.caches.set i (Cache.mk (sys.caches.getD i default).coreId (sys.caches.getD i default).setIndexBits (sys.caches.getD i default).blockOffsetBits (sys.caches.getD i default).associativity (sys.caches.getD i default).sets true (sys.caches.getD i default).blockedCycles ((sys.caches.getD i default).stats.incrementAccesses.incrementWrites.incrementWriteMisses))) sys.bus) BusOperation.BusRdX address i false 0).cycles ((busOperation (Sys.mk (sys.caches.set i (Cache.mk (sys.caches.getD i default).coreId (sys.caches.getD i default).setIndexBits (sys.caches.getD i default).blockOffsetBits (sys.caches.getD i default).associativity (sys.caches.getD i default).sets true (sys.caches.getD i default).blockedCycles ((sys.caches.getD i default).stats.incrementAccesses.incrementWrites.incrementWriteMisses))) sys.bus) BusOperation.BusRdX address i false 0).accepted && (busOperation (Sys.mk (sys.caches.set i (Cache.mk (sys.caches.getD i default).coreId (sys.caches.getD i default).setIndexBits (sys.caches.getD i default).blockOffsetBits (sys.caches.getD i default).associativity (sys.caches.getD i default).sets true (sys.caches.getD i default).blockedCycles ((sys.caches.getD i default).stats.incrementAccesses.incrementWrites.incrementWriteMisses))) sys.bus) BusOperation.BusRdX address i false 0).dataProvided)).2 - 1 else 0 }) : List Cache).getD i default).stateAt si tv
          = ((allocateLine (busOperation (Sys.mk (sys.caches.set i (Cache.mk (sys.caches.getD i default).coreId (sys.caches.getD i default).setIndexBits (sys.caches.getD i default).blockOffsetBits (sys.caches.getD i default).associativity (sys.caches.getD i default).sets true (sys.caches.getD i default).blockedCycles ((sys.caches.getD i default).stats.incrementAccesses.incrementWrites.incrementWriteMisses))) sys.bus) BusOperation.BusRdX address i false 0).sys.caches i address true (busOperation (Sys.mk (sys.caches.set i (Cache.mk (sys.caches.getD i default).coreId (sys.caches.getD i default).setIndexBits (sys.caches.getD i default).blockOffsetBits (sys.caches.getD i default).associativity (sys.caches.getD i default).sets true (sys.caches.getD i default).blockedCycles ((sys.caches.getD i default).stats.incrementAccesses.incrementWrites.incrementWriteMisses))) sys.bus) BusOperation.BusRdX address i false 0).cycles ((busOperation (Sys.mk (sys.caches.set i (Cache.mk (sys.caches.getD i default).coreId (sys.caches.getD i default).setIndexBits (sys.caches.getD i default).blockOffsetBits (sys.caches.getD i default).associativity (sys.caches.getD i default).sets true (sys.caches.getD i default).blockedCycles ((sys.caches.getD i default).stats.incrementAccesses.incrementWrites.incrementWriteMisses))) sys.bus) BusOperation.BusRdX address i false 0).accepted && (busOperation (Sys.mk (sys.caches.set i (Cache.mk (sys.caches.getD i default).coreId (sys.caches.getD i default).setIndexBits (sys.caches.getD i default).blockOffsetBits (sys.caches.getD i default).associativity (sys.caches.getD i default).sets true (sys.caches.getD i default).blockedCycles ((sys.caches.getD i default).stats.incrementAccesses.incrementWrites.incrementWriteMisses))) sys.bus) BusOperation.BusRdX address i false 0).dataProvided)).1.getD i default).stateAt si tv := by
        intro si tv
        rw [hFgI]
        rfl
      have hPreTA : ∀ j, j < n → j ≠ i →
          ((busOperation (Sys.mk (sys.caches.set i (Cache.mk (sys.caches.getD i default).coreId (sys.caches.getD i default).setIndexBits (sys.caches.getD i default).blockOffsetBits (sys.caches.getD i default).associativity (sys.caches.getD i default).sets true (sys.caches.getD i default).blockedCycles ((sys.caches.getD i default).stats.incrementAccesses.incrementWrites.incrementWriteMisses))) sys.bus) BusOperation.BusRdX address i false 0).sys.caches.getD j default).stateAt (addrSetIdx sb bob address) (addrTag sb bob address)
            = snoopNext BusOperation.BusRdX
                ((sys.caches.getD j default).stateAt (addrSetIdx sb bob address) (addrTag sb bob address)) := by
        intro j hj hji
        rw [(rstates j hj hji).1, hst1 j hj]
      have hPreOther : ∀ j, j < n → j ≠ i → ∀ si tv, (si ≠ (addrSetIdx sb bob address) ∨ tv ≠ (addrTag sb bob address)) →
          ((busOperation (Sys.mk (sys.caches.set i (Cache.mk (sys.caches.getD i default).coreId (sys.caches.getD i default).setIndexBits (sys.caches.getD i default).blockOffsetBits (sys.caches.getD i default).associativity (sys.caches.getD i default).sets true (sys.caches.getD i default).blockedCycles ((sys.caches.getD i default).stats.incrementAccesses.incrementWrites.incrementWriteMisses))) sys.bus) BusOperation.BusRdX address i false 0).sys.caches.getD j default).stateAt si tv
            = (sys.caches.getD j default).stateAt si tv := by
        intro j hj hji si tv hne
        rw [(rstates j hj hji).2 si tv hne, hst1 j hj]
      have hPreSelf : ∀ si tv, ((busOperation (Sys.mk (sys.caches.set i (Cache.mk (sys.caches.getD i default).coreId (sys.caches.getD i default).setIndexBits (sys.caches.getD i default).blockOffsetBits (sys.caches.getD i default).associativity (sys.caches.getD i default).sets true (sys.caches.getD i default).blockedCycles ((sys.caches.getD i default).stats.incrementAccesses.incrementWrites.incrementWriteMisses))) sys.bus) BusOperation.BusRdX address i false 0).sys.caches.getD i default).stateAt si tv
          = (sys.caches.getD i default).stateAt si tv := by
        intro si tv
        rw [rgetI, hg1I]
        rfl
      refine ⟨⟨?_, ?_, rbusy, rpend⟩, ?_⟩
      · show (((allocateLine (busOperation (Sys.mk (sys.caches.set i (Cache.mk (sys.caches.getD i default).coreId (sys.caches.getD i default).setIndexBits (sys.caches.getD i default).blockOffsetBits (sys.caches.getD i default).associativity (sys.caches.getD i default).sets true (sys.caches.getD i default).blockedCycles ((sys.caches.getD i default).stats.incrementAccesses.incrementWrites.incrementWriteMisses))) sys.bus) BusOperation.BusRdX address i false 0).sys.caches i address true (busOperation (Sys.mk (sys.caches.set i (Cache.mk (sys.caches.getD i default).coreId (sys.caches.getD i default).setIndexBits (sys.caches.getD i default).blockOffsetBits (sys.caches.getD i default).associativity (sys.caches.getD i default).sets true (sys.caches.getD i default).blockedCycles ((sys.caches.getD i default).stats.incrementAccesses.incrementWrites.incrementWriteMisses))) sys.bus) BusOperation.BusRdX address i false 0).cycles ((busOperation (Sys.mk (sys.caches.set i (Cache.mk (sys.caches.getD i default).coreId (sys.caches.getD i default).setIndexBits (sys.caches.getD i default).blockOffsetBits (sys.caches.getD i default).associativity (sys.caches.getD i default).sets true (sys.caches.getD i default).blockedCycles ((sys.caches.getD i default).stats.incrementAccesses.incrementWrites.incrementWriteMisses))) sys.bus) BusOperation.BusRdX address i false 0).accepted && (busOperation (Sys.mk (sys.caches.set i (Cache.mk (sys.caches.getD i default).coreId (sys.caches.getD i default).setIndexBits (sys.caches.getD i default).blockOffsetBits (sys.caches.getD i default).associativity (sys.caches.getD i default).sets true (sys.caches.getD i default).blockedCycles ((sys.caches.getD i default).stats.incrementAccesses.incrementWrites.incrementWriteMisses))) sys.bus) BusOperation.BusRdX address i false 0).dataProvided)).1.set i { ((allocateLine (busOperation (Sys.mk (sys.caches.set i (Cache.mk (sys.caches.getD i default).coreId (sys.caches.getD i default).setIndexBits (sys.caches.getD i default).blockOffsetBits (sys.caches.getD i default).associativity (sys.caches.getD i default).sets true (sys.caches.getD i default).blockedCycles ((sys.caches.getD i default).stats.incrementAccesses.incrementWrites.incrementWriteMisses))) sys.bus) BusOperation.BusRdX address i false 0).sys.caches i address true (busOperation (Sys.mk (sys.caches.set i (Cache.mk (sys.caches.getD i default).coreId (sys.caches.getD i default).setIndexBits (sys.caches.getD i default).blockOffsetBits (sys.caches.getD i default).associativity (sys.caches.getD i default).sets true (sys.caches.getD i default).blockedCycles ((sys.caches.getD i default).stats.incrementAccesses.incrementWrites.incrementWriteMisses))) sys.bus) BusOperation.BusRdX address i false 0).cycles ((busOperation (Sys.mk (sys.caches.set i (Cache.mk (sys.caches.getD i default).coreId (sys.caches.getD i default).setIndexBits (sys.caches.getD i default).blockOffsetBits (sys.caches.getD i default).associativity (sys.caches.getD i default).sets true (sys.caches.getD i default).blockedCycles ((sys.caches.getD i default).stats.incrementAccesses.incrementWrites.incrementWriteMisses))) sys.bus) BusOperation.BusRdX address i false 0).accepted && (busOperation (Sys.mk (sys.caches.set i (Cache.mk (sys.caches.getD i default).coreId (sys.caches.getD i default).setIndexBits (sys.caches.getD i default).blockOffsetBits (sys.caches.getD i default).associativity (sys.caches.getD i default).sets true (sys.caches.getD i default).blockedCycles ((sys.caches.getD i default).stats.incrementAccesses.incrementWrites.incrementWriteMisses))) sys.bus) BusOperation.BusRdX address i false 0).dataProvided)).1.getD i default) with blockedCycles := if (allocateLine (busOperation (Sys.mk (sys.caches.set i (Cache.mk (sys.caches.getD i default).coreId (sys.caches.getD i default).setIndexBits (sys.caches.getD i default).blockOffsetBits (sys.caches.getD i default).associativity (sys.caches.getD i default).sets true (sys.caches.getD i default).blockedCycles ((sys.caches.getD i default).stats.incrementAccesses.incrementWrites.incrementWriteMisses))) sys.bus) BusOperation.BusRdX address i false 0).sys.caches i address true (busOperation (Sys.mk (sys.caches.set i (Cache.mk (sys.caches.getD i default).coreId (sys.caches.getD i default).setIndexBits (sys.caches.getD i default).blockOffsetBits (sys.caches.getD i default).associativity (sys.caches.getD i default).sets true (sys.caches.getD i default).blockedCycles ((sys.caches.getD i default).stats.incrementAccesses.incrementWrites.incrementWriteMisses))) sys.bus) BusOperation.BusRdX address i false 0).cycles ((busOperation (Sys.mk (sys.caches.set i (Cache.mk (sys.caches.getD i default).coreId (sys.caches.getD i default).setIndexBits (sys.caches.getD i default).blockOffsetBits (sys.caches.getD i default).associativity (sys.caches.getD i default).sets true (sys.caches.getD i default).blockedCycles ((sys.caches.getD i default).stats.incrementAccesses.incrementWrites.incrementWriteMisses))) sys.bus) BusOperation.BusRdX address i false 0).accepted && (busOperation (Sys.mk (sys.caches.set i (Cache.mk (sys.caches.getD i default).coreId (sys.caches.getD i default).setIndexBits (sys.caches.getD i default).blockOffsetBits (sys.caches.getD i default).associativity (sys.caches.getD i default).sets true (sys.caches.getD i default).blockedCycles ((sys.caches.getD i default).stats.incrementAccesses.incrementWrites.incrementWriteMisses))) sys.bus) BusOperation.BusRdX address i false 0).dataProvided)).2 > 0 then (allocateLine (busOperation (Sys.mk (sys.caches.set i (Cache.mk (sys.caches.getD i default).coreId (sys.caches.getD i default).setIndexBits (sys.caches.getD i default).blockOffsetBits (sys.caches.getD i default).associativity (sys.caches.getD i default).sets true (sys.caches.getD i default).blockedCycles ((sys.caches.getD i default).stats.incrementAccesses.incrementWrites.incrementWriteMisses))) sys.bus) BusOperation.BusRdX address i false 0).sys.caches i address true (busOperation (Sys.mk (sys.caches.set i (Cache.mk (sys.caches.getD i default).coreId (sys.caches.getD i default).setIndexBits (sys.caches.getD i default).blockOffsetBits (sys.caches.getD i default).associativity (sys.caches.getD i default).sets true (sys.caches.getD i default).blockedCycles ((sys.caches.getD i default).stats.incrementAccesses.incrementWrites.incrementWriteMisses))) sys.bus) BusOperation.BusRdX address i false 0).cycles ((busOperation (Sys.mk (sys.caches.set i (Cache.mk (sys.caches.getD i default).coreId (sys.caches.getD i default).setIndexBits (sys.caches.getD i default).blockOffsetBits (sys.caches.getD i default).associativity (sys.caches.getD i default).sets true (sys.caches.getD i default).blockedCycles ((sys.caches.getD i default).stats.incrementAccesses.incrementWrites.incrementWriteMisses))) sys.bus) BusOperation.BusRdX address i false 0).accepted && (busOperation (Sys.mk (sys.caches.set i (Cache.mk (sys.caches.getD i default).coreId (sys.caches.getD i default).setIndexBits (sys.caches.getD i default).blockOffsetBits (sys.caches.getD i default).associativity (sys.caches.getD i default).sets true (sys.caches.getD i default).blockedCycles ((sys.caches.getD i default).stats.incrementAccesses.incrementWrites.incrementWriteMisses))) sys.bus) BusOperation.BusRdX address i false 0).dataProvided)).2 - 1 else 0 }) : List Cache).length = n
        rw [List.length_set]
        exact g1
      · intro j hj
        show CacheWF sb bob assoc j ((((allocateLine (busOperation (Sys.mk (sys.caches.set i (Cache.mk (sys.caches.getD i default).coreId (sys.caches.getD i default).setIndexBits (sys.caches.getD i default).blockOffsetBits (sys.caches.getD i default).associativity (sys.caches.getD i default).sets true (sys.caches.getD i default).blockedCycles ((sys.caches.getD i default).stats.incrementAccesses.incrementWrites.incrementWriteMisses))) sys.bus) BusOperation.BusRdX address i false 0).sys.caches i address true (busOperation (Sys.mk (sys.caches.set i (Cache.mk (sys.caches.getD i default).coreId (sys.caches.getD i default).setIndexBits (sys.caches.getD i default).blockOffsetBits (sys.caches.getD i default).associativity (sys.caches.getD i default).sets true (sys.caches.getD i default).blockedCycles ((sys.caches.getD i default).stats.incrementAccesses.incrementWrites.incrementWriteMisses))) sys.bus) BusOperation.BusRdX address i false 0).cycles ((busOperation (Sys.mk (sys.caches.set i (Cache.mk (sys.caches.getD i default).coreId (sys.caches.getD i default).setIndexBits (sys.caches.getD i default).blockOffsetBits (sys.caches.getD i default).associativity (sys.caches.getD i default).sets true (sys.caches.getD i default).blockedCycles ((sys.caches.getD i default).stats.incrementAccesses.incrementWrites.incrementWriteMisses))) sys.bus) BusOperation.BusRdX address i false 0).accepted && (busOperation (Sys.mk (sys.caches.set i (Cache.mk (sys.caches.getD i default).coreId (sys.caches.getD i default).setIndexBits (sys.caches.getD i default).blockOffsetBits (sys.caches.getD i default).associativity (sys.caches.getD i default).sets true (sys.caches.getD i default).blockedCycles ((sys.caches.getD i default).stats.incrementAccesses.incrementWrites.incrementWriteMisses))) sys.bus) BusOperation.BusRdX address i false 0).dataProvided)).1.set i { ((allocateLine (busOperation (Sys.mk (sys.caches.set i (Cache.mk (sys.caches.getD i default).coreId (sys.caches.getD i default).setIndexBits (sys.caches.getD i default).blockOffsetBits (sys.caches.getD i default).associativity (sys.caches.getD i default).sets true (sys.caches.getD i default).blockedCycles ((sys.caches.getD i default).stats.incrementAccesses.incrementWrites.incrementWriteMisses))) sys.bus) BusOperation.BusRdX address i false 0).sys.caches i address true (busOperation (Sys.mk (sys.caches.set i (Cache.mk (sys.caches.getD i default).coreId (sys.caches.getD i default).setIndexBits (sys.caches.getD i default).blockOffsetBits (sys.caches.getD i default).associativity (sys.caches.getD i default).sets true (sys.caches.getD i default).blockedCycles ((sys.caches.getD i default).stats.incrementAccesses.incrementWrites.incrementWriteMisses))) sys.bus) BusOperation.BusRdX address i false 0).cycles ((busOperation (Sys.mk (sys.caches.set i (Cache.mk (sys.caches.getD i default).coreId (sys.caches.getD i default).setIndexBits (sys.caches.getD i default).blockOffsetBits (sys.caches.getD i default).associativity (sys.caches.getD i default).sets true (sys.caches.getD i default).blockedCycles ((sys.caches.getD i default).stats.incrementAccesses.incrementWrites.incrementWriteMisses))) sys.bus) BusOperation.BusRdX address i false 0).accepted && (busOperation (Sys.mk (sys.caches.set i (Cache.mk (sys.caches.getD i default).coreId (sys.caches.getD i default).setIndexBits (sys.caches.getD i default).blockOffsetBits (sys.caches.getD i default).associativity (sys.caches.getD i default).sets true (sys.caches.getD i default).blockedCycles ((sys.caches.getD i default).stats.incrementAccesses.incrementWrites.incrementWriteMisses))) sys.bus) BusOperation.BusRdX address i false 0).dataProvided)).1.getD i default) with blockedCycles := if (allocateLine (busOperation (Sys.mk (sys.caches.set i (Cache.mk (sys.caches.getD i default).coreId (sys.caches.getD i default).setIndexBits (sys.caches.getD i default).blockOffsetBits (sys.caches.getD i default).associativity (sys.caches.getD i default).sets true (sys.caches.getD i default).blockedCycles ((sys.caches.getD i default).stats.incrementAccesses.incrementWrites.incrementWriteMisses))) sys.bus) BusOperation.BusRdX address i false 0).sys.caches i address true (busOperation (Sys.mk (sys.caches.set i (Cache.mk (sys.caches.getD i default).coreId (sys.caches.getD i default).setIndexBits (sys.caches.getD i default).blockOffsetBits (sys.caches.getD i default).associativity (sys.caches.getD i default).sets true (sys.caches.getD i default).blockedCycles ((sys.caches.getD i default).stats.incrementAccesses.incrementWrites.incrementWriteMisses))) sys.bus) BusOperation.BusRdX address i false 0).cycles ((busOperation (Sys.mk (sys.caches.set i (Cache.mk (sys.caches.getD i default).coreId (sys.caches.getD i default).setIndexBits (sys.caches.getD i default).blockOffsetBits (sys.caches.getD i default).associativity (sys.caches.getD i default).sets true (sys.caches.getD i default).blockedCycles ((sys.caches.getD i default).stats.incrementAccesses.incrementWrites.incrementWriteMisses))) sys.bus) BusOperation.BusRdX address i false 0).accepted && (busOperation (Sys.mk (sys.caches.set i (Cache.mk (sys.caches.getD i default).coreId (sys.caches.getD i default).setIndexBits (sys.caches.getD i default).blockOffsetBits (sys.caches.getD i default).associativity (sys.caches.getD i default).sets true (sys.caches.getD i default).blockedCycles ((sys.caches.getD i default).stats.incrementAccesses.incrementWrites.incrementWriteMisses))) sys.bus) BusOperation.BusRdX address i false 0).dataProvided)).2 > 0 then (allocateLine (busOperation (Sys.mk (sys.caches.set i (Cache.mk (sys.caches.getD i default).coreId (sys.caches.getD i default).setIndexBits (sys.caches.getD i default).blockOffsetBits (sys.caches.getD i default).associativity (sys.caches.getD i default).sets true (sys.caches.getD i default).blockedCycles ((sys.caches.getD i default).stats.incrementAccesses.incrementWrites.incrementWriteMisses))) sys.bus) BusOperation.BusRdX address i false 0).sys.caches i address true (busOperation (Sys.mk (sys.caches.set i (Cache.mk (sys.caches.getD i default).coreId (sys.caches.getD i default).setIndexBits (sys.caches.getD i default).blockOffsetBits (sys.caches.getD i default).associativity (sys.caches.getD i default).sets true (sys.caches.getD i default).blockedCycles ((sys.caches.getD i default).stats.incrementAccesses.incrementWrites.incrementWriteMisses))) sys.bus) BusOperation.BusRdX address i false 0).cycles ((busOperation (Sys.mk (sys.caches.set i (Cache.mk (sys.caches.getD i default).coreId (sys.caches.getD i default).setIndexBits (sys.caches.getD i default).blockOffsetBits (sys.caches.getD i default).associativity (sys.caches.getD i default).sets true (sys.caches.getD i default).blockedCycles ((sys.caches.getD i default).stats.incrementAccesses.incrementWrites.incrementWriteMisses))) sys.bus) BusOperation.BusRdX address i false 0).accepted && (busOperation (Sys.mk (sys.caches.set i (Cache.mk (sys.caches.getD i default).coreId (sys.caches.getD i default).setIndexBits (sys.caches.getD i default).blockOffsetBits (sys.caches.getD i default).associativity (sys.caches.getD i default).sets true (sys.caches.getD i default).blockedCycles ((sys.caches.getD i default).stats.incrementAccesses.incrementWrites.incrementWriteMisses))) sys.bus) BusOperation.BusRdX address i false 0).dataProvided)).2 - 1 else 0 }) : List Cache).getD j default)
        by_cases hji : j = i
        · rw [hji, hFgI]
          exact g2 i hi
        · rw [hFgJ j hji]
          exact g2 j hj
      · show MesiOK n (((allocateLine (busOperation (Sys.mk (sys.caches.set i (Cache.mk (sys.caches.getD i default).coreId (sys.caches.getD i default).setIndexBits (sys.caches.getD i default).blockOffsetBits (sys.caches.getD i default).associativity (sys.caches.getD i default).sets true (sys.caches.getD i default).blockedCycles ((sys.caches.getD i default).stats.incrementAccesses.incrementWrites.incrementWriteMisses))) sys.bus) BusOperation.BusRdX address i false 0).sys.caches i address true (busOperation (Sys.mk (sys.caches.set i (Cache.mk (sys.caches.getD i default).coreId (sys.caches.getD i default).setIndexBits (sys.caches.getD i default).blockOffsetBits (sys.caches.getD i default).associativity (sys.caches.getD i default).sets true (sys.caches.getD i default).blockedCycles ((sys.caches.getD i default).stats.incrementAccesses.incrementWrites.incrementWriteMisses))) sys.bus) BusOperation.BusRdX address i false 0).cycles ((busOperation (Sys.mk (sys.caches.set i (Cache.mk (sys.caches.getD i default).coreId (sys.caches.getD i default).setIndexBits (sys.caches.getD i default).blockOffsetBits (sys.caches.getD i default).associativity (sys.caches.getD i default).sets true (sys.caches.getD i default).blockedCycles ((sys.caches.getD i default).stats.incrementAccesses.incrementWrites.incrementWriteMisses))) sys.bus) BusOperation.BusRdX address i false 0).accepted && (busOperation (Sys.mk (sys.caches.set i (Cache.mk (sys.caches.getD i default).coreId (sys.caches.getD i default).setIndexBits (sys.caches.getD i default).blockOffsetBits (sys.caches.getD i default).associativity (sys.caches.getD i default).sets true (sys.caches.getD i default).blockedCycles ((sys.caches.getD i default).stats.incrementAccesses.incrementWrites.incrementWriteMisses))) sys.bus) BusOperation.BusRdX address i false 0).dataProvided)).1.set i { ((allocateLine (busOperation (Sys.mk (sys.caches.set i (Cache.mk (sys.caches.getD i default).coreId (sys.caches.getD i default).setIndexBits (sys.caches.getD i default).blockOffsetBits (sys.caches.getD i default).associativity (sys.caches.getD i default).sets true (sys.caches.getD i default).blockedCycles ((sys.caches.getD i default).stats.incrementAccesses.incrementWrites.incrementWriteMisses))) sys.bus) BusOperation.BusRdX address i false 0).sys.caches i address true (busOperation (Sys.mk (sys.caches.set i (Cache.mk (sys.caches.getD i default).coreId (sys.caches.getD i default).setIndexBits (sys.caches.getD i default).blockOffsetBits (sys.caches.getD i default).associativity (sys.caches.getD i default).sets true (sys.caches.getD i default).blockedCycles ((sys.caches.getD i default).stats.incrementAccesses.incrementWrites.incrementWriteMisses))) sys.bus) BusOperation.BusRdX address i false 0).cycles ((busOperation (Sys.mk (sys.caches.set i (Cache.mk (sys.caches.getD i default).coreId (sys.caches.getD i default).setIndexBits (sys.caches.getD i default).blockOffsetBits (sys.caches.getD i default).associativity (sys.caches.getD i default).sets true (sys.caches.getD i default).blockedCycles ((sys.caches.getD i default).stats.incrementAccesses.incrementWrites.incrementWriteMisses))) sys.bus) BusOperation.BusRdX address i false 0).accepted && (busOperation (Sys.mk (sys.caches.set i (Cache.mk (sys.caches.getD i default).coreId (sys.caches.getD i default).setIndexBits (sys.caches.getD i default).blockOffsetBits (sys.caches.getD i default).associativity (sys.caches.getD i default).sets true (sys.caches.getD i default).blockedCycles ((sys.caches.getD i default).stats.incrementAccesses.incrementWrites.incrementWriteMisses))) sys.bus) BusOperation.BusRdX address i false 0).dataProvided)).1.getD i default) with blockedCycles := if (allocateLine (busOperation (Sys.mk (sys.caches.set i (Cache.mk (sys.caches.getD i default).coreId (sys.caches.getD i default).setIndexBits (sys.caches.getD i default).blockOffsetBits (sys.caches.getD i default).associativity (sys.caches.getD i default).sets true (sys.caches.getD i default).blockedCycles ((sys.caches.getD i default).stats.incrementAccesses.incrementWrites.incrementWriteMisses))) sys.bus) BusOperation.BusRdX address i false 0).sys.caches i address true (busOperation (Sys.mk (sys.caches.set i (Cache.mk (sys.caches.getD i default).coreId (sys.caches.getD i default).setIndexBits (sys.caches.getD i default).blockOffsetBits (sys.caches.getD i default).associativity (sys.caches.getD i default).sets true (sys.caches.getD i default).blockedCycles ((sys.caches.getD i default).stats.incrementAccesses.incrementWrites.incrementWriteMisses))) sys.bus) BusOperation.BusRdX address i false 0).cycles ((busOperation (Sys.mk (sys.caches.set i (Cache.mk (sys.caches.getD i default).coreId (sys.caches.getD i default).setIndexBits (sys.caches.getD i default).blockOffsetBits (sys.caches.getD i default).associativity (sys.caches.getD i default).sets true (sys.caches.getD i default).blockedCycles ((sys.caches.getD i default).stats.incrementAccesses.incrementWrites.incrementWriteMisses))) sys.bus) BusOperation.BusRdX address i false 0).accepted && (busOperation (Sys.mk (sys.caches.set i (Cache.mk (sys.caches.getD i default).coreId (sys.caches.getD i default).setIndexBits (sys.caches.getD i default).blockOffsetBits (sys.caches.getD i default).associativity (sys.caches.getD i default).sets true (sys.caches.getD i default).blockedCycles ((sys.caches.getD i default).stats.incrementAccesses.incrementWrites.incrementWriteMisses))) sys.bus) BusOperation.BusRdX address i false 0).dataProvided)).2 > 0 then (allocateLine (busOperation (Sys.mk (sys.caches.set i (Cache.mk (sys.caches.getD i default).coreId (sys.caches.getD i default).setIndexBits (sys.caches.getD i default).blockOffsetBits (sys.caches.getD i default).associativity (sys.caches.getD i default).sets true (sys.caches.getD i default).blockedCycles ((sys.caches.getD i default).stats.incrementAccesses.incrementWrites.incrementWriteMisses))) sys.bus) BusOperation.BusRdX address i false 0).sys.caches i address true (busOperation (Sys.mk (sys.caches.set i (Cache.mk (sys.caches.getD i default).coreId (sys.caches.getD i default).setIndexBits (sys.caches.getD i default).blockOffsetBits (sys.caches.getD i default).associativity (sys.caches.getD i default).sets true (sys.caches.getD i default).blockedCycles ((sys.caches.getD i default).stats.incrementAccesses.incrementWrites.incrementWriteMisses))) sys.bus) BusOperation.BusRdX address i false 0).cycles ((busOperation (Sys.mk (sys.caches.set i (Cache.mk (sys.caches.getD i default).coreId (sys.caches.getD i default).setIndexBits (sys.caches.getD i default).blockOffsetBits (sys.caches.getD i default).associativity (sys.caches.getD i default).sets true (sys.caches.getD i default).blockedCycles ((sys.caches.getD i default).stats.incrementAccesses.incrementWrites.incrementWriteMisses))) sys.bus) BusOperation.BusRdX address i false 0).accepted && (busOperation (Sys.mk (sys.caches.set i (Cache.mk (sys.caches.getD i default).coreId (sys.caches.getD i default).setIndexBits (sys.caches.getD i default).blockOffsetBits (sys.caches.getD i default).associativity (sys.caches.getD i default).sets true (sys.caches.getD i default).blockedCycles ((sys.caches.getD i default).stats.incrementAccesses.incrementWrites.incrementWriteMisses))) sys.bus) BusOperation.BusRdX address i false 0).dataProvided)).2 - 1 else 0 }) : List Cache)
        intro si tv a b ha hb hab hME
        rcases g5 with ⟨hunchS, hunchP⟩ | ⟨vt, hvtne, hInvVt, hunchS2, hrest⟩
        · have hPeerF : ∀ j, j < n → j ≠ i → (((allocateLine (busOperation (Sys.mk (sys.caches.set i (Cache.mk (sys.caches.getD i default).coreId (sys.caches.getD i default).setIndexBits (sys.caches.getD i default).blockOffsetBits (sys.caches.getD i default).associativity (sys.caches.getD i default).sets true (sys.caches.getD i default).blockedCycles ((sys.caches.getD i default).stats.incrementAccesses.incrementWrites.incrementWriteMisses))) sys.bus) BusOperation.BusRdX address i false 0).sys.caches i address true (busOperation (Sys.mk (sys.caches.set i (Cache.mk (sys.caches.getD i default).coreId (sys.caches.getD i default).setIndexBits (sys.caches.getD i default).blockOffsetBits (sys.caches.getD i default).associativity (sys.caches.getD i default).sets true (sys.caches.getD i default).blockedCycles ((sys.caches.getD i default).stats.incrementAccesses.incrementWrites.incrementWriteMisses))) sys.bus) BusOperation.BusRdX address i false 0).cycles ((busOperation (Sys.mk (sys.caches.set i (Cache.mk (sys.caches.getD i default).coreId (sys.caches.getD i default).setIndexBits (sys.caches.getD i default).blockOffsetBits (sys.caches.getD i default).associativity (sys.caches.getD i default).sets true (sys.caches.getD i default).blockedCycles ((sys.caches.getD i default).stats.incrementAccesses.incrementWrites.incrementWriteMisses))) sys.bus) BusOperation.BusRdX address i false 0).accepted && (busOperation (Sys.mk (sys.caches.set i (Cache.mk (sys.caches.getD i default).coreId (sys.caches.getD i default).setIndexBits (sys.caches.getD i default).blockOffsetBits (sys.caches.getD i default).associativity (sys.caches.getD i default).sets true (sys.caches.getD i default).blockedCycles ((sys.caches.getD i default).stats.incrementAccesses.incrementWrites.incrementWriteMisses))) sys.bus) BusOperation.BusRdX address i false 0).dataProvided)).1.set i { ((allocateLine (busOperation (Sys.mk (sys.caches.set i (Cache.mk (sys.caches.getD i default).coreId (sys.caches.getD i default).setIndexBits (sys.caches.getD i default).blockOffsetBits (sys.caches.getD i default).associativity (sys.caches.getD i default).sets true (sys.caches.getD i default).blockedCycles ((sys.caches.getD i default).stats.incrementAccesses.incrementWrites.incrementWriteMisses))) sys.bus) BusOperation.BusRdX address i false 0).sys.caches i address true (busOperation (Sys.mk (sys.caches.set i (Cache.mk (sys.caches.getD i default).coreId (sys.caches.getD i default).setIndexBits (sys.caches.getD i default).blockOffsetBits (sys.caches.getD i default).associativity (sys.caches.getD i default).sets true (sys.caches.getD i default).blockedCycles ((sys.caches.getD i default).stats.incrementAccesses.incrementWrites.incrementWriteMisses))) sys.bus) BusOperation.BusRdX address i false 0).cycles ((busOperation (Sys.mk (sys.caches.set i (Cache.mk (sys.caches.getD i default).coreId (sys.caches.getD i default).setIndexBits (sys.caches.getD i default).blockOffsetBits (sys.caches.getD i default).associativity (sys.caches.getD i default).sets true (sys.caches.getD i default).blockedCycles ((sys.caches.getD i default).stats.incrementAccesses.incrementWrites.incrementWriteMisses))) sys.bus) BusOperation.BusRdX address i false 0).accepted && (busOperation (Sys.mk (sys.caches.set i (Cache.mk (sys.caches.getD i default).coreId (sys.caches.getD i default).setIndexBits (sys.caches.getD i default).blockOffsetBits (sys.caches.getD i default).associativity (sys.caches.getD i default).sets true (sys.caches.getD i default).blockedCycles ((sys.caches.getD i default).stats.incrementAccesses.incrementWrites.incrementWriteMisses))) sys.bus) BusOperation.BusRdX address i false 0).dataProvided)).1.getD i default) with blockedCycles := if (allocateLine (busOperation (Sys.mk (sys.caches.set i (Cache.mk (sys.caches.getD i default).coreId (sys.caches.getD i default).setIndexBits (sys.caches.getD i default).blockOffsetBits (sys.caches.getD i default).associativity (sys.caches.getD i default).sets true (sys.caches.getD i default).blockedCycles ((sys.caches.getD i default).stats.incrementAccesses.incrementWrites.incrementWriteMisses))) sys.bus) BusOperation.BusRdX address i false 0).sys.caches i address true (busOperation (Sys.mk (sys.caches.set i (Cache.mk (sys.caches.getD i default).coreId (sys.caches.getD i default).setIndexBits (sys.caches.getD i default).blockOffsetBits (sys.caches.getD i default).associativity (sys.caches.getD i default).sets true (sys.caches.getD i default).blockedCycles ((sys.caches.getD i default).stats.incrementAccesses.incrementWrites.incrementWriteMisses))) sys.bus) BusOperation.BusRdX address i false 0).cycles ((busOperation (Sys.mk (sys.caches.set i (Cache.mk (sys.caches.getD i default).coreId (sys.caches.getD i default).setIndexBits (sys.caches.getD i default).blockOffsetBits (sys.caches.getD i default).associativity (sys.caches.getD i default).sets true (sys.caches.getD i default).blockedCycles ((sys.caches.getD i default).stats.incrementAccesses.incrementWrites.incrementWriteMisses))) sys.bus) BusOperation.BusRdX address i false 0).accepted && (busOperation (Sys.mk (sys.caches.set i (Cache.mk (sys.caches.getD i default).coreId (sys.caches.getD i default).setIndexBits (sys.caches.getD i default).blockOffsetBits (sys.caches.getD i default).associativity (sys.caches.getD i default).sets true (sys.caches.getD i default).blockedCycles ((sys.caches.getD i default).stats.incrementAccesses.incrementWrites.incrementWriteMisses))) sys.bus) BusOperation.BusRdX address i false 0).dataProvided)).2 > 0 then (allocateLine (busOperation (Sys.mk (sys.caches.set i (Cache.mk (sys.caches.getD i default).coreId (sys.caches.getD i default).setIndexBits (sys.caches.getD i default).blockOffsetBits (sys.caches.getD i default).associativity (sys.caches.getD i default).sets true (sys.caches.getD i default).blockedCycles ((sys.caches.getD i default).stats.incrementAccesses.incrementWrites.incrementWriteMisses))) sys.bus) BusOperation.BusRdX address i false 0).sys.caches i address true (busOperation (Sys.mk (sys.caches.set i (Cache.mk (sys.caches.getD i default).coreId (sys.caches.getD i default).setIndexBits (sys.caches.getD i default).blockOffsetBits (sys.caches.getD i default).associativity (sys.caches.getD i default).sets true (sys.caches.getD i default).blockedCycles ((sys.caches.getD i default).stats.incrementAccesses.incrementWrites.incrementWriteMisses))) sys.bus) BusOperation.BusRdX address i false 0).cycles ((busOperation (Sys.mk (sys.caches.set i (Cache.mk (sys.caches.getD i default).coreId (sys.caches.getD i default).setIndexBits (sys.caches.getD i default).blockOffsetBits (sys.caches.getD i default).associativity (sys.caches.getD i default).sets true (sys.caches.getD i default).blockedCycles ((sys.caches.getD i default).stats.incrementAccesses.incrementWrites.incrementWriteMisses))) sys.bus) BusOperation.BusRdX address i false 0).accepted && (busOperation (Sys.mk (sys.caches.set i (Cache.mk (sys.caches.getD i default).coreId (sys.caches.getD i default).setIndexBits (sys.caches.getD i default).blockOffsetBits (sys.caches.getD i default).associativity (sys.caches.getD i default).sets true (sys.caches.getD i default).blockedCycles ((sys.caches.getD i default).stats.incrementAccesses.incrementWrites.incrementWriteMisses))) sys.bus) BusOperation.BusRdX address i false 0).dataProvided)).2 - 1 else 0 }) : List Cache).getD j default
              = (busOperation (Sys.mk (sys.caches.set i (Cache.mk (sys.caches.getD i default).coreId (sys.caches.getD i default).setIndexBits (sys.caches.getD i default).blockOffsetBits (sys.caches.getD i default).associativity (sys.caches.getD i default).sets true (sys.caches.getD i default).blockedCycles ((sys.caches.getD i default).stats.incrementAccesses.incrementWrites.incrementWriteMisses))) sys.bus) BusOperation.BusRdX address i false 0).sys.caches.getD j default := by
            intro j hj hji
            rw [hFgJ j hji]
            exact hunchP j hji
          have hPTA : ∀ j, j < n → j ≠ i →
              ((((allocateLine (busOperation (Sys.mk (sys.caches.set i (Cache.mk (sys.caches.getD i default).coreId (sys.caches.getD i default).setIndexBits (sys.caches.getD i default).blockOffsetBits (sys.caches.getD i default).associativity (sys.caches.getD i default).sets true (sys.caches.getD i default).blockedCycles ((sys.caches.getD i default).stats.incrementAccesses.incrementWrites.incrementWriteMisses))) sys.bus) BusOperation.BusRdX address i false 0).sys.caches i address true (busOperation (Sys.mk (sys.caches.set i (Cache.mk (sys.caches.getD i default).coreId (sys.caches.getD i default).setIndexBits (sys.caches.getD i default).blockOffsetBits (sys.caches.getD i default).associativity (sys.caches.getD i default).sets true (sys.caches.getD i default).blockedCycles ((sys.caches.getD i default).stats.incrementAccesses.incrementWrites.incrementWriteMisses))) sys.bus) BusOperation.BusRdX address i false 0).cycles ((busOperation (Sys.mk (sys.caches.set i (Cache.mk (sys.caches.getD i default).coreId (sys.caches.getD i default).setIndexBits (sys.caches.getD i default).blockOffsetBits (sys.caches.getD i default).associativity (sys.caches.getD i default).sets true (sys.caches.getD i default).blockedCycles ((sys.caches.getD i default).stats.incrementAccesses.incrementWrites.incrementWriteMisses))) sys.bus) BusOperation.BusRdX address i false 0).accepted && (busOperation (Sys.mk (sys.caches.set i (Cache.mk (sys.caches.getD i default).coreId (sys.caches.getD i default).setIndexBits (sys.caches.getD i default).blockOffsetBits (sys.caches.getD i default).associativity (sys.caches.getD i default).sets true (sys.caches.getD i default).blockedCycles ((sys.caches.getD i default).stats.incrementAccesses.incrementWrites.incrementWriteMisses))) sys.bus) BusOperation.BusRdX address i false 0).dataProvided)).1.set i { ((allocateLine (busOperation (Sys.mk (sys.caches.set i (Cache.mk (sys.caches.getD i default).coreId (sys.caches.getD i default).setIndexBits (sys.caches.getD i default).blockOffsetBits (sys.caches.getD i default).associativity (sys.caches.getD i default).sets true (sys.caches.getD i default).blockedCycles ((sys.caches.getD i default).stats.incrementAccesses.incrementWrites.incrementWriteMisses))) sys.bus) BusOperation.BusRdX address i false 0).sys.caches i address true (busOperation (Sys.mk (sys.caches.set i (Cache.mk (sys.caches.getD i default).coreId (sys.caches.getD i default).setIndexBits (sys.caches.getD i default).blockOffsetBits (sys.caches.getD i default).associativity (sys.caches.getD i default).sets true (sys.caches.getD i default).blockedCycles ((sys.caches.getD i default).stats.incrementAccesses.incrementWrites.incrementWriteMisses))) sys.bus) BusOperation.BusRdX address i false 0).cycles ((busOperation (Sys.mk (sys.caches.set i (Cache.mk (sys.caches.getD i default).coreId (sys.caches.getD i default).setIndexBits (sys.caches.getD i default).blockOffsetBits (sys.caches.getD i default).associativity (sys.caches.getD i default).sets true (sys.caches.getD i default).blockedCycles ((sys.caches.getD i default).stats.incrementAccesses.incrementWrites.incrementWriteMisses))) sys.bus) BusOperation.BusRdX address i false 0).accepted && (busOperation (Sys.mk (sys.caches.set i (Cache.mk (sys.caches.getD i default).coreId (sys.caches.getD i default).setIndexBits (sys.caches.getD i default).blockOffsetBits (sys.caches.getD i default).associativity (sys.caches.getD i default).sets true (sys.caches.getD i default).blockedCycles ((sys.caches.getD i default).stats.incrementAccesses.incrementWrites.incrementWriteMisses))) sys.bus) BusOperation.BusRdX address i false 0).dataProvided)).1.getD i default) with blockedCycles := if (allocateLine (busOperation (Sys.mk (sys.caches.set i (Cache.mk (sys.caches.getD i default).coreId (sys.caches.getD i default).setIndexBits (sys.caches.getD i default).blockOffsetBits (sys.caches.getD i default).associativity (sys.caches.getD i default).sets true (sys.caches.getD i default).blockedCycles ((sys.caches.getD i default).stats.incrementAccesses.incrementWrites.incrementWriteMisses))) sys.bus) BusOperation.BusRdX address i false 0).sys.caches i address true (busOperation (Sys.mk (sys.caches.set i (Cache.mk (sys.caches.getD i default).coreId (sys.caches.getD i default).setIndexBits (sys.caches.getD i default).blockOffsetBits (sys.caches.getD i default).associativity (sys.caches.getD i default).sets true (sys.caches.getD i default).blockedCycles ((sys.caches.getD i default).stats.incrementAccesses.incrementWrites.incrementWriteMisses))) sys.bus) BusOperation.BusRdX address i false 0).cycles ((busOperation (Sys.mk (sys.caches.set i (Cache.mk (sys.caches.getD i default).coreId (sys.caches.getD i default).setIndexBits (sys.caches.getD i default).blockOffsetBits (sys.caches.getD i default).associativity (sys.caches.getD i default).sets true (sys.caches.getD i default).blockedCycles ((sys.caches.getD i default).stats.incrementAccesses.incrementWrites.incrementWriteMisses))) sys.bus) BusOperation.BusRdX address i false 0).accepted && (busOperation (Sys.mk (sys.caches.set i (Cache.mk (sys.caches.getD i default).coreId (sys.caches.getD i default).setIndexBits (sys.caches.getD i default).blockOffsetBits (sys.caches.getD i default).associativity (sys.caches.getD i default).sets true (sys.caches.getD i default).blockedCycles ((sys.caches.getD i default).stats.incrementAccesses.incrementWrites.incrementWriteMisses))) sys.bus) BusOperation.BusRdX address i false 0).dataProvided)).2 > 0 then (allocateLine (busOperation (Sys.mk (sys.caches.set i (Cache.mk (sys.caches.getD i default).coreId (sys.caches.getD i default).setIndexBits (sys.caches.getD i default).blockOffsetBits (sys.caches.getD i default).associativity (sys.caches.getD i default).sets true (sys.caches.getD i default).blockedCycles ((sys.caches.getD i default).stats.incrementAccesses.incrementWrites.incrementWriteMisses))) sys.bus) BusOperation.BusRdX address i false 0).sys.caches i address true (busOperation (Sys.mk (sys.caches.set i (Cache.mk (sys.caches.getD i default).coreId (sys.caches.getD i default).setIndexBits (sys.caches.getD i default).blockOffsetBits (sys.caches.getD i default).associativity (sys.caches.getD i default).sets true (sys.caches.getD i default).blockedCycles ((sys.caches.getD i default).stats.incrementAccesses.incrementWrites.incrementWriteMisses))) sys.bus) BusOperation.BusRdX address i false 0).cycles ((busOperation (Sys.mk (sys.caches.set i (Cache.mk (sys.caches.getD i default).coreId (sys.caches.getD i default).setIndexBits (sys.caches.getD i default).blockOffsetBits (sys.caches.getD i default).associativity (sys.caches.getD i default).sets true (sys.caches.getD i default).blockedCycles ((sys.caches.getD i default).stats.incrementAccesses.incrementWrites.incrementWriteMisses))) sys.bus) BusOperation.BusRdX address i false 0).accepted && (busOperation (Sys.mk (sys.caches.set i (Cache.mk (sys.caches.getD i default).coreId (sys.caches.getD i default).setIndexBits (sys.caches.getD i default).blockOffsetBits (sys.caches.getD i default).associativity (sys.caches.getD i default).sets true (sys.caches.getD i default).blockedCycles ((sys.caches.getD i default).stats.incrementAccesses.incrementWrites.incrementWriteMisses))) sys.bus) BusOperation.BusRdX address i false 0).dataProvided)).2 - 1 else 0 }) : List Cache).getD j default).stateAt (addrSetIdx sb bob address) (addrTag sb bob address)
                = snoopNext BusOperation.BusRdX
                    ((sys.caches.getD j default).stateAt (addrSetIdx sb bob address) (addrTag sb bob address)) := by
            intro j hj hji
            rw [hPeerF j hj hji, hPreTA j hj hji]
          by_cases hTA2 : si = (addrSetIdx sb bob address) ∧ tv = (addrTag sb bob address)
          · obtain ⟨h1, h2⟩ := hTA2
            subst h1
            subst h2
            by_cases hbi : b = i
            · exfalso
              have hai : a ≠ i := by rw [← hbi]; exact hab
              rw [hPTA a ha hai, snoopNext_BusRdX_eq_INVALID] at hME
              rcases hME with h | h
              · cases h
              · cases h
            · rw [hPTA b hb hbi, snoopNext_BusRdX_eq_INVALID]
          · have hne : si ≠ (addrSetIdx sb bob address) ∨ tv ≠ (addrTag sb bob address) := not_and_or.mp hTA2
            have hstF : ∀ j, j < n → ((((allocateLine (busOperation (Sys.mk (sys.caches.set i (Cache.mk (sys.caches.getD i default).coreId (sys.caches.getD i default).setIndexBits (sys.caches.getD i default).blockOffsetBits (sys.caches.getD i default).associativity (sys.caches.getD i default).sets true (sys.caches.getD i default).blockedCycles ((sys.caches.getD i default).stats.incrementAccesses.incrementWrites.incrementWriteMisses))) sys.bus) BusOperation.BusRdX address i false 0).sys.caches i address true (busOperation (Sys.mk (sys.caches.set i (Cache.mk (sys.caches.getD i default).coreId (sys.caches.getD i default).setIndexBits (sys.caches.getD i default).blockOffsetBits (sys.caches.getD i default).associativity (sys.caches.getD i default).sets true (sys.caches.getD i default).blockedCycles ((sys.caches.getD i default).stats.incrementAccesses.incrementWrites.incrementWriteMisses))) sys.bus) BusOperation.BusRdX address i false 0).cycles ((busOperation (Sys.mk (sys.caches.set i (Cache.mk (sys.caches.getD i default).coreId (sys.caches.getD i default).setIndexBits (sys.caches.getD i default).blockOffsetBits (sys.caches.getD i default).associativity (sys.caches.getD i default).sets true (sys.caches.getD i default).blockedCycles ((sys.caches.getD i default).stats.incrementAccesses.incrementWrites.incrementWriteMisses))) sys.bus) BusOperation.BusRdX address i false 0).accepted && (busOperation (Sys.mk (sys.caches.set i (Cache.mk (sys.caches.getD i default).coreId (sys.caches.getD i default).setIndexBits (sys.caches.getD i default).blockOffsetBits (sys.caches.getD i default).associativity (sys.caches.getD i default).sets true (sys.caches.getD i default).blockedCycles ((sys.caches.getD i default).stats.incrementAccesses.incrementWrites.incrementWriteMisses))) sys.bus) BusOperation.BusRdX address i false 0).dataProvided)).1.set i { ((allocateLine (busOperation (Sys.mk (sys.caches.set i (Cache.mk (sys.caches.getD i default).coreId (sys.caches.getD i default).setIndexBits (sys.caches.getD i default).blockOffsetBits (sys.caches.getD i default).associativity (sys.caches.getD i default).sets true (sys.caches.getD i default).blockedCycles ((sys.caches.getD i default).stats.incrementAccesses.incrementWrites.incrementWriteMisses))) sys.bus) BusOperation.BusRdX address i false 0).sys.caches i address true (busOperation (Sys.mk (sys.caches.set i (Cache.mk (sys.caches.getD i default).coreId (sys.caches.getD i default).setIndexBits (sys.caches.getD i default).blockOffsetBits (sys.caches.getD i default).associativity (sys.caches.getD i default).sets true (sys.caches.getD i default).blockedCycles ((sys.caches.getD i default).stats.incrementAccesses.incrementWrites.incrementWriteMisses))) sys.bus) BusOperation.BusRdX address i false 0).cycles ((busOperation (Sys.mk (sys.caches.set i (Cache.mk (sys.caches.getD i default).coreId (sys.caches.getD i default).setIndexBits (sys.caches.getD i default).blockOffsetBits (sys.caches.getD i default).associativity (sys.caches.getD i default).sets true (sys.caches.getD i default).blockedCycles ((sys.caches.getD i default).stats.incrementAccesses.incrementWrites.incrementWriteMisses))) sys.bus) BusOperation.BusRdX address i false 0).accepted && (busOperation (Sys.mk (sys.caches.set i (Cache.mk (sys.caches.getD i default).coreId (sys.caches.getD i default).setIndexBits (sys.caches.getD i default).blockOffsetBits (sys.caches.getD i default).associativity (sys.caches.getD i default).sets true (sys.caches.getD i default).blockedCycles ((sys.caches.getD i default).stats.incrementAccesses.incrementWrites.incrementWriteMisses))) sys.bus) BusOperation.BusRdX address i false 0).dataProvided)).1.getD i default) with blockedCycles := if (allocateLine (busOperation (Sys.mk (sys.caches.set i (Cache.mk (sys.caches.getD i default).coreId (sys.caches.getD i default).setIndexBits (sys.caches.getD i default).blockOffsetBits (sys.caches.getD i default).associativity (sys.caches.getD i default).sets true (sys.caches.getD i default).blockedCycles ((sys.caches.getD i default).stats.incrementAccesses.incrementWrites.incrementWriteMisses))) sys.bus) BusOperation.BusRdX address i false 0).sys.caches i address true (busOperation (Sys.mk (sys.caches.set i (Cache.mk (sys.caches.getD i default).coreId (sys.caches.getD i default).setIndexBits (sys.caches.getD i default).blockOffsetBits (sys.caches.getD i default).associativity (sys.caches.getD i default).sets true (sys.caches.getD i default).blockedCycles ((sys.caches.getD i default).stats.incrementAccesses.incrementWrites.incrementWriteMisses))) sys.bus) BusOperation.BusRdX address i false 0).cycles ((busOperation (Sys.mk (sys.caches.set i (Cache.mk (sys.caches.getD i default).coreId (sys.caches.getD i default).setIndexBits (sys.caches.getD i default).blockOffsetBits (sys.caches.getD i default).associativity (sys.caches.getD i default).sets true (sys.caches.getD i default).blockedCycles ((sys.caches.getD i default).stats.incrementAccesses.incrementWrites.incrementWriteMisses))) sys.bus) BusOperation.BusRdX address i false 0).accepted && (busOperation (Sys.mk (sys.caches.set i (Cache.mk (sys.caches.getD i default).coreId (sys.caches.getD i default).setIndexBits (sys.caches.getD i default).blockOffsetBits (sys.caches.getD i default).associativity (sys.caches.getD i default).sets true (sys.caches.getD i default).blockedCycles ((sys.caches.getD i default).stats.incrementAccesses.incrementWrites.incrementWriteMisses))) sys.bus) BusOperation.BusRdX address i false 0).dataProvided)).2 > 0 then (allocateLine (busOperation (Sys.mk (sys.caches.set i (Cache.mk (sys.caches.getD i default).coreId (sys.caches.getD i default).setIndexBits (sys.caches.getD i default).blockOffsetBits (sys.caches.getD i default).associativity (sys.caches.getD i default).sets true (sys.caches.getD i default).blockedCycles ((sys.caches.getD i default).stats.incrementAccesses.incrementWrites.incrementWriteMisses))) sys.bus) BusOperation.BusRdX address i false 0).sys.caches i address true (busOperation (Sys.mk (sys.caches.set i (Cache.mk (sys.caches.getD i default).coreId (sys.caches.getD i default).setIndexBits (sys.caches.getD i default).blockOffsetBits (sys.caches.getD i default).associativity (sys.caches.getD i default).sets true (sys.caches.getD i default).blockedCycles ((sys.caches.getD i default).stats.incrementAccesses.incrementWrites.incrementWriteMisses))) sys.bus) BusOperation.BusRdX address i false 0).cycles ((busOperation (Sys.mk (sys.caches.set i (Cache.mk (sys.caches.getD i default).coreId (sys.caches.getD i default).setIndexBits (sys.caches.getD i default).blockOffsetBits (sys.caches.getD i default).associativity (sys.caches.getD i default).sets true (sys.caches.getD i default).blockedCycles ((sys.caches.getD i default).stats.incrementAccesses.incrementWrites.incrementWriteMisses))) sys.bus) BusOperation.BusRdX address i false 0).accepted && (busOperation (Sys.mk (sys.caches.set i (Cache.mk (sys.caches.getD i default).coreId (sys.caches.getD i default).setIndexBits (sys.caches.getD i default).blockOffsetBits (sys.caches.getD i default).associativity (sys.caches.getD i default).sets true (sys.caches.getD i default).blockedCycles ((sys.caches.getD i default).stats.incrementAccesses.incrementWrites.incrementWriteMisses))) sys.bus) BusOperation.BusRdX address i false 0).dataProvided)).2 - 1 else 0 }) : List Cache).getD j default).stateAt si tv
                = (sys.caches.getD j default).stateAt si tv := by
              intro j hj
              by_cases hji : j = i
              · rw [hji, hFself, hunchS si tv hne, hPreSelf]
              · rw [hPeerF j hj hji, hPreOther j hj hji si tv hne]
            rw [hstF b hb]
            rw [hstF a ha] at hME
            exact hmesi si tv a b ha hb hab hME
        · rcases hrest with hunchP2 | ⟨p, hp, hpi, e81, e82, e83, e84, e85, e86⟩
          · have hPeerF : ∀ j, j < n → j ≠ i → (((allocateLine (busOperation (Sys.mk (sys.caches.set i (Cache.mk (sys.caches.getD i default).coreId (sys.caches.getD i default).setIndexBits (sys.caches.getD i default).blockOffsetBits (sys.caches.getD i default).associativity (sys.caches.getD i default).sets true (sys.caches.getD i default).blockedCycles ((sys.caches.getD i default).stats.incrementAccesses.incrementWrites.incrementWriteMisses))) sys.bus) BusOperation.BusRdX address i false 0).sys.caches i address true (busOperation (Sys.mk (sys.caches.set i (Cache.mk (sys.caches.getD i default).coreId (sys.caches.getD i default).setIndexBits (sys.caches.getD i default).blockOffsetBits (sys.caches.getD i default).associativity (sys.caches.getD i default).sets true (sys.caches.getD i default).blockedCycles ((sys.caches.getD i default).stats.incrementAccesses.incrementWrites.incrementWriteMisses))) sys.bus) BusOperation.BusRdX address i false 0).cycles ((busOperation (Sys.mk (sys.caches.set i (Cache.mk (sys.caches.getD i default).coreId (sys.caches.getD i default).setIndexBits (sys.caches.getD i default).blockOffsetBits (sys.caches.getD i default).associativity (sys.caches.getD i default).sets true (sys.caches.getD i default).blockedCycles ((sys.caches.getD i default).stats.incrementAccesses.incrementWrites.incrementWriteMisses))) sys.bus) BusOperation.BusRdX address i false 0).accepted && (busOperation (Sys.mk (sys.caches.set i (Cache.mk (sys.caches.getD i default).coreId (sys.caches.getD i default).setIndexBits (sys.caches.getD i default).blockOffsetBits (sys.caches.getD i default).associativity (sys.caches.getD i default).sets true (sys.caches.getD i default).blockedCycles ((sys.caches.getD i default).stats.incrementAccesses.incrementWrites.incrementWriteMisses))) sys.bus) BusOperation.BusRdX address i false 0).dataProvided)).1.set i { ((allocateLine (busOperation (Sys.mk (sys.caches.set i (Cache.mk (sys.caches.getD i default).coreId (sys.caches.getD i default).setIndexBits (sys.caches.getD i default).blockOffsetBits (sys.caches.getD i default).associativity (sys.caches.getD i default).sets true (sys.caches.getD i default).blockedCycles ((sys.caches.getD i default).stats.incrementAccesses.incrementWrites.incrementWriteMisses))) sys.bus) BusOperation.BusRdX address i false 0).sys.caches i address true (busOperation (Sys.mk (sys.caches.set i (Cache.mk (sys.caches.getD i default).coreId (sys.caches.getD i default).setIndexBits (sys.caches.getD i default).blockOffsetBits (sys.caches.getD i default).associativity (sys.caches.getD i default).sets true (sys.caches.getD i default).blockedCycles ((sys.caches.getD i default).stats.incrementAccesses.incrementWrites.incrementWriteMisses))) sys.bus) BusOperation.BusRdX address i false 0).cycles ((busOperation (Sys.mk (sys.caches.set i (Cache.mk (sys.caches.getD i default).coreId (sys.caches.getD i default).setIndexBits (sys.caches.getD i default).blockOffsetBits (sys.caches.getD i default).associativity (sys.caches.getD i default).sets true (sys.caches.getD i default).blockedCycles ((sys.caches.getD i default).stats.incrementAccesses.incrementWrites.incrementWriteMisses))) sys.bus) BusOperation.BusRdX address i false 0).accepted && (busOperation (Sys.mk (sys.caches.set i (Cache.mk (sys.caches.getD i default).coreId (sys.caches.getD i default).setIndexBits (sys.caches.getD i default).blockOffsetBits (sys.caches.getD i default).associativity (sys.caches.getD i default).sets true (sys.caches.getD i default).blockedCycles ((sys.caches.getD i default).stats.incrementAccesses.incrementWrites.incrementWriteMisses))) sys.bus) BusOperation.BusRdX address i false 0).dataProvided)).1.getD i default) with blockedCycles := if (allocateLine (busOperation (Sys.mk (sys.caches.set i (Cache.mk (sys.caches.getD i default).coreId (sys.caches.getD i default).setIndexBits (sys.caches.getD i default).blockOffsetBits (sys.caches.getD i default).associativity (sys.caches.getD i default).sets true (sys.caches.getD i default).blockedCycles ((sys.caches.getD i default).stats.incrementAccesses.incrementWrites.incrementWriteMisses))) sys.bus) BusOperation.BusRdX address i false 0).sys.caches i address true (busOperation (Sys.mk (sys.caches.set i (Cache.mk (sys.caches.getD i default).coreId (sys.caches.getD i default).setIndexBits (sys.caches.getD i default).blockOffsetBits (sys.caches.getD i default).associativity (sys.caches.getD i default).sets true (sys.caches.getD i default).blockedCycles ((sys.caches.getD i default).stats.incrementAccesses.incrementWrites.incrementWriteMisses))) sys.bus) BusOperation.BusRdX address i false 0).cycles ((busOperation (Sys.mk (sys.caches.set i (Cache.mk (sys.caches.getD i default).coreId (sys.caches.getD i default).setIndexBits (sys.caches.getD i default).blockOffsetBits (sys.caches.getD i default).associativity (sys.caches.getD i default).sets true (sys.caches.getD i default).blockedCycles ((sys.caches.getD i default).stats.incrementAccesses.incrementWrites.incrementWriteMisses))) sys.bus) BusOperation.BusRdX address i false 0).accepted && (busOperation (Sys.mk (sys.caches.set i (Cache.mk (sys.caches.getD i default).coreId (sys.caches.getD i default).setIndexBits (sys.caches.getD i default).blockOffsetBits (sys.caches.getD i default).associativity (sys.caches.getD i default).sets true (sys.caches.getD i default).blockedCycles ((sys.caches.getD i default).stats.incrementAccesses.incrementWrites.incrementWriteMisses))) sys.bus) BusOperation.BusRdX address i false 0).dataProvided)).2 > 0 then (allocateLine (busOperation (Sys.mk (sys.caches.set i (Cache.mk (sys.caches.getD i default).coreId (sys.caches.getD i default).setIndexBits (sys.caches.getD i default).blockOffsetBits (sys.caches.getD i default).associativity (sys.caches.getD i default).sets true (sys.caches.getD i default).blockedCycles ((sys.caches.getD i default).stats.incrementAccesses.incrementWrites.incrementWriteMisses))) sys.bus) BusOperation.BusRdX address i false 0).sys.caches i address true (busOperation (Sys.mk (sys.caches.set i (Cache.mk (sys.caches.getD i default).coreId (sys.caches.getD i default).setIndexBits (sys.caches.getD i default).blockOffsetBits (sys.caches.getD i default).associativity (sys.caches.getD i default).sets true (sys.caches.getD i default).blockedCycles ((sys.caches.getD i default).stats.incrementAccesses.incrementWrites.incrementWriteMisses))) sys.bus) BusOperation.BusRdX address i false 0).cycles ((busOperation (Sys.mk (sys.caches.set i (Cache.mk (sys.caches.getD i default).coreId (sys.caches.getD i default).setIndexBits (sys.caches.getD i default).blockOffsetBits (sys.caches.getD i default).associativity (sys.caches.getD i default).sets true (sys.caches.getD i default).blockedCycles ((sys.caches.getD i default).stats.incrementAccesses.incrementWrites.incrementWriteMisses))) sys.bus) BusOperation.BusRdX address i false 0).accepted && (busOperation (Sys.mk (sys.caches.set i (Cache.mk (sys.caches.getD i default).coreId (sys.caches.getD i default).setIndexBits (sys.caches.getD i default).blockOffsetBits (sys.caches.getD i default).associativity (sys.caches.getD i default).sets true (sys.caches.getD i default).blockedCycles ((sys.caches.getD i default).stats.incrementAccesses.incrementWrites.incrementWriteMisses))) sys.bus) BusOperation.BusRdX address i false 0).dataProvided)).2 - 1 else 0 }) : List Cache).getD j default
                = (busOperation (Sys.mk (sys.caches.set i (Cache.mk (sys.caches.getD i default).coreId (sys.caches.getD i default).setIndexBits (sys.caches.getD i default).blockOffsetBits (sys.caches.getD i default).associativity (sys.caches.getD i default).sets true (sys.caches.getD i default).blockedCycles ((sys.caches.getD i default).stats.incrementAccesses.incrementWrites.incrementWriteMisses))) sys.bus) BusOperation.BusRdX address i false 0).sys.caches.getD j default := by
              intro j hj hji
              rw [hFgJ j hji]
              exact hunchP2 j hji
            have hPTA : ∀ j, j < n → j ≠ i →
                ((((allocateLine (busOperation (Sys.mk (sys.caches.set i (Cache.mk (sys.caches.getD i default).coreId (sys.caches.getD i default).setIndexBits (sys.caches.getD i default).blockOffsetBits (sys.caches.getD i default).associativity (sys.caches.getD i default).sets true (sys.caches.getD i default).blockedCycles ((sys.caches.getD i default).stats.incrementAccesses.incrementWrites.incrementWriteMisses))) sys.bus) BusOperation.BusRdX address i false 0).sys.caches i address true (busOperation (Sys.mk (sys.caches.set i (Cache.mk (sys.caches.getD i default).coreId (sys.caches.getD i default).setIndexBits (sys.caches.getD i default).blockOffsetBits (sys.caches.getD i default).associativity (sys.caches.getD i default).sets true (sys.caches.getD i default).blockedCycles ((sys.caches.getD i default).stats.incrementAccesses.incrementWrites.incrementWriteMisses))) sys.bus) BusOperation.BusRdX address i false 0).cycles ((busOperation (Sys.mk (sys.caches.set i (Cache.mk (sys.caches.getD i default).coreId (sys.caches.getD i default).setIndexBits (sys.caches.getD i default).blockOffsetBits (sys.caches.getD i default).associativity (sys.caches.getD i default).sets true (sys.caches.getD i default).blockedCycles ((sys.caches.getD i default).stats.incrementAccesses.incrementWrites.incrementWriteMisses))) sys.bus) BusOperation.BusRdX address i false 0).accepted && (busOperation (Sys.mk (sys.caches.set i (Cache.mk (sys.caches.getD i default).coreId (sys.caches.getD i default).setIndexBits (sys.caches.getD i default).blockOffsetBits (sys.caches.getD i default).associativity (sys.caches.getD i default).sets true (sys.caches.getD i default).blockedCycles ((sys.caches.getD i default).stats.incrementAccesses.incrementWrites.incrementWriteMisses))) sys.bus) BusOperation.BusRdX address i false 0).dataProvided)).1.set i { ((allocateLine (busOperation (Sys.mk (sys.caches.set i (Cache.mk (sys.caches.getD i default).coreId (sys.caches.getD i default).setIndexBits (sys.caches.getD i default).blockOffsetBits (sys.caches.getD i default).associativity (sys.caches.getD i default).sets true (sys.caches.getD i default).blockedCycles ((sys.caches.getD i default).stats.incrementAccesses.incrementWrites.incrementWriteMisses))) sys.bus) BusOperation.BusRdX address i false 0).sys.caches i address true (busOperation (Sys.mk (sys.caches.set i (Cache.mk (sys.caches.getD i default).coreId (sys.caches.getD i default).setIndexBits (sys.caches.getD i default).blockOffsetBits (sys.caches.getD i default).associativity (sys.caches.getD i default).sets true (sys.caches.getD i default).blockedCycles ((sys.caches.getD i default).stats.incrementAccesses.incrementWrites.incrementWriteMisses))) sys.bus) BusOperation.BusRdX address i false 0).cycles ((busOperation (Sys.mk (sys.caches.set i (Cache.mk (sys.caches.getD i default).coreId (sys.caches.getD i default).setIndexBits (sys.caches.getD i default).blockOffsetBits (sys.caches.getD i default).associativity (sys.caches.getD i default).sets true (sys.caches.getD i default).blockedCycles ((sys.caches.getD i default).stats.incrementAccesses.incrementWrites.incrementWriteMisses))) sys.bus) BusOperation.BusRdX address i false 0).accepted && (busOperation (Sys.mk (sys.caches.set i (Cache.mk (sys.caches.getD i default).coreId (sys.caches.getD i default).setIndexBits (sys.caches.getD i default).blockOffsetBits (sys.caches.getD i default).associativity (sys.caches.getD i default).sets true (sys.caches.getD i default).blockedCycles ((sys.caches.getD i default).stats.incrementAccesses.incrementWrites.incrementWriteMisses))) sys.bus) BusOperation.BusRdX address i false 0).dataProvided)).1.getD i default) with blockedCycles := if (allocateLine (busOperation (Sys.mk (sys.caches.set i (Cache.mk (sys.caches.getD i default).coreId (sys.caches.getD i default).setIndexBits (sys.caches.getD i default).blockOffsetBits (sys.caches.getD i default).associativity (sys.caches.getD i default).sets true (sys.caches.getD i default).blockedCycles ((sys.caches.getD i default).stats.incrementAccesses.incrementWrites.incrementWriteMisses))) sys.bus) BusOperation.BusRdX address i false 0).sys.caches i address true (busOperation (Sys.mk (sys.caches.set i (Cache.mk (sys.caches.getD i default).coreId (sys.caches.getD i default).setIndexBits (sys.caches.getD i default).blockOffsetBits (sys.caches.getD i default).associativity (sys.caches.getD i default).sets true (sys.caches.getD i default).blockedCycles ((sys.caches.getD i default).stats.incrementAccesses.incrementWrites.incrementWriteMisses))) sys.bus) BusOperation.BusRdX address i false 0).cycles ((busOperation (Sys.mk (sys.caches.set i (Cache.mk (sys.caches.getD i default).coreId (sys.caches.getD i default).setIndexBits (sys.caches.getD i default).blockOffsetBits (sys.caches.getD i default).associativity (sys.caches.getD i default).sets true (sys.caches.getD i default).blockedCycles ((sys.caches.getD i default).stats.incrementAccesses.incrementWrites.incrementWriteMisses))) sys.bus) BusOperation.BusRdX address i false 0).accepted && (busOperation (Sys.mk (sys.caches.set i (Cache.mk (sys.caches.getD i default).coreId (sys.caches.getD i default).setIndexBits (sys.caches.getD i default).blockOffsetBits (sys.caches.getD i default).associativity (sys.caches.getD i default).sets true (sys.caches.getD i default).blockedCycles ((sys.caches.getD i default).stats.incrementAccesses.incrementWrites.incrementWriteMisses))) sys.bus) BusOperation.BusRdX address i false 0).dataProvided)).2 > 0 then (allocateLine (busOperation (Sys.mk (sys.caches.set i (Cache.mk (sys.caches.getD i default).coreId (sys.caches.getD i default).setIndexBits (sys.caches.getD i default).blockOffsetBits (sys.caches.getD i default).associativity (sys.caches.getD i default).sets true (sys.caches.getD i default).blockedCycles ((sys.caches.getD i default).stats.incrementAccesses.incrementWrites.incrementWriteMisses))) sys.bus) BusOperation.BusRdX address i false 0).sys.caches i address true (busOperation (Sys.mk (sys.caches.set i (Cache.mk (sys.caches.getD i default).coreId (sys.caches.getD i default).setIndexBits (sys.caches.getD i default).blockOffsetBits (sys.caches.getD i default).associativity (sys.caches.getD i default).sets true (sys.caches.getD i default).blockedCycles ((sys.caches.getD i default).stats.incrementAccesses.incrementWrites.incrementWriteMisses))) sys.bus) BusOperation.BusRdX address i false 0).cycles ((busOperation (Sys.mk (sys.caches.set i (Cache.mk (sys.caches.getD i default).coreId (sys.caches.getD i default).setIndexBits (sys.caches.getD i default).blockOffsetBits (sys.caches.getD i default).associativity (sys.caches.getD i default).sets true (sys.caches.getD i default).blockedCycles ((sys.caches.getD i default).stats.incrementAccesses.incrementWrites.incrementWriteMisses))) sys.bus) BusOperation.BusRdX address i false 0).accepted && (busOperation (Sys.mk (sys.caches.set i (Cache.mk (sys.caches.getD i default).coreId (sys.caches.getD i default).setIndexBits (sys.caches.getD i default).blockOffsetBits (sys.caches.getD i default).associativity (sys.caches.getD i default).sets true (sys.caches.getD i default).blockedCycles ((sys.caches.getD i default).stats.incrementAccesses.incrementWrites.incrementWriteMisses))) sys.bus) BusOperation.BusRdX address i false 0).dataProvided)).2 - 1 else 0 }) : List Cache).getD j default).stateAt (addrSetIdx sb bob address) (addrTag sb bob address)
                  = snoopNext BusOperation.BusRdX
                      ((sys.caches.getD j default).stateAt (addrSetIdx sb bob address) (addrTag sb bob address)) := by
              intro j hj hji
              rw [hPeerF j hj hji, hPreTA j hj hji]
            have hselfvt : ((((allocateLine (busOperation (Sys.mk (sys.caches.set i (Cache.mk (sys.caches.getD i default).coreId (sys.caches.getD i default).setIndexBits (sys.caches.getD i default).blockOffsetBits (sys.caches.getD i default).associativity (sys.caches.getD i default).sets true (sys.caches.getD i default).blockedCycles ((sys.caches.getD i default).stats.incrementAccesses.incrementWrites.incrementWriteMisses))) sys.bus) BusOperation.BusRdX address i false 0).sys.caches i address true (busOperation (Sys.mk (sys.caches.set i (Cache.mk (sys.caches.getD i default).coreId (sys.caches.getD i default).setIndexBits (sys.caches.getD i default).blockOffsetBits (sys.caches.getD i default).associativity (sys.caches.getD i default).sets true (sys.caches.getD i default).blockedCycles ((sys.caches.getD i default).stats.incrementAccesses.incrementWrites.incrementWriteMisses))) sys.bus) BusOperation.BusRdX address i false 0).cycles ((busOperation (Sys.mk (sys.caches.set i (Cache.mk (sys.caches.getD i default).coreId (sys.caches.getD i default).setIndexBits (sys.caches.getD i default).blockOffsetBits (sys.caches.getD i default).associativity (sys.caches.getD i default).sets true (sys.caches.getD i default).blockedCycles ((sys.caches.getD i default).stats.incrementAccesses.incrementWrites.incrementWriteMisses))) sys.bus) BusOperation.BusRdX address i false 0).accepted && (busOperation (Sys.mk (sys.caches.set i (Cache.mk (sys.caches.getD i default).coreId (sys.caches.getD i default).setIndexBits (sys.caches.getD i default).blockOffsetBits (sys.caches.getD i default).associativity (sys.caches.getD i default).sets true (sys.caches.getD i default).blockedCycles ((sys.caches.getD i default).stats.incrementAccesses.incrementWrites.incrementWriteMisses))) sys.bus) BusOperation.BusRdX address i false 0).dataProvided)).1.set i { ((allocateLine (busOperation (Sys.mk (sys.caches.set i (Cache.mk (sys.caches.getD i default).coreId (sys.caches.getD i default).setIndexBits (sys.caches.getD i default).blockOffsetBits (sys.caches.getD i default).associativity (sys.caches.getD i default).sets true (sys.caches.getD i default).blockedCycles ((sys.caches.getD i default).stats.incrementAccesses.incrementWrites.incrementWriteMisses))) sys.bus) BusOperation.BusRdX address i false 0).sys.caches i address true (busOperation (Sys.mk (sys.caches.set i (Cache.mk (sys.caches.getD i default).coreId (sys.caches.getD i default).setIndexBits (sys.caches.getD i default).blockOffsetBits (sys.caches.getD i default).associativity (sys.caches.getD i default).sets true (sys.caches.getD i default).blockedCycles ((sys.caches.getD i default).stats.incrementAccesses.incrementWrites.incrementWriteMisses))) sys.bus) BusOperation.BusRdX address i false 0).cycles ((busOperation (Sys.mk (sys.caches.set i (Cache.mk (sys.caches.getD i default).coreId (sys.caches.getD i default).setIndexBits (sys.caches.getD i default).blockOffsetBits (sys.caches.getD i default).associativity (sys.caches.getD i default).sets true (sys.caches.getD i default).blockedCycles ((sys.caches.getD i default).stats.incrementAccesses.incrementWrites.incrementWriteMisses))) sys.bus) BusOperation.BusRdX address i false 0).accepted && (busOperation (Sys.mk (sys.caches.set i (Cache.mk (sys.caches.getD i default).coreId (sys.caches.getD i default).setIndexBits (sys.caches.getD i default).blockOffsetBits (sys.caches.getD i default).associativity (sys.caches.getD i default).sets true (sys.caches.getD i default).blockedCycles ((sys.caches.getD i default).stats.incrementAccesses.incrementWrites.incrementWriteMisses))) sys.bus) BusOperation.BusRdX address i false 0).dataProvided)).1.getD i default) with blockedCycles := if (allocateLine (busOperation (Sys.mk (sys.caches.set i (Cache.mk (sys.caches.getD i default).coreId (sys.caches.getD i default).setIndexBits (sys.caches.getD i default).blockOffsetBits (sys.caches.getD i default).associativity (sys.caches.getD i default).sets true (sys.caches.getD i default).blockedCycles ((sys.caches.getD i default).stats.incrementAccesses.incrementWrites.incrementWriteMisses))) sys.bus) BusOperation.BusRdX address i false 0).sys.caches i address true (busOperation (Sys.mk (sys.caches.set i (Cache.mk (sys.caches.getD i default).coreId (sys.caches.getD i default).setIndexBits (sys.caches.getD i default).blockOffsetBits (sys.caches.getD i default).associativity (sys.caches.getD i default).sets true (sys.caches.getD i default).blockedCycles ((sys.caches.getD i default).stats.incrementAccesses.incrementWrites.incrementWriteMisses))) sys.bus) BusOperation.BusRdX address i false 0).cycles ((busOperation (Sys.mk (sys.caches.set i (Cache.mk (sys.caches.getD i default).coreId (sys.caches.getD i default).setIndexBits (sys.caches.getD i default).blockOffsetBits (sys.caches.getD i default).associativity (sys.caches.getD i default).sets true (sys.caches.getD i default).blockedCycles ((sys.caches.getD i default).stats.incrementAccesses.incrementWrites.incrementWriteMisses))) sys.bus) BusOperation.BusRdX address i false 0).accepted && (busOperation (Sys.mk (sys.caches.set i (Cache.mk (sys.caches.getD i default).coreId (sys.caches.getD i default).setIndexBits (sys.caches.getD i default).blockOffsetBits (sys.caches.getD i default).associativity (sys.caches.getD i default).sets true (sys.caches.getD i default).blockedCycles ((sys.caches.getD i default).stats.incrementAccesses.incrementWrites.incrementWriteMisses))) sys.bus) BusOperation.BusRdX address i false 0).dataProvided)).2 > 0 then (allocateLine (busOperation (Sys.mk (sys.caches.set i (Cache.mk (sys.caches.getD i default).coreId (sys.caches.getD i default).setIndexBits (sys.caches.getD i default).blockOffsetBits (sys.caches.getD i default).associativity (sys.caches.getD i default).sets true (sys.caches.getD i default).blockedCycles ((sys.caches.getD i default).stats.incrementAccesses.incrementWrites.incrementWriteMisses))) sys.bus) BusOperation.BusRdX address i false 0).sys.caches i address true (busOperation (Sys.mk (sys.caches.set i (Cache.mk (sys.caches.getD i default).coreId (sys.caches.getD i default).setIndexBits (sys.caches.getD i default).blockOffsetBits (sys.caches.getD i default).associativity (sys.caches.getD i default).sets true (sys.caches.getD i default).blockedCycles ((sys.caches.getD i default).stats.incrementAccesses.incrementWrites.incrementWriteMisses))) sys.bus) BusOperation.BusRdX address i false 0).cycles ((busOperation (Sys.mk (sys.caches.set i (Cache.mk (sys.caches.getD i default).coreId (sys.caches.getD i default).setIndexBits (sys.caches.getD i default).blockOffsetBits (sys.caches.getD i default).associativity (sys.caches.getD i default).sets true (sys.caches.getD i default).blockedCycles ((sys.caches.getD i default).stats.incrementAccesses.incrementWrites.incrementWriteMisses))) sys.bus) BusOperation.BusRdX address i false 0).accepted && (busOperation (Sys.mk (sys.caches.set i (Cache.mk (sys.caches.getD i default).coreId (sys.caches.getD i default).setIndexBits (sys.caches.getD i default).blockOffsetBits (sys.caches.getD i default).associativity (sys.caches.getD i default).sets true (sys.caches.getD i default).blockedCycles ((sys.caches.getD i default).stats.incrementAccesses.incrementWrites.incrementWriteMisses))) sys.bus) BusOperation.BusRdX address i false 0).dataProvided)).2 - 1 else 0 }) : List Cache).getD i default).stateAt (addrSetIdx sb bob address) vt
                = CacheState.INVALID := by
              rw [hFself]
              exact hInvVt
            by_cases hTA2 : si = (addrSetIdx sb bob address) ∧ tv = (addrTag sb bob address)
            · obtain ⟨h1, h2⟩ := hTA2
              subst h1
              subst h2
              by_cases hbi : b = i
              · exfalso
                have hai : a ≠ i := by rw [← hbi]; exact hab
                rw [hPTA a ha hai, snoopNext_BusRdX_eq_INVALID] at hME
                rcases hME with h | h
                · cases h
                · cases h
              · rw [hPTA b hb hbi, snoopNext_BusRdX_eq_INVALID]
            · have hne : si ≠ (addrSetIdx sb bob address) ∨ tv ≠ (addrTag sb bob address) := not_and_or.mp hTA2
              by_cases hVT : si = (addrSetIdx sb bob address) ∧ tv = vt
              · obtain ⟨h1, h2⟩ := hVT
                rw [h1, h2] at hME
                rw [h1, h2]
                have hstVt : ∀ j, j < n → j ≠ i →
                    ((((allocateLine (busOperation (Sys.mk (sys.caches.set i (Cache.mk (sys.caches.getD i default).coreId (sys.caches.getD i default).setIndexBits (sys.caches.getD i default).blockOffsetBits (sys.caches.getD i default).associativity (sys.caches.getD i default).sets true (sys.caches.getD i default).blockedCycles ((sys.caches.getD i default).stats.incrementAccesses.incrementWrites.incrementWriteMisses))) sys.bus) BusOperation.BusRdX address i false 0).sys.caches i address true (busOperation (Sys.mk (sys.caches.set i (Cache.mk (sys.caches.getD i default).coreId (sys.caches.getD i default).setIndexBits (sys.caches.getD i default).blockOffsetBits (sys.caches.getD i default).associativity (sys.caches.getD i default).sets true (sys.caches.getD i default).blockedCycles ((sys.caches.getD i default).stats.incrementAccesses.incrementWrites.incrementWriteMisses))) sys.bus) BusOperation.BusRdX address i false 0).cycles ((busOperation (Sys.mk (sys.caches.set i (Cache.mk (sys.caches.getD i default).coreId (sys.caches.getD i default).setIndexBits (sys.caches.getD i default).blockOffsetBits (sys.caches.getD i default).associativity (sys.caches.getD i default).sets true (sys.caches.getD i default).blockedCycles ((sys.caches.getD i default).stats.incrementAccesses.incrementWrites.incrementWriteMisses))) sys.bus) BusOperation.BusRdX address i false 0).accepted && (busOperation (Sys.mk (sys.caches.set i (Cache.mk (sys.caches.getD i default).coreId (sys.caches.getD i default).setIndexBits (sys.caches.getD i default).blockOffsetBits (sys.caches.getD i default).associativity (sys.caches.getD i default).sets true (sys.caches.getD i default).blockedCycles ((sys.caches.getD i default).stats.incrementAccesses.incrementWrites.incrementWriteMisses))) sys.bus) BusOperation.BusRdX address i false 0).dataProvided)).1.set i { ((allocateLine (busOperation (Sys.mk (sys.caches.set i (Cache.mk (sys.caches.getD i default).coreId (sys.caches.getD i default).setIndexBits (sys.caches.getD i default).blockOffsetBits (sys.caches.getD i default).associativity (sys.caches.getD i default).sets true (sys.caches.getD i default).blockedCycles ((sys.caches.getD i default).stats.incrementAccesses.incrementWrites.incrementWriteMisses))) sys.bus) BusOperation.BusRdX address i false 0).sys.caches i address true (busOperation (Sys.mk (sys.caches.set i (Cache.mk (sys.caches.getD i default).coreId (sys.caches.getD i default).setIndexBits (sys.caches.getD i default).blockOffsetBits (sys.caches.getD i default).associativity (sys.caches.getD i default).sets true (sys.caches.getD i default).blockedCycles ((sys.caches.getD i default).stats.incrementAccesses.incrementWrites.incrementWriteMisses))) sys.bus) BusOperation.BusRdX address i false 0).cycles ((busOperation (Sys.mk (sys.caches.set i (Cache.mk (sys.caches.getD i default).coreId (sys.caches.getD i default).setIndexBits (sys.caches.getD i default).blockOffsetBits (sys.caches.getD i default).associativity (sys.caches.getD i default).sets true (sys.caches.getD i default).blockedCycles ((sys.caches.getD i default).stats.incrementAccesses.incrementWrites.incrementWriteMisses))) sys.bus) BusOperation.BusRdX address i false 0).accepted && (busOperation (Sys.mk (sys.caches.set i (Cache.mk (sys.caches.getD i default).coreId (sys.caches.getD i default).setIndexBits (sys.caches.getD i default).blockOffsetBits (sys.caches.getD i default).associativity (sys.caches.getD i default).sets true (sys.caches.getD i default).blockedCycles ((sys.caches.getD i default).stats.incrementAccesses.incrementWrites.incrementWriteMisses))) sys.bus) BusOperation.BusRdX address i false 0).dataProvided)).1.getD i default) with blockedCycles := if (allocateLine (busOperation (Sys.mk (sys.caches.set i (Cache.mk (sys.caches.getD i default).coreId (sys.caches.getD i default).setIndexBits (sys.caches.getD i default).blockOffsetBits (sys.caches.getD i default).associativity (sys.caches.getD i default).sets true (sys.caches.getD i default).blockedCycles ((sys.caches.getD i default).stats.incrementAccesses.incrementWrites.incrementWriteMisses))) sys.bus) BusOperation.BusRdX address i false 0).sys.caches i address true (busOperation (Sys.mk (sys.caches.set i (Cache.mk (sys.caches.getD i default).coreId (sys.caches.getD i default).setIndexBits (sys.caches.getD i default).blockOffsetBits (sys.caches.getD i default).associativity (sys.caches.getD i default).sets true (sys.caches.getD i default).blockedCycles ((sys.caches.getD i default).stats.incrementAccesses.incrementWrites.incrementWriteMisses))) sys.bus) BusOperation.BusRdX address i false 0).cycles ((busOperation (Sys.mk (sys.caches.set i (Cache.mk (sys.caches.getD i default).coreId (sys.caches.getD i default).setIndexBits (sys.caches.getD i default).blockOffsetBits (sys.caches.getD i default).associativity (sys.caches.getD i default).sets true (sys.caches.getD i default).blockedCycles ((sys.caches.getD i default).stats.incrementAccesses.incrementWrites.incrementWriteMisses))) sys.bus) BusOperation.BusRdX address i false 0).accepted && (busOperation (Sys.mk (sys.caches.set i (Cache.mk (sys.caches.getD i default).coreId (sys.caches.getD i default).setIndexBits (sys.caches.getD i default).blockOffsetBits (sys.caches.getD i default).associativity (sys.caches.getD i default).sets true (sys.caches.getD i default).blockedCycles ((sys.caches.getD i default).stats.incrementAccesses.incrementWrites.incrementWriteMisses))) sys.bus) BusOperation.BusRdX address i false 0).dataProvided)).2 > 0 then (allocateLine (busOperation (Sys.mk (sys.caches.set i (Cache.mk (sys.caches.getD i default).coreId (sys.caches.getD i default).setIndexBits (sys.caches.getD i default).blockOffsetBits (sys.caches.getD i default).associativity (sys.caches.getD i default).sets true (sys.caches.getD i default).blockedCycles ((sys.caches.getD i default).stats.incrementAccesses.incrementWrites.incrementWriteMisses))) sys.bus) BusOperation.BusRdX address i false 0).sys.caches i address true (busOperation (Sys.mk (sys.caches.set i (Cache.mk (sys.caches.getD i default).coreId (sys.caches.getD i default).setIndexBits (sys.caches.getD i default).blockOffsetBits (sys.caches.getD i default).associativity (sys.caches.getD i default).sets true (sys.caches.getD i default).blockedCycles ((sys.caches.getD i default).stats.incrementAccesses.incrementWrites.incrementWriteMisses))) sys.bus) BusOperation.BusRdX address i false 0).cycles ((busOperation (Sys.mk (sys.caches.set i (Cache.mk (sys.caches.getD i default).coreId (sys.caches.getD i default).setIndexBits (sys.caches.getD i default).blockOffsetBits (sys.caches.getD i default).associativity (sys.caches.getD i default).sets true (sys.caches.getD i default).blockedCycles ((sys.caches.getD i default).stats.incrementAccesses.incrementWrites.incrementWriteMisses))) sys.bus) BusOperation.BusRdX address i false 0).accepted && (busOperation (Sys.mk (sys.caches.set i (Cache.mk (sys.caches.getD i default).coreId (sys.caches.getD i default).setIndexBits (sys.caches.getD i default).blockOffsetBits (sys.caches.getD i default).associativity (sys.caches.getD i default).sets true (sys.caches.getD i default).blockedCycles ((sys.caches.getD i default).stats.incrementAccesses.incrementWrites.incrementWriteMisses))) sys.bus) BusOperation.BusRdX address i false 0).dataProvided)).2 - 1 else 0 }) : List Cache).getD j default).stateAt (addrSetIdx sb bob address) vt
                      = (sys.caches.getD j default).stateAt (addrSetIdx sb bob address) vt := by
                  intro j hj hji
                  rw [hPeerF j hj hji, hPreOther j hj hji _ _ (Or.inr hvtne)]
                by_cases hbi : b = i
                · rw [hbi]
                  exact hselfvt
                · by_cases hai : a = i
                  · exfalso
                    rw [hai, hselfvt] at hME
                    rcases hME with h | h
                    · cases h
                    · cases h
                  · rw [hstVt b hb hbi]
                    rw [hstVt a ha hai] at hME
                    exact hmesi (addrSetIdx sb bob address) vt a b ha hb hab hME
              · have hne2 : si ≠ (addrSetIdx sb bob address) ∨ tv ≠ vt := not_and_or.mp hVT
                have hstF : ∀ j, j < n →
                    ((((allocateLine (busOperation (Sys.mk (sys.caches.set i (Cache.mk (sys.caches.getD i default).coreId (sys.caches.getD i default).setIndexBits (sys.caches.getD i default).blockOffsetBits (sys.caches.getD i default).associativity (sys.caches.getD i default).sets true (sys.caches.getD i default).blockedCycles ((sys.caches.getD i default).stats.incrementAccesses.incrementWrites.incrementWriteMisses))) sys.bus) BusOperation.BusRdX address i false 0).sys.caches i address true (busOperation (Sys.mk (sys.caches.set i (Cache.mk (sys.caches.getD i default).coreId (sys.caches.getD i default).setIndexBits (sys.caches.getD i default).blockOffsetBits (sys.caches.getD i default).associativity (sys.caches.getD i default).sets true (sys.caches.getD i default).blockedCycles ((sys.caches.getD i default).stats.incrementAccesses.incrementWrites.incrementWriteMisses))) sys.bus) BusOperation.BusRdX address i false 0).cycles ((busOperation (Sys.mk (sys.caches.set i (Cache.mk (sys.caches.getD i default).coreId (sys.caches.getD i default).setIndexBits (sys.caches.getD i default).blockOffsetBits (sys.caches.getD i default).associativity (sys.caches.getD i default).sets true (sys.caches.getD i default).blockedCycles ((sys.caches.getD i default).stats.incrementAccesses.incrementWrites.incrementWriteMisses))) sys.bus) BusOperation.BusRdX address i false 0).accepted && (busOperation (Sys.mk (sys.caches.set i (Cache.mk (sys.caches.getD i default).coreId (sys.caches.getD i default).setIndexBits (sys.caches.getD i default).blockOffsetBits (sys.caches.getD i default).associativity (sys.caches.getD i default).sets true (sys.caches.getD i default).blockedCycles ((sys.caches.getD i default).stats.incrementAccesses.incrementWrites.incrementWriteMisses))) sys.bus) BusOperation.BusRdX address i false 0).dataProvided)).1.set i { ((allocateLine (busOperation (Sys.mk (sys.caches.set i (Cache.mk (sys.caches.getD i default).coreId (sys.caches.getD i default).setIndexBits (sys.caches.getD i default).blockOffsetBits (sys.caches.getD i default).associativity (sys.caches.getD i default).sets true (sys.caches.getD i default).blockedCycles ((sys.caches.getD i default).stats.incrementAccesses.incrementWrites.incrementWriteMisses))) sys.bus) BusOperation.BusRdX address i false 0).sys.caches i address true (busOperation (Sys.mk (sys.caches.set i (Cache.mk (sys.caches.getD i default).coreId (sys.caches.getD i default).setIndexBits (sys.caches.getD i default).blockOffsetBits (sys.caches.getD i default).associativity (sys.caches.getD i default).sets true (sys.caches.getD i default).blockedCycles ((sys.caches.getD i default).stats.incrementAccesses.incrementWrites.incrementWriteMisses))) sys.bus) BusOperation.BusRdX address i false 0).cycles ((busOperation (Sys.mk (sys.caches.set i (Cache.mk (sys.caches.getD i default).coreId (sys.caches.getD i default).setIndexBits (sys.caches.getD i default).blockOffsetBits (sys.caches.getD i default).associativity (sys.caches.getD i default).sets true (sys.caches.getD i default).blockedCycles ((sys.caches.getD i default).stats.incrementAccesses.incrementWrites.incrementWriteMisses))) sys.bus) BusOperation.BusRdX address i false 0).accepted && (busOperation (Sys.mk (sys.caches.set i (Cache.mk (sys.caches.getD i default).coreId (sys.caches.getD i default).setIndexBits (sys.caches.getD i default).blockOffsetBits (sys.caches.getD i default).associativity (sys.caches.getD i default).sets true (sys.caches.getD i default).blockedCycles ((sys.caches.getD i default).stats.incrementAccesses.incrementWrites.incrementWriteMisses))) sys.bus) BusOperation.BusRdX address i false 0).dataProvided)).1.getD i default) with blockedCycles := if (allocateLine (busOperation (Sys.mk (sys.caches.set i (Cache.mk (sys.caches.getD i default).coreId (sys.caches.getD i default).setIndexBits (sys.caches.getD i default).blockOffsetBits (sys.caches.getD i default).associativity (sys.caches.getD i default).sets true (sys.caches.getD i default).blockedCycles ((sys.caches.getD i default).stats.incrementAccesses.incrementWrites.incrementWriteMisses))) sys.bus) BusOperation.BusRdX address i false 0).sys.caches i address true (busOperation (Sys.mk (sys.caches.set i (Cache.mk (sys.caches.getD i default).coreId (sys.caches.getD i default).setIndexBits (sys.caches.getD i default).blockOffsetBits (sys.caches.getD i default).associativity (sys.caches.getD i default).sets true (sys.caches.getD i default).blockedCycles ((sys.caches.getD i default).stats.incrementAccesses.incrementWrites.incrementWriteMisses))) sys.bus) BusOperation.BusRdX address i false 0).cycles ((busOperation (Sys.mk (sys.caches.set i (Cache.mk (sys.caches.getD i default).coreId (sys.caches.getD i default).setIndexBits (sys.caches.getD i default).blockOffsetBits (sys.caches.getD i default).associativity (sys.caches.getD i default).sets true (sys.caches.getD i default).blockedCycles ((sys.caches.getD i default).stats.incrementAccesses.incrementWrites.incrementWriteMisses))) sys.bus) BusOperation.BusRdX address i false 0).accepted && (busOperation (Sys.mk (sys.caches.set i (Cache.mk (sys.caches.getD i default).coreId (sys.caches.getD i default).setIndexBits (sys.caches.getD i default).blockOffsetBits (sys.caches.getD i default).associativity (sys.caches.getD i default).sets true (sys.caches.getD i default).blockedCycles ((sys.caches.getD i default).stats.incrementAccesses.incrementWrites.incrementWriteMisses))) sys.bus) BusOperation.BusRdX address i false 0).dataProvided)).2 > 0 then (allocateLine (busOperation (Sys.mk (sys.caches.set i (Cache.mk (sys.caches.getD i default).coreId (sys.caches.getD i default).setIndexBits (sys.caches.getD i default).blockOffsetBits (sys.caches.getD i default).associativity (sys.caches.getD i default).sets true (sys.caches.getD i default).blockedCycles ((sys.caches.getD i default).stats.incrementAccesses.incrementWrites.incrementWriteMisses))) sys.bus) BusOperation.BusRdX address i false 0).sys.caches i address true (busOperation (Sys.mk (sys.caches.set i (Cache.mk (sys.caches.getD i default).coreId (sys.caches.getD i default).setIndexBits (sys.caches.getD i default).blockOffsetBits (sys.caches.getD i default).associativity (sys.caches.getD i default).sets true (sys.caches.getD i default).blockedCycles ((sys.caches.getD i default).stats.incrementAccesses.incrementWrites.incrementWriteMisses))) sys.bus) BusOperation.BusRdX address i false 0).cycles ((busOperation (Sys.mk (sys.caches.set i (Cache.mk (sys.caches.getD i default).coreId (sys.caches.getD i default).setIndexBits (sys.caches.getD i default).blockOffsetBits (sys.caches.getD i default).associativity (sys.caches.getD i default).sets true (sys.caches.getD i default).blockedCycles ((sys.caches.getD i default).stats.incrementAccesses.incrementWrites.incrementWriteMisses))) sys.bus) BusOperation.BusRdX address i false 0).accepted && (busOperation (Sys.mk (sys.caches.set i (Cache.mk (sys.caches.getD i default).coreId (sys.caches.getD i default).setIndexBits (sys.caches.getD i default).blockOffsetBits (sys.caches.getD i default).associativity (sys.caches.getD i default).sets true (sys.caches.getD i default).blockedCycles ((sys.caches.getD i default).stats.incrementAccesses.incrementWrites.incrementWriteMisses))) sys.bus) BusOperation.BusRdX address i false 0).dataProvided)).2 - 1 else 0 }) : List Cache).getD j default).stateAt si tv
                      = (sys.caches.getD j default).stateAt si tv := by
                  intro j hj
                  by_cases hji : j = i
                  · rw [hji, hFself, hunchS2 si tv hne hne2, hPreSelf]
                  · rw [hPeerF j hj hji, hPreOther j hj hji si tv hne]
                rw [hstF b hb]
                rw [hstF a ha] at hME
                exact hmesi si tv a b ha hb hab hME
          · have hPeerF : ∀ j, j < n → j ≠ i → j ≠ p →
                (((allocateLine (busOperation (Sys.mk (sys.caches.set i (Cache.mk (sys.caches.getD i default).coreId (sys.caches.getD i default).setIndexBits (sys.caches.getD i default).blockOffsetBits (sys.caches.getD i default).associativity (sys.caches.getD i default).sets true (sys.caches.getD i default).blockedCycles ((sys.caches.getD i default).stats.incrementAccesses.incrementWrites.incrementWriteMisses))) sys.bus) BusOperation.BusRdX address i false 0).sys.caches i address true (busOperation (Sys.mk (sys.caches.set i (Cache.mk (sys.caches.getD i default).coreId (sys.caches.getD i default).setIndexBits (sys.caches.getD i default).blockOffsetBits (sys.caches.getD i default).associativity (sys.caches.getD i default).sets true (sys.caches.getD i default).blockedCycles ((sys.caches.getD i default).stats.incrementAccesses.incrementWrites.incrementWriteMisses))) sys.bus) BusOperation.BusRdX address i false 0).cycles ((busOperation (Sys.mk (sys.caches.set i (Cache.mk (sys.caches.getD i default).coreId (sys.caches.getD i default).setIndexBits (sys.caches.getD i default).blockOffsetBits (sys.caches.getD i default).associativity (sys.caches.getD i default).sets true (sys.caches.getD i default).blockedCycles ((sys.caches.getD i default).stats.incrementAccesses.incrementWrites.incrementWriteMisses))) sys.bus) BusOperation.BusRdX address i false 0).accepted && (busOperation (Sys.mk (sys.caches.set i (Cache.mk (sys.caches.getD i default).coreId (sys.caches.getD i default).setIndexBits (sys.caches.getD i default).blockOffsetBits (sys.caches.getD i default).associativity (sys.caches.getD i default).sets true (sys.caches.getD i default).blockedCycles ((sys.caches.getD i default).stats.incrementAccesses.incrementWrites.incrementWriteMisses))) sys.bus) BusOperation.BusRdX address i false 0).dataProvided)).1.set i { ((allocateLine (busOperation (Sys.mk (sys.caches.set i (Cache.mk (sys.caches.getD i default).coreId (sys.caches.getD i default).setIndexBits (sys.caches.getD i default).blockOffsetBits (sys.caches.getD i default).associativity (sys.caches.getD i default).sets true (sys.caches.getD i default).blockedCycles ((sys.caches.getD i default).stats.incrementAccesses.incrementWrites.incrementWriteMisses))) sys.bus) BusOperation.BusRdX address i false 0).sys.caches i address true (busOperation (Sys.mk (sys.caches.set i (Cache.mk (sys.caches.getD i default).coreId (sys.caches.getD i default).setIndexBits (sys.caches.getD i default).blockOffsetBits (sys.caches.getD i default).associativity (sys.caches.getD i default).sets true (sys.caches.getD i default).blockedCycles ((sys.caches.getD i default).stats.incrementAccesses.incrementWrites.incrementWriteMisses))) sys.bus) BusOperation.BusRdX address i false 0).cycles ((busOperation (Sys.mk (sys.caches.set i (Cache.mk (sys.caches.getD i default).coreId (sys.caches.getD i default).setIndexBits (sys.caches.getD i default).blockOffsetBits (sys.caches.getD i default).associativity (sys.caches.getD i default).sets true (sys.caches.getD i default).blockedCycles ((sys.caches.getD i default).stats.incrementAccesses.incrementWrites.incrementWriteMisses))) sys.bus) BusOperation.BusRdX address i false 0).accepted && (busOperation (Sys.mk (sys.caches.set i (Cache.mk (sys.caches.getD i default).coreId (sys.caches.getD i default).setIndexBits (sys.caches.getD i default).blockOffsetBits (sys.caches.getD i default).associativity (sys.caches.getD i default).sets true (sys.caches.getD i default).blockedCycles ((sys.caches.getD i default).stats.incrementAccesses.incrementWrites.incrementWriteMisses))) sys.bus) BusOperation.BusRdX address i false 0).dataProvided)).1.getD i default) with blockedCycles := if (allocateLine (busOperation (Sys.mk (sys.caches.set i (Cache.mk (sys.caches.getD i default).coreId (sys.caches.getD i default).setIndexBits (sys.caches.getD i default).blockOffsetBits (sys.caches.getD i default).associativity (sys.caches.getD i default).sets true (sys.caches.getD i default).blockedCycles ((sys.caches.getD i default).stats.incrementAccesses.incrementWrites.incrementWriteMisses))) sys.bus) BusOperation.BusRdX address i false 0).sys.caches i address true (busOperation (Sys.mk (sys.caches.set i (Cache.mk (sys.caches.getD i default).coreId (sys.caches.getD i default).setIndexBits (sys.caches.getD i default).blockOffsetBits (sys.caches.getD i default).associativity (sys.caches.getD i default).sets true (sys.caches.getD i default).blockedCycles ((sys.caches.getD i default).stats.incrementAccesses.incrementWrites.incrementWriteMisses))) sys.bus) BusOperation.BusRdX address i false 0).cycles ((busOperation (Sys.mk (sys.caches.set i (Cache.mk (sys.caches.getD i default).coreId (sys.caches.getD i default).setIndexBits (sys.caches.getD i default).blockOffsetBits (sys.caches.getD i default).associativity (sys.caches.getD i default).sets true (sys.caches.getD i default).blockedCycles ((sys.caches.getD i default).stats.incrementAccesses.incrementWrites.incrementWriteMisses))) sys.bus) BusOperation.BusRdX address i false 0).accepted && (busOperation (Sys.mk (sys.caches.set i (Cache.mk (sys.caches.getD i default).coreId (sys.caches.getD i default).setIndexBits (sys.caches.getD i default).blockOffsetBits (sys.caches.getD i default).associativity (sys.caches.getD i default).sets true (sys.caches.getD i default).blockedCycles ((sys.caches.getD i default).stats.incrementAccesses.incrementWrites.incrementWriteMisses))) sys.bus) BusOperation.BusRdX address i false 0).dataProvided)).2 > 0 then (allocateLine (busOperation (Sys.mk (sys.caches.set i (Cache.mk (sys.caches.getD i default).coreId (sys.caches.getD i default).setIndexBits (sys.caches.getD i default).blockOffsetBits (sys.caches.getD i default).associativity (sys.caches.getD i default).sets true (sys.caches.getD i default).blockedCycles ((sys.caches.getD i default).stats.incrementAccesses.incrementWrites.incrementWriteMisses))) sys.bus) BusOperation.BusRdX address i false 0).sys.caches i address true (busOperation (Sys.mk (sys.caches.set i (Cache.mk (sys.caches.getD i default).coreId (sys.caches.getD i default).setIndexBits (sys.caches.getD i default).blockOffsetBits (sys.caches.getD i default).associativity (sys.caches.getD i default).sets true (sys.caches.getD i default).blockedCycles ((sys.caches.getD i default).stats.incrementAccesses.incrementWrites.incrementWriteMisses))) sys.bus) BusOperation.BusRdX address i false 0).cycles ((busOperation (Sys.mk (sys.caches.set i (Cache.mk (sys.caches.getD i default).coreId (sys.caches.getD i default).setIndexBits (sys.caches.getD i default).blockOffsetBits (sys.caches.getD i default).associativity (sys.caches.getD i default).sets true (sys.caches.getD i default).blockedCycles ((sys.caches.getD i default).stats.incrementAccesses.incrementWrites.incrementWriteMisses))) sys.bus) BusOperation.BusRdX address i false 0).accepted && (busOperation (Sys.mk (sys.caches.set i (Cache.mk (sys.caches.getD i default).coreId (sys.caches.getD i default).setIndexBits (sys.caches.getD i default).blockOffsetBits (sys.caches.getD i default).associativity (sys.caches.getD i default).sets true (sys.caches.getD i default).blockedCycles ((sys.caches.getD i default).stats.incrementAccesses.incrementWrites.incrementWriteMisses))) sys.bus) BusOperation.BusRdX address i false 0).dataProvided)).2 - 1 else 0 }) : List Cache).getD j default = (busOperation (Sys.mk (sys.caches.set i (Cache.mk (sys.caches.getD i default).coreId (sys.caches.getD i default).setIndexBits (sys.caches.getD i default).blockOffsetBits (sys.caches.getD i default).associativity (sys.caches.getD i default).sets true (sys.caches.getD i default).blockedCycles ((sys.caches.getD i default).stats.incrementAccesses.incrementWrites.incrementWriteMisses))) sys.bus) BusOperation.BusRdX address i false 0).sys.caches.getD j default := by
              intro j hj hji hjp
              rw [hFgJ j hji]
              exact e85 j hjp hji
            have hPTA : ∀ j, j < n → j ≠ i →
                ((((allocateLine (busOperation (Sys.mk (sys.caches.set i (Cache.mk (sys.caches.getD i default).coreId (sys.caches.getD i default).setIndexBits (sys.caches.getD i default).blockOffsetBits (sys.caches.getD i default).associativity (sys.caches.getD i default).sets true (sys.caches.getD i default).blockedCycles ((sys.caches.getD i default).stats.incrementAccesses.incrementWrites.incrementWriteMisses))) sys.bus) BusOperation.BusRdX address i false 0).sys.caches i address true (busOperation (Sys.mk (sys.caches.set i (Cache.mk (sys.caches.getD i default).coreId (sys.caches.getD i default).setIndexBits (sys.caches.getD i default).blockOffsetBits (sys.caches.getD i default).associativity (sys.caches.getD i default).sets true (sys.caches.getD i default).blockedCycles ((sys.caches.getD i default).stats.incrementAccesses.incrementWrites.incrementWriteMisses))) sys.bus) BusOperation.BusRdX address i false 0).cycles ((busOperation (Sys.mk (sys.caches.set i (Cache.mk (sys.caches.getD i default).coreId (sys.caches.getD i default).setIndexBits (sys.caches.getD i default).blockOffsetBits (sys.caches.getD i default).associativity (sys.caches.getD i default).sets true (sys.caches.getD i default).blockedCycles ((sys.caches.getD i default).stats.incrementAccesses.incrementWrites.incrementWriteMisses))) sys.bus) BusOperation.BusRdX address i false 0).accepted && (busOperation (Sys.mk (sys.caches.set i (Cache.mk (sys.caches.getD i default).coreId (sys.caches.getD i default).setIndexBits (sys.caches.getD i default).blockOffsetBits (sys.caches.getD i default).associativity (sys.caches.getD i default).sets true (sys.caches.getD i default).blockedCycles ((sys.caches.getD i default).stats.incrementAccesses.incrementWrites.incrementWriteMisses))) sys.bus) BusOperation.BusRdX address i false 0).dataProvided)).1.set i { ((allocateLine (busOperation (Sys.mk (sys.caches.set i (Cache.mk (sys.caches.getD i default).coreId (sys.caches.getD i default).setIndexBits (sys.caches.getD i default).blockOffsetBits (sys.caches.getD i default).associativity (sys.caches.getD i default).sets true (sys.caches.getD i default).blockedCycles ((sys.caches.getD i default).stats.incrementAccesses.incrementWrites.incrementWriteMisses))) sys.bus) BusOperation.BusRdX address i false 0).sys.caches i address true (busOperation (Sys.mk (sys.caches.set i (Cache.mk (sys.caches.getD i default).coreId (sys.caches.getD i default).setIndexBits (sys.caches.getD i default).blockOffsetBits (sys.caches.getD i default).associativity (sys.caches.getD i default).sets true (sys.caches.getD i default).blockedCycles ((sys.caches.getD i default).stats.incrementAccesses.incrementWrites.incrementWriteMisses))) sys.bus) BusOperation.BusRdX address i false 0).cycles ((busOperation (Sys.mk (sys.caches.set i (Cache.mk (sys.caches.getD i default).coreId (sys.caches.getD i default).setIndexBits (sys.caches.getD i default).blockOffsetBits (sys.caches.getD i default).associativity (sys.caches.getD i default).sets true (sys.caches.getD i default).blockedCycles ((sys.caches.getD i default).stats.incrementAccesses.incrementWrites.incrementWriteMisses))) sys.bus) BusOperation.BusRdX address i false 0).accepted && (busOperation (Sys.mk (sys.caches.set i (Cache.mk (sys.caches.getD i default).coreId (sys.caches.getD i default).setIndexBits (sys.caches.getD i default).blockOffsetBits (sys.caches.getD i default).associativity (sys.caches.getD i default).sets true (sys.caches.getD i default).blockedCycles ((sys.caches.getD i default).stats.incrementAccesses.incrementWrites.incrementWriteMisses))) sys.bus) BusOperation.BusRdX address i false 0).dataProvided)).1.getD i default) with blockedCycles := if (allocateLine (busOperation (Sys.mk (sys.caches.set i (Cache.mk (sys.caches.getD i default).coreId (sys.caches.getD i default).setIndexBits (sys.caches.getD i default).blockOffsetBits (sys.caches.getD i default).associativity (sys.caches.getD i default).sets true (sys.caches.getD i default).blockedCycles ((sys.caches.getD i default).stats.incrementAccesses.incrementWrites.incrementWriteMisses))) sys.bus) BusOperation.BusRdX address i false 0).sys.caches i address true (busOperation (Sys.mk (sys.caches.set i (Cache.mk (sys.caches.getD i default).coreId (sys.caches.getD i default).setIndexBits (sys.caches.getD i default).blockOffsetBits (sys.caches.getD i default).associativity (sys.caches.getD i default).sets true (sys.caches.getD i default).blockedCycles ((sys.caches.getD i default).stats.incrementAccesses.incrementWrites.incrementWriteMisses))) sys.bus) BusOperation.BusRdX address i false 0).cycles ((busOperation (Sys.mk (sys.caches.set i (Cache.mk (sys.caches.getD i default).coreId (sys.caches.getD i default).setIndexBits (sys.caches.getD i default).blockOffsetBits (sys.caches.getD i default).associativity (sys.caches.getD i default).sets true (sys.caches.getD i default).blockedCycles ((sys.caches.getD i default).stats.incrementAccesses.incrementWrites.incrementWriteMisses))) sys.bus) BusOperation.BusRdX address i false 0).accepted && (busOperation (Sys.mk (sys.caches.set i (Cache.mk (sys.caches.getD i default).coreId (sys.caches.getD i default).setIndexBits (sys.caches.getD i default).blockOffsetBits (sys.caches.getD i default).associativity (sys.caches.getD i default).sets true (sys.caches.getD i default).blockedCycles ((sys.caches.getD i default).stats.incrementAccesses.incrementWrites.incrementWriteMisses))) sys.bus) BusOperation.BusRdX address i false 0).dataProvided)).2 > 0 then (allocateLine (busOperation (Sys.mk (sys.caches.set i (Cache.mk (sys.caches.getD i default).coreId (sys.caches.getD i default).setIndexBits (sys.caches.getD i default).blockOffsetBits (sys.caches.getD i default).associativity (sys.caches.getD i default).sets true (sys.caches.getD i default).blockedCycles ((sys.caches.getD i default).stats.incrementAccesses.incrementWrites.incrementWriteMisses))) sys.bus) BusOperation.BusRdX address i false 0).sys.caches i address true (busOperation (Sys.mk (sys.caches.set i (Cache.mk (sys.caches.getD i default).coreId (sys.caches.getD i default).setIndexBits (sys.caches.getD i default).blockOffsetBits (sys.caches.getD i default).associativity (sys.caches.getD i default).sets true (sys.caches.getD i default).blockedCycles ((sys.caches.getD i default).stats.incrementAccesses.incrementWrites.incrementWriteMisses))) sys.bus) BusOperation.BusRdX address i false 0).cycles ((busOperation (Sys.mk (sys.caches.set i (Cache.mk (sys.caches.getD i default).coreId (sys.caches.getD i default).setIndexBits (sys.caches.getD i default).blockOffsetBits (sys.caches.getD i default).associativity (sys.caches.getD i default).sets true (sys.caches.getD i default).blockedCycles ((sys.caches.getD i default).stats.incrementAccesses.incrementWrites.incrementWriteMisses))) sys.bus) BusOperation.BusRdX address i false 0).accepted && (busOperation (Sys.mk (sys.caches.set i (Cache.mk (sys.caches.getD i default).coreId (sys.caches.getD i default).setIndexBits (sys.caches.getD i default).blockOffsetBits (sys.caches.getD i default).associativity (sys.caches.getD i default).sets true (sys.caches.getD i default).blockedCycles ((sys.caches.getD i default).stats.incrementAccesses.incrementWrites.incrementWriteMisses))) sys.bus) BusOperation.BusRdX address i false 0).dataProvided)).2 - 1 else 0 }) : List Cache).getD j default).stateAt (addrSetIdx sb bob address) (addrTag sb bob address)
                  = snoopNext BusOperation.BusRdX
                      ((sys.caches.getD j default).stateAt (addrSetIdx sb bob address) (addrTag sb bob address)) := by
              intro j hj hji
              by_cases hjp : j = p
              · rw [hjp, hFgJ p hpi, e83 (addrSetIdx sb bob address) (addrTag sb bob address) (Or.inr (fun h => hvtne h.symm)),
                  hPreTA p hp hpi]
              · rw [hPeerF j hj hji hjp, hPreTA j hj hji]
            have hselfvt : ((((allocateLine (busOperation (Sys.mk (sys.caches.set i (Cache.mk (sys.caches.getD i default).coreId (sys.caches.getD i default).setIndexBits (sys.caches.getD i default).blockOffsetBits (sys.caches.getD i default).associativity (sys.caches.getD i default).sets true (sys.caches.getD i default).blockedCycles ((sys.caches.getD i default).stats.incrementAccesses.incrementWrites.incrementWriteMisses))) sys.bus) BusOperation.BusRdX address i false 0).sys.caches i address true (busOperation (Sys.mk (sys.caches.set i (Cache.mk (sys.caches.getD i default).coreId (sys.caches.getD i default).setIndexBits (sys.caches.getD i default).blockOffsetBits (sys.caches.getD i default).associativity (sys.caches.getD i default).sets true (sys.caches.getD i default).blockedCycles ((sys.caches.getD i default).stats.incrementAccesses.incrementWrites.incrementWriteMisses))) sys.bus) BusOperation.BusRdX address i false 0).cycles ((busOperation (Sys.mk (sys.caches.set i (Cache.mk (sys.caches.getD i default).coreId (sys.caches.getD i default).setIndexBits (sys.caches.getD i default).blockOffsetBits (sys.caches.getD i default).associativity (sys.caches.getD i default).sets true (sys.caches.getD i default).blockedCycles ((sys.caches.getD i default).stats.incrementAccesses.incrementWrites.incrementWriteMisses))) sys.bus) BusOperation.BusRdX address i false 0).accepted && (busOperation (Sys.mk (sys.caches.set i (Cache.mk (sys.caches.getD i default).coreId (sys.caches.getD i default).setIndexBits (sys.caches.getD i default).blockOffsetBits (sys.caches.getD i default).associativity (sys.caches.getD i default).sets true (sys.caches.getD i default).blockedCycles ((sys.caches.getD i default).stats.incrementAccesses.incrementWrites.incrementWriteMisses))) sys.bus) BusOperation.BusRdX address i false 0).dataProvided)).1.set i { ((allocateLine (busOperation (Sys.mk (sys.caches.set i (Cache.mk (sys.caches.getD i default).coreId (sys.caches.getD i default).setIndexBits (sys.caches.getD i default).blockOffsetBits (sys.caches.getD i default).associativity (sys.caches.getD i default).sets true (sys.caches.getD i default).blockedCycles ((sys.caches.getD i default).stats.incrementAccesses.incrementWrites.incrementWriteMisses))) sys.bus) BusOperation.BusRdX address i false 0).sys.caches i address true (busOperation (Sys.mk (sys.caches.set i (Cache.mk (sys.caches.getD i default).coreId (sys.caches.getD i default).setIndexBits (sys.caches.getD i default).blockOffsetBits (sys.caches.getD i default).associativity (sys.caches.getD i default).sets true (sys.caches.getD i default).blockedCycles ((sys.caches.getD i default).stats.incrementAccesses.incrementWrites.incrementWriteMisses))) sys.bus) BusOperation.BusRdX address i false 0).cycles ((busOperation (Sys.mk (sys.caches.set i (Cache.mk (sys.caches.getD i default).coreId (sys.caches.getD i default).setIndexBits (sys.caches.getD i default).blockOffsetBits (sys.caches.getD i default).associativity (sys.caches.getD i default).sets true (sys.caches.getD i default).blockedCycles ((sys.caches.getD i default).stats.incrementAccesses.incrementWrites.incrementWriteMisses))) sys.bus) BusOperation.BusRdX address i false 0).accepted && (busOperation (Sys.mk (sys.caches.set i (Cache.mk (sys.caches.getD i default).coreId (sys.caches.getD i default).setIndexBits (sys.caches.getD i default).blockOffsetBits (sys.caches.getD i default).associativity (sys.caches.getD i default).sets true (sys.caches.getD i default).blockedCycles ((sys.caches.getD i default).stats.incrementAccesses.incrementWrites.incrementWriteMisses))) sys.bus) BusOperation.BusRdX address i false 0).dataProvided)).1.getD i default) with blockedCycles := if (allocateLine (busOperation (Sys.mk (sys.caches.set i (Cache.mk (sys.caches.getD i default).coreId (sys.caches.getD i default).setIndexBits (sys.caches.getD i default).blockOffsetBits (sys.caches.getD i default).associativity (sys.caches.getD i default).sets true (sys.caches.getD i default).blockedCycles ((sys.caches.getD i default).stats.incrementAccesses.incrementWrites.incrementWriteMisses))) sys.bus) BusOperation.BusRdX address i false 0).sys.caches i address true (busOperation (Sys.mk (sys.caches.set i (Cache.mk (sys.caches.getD i default).coreId (sys.caches.getD i default).setIndexBits (sys.caches.getD i default).blockOffsetBits (sys.caches.getD i default).associativity (sys.caches.getD i default).sets true (sys.caches.getD i default).blockedCycles ((sys.caches.getD i default).stats.incrementAccesses.incrementWrites.incrementWriteMisses))) sys.bus) BusOperation.BusRdX address i false 0).cycles ((busOperation (Sys.mk (sys.caches.set i (Cache.mk (sys.caches.getD i default).coreId (sys.caches.getD i default).setIndexBits (sys.caches.getD i default).blockOffsetBits (sys.caches.getD i default).associativity (sys.caches.getD i default).sets true (sys.caches.getD i default).blockedCycles ((sys.caches.getD i default).stats.incrementAccesses.incrementWrites.incrementWriteMisses))) sys.bus) BusOperation.BusRdX address i false 0).accepted && (busOperation (Sys.mk (sys.caches.set i (Cache.mk (sys.caches.getD i default).coreId (sys.caches.getD i default).setIndexBits (sys.caches.getD i default).blockOffsetBits (sys.caches.getD i default).associativity (sys.caches.getD i default).sets true (sys.caches.getD i default).blockedCycles ((sys.caches.getD i default).stats.incrementAccesses.incrementWrites.incrementWriteMisses))) sys.bus) BusOperation.BusRdX address i false 0).dataProvided)).2 > 0 then (allocateLine (busOperation (Sys.mk (sys.caches.set i (Cache.mk (sys.caches.getD i default).coreId (sys.caches.getD i default).setIndexBits (sys.caches.getD i default).blockOffsetBits (sys.caches.getD i default).associativity (sys.caches.getD i default).sets true (sys.caches.getD i default).blockedCycles ((sys.caches.getD i default).stats.incrementAccesses.incrementWrites.incrementWriteMisses))) sys.bus) BusOperation.BusRdX address i false 0).sys.caches i address true (busOperation (Sys.mk (sys.caches.set i (Cache.mk (sys.caches.getD i default).coreId (sys.caches.getD i default).setIndexBits (sys.caches.getD i default).blockOffsetBits (sys.caches.getD i default).associativity (sys.caches.getD i default).sets true (sys.caches.getD i default).blockedCycles ((sys.caches.getD i default).stats.incrementAccesses.incrementWrites.incrementWriteMisses))) sys.bus) BusOperation.BusRdX address i false 0).cycles ((busOperation (Sys.mk (sys.caches.set i (Cache.mk (sys.caches.getD i default).coreId (sys.caches.getD i default).setIndexBits (sys.caches.getD i default).blockOffsetBits (sys.caches.getD i default).associativity (sys.caches.getD i default).sets true (sys.caches.getD i default).blockedCycles ((sys.caches.getD i default).stats.incrementAccesses.incrementWrites.incrementWriteMisses))) sys.bus) BusOperation.BusRdX address i false 0).accepted && (busOperation (Sys.mk (sys.caches.set i (Cache.mk (sys.caches.getD i default).coreId (sys.caches.getD i default).setIndexBits (sys.caches.getD i default).blockOffsetBits (sys.caches.getD i default).associativity (sys.caches.getD i default).sets true (sys.caches.getD i default).blockedCycles ((sys.caches.getD i default).stats.incrementAccesses.incrementWrites.incrementWriteMisses))) sys.bus) BusOperation.BusRdX address i false 0).dataProvided)).2 - 1 else 0 }) : List Cache).getD i default).stateAt (addrSetIdx sb bob address) vt
                = CacheState.INVALID := by
              rw [hFself]
              exact hInvVt
            by_cases hTA2 : si = (addrSetIdx sb bob address) ∧ tv = (addrTag sb bob address)
            · obtain ⟨h1, h2⟩ := hTA2
              subst h1
              subst h2
              by_cases hbi : b = i
              · exfalso
                have hai : a ≠ i := by rw [← hbi]; exact hab
                rw [hPTA a ha hai, snoopNext_BusRdX_eq_INVALID] at hME
                rcases hME with h | h
                · cases h
                · cases h
              · rw [hPTA b hb hbi, snoopNext_BusRdX_eq_INVALID]
            · have hne : si ≠ (addrSetIdx sb bob address) ∨ tv ≠ (addrTag sb bob address) := not_and_or.mp hTA2
              by_cases hVT : si = (addrSetIdx sb bob address) ∧ tv = vt
              · obtain ⟨h1, h2⟩ := hVT
                rw [h1, h2] at hME
                rw [h1, h2]
                have hsysSelfVt : (sys.caches.getD i default).stateAt (addrSetIdx sb bob address) vt
                    = CacheState.SHARED := by
                  rw [← hPreSelf]
                  exact e86
                have he84s : ∀ q, q < n → q ≠ i → q ≠ p →
                    (sys.caches.getD q default).stateAt (addrSetIdx sb bob address) vt ≠ CacheState.SHARED := by
                  intro q hq hqi hqp
                  rw [← hPreOther q hq hqi _ _ (Or.inr hvtne)]
                  exact e84 q hq hqi hqp
                have hqInv : ∀ q, q < n → q ≠ i → q ≠ p →
                    (sys.caches.getD q default).stateAt (addrSetIdx sb bob address) vt = CacheState.INVALID := by
                  intro q hq hqi hqp
                  cases hqs : (sys.caches.getD q default).stateAt (addrSetIdx sb bob address) vt with
                  | MODIFIED =>
                    exfalso
                    have hI := hmesi (addrSetIdx sb bob address) vt q i hq hi hqi (Or.inl hqs)
                    rw [hsysSelfVt] at hI
                    cases hI
                  | EXCLUSIVE =>
                    exfalso
                    have hI := hmesi (addrSetIdx sb bob address) vt q i hq hi hqi (Or.inr hqs)
                    rw [hsysSelfVt] at hI
                    cases hI
                  | SHARED => exact absurd hqs (he84s q hq hqi hqp)
                  | INVALID => rfl
                have hFq : ∀ q, q < n → q ≠ i → q ≠ p →
                    ((((allocateLine (busOperation (Sys.mk (sys.caches.set i (Cache.mk (sys.caches.getD i default).coreId (sys.caches.getD i default).setIndexBits (sys.caches.getD i default).blockOffsetBits (sys.caches.getD i default).associativity (sys.caches.getD i default).sets true (sys.caches.getD i default).blockedCycles ((sys.caches.getD i default).stats.incrementAccesses.incrementWrites.incrementWriteMisses))) sys.bus) BusOperation.BusRdX address i false 0).sys.caches i address true (busOperation (Sys.mk (sys.caches.set i (Cache.mk (sys.caches.getD i default).coreId (sys.caches.getD i default).setIndexBits (sys.caches.getD i default).blockOffsetBits (sys.caches.getD i default).associativity (sys.caches.getD i default).sets true (sys.caches.getD i default).blockedCycles ((sys.caches.getD i default).stats.incrementAccesses.incrementWrites.incrementWriteMisses))) sys.bus) BusOperation.BusRdX address i false 0).cycles ((busOperation (Sys.mk (sys.caches.set i (Cache.mk (sys.caches.getD i default).coreId (sys.caches.getD i default).setIndexBits (sys.caches.getD i default).blockOffsetBits (sys.caches.getD i default).associativity (sys.caches.getD i default).sets true (sys.caches.getD i default).blockedCycles ((sys.caches.getD i default).stats.incrementAccesses.incrementWrites.incrementWriteMisses))) sys.bus) BusOperation.BusRdX address i false 0).accepted && (busOperation (Sys.mk (sys.caches.set i (Cache.mk (sys.caches.getD i default).coreId (sys.caches.getD i default).setIndexBits (sys.caches.getD i default).blockOffsetBits (sys.caches.getD i default).associativity (sys.caches.getD i default).sets true (sys.caches.getD i default).blockedCycles ((sys.caches.getD i default).stats.incrementAccesses.incrementWrites.incrementWriteMisses))) sys.bus) BusOperation.BusRdX address i false 0).dataProvided)).1.set i { ((allocateLine (busOperation (Sys.mk (sys.caches.set i (Cache.mk (sys.caches.getD i default).coreId (sys.caches.getD i default).setIndexBits (sys.caches.getD i default).blockOffsetBits (sys.caches.getD i default).associativity (sys.caches.getD i default).sets true (sys.caches.getD i default).blockedCycles ((sys.caches.getD i default).stats.incrementAccesses.incrementWrites.incrementWriteMisses))) sys.bus) BusOperation.BusRdX address i false 0).sys.caches i address true (busOperation (Sys.mk (sys.caches.set i (Cache.mk (sys.caches.getD i default).coreId (sys.caches.getD i default).setIndexBits (sys.caches.getD i default).blockOffsetBits (sys.caches.getD i default).associativity (sys.caches.getD i default).sets true (sys.caches.getD i default).blockedCycles ((sys.caches.getD i default).stats.incrementAccesses.incrementWrites.incrementWriteMisses))) sys.bus) BusOperation.BusRdX address i false 0).cycles ((busOperation (Sys.mk (sys.caches.set i (Cache.mk (sys.caches.getD i default).coreId (sys.caches.getD i default).setIndexBits (sys.caches.getD i default).blockOffsetBits (sys.caches.getD i default).associativity (sys.caches.getD i default).sets true (sys.caches.getD i default).blockedCycles ((sys.caches.getD i default).stats.incrementAccesses.incrementWrites.incrementWriteMisses))) sys.bus) BusOperation.BusRdX address i false 0).accepted && (busOperation (Sys.mk (sys.caches.set i (Cache.mk (sys.caches.getD i default).coreId (sys.caches.getD i default).setIndexBits (sys.caches.getD i default).blockOffsetBits (sys.caches.getD i default).associativity (sys.caches.getD i default).sets true (sys.caches.getD i default).blockedCycles ((sys.caches.getD i default).stats.incrementAccesses.incrementWrites.incrementWriteMisses))) sys.bus) BusOperation.BusRdX address i false 0).dataProvided)).1.getD i default) with blockedCycles := if (allocateLine (busOperation (Sys.mk (sys.caches.set i (Cache.mk (sys.caches.getD i default).coreId (sys.caches.getD i default).setIndexBits (sys.caches.getD i default).blockOffsetBits (sys.caches.getD i default).associativity (sys.caches.getD i default).sets true (sys.caches.getD i default).blockedCycles ((sys.caches.getD i default).stats.incrementAccesses.incrementWrites.incrementWriteMisses))) sys.bus) BusOperation.BusRdX address i false 0).sys.caches i address true (busOperation (Sys.mk (sys.caches.set i (Cache.mk (sys.caches.getD i default).coreId (sys.caches.getD i default).setIndexBits (sys.caches.getD i default).blockOffsetBits (sys.caches.getD i default).associativity (sys.caches.getD i default).sets true (sys.caches.getD i default).blockedCycles ((sys.caches.getD i default).stats.incrementAccesses.incrementWrites.incrementWriteMisses))) sys.bus) BusOperation.BusRdX address i false 0).cycles ((busOperation (Sys.mk (sys.caches.set i (Cache.mk (sys.caches.getD i default).coreId (sys.caches.getD i default).setIndexBits (sys.caches.getD i default).blockOffsetBits (sys.caches.getD i default).associativity (sys.caches.getD i default).sets true (sys.caches.getD i default).blockedCycles ((sys.caches.getD i default).stats.incrementAccesses.incrementWrites.incrementWriteMisses))) sys.bus) BusOperation.BusRdX address i false 0).accepted && (busOperation (Sys.mk (sys.caches.set i (Cache.mk (sys.caches.getD i default).coreId (sys.caches.getD i default).setIndexBits (sys.caches.getD i default).blockOffsetBits (sys.caches.getD i default).associativity (sys.caches.getD i default).sets true (sys.caches.getD i default).blockedCycles ((sys.caches.getD i default).stats.incrementAccesses.incrementWrites.incrementWriteMisses))) sys.bus) BusOperation.BusRdX address i false 0).dataProvided)).2 > 0 then (allocateLine (busOperation (Sys.mk (sys.caches.set i (Cache.mk (sys.caches.getD i default).coreId (sys.caches.getD i default).setIndexBits (sys.caches.getD i default).blockOffsetBits (sys.caches.getD i default).associativity (sys.caches.getD i default).sets true (sys.caches.getD i default).blockedCycles ((sys.caches.getD i default).stats.incrementAccesses.incrementWrites.incrementWriteMisses))) sys.bus) BusOperation.BusRdX address i false 0).sys.caches i address true (busOperation (Sys.mk (sys.caches.set i (Cache.mk (sys.caches.getD i default).coreId (sys.caches.getD i default).setIndexBits (sys.caches.getD i default).blockOffsetBits (sys.caches.getD i default).associativity (sys.caches.getD i default).sets true (sys.caches.getD i default).blockedCycles ((sys.caches.getD i default).stats.incrementAccesses.incrementWrites.incrementWriteMisses))) sys.bus) BusOperation.BusRdX address i false 0).cycles ((busOperation (Sys.mk (sys.caches.set i (Cache.mk (sys.caches.getD i default).coreId (sys.caches.getD i default).setIndexBits (sys.caches.getD i default).blockOffsetBits (sys.caches.getD i default).associativity (sys.caches.getD i default).sets true (sys.caches.getD i default).blockedCycles ((sys.caches.getD i default).stats.incrementAccesses.incrementWrites.incrementWriteMisses))) sys.bus) BusOperation.BusRdX address i false 0).accepted && (busOperation (Sys.mk (sys.caches.set i (Cache.mk (sys.caches.getD i default).coreId (sys.caches.getD i default).setIndexBits (sys.caches.getD i default).blockOffsetBits (sys.caches.getD i default).associativity (sys.caches.getD i default).sets true (sys.caches.getD i default).blockedCycles ((sys.caches.getD i default).stats.incrementAccesses.incrementWrites.incrementWriteMisses))) sys.bus) BusOperation.BusRdX address i false 0).dataProvided)).2 - 1 else 0 }) : List Cache).getD q default).stateAt (addrSetIdx sb bob address) vt
                      = CacheState.INVALID := by
                  intro q hq hqi hqp
                  rw [hPeerF q hq hqi hqp, hPreOther q hq hqi _ _ (Or.inr hvtne)]
                  exact hqInv q hq hqi hqp
                by_cases hbp : b = p
                · exfalso
                  have hap : a ≠ p := by rw [← hbp]; exact hab
                  by_cases hai : a = i
                  · rw [hai, hselfvt] at hME
                    rcases hME with h | h
                    · cases h
                    · cases h
                  · rw [hFq a ha hai hap] at hME
                    rcases hME with h | h
                    · cases h
                    · cases h
                · by_cases hbi : b = i
                  · rw [hbi]
                    exact hselfvt
                  · exact hFq b hb hbi hbp
              · have hne2 : si ≠ (addrSetIdx sb bob address) ∨ tv ≠ vt := not_and_or.mp hVT
                have hstF : ∀ j, j < n →
                    ((((allocateLine (busOperation (Sys.mk (sys.caches.set i (Cache.mk (sys.caches.getD i default).coreId (sys.caches.getD i default).setIndexBits (sys.caches.getD i default).blockOffsetBits (sys.caches.getD i default).associativity (sys.caches.getD i default).sets true (sys.caches.getD i default).blockedCycles ((sys.caches.getD i default).stats.incrementAccesses.incrementWrites.incrementWriteMisses))) sys.bus) BusOperation.BusRdX address i false 0).sys.caches i address true (busOperation (Sys.mk (sys.caches.set i (Cache.mk (sys.caches.getD i default).coreId (sys.caches.getD i default).setIndexBits (sys.caches.getD i default).blockOffsetBits (sys.caches.getD i default).associativity (sys.caches.getD i default).sets true (sys.caches.getD i default).blockedCycles ((sys.caches.getD i default).stats.incrementAccesses.incrementWrites.incrementWriteMisses))) sys.bus) BusOperation.BusRdX address i false 0).cycles ((busOperation (Sys.mk (sys.caches.set i (Cache.mk (sys.caches.getD i default).coreId (sys.caches.getD i default).setIndexBits (sys.caches.getD i default).blockOffsetBits (sys.caches.getD i default).associativity (sys.caches.getD i default).sets true (sys.caches.getD i default).blockedCycles ((sys.caches.getD i default).stats.incrementAccesses.incrementWrites.incrementWriteMisses))) sys.bus) BusOperation.BusRdX address i false 0).accepted && (busOperation (Sys.mk (sys.caches.set i (Cache.mk (sys.caches.getD i default).coreId (sys.caches.getD i default).setIndexBits (sys.caches.getD i default).blockOffsetBits (sys.caches.getD i default).associativity (sys.caches.getD i default).sets true (sys.caches.getD i default).blockedCycles ((sys.caches.getD i default).stats.incrementAccesses.incrementWrites.incrementWriteMisses))) sys.bus) BusOperation.BusRdX address i false 0).dataProvided)).1.set i { ((allocateLine (busOperation (Sys.mk (sys.caches.set i (Cache.mk (sys.caches.getD i default).coreId (sys.caches.getD i default).setIndexBits (sys.caches.getD i default).blockOffsetBits (sys.caches.getD i default).associativity (sys.caches.getD i default).sets true (sys.caches.getD i default).blockedCycles ((sys.caches.getD i default).stats.incrementAccesses.incrementWrites.incrementWriteMisses))) sys.bus) BusOperation.BusRdX address i false 0).sys.caches i address true (busOperation (Sys.mk (sys.caches.set i (Cache.mk (sys.caches.getD i default).coreId (sys.caches.getD i default).setIndexBits (sys.caches.getD i default).blockOffsetBits (sys.caches.getD i default).associativity (sys.caches.getD i default).sets true (sys.caches.getD i default).blockedCycles ((sys.caches.getD i default).stats.incrementAccesses.incrementWrites.incrementWriteMisses))) sys.bus) BusOperation.BusRdX address i false 0).cycles ((busOperation (Sys.mk (sys.caches.set i (Cache.mk (sys.caches.getD i default).coreId (sys.caches.getD i default).setIndexBits (sys.caches.getD i default).blockOffsetBits (sys.caches.getD i default).associativity (sys.caches.getD i default).sets true (sys.caches.getD i default).blockedCycles ((sys.caches.getD i default).stats.incrementAccesses.incrementWrites.incrementWriteMisses))) sys.bus) BusOperation.BusRdX address i false 0).accepted && (busOperation (Sys.mk (sys.caches.set i (Cache.mk (sys.caches.getD i default).coreId (sys.caches.getD i default).setIndexBits (sys.caches.getD i default).blockOffsetBits (sys.caches.getD i default).associativity (sys.caches.getD i default).sets true (sys.caches.getD i default).blockedCycles ((sys.caches.getD i default).stats.incrementAccesses.incrementWrites.incrementWriteMisses))) sys.bus) BusOperation.BusRdX address i false 0).dataProvided)).1.getD i default) with blockedCycles := if (allocateLine (busOperation (Sys.mk (sys.caches.set i (Cache.mk (sys.caches.getD i default).coreId (sys.caches.getD i default).setIndexBits (sys.caches.getD i default).blockOffsetBits (sys.caches.getD i default).associativity (sys.caches.getD i default).sets true (sys.caches.getD i default).blockedCycles ((sys.caches.getD i default).stats.incrementAccesses.incrementWrites.incrementWriteMisses))) sys.bus) BusOperation.BusRdX address i false 0).sys.caches i address true (busOperation (Sys.mk (sys.caches.set i (Cache.mk (sys.caches.getD i default).coreId (sys.caches.getD i default).setIndexBits (sys.caches.getD i default).blockOffsetBits (sys.caches.getD i default).associativity (sys.caches.getD i default).sets true (sys.caches.getD i default).blockedCycles ((sys.caches.getD i default).stats.incrementAccesses.incrementWrites.incrementWriteMisses))) sys.bus) BusOperation.BusRdX address i false 0).cycles ((busOperation (Sys.mk (sys.caches.set i (Cache.mk (sys.caches.getD i default).coreId (sys.caches.getD i default).setIndexBits (sys.caches.getD i default).blockOffsetBits (sys.caches.getD i default).associativity (sys.caches.getD i default).sets true (sys.caches.getD i default).blockedCycles ((sys.caches.getD i default).stats.incrementAccesses.incrementWrites.incrementWriteMisses))) sys.bus) BusOperation.BusRdX address i false 0).accepted && (busOperation (Sys.mk (sys.caches.set i (Cache.mk (sys.caches.getD i default).coreId (sys.caches.getD i default).setIndexBits (sys.caches.getD i default).blockOffsetBits (sys.caches.getD i default).associativity (sys.caches.getD i default).sets true (sys.caches.getD i default).blockedCycles ((sys.caches.getD i default).stats.incrementAccesses.incrementWrites.incrementWriteMisses))) sys.bus) BusOperation.BusRdX address i false 0).dataProvided)).2 > 0 then (allocateLine (busOperation (Sys.mk (sys.caches.set i (Cache.mk (sys.caches.getD i default).coreId (sys.caches.getD i default).setIndexBits (sys.caches.getD i default).blockOffsetBits (sys.caches.getD i default).associativity (sys.caches.getD i default).sets true (sys.caches.getD i default).blockedCycles ((sys.caches.getD i default).stats.incrementAccesses.incrementWrites.incrementWriteMisses))) sys.bus) BusOperation.BusRdX address i false 0).sys.caches i address true (busOperation (Sys.mk (sys.caches.set i (Cache.mk (sys.caches.getD i default).coreId (sys.caches.getD i default).setIndexBits (sys.caches.getD i default).blockOffsetBits (sys.caches.getD i default).associativity (sys.caches.getD i default).sets true (sys.caches.getD i default).blockedCycles ((sys.caches.getD i default).stats.incrementAccesses.incrementWrites.incrementWriteMisses))) sys.bus) BusOperation.BusRdX address i false 0).cycles ((busOperation (Sys.mk (sys.caches.set i (Cache.mk (sys.caches.getD i default).coreId (sys.caches.getD i default).setIndexBits (sys.caches.getD i default).blockOffsetBits (sys.caches.getD i default).associativity (sys.caches.getD i default).sets true (sys.caches.getD i default).blockedCycles ((sys.caches.getD i default).stats.incrementAccesses.incrementWrites.incrementWriteMisses))) sys.bus) BusOperation.BusRdX address i false 0).accepted && (busOperation (Sys.mk (sys.caches.set i (Cache.mk (sys.caches.getD i default).coreId (sys.caches.getD i default).setIndexBits (sys.caches.getD i default).blockOffsetBits (sys.caches.getD i default).associativity (sys.caches.getD i default).sets true (sys.caches.getD i default).blockedCycles ((sys.caches.getD i default).stats.incrementAccesses.incrementWrites.incrementWriteMisses))) sys.bus) BusOperation.BusRdX address i false 0).dataProvided)).2 - 1 else 0 }) : List Cache).getD j default).stateAt si tv
                      = (sys.caches.getD j default).stateAt si tv := by
                  intro j hj
                  by_cases hji : j = i
                  · rw [hji, hFself, hunchS2 si tv hne hne2, hPreSelf]
                  · by_cases hjp : j = p
                    · rw [hjp, hFgJ p hpi, e83 si tv hne2, hPreOther p hp hpi si tv hne]
                    · rw [hPeerF j hj hji hjp, hPreOther j hj hji si tv hne]
                rw [hstF b hb]
                rw [hstF a ha] at hME
                exact hmesi si tv a b ha hb hab hME

/-! ### The invariant at the initial state and over the remaining steps -/

theorem getD_range_map {α : Type} (f : Nat → α) (n j : Nat) (d : α) (h : j < n) :
    ((List.range n).map f).getD j d = f j := by
  simp [List.getD_eq_getElem?_getD, List.getElem?_map, List.getElem?_range h]

theorem getD_replicate {α : Type} (n k : Nat) (a d : α) (h : k < n) :
    (List.replicate n a).getD k d = a := by
  simp [List.getD_eq_getElem?_getD, List.getElem?_replicate, h]

theorem stateOf_init (assoc tv : Nat) :
    (CacheSet.init assoc).stateOf tv = CacheState.INVALID := by
  rw [stateOf_eq_INVALID_iff, findLine_eq_none_iff]
  intro m hm hmat
  have hlines : (CacheSet.init assoc).lines = List.replicate assoc default := rfl
  rw [hlines] at hm
  have := hmat.1
  rw [hlines, getD_replicate _ _ _ _ (by simpa using hm)] at this
  simp [CacheLine.isValid] at this
  exact this rfl

theorem init_stateAt (cid sb assoc bob si tv : Nat) :
    (Cache.init cid sb assoc bob).stateAt si tv = CacheState.INVALID := by
  unfold Cache.stateAt
  have hsets : (Cache.init cid sb assoc bob).sets
      = List.replicate (2 ^ sb) (CacheSet.init assoc) := rfl
  rw [hsets]
  by_cases hsi : si < 2 ^ sb
  · rw [getD_replicate _ _ _ _ hsi]
    exact stateOf_init assoc tv
  · rw [List.getD_eq_getElem?_getD, List.getElem?_eq_none (by simpa using Nat.le_of_not_lt hsi)]
    rfl

theorem initSys_Inv (n sb assoc bob : Nat) :
    Inv n sb assoc bob (initSys n sb assoc bob) := by
  have hget : ∀ j, j < n → (initSys n sb assoc bob).caches.getD j default
      = Cache.init j sb assoc bob := by
    intro j hj
    show ((List.range n).map (fun k => Cache.init k sb assoc bob)).getD j default
      = Cache.init j sb assoc bob
    exact getD_range_map _ _ _ _ hj
  refine ⟨⟨?_, ?_, rfl, rfl⟩, ?_⟩
  · show ((List.range n).map (fun k => Cache.init k sb assoc bob)).length = n
    simp
  · intro j hj
    rw [hget j hj]
    refine ⟨rfl, rfl, rfl, rfl, by simp [Cache.init], ?_⟩
    intro k hk
    have hsets : (Cache.init j sb assoc bob).sets
        = List.replicate (2 ^ sb) (CacheSet.init assoc) := rfl
    rw [hsets, getD_replicate _ _ _ _ hk]
    refine ⟨by simp [CacheSet.init], by simp [CacheSet.init], ?_⟩
    intro a b ha hb hab hva hvb
    exfalso
    have hlines : (CacheSet.init assoc).lines = List.replicate assoc default := rfl
    rw [hlines] at ha hva
    rw [getD_replicate _ _ _ _ (by simpa using ha)] at hva
    simp [CacheLine.isValid] at hva
    exact hva rfl
  · intro si tv a b ha hb hab hME
    exfalso
    rw [hget a ha, init_stateAt] at hME
    rcases hME with h | h
    · cases h
    · cases h

theorem busTick_preserves_Inv (n sb assoc bob : Nat) (sys : Sys)
    (hinv : Inv n sb assoc bob sys) : Inv n sb assoc bob (busProcessCycle sys) := by
  obtain ⟨⟨hlen, hwf, hbusy, hpend⟩, hmesi⟩ := hinv
  unfold busProcessCycle
  rw [if_neg (by rw [hbusy]; simp), if_neg (by rw [hpend]; simp)]
  exact ⟨⟨hlen, hwf, hbusy, hpend⟩, hmesi⟩

theorem sysUnblock_preserves_Inv (n sb assoc bob : Nat) (sys : Sys)
    (hinv : Inv n sb assoc bob sys) (i : Nat) (hi : i < n) :
    Inv n sb assoc bob (sysUnblock sys i) := by
  obtain ⟨⟨hlen, hwf, hbusy, hpend⟩, hmesi⟩ := hinv
  have hgI : (sysUnblock sys i).caches.getD i default
      = { (sys.caches.getD i default) with isBlocked := false } :=
    getD_set_self _ _ _ _ (by rw [hlen]; exact hi)
  have hgJ : ∀ j, j ≠ i → (sysUnblock sys i).caches.getD j default
      = sys.caches.getD j default :=
    fun j hj => getD_set_ne _ _ _ _ _ (fun h => hj h.symm)
  refine ⟨⟨?_, ?_, hbusy, hpend⟩, ?_⟩
  · show (sys.caches.set i { (sys.caches.getD i default) with isBlocked := false }).length = n
    rw [List.length_set]
    exact hlen
  · intro j hj
    by_cases hji : j = i
    · rw [hji, hgI]
      exact hwf i hi
    · rw [hgJ j hji]
      exact hwf j hj
  · intro si tv a b ha hb hab hME
    have hstF : ∀ j, j < n → ((sysUnblock sys i).caches.getD j default).stateAt si tv
        = (sys.caches.getD j default).stateAt si tv := by
      intro j hj
      by_cases hji : j = i
      · rw [hji, hgI]
        rfl
      · rw [hgJ j hji]
    rw [hstF b hb]
    rw [hstF a ha] at hME
    exact hmesi si tv a b ha hb hab hME

theorem busReset_preserves_Inv (n sb assoc bob : Nat) (sys : Sys)
    (hinv : Inv n sb assoc bob sys) : Inv n sb assoc bob (busReset sys) := by
  obtain ⟨⟨hlen, hwf, hbusy, hpend⟩, hmesi⟩ := hinv
  exact ⟨⟨hlen, hwf, rfl, rfl⟩, hmesi⟩

/-- The protocol invariant holds in every reachable state of the simulator
(for any positive associativity, any geometry, any access sequence). -/
theorem reachable_Inv (n sb assoc bob : Nat) (hassoc : 0 < assoc) (sys : Sys)
    (hr : Reachable n sb assoc bob sys) : Inv n sb assoc bob sys := by
  induction hr with
  | init => exact initSys_Inv n sb assoc bob
  | @step x y hx hstep ih =>
    cases hstep with
    | read i address hi h =>
      exact cacheRead_preserves_Inv n sb assoc bob x ih hassoc i hi address 0
    | write i address hi h =>
      exact cacheWrite_preserves_Inv n sb assoc bob x ih hassoc i hi address 0
    | busTick => exact busTick_preserves_Inv n sb assoc bob x ih
    | unblockStep i hi => exact sysUnblock_preserves_Inv n sb assoc bob x ih i hi
    | busResetStep => exact busReset_preserves_Inv n sb assoc bob x ih

/-! ### `CacheSet::getLRUIndex` computes the first argmax -/

theorem getLRUIndexAux_argmax (l : List Nat) : ∀ (i : Nat) (maxC : Int) (best : Nat),
    (getLRUIndexAux l i maxC best = best ∧
      ∀ m, m < l.length → (l.getD m 0 : Int) ≤ maxC) ∨
    (∃ k, k < l.length ∧ getLRUIndexAux l i maxC best = i + k ∧
      maxC < (l.getD k 0 : Int) ∧
      (∀ m, m < l.length → l.getD m 0 ≤ l.getD k 0) ∧
      (∀ m, m < k → l.getD m 0 < l.getD k 0)) := by
  induction l with
  | nil =>
    intro i maxC best
    left
    exact ⟨rfl, fun m hm => absurd hm (by simp)⟩
  | cons x xs ih =>
    intro i maxC best
    unfold getLRUIndexAux
    by_cases h : (x : Int) > maxC
    · rw [if_pos h]
      rcases ih (i + 1) (x : Int) i with ⟨hr, hall⟩ | ⟨k, hk, hr, hmax, hall, hfirst⟩
      · right
        refine ⟨0, by simp, by rw [hr]; omega, ?_, ?_, ?_⟩
        · rw [getD_cons_zero]
          exact h
        · intro m hm
          cases m with
          | zero => exact Nat.le_refl _
          | succ mm =>
            rw [getD_cons_succ, getD_cons_zero]
            have := hall mm (by simp only [List.length_cons] at hm; omega)
            exact_mod_cast this
        · intro m hm
          exact absurd hm (by omega)
      · right
        refine ⟨k + 1, by simp only [List.length_cons]; omega, by rw [hr]; omega, ?_, ?_, ?_⟩
        · rw [getD_cons_succ]
          omega
        · intro m hm
          cases m with
          | zero =>
            rw [getD_cons_succ, getD_cons_zero]
            have hxk : (x : Int) < (xs.getD k 0 : Int) := hmax
            exact_mod_cast le_of_lt hxk
          | succ mm =>
            rw [getD_cons_succ, getD_cons_succ]
            exact hall mm (by simp only [List.length_cons] at hm; omega)
        · intro m hm
          cases m with
          | zero =>
            rw [getD_cons_succ, getD_cons_zero]
            have hxk : (x : Int) < (xs.getD k 0 : Int) := hmax
            exact_mod_cast hxk
          | succ mm =>
            rw [getD_cons_succ, getD_cons_succ]
            exact hfirst mm (by omega)
    · rw [if_neg h]
      rcases ih (i + 1) maxC best with ⟨hr, hall⟩ | ⟨k, hk, hr, hmax, hall, hfirst⟩
      · left
        refine ⟨hr, ?_⟩
        intro m hm
        cases m with
        | zero =>
          rw [getD_cons_zero]
          omega
        | succ mm =>
          rw [getD_cons_succ]
          exact hall mm (by simp only [List.length_cons] at hm; omega)
      · right
        refine ⟨k + 1, by simp only [List.length_cons]; omega, by rw [hr]; omega, ?_, ?_, ?_⟩
        · rw [getD_cons_succ]
          exact hmax
        · intro m hm
          cases m with
          | zero =>
            rw [getD_cons_succ, getD_cons_zero]
            have hx : (x : Int) ≤ maxC := by omega
            have : (x : Int) < (xs.getD k 0 : Int) := lt_of_le_of_lt hx hmax
            exact_mod_cast le_of_lt this
          | succ mm =>
            rw [getD_cons_succ, getD_cons_succ]
            exact hall mm (by simp only [List.length_cons] at hm; omega)
        · intro m hm
          cases m with
          | zero =>
            rw [getD_cons_succ, getD_cons_zero]
            have hx : (x : Int) ≤ maxC := by omega
            have : (x : Int) < (xs.getD k 0 : Int) := lt_of_le_of_lt hx hmax
            exact_mod_cast this
          | succ mm =>
            rw [getD_cons_succ, getD_cons_succ]
            exact hfirst mm (by omega)

theorem getLRUIndex_argmax (s : CacheSet) (h : 0 < s.lruCounter.length) :
    s.getLRUIndex < s.lruCounter.length ∧
    (∀ m, m < s.lruCounter.length →
      s.lruCounter.getD m 0 ≤ s.lruCounter.getD s.getLRUIndex 0) ∧
    (∀ m, m < s.getLRUIndex →
      s.lruCounter.getD m 0 < s.lruCounter.getD s.getLRUIndex 0) := by
  unfold CacheSet.getLRUIndex
  rcases getLRUIndexAux_argmax s.lruCounter 0 (-1) 0 with ⟨hr, hall⟩ | ⟨k, hk, hr, _, hall, hfirst⟩
  · exfalso
    have := hall 0 h
    omega
  · rw [hr]
    simp only [Nat.zero_add]
    exact ⟨hk, hall, hfirst⟩

/-- The full postcondition of a read miss on a well-formed machine:
accepted, unblocked on return, the allocated line SHARED iff a peer
provided data, and the returned cycles are the incoming count plus the bus
latency plus the victim writeback charge. -/
theorem cacheRead_miss_post (n sb assoc bob : Nat) (sys : Sys)
    (hinv : Inv n sb assoc bob sys) (hassoc : 0 < assoc)
    (i : Nat) (hi : i < n) (address : Nat) (cycles : Int)
    (hbl : (sys.caches.getD i default).isBlocked = false)
    (hfl : ((sys.caches.getD i default).sets.getD ((sys.caches.getD i default).getSetIndex address) default).findLine
      ((sys.caches.getD i default).getTag address) = none) :
    (cacheRead sys i address cycles).accepted = true ∧
    ((cacheRead sys i address cycles).sys.caches.getD i default).isBlocked = false ∧
    ((cacheRead sys i address cycles).sys.caches.getD i default).stateAt (addrSetIdx sb bob address) (addrTag sb bob address)
      = (if (busOperation (Sys.mk (sys.caches.set i (Cache.mk (sys.caches.getD i default).coreId (sys.caches.getD i default).setIndexBits (sys.caches.getD i default).blockOffsetBits (sys.caches.getD i default).associativity (sys.caches.getD i default).sets true (sys.caches.getD i default).blockedCycles ((sys.caches.getD i default).stats.incrementAccesses.incrementReads.incrementReadMisses))) sys.bus) BusOperation.BusRd address i false 0).dataProvided = true then CacheState.SHARED else CacheState.EXCLUSIVE) ∧
    (cacheRead sys i address cycles).cycles
      = cycles + (busOperation (Sys.mk (sys.caches.set i (Cache.mk (sys.caches.getD i default).coreId (sys.caches.getD i default).setIndexBits (sys.caches.getD i default).blockOffsetBits (sys.caches.getD i default).associativity (sys.caches.getD i default).sets true (sys.caches.getD i default).blockedCycles ((sys.caches.getD i default).stats.incrementAccesses.incrementReads.incrementReadMisses))) sys.bus) BusOperation.BusRd address i false 0).cycles
        + (if ((sys.caches.getD i default).sets.getD (addrSetIdx sb bob address) default).isFull = true ∧
              (((sys.caches.getD i default).sets.getD (addrSetIdx sb bob address) default).lines.getD ((sys.caches.getD i default).sets.getD (addrSetIdx sb bob address) default).getLRUIndex default).state = CacheState.MODIFIED
           then 100 else 0) := by
  obtain ⟨⟨hlen, hwf, hbusy, hpend⟩, hmesi⟩ := hinv
  have hcwf := hwf i hi
  have hcore : (sys.caches.getD i default).coreId = i := hcwf.1
  have hSI := cacheWF_getSetIndex sb bob assoc i _ hcwf address
  have hTA := cacheWF_getTag sb bob assoc i _ hcwf address
  have hws1 : SysWF n sb assoc bob ((Sys.mk (sys.caches.set i (Cache.mk (sys.caches.getD i default).coreId (sys.caches.getD i default).setIndexBits (sys.caches.getD i default).blockOffsetBits (sys.caches.getD i default).associativity (sys.caches.getD i default).sets true (sys.caches.getD i default).blockedCycles ((sys.caches.getD i default).stats.incrementAccesses.incrementReads.incrementReadMisses))) sys.bus) : Sys) := by
    refine ⟨?_, ?_, hbusy, hpend⟩
    · show (sys.caches.set i (Cache.mk (sys.caches.getD i default).coreId (sys.caches.getD i default).setIndexBits (sys.caches.getD i default).blockOffsetBits (sys.caches.getD i default).associativity (sys.caches.getD i default).sets true (sys.caches.getD i default).blockedCycles ((sys.caches.getD i default).stats.incrementAccesses.incrementReads.incrementReadMisses))).length = n
      rw [List.length_set]
      exact hlen
    · intro j hj
      show CacheWF sb bob assoc j ((sys.caches.set i (Cache.mk (sys.caches.getD i default).coreId (sys.caches.getD i default).setIndexBits (sys.caches.getD i default).blockOffsetBits (sys.caches.getD i default).associativity (sys.caches.getD i default).sets true (sys.caches.getD i default).blockedCycles ((sys.caches.getD i default).stats.incrementAccesses.incrementReads.incrementReadMisses))).getD j default)
      by_cases hji : j = i
      · rw [hji, getD_set_self _ _ _ _ (by rw [hlen]; exact hi)]
        exact hwf i hi
      · rw [getD_set_ne _ _ _ _ _ (fun h => hji h.symm)]
        exact hwf j hj
  have hg1I : ((Sys.mk (sys.caches.set i (Cache.mk (sys.caches.getD i default).coreId (sys.caches.getD i default).setIndexBits (sys.caches.getD i default).blockOffsetBits (sys.caches.getD i default).associativity (sys.caches.getD i default).sets true (sys.caches.getD i default).blockedCycles ((sys.caches.getD i default).stats.incrementAccesses.incrementReads.incrementReadMisses))) sys.bus) : Sys).caches.getD i default = (Cache.mk (sys.caches.getD i default).coreId (sys.caches.getD i default).setIndexBits (sys.caches.getD i default).blockOffsetBits (sys.caches.getD i default).associativity (sys.caches.getD i default).sets true (sys.caches.getD i default).blockedCycles ((sys.caches.getD i default).stats.incrementAccesses.incrementReads.incrementReadMisses)) :=
    getD_set_self _ _ _ _ (by rw [hlen]; exact hi)
  obtain ⟨racc, rbusy, rpend, rlen, rgetI, rgetJ, rdp⟩ :=
    busOperation_spec n sb assoc bob (Sys.mk (sys.caches.set i (Cache.mk (sys.caches.getD i default).coreId (sys.caches.getD i default).setIndexBits (sys.caches.getD i default).blockOffsetBits (sys.caches.getD i default).associativity (sys.caches.getD i default).sets true (sys.caches.getD i default).blockedCycles ((sys.caches.getD i default).stats.incrementAccesses.incrementReads.incrementReadMisses))) sys.bus) hws1 BusOperation.BusRd address i
  have hwfR := busOperation_WF n sb assoc bob (Sys.mk (sys.caches.set i (Cache.mk (sys.caches.getD i default).coreId (sys.caches.getD i default).setIndexBits (sys.caches.getD i default).blockOffsetBits (sys.caches.getD i default).associativity (sys.caches.getD i default).sets true (sys.caches.getD i default).blockedCycles ((sys.caches.getD i default).stats.incrementAccesses.incrementReads.incrementReadMisses))) sys.bus) hws1 BusOperation.BusRd address i hi
  have hmissR : ((busOperation (Sys.mk (sys.caches.set i (Cache.mk (sys.caches.getD i default).coreId (sys.caches.getD i default).setIndexBits (sys.caches.getD i default).blockOffsetBits (sys.caches.getD i default).associativity (sys.caches.getD i default).sets true (sys.caches.getD i default).blockedCycles ((sys.caches.getD i default).stats.incrementAccesses.incrementReads.incrementReadMisses))) sys.bus) BusOperation.BusRd address i false 0).sys.caches.getD i default).stateAt (addrSetIdx sb bob address) (addrTag sb bob address)
      = CacheState.INVALID := by
    rw [rgetI, hg1I]
    show ((sys.caches.getD i default).sets.getD (addrSetIdx sb bob address) default).stateOf (addrTag sb bob address) = CacheState.INVALID
    rw [stateOf_eq_INVALID_iff, ← hSI, ← hTA]
    exact hfl
  obtain ⟨g1, g2, g3, g4, g5, g6⟩ :=
    allocateLine_spec n sb assoc bob (busOperation (Sys.mk (sys.caches.set i (Cache.mk (sys.caches.getD i default).coreId (sys.caches.getD i default).setIndexBits (sys.caches.getD i default).blockOffsetBits (sys.caches.getD i default).associativity (sys.caches.getD i default).sets true (sys.caches.getD i default).blockedCycles ((sys.caches.getD i default).stats.incrementAccesses.incrementReads.incrementReadMisses))) sys.bus) BusOperation.BusRd address i false 0).sys.caches rlen hwfR.2.1 hassoc i hi address
      hmissR false (busOperation (Sys.mk (sys.caches.set i (Cache.mk (sys.caches.getD i default).coreId (sys.caches.getD i default).setIndexBits (sys.caches.getD i default).blockOffsetBits (sys.caches.getD i default).associativity (sys.caches.getD i default).sets true (sys.caches.getD i default).blockedCycles ((sys.caches.getD i default).stats.incrementAccesses.incrementReads.incrementReadMisses))) sys.bus) BusOperation.BusRd address i false 0).cycles ((busOperation (Sys.mk (sys.caches.set i (Cache.mk (sys.caches.getD i default).coreId (sys.caches.getD i default).setIndexBits (sys.caches.getD i default).blockOffsetBits (sys.caches.getD i default).associativity (sys.caches.getD i default).sets true (sys.caches.getD i default).blockedCycles ((sys.caches.getD i default).stats.incrementAccesses.incrementReads.incrementReadMisses))) sys.bus) BusOperation.BusRd address i false 0).accepted && (busOperation (Sys.mk (sys.caches.set i (Cache.mk (sys.caches.getD i default).coreId (sys.caches.getD i default).setIndexBits (sys.caches.getD i default).blockOffsetBits (sys.caches.getD i default).associativity (sys.caches.getD i default).sets true (sys.caches.getD i default).blockedCycles ((sys.caches.getD i default).stats.incrementAccesses.incrementReads.incrementReadMisses))) sys.bus) BusOperation.BusRd address i false 0).dataProvided)
  have hFgI : (((allocateLine (busOperation (Sys.mk (sys.caches.set i (Cache.mk (sys.caches.getD i default).coreId (sys.caches.getD i default).setIndexBits (sys.caches.getD i default).blockOffsetBits (sys.caches.getD i default).associativity (sys.caches.getD i default).sets true (sys.caches.getD i default).blockedCycles ((sys.caches.getD i default).stats.incrementAccesses.incrementReads.incrementReadMisses))) sys.bus) BusOperation.BusRd address i false 0).sys.caches i address false (busOperation (Sys.mk (sys.caches.set i (Cache.mk (sys.caches.getD i default).coreId (sys.caches.getD i default).setIndexBits (sys.caches.getD i default).blockOffsetBits (sys.caches.getD i default).associativity (sys.caches.getD i default).sets true (sys.caches.getD i default).blockedCycles ((sys.caches.getD i default).stats.incrementAccesses.incrementReads.incrementReadMisses))) sys.bus) BusOperation.BusRd address i false 0).cycles ((busOperation (Sys.mk (sys.caches.set i (Cache.mk (sys.caches.getD i default).coreId (sys.caches.getD i default).setIndexBits (sys.caches.getD i default).blockOffsetBits (sys.caches.getD i default).associativity (sys.caches.getD i default).sets true (sys.caches.getD i default).blockedCycles ((sys.caches.getD i default).stats.incrementAccesses.incrementReads.incrementReadMisses))) sys.bus) BusOperation.BusRd address i false 0).accepted && (busOperation (Sys.mk (sys.caches.set i (Cache.mk (sys.caches.getD i default).coreId (sys.caches.getD i default).setIndexBits (sys.caches.getD i default).blockOffsetBits (sys.caches.getD i default).associativity (sys.caches.getD i default).sets true (sys.caches.getD i default).blockedCycles ((sys.caches.getD i default).stats.incrementAccesses.incrementReads.incrementReadMisses))) sys.bus) BusOperation.BusRd address i false 0).dataProvided)).1.set i { ((allocateLine (busOperation (Sys.mk (sys.caches.set i (Cache.mk (sys.caches.getD i default).coreId (sys.caches.getD i default).setIndexBits (sys.caches.getD i default).blockOffsetBits (sys.caches.getD i default).associativity (sys.caches.getD i default).sets true (sys.caches.getD i default).blockedCycles ((sys.caches.getD i default).stats.incrementAccesses.incrementReads.incrementReadMisses))) sys.bus) BusOperation.BusRd address i false 0).sys.caches i address false (busOperation (Sys.mk (sys.caches.set i (Cache.mk (sys.caches.getD i default).coreId (sys.caches.getD i default).setIndexBits (sys.caches.getD i default).blockOffsetBits (sys.caches.getD i default).associativity (sys.caches.getD i default).sets true (sys.caches.getD i default).blockedCycles ((sys.caches.getD i default).stats.incrementAccesses.incrementReads.incrementReadMisses))) sys.bus) BusOperation.BusRd address i false 0).cycles ((busOperation (Sys.mk (sys.caches.set i (Cache.mk (sys.caches.getD i default).coreId (sys.caches.getD i default).setIndexBits (sys.caches.getD i default).blockOffsetBits (sys.caches.getD i default).associativity (sys.caches.getD i default).sets true (sys.caches.getD i default).blockedCycles ((sys.caches.getD i default).stats.incrementAccesses.incrementReads.incrementReadMisses))) sys.bus) BusOperation.BusRd address i false 0).accepted && (busOperation (Sys.mk (sys.caches.set i (Cache.mk (sys.caches.getD i default).coreId (sys.caches.getD i default).setIndexBits (sys.caches.getD i default).blockOffsetBits (sys.caches.getD i default).associativity (sys.caches.getD i default).sets true (sys.caches.getD i default).blockedCycles ((sys.caches.getD i default).stats.incrementAccesses.incrementReads.incrementReadMisses))) sys.bus) BusOperation.BusRd address i false 0).dataProvided)).1.getD i default) with blockedCycles := ((allocateLine (busOperation (Sys.mk (sys.caches.set i (Cache.mk (sys.caches.getD i default).coreId (sys.caches.getD i default).setIndexBits (sys.caches.getD i default).blockOffsetBits (sys.caches.getD i default).associativity (sys.caches.getD i default).sets true (sys.caches.getD i default).blockedCycles ((sys.caches.getD i default).stats.incrementAccesses.incrementReads.incrementReadMisses))) sys.bus) BusOperation.BusRd address i false 0).sys.caches i address false (busOperation (Sys.mk (sys.caches.set i (Cache.mk (sys.caches.getD i default).coreId (sys.caches.getD i default).setIndexBits (sys.caches.getD i default).blockOffsetBits (sys.caches.getD i default).associativity (sys.caches.getD i default).sets true (sys.caches.getD i default).blockedCycles ((sys.caches.getD i default).stats.incrementAccesses.incrementReads.incrementReadMisses))) sys.bus) BusOperation.BusRd address i false 0).cycles ((busOperation (Sys.mk (sys.caches.set i (Cache.mk (sys.caches.getD i default).coreId (sys.caches.getD i default).setIndexBits (sys.caches.getD i default).blockOffsetBits (sys.caches.getD i default).associativity (sys.caches.getD i default).sets true (sys.caches.getD i default).blockedCycles ((sys.caches.getD i default).stats.incrementAccesses.incrementReads.incrementReadMisses))) sys.bus) BusOperation.BusRd address i false 0).accepted && (busOperation (Sys.mk (sys.caches.set i (Cache.mk (sys.caches.getD i default).coreId (sys.caches.getD i default).setIndexBits (sys.caches.getD i default).blockOffsetBits (sys.caches.getD i default).associativity (sys.caches.getD i default).sets true (sys.caches.getD i default).blockedCycles ((sys.caches.getD i default).stats.incrementAccesses.incrementReads.incrementReadMisses))) sys.bus) BusOperation.BusRd address i false 0).dataProvided)).1.getD i default).blockedCycles + ((allocateLine (busOperation (Sys.mk (sys.caches.set i (Cache.mk (sys.caches.getD i default).coreId (sys.caches.getD i default).setIndexBits (sys.caches.getD i default).blockOffsetBits (sys.caches.getD i default).associativity (sys.caches.getD i default).sets true (sys.caches.getD i default).blockedCycles ((sys.caches.getD i default).stats.incrementAccesses.incrementReads.incrementReadMisses))) sys.bus) BusOperation.BusRd address i false 0).sys.caches i address false (busOperation (Sys.mk (sys.caches.set i (Cache.mk (sys.caches.getD i default).coreId (sys.caches.getD i default).setIndexBits (sys.caches.getD i default).blockOffsetBits (sys.caches.getD i default).associativity (sys.caches.getD i default).sets true (sys.caches.getD i default).blockedCycles ((sys.caches.getD i default).stats.incrementAccesses.incrementReads.incrementReadMisses))) sys.bus) BusOperation.BusRd address i false 0).cycles ((busOperation (Sys.mk (sys.caches.set i (Cache.mk (sys.caches.getD i default).coreId (sys.caches.getD i default).setIndexBits (sys.caches.getD i default).blockOffsetBits (sys.caches.getD i default).associativity (sys.caches.getD i default).sets true (sys.caches.getD i default).blockedCycles ((sys.caches.getD i default).stats.incrementAccesses.incrementReads.incrementReadMisses))) sys.bus) BusOperation.BusRd address i false 0).accepted && (busOperation (Sys.mk (sys.caches.set i (Cache.mk (sys.caches.getD i default).coreId (sys.caches.getD i default).setIndexBits (sys.caches.getD i default).blockOffsetBits (sys.caches.getD i default).associativity (sys.caches.getD i default).sets true (sys.caches.getD i default).blockedCycles ((sys.caches.getD i default).stats.incrementAccesses.incrementReads.incrementReadMisses))) sys.bus) BusOperation.BusRd address i false 0).dataProvided)).2 - 1) }) : List Cache).getD i default = { ((allocateLine (busOperation (Sys.mk (sys.caches.set i (Cache.mk (sys.caches.getD i default).coreId (sys.caches.getD i default).setIndexBits (sys.caches.getD i default).blockOffsetBits (sys.caches.getD i default).associativity (sys.caches.getD i default).sets true (sys.caches.getD i default).blockedCycles ((sys.caches.getD i default).stats.incrementAccesses.incrementReads.incrementReadMisses))) sys.bus) BusOperation.BusRd address i false 0).sys.caches i address false (busOperation (Sys.mk (sys.caches.set i (Cache.mk (sys.caches.getD i default).coreId (sys.caches.getD i default).setIndexBits (sys.caches.getD i default).blockOffsetBits (sys.caches.getD i default).associativity (sys.caches.getD i default).sets true (sys.caches.getD i default).blockedCycles ((sys.caches.getD i default).stats.incrementAccesses.incrementReads.incrementReadMisses))) sys.bus) BusOperation.BusRd address i false 0).cycles ((busOperation (Sys.mk (sys.caches.set i (Cache.mk (sys.caches.getD i default).coreId (sys.caches.getD i default).setIndexBits (sys.caches.getD i default).blockOffsetBits (sys.caches.getD i default).associativity (sys.caches.getD i default).sets true (sys.caches.getD i default).blockedCycles ((sys.caches.getD i default).stats.incrementAccesses.incrementReads.incrementReadMisses))) sys.bus) BusOperation.BusRd address i false 0).accepted && (busOperation (Sys.mk (sys.caches.set i (Cache.mk (sys.caches.getD i default).coreId (sys.caches.getD i default).setIndexBits (sys.caches.getD i default).blockOffsetBits (sys.caches.getD i default).associativity (sys.caches.getD i default).sets true (sys.caches.getD i default).blockedCycles ((sys.caches.getD i default).stats.incrementAccesses.incrementReads.incrementReadMisses))) sys.bus) BusOperation.BusRd address i false 0).dataProvided)).1.getD i default) with blockedCycles := ((allocateLine (busOperation (Sys.mk (sys.caches.set i (Cache.mk (sys.caches.getD i default).coreId (sys.caches.getD i default).setIndexBits (sys.caches.getD i default).blockOffsetBits (sys.caches.getD i default).associativity (sys.caches.getD i default).sets true (sys.caches.getD i default).blockedCycles ((sys.caches.getD i default).stats.incrementAccesses.incrementReads.incrementReadMisses))) sys.bus) BusOperation.BusRd address i false 0).sys.caches i address false (busOperation (Sys.mk (sys.caches.set i (Cache.mk (sys.caches.getD i default).coreId (sys.caches.getD i default).setIndexBits (sys.caches.getD i default).blockOffsetBits (sys.caches.getD i default).associativity (sys.caches.getD i default).sets true (sys.caches.getD i default).blockedCycles ((sys.caches.getD i default).stats.incrementAccesses.incrementReads.incrementReadMisses))) sys.bus) BusOperation.BusRd address i false 0).cycles ((busOperation (Sys.mk (sys.caches.set i (Cache.mk (sys.caches.getD i default).coreId (sys.caches.getD i default).setIndexBits (sys.caches.getD i default).blockOffsetBits (sys.caches.getD i default).associativity (sys.caches.getD i default).sets true (sys.caches.getD i default).blockedCycles ((sys.caches.getD i default).stats.incrementAccesses.incrementReads.incrementReadMisses))) sys.bus) BusOperation.BusRd address i false 0).accepted && (busOperation (Sys.mk (sys.caches.set i (Cache.mk (sys.caches.getD i default).coreId (sys.caches.getD i default).setIndexBits (sys.caches.getD i default).blockOffsetBits (sys.caches.getD i default).associativity (sys.caches.getD i default).sets true (sys.caches.getD i default).blockedCycles ((sys.caches.getD i default).stats.incrementAccesses.incrementReads.incrementReadMisses))) sys.bus) BusOperation.BusRd address i false 0).dataProvided)).1.getD i default).blockedCycles + ((allocateLine (busOperation (Sys.mk (sys.caches.set i (Cache.mk (sys.caches.getD i default).coreId (sys.caches.getD i default).setIndexBits (sys.caches.getD i default).blockOffsetBits (sys.caches.getD i default).associativity (sys.caches.getD i default).sets true (sys.caches.getD i default).blockedCycles ((sys.caches.getD i default).stats.incrementAccesses.incrementReads.incrementReadMisses))) sys.bus) BusOperation.BusRd address i false 0).sys.caches i address false (busOperation (Sys.mk (sys.caches.set i (Cache.mk (sys.caches.getD i default).coreId (sys.caches.getD i default).setIndexBits (sys.caches.getD i default).blockOffsetBits (sys.caches.getD i default).associativity (sys.caches.getD i default).sets true (sys.caches.getD i default).blockedCycles ((sys.caches.getD i default).stats.incrementAccesses.incrementReads.incrementReadMisses))) sys.bus) BusOperation.BusRd address i false 0).cycles ((busOperation (Sys.mk (sys.caches.set i (Cache.mk (sys.caches.getD i default).coreId (sys.caches.getD i default).setIndexBits (sys.caches.getD i default).blockOffsetBits (sys.caches.getD i default).associativity (sys.caches.getD i default).sets true (sys.caches.getD i default).blockedCycles ((sys.caches.getD i default).stats.incrementAccesses.incrementReads.incrementReadMisses))) sys.bus) BusOperation.BusRd address i false 0).accepted && (busOperation (Sys.mk (sys.caches.set i (Cache.mk (sys.caches.getD i default).coreId (sys.caches.getD i default).setIndexBits (sys.caches.getD i default).blockOffsetBits (sys.caches.getD i default).associativity (sys.caches.getD i default).sets true (sys.caches.getD i default).blockedCycles ((sys.caches.getD i default).stats.incrementAccesses.incrementReads.incrementReadMisses))) sys.bus) BusOperation.BusRd address i false 0).dataProvided)).2 - 1) } :=
    getD_set_self _ _ _ _ (by rw [g1]; exact hi)
  have hbrEq : (((busOperation (Sys.mk (sys.caches.set i (Cache.mk (sys.caches.getD i default).coreId (sys.caches.getD i default).setIndexBits (sys.caches.getD i default).blockOffsetBits (sys.caches.getD i default).associativity (sys.caches.getD i default).sets true (sys.caches.getD i default).blockedCycles ((sys.caches.getD i default).stats.incrementAccesses.incrementReads.incrementReadMisses))) sys.bus) BusOperation.BusRd address i false 0).accepted && (busOperation (Sys.mk (sys.caches.set i (Cache.mk (sys.caches.getD i default).coreId (sys.caches.getD i default).setIndexBits (sys.caches.getD i default).blockOffsetBits (sys.caches.getD i default).associativity (sys.caches.getD i default).sets true (sys.caches.getD i default).blockedCycles ((sys.caches.getD i default).stats.incrementAccesses.incrementReads.incrementReadMisses))) sys.bus) BusOperation.BusRd address i false 0).dataProvided) : Bool) = (busOperation (Sys.mk (sys.caches.set i (Cache.mk (sys.caches.getD i default).coreId (sys.caches.getD i default).setIndexBits (sys.caches.getD i default).blockOffsetBits (sys.caches.getD i default).associativity (sys.caches.getD i default).sets true (sys.caches.getD i default).blockedCycles ((sys.caches.getD i default).stats.incrementAccesses.incrementReads.incrementReadMisses))) sys.bus) BusOperation.BusRd address i false 0).dataProvided := by
    rw [racc, Bool.true_and]
  rw [cacheRead_eq_miss sys i address cycles hbl hfl hcore]
  refine ⟨rfl, ?_, ?_, ?_⟩
  · show ((((allocateLine (busOperation (Sys.mk (sys.caches.set i (Cache.mk (sys.caches.getD i default).coreId (sys.caches.getD i default).setIndexBits (sys.caches.getD i default).blockOffsetBits (sys.caches.getD i default).associativity (sys.caches.getD i default).sets true (sys.caches.getD i default).blockedCycles ((sys.caches.getD i default).stats.incrementAccesses.incrementReads.incrementReadMisses))) sys.bus) BusOperation.BusRd address i false 0).sys.caches i address false (busOperation (Sys.mk (sys.caches.set i (Cache.mk (sys.caches.getD i default).coreId (sys.caches.getD i default).setIndexBits (sys.caches.getD i default).blockOffsetBits (sys.caches.getD i default).associativity (sys.caches.getD i default).sets true (sys.caches.getD i default).blockedCycles ((sys.caches.getD i default).stats.incrementAccesses.incrementReads.incrementReadMisses))) sys.bus) BusOperation.BusRd address i false 0).cycles ((busOperation (Sys.mk (sys.caches.set i (Cache.mk (sys.caches.getD i default).coreId (sys.caches.getD i default).setIndexBits (sys.caches.getD i default).blockOffsetBits (sys.caches.getD i default).associativity (sys.caches.getD i default).sets true (sys.caches.getD i default).blockedCycles ((sys.caches.getD i default).stats.incrementAccesses.incrementReads.incrementReadMisses))) sys.bus) BusOperation.BusRd address i false 0).accepted && (busOperation (Sys.mk (sys.caches.set i (Cache.mk (sys.caches.getD i default).coreId (sys.caches.getD i default).setIndexBits (sys.caches.getD i default).blockOffsetBits (sys.caches.getD i default).associativity (sys.caches.getD i default).sets true (sys.caches.getD i default).blockedCycles ((sys.caches.getD i default).stats.incrementAccesses.incrementReads.incrementReadMisses))) sys.bus) BusOperation.BusRd address i false 0).dataProvided)).1.set i { ((allocateLine (busOperation (Sys.mk (sys.caches.set i (Cache.mk (sys.caches.getD i default).coreId (sys.caches.getD i default).setIndexBits (sys.caches.getD i default).blockOffsetBits (sys.caches.getD i default).associativity (sys.caches.getD i default).sets true (sys.caches.getD i default).blockedCycles ((sys.caches.getD i default).stats.incrementAccesses.incrementReads.incrementReadMisses))) sys.bus) BusOperation.BusRd address i false 0).sys.caches i address false (busOperation (Sys.mk (sys.caches.set i (Cache.mk (sys.caches.getD i default).coreId (sys.caches.getD i default).setIndexBits (sys.caches.getD i default).blockOffsetBits (sys.caches.getD i default).associativity (sys.caches.getD i default).sets true (sys.caches.getD i default).blockedCycles ((sys.caches.getD i default).stats.incrementAccesses.incrementReads.incrementReadMisses))) sys.bus) BusOperation.BusRd address i false 0).cycles ((busOperation (Sys.mk (sys.caches.set i (Cache.mk (sys.caches.getD i default).coreId (sys.caches.getD i default).setIndexBits (sys.caches.getD i default).blockOffsetBits (sys.caches.getD i default).associativity (sys.caches.getD i default).sets true (sys.caches.getD i default).blockedCycles ((sys.caches.getD i default).stats.incrementAccesses.incrementReads.incrementReadMisses))) sys.bus) BusOperation.BusRd address i false 0).accepted && (busOperation (Sys.mk (sys.caches.set i (Cache.mk (sys.caches.getD i default).coreId (sys.caches.getD i default).setIndexBits (sys.caches.getD i default).blockOffsetBits (sys.caches.getD i default).associativity (sys.caches.getD i default).sets true (sys.caches.getD i default).blockedCycles ((sys.caches.getD i default).stats.incrementAccesses.incrementReads.incrementReadMisses))) sys.bus) BusOperation.BusRd address i false 0).dataProvided)).1.getD i default) with blockedCycles := ((allocateLine (busOperation (Sys.mk (sys.caches.set i (Cache.mk (sys.caches.getD i default).coreId (sys.caches.getD i default).setIndexBits (sys.caches.getD i default).blockOffsetBits (sys.caches.getD i default).associativity (sys.caches.getD i default).sets true (sys.caches.getD i default).blockedCycles ((sys.caches.getD i default).stats.incrementAccesses.incrementReads.incrementReadMisses))) sys.bus) BusOperation.BusRd address i false 0).sys.caches i address false (busOperation (Sys.mk (sys.caches.set i (Cache.mk (sys.caches.getD i default).coreId (sys.caches.getD i default).setIndexBits (sys.caches.getD i default).blockOffsetBits (sys.caches.getD i default).associativity (sys.caches.getD i default).sets true (sys.caches.getD i default).blockedCycles ((sys.caches.getD i default).stats.incrementAccesses.incrementReads.incrementReadMisses))) sys.bus) BusOperation.BusRd address i false 0).cycles ((busOperation (Sys.mk (sys.caches.set i (Cache.mk (sys.caches.getD i default).coreId (sys.caches.getD i default).setIndexBits (sys.caches.getD i default).blockOffsetBits (sys.caches.getD i default).associativity (sys.caches.getD i default).sets true (sys.caches.getD i default).blockedCycles ((sys.caches.getD i default).stats.incrementAccesses.incrementReads.incrementReadMisses))) sys.bus) BusOperation.BusRd address i false 0).accepted && (busOperation (Sys.mk (sys.caches.set i (Cache.mk (sys.caches.getD i default).coreId (sys.caches.getD i default).setIndexBits (sys.caches.getD i default).blockOffsetBits (sys.caches.getD i default).associativity (sys.caches.getD i default).sets true (sys.caches.getD i default).blockedCycles ((sys.caches.getD i default).stats.incrementAccesses.incrementReads.incrementReadMisses))) sys.bus) BusOperation.BusRd address i false 0).dataProvided)).1.getD i default).blockedCycles + ((allocateLine (busOperation (Sys.mk (sys.caches.set i (Cache.mk (sys.caches.getD i default).coreId (sys.caches.getD i default).setIndexBits (sys.caches.getD i default).blockOffsetBits (sys.caches.getD i default).associativity (sys.caches.getD i default).sets true (sys.caches.getD i default).blockedCycles ((sys.caches.getD i default).stats.incrementAccesses.incrementReads.incrementReadMisses))) sys.bus) BusOperation.BusRd address i false 0).sys.caches i address false (busOperation (Sys.mk (sys.caches.set i (Cache.mk (sys.caches.getD i default).coreId (sys.caches.getD i default).setIndexBits (sys.caches.getD i default).blockOffsetBits (sys.caches.getD i default).associativity (sys.caches.getD i default).sets true (sys.caches.getD i default).blockedCycles ((sys.caches.getD i default).stats.incrementAccesses.incrementReads.incrementReadMisses))) sys.bus) BusOperation.BusRd address i false 0).cycles ((busOperation (Sys.mk (sys.caches.set i (Cache.mk (sys.caches.getD i default).coreId (sys.caches.getD i default).setIndexBits (sys.caches.getD i default).blockOffsetBits (sys.caches.getD i default).associativity (sys.caches.getD i default).sets true (sys.caches.getD i default).blockedCycles ((sys.caches.getD i default).stats.incrementAccesses.incrementReads.incrementReadMisses))) sys.bus) BusOperation.BusRd address i false 0).accepted && (busOperation (Sys.mk (sys.caches.set i (Cache.mk (sys.caches.getD i default).coreId (sys.caches.getD i default).setIndexBits (sys.caches.getD i default).blockOffsetBits (sys.caches.getD i default).associativity (sys.caches.getD i default).sets true (sys.caches.getD i default).blockedCycles ((sys.caches.getD i default).stats.incrementAccesses.incrementReads.incrementReadMisses))) sys.bus) BusOperation.BusRd address i false 0).dataProvided)).2 - 1) }) : List Cache).getD i default).isBlocked = false
    rw [hFgI]
    exact g4
  · show ((((allocateLine (busOperation (Sys.mk (sys.caches.set i (Cache.mk (sys.caches.getD i default).coreId (sys.caches.getD i default).setIndexBits (sys.caches.getD i default).blockOffsetBits (sys.caches.getD i default).associativity (sys.caches.getD i default).sets true (sys.caches.getD i default).blockedCycles ((sys.caches.getD i default).stats.incrementAccesses.incrementReads.incrementReadMisses))) sys.bus) BusOperation.BusRd address i false 0).sys.caches i address false (busOperation (Sys.mk (sys.caches.set i (Cache.mk (sys.caches.getD i default).coreId (sys.caches.getD i default).setIndexBits (sys.caches.getD i default).blockOffsetBits (sys.caches.getD i default).associativity (sys.caches.getD i default).sets true (sys.caches.getD i default).blockedCycles ((sys.caches.getD i default).stats.incrementAccesses.incrementReads.incrementReadMisses))) sys.bus) BusOperation.BusRd address i false 0).cycles ((busOperation (Sys.mk (sys.caches.set i (Cache.mk (sys.caches.getD i default).coreId (sys.caches.getD i default).setIndexBits (sys.caches.getD i default).blockOffsetBits (sys.caches.getD i default).associativity (sys.caches.getD i default).sets true (sys.caches.getD i default).blockedCycles ((sys.caches.getD i default).stats.incrementAccesses.incrementReads.incrementReadMisses))) sys.bus) BusOperation.BusRd address i false 0).accepted && (busOperation (Sys.mk (sys.caches.set i (Cache.mk (sys.caches.getD i default).coreId (sys.caches.getD i default).setIndexBits (sys.caches.getD i default).blockOffsetBits (sys.caches.getD i default).associativity (sys.caches.getD i default).sets true (sys.caches.getD i default).blockedCycles ((sys.caches.getD i default).stats.incrementAccesses.incrementReads.incrementReadMisses))) sys.bus) BusOperation.BusRd address i false 0).dataProvided)).1.set i { ((allocateLine (busOperation (Sys.mk (sys.caches.set i (Cache.mk (sys.caches.getD i default).coreId (sys.caches.getD i default).setIndexBits (sys.caches.getD i default).blockOffsetBits (sys.caches.getD i default).associativity (sys.caches.getD i default).sets true (sys.caches.getD i default).blockedCycles ((sys.caches.getD i default).stats.incrementAccesses.incrementReads.incrementReadMisses))) sys.bus) BusOperation.BusRd address i false 0).sys.caches i address false (busOperation (Sys.mk (sys.caches.set i (Cache.mk (sys.caches.getD i default).coreId (sys.caches.getD i default).setIndexBits (sys.caches.getD i default).blockOffsetBits (sys.caches.getD i default).associativity (sys.caches.getD i default).sets true (sys.caches.getD i default).blockedCycles ((sys.caches.getD i default).stats.incrementAccesses.incrementReads.incrementReadMisses))) sys.bus) BusOperation.BusRd address i false 0).cycles ((busOperation (Sys.mk (sys.caches.set i (Cache.mk (sys.caches.getD i default).coreId (sys.caches.getD i default).setIndexBits (sys.caches.getD i default).blockOffsetBits (sys.caches.getD i default).associativity (sys.caches.getD i default).sets true (sys.caches.getD i default).blockedCycles ((sys.caches.getD i default).stats.incrementAccesses.incrementReads.incrementReadMisses))) sys.bus) BusOperation.BusRd address i false 0).accepted && (busOperation (Sys.mk (sys.caches.set i (Cache.mk (sys.caches.getD i default).coreId (sys.caches.getD i default).setIndexBits (sys.caches.getD i default).blockOffsetBits (sys.caches.getD i default).associativity (sys.caches.getD i default).sets true (sys.caches.getD i default).blockedCycles ((sys.caches.getD i default).stats.incrementAccesses.incrementReads.incrementReadMisses))) sys.bus) BusOperation.BusRd address i false 0).dataProvided)).1.getD i default) with blockedCycles := ((allocateLine (busOperation (Sys.mk (sys.caches.set i (Cache.mk (sys.caches.getD i default).coreId (sys.caches.getD i default).setIndexBits (sys.caches.getD i default).blockOffsetBits (sys.caches.getD i default).associativity (sys.caches.getD i default).sets true (sys.caches.getD i default).blockedCycles ((sys.caches.getD i default).stats.incrementAccesses.incrementReads.incrementReadMisses))) sys.bus) BusOperation.BusRd address i false 0).sys.caches i address false (busOperation (Sys.mk (sys.caches.set i (Cache.mk (sys.caches.getD i default).coreId (sys.caches.getD i default).setIndexBits (sys.caches.getD i default).blockOffsetBits (sys.caches.getD i default).associativity (sys.caches.getD i default).sets true (sys.caches.getD i default).blockedCycles ((sys.caches.getD i default).stats.incrementAccesses.incrementReads.incrementReadMisses))) sys.bus) BusOperation.BusRd address i false 0).cycles ((busOperation (Sys.mk (sys.caches.set i (Cache.mk (sys.caches.getD i default).coreId (sys.caches.getD i default).setIndexBits (sys.caches.getD i default).blockOffsetBits (sys.caches.getD i default).associativity (sys.caches.getD i default).sets true (sys.caches.getD i default).blockedCycles ((sys.caches.getD i default).stats.incrementAccesses.incrementReads.incrementReadMisses))) sys.bus) BusOperation.BusRd address i false 0).accepted && (busOperation (Sys.mk (sys.caches.set i (Cache.mk (sys.caches.getD i default).coreId (sys.caches.getD i default).setIndexBits (sys.caches.getD i default).blockOffsetBits (sys.caches.getD i default).associativity (sys.caches.getD i default).sets true (sys.caches.getD i default).blockedCycles ((sys.caches.getD i default).stats.incrementAccesses.incrementReads.incrementReadMisses))) sys.bus) BusOperation.BusRd address i false 0).dataProvided)).1.getD i default).blockedCycles + ((allocateLine (busOperation (Sys.mk (sys.caches.set i (Cache.mk (sys.caches.getD i default).coreId (sys.caches.getD i default).setIndexBits (sys.caches.getD i default).blockOffsetBits (sys.caches.getD i default).associativity (sys.caches.getD i default).sets true (sys.caches.getD i default).blockedCycles ((sys.caches.getD i default).stats.incrementAccesses.incrementReads.incrementReadMisses))) sys.bus) BusOperation.BusRd address i false 0).sys.caches i address false (busOperation (Sys.mk (sys.caches.set i (Cache.mk (sys.caches.getD i default).coreId (sys.caches.getD i default).setIndexBits (sys.caches.getD i default).blockOffsetBits (sys.caches.getD i default).associativity (sys.caches.getD i default).sets true (sys.caches.getD i default).blockedCycles ((sys.caches.getD i default).stats.incrementAccesses.incrementReads.incrementReadMisses))) sys.bus) BusOperation.BusRd address i false 0).cycles ((busOperation (Sys.mk (sys.caches.set i (Cache.mk (sys.caches.getD i default).coreId (sys.caches.getD i default).setIndexBits (sys.caches.getD i default).blockOffsetBits (sys.caches.getD i default).associativity (sys.caches.getD i default).sets true (sys.caches.getD i default).blockedCycles ((sys.caches.getD i default).stats.incrementAccesses.incrementReads.incrementReadMisses))) sys.bus) BusOperation.BusRd address i false 0).accepted && (busOperation (Sys.mk (sys.caches.set i (Cache.mk (sys.caches.getD i default).coreId (sys.caches.getD i default).setIndexBits (sys.caches.getD i default).blockOffsetBits (sys.caches.getD i default).associativity (sys.caches.getD i default).sets true (sys.caches.getD i default).blockedCycles ((sys.caches.getD i default).stats.incrementAccesses.incrementReads.incrementReadMisses))) sys.bus) BusOperation.BusRd address i false 0).dataProvided)).2 - 1) }) : List Cache).getD i default).stateAt (addrSetIdx sb bob address) (addrTag sb bob address) = _
    rw [hFgI]
    show (((allocateLine (busOperation (Sys.mk (sys.caches.set i (Cache.mk (sys.caches.getD i default).coreId (sys.caches.getD i default).setIndexBits (sys.caches.getD i default).blockOffsetBits (sys.caches.getD i default).associativity (sys.caches.getD i default).sets true (sys.caches.getD i default).blockedCycles ((sys.caches.getD i default).stats.incrementAccesses.incrementReads.incrementReadMisses))) sys.bus) BusOperation.BusRd address i false 0).sys.caches i address false (busOperation (Sys.mk (sys.caches.set i (Cache.mk (sys.caches.getD i default).coreId (sys.caches.getD i default).setIndexBits (sys.caches.getD i default).blockOffsetBits (sys.caches.getD i default).associativity (sys.caches.getD i default).sets true (sys.caches.getD i default).blockedCycles ((sys.caches.getD i default).stats.incrementAccesses.incrementReads.incrementReadMisses))) sys.bus) BusOperation.BusRd address i false 0).cycles ((busOperation (Sys.mk (sys.caches.set i (Cache.mk (sys.caches.getD i default).coreId (sys.caches.getD i default).setIndexBits (sys.caches.getD i default).blockOffsetBits (sys.caches.getD i default).associativity (sys.caches.getD i default).sets true (sys.caches.getD i default).blockedCycles ((sys.caches.getD i default).stats.incrementAccesses.incrementReads.incrementReadMisses))) sys.bus) BusOperation.BusRd address i false 0).accepted && (busOperation (Sys.mk (sys.caches.set i (Cache.mk (sys.caches.getD i default).coreId (sys.caches.getD i default).setIndexBits (sys.caches.getD i default).blockOffsetBits (sys.caches.getD i default).associativity (sys.caches.getD i default).sets true (sys.caches.getD i default).blockedCycles ((sys.caches.getD i default).stats.incrementAccesses.incrementReads.incrementReadMisses))) sys.bus) BusOperation.BusRd address i false 0).dataProvided)).1.getD i default) : Cache).stateAt (addrSetIdx sb bob address) (addrTag sb bob address) = _
    rw [g3, hbrEq]
    simp only [Bool.false_eq_true, if_false]
  · show cycles + (allocateLine (busOperation (Sys.mk (sys.caches.set i (Cache.mk (sys.caches.getD i default).coreId (sys.caches.getD i default).setIndexBits (sys.caches.getD i default).blockOffsetBits (sys.caches.getD i default).associativity (sys.caches.getD i default).sets true (sys.caches.getD i default).blockedCycles ((sys.caches.getD i default).stats.incrementAccesses.incrementReads.incrementReadMisses))) sys.bus) BusOperation.BusRd address i false 0).sys.caches i address false (busOperation (Sys.mk (sys.caches.set i (Cache.mk (sys.caches.getD i default).coreId (sys.caches.getD i default).setIndexBits (sys.caches.getD i default).blockOffsetBits (sys.caches.getD i default).associativity (sys.caches.getD i default).sets true (sys.caches.getD i default).blockedCycles ((sys.caches.getD i default).stats.incrementAccesses.incrementReads.incrementReadMisses))) sys.bus) BusOperation.BusRd address i false 0).cycles ((busOperation (Sys.mk (sys.caches.set i (Cache.mk (sys.caches.getD i default).coreId (sys.caches.getD i default).setIndexBits (sys.caches.getD i default).blockOffsetBits (sys.caches.getD i default).associativity (sys.caches.getD i default).sets true (sys.caches.getD i default).blockedCycles ((sys.caches.getD i default).stats.incrementAccesses.incrementReads.incrementReadMisses))) sys.bus) BusOperation.BusRd address i false 0).accepted && (busOperation (Sys.mk (sys.caches.set i (Cache.mk (sys.caches.getD i default).coreId (sys.caches.getD i default).setIndexBits (sys.caches.getD i default).blockOffsetBits (sys.caches.getD i default).associativity (sys.caches.getD i default).sets true (sys.caches.getD i default).blockedCycles ((sys.caches.getD i default).stats.incrementAccesses.incrementReads.incrementReadMisses))) sys.bus) BusOperation.BusRd address i false 0).dataProvided)).2 = _
    rw [rgetI, hg1I] at g6
    rw [g6]
    have hIf : (if ((Cache.mk (sys.caches.getD i default).coreId (sys.caches.getD i default).setIndexBits (sys.caches.getD i default).blockOffsetBits (sys.caches.getD i default).associativity (sys.caches.getD i default).sets true (sys.caches.getD i default).blockedCycles ((sys.caches.getD i default).stats.incrementAccesses.incrementReads.incrementReadMisses)).sets.getD (addrSetIdx sb bob address) default).isFull = true ∧
          (((Cache.mk (sys.caches.getD i default).coreId (sys.caches.getD i default).setIndexBits (sys.caches.getD i default).blockOffsetBits (sys.caches.getD i default).associativity (sys.caches.getD i default).sets true (sys.caches.getD i default).blockedCycles ((sys.caches.getD i default).stats.incrementAccesses.incrementReads.incrementReadMisses)).sets.getD (addrSetIdx sb bob address) default).lines.getD ((Cache.mk (sys.caches.getD i default).coreId (sys.caches.getD i default).setIndexBits (sys.caches.getD i default).blockOffsetBits (sys.caches.getD i default).associativity (sys.caches.getD i default).sets true (sys.caches.getD i default).blockedCycles ((sys.caches.getD i default).stats.incrementAccesses.incrementReads.incrementReadMisses)).sets.getD (addrSetIdx sb bob address) default).getLRUIndex default).state = CacheState.MODIFIED
        then (100 : Int) else 0)
        = (if ((sys.caches.getD i default).sets.getD (addrSetIdx sb bob address) default).isFull = true ∧
            (((sys.caches.getD i default).sets.getD (addrSetIdx sb bob address) default).lines.getD ((sys.caches.getD i default).sets.getD (addrSetIdx sb bob address) default).getLRUIndex default).state = CacheState.MODIFIED
          then (100 : Int) else 0) := rfl
    rw [← hIf]
    omega

/-- The write-miss analogue of `cacheRead_miss_post`: on a well-formed
machine a write miss is accepted and, because `Cache::allocateLine` clears
`isBlocked` before returning, the cache is already unblocked when the call
returns. -/
theorem cacheWrite_miss_post (n sb assoc bob : Nat) (sys : Sys)
    (hinv : Inv n sb assoc bob sys) (hassoc : 0 < assoc)
    (i : Nat) (hi : i < n) (address : Nat) (cycles : Int)
    (hbl : (sys.caches.getD i default).isBlocked = false)
    (hfl : ((sys.caches.getD i default).sets.getD ((sys.caches.getD i default).getSetIndex address) default).findLine
      ((sys.caches.getD i default).getTag address) = none) :
    (cacheWrite sys i address cycles).accepted = true ∧
    ((cacheWrite sys i address cycles).sys.caches.getD i default).isBlocked = false := by
  obtain ⟨⟨hlen, hwf, hbusy, hpend⟩, hmesi⟩ := hinv
  have hcwf := hwf i hi
  have hcore : (sys.caches.getD i default).coreId = i := hcwf.1
  have hSI := cacheWF_getSetIndex sb bob assoc i _ hcwf address
  have hTA := cacheWF_getTag sb bob assoc i _ hcwf address
  have hws1 : SysWF n sb assoc bob ((Sys.mk (sys.caches.set i (Cache.mk (sys.caches.getD i default).coreId (sys.caches.getD i default).setIndexBits (sys.caches.getD i default).blockOffsetBits (sys.caches.getD i default).associativity (sys.caches.getD i default).sets true (sys.caches.getD i default).blockedCycles ((sys.caches.getD i default).stats.incrementAccesses.incrementWrites.incrementWriteMisses))) sys.bus) : Sys) := by
    refine ⟨?_, ?_, hbusy, hpend⟩
    · show (sys.caches.set i (Cache.mk (sys.caches.getD i default).coreId (sys.caches.getD i default).setIndexBits (sys.caches.getD i default).blockOffsetBits (sys.caches.getD i default).associativity (sys.caches.getD i default).sets true (sys.caches.getD i default).blockedCycles ((sys.caches.getD i default).stats.incrementAccesses.incrementWrites.incrementWriteMisses))).length = n
      rw [List.length_set]
      exact hlen
    · intro j hj
      show CacheWF sb bob assoc j ((sys.caches.set i (Cache.mk (sys.caches.getD i default).coreId (sys.caches.getD i default).setIndexBits (sys.caches.getD i default).blockOffsetBits (sys.caches.getD i default).associativity (sys.caches.getD i default).sets true (sys.caches.getD i default).blockedCycles ((sys.caches.getD i default).stats.incrementAccesses.incrementWrites.incrementWriteMisses))).getD j default)
      by_cases hji : j = i
      · rw [hji, getD_set_self _ _ _ _ (by rw [hlen]; exact hi)]
        exact hwf i hi
      · rw [getD_set_ne _ _ _ _ _ (fun h => hji h.symm)]
        exact hwf j hj
  have hg1I : ((Sys.mk (sys.caches.set i (Cache.mk (sys.caches.getD i default).coreId (sys.caches.getD i default).setIndexBits (sys.caches.getD i default).blockOffsetBits (sys.caches.getD i default).associativity (sys.caches.getD i default).sets true (sys.caches.getD i default).blockedCycles ((sys.caches.getD i default).stats.incrementAccesses.incrementWrites.incrementWriteMisses))) sys.bus) : Sys).caches.getD i default = (Cache.mk (sys.caches.getD i default).coreId (sys.caches.getD i default).setIndexBits (sys.caches.getD i default).blockOffsetBits (sys.caches.getD i default).associativity (sys.caches.getD i default).sets true (sys.caches.getD i default).blockedCycles ((sys.caches.getD i default).stats.incrementAccesses.incrementWrites.incrementWriteMisses)) :=
    getD_set_self _ _ _ _ (by rw [hlen]; exact hi)
  obtain ⟨racc, rbusy, rpend, rlen, rgetI, rgetJ, rdp⟩ :=
    busOperation_spec n sb assoc bob (Sys.mk (sys.caches.set i (Cache.mk (sys.caches.getD i default).coreId (sys.caches.getD i default).setIndexBits (sys.caches.getD i default).blockOffsetBits (sys.caches.getD i default).associativity (sys.caches.getD i default).sets true (sys.caches.getD i default).blockedCycles ((sys.caches.getD i default).stats.incrementAccesses.incrementWrites.incrementWriteMisses))) sys.bus) hws1 BusOperation.BusRdX address i
  have hwfR := busOperation_WF n sb assoc bob (Sys.mk (sys.caches.set i (Cache.mk (sys.caches.getD i default).coreId (sys.caches.getD i default).setIndexBits (sys.caches.getD i default).blockOffsetBits (sys.caches.getD i default).associativity (sys.caches.getD i default).sets true (sys.caches.getD i default).blockedCycles ((sys.caches.getD i default).stats.incrementAccesses.incrementWrites.incrementWriteMisses))) sys.bus) hws1 BusOperation.BusRdX address i hi
  have hmissR : ((busOperation (Sys.mk (sys.caches.set i (Cache.mk (sys.caches.getD i default).coreId (sys.caches.getD i default).setIndexBits (sys.caches.getD i default).blockOffsetBits (sys.caches.getD i default).associativity (sys.caches.getD i default).sets true (sys.caches.getD i default).blockedCycles ((sys.caches.getD i default).stats.incrementAccesses.incrementWrites.incrementWriteMisses))) sys.bus) BusOperation.BusRdX address i false 0).sys.caches.getD i default).stateAt (addrSetIdx sb bob address) (addrTag sb bob address)
      = CacheState.INVALID := by
    rw [rgetI, hg1I]
    show ((sys.caches.getD i default).sets.getD (addrSetIdx sb bob address) default).stateOf (addrTag sb bob address) = CacheState.INVALID
    rw [stateOf_eq_INVALID_iff, ← hSI, ← hTA]
    exact hfl
  obtain ⟨g1, g2, g3, g4, g5, g6⟩ :=
    allocateLine_spec n sb assoc bob (busOperation (Sys.mk (sys.caches.set i (Cache.mk (sys.caches.getD i default).coreId (sys.caches.getD i default).setIndexBits (sys.caches.getD i default).blockOffsetBits (sys.caches.getD i default).associativity (sys.caches.getD i default).sets true (sys.caches.getD i default).blockedCycles ((sys.caches.getD i default).stats.incrementAccesses.incrementWrites.incrementWriteMisses))) sys.bus) BusOperation.BusRdX address i false 0).sys.caches rlen hwfR.2.1 hassoc i hi address
      hmissR true (busOperation (Sys.mk (sys.caches.set i (Cache.mk (sys.caches.getD i default).coreId (sys.caches.getD i default).setIndexBits (sys.caches.getD i default).blockOffsetBits (sys.caches.getD i default).associativity (sys.caches.getD i default).sets true (sys.caches.getD i default).blockedCycles ((sys.caches.getD i default).stats.incrementAccesses.incrementWrites.incrementWriteMisses))) sys.bus) BusOperation.BusRdX address i false 0).cycles ((busOperation (Sys.mk (sys.caches.set i (Cache.mk (sys.caches.getD i default).coreId (sys.caches.getD i default).setIndexBits (sys.caches.getD i default).blockOffsetBits (sys.caches.getD i default).associativity (sys.caches.getD i default).sets true (sys.caches.getD i default).blockedCycles ((sys.caches.getD i default).stats.incrementAccesses.incrementWrites.incrementWriteMisses))) sys.bus) BusOperation.BusRdX address i false 0).accepted && (busOperation (Sys.mk (sys.caches.set i (Cache.mk (sys.caches.getD i default).coreId (sys.caches.getD i default).setIndexBits (sys.caches.getD i default).blockOffsetBits (sys.caches.getD i default).associativity (sys.caches.getD i default).sets true (sys.caches.getD i default).blockedCycles ((sys.caches.getD i default).stats.incrementAccesses.incrementWrites.incrementWriteMisses))) sys.bus) BusOperation.BusRdX address i false 0).dataProvided)
  have hFgI : (((allocateLine (busOperation (Sys.mk (sys.caches.set i (Cache.mk (sys.caches.getD i default).coreId (sys.caches.getD i default).setIndexBits (sys.caches.getD i default).blockOffsetBits (sys.caches.getD i default).associativity (sys.caches.getD i default).sets true (sys.caches.getD i default).blockedCycles ((sys.caches.getD i default).stats.incrementAccesses.incrementWrites.incrementWriteMisses))) sys.bus) BusOperation.BusRdX address i false 0).sys.caches i address true (busOperation (Sys.mk (sys.caches.set i (Cache.mk (sys.caches.getD i default).coreId (sys.caches.getD i default).setIndexBits (sys.caches.getD i default).blockOffsetBits (sys.caches.getD i default).associativity (sys.caches.getD i default).sets true (sys.caches.getD i default).blockedCycles ((sys.caches.getD i default).stats.incrementAccesses.incrementWrites.incrementWriteMisses))) sys.bus) BusOperation.BusRdX address i false 0).cycles ((busOperation (Sys.mk (sys.caches.set i (Cache.mk (sys.caches.getD i default).coreId (sys.caches.getD i default).setIndexBits (sys.caches.getD i default).blockOffsetBits (sys.caches.getD i default).associativity (sys.caches.getD i default).sets true (sys.caches.getD i default).blockedCycles ((sys.caches.getD i default).stats.incrementAccesses.incrementWrites.incrementWriteMisses))) sys.bus) BusOperation.BusRdX address i false 0).accepted && (busOperation (Sys.mk (sys.caches.set i (Cache.mk (sys.caches.getD i default).coreId (sys.caches.getD i default).setIndexBits (sys.caches.getD i default).blockOffsetBits (sys.caches.getD i default).associativity (sys.caches.getD i default).sets true (sys.caches.getD i default).blockedCycles ((sys.caches.getD i default).stats.incrementAccesses.incrementWrites.incrementWriteMisses))) sys.bus) BusOperation.BusRdX address i false 0).dataProvided)).1.set i { ((allocateLine (busOperation (Sys.mk (sys.caches.set i (Cache.mk (sys.caches.getD i default).coreId (sys.caches.getD i default).setIndexBits (sys.caches.getD i default).blockOffsetBits (sys.caches.getD i default).associativity (sys.caches.getD i default).sets true (sys.caches.getD i default).blockedCycles ((sys.caches.getD i default).stats.incrementAccesses.incrementWrites.incrementWriteMisses))) sys.bus) BusOperation.BusRdX address i false 0).sys.caches i address true (busOperation (Sys.mk (sys.caches.set i (Cache.mk (sys.caches.getD i default).coreId (sys.caches.getD i default).setIndexBits (sys.caches.getD i default).blockOffsetBits (sys.caches.getD i default).associativity (sys.caches.getD i default).sets true (sys.caches.getD i default).blockedCycles ((sys.caches.getD i default).stats.incrementAccesses.incrementWrites.incrementWriteMisses))) sys.bus) BusOperation.BusRdX address i false 0).cycles ((busOperation (Sys.mk (sys.caches.set i (Cache.mk (sys.caches.getD i default).coreId (sys.caches.getD i default).setIndexBits (sys.caches.getD i default).blockOffsetBits (sys.caches.getD i default).associativity (sys.caches.getD i default).sets true (sys.caches.getD i default).blockedCycles ((sys.caches.getD i default).stats.incrementAccesses.incrementWrites.incrementWriteMisses))) sys.bus) BusOperation.BusRdX address i false 0).accepted && (busOperation (Sys.mk (sys.caches.set i (Cache.mk (sys.caches.getD i default).coreId (sys.caches.getD i default).setIndexBits (sys.caches.getD i default).blockOffsetBits (sys.caches.getD i default).associativity (sys.caches.getD i default).sets true (sys.caches.getD i default).blockedCycles ((sys.caches.getD i default).stats.incrementAccesses.incrementWrites.incrementWriteMisses))) sys.bus) BusOperation.BusRdX address i false 0).dataProvided)).1.getD i default) with blockedCycles := if (allocateLine (busOperation (Sys.mk (sys.caches.set i (Cache.mk (sys.caches.getD i default).coreId (sys.caches.getD i default).setIndexBits (sys.caches.getD i default).blockOffsetBits (sys.caches.getD i default).associativity (sys.caches.getD i default).sets true (sys.caches.getD i default).blockedCycles ((sys.caches.getD i default).stats.incrementAccesses.incrementWrites.incrementWriteMisses))) sys.bus) BusOperation.BusRdX address i false 0).sys.caches i address true (busOperation (Sys.mk (sys.caches.set i (Cache.mk (sys.caches.getD i default).coreId (sys.caches.getD i default).setIndexBits (sys.caches.getD i default).blockOffsetBits (sys.caches.getD i default).associativity (sys.caches.getD i default).sets true (sys.caches.getD i default).blockedCycles ((sys.caches.getD i default).stats.incrementAccesses.incrementWrites.incrementWriteMisses))) sys.bus) BusOperation.BusRdX address i false 0).cycles ((busOperation (Sys.mk (sys.caches.set i (Cache.mk (sys.caches.getD i default).coreId (sys.caches.getD i default).setIndexBits (sys.caches.getD i default).blockOffsetBits (sys.caches.getD i default).associativity (sys.caches.getD i default).sets true (sys.caches.getD i default).blockedCycles ((sys.caches.getD i default).stats.incrementAccesses.incrementWrites.incrementWriteMisses))) sys.bus) BusOperation.BusRdX address i false 0).accepted && (busOperation (Sys.mk (sys.caches.set i (Cache.mk (sys.caches.getD i default).coreId (sys.caches.getD i default).setIndexBits (sys.caches.getD i default).blockOffsetBits (sys.caches.getD i default).associativity (sys.caches.getD i default).sets true (sys.caches.getD i default).blockedCycles ((sys.caches.getD i default).stats.incrementAccesses.incrementWrites.incrementWriteMisses))) sys.bus) BusOperation.BusRdX address i false 0).dataProvided)).2 > 0 then (allocateLine (busOperation (Sys.mk (sys.caches.set i (Cache.mk (sys.caches.getD i default).coreId (sys.caches.getD i default).setIndexBits (sys.caches.getD i default).blockOffsetBits (sys.caches.getD i default).associativity (sys.caches.getD i default).sets true (sys.caches.getD i default).blockedCycles ((sys.caches.getD i default).stats.incrementAccesses.incrementWrites.incrementWriteMisses))) sys.bus) BusOperation.BusRdX address i false 0).sys.caches i address true (busOperation (Sys.mk (sys.caches.set i (Cache.mk (sys.caches.getD i default).coreId (sys.caches.getD i default).setIndexBits (sys.caches.getD i default).blockOffsetBits (sys.caches.getD i default).associativity (sys.caches.getD i default).sets true (sys.caches.getD i default).blockedCycles ((sys.caches.getD i default).stats.incrementAccesses.incrementWrites.incrementWriteMisses))) sys.bus) BusOperation.BusRdX address i false 0).cycles ((busOperation (Sys.mk (sys.caches.set i (Cache.mk (sys.caches.getD i default).coreId (sys.caches.getD i default).setIndexBits (sys.caches.getD i default).blockOffsetBits (sys.caches.getD i default).associativity (sys.caches.getD i default).sets true (sys.caches.getD i default).blockedCycles ((sys.caches.getD i default).stats.incrementAccesses.incrementWrites.incrementWriteMisses))) sys.bus) BusOperation.BusRdX address i false 0).accepted && (busOperation (Sys.mk (sys.caches.set i (Cache.mk (sys.caches.getD i default).coreId (sys.caches.getD i default).setIndexBits (sys.caches.getD i default).blockOffsetBits (sys.caches.getD i default).associativity (sys.caches.getD i default).sets true (sys.caches.getD i default).blockedCycles ((sys.caches.getD i default).stats.incrementAccesses.incrementWrites.incrementWriteMisses))) sys.bus) BusOperation.BusRdX address i false 0).dataProvided)).2 - 1 else 0 }) : List Cache).getD i default = { ((allocateLine (busOperation (Sys.mk (sys.caches.set i (Cache.mk (sys.caches.getD i default).coreId (sys.caches.getD i default).setIndexBits (sys.caches.getD i default).blockOffsetBits (sys.caches.getD i default).associativity (sys.caches.getD i default).sets true (sys.caches.getD i default).blockedCycles ((sys.caches.getD i default).stats.incrementAccesses.incrementWrites.incrementWriteMisses))) sys.bus) BusOperation.BusRdX address i false 0).sys.caches i address true (busOperation (Sys.mk (sys.caches.set i (Cache.mk (sys.caches.getD i default).coreId (sys.caches.getD i default).setIndexBits (sys.caches.getD i default).blockOffsetBits (sys.caches.getD i default).associativity (sys.caches.getD i default).sets true (sys.caches.getD i default).blockedCycles ((sys.caches.getD i default).stats.incrementAccesses.incrementWrites.incrementWriteMisses))) sys.bus) BusOperation.BusRdX address i false 0).cycles ((busOperation (Sys.mk (sys.caches.set i (Cache.mk (sys.caches.getD i default).coreId (sys.caches.getD i default).setIndexBits (sys.caches.getD i default).blockOffsetBits (sys.caches.getD i default).associativity (sys.caches.getD i default).sets true (sys.caches.getD i default).blockedCycles ((sys.caches.getD i default).stats.incrementAccesses.incrementWrites.incrementWriteMisses))) sys.bus) BusOperation.BusRdX address i false 0).accepted && (busOperation (Sys.mk (sys.caches.set i (Cache.mk (sys.caches.getD i default).coreId (sys.caches.getD i default).setIndexBits (sys.caches.getD i default).blockOffsetBits (sys.caches.getD i default).associativity (sys.caches.getD i default).sets true (sys.caches.getD i default).blockedCycles ((sys.caches.getD i default).stats.incrementAccesses.incrementWrites.incrementWriteMisses))) sys.bus) BusOperation.BusRdX address i false 0).dataProvided)).1.getD i default) with blockedCycles := if (allocateLine (busOperation (Sys.mk (sys.caches.set i (Cache.mk (sys.caches.getD i default).coreId (sys.caches.getD i default).setIndexBits (sys.caches.getD i default).blockOffsetBits (sys.caches.getD i default).associativity (sys.caches.getD i default).sets true (sys.caches.getD i default).blockedCycles ((sys.caches.getD i default).stats.incrementAccesses.incrementWrites.incrementWriteMisses))) sys.bus) BusOperation.BusRdX address i false 0).sys.caches i address true (busOperation (Sys.mk (sys.caches.set i (Cache.mk (sys.caches.getD i default).coreId (sys.caches.getD i default).setIndexBits (sys.caches.getD i default).blockOffsetBits (sys.caches.getD i default).associativity (sys.caches.getD i default).sets true (sys.caches.getD i default).blockedCycles ((sys.caches.getD i default).stats.incrementAccesses.incrementWrites.incrementWriteMisses))) sys.bus) BusOperation.BusRdX address i false 0).cycles ((busOperation (Sys.mk (sys.caches.set i (Cache.mk (sys.caches.getD i default).coreId (sys.caches.getD i default).setIndexBits (sys.caches.getD i default).blockOffsetBits (sys.caches.getD i default).associativity (sys.caches.getD i default).sets true (sys.caches.getD i default).blockedCycles ((sys.caches.getD i default).stats.incrementAccesses.incrementWrites.incrementWriteMisses))) sys.bus) BusOperation.BusRdX address i false 0).accepted && (busOperation (Sys.mk (sys.caches.set i (Cache.mk (sys.caches.getD i default).coreId (sys.caches.getD i default).setIndexBits (sys.caches.getD i default).blockOffsetBits (sys.caches.getD i default).associativity (sys.caches.getD i default).sets true (sys.caches.getD i default).blockedCycles ((sys.caches.getD i default).stats.incrementAccesses.incrementWrites.incrementWriteMisses))) sys.bus) BusOperation.BusRdX address i false 0).dataProvided)).2 > 0 then (allocateLine (busOperation (Sys.mk (sys.caches.set i (Cache.mk (sys.caches.getD i default).coreId (sys.caches.getD i default).setIndexBits (sys.caches.getD i default).blockOffsetBits (sys.caches.getD i default).associativity (sys.caches.getD i default).sets true (sys.caches.getD i default).blockedCycles ((sys.caches.getD i default).stats.incrementAccesses.incrementWrites.incrementWriteMisses))) sys.bus) BusOperation.BusRdX address i false 0).sys.caches i address true (busOperation (Sys.mk (sys.caches.set i (Cache.mk (sys.caches.getD i default).coreId (sys.caches.getD i default).setIndexBits (sys.caches.getD i default).blockOffsetBits (sys.caches.getD i default).associativity (sys.caches.getD i default).sets true (sys.caches.getD i default).blockedCycles ((sys.caches.getD i default).stats.incrementAccesses.incrementWrites.incrementWriteMisses))) sys.bus) BusOperation.BusRdX address i false 0).cycles ((busOperation (Sys.mk (sys.caches.set i (Cache.mk (sys.caches.getD i default).coreId (sys.caches.getD i default).setIndexBits (sys.caches.getD i default).blockOffsetBits (sys.caches.getD i default).associativity (sys.caches.getD i default).sets true (sys.caches.getD i default).blockedCycles ((sys.caches.getD i default).stats.incrementAccesses.incrementWrites.incrementWriteMisses))) sys.bus) BusOperation.BusRdX address i false 0).accepted && (busOperation (Sys.mk (sys.caches.set i (Cache.mk (sys.caches.getD i default).coreId (sys.caches.getD i default).setIndexBits (sys.caches.getD i default).blockOffsetBits (sys.caches.getD i default).associativity (sys.caches.getD i default).sets true (sys.caches.getD i default).blockedCycles ((sys.caches.getD i default).stats.incrementAccesses.incrementWrites.incrementWriteMisses))) sys.bus) BusOperation.BusRdX address i false 0).dataProvided)).2 - 1 else 0 } :=
    getD_set_self _ _ _ _ (by rw [g1]; exact hi)
  rw [cacheWrite_eq_miss sys i address cycles hbl hfl hcore]
  refine ⟨rfl, ?_⟩
  show ((((allocateLine (busOperation (Sys.mk (sys.caches.set i (Cache.mk (sys.caches.getD i default).coreId (sys.caches.getD i default).setIndexBits (sys.caches.getD i default).blockOffsetBits (sys.caches.getD i default).associativity (sys.caches.getD i default).sets true (sys.caches.getD i default).blockedCycles ((sys.caches.getD i default).stats.incrementAccesses.incrementWrites.incrementWriteMisses))) sys.bus) BusOperation.BusRdX address i false 0).sys.caches i address true (busOperation (Sys.mk (sys.caches.set i (Cache.mk (sys.caches.getD i default).coreId (sys.caches.getD i default).setIndexBits (sys.caches.getD i default).blockOffsetBits (sys.caches.getD i default).associativity (sys.caches.getD i default).sets true (sys.caches.getD i default).blockedCycles ((sys.caches.getD i default).stats.incrementAccesses.incrementWrites.incrementWriteMisses))) sys.bus) BusOperation.BusRdX address i false 0).cycles ((busOperation (Sys.mk (sys.caches.set i (Cache.mk (sys.caches.getD i default).coreId (sys.caches.getD i default).setIndexBits (sys.caches.getD i default).blockOffsetBits (sys.caches.getD i default).associativity (sys.caches.getD i default).sets true (sys.caches.getD i default).blockedCycles ((sys.caches.getD i default).stats.incrementAccesses.incrementWrites.incrementWriteMisses))) sys.bus) BusOperation.BusRdX address i false 0).accepted && (busOperation (Sys.mk (sys.caches.set i (Cache.mk (sys.caches.getD i default).coreId (sys.caches.getD i default).setIndexBits (sys.caches.getD i default).blockOffsetBits (sys.caches.getD i default).associativity (sys.caches.getD i default).sets true (sys.caches.getD i default).blockedCycles ((sys.caches.getD i default).stats.incrementAccesses.incrementWrites.incrementWriteMisses))) sys.bus) BusOperation.BusRdX address i false 0).dataProvided)).1.set i { ((allocateLine (busOperation (Sys.mk (sys.caches.set i (Cache.mk (sys.caches.getD i default).coreId (sys.caches.getD i default).setIndexBits (sys.caches.getD i default).blockOffsetBits (sys.caches.getD i default).associativity (sys.caches.getD i default).sets true (sys.caches.getD i default).blockedCycles ((sys.caches.getD i default).stats.incrementAccesses.incrementWrites.incrementWriteMisses))) sys.bus) BusOperation.BusRdX address i false 0).sys.caches i address true (busOperation (Sys.mk (sys.caches.set i (Cache.mk (sys.caches.getD i default).coreId (sys.caches.getD i default).setIndexBits (sys.caches.getD i default).blockOffsetBits (sys.caches.getD i default).associativity (sys.caches.getD i default).sets true (sys.caches.getD i default).blockedCycles ((sys.caches.getD i default).stats.incrementAccesses.incrementWrites.incrementWriteMisses))) sys.bus) BusOperation.BusRdX address i false 0).cycles ((busOperation (Sys.mk (sys.caches.set i (Cache.mk (sys.caches.getD i default).coreId (sys.caches.getD i default).setIndexBits (sys.caches.getD i default).blockOffsetBits (sys.caches.getD i default).associativity (sys.caches.getD i default).sets true (sys.caches.getD i default).blockedCycles ((sys.caches.getD i default).stats.incrementAccesses.incrementWrites.incrementWriteMisses))) sys.bus) BusOperation.BusRdX address i false 0).accepted && (busOperation (Sys.mk (sys.caches.set i (Cache.mk (sys.caches.getD i default).coreId (sys.caches.getD i default).setIndexBits (sys.caches.getD i default).blockOffsetBits (sys.caches.getD i default).associativity (sys.caches.getD i default).sets true (sys.caches.getD i default).blockedCycles ((sys.caches.getD i default).stats.incrementAccesses.incrementWrites.incrementWriteMisses))) sys.bus) BusOperation.BusRdX address i false 0).dataProvided)).1.getD i default) with blockedCycles := if (allocateLine (busOperation (Sys.mk (sys.caches.set i (Cache.mk (sys.caches.getD i default).coreId (sys.caches.getD i default).setIndexBits (sys.caches.getD i default).blockOffsetBits (sys.caches.getD i default).associativity (sys.caches.getD i default).sets true (sys.caches.getD i default).blockedCycles ((sys.caches.getD i default).stats.incrementAccesses.incrementWrites.incrementWriteMisses))) sys.bus) BusOperation.BusRdX address i false 0).sys.caches i address true (busOperation (Sys.mk (sys.caches.set i (Cache.mk (sys.caches.getD i default).coreId (sys.caches.getD i default).setIndexBits (sys.caches.getD i default).blockOffsetBits (sys.caches.getD i default).associativity (sys.caches.getD i default).sets true (sys.caches.getD i default).blockedCycles ((sys.caches.getD i default).stats.incrementAccesses.incrementWrites.incrementWriteMisses))) sys.bus) BusOperation.BusRdX address i false 0).cycles ((busOperation (Sys.mk (sys.caches.set i (Cache.mk (sys.caches.getD i default).coreId (sys.caches.getD i default).setIndexBits (sys.caches.getD i default).blockOffsetBits (sys.caches.getD i default).associativity (sys.caches.getD i default).sets true (sys.caches.getD i default).blockedCycles ((sys.caches.getD i default).stats.incrementAccesses.incrementWrites.incrementWriteMisses))) sys.bus) BusOperation.BusRdX address i false 0).accepted && (busOperation (Sys.mk (sys.caches.set i (Cache.mk (sys.caches.getD i default).coreId (sys.caches.getD i default).setIndexBits (sys.caches.getD i default).blockOffsetBits (sys.caches.getD i default).associativity (sys.caches.getD i default).sets true (sys.caches.getD i default).blockedCycles ((sys.caches.getD i default).stats.incrementAccesses.incrementWrites.incrementWriteMisses))) sys.bus) BusOperation.BusRdX address i false 0).dataProvided)).2 > 0 then (allocateLine (busOperation (Sys.mk (sys.caches.set i (Cache.mk (sys.caches.getD i default).coreId (sys.caches.getD i default).setIndexBits (sys.caches.getD i default).blockOffsetBits (sys.caches.getD i default).associativity (sys.caches.getD i default).sets true (sys.caches.getD i default).blockedCycles ((sys.caches.getD i default).stats.incrementAccesses.incrementWrites.incrementWriteMisses))) sys.bus) BusOperation.BusRdX address i false 0).sys.caches i address true (busOperation (Sys.mk (sys.caches.set i (Cache.mk (sys.caches.getD i default).coreId (sys.caches.getD i default).setIndexBits (sys.caches.getD i default).blockOffsetBits (sys.caches.getD i default).associativity (sys.caches.getD i default).sets true (sys.caches.getD i default).blockedCycles ((sys.caches.getD i default).stats.incrementAccesses.incrementWrites.incrementWriteMisses))) sys.bus) BusOperation.BusRdX address i false 0).cycles ((busOperation (Sys.mk (sys.caches.set i (Cache.mk (sys.caches.getD i default).coreId (sys.caches.getD i default).setIndexBits (sys.caches.getD i default).blockOffsetBits (sys.caches.getD i default).associativity (sys.caches.getD i default).sets true (sys.caches.getD i default).blockedCycles ((sys.caches.getD i default).stats.incrementAccesses.incrementWrites.incrementWriteMisses))) sys.bus) BusOperation.BusRdX address i false 0).accepted && (busOperation (Sys.mk (sys.caches.set i (Cache.mk (sys.caches.getD i default).coreId (sys.caches.getD i default).setIndexBits (sys.caches.getD i default).blockOffsetBits (sys.caches.getD i default).associativity (sys.caches.getD i default).sets true (sys.caches.getD i default).blockedCycles ((sys.caches.getD i default).stats.incrementAccesses.incrementWrites.incrementWriteMisses))) sys.bus) BusOperation.BusRdX address i false 0).dataProvided)).2 - 1 else 0 }) : List Cache).getD i default).isBlocked = false
  rw [hFgI]
  exact g4

/-! ### The claims -/

/-- Claim C1: coherence exclusivity invariant — in every state reachable by
the Simulator's tick loop (reads, writes with their snoops and evictions
including the silent SHARED-to-EXCLUSIVE promotion, bus cycles, unblocks
and resets), whenever some cache holds a block in MODIFIED or EXCLUSIVE,
every other cache holds that block in INVALID, i.e. in no valid state. -/
theorem claim_C1_coherence_exclusivity (n sb assoc bob : Nat) (hassoc : 0 < assoc)
    (sys : Sys) (hr : Reachable n sb assoc bob sys) :
    MesiOK n sys.caches :=
  (reachable_Inv n sb assoc bob hassoc sys hr).2

theorem claim_C1_coherence_exclusivity_witness :
    0 < 2 ∧ Reachable 2 1 2 2 (cacheWrite (initSys 2 1 2 2) 0 0 0).sys ∧
    MesiOK 2 (cacheWrite (initSys 2 1 2 2) 0 0 0).sys.caches :=
  ⟨by decide,
    Reachable.step Reachable.init (Step.write (initSys 2 1 2 2) 0 0 (by decide) (by decide)),
    claim_C1_coherence_exclusivity 2 1 2 2 (by decide) _
      (Reachable.step Reachable.init (Step.write (initSys 2 1 2 2) 0 0 (by decide) (by decide)))⟩

/-- Claim C2 (corrected): after a cache accepts a read or write miss it is
NOT blocking on any subsequent tick — `Cache::allocateLine` clears
`isBlocked` before returning, so `isBlocking()` is already false when the
missing access itself returns; the cache never stays blocked for
`busCycles - 1` ticks. -/
theorem claim_C2_post_miss_never_blocking (n sb assoc bob : Nat) (sys : Sys)
    (hinv : Inv n sb assoc bob sys) (hassoc : 0 < assoc)
    (i : Nat) (hi : i < n) (address : Nat) (cycles : Int)
    (hbl : (sys.caches.getD i default).isBlocked = false)
    (hfl : (((sys.caches.getD i default).sets.getD ((sys.caches.getD i default).getSetIndex address) default).findLine ((sys.caches.getD i default).getTag address)) = none) :
    ((cacheRead sys i address cycles).accepted = true ∧
      ((cacheRead sys i address cycles).sys.caches.getD i default).isBlocking = false) ∧
    ((cacheWrite sys i address cycles).accepted = true ∧
      ((cacheWrite sys i address cycles).sys.caches.getD i default).isBlocking = false) := by
  obtain ⟨h1, h2, _, _⟩ :=
    cacheRead_miss_post n sb assoc bob sys hinv hassoc i hi address cycles hbl hfl
  obtain ⟨h3, h4⟩ :=
    cacheWrite_miss_post n sb assoc bob sys hinv hassoc i hi address cycles hbl hfl
  exact ⟨⟨h1, h2⟩, ⟨h3, h4⟩⟩

theorem claim_C2_post_miss_never_blocking_witness :
    ((initSys 2 1 2 2).caches.getD 0 default).isBlocked = false ∧
    ((((initSys 2 1 2 2).caches.getD 0 default).sets.getD (((initSys 2 1 2 2).caches.getD 0 default).getSetIndex 0) default).findLine (((initSys 2 1 2 2).caches.getD 0 default).getTag 0)) = none ∧
    (((cacheRead (initSys 2 1 2 2) 0 0 0).accepted = true ∧
        ((cacheRead (initSys 2 1 2 2) 0 0 0).sys.caches.getD 0 default).isBlocking = false) ∧
      ((cacheWrite (initSys 2 1 2 2) 0 0 0).accepted = true ∧
        ((cacheWrite (initSys 2 1 2 2) 0 0 0).sys.caches.getD 0 default).isBlocking = false)) :=
  ⟨rfl, rfl, claim_C2_post_miss_never_blocking 2 1 2 2 (initSys 2 1 2 2)
    (initSys_Inv 2 1 2 2) (by decide) 0 (by decide) 0 0 rfl rfl⟩

theorem claim_C2_counterexample :
    (cacheRead (initSys 2 1 2 2) 0 0 0).accepted = true ∧
    (cacheRead (initSys 2 1 2 2) 0 0 0).sys.bus.currentCycles = 100 ∧
    ((cacheRead (initSys 2 1 2 2) 0 0 0).sys.caches.getD 0 default).isBlocking = false ∧
    (100 : Int) - 1 ≠ 0 :=
  ⟨rfl, rfl, rfl, by decide⟩

/-- Claim C3 (code bug): `Bus::busOperation` sets `busy = false` before
returning even when it accepts a transaction with latency 100, so the bus
never reports `isBusy() = true` after accepting — on the very first `BusRd`
of a fresh two-core machine the call is accepted with 100 cycles of
latency, yet `busy` is already false. -/
theorem claim_C3_bus_never_busy :
    (busOperation (initSys 2 1 2 2) BusOperation.BusRd 0 0 false 0).accepted = true ∧
    (busOperation (initSys 2 1 2 2) BusOperation.BusRd 0 0 false 0).cycles = 100 ∧
    (busOperation (initSys 2 1 2 2) BusOperation.BusRd 0 0 false 0).sys.bus.busy = false :=
  ⟨rfl, rfl, rfl⟩

/-- Claim C4 (corrected): read-miss postcondition — the call is accepted
and the allocated line is SHARED iff the bus reported data provided, but
the returned cycle count is `busCycles` plus a 100-cycle victim-writeback
charge when a MODIFIED line is evicted; it is never `1 + busCycles`. -/
theorem claim_C4_read_miss_postcondition (n sb assoc bob : Nat) (sys : Sys)
    (hinv : Inv n sb assoc bob sys) (hassoc : 0 < assoc)
    (i : Nat) (hi : i < n) (address : Nat) (cycles : Int)
    (hbl : (sys.caches.getD i default).isBlocked = false)
    (hfl : (((sys.caches.getD i default).sets.getD ((sys.caches.getD i default).getSetIndex address) default).findLine ((sys.caches.getD i default).getTag address)) = none) :
    (cacheRead sys i address cycles).accepted = true ∧
    ((cacheRead sys i address cycles).sys.caches.getD i default).stateAt (addrSetIdx sb bob address) (addrTag sb bob address)
      = (if (busOperation (Sys.mk (sys.caches.set i (Cache.mk (sys.caches.getD i default).coreId (sys.caches.getD i default).setIndexBits (sys.caches.getD i default).blockOffsetBits (sys.caches.getD i default).associativity (sys.caches.getD i default).sets true (sys.caches.getD i default).blockedCycles ((sys.caches.getD i default).stats.incrementAccesses.incrementReads.incrementReadMisses))) sys.bus) BusOperation.BusRd address i false 0).dataProvided = true then CacheState.SHARED else CacheState.EXCLUSIVE) ∧
    (cacheRead sys i address cycles).cycles
      = cycles + (busOperation (Sys.mk (sys.caches.set i (Cache.mk (sys.caches.getD i default).coreId (sys.caches.getD i default).setIndexBits (sys.caches.getD i default).blockOffsetBits (sys.caches.getD i default).associativity (sys.caches.getD i default).sets true (sys.caches.getD i default).blockedCycles ((sys.caches.getD i default).stats.incrementAccesses.incrementReads.incrementReadMisses))) sys.bus) BusOperation.BusRd address i false 0).cycles
        + (if ((sys.caches.getD i default).sets.getD (addrSetIdx sb bob address) default).isFull = true ∧
              (((sys.caches.getD i default).sets.getD (addrSetIdx sb bob address) default).lines.getD ((sys.caches.getD i default).sets.getD (addrSetIdx sb bob address) default).getLRUIndex default).state = CacheState.MODIFIED
           then 100 else 0) := by
  obtain ⟨h1, _, h3, h4⟩ :=
    cacheRead_miss_post n sb assoc bob sys hinv hassoc i hi address cycles hbl hfl
  exact ⟨h1, h3, h4⟩

theorem claim_C4_read_miss_postcondition_witness :
    ((initSys 2 1 2 2).caches.getD 0 default).isBlocked = false ∧
    ((((initSys 2 1 2 2).caches.getD 0 default).sets.getD (((initSys 2 1 2 2).caches.getD 0 default).getSetIndex 0) default).findLine (((initSys 2 1 2 2).caches.getD 0 default).getTag 0)) = none ∧
    ((cacheRead (initSys 2 1 2 2) 0 0 0).accepted = true ∧
    ((cacheRead (initSys 2 1 2 2) 0 0 0).sys.caches.getD 0 default).stateAt (addrSetIdx 1 2 0) (addrTag 1 2 0)
      = (if (busOperation (Sys.mk ((initSys 2 1 2 2).caches.set 0 (Cache.mk ((initSys 2 1 2 2).caches.getD 0 default).coreId ((initSys 2 1 2 2).caches.getD 0 default).setIndexBits ((initSys 2 1 2 2).caches.getD 0 default).blockOffsetBits ((initSys 2 1 2 2).caches.getD 0 default).associativity ((initSys 2 1 2 2).caches.getD 0 default).sets true ((initSys 2 1 2 2).caches.getD 0 default).blockedCycles (((initSys 2 1 2 2).caches.getD 0 default).stats.incrementAccesses.incrementReads.incrementReadMisses))) (initSys 2 1 2 2).bus) BusOperation.BusRd 0 0 false 0).dataProvided = true then CacheState.SHARED else CacheState.EXCLUSIVE) ∧
    (cacheRead (initSys 2 1 2 2) 0 0 0).cycles
      = 0 + (busOperation (Sys.mk ((initSys 2 1 2 2).caches.set 0 (Cache.mk ((initSys 2 1 2 2).caches.getD 0 default).coreId ((initSys 2 1 2 2).caches.getD 0 default).setIndexBits ((initSys 2 1 2 2).caches.getD 0 default).blockOffsetBits ((initSys 2 1 2 2).caches.getD 0 default).associativity ((initSys 2 1 2 2).caches.getD 0 default).sets true ((initSys 2 1 2 2).caches.getD 0 default).blockedCycles (((initSys 2 1 2 2).caches.getD 0 default).stats.incrementAccesses.incrementReads.incrementReadMisses))) (initSys 2 1 2 2).bus) BusOperation.BusRd 0 0 false 0).cycles
        + (if (((initSys 2 1 2 2).caches.getD 0 default).sets.getD (addrSetIdx 1 2 0) default).isFull = true ∧
              ((((initSys 2 1 2 2).caches.getD 0 default).sets.getD (addrSetIdx 1 2 0) default).lines.getD (((initSys 2 1 2 2).caches.getD 0 default).sets.getD (addrSetIdx 1 2 0) default).getLRUIndex default).state = CacheState.MODIFIED
           then 100 else 0)) :=
  ⟨rfl, rfl, claim_C4_read_miss_postcondition 2 1 2 2 (initSys 2 1 2 2)
    (initSys_Inv 2 1 2 2) (by decide) 0 (by decide) 0 0 rfl rfl⟩

theorem claim_C4_counterexample :
    (cacheRead (initSys 2 1 2 2) 0 0 0).accepted = true ∧
    (cacheRead (initSys 2 1 2 2) 0 0 0).sys.bus.currentCycles = 100 ∧
    (cacheRead (initSys 2 1 2 2) 0 0 0).cycles = 100 ∧
    (100 : Int) ≠ 1 + 100 :=
  ⟨rfl, rfl, rfl, by decide⟩

/-- Claim C5 (corrected): snoop cost — the cycles a snoop adds are given by
the table `snoopCost` over the snooped line's state: `BusRd` charges
`2·(blockSize/4)` plus 100 exactly when the state is MODIFIED, but `BusRdX`
charges a flat 200 for MODIFIED and a flat 100 for EXCLUSIVE or SHARED
(not `2·(blockSize/4)` plus a conditional 100), and `BusUpgr` charges
`2·(blockSize/4)` with no writeback surcharge even for MODIFIED; a snoop
that finds no matching valid line (state INVALID) adds zero. -/
theorem claim_C5_snoop_cost (c : Cache) (op : BusOperation) (address sourceId : Nat)
    (pd : Bool) (cy : Int) (hsrc : sourceId ≠ c.coreId)
    (hlen : c.sets.length = 2 ^ c.setIndexBits)
    (hu : (c.sets.getD (c.getSetIndex address) default).tagUnique) :
    (c.snoop op address sourceId pd cy).cycles
      = cy + snoopCost op (c.stateAt (c.getSetIndex address) (c.getTag address)) c.blockSize ∧
    snoopCost op CacheState.INVALID c.blockSize = 0 := by
  refine ⟨(snoop_spec c op address sourceId pd cy hsrc hlen hu).2.2.2.2.1, ?_⟩
  cases op <;> rfl

theorem claim_C5_snoop_cost_witness :
    (1 : Nat) ≠ ((initSys 2 1 2 2).caches.getD 0 default).coreId ∧
    ((initSys 2 1 2 2).caches.getD 0 default).sets.length = 2 ^ ((initSys 2 1 2 2).caches.getD 0 default).setIndexBits ∧
    (((initSys 2 1 2 2).caches.getD 0 default).sets.getD (((initSys 2 1 2 2).caches.getD 0 default).getSetIndex 0) default).tagUnique ∧
    ((((initSys 2 1 2 2).caches.getD 0 default).snoop BusOperation.BusRd 0 1 false 0).cycles
        = 0 + snoopCost BusOperation.BusRd
            (((initSys 2 1 2 2).caches.getD 0 default).stateAt (((initSys 2 1 2 2).caches.getD 0 default).getSetIndex 0) (((initSys 2 1 2 2).caches.getD 0 default).getTag 0)) ((initSys 2 1 2 2).caches.getD 0 default).blockSize ∧
      snoopCost BusOperation.BusRd CacheState.INVALID ((initSys 2 1 2 2).caches.getD 0 default).blockSize = 0) := by
  have hu := (((initSys_Inv 2 1 2 2).1.2.1 0 (by decide)).2.2.2.2.2
      (((initSys 2 1 2 2).caches.getD 0 default).getSetIndex 0) (by decide)).2.2
  exact ⟨by decide, rfl, hu,
    claim_C5_snoop_cost ((initSys 2 1 2 2).caches.getD 0 default) BusOperation.BusRd 0 1 false 0 (by decide) rfl hu⟩

theorem claim_C5_counterexample :
    ((cacheWrite (initSys 2 1 2 2) 0 0 0).sys.caches.getD 0 default).lineState 0 = CacheState.MODIFIED ∧
    (((cacheWrite (initSys 2 1 2 2) 0 0 0).sys.caches.getD 0 default).snoop BusOperation.BusRdX 0 1 false 0).cycles = 200 ∧
    2 * ((((cacheWrite (initSys 2 1 2 2) 0 0 0).sys.caches.getD 0 default).blockSize / 4 : Nat) : Int) + 100 = 102 ∧
    (200 : Int) ≠ 102 :=
  ⟨rfl, rfl, by decide, by decide⟩

/-- Claim C6 (corrected): in the false-sharing scenario (two cores,
s = 1, E = 2, b = 5, writes core 0 at 0x00, core 1 at 0x04, core 0 at
0x00, core 1 at 0x04, all one block) every one of the four accesses is a
write miss issuing `BusRdX` — writes to a SHARED line would use `BusUpgr`,
but each write leaves the writer MODIFIED and invalidates the peer, so the
final counts are busReadXs = 4, busUpgrades = 0, invalidations = 3. -/
theorem claim_C6_false_sharing :
    (cacheWrite (initSys 2 1 2 5) 0 0 0).accepted = true ∧ (cacheWrite (cacheWrite (initSys 2 1 2 5) 0 0 0).sys 1 4 0).accepted = true ∧
    (cacheWrite (cacheWrite (cacheWrite (initSys 2 1 2 5) 0 0 0).sys 1 4 0).sys 0 0 0).accepted = true ∧ (cacheWrite (cacheWrite (cacheWrite (cacheWrite (initSys 2 1 2 5) 0 0 0).sys 1 4 0).sys 0 0 0).sys 1 4 0).accepted = true ∧
    (cacheWrite (cacheWrite (cacheWrite (cacheWrite (initSys 2 1 2 5) 0 0 0).sys 1 4 0).sys 0 0 0).sys 1 4 0).sys.bus.stats.busReadXs = 4 ∧
    (cacheWrite (cacheWrite (cacheWrite (cacheWrite (initSys 2 1 2 5) 0 0 0).sys 1 4 0).sys 0 0 0).sys 1 4 0).sys.bus.stats.busUpgrades = 0 ∧
    ((cacheWrite (cacheWrite (cacheWrite (cacheWrite (initSys 2 1 2 5) 0 0 0).sys 1 4 0).sys 0 0 0).sys 1 4 0).sys.caches.getD 0 default).stats.invalidations
      + ((cacheWrite (cacheWrite (cacheWrite (cacheWrite (initSys 2 1 2 5) 0 0 0).sys 1 4 0).sys 0 0 0).sys 1 4 0).sys.caches.getD 1 default).stats.invalidations = 3 ∧
    ((cacheWrite (cacheWrite (cacheWrite (cacheWrite (initSys 2 1 2 5) 0 0 0).sys 1 4 0).sys 0 0 0).sys 1 4 0).sys.caches.getD 0 default).stats.writeMisses = 2 ∧
    ((cacheWrite (cacheWrite (cacheWrite (cacheWrite (initSys 2 1 2 5) 0 0 0).sys 1 4 0).sys 0 0 0).sys 1 4 0).sys.caches.getD 1 default).stats.writeMisses = 2 :=
  ⟨rfl, rfl, rfl, rfl, rfl, rfl, rfl, rfl, rfl⟩

theorem claim_C6_counterexample :
    (cacheWrite (cacheWrite (cacheWrite (cacheWrite (initSys 2 1 2 5) 0 0 0).sys 1 4 0).sys 0 0 0).sys 1 4 0).sys.bus.stats.busReadXs = 4 ∧
    (cacheWrite (cacheWrite (cacheWrite (cacheWrite (initSys 2 1 2 5) 0 0 0).sys 1 4 0).sys 0 0 0).sys 1 4 0).sys.bus.stats.busUpgrades = 0 ∧
    (4 : Nat) ≠ 2 ∧ (0 : Nat) ≠ 2 :=
  ⟨rfl, rfl, by decide, by decide⟩

/-- Claim C7: allocation policy — `CacheSet::allocateLine(tag)` returns the
first INVALID slot when one exists, and otherwise the slot with the
maximum LRU counter taking the lowest index on ties; in both cases the
chosen slot's tag is set to the given tag and its LRU counter becomes 0,
the minimum of the updated set (most recently used). -/
theorem claim_C7_allocation_policy (s : CacheSet) (tagv : Nat)
    (hlen : s.lruCounter.length = s.lines.length) (hpos : 0 < s.lines.length) :
    ((∃ k, k < s.lines.length ∧ (s.lines.getD k default).isValid = false ∧
        (∀ m, m < k → (s.lines.getD m default).isValid = true) ∧
        (s.allocateLine tagv).1 = k) ∨
      ((∀ m, m < s.lines.length → (s.lines.getD m default).isValid = true) ∧
        (s.allocateLine tagv).1 = s.getLRUIndex ∧
        (∀ m, m < s.lruCounter.length →
          s.lruCounter.getD m 0 ≤ s.lruCounter.getD (s.allocateLine tagv).1 0) ∧
        (∀ m, m < (s.allocateLine tagv).1 →
          s.lruCounter.getD m 0 < s.lruCounter.getD (s.allocateLine tagv).1 0))) ∧
    (s.allocateLine tagv).1 < s.lines.length ∧
    ((s.allocateLine tagv).2.lines.getD (s.allocateLine tagv).1 default).tag = tagv ∧
    (s.allocateLine tagv).2.lruCounter.getD (s.allocateLine tagv).1 0 = 0 ∧
    (∀ m, (s.allocateLine tagv).2.lruCounter.getD (s.allocateLine tagv).1 0 ≤ (s.allocateLine tagv).2.lruCounter.getD m 0) := by
  cases hfi : findInvalidAux s.lines 0 with
  | some k =>
    obtain ⟨hk, hkinv, hkfirst⟩ := (findInvalidAux_eq_some_iff s.lines k).mp hfi
    have h1 : (s.allocateLine tagv).1 = k := by
      unfold CacheSet.allocateLine
      rw [hfi]
    have hL : (s.allocateLine tagv).2.lines
        = s.lines.set k ((s.lines.getD k default).setTag tagv) := by
      unfold CacheSet.allocateLine
      rw [hfi]
      rfl
    have hC : (s.allocateLine tagv).2.lruCounter
        = (s.lruCounter.map (fun x => x + 1)).set k 0 := by
      unfold CacheSet.allocateLine
      rw [hfi]
      rfl
    have hk3 : k < (s.lruCounter.map (fun x => x + 1)).length := by
      rw [List.length_map, hlen]
      exact hk
    refine ⟨Or.inl ⟨k, hk, hkinv, hkfirst, h1⟩, ?_, ?_, ?_, ?_⟩
    · rw [h1]
      exact hk
    · rw [h1, hL, getD_set_self _ _ _ _ hk]
      rfl
    · rw [h1, hC, getD_set_self _ _ _ _ hk3]
    · intro m
      rw [h1, hC, getD_set_self _ _ _ _ hk3]
      exact Nat.zero_le _
  | none =>
    have hall : ∀ m, m < s.lines.length → (s.lines.getD m default).isValid = true := by
      intro m hm
      by_contra hc
      have hinv2 : (s.lines.getD m default).isValid = false := by
        cases hb : (s.lines.getD m default).isValid
        · rfl
        · exact absurd hb hc
      obtain ⟨k, hk, hkinv, hkf⟩ := exists_first_invalid s.lines ⟨m, hm, hinv2⟩
      have hsome : findInvalidAux s.lines 0 = some k :=
        (findInvalidAux_eq_some_iff s.lines k).mpr ⟨hk, hkinv, hkf⟩
      rw [hfi] at hsome
      cases hsome
    obtain ⟨hlt, hmax, hfirstmax⟩ := getLRUIndex_argmax s (by rw [hlen]; exact hpos)
    have hltL : s.getLRUIndex < s.lines.length := by
      rw [← hlen]
      exact hlt
    have h1 : (s.allocateLine tagv).1 = s.getLRUIndex := by
      unfold CacheSet.allocateLine
      rw [hfi]
    have hL : (s.allocateLine tagv).2.lines
        = s.lines.set s.getLRUIndex ((s.lines.getD s.getLRUIndex default).setTag tagv) := by
      unfold CacheSet.allocateLine
      rw [hfi]
      rfl
    have hC : (s.allocateLine tagv).2.lruCounter
        = (s.lruCounter.map (fun x => x + 1)).set s.getLRUIndex 0 := by
      unfold CacheSet.allocateLine
      rw [hfi]
      rfl
    have hk3 : s.getLRUIndex < (s.lruCounter.map (fun x => x + 1)).length := by
      rw [List.length_map]
      exact hlt
    refine ⟨Or.inr ⟨hall, h1, ?_, ?_⟩, ?_, ?_, ?_, ?_⟩
    · intro m hm
      rw [h1]
      exact hmax m hm
    · intro m hm
      rw [h1] at hm
      rw [h1]
      exact hfirstmax m hm
    · rw [h1]
      exact hltL
    · rw [h1, hL, getD_set_self _ _ _ _ hltL]
      rfl
    · rw [h1, hC, getD_set_self _ _ _ _ hk3]
    · intro m
      rw [h1, hC, getD_set_self _ _ _ _ hk3]
      exact Nat.zero_le _

theorem claim_C7_allocation_policy_witness :
    (CacheSet.init 2).lruCounter.length = (CacheSet.init 2).lines.length ∧
    0 < (CacheSet.init 2).lines.length ∧
    (((∃ k, k < (CacheSet.init 2).lines.length ∧ ((CacheSet.init 2).lines.getD k default).isValid = false ∧
        (∀ m, m < k → ((CacheSet.init 2).lines.getD m default).isValid = true) ∧
        ((CacheSet.init 2).allocateLine 5).1 = k) ∨
      ((∀ m, m < (CacheSet.init 2).lines.length → ((CacheSet.init 2).lines.getD m default).isValid = true) ∧
        ((CacheSet.init 2).allocateLine 5).1 = (CacheSet.init 2).getLRUIndex ∧
        (∀ m, m < (CacheSet.init 2).lruCounter.length →
          (CacheSet.init 2).lruCounter.getD m 0 ≤ (CacheSet.init 2).lruCounter.getD ((CacheSet.init 2).allocateLine 5).1 0) ∧
        (∀ m, m < ((CacheSet.init 2).allocateLine 5).1 →
          (CacheSet.init 2).lruCounter.getD m 0 < (CacheSet.init 2).lruCounter.getD ((CacheSet.init 2).allocateLine 5).1 0))) ∧
    ((CacheSet.init 2).allocateLine 5).1 < (CacheSet.init 2).lines.length ∧
    (((CacheSet.init 2).allocateLine 5).2.lines.getD ((CacheSet.init 2).allocateLine 5).1 default).tag = 5 ∧
    ((CacheSet.init 2).allocateLine 5).2.lruCounter.getD ((CacheSet.init 2).allocateLine 5).1 0 = 0 ∧
    (∀ m, ((CacheSet.init 2).allocateLine 5).2.lruCounter.getD ((CacheSet.init 2).allocateLine 5).1 0 ≤ ((CacheSet.init 2).allocateLine 5).2.lruCounter.getD m 0)) :=
  ⟨rfl, by decide, claim_C7_allocation_policy (CacheSet.init 2) 5 rfl (by decide)⟩

/-- Claim C8 (code bug): a write hit on an EXCLUSIVE line transitions the
line to MODIFIED with no bus traffic, but the call returns the incoming
`cycles` value unchanged (0 here) instead of the specified `cycles = 1`:
`Cache::write` never assigns 1 on the EXCLUSIVE hit path. -/
theorem claim_C8_write_hit_exclusive :
    ((cacheRead (initSys 2 1 2 2) 0 0 0).sys.caches.getD 0 default).lineState 0 = CacheState.EXCLUSIVE ∧
    (cacheWrite (cacheRead (initSys 2 1 2 2) 0 0 0).sys 0 0 0).accepted = true ∧
    ((cacheWrite (cacheRead (initSys 2 1 2 2) 0 0 0).sys 0 0 0).sys.caches.getD 0 default).lineState 0 = CacheState.MODIFIED ∧
    (cacheWrite (cacheRead (initSys 2 1 2 2) 0 0 0).sys 0 0 0).sys.bus.stats = (cacheRead (initSys 2 1 2 2) 0 0 0).sys.bus.stats ∧
    (cacheWrite (cacheRead (initSys 2 1 2 2) 0 0 0).sys 0 0 0).cycles = 0 :=
  ⟨rfl, rfl, rfl, rfl, rfl⟩

/-- Claim C9 (code bug): a malformed trace line is consumed with
`loadNextReference` returning false, and `Processor::executeCycle` treats
that false exactly like EOF — after a preload stopped by one bad line, the
first execute cycle hits the second bad line and sets `traceComplete`
even though a well-formed `R 0` reference still remains unread in the
trace, with no instruction ever executed. -/
theorem claim_C9_parse_error_ends_trace :
    (executeCycle (Processor.init 0 [TraceLine.badOp, TraceLine.badOp, TraceLine.good MemoryOperation.READ 0]) (initSys 1 1 2 2)).proc.traceComplete = true ∧
    (executeCycle (Processor.init 0 [TraceLine.badOp, TraceLine.badOp, TraceLine.good MemoryOperation.READ 0]) (initSys 1 1 2 2)).proc.remaining = [TraceLine.good MemoryOperation.READ 0] ∧
    TraceLine.isGood (TraceLine.good MemoryOperation.READ 0) = true ∧
    (executeCycle (Processor.init 0 [TraceLine.badOp, TraceLine.badOp, TraceLine.good MemoryOperation.READ 0]) (initSys 1 1 2 2)).proc.totalInstructions = 0 :=
  ⟨rfl, rfl, rfl, rfl⟩

/-- Claim C10: self-snoop is a no-op — when `sourceId` equals the cache's
own core id, `Cache::snoop` returns immediately with `true`, leaving the
cache (all lines, LRU counters and statistics) and both out-parameters
exactly as they were. -/
theorem claim_C10_self_snoop_noop (c : Cache) (op : BusOperation) (address : Nat)
    (pd : Bool) (cy : Int) :
    c.snoop op address c.coreId pd cy = ⟨c, pd, cy, true⟩ := by
  unfold Cache.snoop
  rw [if_pos rfl]

end CacheSim
